import Mathlib

/-! # wgtcc parser (`src/parser.cc`): a shallow embedding and its verified properties

The C++ class `Parser` is a recursive-descent parser with integrated semantic
analysis.  Its member variables become the fields of the structure `Parser`
below, and every member function becomes a state-passing function in the
monad `PM` (state + failure).  Three kinds of failure are distinguished: a
failed `assert`, a dereference of a null pointer, and exhaustion of the
recursion fuel of the embedding.

Pointers to heap objects whose identity or mutation matters (scopes,
identifiers, labels, jump statements, struct types) are modelled by numeric
handles allocated from the counter `Parser.nextId`.  Null pointers to types,
expressions and statements are the constructors `CType.null`, `Expr.null`
and `Stmt.null`.

Declarations of `parser.h`, `scope.h`, `type.h`, `ast.h`, `token.h` and
`error.h` are not part of `src/`; what the parser uses of them is modelled
from the specification and marked so.
-/

set_option linter.unusedVariables false
set_option linter.unusedTactic false
set_option linter.unreachableTactic false

namespace Wgtcc

/-! ## Tokens -/

/-- Modelled from the spec: the named token tags of the absent `token.h`
(multi-character punctuators, keywords, token classes) together with the
operator codes (`POSTFIX_INC` … `ADD`) that `parser.cc` passes to the node
factory.  Single-character punctuators are `Tag.chr`. -/
inductive Kw where
  | PTR_OP | INC_OP | DEC_OP | LEFT_OP | RIGHT_OP | LE_OP | GE_OP | EQ_OP | NE_OP
  | AND_OP | OR_OP | MUL_ASSIGN | DIV_ASSIGN | MOD_ASSIGN | ADD_ASSIGN | SUB_ASSIGN
  | LEFT_ASSIGN | RIGHT_ASSIGN | AND_ASSIGN | XOR_ASSIGN | OR_ASSIGN | ELLIPSIS
  | AUTO | BREAK | CASE | CHAR | CONST | CONTINUE | DEFAULT | DO | DOUBLE | ELSE
  | ENUM | EXTERN | FLOAT | FOR | GOTO | IF | INLINE | INT | LONG | REGISTER
  | RESTRICT | RETURN | SHORT | SIGNED | SIZEOF | STATIC | STRUCT | SWITCH
  | TYPEDEF | UNION | UNSIGNED | VOID | VOLATILE | WHILE | ALIGNAS | ALIGNOF
  | ATOMIC | BOOL | COMPLEX | GENERIC | IMAGINARY | NORETURN | STATIC_ASSERT
  | THREAD
  | IDENTIFIER | I_CONSTANT | F_CONSTANT | STRING_LITERAL | END
  | POSTFIX_INC | POSTFIX_DEC | PREFIX_INC | PREFIX_DEC | ADDR | DEREF | PLUS
  | MINUS | CAST | ADD
  deriving DecidableEq, Repr

/-- The value of `Token::Tag()`: a character code or a named tag. -/
inductive Tag where
  | chr (c : Char)
  | kw (k : Kw)
  deriving DecidableEq, Repr

/-- Modelled from the spec: a token has a tag, a lexeme and a source
coordinate (§3 "Token"). -/
structure Token where
  tag : Tag
  str : String
  coord : Nat
  deriving DecidableEq, Repr

/-- The end-of-input sentinel returned by the cursor past the last token. -/
def Token.eof : Token := { tag := .kw .END, str := "", coord := 0 }

/-- Modelled from the spec: `Token::IsEOF`. -/
def Token.IsEOF (t : Token) : Bool := t.tag == .kw .END

/-- Modelled from the spec: `Token::IsIdentifier`. -/
def Token.IsIdentifier (t : Token) : Bool := t.tag == .kw .IDENTIFIER

/-- Modelled from the spec: `Token::IsConstant` (integer or floating constant). -/
def Token.IsConstant (t : Token) : Bool :=
  t.tag == .kw .I_CONSTANT || t.tag == .kw .F_CONSTANT

/-- Modelled from the spec: `Token::IsString`. -/
def Token.IsString (t : Token) : Bool := t.tag == .kw .STRING_LITERAL

/-- Modelled from the spec: `Token::IsKeyWord`, the keyword tags of `token.h`. -/
def Token.IsKeyWord (t : Token) : Bool :=
  match t.tag with
  | .kw k =>
    match k with
    | .AUTO | .BREAK | .CASE | .CHAR | .CONST | .CONTINUE | .DEFAULT | .DO
    | .DOUBLE | .ELSE | .ENUM | .EXTERN | .FLOAT | .FOR | .GOTO | .IF | .INLINE
    | .INT | .LONG | .REGISTER | .RESTRICT | .RETURN | .SHORT | .SIGNED | .SIZEOF
    | .STATIC | .STRUCT | .SWITCH | .TYPEDEF | .UNION | .UNSIGNED | .VOID
    | .VOLATILE | .WHILE | .ALIGNAS | .ALIGNOF | .ATOMIC | .BOOL | .COMPLEX
    | .GENERIC | .IMAGINARY | .NORETURN | .STATIC_ASSERT | .THREAD => true
    | _ => false
  | .chr _ => false

/-! ## Specifier bits -/

/-- Modelled from the spec: the storage-class bits of the absent `type.h`;
only their being distinct single bits matters. -/
def S_TYPEDEF : Nat := 0x01
/-- Storage bit `extern`. -/
def S_EXTERN : Nat := 0x02
/-- Storage bit `static`. -/
def S_STATIC : Nat := 0x04
/-- Storage bit `_Thread_local`. -/
def S_THREAD : Nat := 0x08
/-- Storage bit `auto`. -/
def S_AUTO : Nat := 0x10
/-- Storage bit `register`. -/
def S_REGISTER : Nat := 0x20

/-- Modelled from the spec: the type-specifier bits of the absent `type.h`. -/
def T_SIGNED : Nat := 0x40
/-- Type-specifier bit `unsigned`. -/
def T_UNSIGNED : Nat := 0x80
/-- Type-specifier bit `char`. -/
def T_CHAR : Nat := 0x100
/-- Type-specifier bit `short`. -/
def T_SHORT : Nat := 0x200
/-- Type-specifier bit `int`. -/
def T_INT : Nat := 0x400
/-- Type-specifier bit `long`. -/
def T_LONG : Nat := 0x800
/-- Type-specifier bit `void`. -/
def T_VOID : Nat := 0x1000
/-- Type-specifier bit `float`. -/
def T_FLOAT : Nat := 0x2000
/-- Type-specifier bit `double`. -/
def T_DOUBLE : Nat := 0x4000
/-- Type-specifier bit `_Bool`. -/
def T_BOOL : Nat := 0x8000
/-- Type-specifier bit `_Complex`. -/
def T_COMPLEX : Nat := 0x10000
/-- Type-specifier bit `_Atomic(...)`. -/
def T_ATOMIC : Nat := 0x20000
/-- Type-specifier bit for a struct or union specifier. -/
def T_STRUCT_UNION : Nat := 0x40000
/-- Type-specifier bit for an enum specifier. -/
def T_ENUM : Nat := 0x80000
/-- Type-specifier bit for a typedef name. -/
def T_TYPEDEF_NAME : Nat := 0x100000
/-- Type-specifier bit `long long`. -/
def T_LONG_LONG : Nat := 0x2000000

/-- Modelled from the spec: the qualifier bits of the absent `type.h`. -/
def Q_CONST : Nat := 0x200000
/-- Qualifier bit `restrict`. -/
def Q_RESTRICT : Nat := 0x400000
/-- Qualifier bit `volatile`. -/
def Q_VOLATILE : Nat := 0x800000
/-- Qualifier bit `_Atomic`. -/
def Q_ATOMIC : Nat := 0x1000000

/-- Modelled from the spec: the function-specifier bits of the absent `type.h`. -/
def F_INLINE : Nat := 0x4000000
/-- Function-specifier bit `_Noreturn`. -/
def F_NORETURN : Nat := 0x8000000

/-- The C expression `a & ~b` on non-negative bit masks: the bits of `a`
that are not bits of `b`. -/
def andNot (a b : Nat) : Nat := a ^^^ (a &&& b)

/-- The C truth value of `a & b`. -/
def hasBit (a b : Nat) : Bool := (a &&& b) != 0

/-! ## Types -/

/-- Modelled from the spec (§3 "Type"): the tagged variant of the absent
`type.h`.  `null` is the null `Type*`.  An arithmetic type carries its
specifier bit mask and, when its completeness flag is mutable (a
forward-declared enum), the handle `cell` of that flag.  A pointer carries
its qualifier bits, the only qualifiers `parser.cc` ever sets.  A
struct/union type is the handle of its mutable record in
`Parser.structs`: it is identity-typed. -/
inductive CType where
  | null
  | void
  | arithm (tag : Nat) (cell : Option Nat)
  | pointer (derived : CType) (qual : Nat)
  | array (len : Int) (derived : CType)
  | func (derived : CType) (funcSpec : Nat) (hasEllipsis : Bool) (params : List CType)
  | structUnion (id : Nat)
  deriving Repr, Inhabited

mutual
/-- Modelled from the spec: `Type::operator==`, structural equality, with
struct/union types compared by identity. -/
def CType.beq : CType → CType → Bool
  | .null, .null => true
  | .void, .void => true
  | .arithm a c, .arithm b d => a == b && c == d
  | .pointer d q, .pointer e r => CType.beq d e && q == r
  | .array l d, .array m e => l == m && CType.beq d e
  | .func d f v ps, .func e g w qs =>
      CType.beq d e && f == g && v == w && CType.beqList ps qs
  | .structUnion a, .structUnion b => a == b
  | _, _ => false
/-- Pointwise `CType.beq` on parameter lists. -/
def CType.beqList : List CType → List CType → Bool
  | [], [] => true
  | a :: as, b :: bs => CType.beq a b && CType.beqList as bs
  | _, _ => false
end

/-- Modelled from the spec: `Type::ToVoidType() != nullptr`. -/
def CType.isVoid : CType → Bool
  | .void => true
  | _ => false

/-- Modelled from the spec: `Type::ToFuncType() != nullptr`. -/
def CType.isFunc : CType → Bool
  | .func _ _ _ _ => true
  | _ => false

/-- Modelled from the spec: `Type::ToArrayType() != nullptr`. -/
def CType.isArray : CType → Bool
  | .array _ _ => true
  | _ => false

/-- Modelled from the spec: `Type::ToPointerType() != nullptr`. -/
def CType.isPointer : CType → Bool
  | .pointer _ _ => true
  | _ => false

/-- Modelled from the spec: `Type::ToStructUnionType() != nullptr`. -/
def CType.isStructUnion : CType → Bool
  | .structUnion _ => true
  | _ => false

/-- Modelled from the spec: `Type::ToArithmType() != nullptr`. -/
def CType.isArithm : CType → Bool
  | .arithm _ _ => true
  | _ => false

/-! ## Identifiers and scopes -/

/-- Linkage of an identifier (§3 "Identifier"). -/
inductive Linkage where
  | L_NONE | L_EXTERNAL | L_INTERNAL
  deriving DecidableEq, Repr

/-- Kind of a scope (§3 "Scope"). -/
inductive ScopeType where
  | S_FILE | S_PROTO | S_BLOCK
  deriving DecidableEq, Repr

/-- Modelled from the spec (§3 "Identifier"): a symbol-table entry.  `id` is
the identity of the heap object, `scope` the handle of the owning scope.
`isObject` tells an `Object` (created by `NewObject`, with storage class and
offset) from a plain `Identifier` (created by `NewIdentifier`). -/
structure Identifier where
  id : Nat
  ty : CType
  scope : Nat
  linkage : Linkage
  isObject : Bool
  storage : Nat
  offset : Int
  deriving Repr

/-- Modelled from the spec (§3 "Scope"): a scope with its kind and its
ordinary and tag name spaces, newest entry first. -/
structure Scope where
  id : Nat
  kind : ScopeType
  ordinary : List (String × Identifier)
  tags : List (String × Identifier)
  deriving Repr

/-- Modelled from the spec: `Scope::FindInCurScope`, lookup in one scope only. -/
def Scope.FindInCurScope (sc : Scope) (name : String) : Option Identifier :=
  sc.ordinary.lookup name

/-- Modelled from the spec: `Scope::FindTagInCurScope`. -/
def Scope.FindTagInCurScope (sc : Scope) (name : String) : Option Identifier :=
  sc.tags.lookup name

/-- Modelled from the spec: `Scope::Insert`, binding a name in one scope. -/
def Scope.Insert (sc : Scope) (name : String) (i : Identifier) : Scope :=
  { sc with ordinary := (name, i) :: sc.ordinary }

/-- Modelled from the spec: `Scope::InsertTag`. -/
def Scope.InsertTag (sc : Scope) (name : String) (i : Identifier) : Scope :=
  { sc with tags := (name, i) :: sc.tags }

/-- Modelled from the spec: `Scope::Find`, which walks up the parent chain.
The chain is the list from the current scope to the file scope. -/
def findChain : List Scope → String → Option Identifier
  | [], _ => none
  | sc :: rest, name =>
    match sc.FindInCurScope name with
    | some i => some i
    | none => findChain rest name

/-- Modelled from the spec: `Scope::FindTag`, which walks up the parent chain. -/
def findTagChain : List Scope → String → Option Identifier
  | [], _ => none
  | sc :: rest, name =>
    match sc.FindTagInCurScope name with
    | some i => some i
    | none => findTagChain rest name

/-! ## Abstract syntax tree -/

/-- Modelled from the spec (§3 "AST node"): expression nodes of the absent
`ast.h`.  `null` is the null `Expr*`; the last field of an operator node is
its result type `_ty`, `CType.null` while unset. -/
inductive Expr where
  | null
  | binaryOp (op : Tag) (lhs rhs : Expr) (ty : CType)
  | unaryOp (op : Tag) (operand : Expr) (ty : CType)
  | conditionalOp (cond exprTrue exprFalse : Expr) (ty : CType)
  | funcCall (designator : Expr) (args : List Expr) (ty : CType)
  | identifier (i : Identifier)
  | constant (ty : CType) (val : Int)
  | tempVar (ty : CType)
  deriving Repr, Inhabited

/-- Modelled from the spec: statement nodes of the absent `ast.h`.  `null` is
the null `Stmt*`; an expression is a statement (`Expr` derives from `Stmt`).
A `jumpStmt` is the handle of a `JumpStmt` object, whose mutable target
label is kept in `Parser.jumps`; a `labelStmt` is the identity of a
`LabelStmt` object. -/
inductive Stmt where
  | null
  | expr (e : Expr)
  | emptyStmt
  | ifStmt (cond : Expr) (thenStmt elseStmt : Stmt)
  | compoundStmt (stmts : List Stmt)
  | jumpStmt (id : Nat)
  | returnStmt (e : Expr)
  | labelStmt (id : Nat)
  | funcDef (ty : CType) (body : Stmt)
  deriving Repr, Inhabited

/-- The implicit pointer conversion from `Expr*` to `Stmt*`. -/
def Expr.toStmt : Expr → Stmt
  | .null => .null
  | e => .expr e

/-- The field `_ty` read by `Expr::Ty()`; the caller checks for null first. -/
def Expr.ty : Expr → CType
  | .null => .null
  | .binaryOp _ _ _ t => t
  | .unaryOp _ _ t => t
  | .conditionalOp _ _ _ t => t
  | .funcCall _ _ t => t
  | .identifier i => i.ty
  | .constant t _ => t
  | .tempVar t => t

/-! ## Parser state -/

/-- A diagnostic passed to `Error(coord, format, args…)`. -/
structure Diag where
  coord : Nat
  fmt : String
  args : List String
  deriving DecidableEq, Repr

/-- Modelled from the spec (§3 "StructOrUnion"): the mutable record of a
struct/union type. -/
structure StructInfo where
  isStruct : Bool
  complete : Bool
  members : List (String × Identifier)
  deriving Repr

/-- The member variables of the C++ class `Parser` together with the heap
objects the parser mutates.
* `toks`, `pos`, `marks`: the token cursor (§4.1);
* `errors`: the diagnostics reported so far, oldest first;
* `curScope`: the chain `_curScope`, `_curScope->Parent()`, … (empty when
  `_curScope` is null);
* `caseLabels`: the list `_caseLabels` points to (`none` when it is null). -/
structure Parser where
  toks : List Token
  pos : Nat
  marks : List Nat
  errors : List Diag
  errTok : Option Token
  curScope : List Scope
  externalSymbols : Scope
  nextId : Nat
  structs : List (Nat × StructInfo)
  cells : List (Nat × Bool)
  jumps : List (Nat × Option Nat)
  breakDest : Option Nat
  continueDest : Option Nat
  defaultLabel : Option Nat
  caseLabels : Option (List (Int × Nat))
  curLabels : List (String × Nat)
  unresolvedJumps : List (Token × Nat)
  unit : List Stmt
  deriving Repr

/-- A parser over the token list `toks` in its initial state: cursor at the
first token, an empty file scope as current scope, nothing else recorded. -/
def Parser.init (toks : List Token) : Parser :=
  { toks := toks, pos := 0, marks := [], errors := [], errTok := none,
    curScope := [{ id := 0, kind := .S_FILE, ordinary := [], tags := [] }],
    externalSymbols := { id := 1, kind := .S_FILE, ordinary := [], tags := [] },
    nextId := 2, structs := [], cells := [], jumps := [],
    breakDest := none, continueDest := none, defaultLabel := none,
    caseLabels := none, curLabels := [], unresolvedJumps := [], unit := [] }

/-- Ways in which a run of the C++ code does not return normally. -/
inductive Fail where
  | assertFail
  | nullDeref
  | outOfFuel
  deriving DecidableEq, Repr

/-- Outcome of running a member function: a value and the new state, or a
failure together with the state in which it happened. -/
inductive Res (α : Type) where
  | ok (a : α) (s : Parser)
  | fail (f : Fail) (s : Parser)

/-- A member function of `Parser` returning an `α`. -/
def PM (α : Type) : Type := Parser → Res α

/-- Return without touching the state. -/
def PM.pure {α : Type} (a : α) : PM α := fun s => .ok a s

/-- Continue a run that returned; keep a failure. -/
def Res.andThen {α β : Type} : Res α → (α → Parser → Res β) → Res β
  | .ok a s1, f => f a s1
  | .fail e s1, _ => .fail e s1

/-- Sequencing: a failure of the first action ends the run. -/
def PM.bind {α β : Type} (m : PM α) (f : α → PM β) : PM β := fun s =>
  (m s).andThen f

instance : Monad PM where
  pure := PM.pure
  bind := PM.bind

/-- End the run with a failure. -/
def PM.fail {α : Type} (f : Fail) : PM α := fun s => .fail f s

/-- The C `assert(c)`. -/
def assert (c : Bool) : PM Unit :=
  if c then PM.pure () else PM.fail .assertFail

/-- Read the state. -/
def getP : PM Parser := fun s => .ok s s

/-- Change the state. -/
def modifyP (f : Parser → Parser) : PM Unit := fun s => .ok () (f s)

/-- The state after a run, whether it returned or failed. -/
def Res.state {α : Type} : Res α → Parser
  | .ok _ s => s
  | .fail _ s => s

/-- The value a run returned, if it returned. -/
def Res.value? {α : Type} : Res α → Option α
  | .ok a _ => some a
  | .fail _ _ => none

/-- The failure that ended a run, if it did not return. -/
def Res.failure? {α : Type} : Res α → Option Fail
  | .ok _ _ => none
  | .fail f _ => some f

/-- Modelled from the spec (§6 "Diagnostic reporter"): `Error` records the
diagnostic and returns; it does not unwind. -/
def Error (coord : Nat) (fmt : String) (args : List String) : PM Unit :=
  modifyP fun s => { s with errors := s.errors ++ [{ coord := coord, fmt := fmt, args := args }] }

/-- The statement `if (c) Error(coord, format, args…);`. -/
def ErrorIf (c : Bool) (coord : Nat) (fmt : String) (args : List String) : PM Unit :=
  if c then Error coord fmt args else PM.pure ()

/-- A fresh object handle from the pools. -/
def freshId : PM Nat := fun s => .ok s.nextId { s with nextId := s.nextId + 1 }

/-! ## Token cursor (§4.1) -/

/-- The token at a cursor position; past the end it is the EOF sentinel. -/
def tokAt (toks : List Token) (pos : Nat) : Token :=
  (toks.get? pos).getD Token.eof

/-- Modelled from the spec: `Peek`. -/
def Peek : PM Token := fun s => .ok (tokAt s.toks s.pos) s

/-- Modelled from the spec: `Next`. -/
def Next : PM Token := fun s => .ok (tokAt s.toks s.pos) { s with pos := s.pos + 1 }

/-- Modelled from the spec: `PutBack`, the one-token rewind. -/
def PutBack : PM Unit := modifyP fun s => { s with pos := s.pos - 1 }

/-- Modelled from the spec: `Test(tag)`. -/
def Test (tag : Tag) : PM Bool := fun s => .ok ((tokAt s.toks s.pos).tag == tag) s

/-- Modelled from the spec: `Try(tag)`, the conditional consume. -/
def Try (tag : Tag) : PM Bool := fun s =>
  if (tokAt s.toks s.pos).tag == tag then .ok true { s with pos := s.pos + 1 }
  else .ok false s

/-- Modelled from the spec: `Mark`, the checkpoint of the look-ahead. -/
def Mark : PM Unit := modifyP fun s => { s with marks := s.pos :: s.marks }

/-- Modelled from the spec: `Release`, which rewinds to the checkpoint. -/
def Release : PM Unit := modifyP fun s =>
  match s.marks with
  | [] => s
  | p :: rest => { s with pos := p, marks := rest }

/-- Number of tokens panic mode skips: those before the first token whose
tag is one of the two follow tags, or all of them. -/
def panicSkip (follow1 follow2 : Tag) : List Token → Nat
  | [] => 0
  | t :: rest =>
    if t.tag == follow1 || t.tag == follow2 then 0
    else panicSkip follow1 follow2 rest + 1

/-- Modelled from the spec (§5 "Error recovery"): `Panic` consumes tokens up
to the nearest of the two follow tags. -/
def Panic (follow1 follow2 : Tag) : PM Unit := modifyP fun s =>
  { s with pos := s.pos + panicSkip follow1 follow2 (s.toks.drop s.pos) }

/-- Modelled from the spec: `Token::Lexeme(tag)`, the spelling of a tag. -/
def Token.Lexeme : Tag → String
  | .chr c => c.toString
  | .kw .IDENTIFIER => "identifier"
  | .kw .WHILE => "while"
  | .kw _ => "token"

/-- `Parser::Expect` (parser.cc 192-201). -/
def Expect (expect follow1 follow2 : Tag) : PM Unit := do
  let tok ← Next
  if tok.tag != expect then
    PutBack
    Error tok.coord "'%s' expected, but got '%s'" [Token.Lexeme expect, tok.str]
    Panic follow1 follow2
  else
    pure ()

/-- Modelled from the spec: `Expect(tag)` with the default follow tags of
the absent `parser.h`, taken to be `','` and `';'`. -/
def Expect1 (expect : Tag) : PM Unit := Expect expect (.chr ',') (.chr ';')

/-! ## Scope, type and pool primitives -/

/-- Dereference `_curScope`. -/
def curScope : PM Scope := fun s =>
  match s.curScope with
  | [] => .fail .nullDeref s
  | sc :: _ => .ok sc s

/-- `_curScope->Type()`. -/
def ScopeKind : PM ScopeType := do
  let sc ← curScope
  pure sc.kind

/-- `_curScope->FindInCurScope(name)`. -/
def FindInCurScope (name : String) : PM (Option Identifier) := do
  let sc ← curScope
  pure (sc.FindInCurScope name)

/-- `_curScope->Find(name)`. -/
def Find (name : String) : PM (Option Identifier) := fun s =>
  match s.curScope with
  | [] => .fail .nullDeref s
  | _ :: _ => .ok (findChain s.curScope name) s

/-- `_curScope->Insert(name, ident)`. -/
def Insert (name : String) (i : Identifier) : PM Unit := fun s =>
  match s.curScope with
  | [] => .fail .nullDeref s
  | sc :: rest => .ok () { s with curScope := sc.Insert name i :: rest }

/-- `_externalSymbols->FindInCurScope(name)`. -/
def ExternalFind (name : String) : PM (Option Identifier) := fun s =>
  .ok (s.externalSymbols.FindInCurScope name) s

/-- `_externalSymbols->Insert(name, ident)`. -/
def ExternalInsert (name : String) (i : Identifier) : PM Unit := modifyP fun s =>
  { s with externalSymbols := s.externalSymbols.Insert name i }

/-- A member access through a `Type*`: a null pointer ends the run. -/
def derefType (t : CType) : PM Unit :=
  match t with
  | .null => PM.fail .nullDeref
  | _ => PM.pure ()

/-- `type->ToVoidType()` as a truth value. -/
def ToVoidType (t : CType) : PM Bool := do
  derefType t
  pure t.isVoid

/-- `type->ToFuncType()` as a truth value. -/
def ToFuncType (t : CType) : PM Bool := do
  derefType t
  pure t.isFunc

/-- `type->ToArrayType()` as a truth value. -/
def ToArrayType (t : CType) : PM Bool := do
  derefType t
  pure t.isArray

/-- `*a == *b` on two `Type*`. -/
def typeEq (a b : CType) : PM Bool := do
  derefType a
  derefType b
  pure (CType.beq a b)

/-- Modelled from the spec: the completeness flag of a type (§3): `void` is
not complete, an arithmetic type is complete unless its mutable flag says
otherwise, a struct/union is complete once its definition has been parsed,
the derived types are complete. -/
def completeIn (cells : List (Nat × Bool)) (structs : List (Nat × StructInfo)) : CType → Bool
  | .null => false
  | .void => false
  | .arithm _ none => true
  | .arithm _ (some c) => (cells.lookup c).getD true
  | .pointer _ _ => true
  | .array _ _ => true
  | .func _ _ _ _ => true
  | .structUnion i => ((structs.lookup i).map (·.complete)).getD false

/-- `type->Complete()`. -/
def Complete (t : CType) : PM Bool := do
  derefType t
  let s ← getP
  pure (completeIn s.cells s.structs t)

/-- `Parser::NewIdentifier` (parser.cc 106-111). -/
def NewIdentifier (type : CType) (scope : Nat) (linkage : Linkage) : PM Identifier := do
  let id ← freshId
  pure { id := id, ty := type, scope := scope, linkage := linkage,
         isObject := false, storage := 0, offset := 0 }

/-- `Parser::NewObject` (parser.cc 113-118). -/
def NewObject (type : CType) (scope : Nat) (storage : Nat) (linkage : Linkage)
    (offset : Int) : PM Identifier := do
  let id ← freshId
  pure { id := id, ty := type, scope := scope, linkage := linkage,
         isObject := true, storage := storage, offset := offset }

/-! ## Declarations: `ProcessDeclarator` -/

/-- The linkage `ProcessDeclarator` computes before it looks for prior
declarations (parser.cc 1395-1409). -/
def declLinkage (kind : ScopeType) (storageSpec : Nat) (isFunc : Bool) : Linkage :=
  if kind == .S_PROTO then .L_NONE
  else if kind == .S_FILE then
    (if hasBit storageSpec S_STATIC then .L_INTERNAL else .L_EXTERNAL)
  else if !(hasBit storageSpec S_EXTERN) then
    (if isFunc then .L_EXTERNAL else .L_NONE)
  else .L_EXTERNAL

/-- The three checks `ProcessDeclarator` makes before it computes the
linkage (parser.cc 1379-1393): void type, incomplete type, `static` on a
function outside file scope. -/
def declChecks (tok : Token) (type : CType) (storageSpec : Nat) : PM Unit := do
  let name := tok.str
  let isVoid ← ToVoidType type
  ErrorIf isVoid tok.coord "variable or field '%s' declared void" [name]
  let complete ← Complete type
  ErrorIf (!complete) tok.coord "storage size of '%s' isn’t known" [name]
  if ← ToFuncType type then
    let kind ← ScopeKind
    ErrorIf (kind != .S_FILE && hasBit storageSpec S_STATIC) tok.coord
      "invalid storage class for function '%s'" [name]
  else pure ()

/-- The branch of `ProcessDeclarator` for a prior declaration `ident` in the
same scope (parser.cc 1412-1432): checks of type and linkage, then the prior
declaration is returned. -/
def redeclare (tok : Token) (type : CType) (linkage : Linkage) (ident : Identifier) :
    PM Identifier := do
  let name := tok.str
  let same ← typeEq type ident.ty
  ErrorIf (!same) tok.coord "conflicting types for '%s'" [name]
  if linkage == .L_NONE then
    Error tok.coord "redeclaration of '%s' with no linkage" [name]
  else if linkage == .L_EXTERNAL then
    ErrorIf (ident.linkage == .L_NONE) tok.coord "conflicting linkage for '%s'" [name]
  else
    ErrorIf (ident.linkage != .L_INTERNAL) tok.coord "conflicting linkage for '%s'" [name]
  pure ident

/-- The branch of `ProcessDeclarator` for a name with external linkage and no
declaration in the same scope (parser.cc 1433-1453): the upward lookup and,
when that finds nothing, the lookup in the external-symbol table.  Returns
the final linkage and the value of the local variable `ident`. -/
def crossCheck (tok : Token) (type : CType) (linkage : Linkage) :
    PM (Linkage × Option Identifier) := do
  let name := tok.str
  if linkage == .L_EXTERNAL then
    let ident ← Find name
    match ident with
    | some ident =>
      let same ← typeEq type ident.ty
      ErrorIf (!same) tok.coord "conflicting types for '%s'" [name]
      if ident.linkage != .L_NONE then
        pure (ident.linkage, some ident)
      else
        pure (linkage, some ident)
    | none =>
      let ident ← ExternalFind name
      match ident with
      | some ident =>
        let same ← typeEq type ident.ty
        ErrorIf (!same) tok.coord "conflicting types for '%s'" [name]
        pure (linkage, some ident)
      | none => pure (linkage, none)
  else
    pure (linkage, none)

/-- The typedef branch of `ProcessDeclarator` (parser.cc 1366-1377). -/
def declareTypedef (tok : Token) (type : CType) : PM Identifier := do
  let name := tok.str
  let ident ← FindInCurScope tok.str
  let prior ← (match ident with
    | some ident => do
      if ← typeEq type ident.ty then
        pure (some ident)
      else
        Error tok.coord "conflicting types for '%s'" [name]
        pure none
    | none => pure none)
  match prior with
  | some ident => pure ident
  | none =>
    let sc ← curScope
    let ident ← NewIdentifier type sc.id .L_NONE
    Insert name ident
    pure ident

/-- `Parser::ProcessDeclarator` (parser.cc 1353-1468).  Its four parts are
the definitions `declareTypedef`, `declChecks`, `redeclare` and
`crossCheck` above. -/
def ProcessDeclarator (tok : Option Token) (type : CType) (storageSpec funcSpec : Nat) :
    PM Identifier := do
  match tok with
  | none => PM.fail .assertFail
  | some tok =>
    let name := tok.str
    if hasBit storageSpec S_TYPEDEF then
      declareTypedef tok type
    else
      declChecks tok type storageSpec
      let kind ← ScopeKind
      let linkage := declLinkage kind storageSpec type.isFunc
      let ident ← FindInCurScope name
      match ident with
      | some ident => redeclare tok type linkage ident
      | none =>
        let (linkage, ident) ← crossCheck tok type linkage
        let sc ← curScope
        let ret ← (if type.isFunc then NewIdentifier type sc.id linkage
                   else NewObject type sc.id storageSpec linkage 0)
        Insert name ret
        if linkage == .L_EXTERNAL && ident.isNone then
          ExternalInsert name ret
        else pure ()
        pure ret

/-- Modelled from the spec (§4.6): `EnterBlock` of the absent `parser.h`
makes a new block scope, whose parent is the current scope, the current
scope. -/
def EnterBlock : PM Unit := do
  let id ← freshId
  modifyP fun s =>
    { s with curScope := { id := id, kind := .S_BLOCK, ordinary := [], tags := [] } :: s.curScope }

/-- Modelled from the spec (§4.6): `ExitBlock` of the absent `parser.h`
makes the parent of the current scope the current scope. -/
def ExitBlock : PM Unit := fun s =>
  match s.curScope with
  | [] => .fail .nullDeref s
  | _ :: rest => .ok () { s with curScope := rest }

/-! ## Definitions used in the statements about `ProcessDeclarator` -/

/-- The diagnostics of `declChecks`, as a list. -/
def declCheckDiags (cells : List (Nat × Bool)) (structs : List (Nat × StructInfo))
    (kind : ScopeType) (tok : Token) (type : CType) (storageSpec : Nat) : List Diag :=
  (if type.isVoid then
    [{ coord := tok.coord, fmt := "variable or field '%s' declared void", args := [tok.str] }]
   else []) ++
  ((if !completeIn cells structs type then
    [{ coord := tok.coord, fmt := "storage size of '%s' isn’t known", args := [tok.str] }]
   else []) ++
  (if type.isFunc then
    (if kind != .S_FILE && hasBit storageSpec S_STATIC then
      [{ coord := tok.coord, fmt := "invalid storage class for function '%s'", args := [tok.str] }]
     else [])
   else []))

/-- The diagnostics of `redeclare`, as a list. -/
def redeclareDiags (tok : Token) (type : CType) (linkage : Linkage) (ident : Identifier) :
    List Diag :=
  (if !(CType.beq type ident.ty) then
    [{ coord := tok.coord, fmt := "conflicting types for '%s'", args := [tok.str] }]
   else []) ++
  (if linkage == .L_NONE then
    [{ coord := tok.coord, fmt := "redeclaration of '%s' with no linkage", args := [tok.str] }]
   else if linkage == .L_EXTERNAL then
    (if ident.linkage == .L_NONE then
      [{ coord := tok.coord, fmt := "conflicting linkage for '%s'", args := [tok.str] }]
     else [])
   else
    (if ident.linkage != .L_INTERNAL then
      [{ coord := tok.coord, fmt := "conflicting linkage for '%s'", args := [tok.str] }]
     else []))

/-- The identifier token `x` at coordinate 7. -/
def tokX : Token := { tag := .kw .IDENTIFIER, str := "x", coord := 7 }

/-- The identifier token `n` at coordinate 9. -/
def tokN : Token := { tag := .kw .IDENTIFIER, str := "n", coord := 9 }

/-- The type `int`. -/
def tInt : CType := .arithm T_INT none

/-- The type `float`. -/
def tFloat : CType := .arithm T_FLOAT none

/-- The state inside a block in which `extern int x;` has been declared:
`{ extern int x;`. -/
def stateExternInBlock : Parser :=
  ((do EnterBlock
       let _ ← ProcessDeclarator (some tokX) tInt S_EXTERN 0
       pure () : PM Unit) (Parser.init [])).state

/-- The state inside a block that follows a file-scope `static int x;`:
`static int x; {`. -/
def stateStaticThenBlock : Parser :=
  ((do let _ ← ProcessDeclarator (some tokX) tInt S_STATIC 0
       EnterBlock : PM Unit) (Parser.init [])).state

/-- The state inside two nested blocks, the outer of which declares a
`float n` that shadows the file-scope `int n`: `int n; { float n; {`. -/
def stateShadowed : Parser :=
  ((do let _ ← ProcessDeclarator (some tokN) tInt 0 0
       EnterBlock
       let _ ← ProcessDeclarator (some tokN) tFloat 0 0
       EnterBlock : PM Unit) (Parser.init [])).state

/-! ## Type queries -/

/-- Modelled from the spec (§4.8): `Type::IsInteger`, an arithmetic type
without a floating bit. -/
def CType.isInteger : CType → Bool
  | .arithm tag _ => !(hasBit tag T_FLOAT) && !(hasBit tag T_DOUBLE)
  | _ => false

/-- Modelled from the spec (§4.8): `Type::IsFloat`, an arithmetic type with a
floating bit. -/
def CType.isFloat : CType → Bool
  | .arithm tag _ => hasBit tag T_FLOAT || hasBit tag T_DOUBLE
  | _ => false

/-- Modelled from the spec (§4.8): `Type::IsScalar`, arithmetic or pointer. -/
def CType.isScalar : CType → Bool
  | .arithm _ _ => true
  | .pointer _ _ => true
  | _ => false

/-- Modelled from the spec: `Type::IsConst`, the `const` bit of the
qualifiers of the type. -/
def CType.isConst : CType → Bool
  | .pointer _ qual => hasBit qual Q_CONST
  | _ => false

/-- Modelled from the spec: `DerivedType::Derived`, the referent, element or
return type. -/
def CType.derived : CType → CType
  | .pointer d _ => d
  | .array _ d => d
  | .func d _ _ _ => d
  | _ => .null

/-- Modelled from the spec: the machine word `Type::_machineWord`, the width
of `int`. -/
def machineWord : Nat := 4

/-- Modelled from the spec (§3): the width of an arithmetic type, derived
from its bit mask. -/
def arithmWidth (tag : Nat) : Nat :=
  if hasBit tag T_BOOL then 1
  else if hasBit tag T_CHAR then 1
  else if hasBit tag T_SHORT then 2
  else if hasBit tag T_DOUBLE then (if hasBit tag T_LONG then 16 else 8)
  else if hasBit tag T_FLOAT then 4
  else if hasBit tag T_LONG_LONG then 8
  else if hasBit tag T_LONG then 8
  else 4

/-- Modelled from the spec (§3): `Type::Width`; struct/union widths are never
computed by `parser.cc` and are 0. -/
def CType.width : CType → Nat
  | .arithm tag _ => arithmWidth tag
  | .pointer _ _ => 8
  | .array len d => len.toNat * d.width
  | _ => 0

/-- Modelled from the spec (§3): `Type::Align`. -/
def CType.align : CType → Nat
  | .arithm tag _ => arithmWidth tag
  | .pointer _ _ => 8
  | .array _ d => d.align
  | _ => 0

/-- `t->IsInteger()` through a `Type*`. -/
def IsInteger (t : CType) : PM Bool := do
  derefType t
  pure t.isInteger

/-- `t->IsScalar()` through a `Type*`. -/
def IsScalar (t : CType) : PM Bool := do
  derefType t
  pure t.isScalar

/-- `t->IsFloat()` through a `Type*`. -/
def IsFloat (t : CType) : PM Bool := do
  derefType t
  pure t.isFloat

/-- `t->IsArithm()` and `t->ToArithmType()` as truth values. -/
def ToArithmType (t : CType) : PM Bool := do
  derefType t
  pure t.isArithm

/-- `t->ToPointerType()` as a truth value. -/
def ToPointerType (t : CType) : PM Bool := do
  derefType t
  pure t.isPointer

/-- `t->IsConst()` through a `Type*`. -/
def IsConst (t : CType) : PM Bool := do
  derefType t
  pure t.isConst

/-- A member access through an `Expr*`: a null pointer ends the run. -/
def derefExpr (e : Expr) : PM Unit :=
  match e with
  | .null => PM.fail .nullDeref
  | _ => PM.pure ()

/-- `e->Ty()`. -/
def Ty (e : Expr) : PM CType := do
  derefExpr e
  pure e.ty

/-- Modelled from the spec (glossary "Lvalue"): `Expr::IsLVal`: an object, a
temporary, a dereference, a subscript or a member reference designates an
object. -/
def Expr.isLVal : Expr → Bool
  | .identifier i => i.isObject
  | .tempVar _ => true
  | .unaryOp op _ _ => op == .kw .DEREF
  | .binaryOp op _ _ _ => op == .chr '[' || op == .chr '.' || op == .kw .PTR_OP
  | _ => false

/-- `e->IsLVal()` through an `Expr*`. -/
def IsLVal (e : Expr) : PM Bool := do
  derefExpr e
  pure e.isLVal

/-- A member access through a possibly null `const Token*`, as in
`errTok->Coord()`. -/
def derefTok (t : Option Token) : PM Token :=
  match t with
  | none => PM.fail .nullDeref
  | some t => PM.pure t

/-! ## Expression nodes and the type checker (parser.cc 2186-2524) -/

/-- The fields of a `BinaryOp` node. -/
structure BinaryOp where
  op : Tag
  lhs : Expr
  rhs : Expr
  ty : CType

/-- The fields of a `UnaryOp` node. -/
structure UnaryOp where
  op : Tag
  operand : Expr
  ty : CType

/-- The fields of a `ConditionalOp` node. -/
structure ConditionalOp where
  cond : Expr
  exprTrue : Expr
  exprFalse : Expr
  ty : CType

/-- The fields of a `FuncCall` node. -/
structure FuncCall where
  designator : Expr
  args : List Expr
  ty : CType

/-- A `BinaryOp*` as an `Expr*`. -/
def BinaryOp.toExpr (b : BinaryOp) : Expr := .binaryOp b.op b.lhs b.rhs b.ty

/-- A `UnaryOp*` as an `Expr*`. -/
def UnaryOp.toExpr (u : UnaryOp) : Expr := .unaryOp u.op u.operand u.ty

/-- A `ConditionalOp*` as an `Expr*`. -/
def ConditionalOp.toExpr (c : ConditionalOp) : Expr :=
  .conditionalOp c.cond c.exprTrue c.exprFalse c.ty

/-- A `FuncCall*` as an `Expr*`. -/
def FuncCall.toExpr (f : FuncCall) : Expr := .funcCall f.designator f.args f.ty

/-- Modelled from the spec: `Type::NewArithmType(tag)`. -/
def NewArithmType (tag : Nat) : CType := .arithm tag none

/-- Modelled from the spec: `Type::NewPointerType(derived)`, without
qualifiers. -/
def NewPointerType (derived : CType) : CType := .pointer derived 0

/-- `Parser::SubScriptingOpTypeChecking` (parser.cc 2236-2249). -/
def SubScriptingOpTypeChecking (binaryOp : BinaryOp) (errTok : Token) : PM BinaryOp := do
  let lhsTy ← Ty binaryOp.lhs
  let lhsType ← ToPointerType lhsTy
  ErrorIf (!lhsType) errTok.coord "an pointer expected" []
  let rhsTy ← Ty binaryOp.rhs
  let rhsInt ← IsInteger rhsTy
  ErrorIf (!rhsInt) errTok.coord "the operand of [] should be intger" []
  if lhsType then
    pure { binaryOp with ty := lhsTy.derived }
  else
    PM.fail .nullDeref

/-- Modelled from the spec: `StructUnionType::GetMember(name)`. -/
def GetMember (structId : Nat) (name : String) : PM (Option Identifier) := do
  let s ← getP
  match s.structs.lookup structId with
  | none => pure none
  | some info => pure (info.members.lookup name)

/-- `Parser::MemberRefOpTypeChecking` (parser.cc 2251-2280).  No function of
`parser.cc` calls it.  The local `structUnionType` is read uninitialised
when the operand of `->` is not a pointer; it is taken to be null there.
At the early return of line 2271 the node is left as it was. -/
def MemberRefOpTypeChecking (binaryOp : BinaryOp) (errTok : Token) (rhsName : String) :
    PM BinaryOp := do
  let lhsTy ← Ty binaryOp.lhs
  derefType lhsTy
  let structUnionType : CType ← (
    if binaryOp.op == .kw .PTR_OP then
      if lhsTy.isPointer then do
        derefType lhsTy.derived
        ErrorIf (!lhsTy.derived.isStructUnion) errTok.coord
          "pointer to struct/union expected" []
        pure (if lhsTy.derived.isStructUnion then lhsTy.derived else .null)
      else do
        Error errTok.coord "pointer expected for operator '->'" []
        pure .null
    else do
      ErrorIf (!lhsTy.isStructUnion) errTok.coord "an struct/union expected" []
      pure (if lhsTy.isStructUnion then lhsTy else .null))
  match structUnionType with
  | .structUnion id =>
    let rhs ← GetMember id rhsName
    match rhs with
    | none =>
      Error errTok.coord "'%s' is not a member of '%s'" [rhsName, "[obj]"]
      PM.fail .nullDeref
    | some m =>
      pure { binaryOp with rhs := .identifier m, ty := m.ty }
  | _ => pure binaryOp

/-- `Parser::MultiOpTypeChecking` (parser.cc 2282-2300). -/
def MultiOpTypeChecking (binaryOp : BinaryOp) (errTok : Token) : PM BinaryOp := do
  let lhsTy ← Ty binaryOp.lhs
  let lhsType ← ToArithmType lhsTy
  let rhsTy ← Ty binaryOp.rhs
  let rhsType ← ToArithmType rhsTy
  ErrorIf (!lhsType || !rhsType) errTok.coord "operands should have arithmetic type" []
  ErrorIf (binaryOp.op == .chr '%' && !(lhsTy.isInteger && rhsTy.isInteger)) errTok.coord
    "operands of '%%' should be integers" []
  pure { binaryOp with ty := lhsTy }

/-- The result type of the arithmetic branch of `AdditiveOpTypeChecking`
(parser.cc 2337-2348), for operand types with bit masks `l` and `r`. -/
def additiveArithmType (lhsType rhsType : CType) (l r : Nat) : CType :=
  if arithmWidth l < machineWord && arithmWidth r < machineWord then NewArithmType T_INT
  else if arithmWidth l > arithmWidth r then lhsType
  else if arithmWidth l < arithmWidth r then rhsType
  else if hasBit l T_FLOAT || hasBit r T_FLOAT then NewArithmType T_FLOAT
  else lhsType

/-- `Parser::AdditiveOpTypeChecking` (parser.cc 2309-2350). -/
def AdditiveOpTypeChecking (binaryOp : BinaryOp) (errTok : Token) : PM BinaryOp := do
  let lhsTy ← Ty binaryOp.lhs
  let lhsType ← ToPointerType lhsTy
  let rhsTy ← Ty binaryOp.rhs
  let rhsType ← ToPointerType rhsTy
  if lhsType then
    if binaryOp.op == .kw .MINUS then
      ErrorIf ((rhsType && !(CType.beq lhsTy rhsTy)) || !rhsTy.isInteger) errTok.coord
        "invalid operands to binary -" []
    else
      ErrorIf (!rhsTy.isInteger) errTok.coord "invalid operands to binary -" []
    pure { binaryOp with ty := lhsTy }
  else if rhsType then
    ErrorIf (binaryOp.op != .kw .ADD || !lhsTy.isInteger) errTok.coord
      "invalid operands to binary +" []
    pure { binaryOp with ty := rhsTy }
  else
    ErrorIf (!lhsTy.isArithm || !rhsTy.isArithm) errTok.coord
      "invalid operands to binary %s" [errTok.str]
    match lhsTy, rhsTy with
    | .arithm l _, .arithm r _ =>
      pure { binaryOp with ty := additiveArithmType lhsTy rhsTy l r }
    | _, _ => PM.fail .nullDeref

/-- `Parser::ShiftOpTypeChecking` (parser.cc 2352-2357). -/
def ShiftOpTypeChecking (binaryOp : BinaryOp) (errTok : Token) : PM BinaryOp := do
  let lhsTy ← Ty binaryOp.lhs
  pure { binaryOp with ty := lhsTy }

/-- `Parser::RelationalOpTypeChecking` (parser.cc 2359-2364). -/
def RelationalOpTypeChecking (binaryOp : BinaryOp) (errTok : Token) : PM BinaryOp :=
  pure { binaryOp with ty := NewArithmType T_BOOL }

/-- `Parser::EqualityOpTypeChecking` (parser.cc 2366-2371). -/
def EqualityOpTypeChecking (binaryOp : BinaryOp) (errTok : Token) : PM BinaryOp :=
  pure { binaryOp with ty := NewArithmType T_BOOL }

/-- `Parser::BitwiseOpTypeChecking` (parser.cc 2373-2382). -/
def BitwiseOpTypeChecking (binaryOp : BinaryOp) (errTok : Token) : PM BinaryOp := do
  let lhsTy ← Ty binaryOp.lhs
  let lhsInt ← IsInteger lhsTy
  let rhsInt ← (if lhsInt then pure true else do
    let rhsTy ← Ty binaryOp.rhs
    IsInteger rhsTy)
  ErrorIf (lhsInt || rhsInt) errTok.coord "operands of '&' should be integer" []
  pure { binaryOp with ty := NewArithmType T_INT }

/-- `Parser::LogicalOpTypeChecking` (parser.cc 2384-2394). -/
def LogicalOpTypeChecking (binaryOp : BinaryOp) (errTok : Token) : PM BinaryOp := do
  let lhsTy ← Ty binaryOp.lhs
  let lhsScalar ← IsScalar lhsTy
  let rhsScalar ← (if !lhsScalar then pure false else do
    let rhsTy ← Ty binaryOp.rhs
    IsScalar rhsTy)
  ErrorIf (!lhsScalar || !rhsScalar) errTok.coord
    "the operand should be arithmetic type or pointer" []
  pure { binaryOp with ty := NewArithmType T_BOOL }

/-- `Parser::AssignOpTypeChecking` (parser.cc 2396-2405). -/
def AssignOpTypeChecking (binaryOp : BinaryOp) (errTok : Token) : PM BinaryOp := do
  let lval ← IsLVal binaryOp.lhs
  if !lval then
    Error errTok.coord "lvalue expression expected" []
  else
    let lhsTy ← Ty binaryOp.lhs
    let isConst ← IsConst lhsTy
    ErrorIf isConst errTok.coord "can't modifiy 'const' qualified expression" []
  let lhsTy ← Ty binaryOp.lhs
  pure { binaryOp with ty := lhsTy }

/-- `Parser::TypeChecking(BinaryOp*, const Token*)` (parser.cc 2190-2234). -/
def TypeCheckingBinaryOp (binaryOp : BinaryOp) (errTok : Token) : PM BinaryOp :=
  let op := binaryOp.op
  if op == .chr '[' then SubScriptingOpTypeChecking binaryOp errTok
  else if op == .chr '*' || op == .chr '/' || op == .chr '%' then
    MultiOpTypeChecking binaryOp errTok
  else if op == .chr '+' || op == .chr '-' then AdditiveOpTypeChecking binaryOp errTok
  else if op == .kw .LEFT_OP || op == .kw .RIGHT_OP then ShiftOpTypeChecking binaryOp errTok
  else if op == .chr '<' || op == .chr '>' || op == .kw .LE_OP || op == .kw .GE_OP then
    RelationalOpTypeChecking binaryOp errTok
  else if op == .kw .EQ_OP || op == .kw .NE_OP then EqualityOpTypeChecking binaryOp errTok
  else if op == .chr '&' || op == .chr '^' || op == .chr '|' then
    BitwiseOpTypeChecking binaryOp errTok
  else if op == .kw .AND_OP || op == .kw .OR_OP then LogicalOpTypeChecking binaryOp errTok
  else if op == .chr '=' then AssignOpTypeChecking binaryOp errTok
  else PM.fail .assertFail

/-- `Parser::IncDecOpTypeChecking` (parser.cc 2437-2446). -/
def IncDecOpTypeChecking (unaryOp : UnaryOp) (errTok : Token) : PM UnaryOp := do
  let lval ← IsLVal unaryOp.operand
  if !lval then
    Error errTok.coord "lvalue expression expected" []
  else
    let ty ← Ty unaryOp.operand
    let isConst ← IsConst ty
    ErrorIf isConst errTok.coord "can't modifiy 'const' qualified expression" []
  let ty ← Ty unaryOp.operand
  pure { unaryOp with ty := ty }

/-- `Parser::AddrOpTypeChecking` (parser.cc 2448-2457). -/
def AddrOpTypeChecking (unaryOp : UnaryOp) (errTok : Token) : PM UnaryOp := do
  let ty ← Ty unaryOp.operand
  let funcType ← ToFuncType ty
  ErrorIf (!funcType && !unaryOp.operand.isLVal) errTok.coord
    "expression must be an lvalue or function designator" []
  pure { unaryOp with ty := NewPointerType ty }

/-- `Parser::DerefOpTypeChecking` (parser.cc 2459-2467). -/
def DerefOpTypeChecking (unaryOp : UnaryOp) (errTok : Token) : PM UnaryOp := do
  let ty ← Ty unaryOp.operand
  let pointerType ← ToPointerType ty
  ErrorIf (!pointerType) errTok.coord "pointer expected for deref operator '*'" []
  if pointerType then
    pure { unaryOp with ty := ty.derived }
  else
    PM.fail .nullDeref

/-- `Parser::UnaryArithmOpTypeChecking` (parser.cc 2469-2483). -/
def UnaryArithmOpTypeChecking (unaryOp : UnaryOp) (errTok : Token) : PM UnaryOp := do
  let ty ← Ty unaryOp.operand
  derefType ty
  if unaryOp.op == .kw .PLUS || unaryOp.op == .kw .MINUS then
    ErrorIf (!ty.isArithm) errTok.coord "Arithmetic type expected" []
  else if unaryOp.op == .chr '~' then
    ErrorIf (!ty.isInteger) errTok.coord "integer expected for operator '~'" []
  else
    ErrorIf (!ty.isScalar) errTok.coord
      "arithmetic type or pointer expected for operator '!'" []
  pure { unaryOp with ty := ty }

/-- `Parser::CastOpTypeChecking` (parser.cc 2485-2499). -/
def CastOpTypeChecking (unaryOp : UnaryOp) (errTok : Token) : PM UnaryOp := do
  let scalar ← IsScalar unaryOp.ty
  ErrorIf (!scalar) errTok.coord "the cast type should be arithemetic type or pointer" []
  if unaryOp.ty.isFloat then
    let ty ← Ty unaryOp.operand
    let isPtr ← ToPointerType ty
    ErrorIf isPtr errTok.coord "can't cast a pointer to floating" []
  else if unaryOp.ty.isPointer then
    let ty ← Ty unaryOp.operand
    let isFloat ← IsFloat ty
    ErrorIf isFloat errTok.coord "can't cast a floating to pointer" []
  else pure ()
  pure unaryOp

/-- `Parser::TypeChecking(UnaryOp*, const Token*)` (parser.cc 2408-2435). -/
def TypeCheckingUnaryOp (unaryOp : UnaryOp) (errTok : Token) : PM UnaryOp :=
  let op := unaryOp.op
  if op == .kw .POSTFIX_INC || op == .kw .POSTFIX_DEC || op == .kw .PREFIX_INC
      || op == .kw .PREFIX_DEC then IncDecOpTypeChecking unaryOp errTok
  else if op == .kw .ADDR then AddrOpTypeChecking unaryOp errTok
  else if op == .kw .DEREF then DerefOpTypeChecking unaryOp errTok
  else if op == .kw .PLUS || op == .kw .MINUS || op == .chr '~' || op == .chr '!' then
    UnaryArithmOpTypeChecking unaryOp errTok
  else if op == .kw .CAST then CastOpTypeChecking unaryOp errTok
  else PM.fail .assertFail

/-- `Parser::TypeChecking(ConditionalOp*, const Token*)` (parser.cc
2501-2511): the condition is checked, the result type `_ty` is not set. -/
def TypeCheckingConditionalOp (conditionalOp : ConditionalOp) (errTok : Option Token) :
    PM ConditionalOp := do
  let ty ← Ty conditionalOp.cond
  let scalar ← IsScalar ty
  if !scalar then
    let errTok ← derefTok errTok
    Error errTok.coord "scalar is required" []
  else pure ()
  pure conditionalOp

/-- `Parser::TypeChecking(FuncCall*, const Token*)` (parser.cc 2513-2524). -/
def TypeCheckingFuncCall (funcCall : FuncCall) (errTok : Token) : PM FuncCall := do
  let ty ← Ty funcCall.designator
  let funcType ← ToFuncType ty
  ErrorIf (!funcType) errTok.coord "'%s' is not a function" [errTok.str]
  if funcType then
    pure { funcCall with ty := ty.derived }
  else
    PM.fail .nullDeref

/-! ## Node factories (parser.cc 13-186) -/

/-- `Parser::NewConditionalOp` (parser.cc 16-24).  Modelled from the spec:
the constructor of the absent `ast.h` leaves `_ty` null.  The type checker
is given `_errTok`, not `tok`. -/
def NewConditionalOp (tok : Token) (cond exprTrue exprFalse : Expr) : PM Expr := do
  let ret : ConditionalOp :=
    { cond := cond, exprTrue := exprTrue, exprFalse := exprFalse, ty := .null }
  let s ← getP
  let ret ← TypeCheckingConditionalOp ret s.errTok
  pure ret.toExpr

/-- `Parser::NewBinaryOp(tok, op, lhs, rhs)` (parser.cc 31-64).  Modelled from
the spec: the constructor of the absent `ast.h` leaves `_ty` null. -/
def NewBinaryOp (tok : Token) (op : Tag) (lhs rhs : Expr) : PM Expr := do
  assert (op == .chr '=' || op == .chr '[' || op == .chr '*' || op == .chr '/'
    || op == .chr '%' || op == .chr '+' || op == .chr '-' || op == .chr '&'
    || op == .chr '^' || op == .chr '|' || op == .chr '<' || op == .chr '>'
    || op == .kw .LEFT_OP || op == .kw .RIGHT_OP || op == .kw .LE_OP || op == .kw .GE_OP
    || op == .kw .EQ_OP || op == .kw .NE_OP || op == .kw .AND_OP || op == .kw .OR_OP)
  let ret : BinaryOp := { op := op, lhs := lhs, rhs := rhs, ty := .null }
  let ret ← TypeCheckingBinaryOp ret tok
  pure ret.toExpr

/-- `Parser::NewBinaryOp(tok, lhs, rhs)` (parser.cc 26-29): the operator is
the tag of the token. -/
def NewBinaryOpTok (tok : Token) (lhs rhs : Expr) : PM Expr :=
  NewBinaryOp tok tok.tag lhs rhs

/-- `Parser::NewMemberRefOp` (parser.cc 66-77): the node is given to
`TypeChecking(BinaryOp*)`; `rhsName` is not used. -/
def NewMemberRefOp (tok : Token) (lhs : Expr) (rhsName : String) : PM Expr := do
  let op := tok.tag
  assert (op == .chr '.' || op == .kw .PTR_OP)
  let ret : BinaryOp := { op := op, lhs := lhs, rhs := .null, ty := .null }
  let ret ← TypeCheckingBinaryOp ret tok
  pure ret.toExpr

/-- `Parser::NewUnaryOp` (parser.cc 86-93); `type` is null when the caller
passes none. -/
def NewUnaryOp (tok : Token) (op : Tag) (operand : Expr) (type : CType) : PM Expr := do
  let ret : UnaryOp := { op := op, operand := operand, ty := type }
  let ret ← TypeCheckingUnaryOp ret tok
  pure ret.toExpr

/-- `Parser::NewFuncCall` (parser.cc 96-103). -/
def NewFuncCall (tok : Token) (designator : Expr) (args : List Expr) : PM Expr := do
  let ret : FuncCall := { designator := designator, args := args, ty := .null }
  let ret ← TypeCheckingFuncCall ret tok
  pure ret.toExpr

/-- `Parser::NewConstantInteger` (parser.cc 120-123). -/
def NewConstantInteger (type : CType) (val : Int) : Expr := .constant type val

/-- `Parser::NewConstantFloat` (parser.cc 125-128); the value the parser
passes is always an integer (the result of `atoi`). -/
def NewConstantFloat (type : CType) (val : Int) : Expr := .constant type val

/-- `Parser::NewTempVar` (parser.cc 131-134). -/
def NewTempVar (type : CType) : Expr := .tempVar type

/-- `Parser::NewEmptyStmt` (parser.cc 140-143). -/
def NewEmptyStmt : Stmt := .emptyStmt

/-- `Parser::NewIfStmt` (parser.cc 146-149). -/
def NewIfStmt (cond : Expr) (thenStmt els : Stmt) : Stmt := .ifStmt cond thenStmt els

/-- `Parser::NewCompoundStmt` (parser.cc 151-155). -/
def NewCompoundStmt (stmts : List Stmt) : Stmt := .compoundStmt stmts

/-- `Parser::NewJumpStmt` (parser.cc 157-160): the handle of a new `JumpStmt`
object with the given target label (`none` for null). -/
def NewJumpStmt (label : Option Nat) : PM Nat := do
  let id ← freshId
  modifyP fun s => { s with jumps := (id, label) :: s.jumps }
  pure id

/-- `Parser::NewReturnStmt` (parser.cc 162-166). -/
def NewReturnStmt (expr : Expr) : Stmt := .returnStmt expr

/-- `Parser::NewLabelStmt` (parser.cc 168-171): a new `LabelStmt` object. -/
def NewLabelStmt : PM Nat := freshId

/-- `Parser::NewFuncDef` (parser.cc 173-176). -/
def NewFuncDef (type : CType) (stmt : Stmt) : Stmt := .funcDef type stmt

/-- The target label of the `JumpStmt` object `id` in state `s`. -/
def Parser.jumpTarget (s : Parser) (id : Nat) : Option Nat :=
  (s.jumps.lookup id).join

/-- `JumpStmt::SetLabel`. -/
def SetLabel (jump : Nat) (label : Option Nat) : PM Unit :=
  modifyP fun s => { s with jumps := (jump, label) :: s.jumps }

/-! ## The recursive-descent parser

The member functions of `Parser` call each other recursively, and their
loops run as long as the input lasts.  In the embedding every function takes
the table `r : Rec` of the functions it may call back into (and of the
bodies of the loops); `parser n` ties the knot with `n` units of fuel: a
call through `r` and an iteration of a loop each use one unit, and a run
that needs more ends with `Fail.outOfFuel`. -/

/-- The result of `ParseDeclSpec`: the type it returns and the values it
writes through its out-parameters `storage` and `func`. -/
structure DeclSpec where
  type : CType
  storageSpec : Nat
  funcSpec : Nat

/-- The local variables of `ParseDeclSpec` (parser.cc 843-850). -/
structure DeclSpecVars where
  type : CType
  align : Int
  storageSpec : Nat
  funcSpec : Nat
  qualSpec : Nat
  typeSpec : Nat

/-- The result of `ParseDeclarator`: the pair of the identifier token (null
for an abstract declarator) and the type. -/
structure TokenTypePair where
  first : Option Token
  second : CType

/-- The local variables of the loop of `ParseArrayInitializer` (parser.cc
1670-1672). -/
structure ArrayInitVars where
  defaultIdx : Nat
  idxSet : List Nat
  stmts : List Stmt

/-- The functions a member function calls back into, and the loop bodies. -/
structure Rec where
  ParseExpr : PM Expr
  ParseAssignExpr : PM Expr
  ParseConditionalExpr : PM Expr
  ParseCastExpr : PM Expr
  ParseUnaryExpr : PM Expr
  ParseTypeName : PM CType
  ParsePostfixExprTail : Expr → PM Expr
  loopFuncCallVarArgs : List Expr → PM (List Expr)
  loopMultiplicative : Expr → Token → PM Expr
  loopAdditive : Expr → Token → PM Expr
  loopShift : Expr → Token → PM Expr
  loopRelational : Expr → Token → PM Expr
  loopEquality : Expr → Token → PM Expr
  loopBitwiseAnd : Expr → Token → PM Expr
  loopBitwiseXor : Expr → Token → PM Expr
  loopBitwiseOr : Expr → Token → PM Expr
  loopLogicalAnd : Expr → Token → PM Expr
  loopLogicalOr : Expr → Token → PM Expr
  loopComma : Expr → Token → PM Expr
  ParseDeclSpec : Bool → PM DeclSpec
  loopDeclSpec : Bool → DeclSpecVars → PM DeclSpec
  loopEnumerator : CType → Int → PM CType
  loopStructDecl : CType → PM CType
  loopQual : Nat → PM Nat
  loopPointer : CType → CType → PM CType
  loopParamList : List CType → PM (Bool × List CType)
  ParseDeclarator : CType → PM TokenTypePair
  ParseArrayFuncDeclarator : CType → PM CType
  ParseInitializer : Identifier → PM Stmt
  loopArrayInitializer : Identifier → ArrayInitVars → PM Stmt
  loopDecl : CType → Nat → Nat → List Stmt → PM (List Stmt)
  ParseStmt : PM Stmt
  loopCompoundStmt : List Stmt → PM (List Stmt)
  loopTranslationUnit : PM Unit

/-! ### Expressions (parser.cc 239-774) -/

/-- Modelled from the spec: `Identifier::ToTypeName`: a typedef name is an
identifier that is no object and has no linkage. -/
def Identifier.isTypeName (i : Identifier) : Bool :=
  !i.isObject && i.linkage == .L_NONE

/-- Modelled from the spec: `Token::IsTypeSpecQual`, the type-specifier and
type-qualifier keywords. -/
def Token.IsTypeSpecQual (t : Token) : Bool :=
  match t.tag with
  | .kw k =>
    match k with
    | .CONST | .RESTRICT | .VOLATILE | .ATOMIC | .VOID | .CHAR | .SHORT | .INT | .LONG
    | .FLOAT | .DOUBLE | .SIGNED | .UNSIGNED | .BOOL | .COMPLEX | .STRUCT | .UNION
    | .ENUM => true
    | _ => false
  | .chr _ => false

/-- Modelled from the spec: `Token::IsDecl`, the keywords that begin a
declaration: storage classes, function and alignment specifiers,
`_Static_assert`, and the type specifiers and qualifiers. -/
def Token.IsDecl (t : Token) : Bool :=
  t.IsTypeSpecQual ||
  (match t.tag with
   | .kw k =>
     match k with
     | .TYPEDEF | .EXTERN | .STATIC | .THREAD | .AUTO | .REGISTER | .INLINE | .NORETURN
     | .ALIGNAS | .STATIC_ASSERT => true
     | _ => false
   | .chr _ => false)

/-- Whether the name is visible from the current scope as a typedef name. -/
def isTypedefName (tok : Token) : PM Bool := fun s =>
  if tok.IsIdentifier then
    match findChain s.curScope tok.str with
    | some i => .ok i.isTypeName s
    | none => .ok false s
  else .ok false s

/-- Modelled from the spec (§4.5, typedef disambiguation): `IsTypeName` of
the absent `parser.h`. -/
def IsTypeName (tok : Token) : PM Bool :=
  if tok.IsTypeSpecQual then pure true else isTypedefName tok

/-- Modelled from the spec (§4.6): `IsType` of the absent `parser.h`, the
test for the start of a declaration. -/
def IsType (tok : Token) : PM Bool :=
  if tok.IsDecl then pure true else isTypedefName tok

/-- The C function `atoi` on the lexeme of a token: the value of the leading
decimal digits. -/
def atoi (str : String) : Int :=
  ((str.toList.takeWhile Char.isDigit).foldl (fun n c => n * 10 + (c.toNat - 48)) 0 : Nat)

/-- `Parser::ParseConstant` (parser.cc 292-305). -/
def ParseConstant (tok : Token) : PM Expr := do
  assert tok.IsConstant
  if tok.tag == .kw .I_CONSTANT then
    let ival := atoi tok.str
    let type := NewArithmType (T_SIGNED ||| T_INT)
    pure (NewConstantInteger type ival)
  else
    let fval := atoi tok.str
    let type := NewArithmType T_DOUBLE
    pure (NewConstantFloat type fval)

/-- `Parser::ParseString` (parser.cc 308-313). -/
def ParseString (tok : Token) : PM Expr := do
  assert tok.IsString
  assert false
  pure .null

/-- `Parser::ParseGeneric` (parser.cc 316-320). -/
def ParseGeneric : PM Expr := do
  assert false
  pure .null

/-- `Parser::ParsePrimaryExpr` (parser.cc 257-290). -/
def ParsePrimaryExpr (r : Rec) : PM Expr := do
  if (← Peek).IsKeyWord then
    pure .null
  else
    let tok ← Next
    if tok.IsEOF then
      pure .null
    else if tok.tag == .chr '(' then
      let expr ← r.ParseExpr
      Expect1 (.chr ')')
      pure expr
    else if tok.IsIdentifier then
      let ident ← Find tok.str
      ErrorIf ident.isNone tok.coord "undefined symbol '%s'" [tok.str]
      pure (match ident with
        | some i => .identifier i
        | none => .null)
    else if tok.IsConstant then
      ParseConstant tok
    else if tok.IsString then
      ParseString tok
    else if tok.tag == .kw .GENERIC then
      ParseGeneric
    else
      Error tok.coord "Expect expression" []
      pure .null

/-- `Parser::ParseSubScripting` (parser.cc 373-381). -/
def ParseSubScripting (r : Rec) (pointer : Expr) : PM Expr := do
  let indexExpr ← r.ParseExpr
  let tok ← Peek
  Expect1 (.chr ']')
  NewBinaryOpTok tok pointer indexExpr

/-- `Parser::ParseMemberRef` (parser.cc 384-390). -/
def ParseMemberRef (tok : Token) (lhs : Expr) : PM Expr := do
  let memberName := (← Peek).str
  Expect1 (.kw .IDENTIFIER)
  NewMemberRefOp tok lhs memberName

/-- `Parser::ParsePostfixIncDec` (parser.cc 392-398). -/
def ParsePostfixIncDec (tok : Token) (operand : Expr) : PM Expr :=
  let op : Tag := if tok.tag == .kw .INC_OP then .kw .POSTFIX_INC else .kw .POSTFIX_DEC
  NewUnaryOp tok op operand .null

/-- Modelled from the spec (§4.8 "Call"): `Type::Compatible`, taken to be
equality of types. -/
def CType.compatible (a b : CType) : Bool := CType.beq a b

/-- The first loop of `ParseFuncCall` (parser.cc 409-424), one iteration per
declared parameter; `params` is the rest of the parameter list from `iter`
on.  With no parameter left at entry, `*iter` reads past the end. -/
def ParseFuncCall.args (r : Rec) : List CType → List Expr → PM (List Expr)
  | [], _ => PM.fail .nullDeref
  | param :: rest, args => do
    let tok ← Peek
    let arg ← r.ParseAssignExpr
    let args := args ++ [arg]
    derefType param
    let argTy ← Ty arg
    derefType argTy
    ErrorIf (!(param.compatible argTy)) tok.coord
      "incompatible type for argument 1 of ''" []
    match rest with
    | [] => pure args
    | _ :: _ =>
      Expect1 (.chr ',')
      ParseFuncCall.args r rest args

/-- The second loop of `ParseFuncCall` (parser.cc 429-433), for the
arguments of a variadic function. -/
def ParseFuncCall.varArgs (r : Rec) (args : List Expr) : PM (List Expr) := do
  if ← Try (.chr ')') then
    pure args
  else
    Expect1 (.chr ',')
    let arg ← r.ParseAssignExpr
    r.loopFuncCallVarArgs (args ++ [arg])

/-- `Parser::ParseFuncCall` (parser.cc 400-437). -/
def ParseFuncCall (r : Rec) (designator : Expr) : PM Expr := do
  let ty ← Ty designator
  let isFunc ← ToFuncType ty
  assert isFunc
  match ty with
  | .func _ _ hasEllipsis params =>
    let tok ← Peek
    let args ← ParseFuncCall.args r params []
    let args ← (if !hasEllipsis then do
        Expect1 (.chr ')')
        pure args
      else ParseFuncCall.varArgs r args)
    NewFuncCall tok designator args
  | _ => PM.fail .assertFail

/-- `Parser::ParsePostfixExprTail` (parser.cc 342-371); the next iteration of
its loop is `r.ParsePostfixExprTail`. -/
def ParsePostfixExprTail (r : Rec) (lhs : Expr) : PM Expr := do
  let tok ← Next
  if tok.tag == .chr '[' then
    let lhs ← ParseSubScripting r lhs
    r.ParsePostfixExprTail lhs
  else if tok.tag == .chr '(' then
    let lhs ← ParseFuncCall r lhs
    r.ParsePostfixExprTail lhs
  else if tok.tag == .chr '.' || tok.tag == .kw .PTR_OP then
    let lhs ← ParseMemberRef tok lhs
    r.ParsePostfixExprTail lhs
  else if tok.tag == .kw .INC_OP || tok.tag == .kw .DEC_OP then
    let lhs ← ParsePostfixIncDec tok lhs
    r.ParsePostfixExprTail lhs
  else
    PutBack
    pure lhs

/-- `Parser::ParsePostfixExpr` (parser.cc 322-339). -/
def ParsePostfixExpr (r : Rec) : PM Expr := do
  let tok ← Next
  if tok.IsEOF then
    pure .null
  else
    if tok.tag == .chr '(' then
      let isTypeName ← IsTypeName (← Peek)
      ErrorIf isTypeName tok.coord "compound literals not supported yet" []
    else pure ()
    PutBack
    let primExpr ← ParsePrimaryExpr r
    ParsePostfixExprTail r primExpr

/-- The test `tok->Tag() == '(' && IsTypeName(Peek())` of `ParseSizeof` and
`ParseCastExpr`. -/
def startsTypeName (tok : Token) : PM Bool := do
  if tok.tag == .chr '(' then
    IsTypeName (← Peek)
  else pure false

/-- `Parser::ParseSizeof` (parser.cc 469-491). -/
def ParseSizeof (r : Rec) : PM Expr := do
  let tok ← Next
  let type ← (do
    if ← startsTypeName tok then
      let type ← r.ParseTypeName
      Expect1 (.chr ')')
      pure type
    else
      PutBack
      let unaryExpr ← r.ParseUnaryExpr
      Ty unaryExpr)
  let isFunc ← ToFuncType type
  ErrorIf isFunc tok.coord "sizeof operator can't act on function" []
  let intType := NewArithmType (T_UNSIGNED ||| T_LONG)
  pure (NewConstantInteger intType type.width)

/-- `Parser::ParseAlignof` (parser.cc 493-501). -/
def ParseAlignof (r : Rec) : PM Expr := do
  Expect1 (.chr '(')
  let type ← r.ParseTypeName
  Expect1 (.chr ')')
  let intType := NewArithmType (T_UNSIGNED ||| T_LONG)
  derefType type
  pure (NewConstantInteger intType type.align)

/-- `Parser::ParsePrefixIncDec` (parser.cc 503-512). -/
def ParsePrefixIncDec (r : Rec) (tok : Token) : PM Expr := do
  assert (tok.tag == .kw .INC_OP || tok.tag == .kw .DEC_OP)
  let op : Tag := if tok.tag == .kw .INC_OP then .kw .PREFIX_INC else .kw .PREFIX_DEC
  let operand ← r.ParseUnaryExpr
  NewUnaryOp tok op operand .null

/-- `Parser::ParseUnaryOp` (parser.cc 514-519). -/
def ParseUnaryOp (r : Rec) (tok : Token) (op : Tag) : PM Expr := do
  let operand ← r.ParseCastExpr
  NewUnaryOp tok op operand .null

/-- `Parser::ParseUnaryExpr` (parser.cc 439-467). -/
def ParseUnaryExpr (r : Rec) : PM Expr := do
  let tok ← Next
  if tok.tag == .kw .ALIGNOF then ParseAlignof r
  else if tok.tag == .kw .SIZEOF then ParseSizeof r
  else if tok.tag == .kw .INC_OP then ParsePrefixIncDec r tok
  else if tok.tag == .kw .DEC_OP then ParsePrefixIncDec r tok
  else if tok.tag == .chr '&' then ParseUnaryOp r tok (.kw .ADDR)
  else if tok.tag == .chr '*' then ParseUnaryOp r tok (.kw .DEREF)
  else if tok.tag == .chr '+' then ParseUnaryOp r tok (.kw .PLUS)
  else if tok.tag == .chr '-' then ParseUnaryOp r tok (.kw .MINUS)
  else if tok.tag == .chr '~' then ParseUnaryOp r tok (.chr '~')
  else if tok.tag == .chr '!' then ParseUnaryOp r tok (.chr '!')
  else
    PutBack
    ParsePostfixExpr r

/-- `Parser::ParseCastExpr` (parser.cc 530-543). -/
def ParseCastExpr (r : Rec) : PM Expr := do
  let tok ← Next
  if ← startsTypeName tok then
    let desType ← r.ParseTypeName
    Expect1 (.chr ')')
    let operand ← r.ParseCastExpr
    NewUnaryOp tok (.kw .CAST) operand desType
  else
    PutBack
    ParseUnaryExpr r

/-- The loop of `ParseMultiplicativeExpr` (parser.cc 545-558), entered with the
token `tok` just read; the next iteration is `r.loopMultiplicative`. -/
def ParseMultiplicativeExpr.loop (r : Rec) (lhs : Expr) (tok : Token) : PM Expr := do
  if tok.tag == .chr '*' || tok.tag == .chr '/' || tok.tag == .chr '%' then
    let rhs ← ParseCastExpr r
    let lhs ← NewBinaryOpTok tok lhs rhs
    let tok ← Next
    r.loopMultiplicative lhs tok
  else
    PutBack
    pure lhs

/-- `Parser::ParseMultiplicativeExpr` (parser.cc 545-558). -/
def ParseMultiplicativeExpr (r : Rec) : PM Expr := do
  let lhs ← ParseCastExpr r
  let tok ← Next
  ParseMultiplicativeExpr.loop r lhs tok

/-- The loop of `ParseAdditiveExpr` (parser.cc 560-573), entered with the
token `tok` just read; the next iteration is `r.loopAdditive`. -/
def ParseAdditiveExpr.loop (r : Rec) (lhs : Expr) (tok : Token) : PM Expr := do
  if tok.tag == .chr '+' || tok.tag == .chr '-' then
    let rhs ← ParseMultiplicativeExpr r
    let lhs ← NewBinaryOpTok tok lhs rhs
    let tok ← Next
    r.loopAdditive lhs tok
  else
    PutBack
    pure lhs

/-- `Parser::ParseAdditiveExpr` (parser.cc 560-573). -/
def ParseAdditiveExpr (r : Rec) : PM Expr := do
  let lhs ← ParseMultiplicativeExpr r
  let tok ← Next
  ParseAdditiveExpr.loop r lhs tok

/-- The loop of `ParseShiftExpr` (parser.cc 575-588), entered with the
token `tok` just read; the next iteration is `r.loopShift`. -/
def ParseShiftExpr.loop (r : Rec) (lhs : Expr) (tok : Token) : PM Expr := do
  if tok.tag == .kw .LEFT_OP || tok.tag == .kw .RIGHT_OP then
    let rhs ← ParseAdditiveExpr r
    let lhs ← NewBinaryOpTok tok lhs rhs
    let tok ← Next
    r.loopShift lhs tok
  else
    PutBack
    pure lhs

/-- `Parser::ParseShiftExpr` (parser.cc 575-588). -/
def ParseShiftExpr (r : Rec) : PM Expr := do
  let lhs ← ParseAdditiveExpr r
  let tok ← Next
  ParseShiftExpr.loop r lhs tok

/-- The loop of `ParseRelationalExpr` (parser.cc 590-604), entered with the
token `tok` just read; the next iteration is `r.loopRelational`. -/
def ParseRelationalExpr.loop (r : Rec) (lhs : Expr) (tok : Token) : PM Expr := do
  if tok.tag == .kw .LE_OP || tok.tag == .kw .GE_OP
      || tok.tag == .chr '<' || tok.tag == .chr '>' then
    let rhs ← ParseShiftExpr r
    let lhs ← NewBinaryOpTok tok lhs rhs
    let tok ← Next
    r.loopRelational lhs tok
  else
    PutBack
    pure lhs

/-- `Parser::ParseRelationalExpr` (parser.cc 590-604). -/
def ParseRelationalExpr (r : Rec) : PM Expr := do
  let lhs ← ParseShiftExpr r
  let tok ← Next
  ParseRelationalExpr.loop r lhs tok

/-- The loop of `ParseEqualityExpr` (parser.cc 606-619), entered with the
token `tok` just read; the next iteration is `r.loopEquality`. -/
def ParseEqualityExpr.loop (r : Rec) (lhs : Expr) (tok : Token) : PM Expr := do
  if tok.tag == .kw .EQ_OP || tok.tag == .kw .NE_OP then
    let rhs ← ParseRelationalExpr r
    let lhs ← NewBinaryOpTok tok lhs rhs
    let tok ← Next
    r.loopEquality lhs tok
  else
    PutBack
    pure lhs

/-- `Parser::ParseEqualityExpr` (parser.cc 606-619). -/
def ParseEqualityExpr (r : Rec) : PM Expr := do
  let lhs ← ParseRelationalExpr r
  let tok ← Next
  ParseEqualityExpr.loop r lhs tok

/-- The loop of `ParseBitiwiseAndExpr` (parser.cc 621-633), entered with the
token `tok` just peeked; the next iteration is `r.loopBitwiseAnd`. -/
def ParseBitiwiseAndExpr.loop (r : Rec) (lhs : Expr) (tok : Token) : PM Expr := do
  if ← Try (.chr '&') then
    let rhs ← ParseEqualityExpr r
    let lhs ← NewBinaryOpTok tok lhs rhs
    let tok ← Peek
    r.loopBitwiseAnd lhs tok
  else
    pure lhs

/-- `Parser::ParseBitiwiseAndExpr` (parser.cc 621-633). -/
def ParseBitiwiseAndExpr (r : Rec) : PM Expr := do
  let lhs ← ParseEqualityExpr r
  let tok ← Peek
  ParseBitiwiseAndExpr.loop r lhs tok

/-- The loop of `ParseBitwiseXorExpr` (parser.cc 635-647), entered with the
token `tok` just peeked; the next iteration is `r.loopBitwiseXor`. -/
def ParseBitwiseXorExpr.loop (r : Rec) (lhs : Expr) (tok : Token) : PM Expr := do
  if ← Try (.chr '^') then
    let rhs ← ParseBitiwiseAndExpr r
    let lhs ← NewBinaryOpTok tok lhs rhs
    let tok ← Peek
    r.loopBitwiseXor lhs tok
  else
    pure lhs

/-- `Parser::ParseBitwiseXorExpr` (parser.cc 635-647). -/
def ParseBitwiseXorExpr (r : Rec) : PM Expr := do
  let lhs ← ParseBitiwiseAndExpr r
  let tok ← Peek
  ParseBitwiseXorExpr.loop r lhs tok

/-- The loop of `ParseBitwiseOrExpr` (parser.cc 649-661), entered with the
token `tok` just peeked; the next iteration is `r.loopBitwiseOr`. -/
def ParseBitwiseOrExpr.loop (r : Rec) (lhs : Expr) (tok : Token) : PM Expr := do
  if ← Try (.chr '|') then
    let rhs ← ParseBitwiseXorExpr r
    let lhs ← NewBinaryOpTok tok lhs rhs
    let tok ← Peek
    r.loopBitwiseOr lhs tok
  else
    pure lhs

/-- `Parser::ParseBitwiseOrExpr` (parser.cc 649-661). -/
def ParseBitwiseOrExpr (r : Rec) : PM Expr := do
  let lhs ← ParseBitwiseXorExpr r
  let tok ← Peek
  ParseBitwiseOrExpr.loop r lhs tok

/-- The loop of `ParseLogicalAndExpr` (parser.cc 663-675), entered with the
token `tok` just peeked; the next iteration is `r.loopLogicalAnd`. -/
def ParseLogicalAndExpr.loop (r : Rec) (lhs : Expr) (tok : Token) : PM Expr := do
  if ← Try (.kw .AND_OP) then
    let rhs ← ParseBitwiseOrExpr r
    let lhs ← NewBinaryOpTok tok lhs rhs
    let tok ← Peek
    r.loopLogicalAnd lhs tok
  else
    pure lhs

/-- `Parser::ParseLogicalAndExpr` (parser.cc 663-675). -/
def ParseLogicalAndExpr (r : Rec) : PM Expr := do
  let lhs ← ParseBitwiseOrExpr r
  let tok ← Peek
  ParseLogicalAndExpr.loop r lhs tok

/-- The loop of `ParseLogicalOrExpr` (parser.cc 677-689), entered with the
token `tok` just peeked; the next iteration is `r.loopLogicalOr`. -/
def ParseLogicalOrExpr.loop (r : Rec) (lhs : Expr) (tok : Token) : PM Expr := do
  if ← Try (.kw .OR_OP) then
    let rhs ← ParseLogicalAndExpr r
    let lhs ← NewBinaryOpTok tok lhs rhs
    let tok ← Peek
    r.loopLogicalOr lhs tok
  else
    pure lhs

/-- `Parser::ParseLogicalOrExpr` (parser.cc 677-689). -/
def ParseLogicalOrExpr (r : Rec) : PM Expr := do
  let lhs ← ParseLogicalAndExpr r
  let tok ← Peek
  ParseLogicalOrExpr.loop r lhs tok

/-- `Parser::ParseConditionalExpr` (parser.cc 691-704). -/
def ParseConditionalExpr (r : Rec) : PM Expr := do
  let cond ← ParseLogicalOrExpr r
  let tok ← Peek
  if ← Try (.chr '?') then
    let exprTrue ← r.ParseExpr
    Expect1 (.chr ':')
    let exprFalse ← r.ParseConditionalExpr
    NewConditionalOp tok cond exprTrue exprFalse
  else
    pure cond

/-- The binary operator a compound assignment token stands for (the cases of
the switch in `ParseAssignExpr`, parser.cc 713-762). -/
def compoundAssignOp (tag : Tag) : Option Tag :=
  if tag == .kw .MUL_ASSIGN then some (.chr '*')
  else if tag == .kw .DIV_ASSIGN then some (.chr '/')
  else if tag == .kw .MOD_ASSIGN then some (.chr '%')
  else if tag == .kw .ADD_ASSIGN then some (.chr '+')
  else if tag == .kw .SUB_ASSIGN then some (.chr '-')
  else if tag == .kw .LEFT_ASSIGN then some (.kw .LEFT_OP)
  else if tag == .kw .RIGHT_ASSIGN then some (.kw .RIGHT_OP)
  else if tag == .kw .AND_ASSIGN then some (.chr '&')
  else if tag == .kw .XOR_ASSIGN then some (.chr '^')
  else if tag == .kw .OR_ASSIGN then some (.chr '|')
  else none

/-- `Parser::ParseAssignExpr` (parser.cc 706-774).  The ten cases of a
compound assignment differ only in the operator, `compoundAssignOp`. -/
def ParseAssignExpr (r : Rec) : PM Expr := do
  let lhs ← ParseConditionalExpr r
  let tok ← Next
  match compoundAssignOp tok.tag with
  | some op =>
    let rhs ← r.ParseAssignExpr
    let rhs ← NewBinaryOp tok op lhs rhs
    NewBinaryOp tok (.chr '=') lhs rhs
  | none =>
    if tok.tag == .chr '=' then
      let rhs ← r.ParseAssignExpr
      NewBinaryOp tok (.chr '=') lhs rhs
    else
      PutBack
      pure lhs

/-- The loop of `ParseCommaExpr` (parser.cc 244-255), entered with the token
`tok` just peeked; the next iteration is `r.loopComma`. -/
def ParseCommaExpr.loop (r : Rec) (lhs : Expr) (tok : Token) : PM Expr := do
  if ← Try (.chr ',') then
    let rhs ← ParseAssignExpr r
    let lhs ← NewBinaryOpTok tok lhs rhs
    let tok ← Peek
    r.loopComma lhs tok
  else
    pure lhs

/-- `Parser::ParseCommaExpr` (parser.cc 244-255). -/
def ParseCommaExpr (r : Rec) : PM Expr := do
  let lhs ← ParseAssignExpr r
  let tok ← Peek
  ParseCommaExpr.loop r lhs tok

/-- `Parser::ParseExpr` (parser.cc 239-242). -/
def ParseExpr (r : Rec) : PM Expr := ParseCommaExpr r

/-! ### Declarations (parser.cc 777-1726) -/

/-- Modelled from the spec (§1, "simple integer evaluation"): the value of a
constant expression, `none` when the expression is not an integer constant
expression.  Covers integer constants, the unary operators `+ - ~ !` and the
binary operators `+ - * / %`. -/
def evalInteger : Expr → Option Int
  | .constant ty v => if ty.isInteger then some v else none
  | .unaryOp op e _ =>
    match evalInteger e with
    | none => none
    | some v =>
      if op == .kw .PLUS then some v
      else if op == .kw .MINUS then some (-v)
      else if op == .chr '~' then some (-v - 1)
      else if op == .chr '!' then some (if v == 0 then 1 else 0)
      else none
  | .binaryOp op l r _ =>
    match evalInteger l, evalInteger r with
    | some a, some b =>
      if op == .chr '+' then some (a + b)
      else if op == .chr '-' then some (a - b)
      else if op == .chr '*' then some (a * b)
      else if op == .chr '/' then some (a / b)
      else if op == .chr '%' then some (a % b)
      else none
    | _, _ => none
  | _ => none

/-- Modelled from the spec: `Expr::EvalInteger(errTok)` of the absent
`ast.h`: the value of the constant expression, or a diagnostic and 0. -/
def EvalInteger (e : Expr) (errTok : Option Token) : PM Int := do
  derefExpr e
  match evalInteger e with
  | some v => pure v
  | none =>
    let errTok ← derefTok errTok
    Error errTok.coord "expect constant expression" []
    pure 0

/-- The assignment `_errTok = Peek()`. -/
def setErrTok : PM Unit := fun s =>
  .ok () { s with errTok := some (tokAt s.toks s.pos) }

/-- `_curScope->FindTagInCurScope(name)`. -/
def FindTagInCurScope (name : String) : PM (Option Identifier) := do
  let sc ← curScope
  pure (sc.FindTagInCurScope name)

/-- `_curScope->FindTag(name)`. -/
def FindTag (name : String) : PM (Option Identifier) := fun s =>
  match s.curScope with
  | [] => .fail .nullDeref s
  | _ :: _ => .ok (findTagChain s.curScope name) s

/-- `_curScope->InsertTag(name, ident)`. -/
def InsertTag (name : String) (i : Identifier) : PM Unit := fun s =>
  match s.curScope with
  | [] => .fail .nullDeref s
  | sc :: rest => .ok () { s with curScope := sc.InsertTag name i :: rest }

/-- Modelled from the spec: `Type::NewStructUnionType(isStruct)`, a new
incomplete struct or union type without members. -/
def NewStructUnionType (isStruct : Bool) : PM CType := do
  let id ← freshId
  modifyP fun s =>
    { s with structs := (id, { isStruct := isStruct, complete := false, members := [] })
               :: s.structs }
  pure (.structUnion id)

/-- Modelled from the spec: `Type::SetComplete(flag)` on a struct/union type
or on an arithmetic type with a mutable flag; an arithmetic type without one
gets a flag of its own. -/
def SetComplete (t : CType) (flag : Bool) : PM CType :=
  match t with
  | .null => PM.fail .nullDeref
  | .structUnion id => do
    modifyP fun s =>
      { s with structs :=
          (id, { isStruct := ((s.structs.lookup id).map (·.isStruct)).getD true,
                 complete := flag,
                 members := ((s.structs.lookup id).map (·.members)).getD [] })
            :: s.structs }
    pure t
  | .arithm tag (some c) => do
    modifyP fun s => { s with cells := (c, flag) :: s.cells }
    pure t
  | .arithm tag none => do
    let c ← freshId
    modifyP fun s => { s with cells := (c, flag) :: s.cells }
    pure (.arithm tag (some c))
  | _ => pure t

/-- `Parser::ParseQual` (parser.cc 1271-1297); the next iteration of its loop
is `r.loopQual`. -/
def ParseQual.loop (r : Rec) (qualSpec : Nat) : PM Nat := do
  let tok ← Next
  if tok.tag == .kw .CONST then r.loopQual (qualSpec ||| Q_CONST)
  else if tok.tag == .kw .RESTRICT then r.loopQual (qualSpec ||| Q_RESTRICT)
  else if tok.tag == .kw .VOLATILE then r.loopQual (qualSpec ||| Q_VOLATILE)
  else if tok.tag == .kw .ATOMIC then r.loopQual (qualSpec ||| Q_ATOMIC)
  else
    PutBack
    pure qualSpec

/-- `Parser::ParseQual` (parser.cc 1271-1297). -/
def ParseQual (r : Rec) : PM Nat := ParseQual.loop r 0

/-- The loop of `ParsePointer` (parser.cc 1302-1306); the next iteration is
`r.loopPointer`. -/
def ParsePointer.loop (r : Rec) (retType typePointedTo : CType) : PM CType := do
  if ← Try (.chr '*') then
    let qual ← ParseQual r
    let retType : CType := .pointer typePointedTo qual
    r.loopPointer retType retType
  else
    pure retType

/-- `Parser::ParsePointer` (parser.cc 1299-1309). -/
def ParsePointer (r : Rec) (typePointedTo : CType) : PM CType :=
  ParsePointer.loop r typePointedTo typePointedTo

/-- `ModifyBase` (parser.cc 1311-1320) as a function: the type in which
`newBase` has replaced `base` at the end of the chain of derived types, or
`none` when the chain ends in a type other than `base` (a null
`ToDerivedType()`).  Pointer identity `type == base` is equality of types:
a type built on top of `base` is never equal to `base`. -/
def modifyBase : CType → CType → CType → Option CType
  | type, base, newBase =>
    if CType.beq type base then some newBase
    else
      match type with
      | .pointer d q => (modifyBase d base newBase).map (fun d => .pointer d q)
      | .array l d => (modifyBase d base newBase).map (fun d => .array l d)
      | .func d f v ps => (modifyBase d base newBase).map (fun d => .func d f v ps)
      | _ => none

/-- `ModifyBase` (parser.cc 1311-1320). -/
def ModifyBase (type base newBase : CType) : PM CType :=
  match modifyBase type base newBase with
  | some t => PM.pure t
  | none => PM.fail .nullDeref

/-- `Parser::ParseAlignas` (parser.cc 1068-1085). -/
def ParseAlignas (r : Rec) : PM Int := do
  Expect1 (.chr '(')
  if ← IsTypeName (← Peek) then
    let type ← r.ParseTypeName
    Expect1 (.chr ')')
    derefType type
    pure type.align
  else
    setErrTok
    let expr ← ParseExpr r
    let s ← getP
    let align ← EvalInteger expr s.errTok
    Expect1 (.chr ')')
    pure align

/-- The body of the do-while loop of `ParseEnumerator` (parser.cc
1141-1167) and what follows it; the next iteration is `r.loopEnumerator`. -/
def ParseEnumerator.loop (r : Rec) (type : CType) (val : Int) : PM CType := do
  let tok ← Peek
  ErrorIf (!tok.IsIdentifier) tok.coord "enumration constant expected" []
  let enumName := tok.str
  let ident ← FindInCurScope enumName
  ErrorIf ident.isSome tok.coord "redefinition of enumerator '%s'" [enumName]
  let val ← (do
    if ← Try (.chr '=') then
      setErrTok
      let expr ← ParseExpr r
      let s ← getP
      EvalInteger expr s.errTok
    else pure val)
  let _ ← Try (.chr ',')
  if ← Try (.chr '}') then
    SetComplete type true
  else
    r.loopEnumerator type val

/-- `Parser::ParseEnumerator` (parser.cc 1137-1172). -/
def ParseEnumerator (r : Rec) (type : CType) : PM CType := do
  let s ← getP
  assert (type.isArithm && !(completeIn s.cells s.structs type) && type.isInteger)
  ParseEnumerator.loop r type 0

/-- The part of `ParseEnumSpec` from the label `enum_decl` on (parser.cc
1127-1134). -/
def ParseEnumSpec.enumDecl (r : Rec) (tagName : String) : PM CType := do
  let type := NewArithmType T_INT
  if tagName.length != 0 then
    let sc ← curScope
    let ident ← NewIdentifier type sc.id .L_NONE
    InsertTag tagName ident
  else pure ()
  ParseEnumerator r type

/-- `Parser::ParseEnumSpec` (parser.cc 1093-1135).  After a forward
declaration (no brace) control falls through to `Expect('{')`. -/
def ParseEnumSpec (r : Rec) : PM CType := do
  let tok ← Next
  if tok.IsIdentifier then
    let tagName := tok.str
    if ← Try (.chr '{') then
      let tagIdent ← FindTagInCurScope tagName
      match tagIdent with
      | none => ParseEnumSpec.enumDecl r tagName
      | some tagIdent =>
        if !(← Complete tagIdent.ty) then
          ParseEnumerator r (if tagIdent.ty.isArithm then tagIdent.ty else .null)
        else
          Error tok.coord "redefinition of enumeration tag '%s'" [tagName]
          Expect1 (.chr '{')
          ParseEnumSpec.enumDecl r tagName
    else
      let tagIdent ← FindTag tagName
      match tagIdent with
      | some tagIdent => pure tagIdent.ty
      | none =>
        let type ← SetComplete (NewArithmType T_INT) false
        let sc ← curScope
        let ident ← NewIdentifier type sc.id .L_NONE
        InsertTag tagName ident
        Expect1 (.chr '{')
        ParseEnumSpec.enumDecl r tagName
  else
    Expect1 (.chr '{')
    ParseEnumSpec.enumDecl r ""

/-- `Parser::ParseSpecQual` (parser.cc 833-836): `ParseDeclSpec` with null
out-parameters. -/
def ParseSpecQual (r : Rec) : PM CType := do
  let spec ← r.ParseDeclSpec true
  pure spec.type

/-- The loop of `ParseStructDecl` (parser.cc 1253-1261) and what follows it;
the next iteration is `r.loopStructDecl`. -/
def ParseStructDecl.loop (r : Rec) (type : CType) : PM CType := do
  if ← Try (.chr '}') then
    SetComplete type true
  else
    let tok ← Peek
    ErrorIf tok.IsEOF tok.coord "premature end of input" []
    let fieldType ← ParseSpecQual r
    r.loopStructDecl type

/-- `Parser::ParseStructDecl` (parser.cc 1248-1269). -/
def ParseStructDecl (r : Rec) (type : CType) : PM CType := do
  let s ← getP
  assert (type.isStructUnion && !(completeIn s.cells s.structs type))
  ParseStructDecl.loop r type

/-- The part of `ParseStructUnionSpec` from the label `struct_decl` on
(parser.cc 1236-1245). -/
def ParseStructUnionSpec.structDecl (r : Rec) (isStruct : Bool) (tagName : String) :
    PM CType := do
  let type ← NewStructUnionType isStruct
  if tagName.length != 0 then
    let sc ← curScope
    let ident ← NewIdentifier type sc.id .L_NONE
    InsertTag tagName ident
  else pure ()
  ParseStructDecl r type

/-- `Parser::ParseStructUnionSpec` (parser.cc 1181-1246). -/
def ParseStructUnionSpec (r : Rec) (isStruct : Bool) : PM CType := do
  let tok ← Next
  if tok.IsIdentifier then
    let tagName := tok.str
    if ← Try (.chr '{') then
      let tagIdent ← FindTagInCurScope tagName
      match tagIdent with
      | none => ParseStructUnionSpec.structDecl r isStruct tagName
      | some tagIdent =>
        if !(← Complete tagIdent.ty) then
          ParseStructDecl r (if tagIdent.ty.isStructUnion then tagIdent.ty else .null)
        else
          Error tok.coord "redefinition of struct tag '%s'" [tok.str]
          Expect1 (.chr '{')
          ParseStructUnionSpec.structDecl r isStruct tagName
    else
      let tagIdent ← FindTag tagName
      match tagIdent with
      | some tagIdent => pure tagIdent.ty
      | none =>
        let type ← NewStructUnionType isStruct
        let sc ← curScope
        let ident ← NewIdentifier type sc.id .L_NONE
        InsertTag tagName ident
        pure type
  else
    Expect1 (.chr '{')
    ParseStructUnionSpec.structDecl r isStruct ""

/-- Compatibility mask of `signed` (parser.cc 811). -/
def COMP_SIGNED : Nat := T_SHORT ||| T_INT ||| T_LONG ||| T_LONG_LONG
/-- Compatibility mask of `unsigned` (parser.cc 812). -/
def COMP_UNSIGNED : Nat := T_SHORT ||| T_INT ||| T_LONG ||| T_LONG_LONG
/-- Compatibility mask of `char` (parser.cc 813). -/
def COMP_CHAR : Nat := T_SIGNED ||| T_UNSIGNED
/-- Compatibility mask of `short` (parser.cc 814). -/
def COMP_SHORT : Nat := T_SIGNED ||| T_UNSIGNED ||| T_INT
/-- Compatibility mask of `int` (parser.cc 815). -/
def COMP_INT : Nat := T_SIGNED ||| T_UNSIGNED ||| T_LONG ||| T_SHORT ||| T_LONG_LONG
/-- Compatibility mask of `long` (parser.cc 816). -/
def COMP_LONG : Nat := T_SIGNED ||| T_UNSIGNED ||| T_LONG ||| T_INT
/-- Compatibility mask of `double` (parser.cc 817). -/
def COMP_DOUBLE : Nat := T_LONG ||| T_COMPLEX
/-- Compatibility mask of `_Complex` (parser.cc 818). -/
def COMP_COMPLEX : Nat := T_FLOAT ||| T_DOUBLE ||| T_LONG
/-- Compatibility mask of `_Thread_local` (parser.cc 820). -/
def COMP_THREAD : Nat := S_EXTERN ||| S_STATIC

/-- `TypeLL` (parser.cc 823-831). -/
def TypeLL (typeSpec : Nat) : Nat :=
  if hasBit typeSpec T_LONG then
    (andNot typeSpec T_LONG) ||| T_LONG_LONG
  else
    typeSpec ||| T_LONG

/-- Modelled from the spec: `Identifier::ToType`, the type a typedef name is
bound to, null for another identifier. -/
def Identifier.ToType (i : Identifier) : CType :=
  if i.isTypeName then i.ty else .null

/-- The part of `ParseDeclSpec` at the label `error` (parser.cc 1063-1065).
The out-parameters are not written; the values the caller then reads from
its uninitialised locals are taken to be 0. -/
def ParseDeclSpec.error (tok : Token) : PM DeclSpec := do
  Error tok.coord "type speficier/qualifier/storage error" []
  pure { type := .null, storageSpec := 0, funcSpec := 0 }

/-- The part of `ParseDeclSpec` from the label `end_of_loop` on (parser.cc
1030-1061).  `outNull` tells that the out-parameters are null; the values
returned for them are then 0. -/
def ParseDeclSpec.endOfLoop (outNull : Bool) (tok : Token) (v : DeclSpecVars) :
    PM DeclSpec := do
  PutBack
  ErrorIf (v.typeSpec == 0) tok.coord "expect type specifier" []
  let type : CType :=
    if v.typeSpec == 0 then v.type
    else if v.typeSpec == T_VOID then .void
    else if v.typeSpec == T_ATOMIC || v.typeSpec == T_STRUCT_UNION || v.typeSpec == T_ENUM
        || v.typeSpec == T_TYPEDEF_NAME then v.type
    else NewArithmType v.typeSpec
  if outNull then
    ErrorIf (v.funcSpec != 0 && v.storageSpec != 0 && v.align != -1) tok.coord
      "type specifier/qualifier only" []
    pure { type := type, storageSpec := 0, funcSpec := 0 }
  else
    pure { type := type, storageSpec := v.storageSpec, funcSpec := v.funcSpec }

/-- The body of the loop of `ParseDeclSpec` (parser.cc 851-1028); the next
iteration is `r.loopDeclSpec`. -/
def ParseDeclSpec.loop (r : Rec) (outNull : Bool) (v : DeclSpecVars) : PM DeclSpec := do
  let tok ← Next
  let k := tok.tag
  if k == .kw .INLINE then
    r.loopDeclSpec outNull { v with funcSpec := v.funcSpec ||| F_INLINE }
  else if k == .kw .NORETURN then
    r.loopDeclSpec outNull { v with funcSpec := v.funcSpec ||| F_NORETURN }
  else if k == .kw .ALIGNAS then
    let align ← ParseAlignas r
    r.loopDeclSpec outNull { v with align := align }
  else if k == .kw .TYPEDEF then
    if v.storageSpec != 0 then ParseDeclSpec.error tok
    else r.loopDeclSpec outNull { v with storageSpec := v.storageSpec ||| S_TYPEDEF }
  else if k == .kw .EXTERN then
    if andNot v.storageSpec S_THREAD != 0 then ParseDeclSpec.error tok
    else r.loopDeclSpec outNull { v with storageSpec := v.storageSpec ||| S_EXTERN }
  else if k == .kw .STATIC then
    if andNot v.storageSpec S_THREAD != 0 then ParseDeclSpec.error tok
    else r.loopDeclSpec outNull { v with storageSpec := v.storageSpec ||| S_STATIC }
  else if k == .kw .THREAD then
    if andNot v.storageSpec COMP_THREAD != 0 then ParseDeclSpec.error tok
    else r.loopDeclSpec outNull { v with storageSpec := v.storageSpec ||| S_THREAD }
  else if k == .kw .AUTO then
    if v.storageSpec != 0 then ParseDeclSpec.error tok
    else r.loopDeclSpec outNull { v with storageSpec := v.storageSpec ||| S_AUTO }
  else if k == .kw .REGISTER then
    if v.storageSpec != 0 then ParseDeclSpec.error tok
    else r.loopDeclSpec outNull { v with storageSpec := v.storageSpec ||| S_REGISTER }
  else if k == .kw .CONST then
    r.loopDeclSpec outNull { v with qualSpec := v.qualSpec ||| Q_CONST }
  else if k == .kw .RESTRICT then
    r.loopDeclSpec outNull { v with qualSpec := v.qualSpec ||| Q_RESTRICT }
  else if k == .kw .VOLATILE then
    r.loopDeclSpec outNull { v with qualSpec := v.qualSpec ||| Q_VOLATILE }
  else if k == .kw .SIGNED then
    if andNot v.typeSpec COMP_SIGNED != 0 then ParseDeclSpec.error tok
    else r.loopDeclSpec outNull { v with typeSpec := v.typeSpec ||| T_SIGNED }
  else if k == .kw .UNSIGNED then
    if andNot v.typeSpec COMP_UNSIGNED != 0 then ParseDeclSpec.error tok
    else r.loopDeclSpec outNull { v with typeSpec := v.typeSpec ||| T_UNSIGNED }
  else if k == .kw .VOID then
    if v.typeSpec != 0 then ParseDeclSpec.error tok
    else r.loopDeclSpec outNull { v with typeSpec := v.typeSpec ||| T_VOID }
  else if k == .kw .CHAR then
    if andNot v.typeSpec COMP_CHAR != 0 then ParseDeclSpec.error tok
    else r.loopDeclSpec outNull { v with typeSpec := v.typeSpec ||| T_CHAR }
  else if k == .kw .SHORT then
    if andNot v.typeSpec COMP_SHORT != 0 then ParseDeclSpec.error tok
    else r.loopDeclSpec outNull { v with typeSpec := v.typeSpec ||| T_SHORT }
  else if k == .kw .INT then
    if andNot v.typeSpec COMP_INT != 0 then ParseDeclSpec.error tok
    else r.loopDeclSpec outNull { v with typeSpec := v.typeSpec ||| T_INT }
  else if k == .kw .LONG then
    if andNot v.typeSpec COMP_LONG != 0 then ParseDeclSpec.error tok
    else r.loopDeclSpec outNull { v with typeSpec := TypeLL v.typeSpec }
  else if k == .kw .FLOAT then
    if andNot v.typeSpec T_COMPLEX != 0 then ParseDeclSpec.error tok
    else r.loopDeclSpec outNull { v with typeSpec := v.typeSpec ||| T_FLOAT }
  else if k == .kw .DOUBLE then
    if andNot v.typeSpec COMP_DOUBLE != 0 then ParseDeclSpec.error tok
    else r.loopDeclSpec outNull { v with typeSpec := v.typeSpec ||| T_DOUBLE }
  else if k == .kw .BOOL then
    if v.typeSpec != 0 then ParseDeclSpec.error tok
    else r.loopDeclSpec outNull { v with typeSpec := v.typeSpec ||| T_BOOL }
  else if k == .kw .COMPLEX then
    if andNot v.typeSpec COMP_COMPLEX != 0 then ParseDeclSpec.error tok
    else r.loopDeclSpec outNull { v with typeSpec := v.typeSpec ||| T_COMPLEX }
  else if k == .kw .STRUCT || k == .kw .UNION then
    if v.typeSpec != 0 then ParseDeclSpec.error tok
    else
      let type ← ParseStructUnionSpec r (k == .kw .STRUCT)
      r.loopDeclSpec outNull { v with type := type, typeSpec := v.typeSpec ||| T_STRUCT_UNION }
  else if k == .kw .ENUM then
    if v.typeSpec != 0 then ParseDeclSpec.error tok
    else
      let type ← ParseEnumSpec r
      r.loopDeclSpec outNull { v with type := type, typeSpec := v.typeSpec ||| T_ENUM }
  else if k == .kw .ATOMIC then
    PM.fail .assertFail
  else
    let isTypeName ← (if v.typeSpec == 0 then IsTypeName tok else pure false)
    if isTypeName then
      let ident ← Find tok.str
      let type : CType :=
        match ident with
        | some ident => ident.ToType
        | none => v.type
      r.loopDeclSpec outNull { v with type := type, typeSpec := v.typeSpec ||| T_TYPEDEF_NAME }
    else
      ParseDeclSpec.endOfLoop outNull tok v

/-- `Parser::ParseDeclSpec` (parser.cc 841-1066); `outNull` tells that the
out-parameters `storage` and `func` are null. -/
def ParseDeclSpec (r : Rec) (outNull : Bool) : PM DeclSpec :=
  ParseDeclSpec.loop r outNull
    { type := .null, align := -1, storageSpec := 0, funcSpec := 0, qualSpec := 0,
      typeSpec := 0 }

/-- `Parser::ParseArrayLength` (parser.cc 1511-1538). -/
def ParseArrayLength (r : Rec) : PM Int := do
  let hasStatic ← Try (.kw .STATIC)
  let qual ← ParseQual r
  let hasStatic ← (if qual != 0 then Try (.kw .STATIC) else pure hasStatic)
  let unspecified ← (if !hasStatic then Try (.chr ']') else pure false)
  if unspecified then
    pure (-1)
  else
    setErrTok
    let expr ← ParseAssignExpr r
    let s ← getP
    EvalInteger expr s.errTok

/-- `Parser::ParseParamDecl` (parser.cc 1571-1590). -/
def ParseParamDecl (r : Rec) : PM CType := do
  let spec ← ParseDeclSpec r false
  let tok ← Peek
  if tok.tag == .chr ',' || tok.tag == .chr ')' then
    pure spec.type
  else
    let tokTypePair ← r.ParseDeclarator spec.type
    match tokTypePair.first with
    | none => pure tokTypePair.second
    | some tok =>
      let _ ← ProcessDeclarator (some tok) tokTypePair.second spec.storageSpec spec.funcSpec
      pure tokTypePair.second

/-- The loop of `ParseParamList` (parser.cc 1554-1568); the next iteration is
`r.loopParamList`. -/
def ParseParamList.loop (r : Rec) (params : List CType) : PM (Bool × List CType) := do
  if ← Try (.chr ',') then
    if ← Try (.kw .ELLIPSIS) then
      pure (true, params)
    else
      let tok ← Peek
      let paramType ← ParseParamDecl r
      let isVoid ← ToVoidType paramType
      ErrorIf isVoid tok.coord "'void' must be the only parameter" []
      r.loopParamList (params ++ [paramType])
  else
    pure (false, params)

/-- `Parser::ParseParamList` (parser.cc 1543-1569): the ellipsis flag and the
parameter types pushed to `params`. -/
def ParseParamList (r : Rec) : PM (Bool × List CType) := do
  let paramType ← ParseParamDecl r
  if ← ToVoidType paramType then
    pure (false, [paramType])
  else
    ParseParamList.loop r [paramType]

/-- Modelled from the spec: `Type::NewArrayType(len, base)`. -/
def NewArrayType (len : Int) (base : CType) : CType := .array len base

/-- Modelled from the spec: `Type::NewFuncType(base, funcSpec, hasEllipsis,
params)`. -/
def NewFuncType (base : CType) (funcSpec : Nat) (hasEllipsis : Bool) (params : List CType) :
    CType := .func base funcSpec hasEllipsis params

/-- `Parser::ParseArrayFuncDeclarator` (parser.cc 1470-1506). -/
def ParseArrayFuncDeclarator (r : Rec) (base : CType) : PM CType := do
  if ← Try (.chr '[') then
    let isFunc ← ToFuncType base
    ErrorIf isFunc (← Peek).coord "the element of array can't be a function" []
    let len ← ParseArrayLength r
    ErrorIf (len == 0) (← Peek).coord "can't declare an array of length 0" []
    Expect1 (.chr ']')
    let base ← r.ParseArrayFuncDeclarator base
    pure (NewArrayType len base)
  else if ← Try (.chr '(') then
    let isFunc ← ToFuncType base
    ErrorIf isFunc (← Peek).coord "the return value of function can't be function" []
    ErrorIf (!isFunc && base.isArray) (← Peek).coord
      "the return value of function can't be array" []
    EnterBlock
    let hasEllipsisParams ← ParseParamList r
    ExitBlock
    Expect1 (.chr ')')
    let base ← r.ParseArrayFuncDeclarator base
    pure (NewFuncType base 0 hasEllipsisParams.1 hasEllipsisParams.2)
  else
    pure base

/-- `Parser::ParseDeclarator` (parser.cc 1327-1351). -/
def ParseDeclarator (r : Rec) (base : CType) : PM TokenTypePair := do
  let pointerType ← ParsePointer r base
  if ← Try (.chr '(') then
    let tokenTypePair ← r.ParseDeclarator pointerType
    Expect1 (.chr ')')
    let newBase ← ParseArrayFuncDeclarator r pointerType
    let retType ← ModifyBase tokenTypePair.second pointerType newBase
    pure { first := tokenTypePair.first, second := retType }
  else if (← Peek).IsIdentifier then
    let tok ← Next
    let retType ← ParseArrayFuncDeclarator r pointerType
    pure { first := some tok, second := retType }
  else
    setErrTok
    pure { first := none, second := pointerType }

/-- `Parser::ParseAbstractDeclarator` (parser.cc 1592-1613). -/
def ParseAbstractDeclarator (r : Rec) (type : CType) : PM CType := do
  let tokenTypePair ← ParseDeclarator r type
  match tokenTypePair.first with
  | some tok => Error tok.coord "unexpected identifier '%s'" [tok.str]
  | none => pure ()
  pure tokenTypePair.second

/-- `Parser::ParseTypeName` (parser.cc 521-528). -/
def ParseTypeName (r : Rec) : PM CType := do
  let type ← ParseSpecQual r
  let star ← Try (.chr '*')
  let abstract ← (if star then pure true else Try (.chr '('))
  if abstract then
    ParseAbstractDeclarator r type
  else
    pure type

/-- `Parser::ParseDirectDeclarator` (parser.cc 1615-1626). -/
def ParseDirectDeclarator (r : Rec) (type : CType) (storageSpec funcSpec : Nat) :
    PM Identifier := do
  let tokenTypePair ← ParseDeclarator r type
  if tokenTypePair.first.isNone then
    let s ← getP
    let errTok ← derefTok s.errTok
    Error errTok.coord "expect identifier or '('" []
  else pure ()
  ProcessDeclarator tokenTypePair.first tokenTypePair.second storageSpec funcSpec

/-- `Parser::ParseStructInitializer` (parser.cc 1722-1725). -/
def ParseStructInitializer (obj : Identifier) : PM Stmt := pure .null

/-- Modelled from the spec: `ArrayType::GetElementOffset(idx)`, the index
times the width of the element type. -/
def GetElementOffset (type : CType) (idx : Nat) : Int := idx * type.derived.width

/-- The inner loop of `ParseArrayInitializer` (parser.cc 1698-1699): the first
index from `defaultIdx` on that is not in `idxSet`.  `fuel` bounds the
search; the size of `idxSet` plus one always suffices. -/
def nextDefaultIdx (idxSet : List Nat) : Nat → Nat → Nat
  | 0, defaultIdx => defaultIdx
  | fuel + 1, defaultIdx =>
    if idxSet.contains defaultIdx then nextDefaultIdx idxSet fuel (defaultIdx + 1)
    else defaultIdx

/-- The element object `ele` that `ParseArrayInitializer` makes for the index
`idx` (parser.cc 1686-1690 and 1702-1706). -/
def arrayElement (arr : Identifier) (idx : Nat) : PM Identifier := do
  let offset := GetElementOffset arr.ty idx
  let ele ← NewObject arr.ty.derived arr.scope 0 .L_NONE 0
  pure { ele with offset := offset + arr.offset, storage := arr.storage,
                  linkage := arr.linkage }

/-- The body of the loop of `ParseArrayInitializer` (parser.cc 1674-1717) and
what follows it; the next iteration is `r.loopArrayInitializer`. -/
def ParseArrayInitializer.loop (r : Rec) (arr : Identifier) (v : ArrayInitVars) :
    PM Stmt := do
  let tok ← Next
  if tok.tag == .chr '}' then
    pure (NewCompoundStmt v.stmts)
  else
    let v ← (do
      if tok.tag == .chr '[' then
        setErrTok
        let expr ← ParseExpr r
        let s ← getP
        let val ← EvalInteger expr s.errTok
        let idx := (val % 2 ^ 64).toNat
        let ele ← arrayElement arr idx
        Expect1 (.chr ']')
        Expect1 (.chr '=')
        let stmt ← r.ParseInitializer ele
        pure { v with idxSet := idx :: v.idxSet, stmts := v.stmts ++ [stmt] }
      else
        let defaultIdx := nextDefaultIdx v.idxSet (v.idxSet.length + 1) v.defaultIdx
        let ele ← arrayElement arr defaultIdx
        let stmt ← r.ParseInitializer ele
        pure { v with defaultIdx := defaultIdx, stmts := v.stmts ++ [stmt] })
    if !(← Try (.chr ',')) then
      let tok ← Peek
      ErrorIf (tok.tag != .chr '}') tok.coord "expect ',' or '\x7d'" []
    else pure ()
    r.loopArrayInitializer arr v

/-- `Parser::ParseArrayInitializer` (parser.cc 1665-1720). -/
def ParseArrayInitializer (r : Rec) (arr : Identifier) : PM Stmt := do
  assert arr.ty.isArray
  ParseArrayInitializer.loop r arr { defaultIdx := 0, idxSet := [], stmts := [] }

/-- `Parser::ParseInitializer` (parser.cc 1645-1663); `obj` is `none` for a
null `Object*`. -/
def ParseInitializer (r : Rec) (obj : Option Identifier) : PM Stmt := do
  match obj with
  | none => PM.fail .nullDeref
  | some obj =>
    let type := obj.ty
    let brace ← Try (.chr '{')
    let isArray ← (if brace then ToArrayType type else pure false)
    if brace && isArray then
      ParseArrayInitializer r obj
    else if brace && type.isStructUnion then
      ParseStructInitializer obj
    else
      let tok ← Peek
      let rhs ← ParseAssignExpr r
      let e ← NewBinaryOp tok (.chr '=') (.identifier obj) rhs
      pure e.toStmt

/-- `Parser::ParseInitDeclarator` (parser.cc 1631-1643). -/
def ParseInitDeclarator (r : Rec) (type : CType) (storageSpec funcSpec : Nat) : PM Stmt := do
  let ident ← ParseDirectDeclarator r type storageSpec funcSpec
  if ← Try (.chr '=') then
    ErrorIf (!ident.isObject) (← Peek).coord "unexpected initializer" []
    ParseInitializer r (if ident.isObject then some ident else none)
  else
    pure .null

/-- The body of the do-while loop of `ParseDecl` (parser.cc 795-801) and the
`Expect(';')` that follows it; the next iteration is `r.loopDecl`. -/
def ParseDecl.loop (r : Rec) (type : CType) (storageSpec funcSpec : Nat) (stmts : List Stmt) :
    PM (List Stmt) := do
  let initExpr ← ParseInitDeclarator r type storageSpec funcSpec
  let stmts := (match initExpr with
    | .null => stmts
    | _ => stmts ++ [initExpr])
  if ← Try (.chr ',') then
    r.loopDecl type storageSpec funcSpec stmts
  else
    Expect1 (.chr ';')
    pure stmts

/-- `Parser::ParseDecl` (parser.cc 784-806). -/
def ParseDecl (r : Rec) : PM Stmt := do
  if ← Try (.kw .STATIC_ASSERT) then
    pure (NewCompoundStmt [])
  else
    let spec ← ParseDeclSpec r false
    let star ← Test (.chr '*')
    let ident ← (if star then pure true else Test (.kw .IDENTIFIER))
    let first ← (if ident then pure true else Test (.chr '('))
    if first then
      let stmts ← ParseDecl.loop r spec.type spec.storageSpec spec.funcSpec []
      pure (NewCompoundStmt stmts)
    else
      pure (NewCompoundStmt [])

/-! ### Statements (parser.cc 1728-2143) -/

/-- Modelled from the spec (§4.6): `FindLabel` of the absent `parser.h`, the
lookup in the per-function label table `_curLabels`. -/
def FindLabel (name : String) : PM (Option Nat) := fun s =>
  .ok (s.curLabels.lookup name) s

/-- Modelled from the spec (§4.6): `AddLabel` of the absent `parser.h`, which
binds the name in `_curLabels`. -/
def AddLabel (name : String) (label : Nat) : PM Unit := modifyP fun s =>
  { s with curLabels := (name, label) :: s.curLabels }

/-- The loop of `ParseCompoundStmt` (parser.cc 1782-1792); the next iteration
is `r.loopCompoundStmt`. -/
def ParseCompoundStmt.loop (r : Rec) (stmts : List Stmt) : PM (List Stmt) := do
  if ← Try (.chr '}') then
    pure stmts
  else
    let tok ← Peek
    ErrorIf tok.IsEOF tok.coord "premature end of input" []
    if ← IsType (← Peek) then
      let stmt ← ParseDecl r
      r.loopCompoundStmt (stmts ++ [stmt])
    else
      let stmt ← r.ParseStmt
      r.loopCompoundStmt (stmts ++ [stmt])

/-- `Parser::ParseCompoundStmt` (parser.cc 1777-1797). -/
def ParseCompoundStmt (r : Rec) : PM Stmt := do
  EnterBlock
  let stmts ← ParseCompoundStmt.loop r []
  ExitBlock
  pure (NewCompoundStmt stmts)

/-- `Parser::ParseIfStmt` (parser.cc 1799-1815). -/
def ParseIfStmt (r : Rec) : PM Stmt := do
  Expect1 (.chr '(')
  let tok ← Peek
  let cond ← ParseExpr r
  let ty ← Ty cond
  let scalar ← IsScalar ty
  ErrorIf (!scalar) tok.coord "expect scalar" []
  Expect1 (.chr ')')
  let thenStmt ← r.ParseStmt
  let els ← (do
    if ← Try (.kw .ELSE) then r.ParseStmt
    else pure .null)
  pure (NewIfStmt cond thenStmt els)

/-- The macro `ENTER_LOOP_BODY` (parser.cc 1830-1835): sets the destinations
of `break` and `continue` and returns their backups. -/
def ENTER_LOOP_BODY (breakDest continueDest : Nat) : PM (Option Nat × Option Nat) := fun s =>
  .ok (s.breakDest, s.continueDest)
    { s with breakDest := some breakDest, continueDest := some continueDest }

/-- The macro `EXIT_LOOP_BODY` (parser.cc 1837-1840): restores the backups. -/
def EXIT_LOOP_BODY (backup : Option Nat × Option Nat) : PM Unit := modifyP fun s =>
  { s with breakDest := backup.1, continueDest := backup.2 }

/-- The part of `ParseForStmt` between `EnterBlock()` and `ExitBlock()`
(parser.cc 1845-1889): the statements of the lowered loop. -/
def ParseForStmt.body (r : Rec) : PM (List Stmt) := do
  Expect1 (.chr '(')
  let stmts : List Stmt ← (do
    if ← IsType (← Peek) then
      let decl ← ParseDecl r
      pure [decl]
    else if !(← Try (.chr ';')) then
      let e ← ParseExpr r
      Expect1 (.chr ';')
      pure [e.toStmt]
    else pure [])
  let condExpr ← (do
    if !(← Try (.chr ';')) then
      let e ← ParseExpr r
      Expect1 (.chr ';')
      pure e
    else pure .null)
  let stepExpr ← (do
    if !(← Try (.chr ')')) then
      let e ← ParseExpr r
      Expect1 (.chr ')')
      pure e
    else pure .null)
  let condLabel ← NewLabelStmt
  let stepLabel ← NewLabelStmt
  let endLabel ← NewLabelStmt
  let stmts := stmts ++ [.labelStmt condLabel]
  let stmts ← (match condExpr with
    | .null => pure stmts
    | _ => do
      let gotoEndStmt ← NewJumpStmt (some endLabel)
      let ifStmt := NewIfStmt condExpr .null (.jumpStmt gotoEndStmt)
      pure (stmts ++ [ifStmt]))
  let backup ← ENTER_LOOP_BODY endLabel condLabel
  let bodyStmt ← r.ParseStmt
  EXIT_LOOP_BODY backup
  let gotoCond ← NewJumpStmt (some condLabel)
  pure (stmts ++ [bodyStmt, .labelStmt stepLabel, stepExpr.toStmt, .jumpStmt gotoCond,
    .labelStmt endLabel])

/-- `Parser::ParseForStmt` (parser.cc 1842-1894). -/
def ParseForStmt (r : Rec) : PM Stmt := do
  EnterBlock
  let stmts ← ParseForStmt.body r
  ExitBlock
  pure (NewCompoundStmt stmts)

/-- `Parser::ParseWhileStmt` (parser.cc 1906-1935). -/
def ParseWhileStmt (r : Rec) : PM Stmt := do
  Expect1 (.chr '(')
  let tok ← Peek
  let condExpr ← ParseExpr r
  Expect1 (.chr ')')
  let ty ← Ty condExpr
  let scalar ← IsScalar ty
  ErrorIf (!scalar) tok.coord "scalar expression expected" []
  let condLabel ← NewLabelStmt
  let endLabel ← NewLabelStmt
  let gotoEndStmt ← NewJumpStmt (some endLabel)
  let ifStmt := NewIfStmt condExpr .null (.jumpStmt gotoEndStmt)
  let backup ← ENTER_LOOP_BODY endLabel condLabel
  let bodyStmt ← r.ParseStmt
  EXIT_LOOP_BODY backup
  let gotoCond ← NewJumpStmt (some condLabel)
  pure (NewCompoundStmt [.labelStmt condLabel, ifStmt, bodyStmt, .jumpStmt gotoCond,
    .labelStmt endLabel])

/-- `Parser::ParseDoStmt` (parser.cc 1946-1974). -/
def ParseDoStmt (r : Rec) : PM Stmt := do
  let beginLabel ← NewLabelStmt
  let condLabel ← NewLabelStmt
  let endLabel ← NewLabelStmt
  let backup ← ENTER_LOOP_BODY endLabel beginLabel
  let bodyStmt ← r.ParseStmt
  EXIT_LOOP_BODY backup
  Expect1 (.kw .WHILE)
  Expect1 (.chr '(')
  let condExpr ← ParseExpr r
  Expect1 (.chr ')')
  let gotoBeginStmt ← NewJumpStmt (some beginLabel)
  let gotoEndStmt ← NewJumpStmt (some endLabel)
  let ifStmt := NewIfStmt condExpr (.jumpStmt gotoBeginStmt) (.jumpStmt gotoEndStmt)
  pure (NewCompoundStmt [.labelStmt beginLabel, bodyStmt, .labelStmt condLabel, ifStmt,
    .labelStmt endLabel])

/-- The backups the macro `ENTER_SWITCH_BODY` takes (parser.cc 1978-1980). -/
structure SwitchBackup where
  caseLabelsBackup : Option (List (Int × Nat))
  defaultLabelBackup : Option Nat
  breakDestBackup : Option Nat

/-- The macro `ENTER_SWITCH_BODY` (parser.cc 1976-1982): sets `_breakDest`,
points `_caseLabels` to the new empty list, and returns the backups.
`_defaultLabel` keeps its value. -/
def ENTER_SWITCH_BODY (breakDest : Nat) : PM SwitchBackup := fun s =>
  .ok { caseLabelsBackup := s.caseLabels, defaultLabelBackup := s.defaultLabel,
        breakDestBackup := s.breakDest }
    { s with breakDest := some breakDest, caseLabels := some [] }

/-- The macro `EXIT_SWITCH_BODY` (parser.cc 1984-1988): restores the backups. -/
def EXIT_SWITCH_BODY (b : SwitchBackup) : PM Unit := modifyP fun s =>
  { s with caseLabels := b.caseLabelsBackup, breakDest := b.breakDestBackup,
           defaultLabel := b.defaultLabelBackup }

/-- The loop of `ParseSwitchStmt` over the case labels (parser.cc 2023-2031):
one `if (t == value) goto label` per recorded case. -/
def ParseSwitchStmt.tests (tok : Token) (t : Expr) : List (Int × Nat) → PM (List Stmt)
  | [] => pure []
  | (val, label) :: rest => do
    let rhs := NewConstantInteger (NewArithmType T_INT) val
    let cond ← NewBinaryOp tok (.kw .EQ_OP) t rhs
    let thenStmt ← NewJumpStmt (some label)
    let ifStmt := NewIfStmt cond (.jumpStmt thenStmt) .null
    let more ← ParseSwitchStmt.tests tok t rest
    pure (ifStmt :: more)

/-- `Parser::ParseSwitchStmt` (parser.cc 1997-2039). -/
def ParseSwitchStmt (r : Rec) : PM Stmt := do
  Expect1 (.chr '(')
  let tok ← Peek
  let expr ← ParseExpr r
  Expect1 (.chr ')')
  let ty ← Ty expr
  let isInt ← IsInteger ty
  ErrorIf (!isInt) tok.coord "switch quantity not an integer" []
  let testLabel ← NewLabelStmt
  let endLabel ← NewLabelStmt
  let t := NewTempVar ty
  let assign ← NewBinaryOp tok (.chr '=') t expr
  let gotoTest ← NewJumpStmt (some testLabel)
  let backup ← ENTER_SWITCH_BODY endLabel
  let bodyStmt ← r.ParseStmt
  let s ← getP
  let tests ← ParseSwitchStmt.tests tok t (s.caseLabels.getD [])
  let s ← getP
  let gotoDefault ← NewJumpStmt s.defaultLabel
  EXIT_SWITCH_BODY backup
  pure (NewCompoundStmt ([assign.toStmt, .jumpStmt gotoTest, bodyStmt, .labelStmt testLabel]
    ++ tests ++ [.jumpStmt gotoDefault, .labelStmt endLabel]))

/-- `_caseLabels->push_back(make_pair(val, labelStmt))`. -/
def pushCaseLabel (val : Int) (label : Nat) : PM Unit := fun s =>
  match s.caseLabels with
  | none => .fail .nullDeref s
  | some l => .ok () { s with caseLabels := some (l ++ [(val, label)]) }

/-- `Parser::ParseCaseStmt` (parser.cc 2041-2055). -/
def ParseCaseStmt (r : Rec) : PM Stmt := do
  setErrTok
  let expr ← ParseExpr r
  Expect1 (.chr ':')
  let s ← getP
  let val ← EvalInteger expr s.errTok
  let labelStmt ← NewLabelStmt
  pushCaseLabel val labelStmt
  let stmt ← r.ParseStmt
  pure (NewCompoundStmt [.labelStmt labelStmt, stmt])

/-- `Parser::ParseDefaultStmt` (parser.cc 2057-2072). -/
def ParseDefaultStmt (r : Rec) : PM Stmt := do
  let tok ← Peek
  Expect1 (.chr ':')
  let s ← getP
  ErrorIf s.defaultLabel.isSome tok.coord "multiple default labels in one switch" []
  let labelStmt ← NewLabelStmt
  modifyP fun s => { s with defaultLabel := some labelStmt }
  let stmt ← r.ParseStmt
  pure (NewCompoundStmt [.labelStmt labelStmt, stmt])

/-- `Parser::ParseContinueStmt` (parser.cc 2074-2083). -/
def ParseContinueStmt : PM Stmt := do
  let tok ← Peek
  Expect1 (.chr ';')
  let s ← getP
  ErrorIf s.continueDest.isNone tok.coord "'continue' is allowed only in loop" []
  let jump ← NewJumpStmt s.continueDest
  pure (.jumpStmt jump)

/-- `Parser::ParseBreakStmt` (parser.cc 2085-2095). -/
def ParseBreakStmt : PM Stmt := do
  let tok ← Peek
  Expect1 (.chr ';')
  let s ← getP
  ErrorIf s.breakDest.isNone tok.coord "'break' is allowed only in switch/loop" []
  let jump ← NewJumpStmt s.breakDest
  pure (.jumpStmt jump)

/-- `Parser::ParseReturnStmt` (parser.cc 2097-2109). -/
def ParseReturnStmt (r : Rec) : PM Stmt := do
  if ← Try (.chr ';') then
    pure (NewReturnStmt .null)
  else
    let expr ← ParseExpr r
    Expect1 (.chr ';')
    pure (NewReturnStmt expr)

/-- `Parser::ParseGotoStmt` (parser.cc 2111-2126). -/
def ParseGotoStmt : PM Stmt := do
  let label ← Peek
  Expect1 (.kw .IDENTIFIER)
  Expect1 (.chr ';')
  let labelStmt ← FindLabel label.str
  match labelStmt with
  | some l =>
    let jump ← NewJumpStmt (some l)
    pure (.jumpStmt jump)
  | none =>
    let unresolvedJump ← NewJumpStmt none
    modifyP fun s =>
      { s with unresolvedJumps := s.unresolvedJumps ++ [(label, unresolvedJump)] }
    pure (.jumpStmt unresolvedJump)

/-- `Parser::ParseLabelStmt` (parser.cc 2128-2143). -/
def ParseLabelStmt (r : Rec) (label : Token) : PM Stmt := do
  let labelStr := label.str
  let stmt ← r.ParseStmt
  let found ← FindLabel labelStr
  ErrorIf found.isSome label.coord "redefinition of label '%s'" [labelStr]
  let labelStmt ← NewLabelStmt
  AddLabel labelStr labelStmt
  pure (NewCompoundStmt [.labelStmt labelStmt, stmt])

/-- `Parser::ParseStmt` (parser.cc 1732-1775). -/
def ParseStmt (r : Rec) : PM Stmt := do
  let tok ← Next
  ErrorIf tok.IsEOF tok.coord "premature end of input" []
  if tok.tag == .chr ';' then pure NewEmptyStmt
  else if tok.tag == .chr '{' then ParseCompoundStmt r
  else if tok.tag == .kw .IF then ParseIfStmt r
  else if tok.tag == .kw .SWITCH then ParseSwitchStmt r
  else if tok.tag == .kw .WHILE then ParseWhileStmt r
  else if tok.tag == .kw .DO then ParseDoStmt r
  else if tok.tag == .kw .FOR then ParseForStmt r
  else if tok.tag == .kw .GOTO then ParseGotoStmt
  else if tok.tag == .kw .CONTINUE then ParseContinueStmt
  else if tok.tag == .kw .BREAK then ParseBreakStmt
  else if tok.tag == .kw .RETURN then ParseReturnStmt r
  else if tok.tag == .kw .CASE then ParseCaseStmt r
  else if tok.tag == .kw .DEFAULT then ParseDefaultStmt r
  else
    let isLabel ← (if tok.IsIdentifier then Try (.chr ':') else pure false)
    if isLabel then
      ParseLabelStmt r tok
    else
      PutBack
      let expr ← ParseExpr r
      Expect1 (.chr ';')
      pure expr.toStmt

/-! ### Function definitions and the translation unit (parser.cc 203-237, 2145-2184) -/

/-- `Parser::EnterFunc` (parser.cc 203-205): does nothing. -/
def EnterFunc : PM Unit := pure ()

/-- The loop of `ExitFunc` over `_unresolvedJumps` (parser.cc 210-220). -/
def ExitFunc.resolve : List (Token × Nat) → PM Unit
  | [] => pure ()
  | (label, jump) :: rest => do
    let labelStmt ← FindLabel label.str
    ErrorIf labelStmt.isNone label.coord "label '%s' used but not defined" [label.str]
    SetLabel jump labelStmt
    ExitFunc.resolve rest

/-- `Parser::ExitFunc` (parser.cc 207-224). -/
def ExitFunc : PM Unit := do
  let s ← getP
  ExitFunc.resolve s.unresolvedJumps
  modifyP fun s => { s with unresolvedJumps := [] }
  modifyP fun s => { s with curLabels := [] }

/-- `Parser::IsFuncDef` (parser.cc 2150-2165). -/
def IsFuncDef (r : Rec) : PM Bool := do
  if ← Test (.kw .STATIC_ASSERT) then
    pure false
  else
    Mark
    let spec ← ParseDeclSpec r false
    let _ ← ParseDeclarator r spec.type
    let comma ← Test (.chr ',')
    let assign ← (if comma then pure true else Test (.chr '='))
    let semi ← (if assign then pure true else Test (.chr ';'))
    let ret := !semi
    Release
    pure ret

/-- `Parser::ParseFuncDef` (parser.cc 2167-2184). -/
def ParseFuncDef (r : Rec) : PM Stmt := do
  EnterFunc
  let spec ← ParseDeclSpec r false
  let ident ← ParseDirectDeclarator r spec.type spec.storageSpec spec.funcSpec
  let type := ident.ty
  Expect1 (.chr '{')
  let stmt ← ParseCompoundStmt r
  ExitFunc
  let isFunc ← ToFuncType type
  assert isFunc
  pure (NewFuncDef type stmt)

/-- `_unit->Add(stmt)`. -/
def unitAdd (stmt : Stmt) : PM Unit := modifyP fun s => { s with unit := s.unit ++ [stmt] }

/-- The loop of `ParseTranslationUnit` (parser.cc 228-234); the next
iteration is `r.loopTranslationUnit`. -/
def ParseTranslationUnit.loop (r : Rec) : PM Unit := do
  if !(← Peek).IsEOF then
    if ← IsFuncDef r then
      let stmt ← ParseFuncDef r
      unitAdd stmt
    else
      let stmt ← ParseDecl r
      unitAdd stmt
    r.loopTranslationUnit
  else
    pure ()

/-- `Parser::ParseTranslationUnit` (parser.cc 226-237); printing the
external symbols changes nothing. -/
def ParseTranslationUnit (r : Rec) : PM Unit := ParseTranslationUnit.loop r

/-! ### Tying the knot -/

/-- The table in which every call fails for lack of fuel. -/
def bottomRec : Rec :=
  { ParseExpr := PM.fail .outOfFuel
    ParseAssignExpr := PM.fail .outOfFuel
    ParseConditionalExpr := PM.fail .outOfFuel
    ParseCastExpr := PM.fail .outOfFuel
    ParseUnaryExpr := PM.fail .outOfFuel
    ParseTypeName := PM.fail .outOfFuel
    ParsePostfixExprTail := fun _ => PM.fail .outOfFuel
    loopFuncCallVarArgs := fun _ => PM.fail .outOfFuel
    loopMultiplicative := fun _ _ => PM.fail .outOfFuel
    loopAdditive := fun _ _ => PM.fail .outOfFuel
    loopShift := fun _ _ => PM.fail .outOfFuel
    loopRelational := fun _ _ => PM.fail .outOfFuel
    loopEquality := fun _ _ => PM.fail .outOfFuel
    loopBitwiseAnd := fun _ _ => PM.fail .outOfFuel
    loopBitwiseXor := fun _ _ => PM.fail .outOfFuel
    loopBitwiseOr := fun _ _ => PM.fail .outOfFuel
    loopLogicalAnd := fun _ _ => PM.fail .outOfFuel
    loopLogicalOr := fun _ _ => PM.fail .outOfFuel
    loopComma := fun _ _ => PM.fail .outOfFuel
    ParseDeclSpec := fun _ => PM.fail .outOfFuel
    loopDeclSpec := fun _ _ => PM.fail .outOfFuel
    loopEnumerator := fun _ _ => PM.fail .outOfFuel
    loopStructDecl := fun _ => PM.fail .outOfFuel
    loopQual := fun _ => PM.fail .outOfFuel
    loopPointer := fun _ _ => PM.fail .outOfFuel
    loopParamList := fun _ => PM.fail .outOfFuel
    ParseDeclarator := fun _ => PM.fail .outOfFuel
    ParseArrayFuncDeclarator := fun _ => PM.fail .outOfFuel
    ParseInitializer := fun _ => PM.fail .outOfFuel
    loopArrayInitializer := fun _ _ => PM.fail .outOfFuel
    loopDecl := fun _ _ _ _ => PM.fail .outOfFuel
    ParseStmt := PM.fail .outOfFuel
    loopCompoundStmt := fun _ => PM.fail .outOfFuel
    loopTranslationUnit := PM.fail .outOfFuel }

/-- The table of the member functions that call back into the table `r`. -/
def stepRec (r : Rec) : Rec :=
  { ParseExpr := ParseExpr r
    ParseAssignExpr := ParseAssignExpr r
    ParseConditionalExpr := ParseConditionalExpr r
    ParseCastExpr := ParseCastExpr r
    ParseUnaryExpr := ParseUnaryExpr r
    ParseTypeName := ParseTypeName r
    ParsePostfixExprTail := ParsePostfixExprTail r
    loopFuncCallVarArgs := ParseFuncCall.varArgs r
    loopMultiplicative := ParseMultiplicativeExpr.loop r
    loopAdditive := ParseAdditiveExpr.loop r
    loopShift := ParseShiftExpr.loop r
    loopRelational := ParseRelationalExpr.loop r
    loopEquality := ParseEqualityExpr.loop r
    loopBitwiseAnd := ParseBitiwiseAndExpr.loop r
    loopBitwiseXor := ParseBitwiseXorExpr.loop r
    loopBitwiseOr := ParseBitwiseOrExpr.loop r
    loopLogicalAnd := ParseLogicalAndExpr.loop r
    loopLogicalOr := ParseLogicalOrExpr.loop r
    loopComma := ParseCommaExpr.loop r
    ParseDeclSpec := ParseDeclSpec r
    loopDeclSpec := ParseDeclSpec.loop r
    loopEnumerator := ParseEnumerator.loop r
    loopStructDecl := ParseStructDecl.loop r
    loopQual := ParseQual.loop r
    loopPointer := ParsePointer.loop r
    loopParamList := ParseParamList.loop r
    ParseDeclarator := ParseDeclarator r
    ParseArrayFuncDeclarator := ParseArrayFuncDeclarator r
    ParseInitializer := fun obj => ParseInitializer r (some obj)
    loopArrayInitializer := ParseArrayInitializer.loop r
    loopDecl := ParseDecl.loop r
    ParseStmt := ParseStmt r
    loopCompoundStmt := ParseCompoundStmt.loop r
    loopTranslationUnit := ParseTranslationUnit.loop r }

/-- The member functions with `fuel` units of fuel for the calls through the
table. -/
def parser : Nat → Rec
  | 0 => bottomRec
  | fuel + 1 => stepRec (parser fuel)

/-- Modelled from the spec: the scanner of the absent lexer, for writing
inputs: a token of the given tag and lexeme at coordinate `coord`. -/
def mkTok (tag : Tag) (str : String) (coord : Nat) : Token :=
  { tag := tag, str := str, coord := coord }

/-- Give the tokens of a list their positions as coordinates. -/
def numberToks (toks : List Token) : List Token :=
  (toks.enum).map fun p => { p.2 with coord := p.1 }

/-- A single-character punctuator token. -/
def P (c : Char) : Token := mkTok (.chr c) c.toString 0

/-- A keyword or other named token. -/
def K (k : Kw) (str : String) : Token := mkTok (.kw k) str 0

/-- An identifier token. -/
def I (name : String) : Token := mkTok (.kw .IDENTIFIER) name 0

/-- An integer constant token. -/
def N (digits : String) : Token := mkTok (.kw .I_CONSTANT) digits 0

/-! ## Inputs used in the statements -/

/-- The declarator `f(void)[3]` followed by `;`. -/
def toksFuncArray : List Token :=
  numberToks [I "f", P '(', K .VOID "void", P ')', P '[', N "3", P ']', P ';']

/-- The declarator `a[3](void)` followed by `;`. -/
def toksArrayFunc : List Token :=
  numberToks [I "a", P '[', N "3", P ']', P '(', K .VOID "void", P ')', P ';']

/-- The declarator `(f(void))[3]` followed by `;`. -/
def toksParenFuncArray : List Token :=
  numberToks [P '(', I "f", P '(', K .VOID "void", P ')', P ')', P '[', N "3", P ']', P ';']

/-- The expression `1 ? 2 : 3` followed by `;`. -/
def toksConditional : List Token :=
  numberToks [N "1", P '?', N "2", P ':', N "3", P ';']

/-- The integer constant node for `n`, of type `signed int`. -/
def intConst (n : Int) : Expr := .constant (NewArithmType (T_SIGNED ||| T_INT)) n

/-- The function definition `int f(void) { int x; switch (x) ; }`. -/
def toksSwitchNoDefault : List Token :=
  numberToks [K .INT "int", I "f", P '(', K .VOID "void", P ')', P '{',
    K .INT "int", I "x", P ';', K .SWITCH "switch", P '(', I "x", P ')', P ';', P '}']

/-! ## Boolean equality of syntax trees -/

/-- Equality of identifiers, field by field. -/
def Identifier.beq (a b : Identifier) : Bool :=
  a.id == b.id && CType.beq a.ty b.ty && a.scope == b.scope && a.linkage == b.linkage
    && a.isObject == b.isObject && a.storage == b.storage && a.offset == b.offset

mutual
/-- Equality of expression trees. -/
def Expr.beq : Expr → Expr → Bool
  | .null, .null => true
  | .binaryOp o l r t, .binaryOp o2 l2 r2 t2 =>
    o == o2 && Expr.beq l l2 && Expr.beq r r2 && CType.beq t t2
  | .unaryOp o e t, .unaryOp o2 e2 t2 => o == o2 && Expr.beq e e2 && CType.beq t t2
  | .conditionalOp c a b t, .conditionalOp c2 a2 b2 t2 =>
    Expr.beq c c2 && Expr.beq a a2 && Expr.beq b b2 && CType.beq t t2
  | .funcCall d as t, .funcCall d2 as2 t2 =>
    Expr.beq d d2 && Expr.beqList as as2 && CType.beq t t2
  | .identifier i, .identifier i2 => Identifier.beq i i2
  | .constant t v, .constant t2 v2 => CType.beq t t2 && v == v2
  | .tempVar t, .tempVar t2 => CType.beq t t2
  | _, _ => false
/-- Pointwise equality of lists of expression trees. -/
def Expr.beqList : List Expr → List Expr → Bool
  | [], [] => true
  | a :: as, b :: bs => Expr.beq a b && Expr.beqList as bs
  | _, _ => false
end

mutual
/-- Equality of statement trees. -/
def Stmt.beq : Stmt → Stmt → Bool
  | .null, .null => true
  | .expr e, .expr e2 => Expr.beq e e2
  | .emptyStmt, .emptyStmt => true
  | .ifStmt c a b, .ifStmt c2 a2 b2 => Expr.beq c c2 && Stmt.beq a a2 && Stmt.beq b b2
  | .compoundStmt l, .compoundStmt l2 => Stmt.beqList l l2
  | .jumpStmt i, .jumpStmt i2 => i == i2
  | .returnStmt e, .returnStmt e2 => Expr.beq e e2
  | .labelStmt i, .labelStmt i2 => i == i2
  | .funcDef t b, .funcDef t2 b2 => CType.beq t t2 && Stmt.beq b b2
  | _, _ => false
/-- Pointwise equality of lists of statement trees. -/
def Stmt.beqList : List Stmt → List Stmt → Bool
  | [], [] => true
  | a :: as, b :: bs => Stmt.beq a b && Stmt.beqList as bs
  | _, _ => false
end

/-! ## Definitions used in the statements about `ExitFunc` -/

/-- The diagnostic of `ExitFunc` for a queued `goto` whose label is not
defined. -/
def undefinedLabelDiag (label : Token) : Diag :=
  { coord := label.coord, fmt := "label '%s' used but not defined", args := [label.str] }

/-- The diagnostics `ExitFunc` reports for the queue `jumps`, given the label
table: one for each entry whose label is not in the table, in queue order. -/
def undefinedLabelDiags (labels : List (String × Nat)) (jumps : List (Token × Nat)) :
    List Diag :=
  (jumps.filter (fun p => (labels.lookup p.1.str).isNone)).map
    (fun p => undefinedLabelDiag p.1)

/-- The `JumpStmt` heap after `ExitFunc` has set the target of every queued
jump. -/
def resolvedJumps (labels : List (String × Nat)) (jumps : List (Token × Nat))
    (heap : List (Nat × Option Nat)) : List (Nat × Option Nat) :=
  jumps.foldl (fun h p => (p.2, labels.lookup p.1.str) :: h) heap

/-! ## Scope discipline -/

/-- The identities of the scopes on the chain from the current scope up to
the file scope: the value of `_curScope` and of its ancestors. -/
def Parser.scopeIds (s : Parser) : List Nat := s.curScope.map (·.id)

/-- A member function keeps the scope: whenever it returns, `_curScope` and
its chain of ancestors are the ones of the call. -/
class KeepsScope {α : Type} (m : PM α) : Prop where
  keeps : ∀ s a s', m s = .ok a s' → s'.scopeIds = s.scopeIds

/-- Every function of the table keeps the scope. -/
class RecKeeps (r : Rec) : Prop where
  ParseExpr : KeepsScope r.ParseExpr
  ParseAssignExpr : KeepsScope r.ParseAssignExpr
  ParseConditionalExpr : KeepsScope r.ParseConditionalExpr
  ParseCastExpr : KeepsScope r.ParseCastExpr
  ParseUnaryExpr : KeepsScope r.ParseUnaryExpr
  ParseTypeName : KeepsScope r.ParseTypeName
  ParsePostfixExprTail : ∀ e, KeepsScope (r.ParsePostfixExprTail e)
  loopFuncCallVarArgs : ∀ a, KeepsScope (r.loopFuncCallVarArgs a)
  loopMultiplicative : ∀ e t, KeepsScope (r.loopMultiplicative e t)
  loopAdditive : ∀ e t, KeepsScope (r.loopAdditive e t)
  loopShift : ∀ e t, KeepsScope (r.loopShift e t)
  loopRelational : ∀ e t, KeepsScope (r.loopRelational e t)
  loopEquality : ∀ e t, KeepsScope (r.loopEquality e t)
  loopBitwiseAnd : ∀ e t, KeepsScope (r.loopBitwiseAnd e t)
  loopBitwiseXor : ∀ e t, KeepsScope (r.loopBitwiseXor e t)
  loopBitwiseOr : ∀ e t, KeepsScope (r.loopBitwiseOr e t)
  loopLogicalAnd : ∀ e t, KeepsScope (r.loopLogicalAnd e t)
  loopLogicalOr : ∀ e t, KeepsScope (r.loopLogicalOr e t)
  loopComma : ∀ e t, KeepsScope (r.loopComma e t)
  ParseDeclSpec : ∀ b, KeepsScope (r.ParseDeclSpec b)
  loopDeclSpec : ∀ b v, KeepsScope (r.loopDeclSpec b v)
  loopEnumerator : ∀ t v, KeepsScope (r.loopEnumerator t v)
  loopStructDecl : ∀ t, KeepsScope (r.loopStructDecl t)
  loopQual : ∀ q, KeepsScope (r.loopQual q)
  loopPointer : ∀ a b, KeepsScope (r.loopPointer a b)
  loopParamList : ∀ p, KeepsScope (r.loopParamList p)
  ParseDeclarator : ∀ t, KeepsScope (r.ParseDeclarator t)
  ParseArrayFuncDeclarator : ∀ t, KeepsScope (r.ParseArrayFuncDeclarator t)
  ParseInitializer : ∀ o, KeepsScope (r.ParseInitializer o)
  loopArrayInitializer : ∀ a v, KeepsScope (r.loopArrayInitializer a v)
  loopDecl : ∀ t a b l, KeepsScope (r.loopDecl t a b l)
  ParseStmt : KeepsScope r.ParseStmt
  loopCompoundStmt : ∀ l, KeepsScope (r.loopCompoundStmt l)
  loopTranslationUnit : KeepsScope r.loopTranslationUnit

/-! ## Inputs used in the statement about the scope discipline -/

/-- The state at the start of a parse of the given tokens. -/
def stateAt (toks : List Token) : Parser := Parser.init (numberToks toks)

/-- The rest of a compound statement after its opening brace: `int x; }`. -/
def toksCompoundRest : List Token := [K .INT "int", I "x", P ';', P '}']

/-- The rest of a `for` statement after the keyword: `(int i; i; ) ;`. -/
def toksForRest : List Token :=
  [P '(', K .INT "int", I "i", P ';', I "i", P ';', P ')', P ';']

/-- The statement `{ int x; { } }`. -/
def toksNestedBlocks : List Token :=
  [P '{', K .INT "int", I "x", P ';', P '{', P '}', P '}']

/-- The declaration `int x;`. -/
def toksIntX : List Token := [K .INT "int", I "x", P ';']

/-- The declarator suffix `(int a)` followed by `;`. -/
def toksParamSuffix : List Token := [P '(', K .INT "int", I "a", P ')', P ';']

/-- The function definition `int f(int a) { int x; }`. -/
def toksFuncWithBody : List Token :=
  [K .INT "int", I "f", P '(', K .INT "int", I "a", P ')', P '{', K .INT "int", I "x", P ';',
   P '}']

/-! ## Inputs used in the statement about the struct member access -/

/-- The input `struct S; struct S* p; struct S { int a; }; p->a;`. -/
def toksStructMember : List Token :=
  [K .STRUCT "struct", I "S", P ';',
   K .STRUCT "struct", I "S", P '*', I "p", P ';',
   K .STRUCT "struct", I "S", P '{', K .INT "int", I "a", P ';', P '}', P ';',
   I "p", K .PTR_OP "->", I "a", P ';']

/-- A state of the parse of `toksStructMember` in which the next token is the
first `;` (token 2); the other members are the ones of `s`. -/
def atFirstSemicolon (s : Parser) : Parser :=
  { s with toks := numberToks toksStructMember, pos := 2 }

/-- The diagnostic of `ParseDeclSpec` at the first `;`. -/
def expectTypeSpecifier : Diag := { coord := 2, fmt := "expect type specifier", args := [] }

/-- What `IsFuncDef` leaves behind when the next token is the first `;`: a
diagnostic and `_errTok`. -/
def afterIsFuncDef (s : Parser) : Parser :=
  { s with errors := s.errors ++ [expectTypeSpecifier],
           errTok := some { tag := .chr ';', str := ";", coord := 2 } }

/-- What `ParseDecl` leaves behind when the next token is the first `;`: a
diagnostic. -/
def afterParseDecl (s : Parser) : Parser :=
  { s with errors := s.errors ++ [expectTypeSpecifier] }

/-- What one iteration of the loop of `ParseTranslationUnit` leaves behind
when the next token is the first `;`: two diagnostics, `_errTok`, and an
empty declaration in the unit. -/
def afterSemicolonIteration (s : Parser) : Parser :=
  { afterParseDecl (afterIsFuncDef s) with unit := s.unit ++ [.compoundStmt []] }

/-- The state after `IsFuncDef` has looked at `struct S` at the start of
`toksStructMember`: the tag `S` is declared with an incomplete struct type,
the cursor is back at the start. -/
def stateStructSDeclared : Parser :=
  { Parser.init (numberToks toksStructMember) with
    errTok := some { tag := .chr ';', str := ";", coord := 2 }
    curScope := [{ id := 0, kind := .S_FILE, ordinary := [],
                   tags := [("S", { id := 3, ty := .structUnion 2, scope := 0, linkage := .L_NONE,
                                    isObject := false, storage := 0, offset := 0 })] }]
    nextId := 4
    structs := [(2, { isStruct := true, complete := false, members := [] })] }

/-! ## Inputs used in the statement about the assignment `p = f` -/

/-- The object `p` of `int *p;` in a block. -/
def objP : Identifier :=
  { id := 6, ty := .pointer tInt 0, scope := 5, linkage := .L_NONE, isObject := true,
    storage := 0, offset := 0 }

/-- The object `f` of `float f;` in a block. -/
def objF : Identifier :=
  { id := 7, ty := tFloat, scope := 5, linkage := .L_NONE, isObject := true,
    storage := 0, offset := 0 }

/-- The program `void g(void) { int *p; float f; p = f; }`. -/
def toksAssignPF : List Token :=
  [K .VOID "void", I "g", P '(', K .VOID "void", P ')', P '{',
   K .INT "int", P '*', I "p", P ';', K .FLOAT "float", I "f", P ';',
   I "p", P '=', I "f", P ';', P '}']

/-! ## Inputs used in the statement about a declaration after `static` -/

/-- The identifier token `f` at coordinate 2. -/
def tokF : Token := { tag := .kw .IDENTIFIER, str := "f", coord := 2 }

/-- The type `int (void)`. -/
def tIntOfVoid : CType := .func tInt 0 false [.void]

/-- The identifier that `static int f(void);` declares at file scope. -/
def staticF : Identifier :=
  { id := 2, ty := tIntOfVoid, scope := 0, linkage := .L_INTERNAL, isObject := false,
    storage := 0, offset := 0 }

/-- The state at file scope after `static int f(void);`. -/
def stateStaticF : Parser :=
  (ProcessDeclarator (some tokF) tIntOfVoid S_STATIC 0 (Parser.init [])).state

/-- The program `static int f(void); int f(void) { return 0; }`. -/
def toksStaticThenDef : List Token :=
  [K .STATIC "static", K .INT "int", I "f", P '(', K .VOID "void", P ')', P ';',
   K .INT "int", I "f", P '(', K .VOID "void", P ')', P '{', K .RETURN "return", N "0", P ';',
   P '}']

/-! ## Inputs used in the statements about `case` and `default` labels -/

/-- The program
`void g(void) { int x; switch (x) { default: ; switch (x) { default: ; } } }`:
a switch with a default label whose body holds a nested switch with a
default label of its own (the `:` of the inner one is token 23). -/
def toksNestedDefault : List Token :=
  [K .VOID "void", I "g", P '(', K .VOID "void", P ')', P '{',
   K .INT "int", I "x", P ';',
   K .SWITCH "switch", P '(', I "x", P ')', P '{',
     K .DEFAULT "default", P ':', P ';',
     K .SWITCH "switch", P '(', I "x", P ')', P '{', K .DEFAULT "default", P ':', P ';', P '}',
   P '}', P '}']

/-- The program `void g(void) { int x; switch (x) { case 1: case 2: break;
default: break; default: break; } }` (the `:` of the second `default` is
token 27). -/
def toksTwoDefaults : List Token :=
  [K .VOID "void", I "g", P '(', K .VOID "void", P ')', P '{',
   K .INT "int", I "x", P ';',
   K .SWITCH "switch", P '(', I "x", P ')', P '{',
     K .CASE "case", N "1", P ':', K .CASE "case", N "2", P ':', K .BREAK "break", P ';',
     K .DEFAULT "default", P ':', K .BREAK "break", P ';',
     K .DEFAULT "default", P ':', K .BREAK "break", P ';',
   P '}', P '}']

/-- The diagnostic of `ParseDefaultStmt` at a coordinate. -/
def multipleDefaults (coord : Nat) : Diag :=
  { coord := coord, fmt := "multiple default labels in one switch", args := [] }

/-! ## Inputs used in the statements about `ParseDeclSpec` -/

/-- The tokens of a specifier sequence followed by the declarator `x` and `;`. -/
def specThenX (specs : List Token) : List Token := specs ++ [I "x", P ';']

/-- The diagnostic at the label `error` of `ParseDeclSpec`. -/
def specError (coord : Nat) : Diag :=
  { coord := coord, fmt := "type speficier/qualifier/storage error", args := [] }

/-- The diagnostic of `ParseDeclSpec` for null out-parameters. -/
def specQualOnly (coord : Nat) : Diag :=
  { coord := coord, fmt := "type specifier/qualifier only", args := [] }

/-- The type, storage bits and function bits that `ParseDeclSpec` returns for
a token list, if it returns. -/
def declSpecOf (outNull : Bool) (toks : List Token) : Option (CType × Nat × Nat) :=
  (ParseDeclSpec (parser 10) outNull (stateAt toks)).value?.map
    fun spec => (spec.type, spec.storageSpec, spec.funcSpec)

/-- The diagnostics of `ParseDeclSpec` for a token list. -/
def declSpecDiags (outNull : Bool) (toks : List Token) : List Diag :=
  (ParseDeclSpec (parser 10) outNull (stateAt toks)).state.errors

/-- The diagnostics of `ParseSpecQual` for a token list. -/
def specQualDiags (toks : List Token) : List Diag :=
  (ParseSpecQual (parser 20) (stateAt toks)).state.errors

/-- The `_Alignas(8)` specifier. -/
def toksAlignas8 : List Token := [K .ALIGNAS "_Alignas", P '(', N "8", P ')']

/-! ## The loop of `ParseDeclSpec` as a state machine -/

/-- The values of the local variables of `ParseDeclSpec` before its loop
(parser.cc 843-848). -/
def declSpecInit : DeclSpecVars :=
  { type := .null, align := -1, storageSpec := 0, funcSpec := 0, qualSpec := 0, typeSpec := 0 }

/-- One iteration of the loop of `ParseDeclSpec` that goes on to the next
iteration: whatever the next iteration `k` does, the body of the loop, run
with the variables `v` in the state `s`, ends by calling it with the
variables `v'` in the state `s'`. -/
def ParseDeclSpec.iterates (r : Rec) (outNull : Bool) (v : DeclSpecVars) (s : Parser)
    (v' : DeclSpecVars) (s' : Parser) : Prop :=
  ∀ k : Bool → DeclSpecVars → PM DeclSpec,
    ParseDeclSpec.loop { r with loopDeclSpec := k } outNull v s = k outNull v' s'

/-- The values the local variables of `ParseDeclSpec` can have at the start
of an iteration of its loop: the initial values, and the values an iteration
that goes on passes to the next. -/
inductive ParseDeclSpec.Reached : DeclSpecVars → Prop
  | init : ParseDeclSpec.Reached declSpecInit
  | step (r : Rec) (outNull : Bool) (v : DeclSpecVars) (s : Parser) (v' : DeclSpecVars)
      (s' : Parser) : ParseDeclSpec.Reached v → ParseDeclSpec.iterates r outNull v s v' s' →
      ParseDeclSpec.Reached v'

/-- The type-specifier masks `typeSpec` that occur at the start of an
iteration of the loop of `ParseDeclSpec`. -/
def typeSpecStates : List Nat :=
  [0, T_SIGNED, T_UNSIGNED, T_CHAR, T_SHORT, T_INT, T_LONG, T_DOUBLE, T_COMPLEX, T_FLOAT, T_VOID,
   T_BOOL, T_STRUCT_UNION, T_ENUM, T_TYPEDEF_NAME,
   T_SIGNED ||| T_CHAR, T_SIGNED ||| T_SHORT, T_SIGNED ||| T_INT, T_SIGNED ||| T_LONG,
   T_UNSIGNED ||| T_CHAR, T_UNSIGNED ||| T_SHORT, T_UNSIGNED ||| T_INT, T_UNSIGNED ||| T_LONG,
   T_SHORT ||| T_INT, T_INT ||| T_LONG, T_LONG_LONG, T_LONG ||| T_DOUBLE, T_LONG ||| T_COMPLEX,
   T_DOUBLE ||| T_COMPLEX, T_FLOAT ||| T_COMPLEX,
   T_SIGNED ||| T_SHORT ||| T_INT, T_SIGNED ||| T_INT ||| T_LONG, T_SIGNED ||| T_LONG_LONG,
   T_UNSIGNED ||| T_SHORT ||| T_INT, T_UNSIGNED ||| T_INT ||| T_LONG,
   T_UNSIGNED ||| T_LONG_LONG, T_INT ||| T_LONG_LONG, T_LONG ||| T_DOUBLE ||| T_COMPLEX,
   T_SIGNED ||| T_INT ||| T_LONG_LONG, T_UNSIGNED ||| T_INT ||| T_LONG_LONG]

/-- What an iteration of the loop of `ParseDeclSpec` keeps: the mask stays
among `typeSpecStates`, and once the mask is not 0 the recorded type stays
the same. -/
def DeclSpecVars.Keeps (v v' : DeclSpecVars) : Prop :=
  (v.typeSpec ∈ typeSpecStates → v'.typeSpec ∈ typeSpecStates) ∧
  (v.typeSpec ≠ 0 → v'.type = v.type)

/-- The type `ParseDeclSpec` returns at `end_of_loop` (parser.cc 1032-1050). -/
def declSpecEndType (v : DeclSpecVars) : CType :=
  if v.typeSpec == 0 then v.type
  else if v.typeSpec == T_VOID then .void
  else if v.typeSpec == T_ATOMIC || v.typeSpec == T_STRUCT_UNION || v.typeSpec == T_ENUM
      || v.typeSpec == T_TYPEDEF_NAME then v.type
  else NewArithmType v.typeSpec

/-- The diagnostics `ParseDeclSpec` reports at `end_of_loop` (parser.cc
1033-1035, 1052-1056). -/
def declSpecEndDiags (outNull : Bool) (tok : Token) (v : DeclSpecVars) : List Diag :=
  (if v.typeSpec == 0 then
    [{ coord := tok.coord, fmt := "expect type specifier", args := [] }] else []) ++
  (if outNull && (v.funcSpec != 0 && v.storageSpec != 0 && v.align != -1) then
    [{ coord := tok.coord, fmt := "type specifier/qualifier only", args := [] }] else [])

/-- The ways an iteration of the loop of `ParseDeclSpec` ends, for the body
`F` of the loop as a function of the next iteration `k`: at the label
`error`, at the label `end_of_loop` with the variables as they are, in the
`assert(false)` of `_Atomic`, or, after a part `step` that may fail, in the
next iteration with variables that `Keeps` relates to the present ones. -/
def ParseDeclSpec.Outcome (outNull : Bool) (v : DeclSpecVars) (tok : Token) (s1 : Parser)
    (F : (Bool → DeclSpecVars → PM DeclSpec) → Res DeclSpec) : Prop :=
  (∀ k, F k = ParseDeclSpec.error tok s1) ∨
  (∀ k, F k = ParseDeclSpec.endOfLoop outNull tok v s1) ∨
  (∀ k, F k = .fail .assertFail s1) ∨
  (∃ step : Res DeclSpecVars,
    (∀ k, F k = step.andThen (fun v' sA => k outNull v' sA)) ∧
    (∀ v' sA, step = .ok v' sA → v.Keeps v'))

/-- The variables of `ParseDeclSpec` after `signed`. -/
def varsSigned : DeclSpecVars := { declSpecInit with typeSpec := T_SIGNED }

/-- The variables of `ParseDeclSpec` after `signed char`. -/
def varsSignedChar : DeclSpecVars := { declSpecInit with typeSpec := T_SIGNED ||| T_CHAR }

/-- The tokens `signed char x ;`. -/
def toksSignedChar : List Token := specThenX [K .SIGNED "signed", K .CHAR "char"]

/-- The state of a parse of `toks` in which the next token is token `pos`. -/
def stateAtPos (toks : List Token) (pos : Nat) : Parser := { stateAt toks with pos := pos }

/-- The tokens `long long long x ;`. -/
def toksLongLongLong : List Token :=
  specThenX [K .LONG "long", K .LONG "long", K .LONG "long"]

/-- The variables of `ParseDeclSpec` after `void`. -/
def varsVoid : DeclSpecVars := { declSpecInit with typeSpec := T_VOID }

/-- The tokens `void x ;`. -/
def toksVoidX : List Token := specThenX [K .VOID "void"]

/-- The type `ParseDeclSpec` returns when it reports nothing. -/
def declSpecQuietType (v : DeclSpecVars) : CType :=
  if v.typeSpec = T_VOID then .void
  else if v.typeSpec = T_STRUCT_UNION ∨ v.typeSpec = T_ENUM ∨ v.typeSpec = T_TYPEDEF_NAME then
    v.type
  else NewArithmType v.typeSpec

/-- The part of `ParseForStmt` that reads the header (parser.cc 1843-1866):
the list with the init statement, the condition and the step. -/
def ParseForStmt.header (r : Rec) : PM (List Stmt × Expr × Expr) := do
  Expect1 (.chr '(')
  let stmts : List Stmt ← (do
    if ← IsType (← Peek) then
      let decl ← ParseDecl r
      pure [decl]
    else if !(← Try (.chr ';')) then
      let e ← ParseExpr r
      Expect1 (.chr ';')
      pure [e.toStmt]
    else pure [])
  let condExpr ← (do
    if !(← Try (.chr ';')) then
      let e ← ParseExpr r
      Expect1 (.chr ';')
      pure e
    else pure .null)
  let stepExpr ← (do
    if !(← Try (.chr ')')) then
      let e ← ParseExpr r
      Expect1 (.chr ')')
      pure e
    else pure .null)
  pure (stmts, condExpr, stepExpr)

/-- The part of `ParseForStmt` after the header (parser.cc 1868-1889): the
labels, the test, the body and the jump back. -/
def ParseForStmt.lower (r : Rec) (stmts : List Stmt) (condExpr stepExpr : Expr) :
    PM (List Stmt) := do
  let condLabel ← NewLabelStmt
  let stepLabel ← NewLabelStmt
  let endLabel ← NewLabelStmt
  let stmts := stmts ++ [.labelStmt condLabel]
  let stmts ← (match condExpr with
    | .null => pure stmts
    | _ => do
      let gotoEndStmt ← NewJumpStmt (some endLabel)
      let ifStmt := NewIfStmt condExpr .null (.jumpStmt gotoEndStmt)
      pure (stmts ++ [ifStmt]))
  let backup ← ENTER_LOOP_BODY endLabel condLabel
  let bodyStmt ← r.ParseStmt
  EXIT_LOOP_BODY backup
  let gotoCond ← NewJumpStmt (some condLabel)
  pure (stmts ++ [bodyStmt, .labelStmt stepLabel, stepExpr.toStmt, .jumpStmt gotoCond,
    .labelStmt endLabel])

/-- The state in which `ParseForStmt` parses the body of the loop, for the
state `s` after the header and a condition that is not null: the three
labels `s.nextId`, `s.nextId + 1`, `s.nextId + 2` and the jump
`s.nextId + 3` to the end label are allocated, and the destinations of
`break` and `continue` are the end label and the condition label. -/
def forBodyState (s : Parser) : Parser :=
  { s with nextId := s.nextId + 4,
           jumps := (s.nextId + 3, some (s.nextId + 2)) :: s.jumps,
           breakDest := some (s.nextId + 2),
           continueDest := some s.nextId }

/-- The tokens `for (int i = 0; i < 10; ++i) if (i == 5) break;`. -/
def toksForBreak : List Token :=
  [K .FOR "for", P '(', K .INT "int", I "i", P '=', N "0", P ';', I "i", P '<', N "10", P ';',
   K .INC_OP "++", I "i", P ')', K .IF "if", P '(', I "i", K .EQ_OP "==", N "5", P ')',
   K .BREAK "break", P ';']

/-- The object `i` of `int i = 0` in the block of the `for` statement. -/
def objI : Identifier :=
  { id := 3, ty := tInt, scope := 2, linkage := .L_NONE, isObject := true,
    storage := 0, offset := 0 }

/-- The statement of the declaration `int i = 0;`. -/
def forInit : Stmt :=
  .compoundStmt [.expr (.binaryOp (.chr '=') (.identifier objI)
    (.constant (.arithm (T_SIGNED ||| T_INT) none) 0) tInt)]

/-- The expression `i < 10`. -/
def forCond : Expr :=
  .binaryOp (.chr '<') (.identifier objI) (.constant (.arithm (T_SIGNED ||| T_INT) none) 10)
    (.arithm T_BOOL none)

/-- The expression `++i`. -/
def forStep : Expr := .unaryOp (.kw .PREFIX_INC) (.identifier objI) tInt

/-- The statement `if (i == 5) break;`, with the handle 8 for the jump. -/
def forBody : Stmt :=
  .ifStmt (.binaryOp (.kw .EQ_OP) (.identifier objI)
    (.constant (.arithm (T_SIGNED ||| T_INT) none) 5) (.arithm T_BOOL none)) (.jumpStmt 8) .null

/-- The state after the keyword `for` of `toksForBreak`. -/
def forStart : Parser := stateAtPos toksForBreak 1

/-- The state after the header of the `for` statement of `toksForBreak`. -/
def forHeaderState : Parser :=
  (ParseForStmt.header (parser 40) (EnterBlock forStart).state).state

/-- The state after the body of the `for` statement of `toksForBreak`. -/
def forAfterBody : Parser := ((parser 40).ParseStmt (forBodyState forHeaderState)).state

/-! ## The state of the statement level under expressions and declarations -/

/-- What the member functions for expressions and declarations leave of the
state `s` in the state `s'` they return in: the tokens, the tables of the
statement level (`_caseLabels`, `_defaultLabel`, `_breakDest`,
`_continueDest`, the targets of the jumps), and no handle allocated before
is allocated again. -/
structure Parser.StmtStateKept (s s' : Parser) : Prop where
  toks : s'.toks = s.toks
  nextId : s.nextId ≤ s'.nextId
  caseLabels : s'.caseLabels = s.caseLabels
  defaultLabel : s'.defaultLabel = s.defaultLabel
  breakDest : s'.breakDest = s.breakDest
  continueDest : s'.continueDest = s.continueDest
  jumps : s'.jumps = s.jumps

/-- A member function keeps the state of the statement level whenever it
returns. -/
class KeepsStmtState {α : Type} (m : PM α) : Prop where
  keeps : ∀ s a s', m s = .ok a s' → s.StmtStateKept s'

/-- Every function of the table for expressions and declarations keeps the
state of the statement level. -/
class RecKeepsStmt (r : Rec) : Prop where
  ParseExpr : KeepsStmtState r.ParseExpr
  ParseAssignExpr : KeepsStmtState r.ParseAssignExpr
  ParseConditionalExpr : KeepsStmtState r.ParseConditionalExpr
  ParseCastExpr : KeepsStmtState r.ParseCastExpr
  ParseUnaryExpr : KeepsStmtState r.ParseUnaryExpr
  ParseTypeName : KeepsStmtState r.ParseTypeName
  ParsePostfixExprTail : ∀ e, KeepsStmtState (r.ParsePostfixExprTail e)
  loopFuncCallVarArgs : ∀ a, KeepsStmtState (r.loopFuncCallVarArgs a)
  loopMultiplicative : ∀ e t, KeepsStmtState (r.loopMultiplicative e t)
  loopAdditive : ∀ e t, KeepsStmtState (r.loopAdditive e t)
  loopShift : ∀ e t, KeepsStmtState (r.loopShift e t)
  loopRelational : ∀ e t, KeepsStmtState (r.loopRelational e t)
  loopEquality : ∀ e t, KeepsStmtState (r.loopEquality e t)
  loopBitwiseAnd : ∀ e t, KeepsStmtState (r.loopBitwiseAnd e t)
  loopBitwiseXor : ∀ e t, KeepsStmtState (r.loopBitwiseXor e t)
  loopBitwiseOr : ∀ e t, KeepsStmtState (r.loopBitwiseOr e t)
  loopLogicalAnd : ∀ e t, KeepsStmtState (r.loopLogicalAnd e t)
  loopLogicalOr : ∀ e t, KeepsStmtState (r.loopLogicalOr e t)
  loopComma : ∀ e t, KeepsStmtState (r.loopComma e t)
  ParseDeclSpec : ∀ b, KeepsStmtState (r.ParseDeclSpec b)
  loopDeclSpec : ∀ b v, KeepsStmtState (r.loopDeclSpec b v)
  loopEnumerator : ∀ t v, KeepsStmtState (r.loopEnumerator t v)
  loopStructDecl : ∀ t, KeepsStmtState (r.loopStructDecl t)
  loopQual : ∀ q, KeepsStmtState (r.loopQual q)
  loopPointer : ∀ a b, KeepsStmtState (r.loopPointer a b)
  loopParamList : ∀ p, KeepsStmtState (r.loopParamList p)
  ParseDeclarator : ∀ t, KeepsStmtState (r.ParseDeclarator t)
  ParseArrayFuncDeclarator : ∀ t, KeepsStmtState (r.ParseArrayFuncDeclarator t)
  ParseInitializer : ∀ o, KeepsStmtState (r.ParseInitializer o)
  loopArrayInitializer : ∀ a v, KeepsStmtState (r.loopArrayInitializer a v)
  loopDecl : ∀ t a b l, KeepsStmtState (r.loopDecl t a b l)

/-! ## Inputs used in the statement about consecutive case labels -/

/-- The part of `ParseCaseStmt` that reads the constant expression and the
colon of the label (parser.cc 2043-2047): the value of the label. -/
def ParseCaseStmt.header (r : Rec) : PM Int := do
  setErrTok
  let expr ← ParseExpr r
  Expect1 (.chr ':')
  let s ← getP
  EvalInteger expr s.errTok

/-- The tokens `case 1: case 2: ;`. -/
def toksCaseCase : List Token :=
  [K .CASE "case", N "1", P ':', K .CASE "case", N "2", P ':', P ';']

/-- A state in the body of a switch, after the first keyword `case` of
`toksCaseCase`: the list `_caseLabels` of the switch is empty. -/
def caseStart : Parser :=
  { stateAtPos toksCaseCase 1 with caseLabels := some [] }

/-- The program `void g(void) { int x; switch (x) { case 1: case 2: ; } }`. -/
def toksTwoCases : List Token :=
  [K .VOID "void", I "g", P '(', K .VOID "void", P ')', P '{',
   K .INT "int", I "x", P ';',
   K .SWITCH "switch", P '(', I "x", P ')', P '{',
     K .CASE "case", N "1", P ':', K .CASE "case", N "2", P ':', P ';',
   P '}', P '}']

/-- The state after the header `1 :` of the first label of `toksCaseCase`. -/
def caseAfterFirst : Parser := (ParseCaseStmt.header (parser 30) caseStart).state

/-- The state after the header `2 :` of the second label of `toksCaseCase`. -/
def caseAfterSecond : Parser :=
  (ParseCaseStmt.header (parser 29)
    { caseAfterFirst with pos := caseAfterFirst.pos + 1, nextId := caseAfterFirst.nextId + 1,
                          caseLabels := some ([] ++ [(1, caseAfterFirst.nextId)]) }).state

/-- The state after the statement `;` of `toksCaseCase`. -/
def caseEnd : Parser :=
  ((parser 29).ParseStmt
    { caseAfterSecond with
        nextId := caseAfterSecond.nextId + 1,
        caseLabels := some ([] ++ [(1, caseAfterFirst.nextId)]
          ++ [(2, caseAfterSecond.nextId)]) }).state

/-- The object `x` of `int x;` in the body of the function `g`. -/
def objX : Identifier :=
  { id := 6, ty := tInt, scope := 5, linkage := .L_NONE, isObject := true,
    storage := 0, offset := 0 }

/-! ## Inputs used in the statements about the comma and subscript operators -/

/-- The tokens `1 , 2 ;`. -/
def toksComma : List Token := [N "1", P ',', N "2", P ';']

/-- The program `void g(void) { int *p; p[0]; }`. -/
def toksSubscript : List Token :=
  [K .VOID "void", I "g", P '(', K .VOID "void", P ')', P '{',
   K .INT "int", P '*', I "p", P ';',
   I "p", P '[', N "0", P ']', P ';',
   P '}']

/-! ## Inputs used in the statements about the additive operators -/

/-- The diagnostic of `AdditiveOpTypeChecking` for a pointer on the left. -/
def invalidMinus (coord : Nat) : Diag :=
  { coord := coord, fmt := "invalid operands to binary -", args := [] }

/-- The object `q` of `int *q;` in a block. -/
def objQ : Identifier :=
  { id := 7, ty := .pointer tInt 0, scope := 5, linkage := .L_NONE, isObject := true,
    storage := 0, offset := 0 }

/-- The program `void g(void) { int *p; int *q; p - q; }` (the `-` is token
15). -/
def toksPointerDiff : List Token :=
  [K .VOID "void", I "g", P '(', K .VOID "void", P ')', P '{',
   K .INT "int", P '*', I "p", P ';', K .INT "int", P '*', I "q", P ';',
   I "p", P '-', I "q", P ';',
   P '}']

/-- The arithmetic branch of `AdditiveOpTypeChecking` (parser.cc 2337-2348)
with the constants of the absent `type.h` as parameters: `width` gives
`Width()` of an arithmetic type from its bit mask, `mw` is
`Type::_machineWord`. -/
def additiveArithmTypeW (width : Nat → Nat) (mw : Nat) (lhsType rhsType : CType)
    (l r : Nat) : CType :=
  if width l < mw && width r < mw then NewArithmType T_INT
  else if width l > width r then lhsType
  else if width l < width r then rhsType
  else if hasBit l T_FLOAT || hasBit r T_FLOAT then NewArithmType T_FLOAT
  else lhsType

/-- The type `long`. -/
def tLong : CType := .arithm T_LONG none

/-- The type `long long`. -/
def tLongLong : CType := .arithm T_LONG_LONG none

/-- The type `double`. -/
def tDouble : CType := .arithm T_DOUBLE none

/-- The program `void g(void) { long a; double b; a + b; }`. -/
def toksLongPlusDouble : List Token :=
  [K .VOID "void", I "g", P '(', K .VOID "void", P ')', P '{',
   K .LONG "long", I "a", P ';', K .DOUBLE "double", I "b", P ';',
   I "a", P '+', I "b", P ';',
   P '}']

/-- The object `a` of `long a;` in a block. -/
def objLongA : Identifier :=
  { id := 6, ty := tLong, scope := 5, linkage := .L_NONE, isObject := true,
    storage := 0, offset := 0 }

/-- The object `b` of `double b;` in a block. -/
def objDoubleB : Identifier :=
  { id := 7, ty := tDouble, scope := 5, linkage := .L_NONE, isObject := true,
    storage := 0, offset := 0 }

/-! ## Inputs used in the statement about array lengths -/

/-- The declaration `int a [ len ] ;` for the tokens `len` of the length. -/
def toksArrayDecl (len : List Token) : List Token :=
  [K .INT "int", I "a", P '['] ++ len ++ [P ']', P ';']

/-- The diagnostics of `ParseDecl` on `int a [ len ] ;`. -/
def arrayDeclDiags (len : List Token) : List Diag :=
  (ParseDecl (parser 40) (stateAt (toksArrayDecl len))).state.errors

/-- The types of the identifiers that `ParseDecl` on `int a [ len ] ;` leaves
in the scopes. -/
def arrayDeclTypes (len : List Token) : List (List (String × CType)) :=
  (ParseDecl (parser 40) (stateAt (toksArrayDecl len))).state.curScope.map
    (fun sc => sc.ordinary.map (fun p => (p.1, p.2.ty)))

/-- The diagnostic of `ParseArrayFuncDeclarator` for the length 0. -/
def lengthZero (coord : Nat) : Diag :=
  { coord := coord, fmt := "can't declare an array of length 0", args := [] }

/-- The state after `int a` of `int a [ - 1 ] ;`. -/
def arrayStart : Parser := stateAtPos (toksArrayDecl [P '-', N "1"]) 2

/-- The state after the length of `int a [ - 1 ] ;`. -/
def arrayAfterLength : Parser :=
  (ParseArrayLength (parser 40) { arrayStart with pos := arrayStart.pos + 1 }).state

/-! ## The diagnostics of a run only grow -/

/-- A member function removes no diagnostic: the diagnostics reported before
the call are the first ones of the list after it, also when the run does
not return. -/
class ErrorsGrow {α : Type} (m : PM α) : Prop where
  grows : ∀ s, s.errors <+: (m s).state.errors

/-! ## Inputs used in the statement about void and incomplete types -/

/-- The token `v` at coordinate 1. -/
def tokV : Token := mkTok (.kw .IDENTIFIER) "v" 1

/-- The diagnostic of `ProcessDeclarator` for a void type. -/
def declaredVoid (tok : Token) : Diag :=
  { coord := tok.coord, fmt := "variable or field '%s' declared void", args := [tok.str] }

/-- The diagnostic of `ProcessDeclarator` for an incomplete type. -/
def sizeUnknown (tok : Token) : Diag :=
  { coord := tok.coord, fmt := "storage size of '%s' isn’t known", args := [tok.str] }

/-- The tokens `void v ;`. -/
def toksVoidV : List Token := [K .VOID "void", I "v", P ';']

/-- The tokens `struct S v ;`, with no definition of `struct S`. -/
def toksStructV : List Token := [K .STRUCT "struct", I "S", I "v", P ';']

/-! ## Inputs used in the statement about typedef names -/

/-- The program `typedef int *x; x y;`. -/
def toksTypedef : List Token :=
  [K .TYPEDEF "typedef", K .INT "int", P '*', I "x", P ';', I "x", I "y", P ';']

/-- The token `x` of the typedef in `toksTypedef`. -/
def tokTypedefX : Token := mkTok (.kw .IDENTIFIER) "x" 3

/-- The identifier that `typedef int *x;` declares at file scope. -/
def typedefX : Identifier :=
  { id := 2, ty := .pointer tInt 0, scope := 0, linkage := .L_NONE, isObject := false,
    storage := 0, offset := 0 }

/-- The state before `x y;` in `toksTypedef`, after `typedef int *x;` is
declared. -/
def stateTypedefX : Parser :=
  { (ProcessDeclarator (some tokTypedefX) (.pointer tInt 0) S_TYPEDEF 0 (stateAt toksTypedef)).state
      with pos := 5 }

/-- The names, types and kinds (object or not) in the scopes of a state. -/
def scopeEntries (s : Parser) : List (List (String × CType × Bool)) :=
  s.curScope.map (fun sc => sc.ordinary.map (fun p => (p.1, p.2.ty, p.2.isObject)))

/-! ## The shape of the nodes of the binary operators -/

/-- A type checker of binary nodes returns the node `b` with its operator and
its operands: only the type may differ. -/
def KeepsOperands (b : BinaryOp) (m : PM BinaryOp) : Prop :=
  ∀ s ret s', m s = .ok ret s' → ret.op = b.op ∧ ret.lhs = b.lhs ∧ ret.rhs = b.rhs

/-! ## Inputs used in the statement about compound assignments -/

/-- The tokens `int x ; x OP= 2 ;` for the compound assignment token
`opTok`. -/
def toksCompound (opTok : Token) : List Token :=
  [K .INT "int", I "x", P ';', I "x", opTok, N "2", P ';']

/-- The state after the declaration `int x;` of `toksCompound opTok`. -/
def stateCompound (opTok : Token) : Parser :=
  (ParseDecl (parser 40) (stateAt (toksCompound opTok))).state

/-- The object `x` of `int x;` at file scope. -/
def objFileX : Identifier :=
  { id := 2, ty := tInt, scope := 0, linkage := .L_EXTERNAL, isObject := true,
    storage := 0, offset := 0 }

/-- The constant `2`. -/
def constTwo : Expr := .constant (.arithm (T_SIGNED ||| T_INT) none) 2

/-- The node `x = x OP 2` with the types `t1` of `x OP 2` and `t2` of the
assignment. -/
def compoundNode (op : Tag) (t1 t2 : CType) : Expr :=
  .binaryOp (.chr '=') (.identifier objFileX)
    (.binaryOp op (.identifier objFileX) constTwo t1) t2

/-- The node that `ParseAssignExpr` returns for `x OP= 2`. -/
def compoundResult (opTok : Token) : Option Expr :=
  (ParseAssignExpr (parser 40) (stateCompound opTok)).value?

/-- The token `*=`. -/
def tokMulAssign : Token := K .MUL_ASSIGN "*="

/-- The state after the left operand `x` of `x *= 2`. -/
def compoundAfterLhs : Parser :=
  (ParseConditionalExpr (parser 40) (stateCompound tokMulAssign)).state

/-- The state after the right operand `2` of `x *= 2`. -/
def compoundAfterRhs : Parser :=
  ((parser 40).ParseAssignExpr
    { compoundAfterLhs with pos := compoundAfterLhs.pos + 1 }).state

/-- The ten compound assignment tokens, in the order of the cases of
`ParseAssignExpr`. -/
def compoundTokens : List Token :=
  [K .MUL_ASSIGN "*=", K .DIV_ASSIGN "/=", K .MOD_ASSIGN "%=", K .ADD_ASSIGN "+=",
   K .SUB_ASSIGN "-=", K .LEFT_ASSIGN "<<=", K .RIGHT_ASSIGN ">>=", K .AND_ASSIGN "&=",
   K .XOR_ASSIGN "^=", K .OR_ASSIGN "|="]

/-! ## The binary levels of the expression cascade -/

/-- The ten binary levels of the cascade, from `ParseMultiplicativeExpr` to
`ParseLogicalOrExpr` (parser.cc 545-689). -/
inductive BinLevel where
  | multiplicative | additive | shift | relational | equality
  | bitwiseAnd | bitwiseXor | bitwiseOr | logicalAnd | logicalOr
  deriving DecidableEq, Repr

/-- The member function of a level. -/
def BinLevel.parse : BinLevel → Rec → PM Expr
  | .multiplicative => ParseMultiplicativeExpr
  | .additive => ParseAdditiveExpr
  | .shift => ParseShiftExpr
  | .relational => ParseRelationalExpr
  | .equality => ParseEqualityExpr
  | .bitwiseAnd => ParseBitiwiseAndExpr
  | .bitwiseXor => ParseBitwiseXorExpr
  | .bitwiseOr => ParseBitwiseOrExpr
  | .logicalAnd => ParseLogicalAndExpr
  | .logicalOr => ParseLogicalOrExpr

/-- The member function a level calls for each of its operands. -/
def BinLevel.operand : BinLevel → Rec → PM Expr
  | .multiplicative => ParseCastExpr
  | .additive => ParseMultiplicativeExpr
  | .shift => ParseAdditiveExpr
  | .relational => ParseShiftExpr
  | .equality => ParseRelationalExpr
  | .bitwiseAnd => ParseEqualityExpr
  | .bitwiseXor => ParseBitiwiseAndExpr
  | .bitwiseOr => ParseBitwiseXorExpr
  | .logicalAnd => ParseBitwiseOrExpr
  | .logicalOr => ParseLogicalAndExpr

/-- The condition of the `while` of a level on the tag of the token after an
operand: the comparison of the tags for the first five levels, the tag given
to `Try` for the others. -/
def BinLevel.test : BinLevel → Tag → Bool
  | .multiplicative, tag => tag == .chr '*' || tag == .chr '/' || tag == .chr '%'
  | .additive, tag => tag == .chr '+' || tag == .chr '-'
  | .shift, tag => tag == .kw .LEFT_OP || tag == .kw .RIGHT_OP
  | .relational, tag =>
    tag == .kw .LE_OP || tag == .kw .GE_OP || tag == .chr '<' || tag == .chr '>'
  | .equality, tag => tag == .kw .EQ_OP || tag == .kw .NE_OP
  | .bitwiseAnd, tag => tag == .chr '&'
  | .bitwiseXor, tag => tag == .chr '^'
  | .bitwiseOr, tag => tag == .chr '|'
  | .logicalAnd, tag => tag == .kw .AND_OP
  | .logicalOr, tag => tag == .kw .OR_OP

/-- What a level does after an operand `lhs`: the token is read (or peeked)
and the loop is entered. -/
def BinLevel.rest : BinLevel → Rec → Expr → PM Expr
  | .multiplicative, r, lhs => do let tok ← Next; ParseMultiplicativeExpr.loop r lhs tok
  | .additive, r, lhs => do let tok ← Next; ParseAdditiveExpr.loop r lhs tok
  | .shift, r, lhs => do let tok ← Next; ParseShiftExpr.loop r lhs tok
  | .relational, r, lhs => do let tok ← Next; ParseRelationalExpr.loop r lhs tok
  | .equality, r, lhs => do let tok ← Next; ParseEqualityExpr.loop r lhs tok
  | .bitwiseAnd, r, lhs => do let tok ← Peek; ParseBitiwiseAndExpr.loop r lhs tok
  | .bitwiseXor, r, lhs => do let tok ← Peek; ParseBitwiseXorExpr.loop r lhs tok
  | .bitwiseOr, r, lhs => do let tok ← Peek; ParseBitwiseOrExpr.loop r lhs tok
  | .logicalAnd, r, lhs => do let tok ← Peek; ParseLogicalAndExpr.loop r lhs tok
  | .logicalOr, r, lhs => do let tok ← Peek; ParseLogicalOrExpr.loop r lhs tok

/-- The end of an iteration of the loop of a level: the next token is read
(or peeked) and the next iteration entered. -/
def BinLevel.again : BinLevel → Rec → Expr → PM Expr
  | .multiplicative, r, lhs => do let tok ← Next; r.loopMultiplicative lhs tok
  | .additive, r, lhs => do let tok ← Next; r.loopAdditive lhs tok
  | .shift, r, lhs => do let tok ← Next; r.loopShift lhs tok
  | .relational, r, lhs => do let tok ← Next; r.loopRelational lhs tok
  | .equality, r, lhs => do let tok ← Next; r.loopEquality lhs tok
  | .bitwiseAnd, r, lhs => do let tok ← Peek; r.loopBitwiseAnd lhs tok
  | .bitwiseXor, r, lhs => do let tok ← Peek; r.loopBitwiseXor lhs tok
  | .bitwiseOr, r, lhs => do let tok ← Peek; r.loopBitwiseOr lhs tok
  | .logicalAnd, r, lhs => do let tok ← Peek; r.loopLogicalAnd lhs tok
  | .logicalOr, r, lhs => do let tok ← Peek; r.loopLogicalOr lhs tok

/-- The operators of a level in the reference grammar of C (multiplicative
to logical-or expressions). -/
def BinLevel.operators : BinLevel → List Tag
  | .multiplicative => [.chr '*', .chr '/', .chr '%']
  | .additive => [.chr '+', .chr '-']
  | .shift => [.kw .LEFT_OP, .kw .RIGHT_OP]
  | .relational => [.chr '<', .chr '>', .kw .LE_OP, .kw .GE_OP]
  | .equality => [.kw .EQ_OP, .kw .NE_OP]
  | .bitwiseAnd => [.chr '&']
  | .bitwiseXor => [.chr '^']
  | .bitwiseOr => [.chr '|']
  | .logicalAnd => [.kw .AND_OP]
  | .logicalOr => [.kw .OR_OP]

/-- The level whose expressions are the operands of a level in the reference
grammar, the next tighter one; the operands of a multiplicative expression
are cast expressions. -/
def BinLevel.tighter : BinLevel → Option BinLevel
  | .multiplicative => none
  | .additive => some .multiplicative
  | .shift => some .additive
  | .relational => some .shift
  | .equality => some .relational
  | .bitwiseAnd => some .equality
  | .bitwiseXor => some .bitwiseAnd
  | .bitwiseOr => some .bitwiseXor
  | .logicalAnd => some .bitwiseOr
  | .logicalOr => some .logicalAnd

/-! ## Inputs used in the statement about the grouping of expressions -/

/-- The integer constant `v` as `ParsePrimaryExpr` builds it. -/
def constInt (v : Int) : Expr := .constant (.arithm (T_SIGNED ||| T_INT) none) v

/-- The tokens `1 - 2 + 3 ;`. -/
def toksChain : List Token := [N "1", P '-', N "2", P '+', N "3", P ';']

/-- The tokens `1 + 2 * 3 ;`. -/
def toksTighter : List Token := [N "1", P '+', N "2", P '*', N "3", P ';']

/-- The tokens `int a , b , c ; a = b = c ;`. -/
def toksAssignChain : List Token :=
  [K .INT "int", I "a", P ',', I "b", P ',', I "c", P ';',
   I "a", P '=', I "b", P '=', I "c", P ';']

/-- The tokens `1 ? 2 : 3 ? 4 : 5 ;`. -/
def toksCondChain : List Token :=
  [N "1", P '?', N "2", P ':', N "3", P '?', N "4", P ':', N "5", P ';']

/-- The state after the declaration `int a , b , c ;` of `toksAssignChain`. -/
def assignChainStart : Parser := (ParseDecl (parser 40) (stateAt toksAssignChain)).state

/-- The state `s` with the current token consumed. -/
def Parser.advance (s : Parser) : Parser := { s with pos := s.pos + 1 }

/-- The states of the run of `ParseAdditiveExpr` on `1 - 2 + 3 ;`: after
`1`, after `2`, after the node of `-`, after `3` and after the node of
`+`. -/
def chainS1 : Parser := (ParseMultiplicativeExpr (parser 40) (stateAt toksChain)).state

def chainS2 : Parser := (ParseMultiplicativeExpr (parser 40) chainS1.advance).state

def chainS3 : Parser :=
  (NewBinaryOpTok (tokAt chainS1.toks chainS1.pos) (constInt 1) (constInt 2) chainS2).state

def chainS4 : Parser := (ParseMultiplicativeExpr (parser 39) chainS3.advance).state

def chainS5 : Parser :=
  (NewBinaryOpTok (tokAt chainS3.toks chainS3.pos)
    (.binaryOp (.chr '-') (constInt 1) (constInt 2) (.arithm (T_SIGNED ||| T_INT) none))
    (constInt 3) chainS4).state

/-- The states of the run of `ParseAdditiveExpr` on `1 + 2 * 3 ;`: after
`1`, after `2`, after `3`, after the node of `*` and after the node of
`+`. -/
def tighterS1 : Parser := (ParseMultiplicativeExpr (parser 40) (stateAt toksTighter)).state

def tighterS2 : Parser := (ParseCastExpr (parser 40) tighterS1.advance).state

def tighterS3 : Parser := (ParseCastExpr (parser 40) tighterS2.advance).state

def tighterS4 : Parser :=
  (NewBinaryOpTok (tokAt tighterS2.toks tighterS2.pos) (constInt 2) (constInt 3)
    tighterS3).state

def tighterS5 : Parser :=
  (NewBinaryOpTok (tokAt tighterS1.toks tighterS1.pos) (constInt 1)
    (.binaryOp (.chr '*') (constInt 2) (constInt 3) (.arithm (T_SIGNED ||| T_INT) none))
    tighterS4).state

/-- The objects `a`, `b` and `c` of `int a , b , c ;` at file scope. -/
def objFile (id : Nat) : Identifier :=
  { id := id, ty := tInt, scope := 0, linkage := .L_EXTERNAL, isObject := true,
    storage := 0, offset := 0 }

/-- The states of the run of `ParseAssignExpr` on `a = b = c ;`: after `a`,
after `b`, after `c`, after the node of the second `=` and after the node of
the first. -/
def assignS1 : Parser := (ParseConditionalExpr (parser 40) assignChainStart).state

def assignS2 : Parser := (ParseConditionalExpr (parser 39) assignS1.advance).state

def assignS3 : Parser := ((parser 39).ParseAssignExpr assignS2.advance).state

def assignS4 : Parser :=
  (NewBinaryOp (tokAt assignS2.toks assignS2.pos) (.chr '=') (.identifier (objFile 3))
    (.identifier (objFile 4)) assignS3).state

def assignS5 : Parser :=
  (NewBinaryOp (tokAt assignS1.toks assignS1.pos) (.chr '=') (.identifier (objFile 2))
    (.binaryOp (.chr '=') (.identifier (objFile 3)) (.identifier (objFile 4)) tInt)
    assignS4).state

/-- The states of the run of `ParseConditionalExpr` on
`1 ? 2 : 3 ? 4 : 5 ;`: after each of the five constants, after the inner
node and after the outer node. -/
def condS1 : Parser := (ParseLogicalOrExpr (parser 40) (stateAt toksCondChain)).state

def condS2 : Parser := ((parser 40).ParseExpr condS1.advance).state

def condS3 : Parser := (ParseLogicalOrExpr (parser 39) condS2.advance).state

def condS4 : Parser := ((parser 39).ParseExpr condS3.advance).state

def condS5 : Parser := ((parser 39).ParseConditionalExpr condS4.advance).state

def condS6 : Parser :=
  (NewConditionalOp (tokAt condS3.toks condS3.pos) (constInt 3) (constInt 4) (constInt 5)
    condS5).state

def condS7 : Parser :=
  (NewConditionalOp (tokAt condS1.toks condS1.pos) (constInt 1) (constInt 2)
    (.conditionalOp (constInt 3) (constInt 4) (constInt 5) .null) condS6).state

/-! ## Chains of derived types -/

/-- One link of a chain of derived types: a pointer with its qualifiers, an
array with its length, or a function with its specifier, ellipsis flag and
parameter types. -/
inductive Deriv where
  | pointer (qual : Nat)
  | array (len : Int)
  | func (funcSpec : Nat) (hasEllipsis : Bool) (params : List CType)
  deriving Repr

/-- The derived type a link builds over `t`. -/
def Deriv.apply : Deriv → CType → CType
  | .pointer q, t => .pointer t q
  | .array l, t => .array l t
  | .func f v ps, t => .func t f v ps

/-- The type a chain of links, outermost first, builds over `base`. -/
def applyChain : List Deriv → CType → CType
  | [], base => base
  | c :: cs, base => c.apply (applyChain cs base)

/-- The number of links of derived types above the first type that is not
derived. -/
def CType.depth : CType → Nat
  | .pointer d _ => d.depth + 1
  | .array _ d => d.depth + 1
  | .func d _ _ _ => d.depth + 1
  | _ => 0

/-- The tokens `int ( * p ) [ 3 ] ;`. -/
def toksPtrToArray : List Token :=
  [K .INT "int", P '(', P '*', I "p", P ')', P '[', N "3", P ']', P ';']

/-- The tokens `int ( x ) ;`. -/
def toksParenX : List Token := [K .INT "int", P '(', I "x", P ')', P ';']

/-- The state at the `(` of `int ( * p ) [ 3 ] ;`. -/
def ptrToArrayStart : Parser := stateAtPos toksPtrToArray 1

/-- The state after the inner declarator `* p` of `int ( * p ) [ 3 ] ;`. -/
def ptrToArrayInner : Parser :=
  (ParseDeclarator (parser 39) tInt { ptrToArrayStart with pos := ptrToArrayStart.pos + 1 }).state

/-- The state after the suffix `[ 3 ]` of `int ( * p ) [ 3 ] ;`. -/
def ptrToArrayEnd : Parser :=
  (ParseArrayFuncDeclarator (parser 40) tInt
    { ptrToArrayInner with pos := ptrToArrayInner.pos + 1 }).state

/-- The state at the `(` of `int ( x ) ;`. -/
def parenXStart : Parser := stateAtPos toksParenX 1

/-- The state after the inner declarator `x` of `int ( x ) ;`. -/
def parenXInner : Parser :=
  (ParseDeclarator (parser 39) tInt { parenXStart with pos := parenXStart.pos + 1 }).state

/-- The state after the empty suffix of `int ( x ) ;`. -/
def parenXEnd : Parser :=
  (ParseArrayFuncDeclarator (parser 40) tInt
    { parenXInner with pos := parenXInner.pos + 1 }).state

/-! ## Inputs used in the statement about the bitwise operators -/

/-- The diagnostic of `BitwiseOpTypeChecking` (parser.cc 2377). -/
def integerOperands (coord : Nat) : Diag :=
  { coord := coord, fmt := "operands of '&' should be integer", args := [] }

/-- The program `void g(void) { int a; int b; a OP b; }` for the operator
token `op`. -/
def toksBitwiseInts (op : Token) : List Token :=
  [K .VOID "void", I "g", P '(', K .VOID "void", P ')', P '{',
   K .INT "int", I "a", P ';', K .INT "int", I "b", P ';',
   I "a", op, I "b", P ';',
   P '}']

/-- The program `void g(void) { double a; double b; a OP b; }` for the
operator token `op`. -/
def toksBitwiseDoubles (op : Token) : List Token :=
  [K .VOID "void", I "g", P '(', K .VOID "void", P ')', P '{',
   K .DOUBLE "double", I "a", P ';', K .DOUBLE "double", I "b", P ';',
   I "a", op, I "b", P ';',
   P '}']

/-- The program `void g(void) { int a; double b; a OP b; }` for the operator
token `op`. -/
def toksBitwiseMixed (op : Token) : List Token :=
  [K .VOID "void", I "g", P '(', K .VOID "void", P ')', P '{',
   K .INT "int", I "a", P ';', K .DOUBLE "double", I "b", P ';',
   I "a", op, I "b", P ';',
   P '}']

/-- The diagnostics of the parse of a program. -/
def diagsOf (toks : List Token) : List Diag :=
  (ParseTranslationUnit (parser 60) (stateAt toks)).state.errors

/-- The object `a` of `int a;` in the block of `g`. -/
def objIntA : Identifier :=
  { id := 6, ty := tInt, scope := 5, linkage := .L_NONE, isObject := true,
    storage := 0, offset := 0 }

/-- The object `b` of `int b;` in the block of `g`. -/
def objIntB : Identifier :=
  { id := 7, ty := tInt, scope := 5, linkage := .L_NONE, isObject := true,
    storage := 0, offset := 0 }

/-! ## Inputs used in the statement about `const` -/

/-- The program `void g(void) { const int x; x = 1; }`. -/
def toksConstAssign : List Token :=
  [K .VOID "void", I "g", P '(', K .VOID "void", P ')', P '{',
   K .CONST "const", K .INT "int", I "x", P ';',
   I "x", P '=', N "1", P ';',
   P '}']

/-- The program `void g(void) { int * const p; p = p; }`. -/
def toksConstPointerAssign : List Token :=
  [K .VOID "void", I "g", P '(', K .VOID "void", P ')', P '{',
   K .INT "int", P '*', K .CONST "const", I "p", P ';',
   I "p", P '=', I "p", P ';',
   P '}']

/-- The tokens `const int x ;`. -/
def toksConstIntX : List Token := [K .CONST "const", K .INT "int", I "x", P ';']

/-! ## Inputs used in the statement about function calls -/

/-- The program `void f(void); void g(void) { f(); }`. -/
def toksCallNoArgs : List Token :=
  [K .VOID "void", I "f", P '(', K .VOID "void", P ')', P ';',
   K .VOID "void", I "g", P '(', K .VOID "void", P ')', P '{',
   I "f", P '(', P ')', P ';', P '}']

/-- The program `void f(params); void g(void) { int a; f(args); }` for the
tokens `params` of the parameter list and `args` of the argument list. -/
def toksCall (params args : List Token) : List Token :=
  [K .VOID "void", I "f", P '('] ++ params ++ [P ')', P ';',
   K .VOID "void", I "g", P '(', K .VOID "void", P ')', P '{',
   K .INT "int", I "a", P ';',
   I "f", P '('] ++ args ++ [P ')', P ';', P '}']

/-- The function `f` of `void f(void);`. -/
def objCalleeVoid : Identifier :=
  { id := 4, ty := .func .void 0 false [.void], scope := 0, linkage := .L_EXTERNAL,
    isObject := false, storage := 0, offset := 0 }

/-- The state at the `)` of the call `f()` of `toksCallNoArgs`. -/
def callNoArgsStart : Parser := stateAtPos toksCallNoArgs 14

/-- The state after `ParseAssignExpr` has looked for an argument at that
`)`. -/
def callNoArgsAfter : Parser := ((parser 39).ParseAssignExpr callNoArgsStart).state

/-- The object identifiers among a list of expressions. -/
def identIds (es : List Expr) : List Nat :=
  es.filterMap (fun e =>
    match e with
    | .identifier i => some i.id
    | _ => none)

/-- For each call statement `f(args);` in the function bodies of a parsed
program, the number of its arguments and the identifiers among them. -/
def callsOf (toks : List Token) : List (Nat × List Nat) :=
  ((ParseTranslationUnit (parser 60) (stateAt toks)).state.unit.map (fun st =>
    match st with
    | .funcDef _ (.compoundStmt stmts) =>
      stmts.filterMap (fun st =>
        match st with
        | .expr (.funcCall _ args _) => some (args.length, identIds args)
        | _ => none)
    | _ => [])).flatten

/-- Whether the parse of a program returned. -/
def returns (toks : List Token) : Bool :=
  (ParseTranslationUnit (parser 60) (stateAt toks)).failure?.isNone

/-! ## The destinations of `break` and `continue` -/

/-- A member function keeps the member `f` of the parser whenever it
returns. -/
structure KeepsField {α : Type} (f : Parser → Option Nat) (m : PM α) : Prop where
  keeps : ∀ s a s', m s = .ok a s' → f s' = f s

/-- A member function returns with the member `f` of the parser equal to
`x`. -/
structure EndsWith {α : Type} (f : Parser → Option Nat) (x : Option Nat) (m : PM α) :
    Prop where
  ends : ∀ s a s', m s = .ok a s' → f s' = x

/-- A member `f` that is determined by `_breakDest` and `_continueDest`. -/
def OfDests (f : Parser → Option Nat) : Prop :=
  ∀ s s' : Parser, s'.breakDest = s.breakDest → s'.continueDest = s.continueDest → f s' = f s

/-- The diagnostic of `ParseBreakStmt` (parser.cc 2091). -/
def breakOutside (coord : Nat) : Diag :=
  { coord := coord, fmt := "'break' is allowed only in switch/loop", args := [] }

/-- The diagnostic of `ParseContinueStmt` (parser.cc 2079). -/
def continueOutside (coord : Nat) : Diag :=
  { coord := coord, fmt := "'continue' is allowed only in loop", args := [] }

/-- The statement `while (1) { while (2) break; continue; }`. -/
def toksNestedLoops : List Token :=
  [K .WHILE "while", P '(', N "1", P ')', P '{',
   K .WHILE "while", P '(', N "2", P ')', K .BREAK "break", P ';',
   K .CONTINUE "continue", P ';', P '}']

/-- The statement `while (1) switch (2) { case 3: continue; default: break; }`. -/
def toksLoopSwitch : List Token :=
  [K .WHILE "while", P '(', N "1", P ')', K .SWITCH "switch", P '(', N "2", P ')', P '{',
   K .CASE "case", N "3", P ':', K .CONTINUE "continue", P ';',
   K .DEFAULT "default", P ':', K .BREAK "break", P ';', P '}']

/-- The statement `{ break; continue; }` outside any loop. -/
def toksBreakOutside : List Token :=
  [P '{', K .BREAK "break", P ';', K .CONTINUE "continue", P ';', P '}']

/-- The state at the `;` of `break ;` in `toksBreakOutside`. -/
def breakOutsideStart : Parser := stateAtPos toksBreakOutside 2

/-! ## Inputs used in the statement about the end of a translation unit -/

/-- The diagnostic of `ParseDeclSpec` without a type specifier (parser.cc
1034). -/
def expectTypeSpec (coord : Nat) : Diag :=
  { coord := coord, fmt := "expect type specifier", args := [] }

/-- What one iteration of the loop of `ParseTranslationUnit` leaves behind
when the next token is a `;`: two diagnostics, `_errTok`, and an empty
declaration in the unit. -/
def afterSemicolon (s : Parser) : Parser :=
  { s with errors := s.errors ++ [expectTypeSpec (tokAt s.toks s.pos).coord,
                                   expectTypeSpec (tokAt s.toks s.pos).coord],
           errTok := some (tokAt s.toks s.pos),
           unit := s.unit ++ [.compoundStmt []] }

/-- The translation units `;`, `int ;` and `struct S ;`. -/
def toksSemicolon : List Token := [P ';']

def toksIntSemicolon : List Token := [K .INT "int", P ';']

def toksStructSemicolon : List Token := [K .STRUCT "struct", I "S", P ';']

/-- The states after `IsFuncDef` and after `ParseDecl` in the first iteration
of the loop of `ParseTranslationUnit` on `int ;`. -/
def intSemicolonLooked : Parser :=
  (IsFuncDef (stepRec bottomRec) (stateAt toksIntSemicolon)).state

def intSemicolonDeclared : Parser :=
  (ParseDecl (stepRec bottomRec) intSemicolonLooked).state

/-- The states after `IsFuncDef` and after `ParseDecl` in the first iteration
of the loop of `ParseTranslationUnit` on `struct S ;`. -/
def structSemicolonLooked : Parser :=
  (IsFuncDef (stepRec bottomRec) (stateAt toksStructSemicolon)).state

def structSemicolonDeclared : Parser :=
  (ParseDecl (stepRec bottomRec) structSemicolonLooked).state

/-! ## Inputs used in the statement about `IsFuncDef` -/

/-- The translation unit `struct S { } x ;`. -/
def toksStructDefX : List Token :=
  [K .STRUCT "struct", I "S", P '{', P '}', I "x", P ';']

/-- The names in the tag tables and in the ordinary tables of the scopes of
a state. -/
def tableNames (s : Parser) : List (List String × List String) :=
  s.curScope.map (fun sc => (sc.tags.map (fun p => p.1), sc.ordinary.map (fun p => p.1)))

/-- The state after `IsFuncDef` has looked at `struct S { } x ;`. -/
def structDefLooked : Parser := (IsFuncDef (stepRec bottomRec) (stateAt toksStructDefX)).state

/-- The diagnostic of `ParseStructUnionSpec` for a tag that is already
defined in the scope (parser.cc 1205). -/
def redefinitionOfTag (tok : Token) : Diag :=
  { coord := tok.coord, fmt := "redefinition of struct tag '%s'", args := [tok.str] }

/-! ## Inputs used in the statement about `continue` -/

/-- The state in which `ParseDoStmt` parses the body of the loop: the three
labels `s.nextId` (begin), `s.nextId + 1` (cond) and `s.nextId + 2` (end)
are allocated, and the destinations of `break` and `continue` are the end
label and the begin label. -/
def doBodyState (s : Parser) : Parser :=
  { s with nextId := s.nextId + 3,
           breakDest := some (s.nextId + 2),
           continueDest := some s.nextId }

/-- The part of `ParseDoStmt` after the body (parser.cc 1955-1973), for the
three labels, the backup of the destinations and the body. -/
def ParseDoStmt.rest (r : Rec) (beginLabel condLabel endLabel : Nat)
    (backup : Option Nat × Option Nat) (bodyStmt : Stmt) : PM Stmt := do
  EXIT_LOOP_BODY backup
  Expect1 (.kw .WHILE)
  Expect1 (.chr '(')
  let condExpr ← ParseExpr r
  Expect1 (.chr ')')
  let gotoBeginStmt ← NewJumpStmt (some beginLabel)
  let gotoEndStmt ← NewJumpStmt (some endLabel)
  let ifStmt := NewIfStmt condExpr (.jumpStmt gotoBeginStmt) (.jumpStmt gotoEndStmt)
  pure (NewCompoundStmt [.labelStmt beginLabel, bodyStmt, .labelStmt condLabel, ifStmt,
    .labelStmt endLabel])

/-- The statement `for ( ; 1 ; 2 ) continue ;`. -/
def toksForContinue : List Token :=
  [K .FOR "for", P '(', P ';', N "1", P ';', N "2", P ')', K .CONTINUE "continue", P ';']

/-- The statement `do continue ; while ( 1 ) ;`. -/
def toksDoContinue : List Token :=
  [K .DO "do", K .CONTINUE "continue", P ';', K .WHILE "while", P '(', N "1", P ')', P ';']

/-! ## Inputs used in the statement about type names -/

/-- The type name `int` followed by `n` stars and `)`. -/
def toksTypeName (n : Nat) : List Token :=
  [K .INT "int"] ++ List.replicate n (P '*') ++ [P ')']

/-- The pointer of `n` levels to `t`, without qualifiers. -/
def pointerTo : Nat → CType → CType
  | 0, t => t
  | n + 1, t => .pointer (pointerTo n t) 0

/-- The expression `sizeof ( int * ) ;`. -/
def toksSizeofPointer : List Token :=
  [K .SIZEOF "sizeof", P '(', K .INT "int", P '*', P ')', P ';']

/-- The expression `( int * ) 0 ;`. -/
def toksCastPointer : List Token := [P '(', K .INT "int", P '*', P ')', N "0", P ';']

/-- The state after the specifier `int` of the type name `int * )`. -/
def typeNameAfterSpec : Parser :=
  ((parser 40).ParseDeclSpec true (stateAt (toksTypeName 1))).state

/-! ## Inputs used in the statement about array initializers -/

/-- An object of the type `int [3]` at the offset 16. -/
def arrInt3 : Identifier :=
  { id := 1, ty := .array 3 tInt, scope := 0, linkage := .L_NONE, isObject := true,
    storage := 0, offset := 16 }

/-- The element object `ParseArrayInitializer` makes for the index `idx` of
`arr` when the next fresh id is `id`. -/
def elementAt (arr : Identifier) (idx id : Nat) : Identifier :=
  { id := id, ty := arr.ty.derived, scope := arr.scope, linkage := arr.linkage,
    isObject := true, storage := arr.storage,
    offset := GetElementOffset arr.ty idx + arr.offset }

/-- For each statement `ele = constant` of the compound statement an array
initializer returns, the constant and the offset of `ele`. -/
def initOffsets : Stmt → List (Int × Int)
  | .compoundStmt stmts => stmts.filterMap (fun st =>
      match st with
      | .expr (.binaryOp _ (.identifier i) (.constant _ v) _) => some (v, i.offset)
      | _ => none)
  | _ => []

/-- The run of `ParseArrayInitializer` for `arrInt3` on the tokens that
follow the opening brace. -/
def arrayInit (toks : List Token) : Res Stmt :=
  ParseArrayInitializer (parser 40) arrInt3 (stateAt toks)

/-- The rest of the brace list `{ 1, 2, 3 };`. -/
def toksInitPlain : List Token := [N "1", P ',', N "2", P ',', N "3", P '}', P ';']

/-- The rest of a brace list in which every initializer has two tokens:
`{ 0 1, 0 2, 0 3 };`. -/
def toksInitPairs : List Token :=
  [N "0", N "1", P ',', N "0", N "2", P ',', N "0", N "3", P '}', P ';']

/-- The rest of the brace list `{ [0] = 1, [1] = 2 };`. -/
def toksInitDesignated : List Token :=
  [P '[', N "0", P ']', P '=', N "1", P ',', P '[', N "1", P ']', P '=', N "2", P '}', P ';']

/-- The rest of the brace list `{ [1] = 1, 0 2, 0 3 };`. -/
def toksInitMixed : List Token :=
  [P '[', N "1", P ']', P '=', N "1", P ',', N "0", N "2", P ',', N "0", N "3", P '}', P ';']

/-- The program `int a[2] = { 1, 2 };`. -/
def toksArrayInitDecl : List Token :=
  [K .INT "int", I "a", P '[', N "2", P ']', P '=', P '{', N "1", P ',', N "2", P '}', P ';']

/-- The state in which the loop of `ParseArrayInitializer` starts on
`toksInitPairs`. -/
def initPairsStart : Parser := stateAt toksInitPairs

/-- The state after the first initializer `0 1` of `toksInitPairs`. -/
def initPairsAfter : Parser :=
  ((parser 39).ParseInitializer (elementAt arrInt3 0 initPairsStart.nextId)
    { initPairsStart with pos := initPairsStart.pos + 1,
                          nextId := initPairsStart.nextId + 1 }).state

/-- The statement of the first initializer `0 1` of `toksInitPairs`. -/
def initPairsStmt : Stmt :=
  (((parser 39).ParseInitializer (elementAt arrInt3 0 initPairsStart.nextId)
    { initPairsStart with pos := initPairsStart.pos + 1,
                          nextId := initPairsStart.nextId + 1 }).value?).getD .null

/-! ## Inputs used in the statement about parameters -/

/-- The program `int f(int x) { x; }`. -/
def toksParamUse : List Token :=
  [K .INT "int", I "f", P '(', K .INT "int", I "x", P ')', P '{', I "x", P ';', P '}']

/-- The program `int x; int f(int x) { x; }`. -/
def toksParamShadow : List Token :=
  [K .INT "int", I "x", P ';',
   K .INT "int", I "f", P '(', K .INT "int", I "x", P ')', P '{', I "x", P ';', P '}']

/-- The program `int f(int x) { int y; y; }`. -/
def toksLocalUse : List Token :=
  [K .INT "int", I "f", P '(', K .INT "int", I "x", P ')',
   P '{', K .INT "int", I "y", P ';', I "y", P ';', P '}']

/-- For each expression statement that is an identifier in the function
bodies of a parsed program, the id of the identifier and of its scope. -/
def bodyIdents (toks : List Token) : List (Nat × Nat) :=
  ((ParseTranslationUnit (parser 60) (stateAt toks)).state.unit.map (fun st =>
    match st with
    | .funcDef _ (.compoundStmt stmts) =>
      stmts.filterMap (fun st =>
        match st with
        | .expr (.identifier i) => some (i.id, i.scope)
        | _ => none)
    | _ => [])).flatten

/-- The state in which `ParseParamList` starts on `( int x )` of
`toksParamUse`: after the `(` and `EnterBlock()`. -/
def paramUseEntered : Parser :=
  { stateAtPos toksParamUse 2 with
      pos := 3, nextId := (stateAtPos toksParamUse 2).nextId + 1,
      curScope := { id := (stateAtPos toksParamUse 2).nextId, kind := .S_BLOCK,
                    ordinary := [], tags := [] } :: (stateAtPos toksParamUse 2).curScope }

/-- The state after `ParseParamList` on `int x` of `toksParamUse`. -/
def paramUseParsed : Parser := (ParseParamList (parser 40) paramUseEntered).state

/-- The state after the declarator suffix `( int x )` of `toksParamUse`. -/
def paramUseEnd : Parser :=
  ((parser 40).ParseArrayFuncDeclarator tInt
    { paramUseParsed with curScope := paramUseParsed.curScope.tail,
                          pos := paramUseParsed.pos + 1 }).state

/-! ## The queue of unresolved jumps -/

/-- The queued jumps are pairwise distinct `JumpStmt` objects, all allocated
before the next handle. -/
def Parser.QueueFresh (s : Parser) : Prop :=
  (s.unresolvedJumps.map (fun p => p.2)).Nodup ∧ ∀ p ∈ s.unresolvedJumps, p.2 < s.nextId

instance (s : Parser) : Decidable s.QueueFresh := by
  unfold Parser.QueueFresh
  infer_instance

/-- What every member function leaves of the state `s` in the state `s'` it
returns in, as far as the queue `_unresolvedJumps` goes: no handle allocated
before is allocated again, and the queue still holds distinct jumps
allocated before the next handle if it did. -/
structure Parser.QueueKept (s s' : Parser) : Prop where
  nextId : s.nextId ≤ s'.nextId
  fresh : s.QueueFresh → s'.QueueFresh

/-- A member function keeps the queue of unresolved jumps in order whenever
it returns. -/
class KeepsQueue {α : Type} (m : PM α) : Prop where
  keeps : ∀ s a s', m s = .ok a s' → s.QueueKept s'

/-- Every function of the table keeps the queue of unresolved jumps in
order. -/
class RecKeepsQueue (r : Rec) : Prop where
  ParseExpr : KeepsQueue r.ParseExpr
  ParseAssignExpr : KeepsQueue r.ParseAssignExpr
  ParseConditionalExpr : KeepsQueue r.ParseConditionalExpr
  ParseCastExpr : KeepsQueue r.ParseCastExpr
  ParseUnaryExpr : KeepsQueue r.ParseUnaryExpr
  ParseTypeName : KeepsQueue r.ParseTypeName
  ParsePostfixExprTail : ∀ e, KeepsQueue (r.ParsePostfixExprTail e)
  loopFuncCallVarArgs : ∀ a, KeepsQueue (r.loopFuncCallVarArgs a)
  loopMultiplicative : ∀ e t, KeepsQueue (r.loopMultiplicative e t)
  loopAdditive : ∀ e t, KeepsQueue (r.loopAdditive e t)
  loopShift : ∀ e t, KeepsQueue (r.loopShift e t)
  loopRelational : ∀ e t, KeepsQueue (r.loopRelational e t)
  loopEquality : ∀ e t, KeepsQueue (r.loopEquality e t)
  loopBitwiseAnd : ∀ e t, KeepsQueue (r.loopBitwiseAnd e t)
  loopBitwiseXor : ∀ e t, KeepsQueue (r.loopBitwiseXor e t)
  loopBitwiseOr : ∀ e t, KeepsQueue (r.loopBitwiseOr e t)
  loopLogicalAnd : ∀ e t, KeepsQueue (r.loopLogicalAnd e t)
  loopLogicalOr : ∀ e t, KeepsQueue (r.loopLogicalOr e t)
  loopComma : ∀ e t, KeepsQueue (r.loopComma e t)
  ParseDeclSpec : ∀ b, KeepsQueue (r.ParseDeclSpec b)
  loopDeclSpec : ∀ b v, KeepsQueue (r.loopDeclSpec b v)
  loopEnumerator : ∀ t v, KeepsQueue (r.loopEnumerator t v)
  loopStructDecl : ∀ t, KeepsQueue (r.loopStructDecl t)
  loopQual : ∀ q, KeepsQueue (r.loopQual q)
  loopPointer : ∀ a b, KeepsQueue (r.loopPointer a b)
  loopParamList : ∀ p, KeepsQueue (r.loopParamList p)
  ParseDeclarator : ∀ t, KeepsQueue (r.ParseDeclarator t)
  ParseArrayFuncDeclarator : ∀ t, KeepsQueue (r.ParseArrayFuncDeclarator t)
  ParseInitializer : ∀ o, KeepsQueue (r.ParseInitializer o)
  loopArrayInitializer : ∀ a v, KeepsQueue (r.loopArrayInitializer a v)
  loopDecl : ∀ t a b l, KeepsQueue (r.loopDecl t a b l)
  ParseStmt : KeepsQueue r.ParseStmt
  loopCompoundStmt : ∀ l, KeepsQueue (r.loopCompoundStmt l)
  loopTranslationUnit : KeepsQueue r.loopTranslationUnit

/-! ## The bodies of the loops and of `switch` -/

/-- The part of `ParseWhileStmt` that reads the condition (parser.cc
1908-1916). -/
def ParseWhileStmt.header (r : Rec) : PM Expr := do
  Expect1 (.chr '(')
  let tok ← Peek
  let condExpr ← ParseExpr r
  Expect1 (.chr ')')
  let ty ← Ty condExpr
  let scalar ← IsScalar ty
  ErrorIf (!scalar) tok.coord "scalar expression expected" []
  pure condExpr

/-- The state in which `ParseWhileStmt` parses the body of the loop, for the
state `s` after the condition: the labels `s.nextId` (cond) and
`s.nextId + 1` (end) and the jump `s.nextId + 2` to the end label are
allocated, and the destinations of `break` and `continue` are the end label
and the condition label. -/
def whileBodyState (s : Parser) : Parser :=
  { s with nextId := s.nextId + 3,
           jumps := (s.nextId + 2, some (s.nextId + 1)) :: s.jumps,
           breakDest := some (s.nextId + 1),
           continueDest := some s.nextId }

/-- The part of `ParseWhileStmt` after the body (parser.cc 1928-1934), for
the two labels, the jump to the end label, the condition, the backup of the
destinations and the body. -/
def ParseWhileStmt.rest (condLabel endLabel gotoEndStmt : Nat) (condExpr : Expr)
    (backup : Option Nat × Option Nat) (bodyStmt : Stmt) : PM Stmt := do
  EXIT_LOOP_BODY backup
  let gotoCond ← NewJumpStmt (some condLabel)
  pure (NewCompoundStmt [.labelStmt condLabel,
    NewIfStmt condExpr .null (.jumpStmt gotoEndStmt), bodyStmt, .jumpStmt gotoCond,
    .labelStmt endLabel])

/-- The state in which `ParseForStmt` parses the body of the loop when the
header has no condition: the three labels are allocated, and the
destinations of `break` and `continue` are the end label and the condition
label. -/
def forBodyStateNoCond (s : Parser) : Parser :=
  { s with nextId := s.nextId + 3,
           breakDest := some (s.nextId + 2),
           continueDest := some s.nextId }

/-- What `ParseSwitchStmt` has made before it parses the body: the token of
the controlling expression, the temporary, the assignment to it, the two
labels and the jump to the tests. -/
structure SwitchHead where
  tok : Token
  t : Expr
  assign : Stmt
  testLabel : Nat
  endLabel : Nat
  gotoTest : Nat

/-- The part of `ParseSwitchStmt` before the body (parser.cc 1999-2014). -/
def ParseSwitchStmt.header (r : Rec) : PM SwitchHead := do
  Expect1 (.chr '(')
  let tok ← Peek
  let expr ← ParseExpr r
  Expect1 (.chr ')')
  let ty ← Ty expr
  let isInt ← IsInteger ty
  ErrorIf (!isInt) tok.coord "switch quantity not an integer" []
  let testLabel ← NewLabelStmt
  let endLabel ← NewLabelStmt
  let t := NewTempVar ty
  let assign ← NewBinaryOp tok (.chr '=') t expr
  let gotoTest ← NewJumpStmt (some testLabel)
  pure { tok := tok, t := t, assign := assign.toStmt, testLabel := testLabel,
         endLabel := endLabel, gotoTest := gotoTest }

/-- The state in which `ParseSwitchStmt` parses the body, for the state `s`
after the header: the destination of `break` is the end label of the
switch, the list of case labels is new and empty, and the destination of
`continue` is the one of the call. -/
def switchBodyState (endLabel : Nat) (s : Parser) : Parser :=
  { s with breakDest := some endLabel, caseLabels := some [] }

/-- The part of `ParseSwitchStmt` after the body (parser.cc 2021-2038). -/
def ParseSwitchStmt.rest (h : SwitchHead) (backup : SwitchBackup) (bodyStmt : Stmt) :
    PM Stmt := do
  let s ← getP
  let tests ← ParseSwitchStmt.tests h.tok h.t (s.caseLabels.getD [])
  let s ← getP
  let gotoDefault ← NewJumpStmt s.defaultLabel
  EXIT_SWITCH_BODY backup
  pure (NewCompoundStmt ([h.assign, .jumpStmt h.gotoTest, bodyStmt, .labelStmt h.testLabel]
    ++ tests ++ [.jumpStmt gotoDefault, .labelStmt h.endLabel]))

/-- The statement `while ( 1 ) break x ;`. -/
def toksBreakNoSemicolon : List Token :=
  [K .WHILE "while", P '(', N "1", P ')', K .BREAK "break", I "x", P ';']

/-- The statement `while ( 1 ) continue x ;`. -/
def toksContinueNoSemicolon : List Token :=
  [K .WHILE "while", P '(', N "1", P ')', K .CONTINUE "continue", I "x", P ';']

/-- The state in which the body of the loop of `toks` is parsed, after the
keyword that starts the body has been read: the state of the call of
`ParseBreakStmt` or `ParseContinueStmt` in the two statements above. -/
def whileJumpState (toks : List Token) : Parser :=
  (Next (whileBodyState (ParseWhileStmt.header (parser 39) (stateAtPos toks 1)).state)).state

/-- The diagnostic of `Expect(';')` at the token `tok`. -/
def semicolonExpected (tok : Token) : Diag :=
  { coord := tok.coord, fmt := "'%s' expected, but got '%s'", args := [";", tok.str] }

/-! ## The parts of `ParseFuncDef` around the body -/

/-- The part of `ParseFuncDef` before the body (parser.cc 2169-2177): the
type of the declared function. -/
def ParseFuncDef.header (r : Rec) : PM CType := do
  EnterFunc
  let spec ← ParseDeclSpec r false
  let ident ← ParseDirectDeclarator r spec.type spec.storageSpec spec.funcSpec
  let type := ident.ty
  Expect1 (.chr '{')
  pure type

/-- The part of `ParseFuncDef` after `ExitFunc()` (parser.cc 2182-2183). -/
def ParseFuncDef.finish (type : CType) (stmt : Stmt) : PM Stmt := do
  let isFunc ← ToFuncType type
  assert isFunc
  pure (NewFuncDef type stmt)

/-- The diagnostic of `ParseLabelStmt` for a label that is already defined
(parser.cc 2133). -/
def redefinitionOfLabel (label : Token) : Diag :=
  { coord := label.coord, fmt := "redefinition of label '%s'", args := [label.str] }

/-- The program `void f(void) { goto a; goto c; a: ; goto a; }`. -/
def toksGotoFunc : List Token :=
  [K .VOID "void", I "f", P '(', K .VOID "void", P ')', P '{',
   K .GOTO "goto", I "a", P ';', K .GOTO "goto", I "c", P ';',
   I "a", P ':', P ';', K .GOTO "goto", I "a", P ';', P '}']

/-- The state after the header of the function definition `toksGotoFunc`. -/
def gotoFuncHeader : Parser := (ParseFuncDef.header (parser 40) (stateAt toksGotoFunc)).state

/-- The state after the body of the function definition `toksGotoFunc`, in
which `ParseFuncDef` calls `ExitFunc`. -/
def gotoFuncBody : Parser := (ParseCompoundStmt (parser 40) gotoFuncHeader).state

/-- The state in which the parse of the function definition `toksGotoFunc`
returns. -/
def gotoFuncEnd : Parser := (ParseFuncDef (parser 40) (stateAt toksGotoFunc)).state

/-! # Theorems -/

/-! ## Execution lemmas -/

theorem run_bind {α β : Type} (m : PM α) (f : α → PM β) (s : Parser) :
    (m >>= f) s = (m s).andThen f := rfl

theorem run_pure {α : Type} (a : α) (s : Parser) : (pure a : PM α) s = .ok a s := rfl

theorem run_pure2 {α : Type} (a : α) (s : Parser) : (PM.pure a : PM α) s = .ok a s := rfl

theorem andThen_ok {α β : Type} (a : α) (s : Parser) (f : α → Parser → Res β) :
    (Res.ok a s).andThen f = f a s := rfl

theorem andThen_fail {α β : Type} (e : Fail) (s : Parser) (f : α → Parser → Res β) :
    (Res.fail e s : Res α).andThen f = .fail e s := rfl

theorem Error_run (c : Nat) (f : String) (a : List String) (s : Parser) :
    Error c f a s =
      .ok () { s with errors := s.errors ++ [{ coord := c, fmt := f, args := a }] } := rfl

theorem ErrorIf_run (b : Bool) (c : Nat) (f : String) (a : List String) (s : Parser) :
    ErrorIf b c f a s =
      .ok () { s with errors :=
        s.errors ++ if b then [{ coord := c, fmt := f, args := a }] else [] } := by
  cases b
  · simp only [ErrorIf, run_pure2, List.append_nil, Bool.false_eq_true, if_false]
  · rfl

theorem getP_run (s : Parser) : getP s = .ok s s := rfl

theorem derefType_ok {type : CType} (hty : type ≠ .null) (s : Parser) :
    derefType type s = .ok () s := by
  cases type <;> simp at hty <;> rfl

theorem typeEq_run {a b : CType} (ha : a ≠ .null) (hb : b ≠ .null) (s : Parser) :
    typeEq a b s = .ok (CType.beq a b) s := by
  simp only [typeEq, run_bind, derefType_ok ha, derefType_ok hb, andThen_ok, run_pure]

theorem curScope_cons {s : Parser} {sc : Scope} {rest : List Scope}
    (h : s.curScope = sc :: rest) : curScope s = .ok sc s := by
  simp only [curScope, h]

theorem FindInCurScope_run (name : String) (s : Parser) (sc : Scope) (rest : List Scope)
    (hsc : s.curScope = sc :: rest) :
    FindInCurScope name s = .ok (sc.FindInCurScope name) s := by
  simp only [FindInCurScope, run_bind, curScope_cons hsc, andThen_ok, run_pure]

theorem ScopeKind_run (s : Parser) (sc : Scope) (rest : List Scope)
    (hsc : s.curScope = sc :: rest) : ScopeKind s = .ok sc.kind s := by
  simp only [ScopeKind, run_bind, curScope_cons hsc, andThen_ok, run_pure]

theorem Find_run (name : String) (s : Parser) (sc : Scope) (rest : List Scope)
    (hsc : s.curScope = sc :: rest) :
    Find name s = .ok (findChain (sc :: rest) name) s := by
  simp only [Find, hsc]

theorem findChain_none_head {sc : Scope} {rest : List Scope} {name : String}
    (h : findChain (sc :: rest) name = none) : sc.FindInCurScope name = none := by
  unfold findChain at h
  split at h
  · cases h
  · assumption

/-! ## `ProcessDeclarator` -/

theorem declChecks_run (tok : Token) (type : CType) (storageSpec : Nat) (s : Parser)
    (sc : Scope) (rest : List Scope) (hsc : s.curScope = sc :: rest) (hty : type ≠ .null) :
    declChecks tok type storageSpec s =
      .ok () { s with errors := s.errors ++
        declCheckDiags s.cells s.structs sc.kind tok type storageSpec } := by
  simp only [declChecks, ToVoidType, ToFuncType, Complete, ScopeKind, run_bind, derefType_ok hty,
    andThen_ok, run_pure, ErrorIf_run, getP_run, declCheckDiags, List.append_assoc]
  cases hf : type.isFunc
  · simp only [Bool.false_eq_true, if_false, run_pure, List.append_nil]
  · simp only [if_true, run_bind]
    rw [curScope_cons (by exact hsc)]
    simp only [andThen_ok, run_pure, ErrorIf_run, List.append_assoc]

theorem redeclare_run (tok : Token) (type : CType) (linkage : Linkage) (ident : Identifier)
    (s : Parser) (hty : type ≠ .null) (hity : ident.ty ≠ .null) :
    redeclare tok type linkage ident s =
      .ok ident { s with errors := s.errors ++ redeclareDiags tok type linkage ident } := by
  simp only [redeclare, run_bind, typeEq_run hty hity, andThen_ok, ErrorIf_run, redeclareDiags]
  cases linkage <;>
    simp only [beq_self_eq_true, if_true, Error_run, ErrorIf_run, andThen_ok, run_pure, run_bind,
      List.append_assoc, reduceCtorEq, beq_iff_eq, if_false]

theorem crossCheck_none (tok : Token) (type : CType) (linkage : Linkage) (s : Parser)
    (sc : Scope) (rest : List Scope) (hsc : s.curScope = sc :: rest)
    (hfind : findChain (sc :: rest) tok.str = none)
    (hext : s.externalSymbols.FindInCurScope tok.str = none) :
    crossCheck tok type linkage s = .ok (linkage, none) s := by
  by_cases hL : (linkage == Linkage.L_EXTERNAL) = true
  · simp only [crossCheck, hL, if_true, run_bind, Find, hsc, hfind, andThen_ok, ExternalFind,
      hext, run_pure]
  · simp only [crossCheck, hL, if_false, run_pure, Bool.false_eq_true]

theorem crossCheck_found (tok : Token) (type : CType) (s : Parser)
    (sc : Scope) (rest : List Scope) (prior : Identifier) (hsc : s.curScope = sc :: rest)
    (hfind : findChain (sc :: rest) tok.str = some prior)
    (hty : type ≠ .null) (hpty : prior.ty ≠ .null) :
    crossCheck tok type .L_EXTERNAL s =
      .ok (if prior.linkage != .L_NONE then prior.linkage else .L_EXTERNAL, some prior)
        { s with errors := s.errors ++
            if !(CType.beq type prior.ty) then
              [{ coord := tok.coord, fmt := "conflicting types for '%s'", args := [tok.str] }]
            else [] } := by
  simp only [crossCheck, beq_self_eq_true, if_true, run_bind, Find_run tok.str s sc rest hsc, hfind,
    andThen_ok, typeEq_run hty hpty, ErrorIf_run]
  cases prior.linkage <;> rfl

theorem crossCheck_external (tok : Token) (type : CType) (s : Parser)
    (sc : Scope) (rest : List Scope) (ext : Identifier) (hsc : s.curScope = sc :: rest)
    (hfind : findChain (sc :: rest) tok.str = none)
    (hext : s.externalSymbols.FindInCurScope tok.str = some ext)
    (hty : type ≠ .null) (hpty : ext.ty ≠ .null) :
    crossCheck tok type .L_EXTERNAL s =
      .ok (.L_EXTERNAL, some ext)
        { s with errors := s.errors ++
            if !(CType.beq type ext.ty) then
              [{ coord := tok.coord, fmt := "conflicting types for '%s'", args := [tok.str] }]
            else [] } := by
  simp only [crossCheck, beq_self_eq_true, if_true, run_bind, Find_run tok.str s sc rest hsc, hfind,
    andThen_ok, ExternalFind, hext, typeEq_run hty hpty, ErrorIf_run, run_pure]

theorem declLinkage_table (kind : ScopeType) (storageSpec : Nat) (isFunc : Bool) :
    declLinkage kind storageSpec isFunc =
      (match kind with
       | .S_PROTO => .L_NONE
       | .S_FILE => if hasBit storageSpec S_STATIC then .L_INTERNAL else .L_EXTERNAL
       | .S_BLOCK =>
         if hasBit storageSpec S_EXTERN then .L_EXTERNAL
         else if isFunc then .L_EXTERNAL else .L_NONE) := by
  cases kind <;> cases h : hasBit storageSpec S_EXTERN <;> cases isFunc <;>
    simp [declLinkage, h]

theorem newDecl_run (name : String) (type : CType) (storageSpec : Nat) (L : Linkage)
    (extIdent : Option Identifier) (s : Parser) (sc : Scope) (rest : List Scope)
    (hsc : s.curScope = sc :: rest) :
    ∃ ident s',
      (do
        let sc ← curScope
        let ret ← (if type.isFunc then NewIdentifier type sc.id L
                   else NewObject type sc.id storageSpec L 0)
        Insert name ret
        if L == .L_EXTERNAL && extIdent.isNone then
          ExternalInsert name ret
        else pure ()
        pure ret : PM Identifier) s = .ok ident s' ∧
      ident = { id := s.nextId, ty := type, scope := sc.id, linkage := L,
                isObject := !type.isFunc, storage := if type.isFunc then 0 else storageSpec,
                offset := 0 } ∧
      s'.curScope = sc.Insert name ident :: rest ∧
      s'.errors = s.errors ∧
      s'.externalSymbols =
        (if L == .L_EXTERNAL && extIdent.isNone then s.externalSymbols.Insert name ident
         else s.externalSymbols) := by
  cases hf : type.isFunc <;> cases hx : (L == Linkage.L_EXTERNAL && extIdent.isNone) <;>
    simp only [Bool.false_eq_true, if_false, if_true, run_bind, NewObject, NewIdentifier, freshId,
      andThen_ok, run_pure, Insert, ExternalInsert, modifyP, curScope, hsc, Bool.not_false,
      Bool.not_true] <;>
    exact ⟨_, _, rfl, rfl, rfl, rfl, rfl⟩

/-- C1: for a name with no prior declaration visible in any enclosing scope
or in the external-symbol table, and a storage class other than typedef,
`ProcessDeclarator` returns a new identifier, bound to the name in the
current scope, whose linkage is: none in a prototype scope; internal at
file scope with `static`; external at file scope otherwise; external in a
block scope with `extern`; external in a block scope without `extern` when
the type is a function type; none in a block scope otherwise. -/
theorem ProcessDeclarator_new_linkage (s : Parser) (tok : Token) (type : CType)
    (storageSpec funcSpec : Nat) (sc : Scope) (rest : List Scope)
    (hsc : s.curScope = sc :: rest) (hty : type ≠ .null)
    (hst : hasBit storageSpec S_TYPEDEF = false)
    (hfind : findChain s.curScope tok.str = none)
    (hext : s.externalSymbols.FindInCurScope tok.str = none) :
    ∃ ident s', ProcessDeclarator (some tok) type storageSpec funcSpec s = .ok ident s' ∧
      ident.id = s.nextId ∧ ident.ty = type ∧
      s'.curScope = sc.Insert tok.str ident :: rest ∧
      ident.linkage =
        (match sc.kind with
         | .S_PROTO => .L_NONE
         | .S_FILE => if hasBit storageSpec S_STATIC then .L_INTERNAL else .L_EXTERNAL
         | .S_BLOCK =>
           if hasBit storageSpec S_EXTERN then .L_EXTERNAL
           else if type.isFunc then .L_EXTERNAL else .L_NONE) := by
  rw [hsc] at hfind
  have hcur := findChain_none_head hfind
  rw [← declLinkage_table]
  generalize hL : declLinkage sc.kind storageSpec type.isFunc = L
  obtain ⟨s1, h1, hs1⟩ : ∃ s1, declChecks tok type storageSpec s = .ok () s1 ∧
      s1 = { s with errors := s.errors ++
               declCheckDiags s.cells s.structs sc.kind tok type storageSpec } :=
    ⟨_, declChecks_run tok type storageSpec s sc rest hsc hty, rfl⟩
  have hsc1 : s1.curScope = sc :: rest := by rw [hs1]; exact hsc
  have hext1 : s1.externalSymbols.FindInCurScope tok.str = none := by rw [hs1]; exact hext
  have hid1 : s1.nextId = s.nextId := by rw [hs1]
  obtain ⟨ident, s', hrun, hident, hcs, -, -⟩ :=
    newDecl_run tok.str type storageSpec L none s1 sc rest hsc1
  refine ⟨ident, s', ?_, ?_, ?_, hcs, ?_⟩
  · simp only [ProcessDeclarator, hst, Bool.false_eq_true, if_false, run_bind, h1, andThen_ok,
      ScopeKind_run s1 sc rest hsc1, FindInCurScope_run tok.str s1 sc rest hsc1, hcur, hL,
      crossCheck_none tok type L s1 sc rest hsc1 hfind hext1]
    exact hrun
  · rw [hident, hid1]
  · rw [hident]
  · rw [hident]

/-- Witness of C1: the first declaration `static int x;` at file scope. -/
theorem ProcessDeclarator_new_linkage_witness :
    ∃ ident s', ProcessDeclarator (some tokX) tInt S_STATIC 0 (Parser.init []) = .ok ident s' ∧
      ident.id = (Parser.init []).nextId ∧ ident.ty = tInt ∧
      s'.curScope =
        Scope.Insert { id := 0, kind := .S_FILE, ordinary := [], tags := [] } tokX.str ident :: [] ∧
      ident.linkage =
        (match ScopeType.S_FILE with
         | .S_PROTO => .L_NONE
         | .S_FILE => if hasBit S_STATIC S_STATIC then .L_INTERNAL else .L_EXTERNAL
         | .S_BLOCK =>
           if hasBit S_STATIC S_EXTERN then .L_EXTERNAL
           else if tInt.isFunc then .L_EXTERNAL else .L_NONE) :=
  ProcessDeclarator_new_linkage (Parser.init []) tokX tInt S_STATIC 0
    { id := 0, kind := .S_FILE, ordinary := [], tags := [] } [] rfl (by intro h; cases h)
    (by decide) rfl rfl

theorem redeclareDiags_ne_nil (tok : Token) (type : CType) (linkage : Linkage)
    (ident : Identifier) :
    redeclareDiags tok type linkage ident ≠ [] ↔
      (CType.beq type ident.ty = false ∨ linkage = .L_NONE ∨ ident.linkage = .L_NONE ∨
        (linkage = .L_INTERNAL ∧ ident.linkage ≠ .L_INTERNAL)) := by
  cases hb : CType.beq type ident.ty <;> cases linkage <;> cases hl : ident.linkage <;>
    simp [redeclareDiags, hb, hl]

/-- C2 (amended): when `ProcessDeclarator` (non-typedef path) declares a name
that already has an entry `prior` in the current scope, it returns `prior`,
binds nothing, allocates nothing, and, after the diagnostics of the checks
for a void or incomplete type and for `static` on a block-scope function,
it reports a diagnostic if and only if the two types are not equal, or the
new linkage is none, or the existing entry has no linkage, or the new
linkage is internal while the existing linkage is not internal. -/
theorem ProcessDeclarator_redeclaration (s : Parser) (tok : Token) (type : CType)
    (storageSpec funcSpec : Nat) (sc : Scope) (rest : List Scope) (prior : Identifier)
    (hsc : s.curScope = sc :: rest) (hty : type ≠ .null) (hpty : prior.ty ≠ .null)
    (hst : hasBit storageSpec S_TYPEDEF = false)
    (hcur : sc.FindInCurScope tok.str = some prior) :
    ∃ s1 s' d, declChecks tok type storageSpec s = .ok () s1 ∧
      ProcessDeclarator (some tok) type storageSpec funcSpec s = .ok prior s' ∧
      s'.errors = s1.errors ++ d ∧
      (d ≠ [] ↔
        (CType.beq type prior.ty = false ∨
          declLinkage sc.kind storageSpec type.isFunc = .L_NONE ∨
          prior.linkage = .L_NONE ∨
          (declLinkage sc.kind storageSpec type.isFunc = .L_INTERNAL ∧
            prior.linkage ≠ .L_INTERNAL))) ∧
      s'.curScope = s.curScope ∧ s'.externalSymbols = s.externalSymbols ∧
      s'.nextId = s.nextId := by
  obtain ⟨s1, h1, hs1⟩ : ∃ s1, declChecks tok type storageSpec s = .ok () s1 ∧
      s1 = { s with errors := s.errors ++
               declCheckDiags s.cells s.structs sc.kind tok type storageSpec } :=
    ⟨_, declChecks_run tok type storageSpec s sc rest hsc hty, rfl⟩
  have hsc1 : s1.curScope = sc :: rest := by rw [hs1]; exact hsc
  have hrun : ProcessDeclarator (some tok) type storageSpec funcSpec s =
      .ok prior { s1 with errors := s1.errors ++
                    redeclareDiags tok type (declLinkage sc.kind storageSpec type.isFunc) prior } := by
    simp only [ProcessDeclarator, hst, Bool.false_eq_true, if_false, run_bind, h1, andThen_ok,
      ScopeKind_run s1 sc rest hsc1, FindInCurScope_run tok.str s1 sc rest hsc1, hcur,
      redeclare_run tok type _ prior s1 hty hpty]
  exact ⟨s1, _, _, h1, hrun, rfl, redeclareDiags_ne_nil _ _ _ _, by rw [hs1], by rw [hs1],
    by rw [hs1]⟩

/-- Witness of C2 (amended): `int x;` after `extern int x;` in one block. -/
theorem ProcessDeclarator_redeclaration_witness :
    ∃ s1 s' d, declChecks tokX tInt 0 stateExternInBlock = .ok () s1 ∧
      ProcessDeclarator (some tokX) tInt 0 0 stateExternInBlock =
        .ok { id := 3, ty := tInt, scope := 2, linkage := .L_EXTERNAL, isObject := true,
              storage := S_EXTERN, offset := 0 } s' ∧
      s'.errors = s1.errors ++ d ∧
      (d ≠ [] ↔
        (CType.beq tInt tInt = false ∨
          declLinkage .S_BLOCK 0 tInt.isFunc = .L_NONE ∨
          Linkage.L_EXTERNAL = .L_NONE ∨
          (declLinkage .S_BLOCK 0 tInt.isFunc = .L_INTERNAL ∧
            Linkage.L_EXTERNAL ≠ .L_INTERNAL))) ∧
      s'.curScope = stateExternInBlock.curScope ∧
      s'.externalSymbols = stateExternInBlock.externalSymbols ∧
      s'.nextId = stateExternInBlock.nextId :=
  ProcessDeclarator_redeclaration stateExternInBlock tokX tInt 0 0
    { id := 2, kind := .S_BLOCK,
      ordinary := [("x", { id := 3, ty := tInt, scope := 2, linkage := .L_EXTERNAL,
                           isObject := true, storage := S_EXTERN, offset := 0 })],
      tags := [] }
    [{ id := 0, kind := .S_FILE, ordinary := [], tags := [] }]
    { id := 3, ty := tInt, scope := 2, linkage := .L_EXTERNAL, isObject := true,
      storage := S_EXTERN, offset := 0 }
    rfl (by intro h; cases h) (by intro h; cases h) (by decide) rfl

/-- C2 as stated fails: in a block that holds `extern int x;` the
declaration `int x;` is diagnosed ("redeclaration of 'x' with no linkage"),
although the two types are equal, the existing entry has external linkage
and the new linkage is none, not internal. -/
theorem ProcessDeclarator_redeclaration_counterexample :
    (ProcessDeclarator (some tokX) tInt 0 0 stateExternInBlock).state.errors =
        stateExternInBlock.errors ++
          [{ coord := 7, fmt := "redeclaration of '%s' with no linkage", args := ["x"] }] ∧
      (stateExternInBlock.curScope.head?.bind (·.FindInCurScope "x")).map (·.linkage) =
        some .L_EXTERNAL ∧
      (stateExternInBlock.curScope.head?.bind (·.FindInCurScope "x")).map
        (fun p => CType.beq tInt p.ty) = some true ∧
      stateExternInBlock.curScope.head?.map (·.kind) = some .S_BLOCK ∧
      declLinkage .S_BLOCK 0 tInt.isFunc = .L_NONE := by
  decide

/-- C3 (amended): every identifier that `ProcessDeclarator` creates in a
block scope for a declaration with `extern` storage has the linkage of the
declaration of the same name that is visible in the enclosing scopes when
that declaration has internal or external linkage, and external linkage
otherwise (no visible declaration, or a visible one with no linkage). -/
theorem ProcessDeclarator_block_extern_linkage (s : Parser) (tok : Token) (type : CType)
    (storageSpec funcSpec : Nat) (sc : Scope) (rest : List Scope)
    (hsc : s.curScope = sc :: rest) (hkind : sc.kind = .S_BLOCK) (hty : type ≠ .null)
    (hst : hasBit storageSpec S_TYPEDEF = false) (hex : hasBit storageSpec S_EXTERN = true)
    (hcur : sc.FindInCurScope tok.str = none)
    (hvis : ∀ p, findChain rest tok.str = some p → p.ty ≠ .null)
    (hext : ∀ p, s.externalSymbols.FindInCurScope tok.str = some p → p.ty ≠ .null) :
    ∃ ident s', ProcessDeclarator (some tok) type storageSpec funcSpec s = .ok ident s' ∧
      ident.id = s.nextId ∧
      s'.curScope = sc.Insert tok.str ident :: rest ∧
      ident.linkage =
        (match findChain rest tok.str with
         | some p => if p.linkage = .L_NONE then .L_EXTERNAL else p.linkage
         | none => .L_EXTERNAL) := by
  have hL : declLinkage sc.kind storageSpec type.isFunc = .L_EXTERNAL := by
    rw [declLinkage_table, hkind]
    simp only [hex, if_true]
  obtain ⟨s1, h1, hs1⟩ : ∃ s1, declChecks tok type storageSpec s = .ok () s1 ∧
      s1 = { s with errors := s.errors ++
               declCheckDiags s.cells s.structs sc.kind tok type storageSpec } :=
    ⟨_, declChecks_run tok type storageSpec s sc rest hsc hty, rfl⟩
  have hsc1 : s1.curScope = sc :: rest := by rw [hs1]; exact hsc
  have hid1 : s1.nextId = s.nextId := by rw [hs1]
  have hext1 : s1.externalSymbols = s.externalSymbols := by rw [hs1]
  have hchain : findChain (sc :: rest) tok.str = findChain rest tok.str := by
    simp only [findChain, hcur]
  have hstart : ProcessDeclarator (some tok) type storageSpec funcSpec s =
      (crossCheck tok type .L_EXTERNAL s1).andThen fun r =>
        (do
          let sc ← curScope
          let ret ← (if type.isFunc then NewIdentifier type sc.id r.1
                     else NewObject type sc.id storageSpec r.1 0)
          Insert tok.str ret
          if r.1 == .L_EXTERNAL && r.2.isNone then
            ExternalInsert tok.str ret
          else pure ()
          pure ret : PM Identifier) := by
    simp only [ProcessDeclarator, hst, Bool.false_eq_true, if_false, run_bind, h1, andThen_ok,
      ScopeKind_run s1 sc rest hsc1, FindInCurScope_run tok.str s1 sc rest hsc1, hcur, hL]
  rw [hstart]
  cases hf : findChain rest tok.str with
  | some p =>
    rw [crossCheck_found tok type s1 sc rest p hsc1 (by rw [hchain]; exact hf) hty (hvis p hf)]
    obtain ⟨ident, s', hrun, hident, hcs, -, -⟩ :=
      newDecl_run tok.str type storageSpec
        (if p.linkage != .L_NONE then p.linkage else .L_EXTERNAL) (some p)
        { s1 with errors := s1.errors ++
            if !(CType.beq type p.ty) then
              [{ coord := tok.coord, fmt := "conflicting types for '%s'", args := [tok.str] }]
            else [] }
        sc rest hsc1
    refine ⟨ident, s', hrun, ?_, hcs, ?_⟩
    · rw [hident]; exact hid1
    · rw [hident]
      cases hl : p.linkage <;> simp [hl]
  | none =>
    cases he : s.externalSymbols.FindInCurScope tok.str with
    | some e =>
      rw [crossCheck_external tok type s1 sc rest e hsc1 (by rw [hchain]; exact hf)
        (by rw [hext1]; exact he) hty (hext e he)]
      obtain ⟨ident, s', hrun, hident, hcs, -, -⟩ :=
        newDecl_run tok.str type storageSpec .L_EXTERNAL (some e)
          { s1 with errors := s1.errors ++
              if !(CType.beq type e.ty) then
                [{ coord := tok.coord, fmt := "conflicting types for '%s'", args := [tok.str] }]
              else [] }
          sc rest hsc1
      refine ⟨ident, s', hrun, ?_, hcs, ?_⟩
      · rw [hident]; exact hid1
      · rw [hident]
    | none =>
      rw [crossCheck_none tok type .L_EXTERNAL s1 sc rest hsc1 (by rw [hchain]; exact hf)
        (by rw [hext1]; exact he)]
      obtain ⟨ident, s', hrun, hident, hcs, -, -⟩ :=
        newDecl_run tok.str type storageSpec .L_EXTERNAL none s1 sc rest hsc1
      refine ⟨ident, s', hrun, ?_, hcs, ?_⟩
      · rw [hident]; exact hid1
      · rw [hident]

/-- Witness of C3 (amended): `extern int x;` in a block after the file-scope
`static int x;`. -/
theorem ProcessDeclarator_block_extern_linkage_witness :
    ∃ ident s', ProcessDeclarator (some tokX) tInt S_EXTERN 0 stateStaticThenBlock =
        .ok ident s' ∧
      ident.id = stateStaticThenBlock.nextId ∧
      s'.curScope =
        Scope.Insert { id := 3, kind := .S_BLOCK, ordinary := [], tags := [] } tokX.str ident ::
          [{ id := 0, kind := .S_FILE,
             ordinary := [("x", { id := 2, ty := tInt, scope := 0, linkage := .L_INTERNAL,
                                  isObject := true, storage := S_STATIC, offset := 0 })],
             tags := [] }] ∧
      ident.linkage =
        (match findChain
            [{ id := 0, kind := .S_FILE,
               ordinary := [("x", { id := 2, ty := tInt, scope := 0, linkage := .L_INTERNAL,
                                    isObject := true, storage := S_STATIC, offset := 0 })],
               tags := [] }] tokX.str with
         | some p => if p.linkage = .L_NONE then .L_EXTERNAL else p.linkage
         | none => .L_EXTERNAL) :=
  ProcessDeclarator_block_extern_linkage stateStaticThenBlock tokX tInt S_EXTERN 0
    { id := 3, kind := .S_BLOCK, ordinary := [], tags := [] }
    [{ id := 0, kind := .S_FILE,
       ordinary := [("x", { id := 2, ty := tInt, scope := 0, linkage := .L_INTERNAL,
                            isObject := true, storage := S_STATIC, offset := 0 })],
       tags := [] }]
    rfl rfl (by intro h; cases h) (by decide) (by decide) rfl
    (by intro p hp; cases hp; intro h; cases h)
    (by intro p hp; cases hp)

/-- C3 as stated fails: after the file-scope `static int x;`, the block-scope
declaration `extern int x;` creates a new identifier (the current scope, a
block scope, has no `x`) whose linkage is internal, not external. -/
theorem ProcessDeclarator_block_extern_counterexample :
    (ProcessDeclarator (some tokX) tInt S_EXTERN 0 stateStaticThenBlock).value?.map
        (fun i => (i.id, i.linkage)) = some (stateStaticThenBlock.nextId, .L_INTERNAL) ∧
      stateStaticThenBlock.curScope.head?.map (·.kind) = some .S_BLOCK ∧
      (stateStaticThenBlock.curScope.head?.bind (·.FindInCurScope "x")).isNone = true ∧
      hasBit S_EXTERN S_EXTERN = true := by
  decide

/-- C4, the code at the failing input `int n; void f(void) { float n; { extern
float n; } }`: when the innermost declaration is processed, the file scope
and the external-symbol table hold `n` with external linkage and type `int`,
the enclosing block holds a `float n` without linkage, and
`ProcessDeclarator` returns for `extern float n;` without reporting any
diagnostic. -/
theorem ProcessDeclarator_shadowed_extern_unchecked :
    stateShadowed.curScope.map (·.kind) = [.S_BLOCK, .S_BLOCK, .S_FILE] ∧
      (stateShadowed.curScope.getLast?.bind (·.FindInCurScope "n")).map
        (fun i => (i.linkage, CType.beq tFloat i.ty)) = some (.L_EXTERNAL, false) ∧
      (stateShadowed.externalSymbols.FindInCurScope "n").map
        (fun i => (i.linkage, CType.beq tFloat i.ty)) = some (.L_EXTERNAL, false) ∧
      (findChain stateShadowed.curScope "n").map
        (fun i => (i.linkage, CType.beq tFloat i.ty)) = some (.L_NONE, true) ∧
      stateShadowed.errors = [] ∧
      (ProcessDeclarator (some tokN) tFloat S_EXTERN 0 stateShadowed).failure? = none ∧
      (ProcessDeclarator (some tokN) tFloat S_EXTERN 0 stateShadowed).state.errors = [] := by
  decide

/-! ## Equality of types and syntax trees is decidable -/

theorem and_true_split {a b : Bool} (h : (a && b) = true) : a = true ∧ b = true := by
  cases a <;> cases b <;> simp at h ⊢

mutual
theorem CType_eq_of_beq : ∀ (a b : CType), CType.beq a b = true → a = b
  | .null, b, h => by
    cases b <;> first | rfl | exact Bool.noConfusion h
  | .void, b, h => by
    cases b <;> first | rfl | exact Bool.noConfusion h
  | .arithm t c, b, h => by
    cases b <;> first | exact Bool.noConfusion h | skip
    rename_i t2 c2
    have h0 : (t == t2 && c == c2) = true := h
    obtain ⟨g1, h2⟩ := and_true_split h0
    rw [beq_iff_eq.1 g1, beq_iff_eq.1 h2]
  | .pointer d q, b, h => by
    cases b <;> first | exact Bool.noConfusion h | skip
    rename_i d2 q2
    have h0 : (CType.beq d d2 && q == q2) = true := h
    obtain ⟨g1, h2⟩ := and_true_split h0
    rw [CType_eq_of_beq _ _ g1, beq_iff_eq.1 h2]
  | .array l d, b, h => by
    cases b <;> first | exact Bool.noConfusion h | skip
    rename_i l2 d2
    have h0 : (l == l2 && CType.beq d d2) = true := h
    obtain ⟨g1, h2⟩ := and_true_split h0
    rw [beq_iff_eq.1 g1, CType_eq_of_beq _ _ h2]
  | .func d f v ps, b, h => by
    cases b <;> first | exact Bool.noConfusion h | skip
    rename_i d2 f2 v2 ps2
    have h0 : (CType.beq d d2 && f == f2 && v == v2 && CType.beqList ps ps2) = true := h
    obtain ⟨g3, h4⟩ := and_true_split h0
    obtain ⟨g2, h3⟩ := and_true_split g3
    obtain ⟨g1, h2⟩ := and_true_split g2
    rw [CType_eq_of_beq _ _ g1, beq_iff_eq.1 h2, beq_iff_eq.1 h3, CType_eq_of_beqList _ _ h4]
  | .structUnion i, b, h => by
    cases b <;> first | exact Bool.noConfusion h | skip
    rename_i i2
    have h0 : (i == i2) = true := h
    rw [beq_iff_eq.1 h0]
theorem CType_eq_of_beqList : ∀ (a b : List CType), CType.beqList a b = true → a = b
  | [], b, h => by
    cases b <;> first | rfl | exact Bool.noConfusion h
  | x :: xs, b, h => by
    cases b <;> first | exact Bool.noConfusion h | skip
    rename_i y ys
    have h0 : (CType.beq x y && CType.beqList xs ys) = true := h
    obtain ⟨h1, h2⟩ := and_true_split h0
    rw [CType_eq_of_beq _ _ h1, CType_eq_of_beqList _ _ h2]
end

mutual
theorem CType_beq_refl : ∀ (a : CType), CType.beq a a = true
  | .null => rfl
  | .void => rfl
  | .arithm t c => by
    show (t == t && c == c) = true
    simp only [beq_self_eq_true, Bool.and_self]
  | .pointer d q => by
    show (CType.beq d d && q == q) = true
    simp only [CType_beq_refl d, beq_self_eq_true, Bool.and_self]
  | .array l d => by
    show (l == l && CType.beq d d) = true
    simp only [beq_self_eq_true, CType_beq_refl d, Bool.and_self]
  | .func d f v ps => by
    show (CType.beq d d && f == f && v == v && CType.beqList ps ps) = true
    simp only [CType_beq_refl d, beq_self_eq_true, CType_beqList_refl ps, Bool.and_self]
  | .structUnion i => by
    show (i == i) = true
    simp only [beq_self_eq_true, Bool.and_self]
theorem CType_beqList_refl : ∀ (a : List CType), CType.beqList a a = true
  | [] => rfl
  | x :: xs => by
    show (CType.beq x x && CType.beqList xs xs) = true
    simp only [CType_beq_refl x, CType_beqList_refl xs, Bool.and_self]
end

instance : DecidableEq CType := fun a b =>
  if h : CType.beq a b = true then isTrue (CType_eq_of_beq a b h)
  else isFalse (fun e => h (e ▸ CType_beq_refl a))

theorem Identifier_eq_of_beq (a b : Identifier) (h : Identifier.beq a b = true) : a = b := by
  cases a; cases b
  simp only [Identifier.beq, Bool.and_eq_true, beq_iff_eq] at h
  obtain ⟨⟨⟨⟨⟨⟨h1, h2⟩, h3⟩, h4⟩, h5⟩, h6⟩, h7⟩ := h
  simp only [Identifier.mk.injEq]
  exact ⟨h1, CType_eq_of_beq _ _ h2, h3, h4, h5, h6, h7⟩

theorem Identifier_beq_refl (a : Identifier) : Identifier.beq a a = true := by
  simp only [Identifier.beq, CType_beq_refl, beq_self_eq_true, Bool.and_self]

instance : DecidableEq Identifier := fun a b =>
  if h : Identifier.beq a b = true then isTrue (Identifier_eq_of_beq a b h)
  else isFalse (fun e => h (e ▸ Identifier_beq_refl a))

mutual
theorem Expr_eq_of_beq : ∀ (a b : Expr), Expr.beq a b = true → a = b
  | .null, b, h => by
    cases b <;> first | rfl | exact Bool.noConfusion h
  | .binaryOp o l r t, b, h => by
    cases b <;> first | exact Bool.noConfusion h | skip
    rename_i o2 l2 r2 t2
    have h0 : (o == o2 && Expr.beq l l2 && Expr.beq r r2 && CType.beq t t2) = true := h
    obtain ⟨g3, h4⟩ := and_true_split h0
    obtain ⟨g2, h3⟩ := and_true_split g3
    obtain ⟨g1, h2⟩ := and_true_split g2
    rw [beq_iff_eq.1 g1, Expr_eq_of_beq _ _ h2, Expr_eq_of_beq _ _ h3, CType_eq_of_beq _ _ h4]
  | .unaryOp o e t, b, h => by
    cases b <;> first | exact Bool.noConfusion h | skip
    rename_i o2 e2 t2
    have h0 : (o == o2 && Expr.beq e e2 && CType.beq t t2) = true := h
    obtain ⟨g2, h3⟩ := and_true_split h0
    obtain ⟨g1, h2⟩ := and_true_split g2
    rw [beq_iff_eq.1 g1, Expr_eq_of_beq _ _ h2, CType_eq_of_beq _ _ h3]
  | .conditionalOp c x y t, b, h => by
    cases b <;> first | exact Bool.noConfusion h | skip
    rename_i c2 x2 y2 t2
    have h0 : (Expr.beq c c2 && Expr.beq x x2 && Expr.beq y y2 && CType.beq t t2) = true := h
    obtain ⟨g3, h4⟩ := and_true_split h0
    obtain ⟨g2, h3⟩ := and_true_split g3
    obtain ⟨g1, h2⟩ := and_true_split g2
    rw [Expr_eq_of_beq _ _ g1, Expr_eq_of_beq _ _ h2, Expr_eq_of_beq _ _ h3, CType_eq_of_beq _ _ h4]
  | .funcCall d as t, b, h => by
    cases b <;> first | exact Bool.noConfusion h | skip
    rename_i d2 as2 t2
    have h0 : (Expr.beq d d2 && Expr.beqList as as2 && CType.beq t t2) = true := h
    obtain ⟨g2, h3⟩ := and_true_split h0
    obtain ⟨g1, h2⟩ := and_true_split g2
    rw [Expr_eq_of_beq _ _ g1, Expr_eq_of_beqList _ _ h2, CType_eq_of_beq _ _ h3]
  | .identifier i, b, h => by
    cases b <;> first | exact Bool.noConfusion h | skip
    rename_i i2
    have h0 : (Identifier.beq i i2) = true := h
    rw [Identifier_eq_of_beq _ _ h0]
  | .constant t v, b, h => by
    cases b <;> first | exact Bool.noConfusion h | skip
    rename_i t2 v2
    have h0 : (CType.beq t t2 && v == v2) = true := h
    obtain ⟨g1, h2⟩ := and_true_split h0
    rw [CType_eq_of_beq _ _ g1, beq_iff_eq.1 h2]
  | .tempVar t, b, h => by
    cases b <;> first | exact Bool.noConfusion h | skip
    rename_i t2
    have h0 : (CType.beq t t2) = true := h
    rw [CType_eq_of_beq _ _ h0]
theorem Expr_eq_of_beqList : ∀ (a b : List Expr), Expr.beqList a b = true → a = b
  | [], b, h => by
    cases b <;> first | rfl | exact Bool.noConfusion h
  | x :: xs, b, h => by
    cases b <;> first | exact Bool.noConfusion h | skip
    rename_i y ys
    have h0 : (Expr.beq x y && Expr.beqList xs ys) = true := h
    obtain ⟨h1, h2⟩ := and_true_split h0
    rw [Expr_eq_of_beq _ _ h1, Expr_eq_of_beqList _ _ h2]
end

mutual
theorem Expr_beq_refl : ∀ (a : Expr), Expr.beq a a = true
  | .null => rfl
  | .binaryOp o l r t => by
    show (o == o && Expr.beq l l && Expr.beq r r && CType.beq t t) = true
    simp only [beq_self_eq_true, Expr_beq_refl l, Expr_beq_refl r, CType_beq_refl t, Bool.and_self]
  | .unaryOp o e t => by
    show (o == o && Expr.beq e e && CType.beq t t) = true
    simp only [beq_self_eq_true, Expr_beq_refl e, CType_beq_refl t, Bool.and_self]
  | .conditionalOp c x y t => by
    show (Expr.beq c c && Expr.beq x x && Expr.beq y y && CType.beq t t) = true
    simp only [Expr_beq_refl c, Expr_beq_refl x, Expr_beq_refl y, CType_beq_refl t, Bool.and_self]
  | .funcCall d as t => by
    show (Expr.beq d d && Expr.beqList as as && CType.beq t t) = true
    simp only [Expr_beq_refl d, Expr_beqList_refl as, CType_beq_refl t, Bool.and_self]
  | .identifier i => by
    show (Identifier.beq i i) = true
    simp only [Identifier_beq_refl i, Bool.and_self]
  | .constant t v => by
    show (CType.beq t t && v == v) = true
    simp only [CType_beq_refl t, beq_self_eq_true, Bool.and_self]
  | .tempVar t => by
    show (CType.beq t t) = true
    simp only [CType_beq_refl t, Bool.and_self]
theorem Expr_beqList_refl : ∀ (a : List Expr), Expr.beqList a a = true
  | [] => rfl
  | x :: xs => by
    show (Expr.beq x x && Expr.beqList xs xs) = true
    simp only [Expr_beq_refl x, Expr_beqList_refl xs, Bool.and_self]
end

instance : DecidableEq Expr := fun a b =>
  if h : Expr.beq a b = true then isTrue (Expr_eq_of_beq a b h)
  else isFalse (fun e => h (e ▸ Expr_beq_refl a))

mutual
theorem Stmt_eq_of_beq : ∀ (a b : Stmt), Stmt.beq a b = true → a = b
  | .null, b, h => by
    cases b <;> first | rfl | exact Bool.noConfusion h
  | .expr e, b, h => by
    cases b <;> first | exact Bool.noConfusion h | skip
    rename_i e2
    have h0 : (Expr.beq e e2) = true := h
    rw [Expr_eq_of_beq _ _ h0]
  | .emptyStmt, b, h => by
    cases b <;> first | rfl | exact Bool.noConfusion h
  | .ifStmt c x y, b, h => by
    cases b <;> first | exact Bool.noConfusion h | skip
    rename_i c2 x2 y2
    have h0 : (Expr.beq c c2 && Stmt.beq x x2 && Stmt.beq y y2) = true := h
    obtain ⟨g2, h3⟩ := and_true_split h0
    obtain ⟨g1, h2⟩ := and_true_split g2
    rw [Expr_eq_of_beq _ _ g1, Stmt_eq_of_beq _ _ h2, Stmt_eq_of_beq _ _ h3]
  | .compoundStmt l, b, h => by
    cases b <;> first | exact Bool.noConfusion h | skip
    rename_i l2
    have h0 : (Stmt.beqList l l2) = true := h
    rw [Stmt_eq_of_beqList _ _ h0]
  | .jumpStmt i, b, h => by
    cases b <;> first | exact Bool.noConfusion h | skip
    rename_i i2
    have h0 : (i == i2) = true := h
    rw [beq_iff_eq.1 h0]
  | .returnStmt e, b, h => by
    cases b <;> first | exact Bool.noConfusion h | skip
    rename_i e2
    have h0 : (Expr.beq e e2) = true := h
    rw [Expr_eq_of_beq _ _ h0]
  | .labelStmt i, b, h => by
    cases b <;> first | exact Bool.noConfusion h | skip
    rename_i i2
    have h0 : (i == i2) = true := h
    rw [beq_iff_eq.1 h0]
  | .funcDef t x, b, h => by
    cases b <;> first | exact Bool.noConfusion h | skip
    rename_i t2 x2
    have h0 : (CType.beq t t2 && Stmt.beq x x2) = true := h
    obtain ⟨g1, h2⟩ := and_true_split h0
    rw [CType_eq_of_beq _ _ g1, Stmt_eq_of_beq _ _ h2]
theorem Stmt_eq_of_beqList : ∀ (a b : List Stmt), Stmt.beqList a b = true → a = b
  | [], b, h => by
    cases b <;> first | rfl | exact Bool.noConfusion h
  | x :: xs, b, h => by
    cases b <;> first | exact Bool.noConfusion h | skip
    rename_i y ys
    have h0 : (Stmt.beq x y && Stmt.beqList xs ys) = true := h
    obtain ⟨h1, h2⟩ := and_true_split h0
    rw [Stmt_eq_of_beq _ _ h1, Stmt_eq_of_beqList _ _ h2]
end

mutual
theorem Stmt_beq_refl : ∀ (a : Stmt), Stmt.beq a a = true
  | .null => rfl
  | .expr e => by
    show (Expr.beq e e) = true
    simp only [Expr_beq_refl e, Bool.and_self]
  | .emptyStmt => rfl
  | .ifStmt c x y => by
    show (Expr.beq c c && Stmt.beq x x && Stmt.beq y y) = true
    simp only [Expr_beq_refl c, Stmt_beq_refl x, Stmt_beq_refl y, Bool.and_self]
  | .compoundStmt l => by
    show (Stmt.beqList l l) = true
    simp only [Stmt_beqList_refl l, Bool.and_self]
  | .jumpStmt i => by
    show (i == i) = true
    simp only [beq_self_eq_true, Bool.and_self]
  | .returnStmt e => by
    show (Expr.beq e e) = true
    simp only [Expr_beq_refl e, Bool.and_self]
  | .labelStmt i => by
    show (i == i) = true
    simp only [beq_self_eq_true, Bool.and_self]
  | .funcDef t x => by
    show (CType.beq t t && Stmt.beq x x) = true
    simp only [CType_beq_refl t, Stmt_beq_refl x, Bool.and_self]
theorem Stmt_beqList_refl : ∀ (a : List Stmt), Stmt.beqList a a = true
  | [] => rfl
  | x :: xs => by
    show (Stmt.beq x x && Stmt.beqList xs xs) = true
    simp only [Stmt_beq_refl x, Stmt_beqList_refl xs, Bool.and_self]
end

instance : DecidableEq Stmt := fun a b =>
  if h : Stmt.beq a b = true then isTrue (Stmt_eq_of_beq a b h)
  else isFalse (fun e => h (e ▸ Stmt_beq_refl a))

/-! ## Declarators -/

/-- C5, the code at the failing inputs: for `int f(void)[3]` and
`int (f(void))[3]` `ParseDeclarator` returns, without any diagnostic, the
type "function returning array of 3 int", and for `int a[3](void)` the type
"array of 3 functions returning int". -/
theorem ParseDeclarator_unchecked_suffix :
    ((parser 40).ParseDeclarator tInt (Parser.init toksFuncArray)).state.errors = [] ∧
      ((parser 40).ParseDeclarator tInt (Parser.init toksFuncArray)).value?.map (·.second) =
        some (.func (.array 3 tInt) 0 false [.void]) ∧
      ((parser 40).ParseDeclarator tInt (Parser.init toksParenFuncArray)).state.errors = [] ∧
      ((parser 40).ParseDeclarator tInt (Parser.init toksParenFuncArray)).value?.map
        (·.second) = some (.func (.array 3 tInt) 0 false [.void]) ∧
      ((parser 40).ParseDeclarator tInt (Parser.init toksArrayFunc)).state.errors = [] ∧
      ((parser 40).ParseDeclarator tInt (Parser.init toksArrayFunc)).value?.map (·.second) =
        some (.array 3 (.func tInt 0 false [.void])) := by
  decide!

/-! ## Node factories -/

/-- C6, the code at the failing input `1 ? 2 : 3`: `NewConditionalOp` returns
the node with a null result type and reports no diagnostic, both when it is
called directly and when `ParseExpr` calls it. -/
theorem NewConditionalOp_null_type :
    (NewConditionalOp (P '?') (intConst 1) (intConst 2) (intConst 3) (Parser.init [])).value?.map
        Expr.ty = some .null ∧
      (NewConditionalOp (P '?') (intConst 1) (intConst 2) (intConst 3)
        (Parser.init [])).state.errors = [] ∧
      (intConst 1).ty.isScalar = true ∧
      ((parser 40).ParseExpr (Parser.init toksConditional)).value?.map Expr.ty = some .null ∧
      ((parser 40).ParseExpr (Parser.init toksConditional)).state.errors = [] ∧
      ((parser 40).ParseExpr (Parser.init toksConditional)).state.pos = 5 := by
  decide!

/-! ## Lowering of loops and switches -/

/-- C8, the code at the failing input `int f(void) { int x; switch (x) ; }`:
the translation unit is parsed without any diagnostic; the switch is lowered
to `t = x; goto 9; ; L7: goto 10; L8:`, and of the two `JumpStmt` objects
that `ParseSwitchStmt` creates the jump to the test label (handle 9) has the
target `L7`, while the jump to the default label (handle 10) has a null
target. -/
theorem ParseSwitchStmt_null_default_jump :
    ((parser 60).loopTranslationUnit (Parser.init toksSwitchNoDefault)).failure? = none ∧
      ((parser 60).loopTranslationUnit (Parser.init toksSwitchNoDefault)).state.errors = [] ∧
      ((parser 60).loopTranslationUnit (Parser.init toksSwitchNoDefault)).state.pos = 15 ∧
      ((parser 60).loopTranslationUnit (Parser.init toksSwitchNoDefault)).state.unit =
        [.funcDef (.func tInt 0 false [.void])
          (.compoundStmt [.compoundStmt [],
            .compoundStmt [
              .expr (.binaryOp (.chr '=') (.tempVar tInt)
                (.identifier { id := 6, ty := tInt, scope := 5, linkage := .L_NONE,
                               isObject := true, storage := 0, offset := 0 }) tInt),
              .jumpStmt 9, .emptyStmt, .labelStmt 7, .jumpStmt 10, .labelStmt 8]])] ∧
      ((parser 60).loopTranslationUnit (Parser.init toksSwitchNoDefault)).state.jumpTarget 9 =
        some 7 ∧
      ((parser 60).loopTranslationUnit (Parser.init toksSwitchNoDefault)).state.jumpTarget 10 =
        none := by
  decide!

/-! ## `ExitFunc` and `ParseGotoStmt` -/

theorem ExitFunc_resolve_run (l : List (Token × Nat)) :
    ∀ s : Parser, ExitFunc.resolve l s =
      .ok () { s with errors := s.errors ++ undefinedLabelDiags s.curLabels l,
                      jumps := resolvedJumps s.curLabels l s.jumps } := by
  induction l with
  | nil =>
    intro s
    simp only [ExitFunc.resolve, run_pure, undefinedLabelDiags, resolvedJumps, List.filter_nil,
      List.map_nil, List.append_nil, List.foldl_nil]
  | cons p l ih =>
    intro s
    obtain ⟨label, jump⟩ := p
    simp only [ExitFunc.resolve, run_bind, FindLabel, andThen_ok, ErrorIf_run, SetLabel, modifyP,
      ih, undefinedLabelDiags, resolvedJumps, List.foldl_cons, List.filter_cons]
    cases h : List.lookup label.str s.curLabels <;>
      simp only [Option.isNone_none, Option.isNone_some, if_true, if_false, List.map_cons,
        List.append_assoc, List.singleton_append, List.nil_append, Bool.false_eq_true,
        undefinedLabelDiag]

theorem lookup_resolvedJumps_of_not_mem (labels : List (String × Nat))
    (l : List (Token × Nat)) (j : Nat) (hj : j ∉ l.map (·.2)) :
    ∀ heap, (resolvedJumps labels l heap).lookup j = heap.lookup j := by
  induction l with
  | nil => intro heap; rfl
  | cons p l ih =>
    intro heap
    simp only [List.map_cons, List.mem_cons, not_or] at hj
    simp only [resolvedJumps, List.foldl_cons]
    have := ih hj.2 ((p.2, List.lookup p.1.str labels) :: heap)
    simp only [resolvedJumps] at this
    rw [this, List.lookup_cons]
    have hne : (j == p.2) = false := by
      simp only [beq_eq_false_iff_ne, ne_eq]
      exact hj.1
    rw [hne]

theorem lookup_resolvedJumps_of_mem (labels : List (String × Nat))
    (l : List (Token × Nat)) (hnd : (l.map (·.2)).Nodup) (label : Token) (j : Nat)
    (hmem : (label, j) ∈ l) :
    ∀ heap, (resolvedJumps labels l heap).lookup j = some (labels.lookup label.str) := by
  induction l with
  | nil => cases hmem
  | cons p l ih =>
    intro heap
    simp only [List.map_cons, List.nodup_cons] at hnd
    simp only [resolvedJumps, List.foldl_cons]
    rcases List.mem_cons.1 hmem with h | h
    · subst h
      have := lookup_resolvedJumps_of_not_mem labels l j hnd.1
        ((j, List.lookup label.str labels) :: heap)
      simp only [resolvedJumps] at this
      rw [this, List.lookup_cons, beq_self_eq_true]
    · have := ih hnd.2 h ((p.2, List.lookup p.1.str labels) :: heap)
      simp only [resolvedJumps] at this
      exact this

theorem Expect_run (expect f1 f2 : Tag) (s : Parser) :
    ∃ errs pos, Expect expect f1 f2 s = .ok () { s with errors := s.errors ++ errs, pos := pos } ∧
      ∀ d ∈ errs, d.fmt = "'%s' expected, but got '%s'" := by
  by_cases h : ((tokAt s.toks s.pos).tag != expect) = true
  · refine ⟨[{ coord := (tokAt s.toks s.pos).coord, fmt := "'%s' expected, but got '%s'",
               args := [Token.Lexeme expect, (tokAt s.toks s.pos).str] }],
      s.pos + 1 - 1 + panicSkip f1 f2 (s.toks.drop (s.pos + 1 - 1)), ?_, ?_⟩
    · simp only [Expect, run_bind, Next, andThen_ok, h, if_true, PutBack, modifyP, Error_run,
        Panic]
    · intro d hd
      simp only [List.mem_singleton] at hd
      rw [hd]
  · refine ⟨[], s.pos + 1, ?_, ?_⟩
    · simp only [Expect, run_bind, Next, andThen_ok, h, if_false, run_pure, List.append_nil,
        Bool.false_eq_true]
    · intro d hd
      cases hd

/-! ## Scope discipline: every member function keeps the scope -/

theorem keepsScope_of_state_eq {α : Type} (m : PM α)
    (h : ∀ s a s', m s = .ok a s' → s'.curScope = s.curScope) : KeepsScope m :=
  ⟨fun s a s' hr => by simp only [Parser.scopeIds, h s a s' hr]⟩

instance KeepsScope.pure {α : Type} (a : α) : KeepsScope (pure a : PM α) :=
  ⟨fun s b s' h => by cases h; rfl⟩

instance KeepsScope.pure2 {α : Type} (a : α) : KeepsScope (PM.pure a : PM α) :=
  ⟨fun s b s' h => by cases h; rfl⟩

instance KeepsScope.fail {α : Type} (f : Fail) : KeepsScope (PM.fail f : PM α) :=
  ⟨fun s b s' h => by cases h⟩

theorem KeepsScope.bind_of {α β : Type} {m : PM α} {f : α → PM β} (hm : KeepsScope m)
    (hf : ∀ a, KeepsScope (f a)) : KeepsScope (m >>= f) :=
  ⟨fun s b s' h => by
    rw [run_bind] at h
    cases hms : m s with
    | ok a s1 =>
      rw [hms, andThen_ok] at h
      rw [(hf a).keeps s1 b s' h, hm.keeps s a s1 hms]
    | fail e s1 =>
      rw [hms, andThen_fail] at h
      cases h⟩

instance KeepsScope.bind {α β : Type} (m : PM α) (f : α → PM β) [hm : KeepsScope m]
    [hf : ∀ a, KeepsScope (f a)] : KeepsScope (m >>= f) :=
  KeepsScope.bind_of hm hf

theorem KeepsScope.ite_of {α : Type} {c : Prop} [Decidable c] {a b : PM α} (ha : KeepsScope a)
    (hb : KeepsScope b) : KeepsScope (if c then a else b) := by
  by_cases h : c
  · rw [if_pos h]; exact ha
  · rw [if_neg h]; exact hb

instance KeepsScope.ite {α : Type} (c : Prop) [Decidable c] (a b : PM α) [ha : KeepsScope a]
    [hb : KeepsScope b] : KeepsScope (if c then a else b) :=
  KeepsScope.ite_of ha hb

theorem KeepsScope.modifyP (f : Parser → Parser) (h : ∀ s, (f s).curScope = s.curScope) :
    KeepsScope (modifyP f) :=
  keepsScope_of_state_eq _ (fun s a s' hr => by cases hr; exact h s)

instance : KeepsScope getP := keepsScope_of_state_eq _ (fun s a s' h => by cases h; rfl)
instance : KeepsScope freshId := keepsScope_of_state_eq _ (fun s a s' h => by cases h; rfl)
instance (c : Bool) : KeepsScope (assert c) := by
  unfold assert; infer_instance
instance (c : Nat) (f : String) (a : List String) : KeepsScope (Error c f a) :=
  KeepsScope.modifyP _ (fun _ => rfl)
instance (b : Bool) (c : Nat) (f : String) (a : List String) : KeepsScope (ErrorIf b c f a) := by
  unfold ErrorIf; infer_instance
instance : KeepsScope Peek := keepsScope_of_state_eq _ (fun s a s' h => by cases h; rfl)
instance : KeepsScope Next := keepsScope_of_state_eq _ (fun s a s' h => by cases h; rfl)
instance : KeepsScope PutBack := KeepsScope.modifyP _ (fun _ => rfl)
instance (t : Tag) : KeepsScope (Test t) :=
  keepsScope_of_state_eq _ (fun s a s' h => by cases h; rfl)
instance (t : Tag) : KeepsScope (Try t) :=
  keepsScope_of_state_eq _ (fun s a s' h => by
    unfold Try at h
    by_cases hc : ((tokAt s.toks s.pos).tag == t) = true
    · rw [if_pos hc] at h; cases h; rfl
    · rw [if_neg hc] at h; cases h; rfl)
instance : KeepsScope Mark := KeepsScope.modifyP _ (fun _ => rfl)
instance : KeepsScope Release := KeepsScope.modifyP _ (fun s => by cases h : s.marks <;> rfl)
instance (a b : Tag) : KeepsScope (Panic a b) := KeepsScope.modifyP _ (fun _ => rfl)
instance (a b c : Tag) : KeepsScope (Expect a b c) := by
  unfold Expect; infer_instance
instance (a : Tag) : KeepsScope (Expect1 a) := by
  unfold Expect1; infer_instance

instance : KeepsScope curScope :=
  keepsScope_of_state_eq _ (fun s a s' h => by
    unfold curScope at h
    cases hc : s.curScope with
    | nil => rw [hc] at h; cases h
    | cons sc rest => rw [hc] at h; cases h; exact hc)

instance (name : String) : KeepsScope (Find name) :=
  keepsScope_of_state_eq _ (fun s a s' h => by
    unfold Find at h
    cases hc : s.curScope with
    | nil => rw [hc] at h; cases h
    | cons sc rest => rw [hc] at h; cases h; exact hc)

instance (name : String) : KeepsScope (FindTag name) :=
  keepsScope_of_state_eq _ (fun s a s' h => by
    unfold FindTag at h
    cases hc : s.curScope with
    | nil => rw [hc] at h; cases h
    | cons sc rest => rw [hc] at h; cases h; exact hc)

instance (name : String) (i : Identifier) : KeepsScope (Insert name i) :=
  ⟨fun s a s' h => by
    unfold Insert at h
    cases hc : s.curScope with
    | nil => rw [hc] at h; cases h
    | cons sc rest =>
      rw [hc] at h; cases h
      simp only [Parser.scopeIds, hc, List.map_cons]
      rfl⟩

instance (name : String) (i : Identifier) : KeepsScope (InsertTag name i) :=
  ⟨fun s a s' h => by
    unfold InsertTag at h
    cases hc : s.curScope with
    | nil => rw [hc] at h; cases h
    | cons sc rest =>
      rw [hc] at h; cases h
      simp only [Parser.scopeIds, hc, List.map_cons]
      rfl⟩

instance (name : String) : KeepsScope (ExternalFind name) :=
  keepsScope_of_state_eq _ (fun s a s' h => by cases h; rfl)

instance (tok : Token) : KeepsScope (isTypedefName tok) :=
  keepsScope_of_state_eq _ (fun s a s' h => by
    unfold isTypedefName at h
    by_cases hi : tok.IsIdentifier = true
    · rw [if_pos hi] at h
      cases hf : findChain s.curScope tok.str with
      | none => rw [hf] at h; cases h; rfl
      | some i => rw [hf] at h; cases h; rfl
    · rw [if_neg hi] at h; cases h; rfl)

instance : KeepsScope setErrTok := keepsScope_of_state_eq _ (fun s a s' h => by cases h; rfl)

instance (name : String) : KeepsScope (FindLabel name) :=
  keepsScope_of_state_eq _ (fun s a s' h => by cases h; rfl)

instance (b c : Nat) : KeepsScope (ENTER_LOOP_BODY b c) :=
  keepsScope_of_state_eq _ (fun s a s' h => by cases h; rfl)

instance (b : Nat) : KeepsScope (ENTER_SWITCH_BODY b) :=
  keepsScope_of_state_eq _ (fun s a s' h => by cases h; rfl)

instance (v : Int) (l : Nat) : KeepsScope (pushCaseLabel v l) :=
  keepsScope_of_state_eq _ (fun s a s' h => by
    unfold pushCaseLabel at h
    cases hc : s.caseLabels with
    | none => rw [hc] at h; cases h
    | some l => rw [hc] at h; cases h; rfl)

/-- A block: `EnterBlock(); body; ExitBlock(); rest` keeps the scope when the
body and the rest keep it. -/
theorem KeepsScope.block_of {α β : Type} {body : PM α} {rest : α → PM β} (hb : KeepsScope body)
    (hr : ∀ a, KeepsScope (rest a)) :
    KeepsScope (EnterBlock >>= fun _ => body >>= fun a => ExitBlock >>= fun _ => rest a) :=
  ⟨fun s b s' h => by
    have he : EnterBlock s = .ok ()
        { s with nextId := s.nextId + 1
                 curScope := { id := s.nextId, kind := .S_BLOCK, ordinary := [], tags := [] }
                   :: s.curScope } := rfl
    rw [run_bind, he, andThen_ok, run_bind] at h
    cases hbody : body { s with nextId := s.nextId + 1
                                curScope := { id := s.nextId, kind := .S_BLOCK, ordinary := [],
                                              tags := [] } :: s.curScope } with
    | fail e s1 => rw [hbody, andThen_fail] at h; cases h
    | ok a s1 =>
      rw [hbody, andThen_ok, run_bind] at h
      have hk := hb.keeps _ a s1 hbody
      unfold ExitBlock at h
      cases hc : s1.curScope with
      | nil => rw [hc] at h; cases h
      | cons sc rest1 =>
        rw [hc, andThen_ok] at h
        rw [(hr a).keeps _ b s' h]
        simp only [Parser.scopeIds, hc, List.map_cons] at hk ⊢
        exact (List.cons.inj hk).2⟩

instance KeepsScope.block {α β : Type} (body : PM α) (rest : α → PM β) [hb : KeepsScope body]
    [hr : ∀ a, KeepsScope (rest a)] :
    KeepsScope (EnterBlock >>= fun _ => body >>= fun a => ExitBlock >>= fun _ => rest a) :=
  KeepsScope.block_of hb hr

instance (r : Rec) [h : RecKeeps r] : KeepsScope r.ParseExpr := h.ParseExpr
instance (r : Rec) [h : RecKeeps r] : KeepsScope r.ParseAssignExpr := h.ParseAssignExpr
instance (r : Rec) [h : RecKeeps r] : KeepsScope r.ParseConditionalExpr := h.ParseConditionalExpr
instance (r : Rec) [h : RecKeeps r] : KeepsScope r.ParseCastExpr := h.ParseCastExpr
instance (r : Rec) [h : RecKeeps r] : KeepsScope r.ParseUnaryExpr := h.ParseUnaryExpr
instance (r : Rec) [h : RecKeeps r] : KeepsScope r.ParseTypeName := h.ParseTypeName
instance (r : Rec) [h : RecKeeps r] (e : Expr) : KeepsScope (r.ParsePostfixExprTail e) :=
  h.ParsePostfixExprTail e
instance (r : Rec) [h : RecKeeps r] (a : List Expr) : KeepsScope (r.loopFuncCallVarArgs a) :=
  h.loopFuncCallVarArgs a
instance (r : Rec) [h : RecKeeps r] (e : Expr) (t : Token) : KeepsScope (r.loopMultiplicative e t) :=
  h.loopMultiplicative e t
instance (r : Rec) [h : RecKeeps r] (e : Expr) (t : Token) : KeepsScope (r.loopAdditive e t) :=
  h.loopAdditive e t
instance (r : Rec) [h : RecKeeps r] (e : Expr) (t : Token) : KeepsScope (r.loopShift e t) :=
  h.loopShift e t
instance (r : Rec) [h : RecKeeps r] (e : Expr) (t : Token) : KeepsScope (r.loopRelational e t) :=
  h.loopRelational e t
instance (r : Rec) [h : RecKeeps r] (e : Expr) (t : Token) : KeepsScope (r.loopEquality e t) :=
  h.loopEquality e t
instance (r : Rec) [h : RecKeeps r] (e : Expr) (t : Token) : KeepsScope (r.loopBitwiseAnd e t) :=
  h.loopBitwiseAnd e t
instance (r : Rec) [h : RecKeeps r] (e : Expr) (t : Token) : KeepsScope (r.loopBitwiseXor e t) :=
  h.loopBitwiseXor e t
instance (r : Rec) [h : RecKeeps r] (e : Expr) (t : Token) : KeepsScope (r.loopBitwiseOr e t) :=
  h.loopBitwiseOr e t
instance (r : Rec) [h : RecKeeps r] (e : Expr) (t : Token) : KeepsScope (r.loopLogicalAnd e t) :=
  h.loopLogicalAnd e t
instance (r : Rec) [h : RecKeeps r] (e : Expr) (t : Token) : KeepsScope (r.loopLogicalOr e t) :=
  h.loopLogicalOr e t
instance (r : Rec) [h : RecKeeps r] (e : Expr) (t : Token) : KeepsScope (r.loopComma e t) :=
  h.loopComma e t
instance (r : Rec) [h : RecKeeps r] (b : Bool) : KeepsScope (r.ParseDeclSpec b) :=
  h.ParseDeclSpec b
instance (r : Rec) [h : RecKeeps r] (b : Bool) (v : DeclSpecVars) :
    KeepsScope (r.loopDeclSpec b v) := h.loopDeclSpec b v
instance (r : Rec) [h : RecKeeps r] (t : CType) (v : Int) : KeepsScope (r.loopEnumerator t v) :=
  h.loopEnumerator t v
instance (r : Rec) [h : RecKeeps r] (t : CType) : KeepsScope (r.loopStructDecl t) :=
  h.loopStructDecl t
instance (r : Rec) [h : RecKeeps r] (q : Nat) : KeepsScope (r.loopQual q) := h.loopQual q
instance (r : Rec) [h : RecKeeps r] (a b : CType) : KeepsScope (r.loopPointer a b) :=
  h.loopPointer a b
instance (r : Rec) [h : RecKeeps r] (p : List CType) : KeepsScope (r.loopParamList p) :=
  h.loopParamList p
instance (r : Rec) [h : RecKeeps r] (t : CType) : KeepsScope (r.ParseDeclarator t) :=
  h.ParseDeclarator t
instance (r : Rec) [h : RecKeeps r] (t : CType) : KeepsScope (r.ParseArrayFuncDeclarator t) :=
  h.ParseArrayFuncDeclarator t
instance (r : Rec) [h : RecKeeps r] (o : Identifier) : KeepsScope (r.ParseInitializer o) :=
  h.ParseInitializer o
instance (r : Rec) [h : RecKeeps r] (a : Identifier) (v : ArrayInitVars) :
    KeepsScope (r.loopArrayInitializer a v) := h.loopArrayInitializer a v
instance (r : Rec) [h : RecKeeps r] (t : CType) (a b : Nat) (l : List Stmt) :
    KeepsScope (r.loopDecl t a b l) := h.loopDecl t a b l
instance (r : Rec) [h : RecKeeps r] : KeepsScope r.ParseStmt := h.ParseStmt
instance (r : Rec) [h : RecKeeps r] (l : List Stmt) : KeepsScope (r.loopCompoundStmt l) :=
  h.loopCompoundStmt l
instance (r : Rec) [h : RecKeeps r] : KeepsScope r.loopTranslationUnit := h.loopTranslationUnit

instance keeps_ScopeKind  :
    KeepsScope ScopeKind := by
  unfold ScopeKind
  try dsimp only []
  repeat' (first
    | infer_instance | apply KeepsScope.block_of | apply KeepsScope.bind_of | apply KeepsScope.ite_of
    | intro _ | exact KeepsScope.modifyP _ (fun _ => rfl) | split)

instance keeps_FindInCurScope (name : String) :
    KeepsScope (FindInCurScope name) := by
  unfold FindInCurScope
  try dsimp only []
  repeat' (first
    | infer_instance | apply KeepsScope.block_of | apply KeepsScope.bind_of | apply KeepsScope.ite_of
    | intro _ | exact KeepsScope.modifyP _ (fun _ => rfl) | split)

instance keeps_ExternalInsert (name : String) (i : Identifier) :
    KeepsScope (ExternalInsert name i) := by
  unfold ExternalInsert
  try dsimp only []
  repeat' (first
    | infer_instance | apply KeepsScope.block_of | apply KeepsScope.bind_of | apply KeepsScope.ite_of
    | intro _ | exact KeepsScope.modifyP _ (fun _ => rfl) | split)

instance keeps_derefType (t : CType) :
    KeepsScope (derefType t) := by
  unfold derefType
  try dsimp only []
  repeat' (first
    | infer_instance | apply KeepsScope.block_of | apply KeepsScope.bind_of | apply KeepsScope.ite_of
    | intro _ | exact KeepsScope.modifyP _ (fun _ => rfl) | split)

instance keeps_ToVoidType (t : CType) :
    KeepsScope (ToVoidType t) := by
  unfold ToVoidType
  try dsimp only []
  repeat' (first
    | infer_instance | apply KeepsScope.block_of | apply KeepsScope.bind_of | apply KeepsScope.ite_of
    | intro _ | exact KeepsScope.modifyP _ (fun _ => rfl) | split)

instance keeps_ToFuncType (t : CType) :
    KeepsScope (ToFuncType t) := by
  unfold ToFuncType
  try dsimp only []
  repeat' (first
    | infer_instance | apply KeepsScope.block_of | apply KeepsScope.bind_of | apply KeepsScope.ite_of
    | intro _ | exact KeepsScope.modifyP _ (fun _ => rfl) | split)

instance keeps_ToArrayType (t : CType) :
    KeepsScope (ToArrayType t) := by
  unfold ToArrayType
  try dsimp only []
  repeat' (first
    | infer_instance | apply KeepsScope.block_of | apply KeepsScope.bind_of | apply KeepsScope.ite_of
    | intro _ | exact KeepsScope.modifyP _ (fun _ => rfl) | split)

instance keeps_typeEq (a b : CType) :
    KeepsScope (typeEq a b) := by
  unfold typeEq
  try dsimp only []
  repeat' (first
    | infer_instance | apply KeepsScope.block_of | apply KeepsScope.bind_of | apply KeepsScope.ite_of
    | intro _ | exact KeepsScope.modifyP _ (fun _ => rfl) | split)

instance keeps_Complete (t : CType) :
    KeepsScope (Complete t) := by
  unfold Complete
  try dsimp only []
  repeat' (first
    | infer_instance | apply KeepsScope.block_of | apply KeepsScope.bind_of | apply KeepsScope.ite_of
    | intro _ | exact KeepsScope.modifyP _ (fun _ => rfl) | split)

instance keeps_NewIdentifier (type : CType) (scope : Nat) (linkage : Linkage) :
    KeepsScope (NewIdentifier type scope linkage) := by
  unfold NewIdentifier
  try dsimp only []
  repeat' (first
    | infer_instance | apply KeepsScope.block_of | apply KeepsScope.bind_of | apply KeepsScope.ite_of
    | intro _ | exact KeepsScope.modifyP _ (fun _ => rfl) | split)

instance keeps_NewObject (type : CType) (scope : Nat) (storage : Nat) (linkage : Linkage) (offset : Int) :
    KeepsScope (NewObject type scope storage linkage offset) := by
  unfold NewObject
  try dsimp only []
  repeat' (first
    | infer_instance | apply KeepsScope.block_of | apply KeepsScope.bind_of | apply KeepsScope.ite_of
    | intro _ | exact KeepsScope.modifyP _ (fun _ => rfl) | split)

instance keeps_declChecks (tok : Token) (type : CType) (storageSpec : Nat) :
    KeepsScope (declChecks tok type storageSpec) := by
  unfold declChecks
  try dsimp only []
  repeat' (first
    | infer_instance | apply KeepsScope.block_of | apply KeepsScope.bind_of | apply KeepsScope.ite_of
    | intro _ | exact KeepsScope.modifyP _ (fun _ => rfl) | split)

instance keeps_redeclare (tok : Token) (type : CType) (linkage : Linkage) (ident : Identifier) :
    KeepsScope (redeclare tok type linkage ident) := by
  unfold redeclare
  try dsimp only []
  repeat' (first
    | infer_instance | apply KeepsScope.block_of | apply KeepsScope.bind_of | apply KeepsScope.ite_of
    | intro _ | exact KeepsScope.modifyP _ (fun _ => rfl) | split)

instance keeps_crossCheck (tok : Token) (type : CType) (linkage : Linkage) :
    KeepsScope (crossCheck tok type linkage) := by
  unfold crossCheck
  try dsimp only []
  repeat' (first
    | infer_instance | apply KeepsScope.block_of | apply KeepsScope.bind_of | apply KeepsScope.ite_of
    | intro _ | exact KeepsScope.modifyP _ (fun _ => rfl) | split)

instance keeps_declareTypedef (tok : Token) (type : CType) :
    KeepsScope (declareTypedef tok type) := by
  unfold declareTypedef
  try dsimp only []
  repeat' (first
    | infer_instance | apply KeepsScope.block_of | apply KeepsScope.bind_of | apply KeepsScope.ite_of
    | intro _ | exact KeepsScope.modifyP _ (fun _ => rfl) | split)

instance keeps_ProcessDeclarator (tok : Option Token) (type : CType) (storageSpec funcSpec : Nat) :
    KeepsScope (ProcessDeclarator tok type storageSpec funcSpec) := by
  unfold ProcessDeclarator
  try dsimp only []
  repeat' (first
    | infer_instance | apply KeepsScope.block_of | apply KeepsScope.bind_of | apply KeepsScope.ite_of
    | intro _ | exact KeepsScope.modifyP _ (fun _ => rfl) | split)

instance keeps_IsInteger (t : CType) :
    KeepsScope (IsInteger t) := by
  unfold IsInteger
  try dsimp only []
  repeat' (first
    | infer_instance | apply KeepsScope.block_of | apply KeepsScope.bind_of | apply KeepsScope.ite_of
    | intro _ | exact KeepsScope.modifyP _ (fun _ => rfl) | split)

instance keeps_IsScalar (t : CType) :
    KeepsScope (IsScalar t) := by
  unfold IsScalar
  try dsimp only []
  repeat' (first
    | infer_instance | apply KeepsScope.block_of | apply KeepsScope.bind_of | apply KeepsScope.ite_of
    | intro _ | exact KeepsScope.modifyP _ (fun _ => rfl) | split)

instance keeps_IsFloat (t : CType) :
    KeepsScope (IsFloat t) := by
  unfold IsFloat
  try dsimp only []
  repeat' (first
    | infer_instance | apply KeepsScope.block_of | apply KeepsScope.bind_of | apply KeepsScope.ite_of
    | intro _ | exact KeepsScope.modifyP _ (fun _ => rfl) | split)

instance keeps_ToArithmType (t : CType) :
    KeepsScope (ToArithmType t) := by
  unfold ToArithmType
  try dsimp only []
  repeat' (first
    | infer_instance | apply KeepsScope.block_of | apply KeepsScope.bind_of | apply KeepsScope.ite_of
    | intro _ | exact KeepsScope.modifyP _ (fun _ => rfl) | split)

instance keeps_ToPointerType (t : CType) :
    KeepsScope (ToPointerType t) := by
  unfold ToPointerType
  try dsimp only []
  repeat' (first
    | infer_instance | apply KeepsScope.block_of | apply KeepsScope.bind_of | apply KeepsScope.ite_of
    | intro _ | exact KeepsScope.modifyP _ (fun _ => rfl) | split)

instance keeps_IsConst (t : CType) :
    KeepsScope (IsConst t) := by
  unfold IsConst
  try dsimp only []
  repeat' (first
    | infer_instance | apply KeepsScope.block_of | apply KeepsScope.bind_of | apply KeepsScope.ite_of
    | intro _ | exact KeepsScope.modifyP _ (fun _ => rfl) | split)

instance keeps_derefExpr (e : Expr) :
    KeepsScope (derefExpr e) := by
  unfold derefExpr
  try dsimp only []
  repeat' (first
    | infer_instance | apply KeepsScope.block_of | apply KeepsScope.bind_of | apply KeepsScope.ite_of
    | intro _ | exact KeepsScope.modifyP _ (fun _ => rfl) | split)

instance keeps_Ty (e : Expr) :
    KeepsScope (Ty e) := by
  unfold Ty
  try dsimp only []
  repeat' (first
    | infer_instance | apply KeepsScope.block_of | apply KeepsScope.bind_of | apply KeepsScope.ite_of
    | intro _ | exact KeepsScope.modifyP _ (fun _ => rfl) | split)

instance keeps_IsLVal (e : Expr) :
    KeepsScope (IsLVal e) := by
  unfold IsLVal
  try dsimp only []
  repeat' (first
    | infer_instance | apply KeepsScope.block_of | apply KeepsScope.bind_of | apply KeepsScope.ite_of
    | intro _ | exact KeepsScope.modifyP _ (fun _ => rfl) | split)

instance keeps_derefTok (t : Option Token) :
    KeepsScope (derefTok t) := by
  unfold derefTok
  try dsimp only []
  repeat' (first
    | infer_instance | apply KeepsScope.block_of | apply KeepsScope.bind_of | apply KeepsScope.ite_of
    | intro _ | exact KeepsScope.modifyP _ (fun _ => rfl) | split)

instance keeps_SubScriptingOpTypeChecking (binaryOp : BinaryOp) (errTok : Token) :
    KeepsScope (SubScriptingOpTypeChecking binaryOp errTok) := by
  unfold SubScriptingOpTypeChecking
  try dsimp only []
  repeat' (first
    | infer_instance | apply KeepsScope.block_of | apply KeepsScope.bind_of | apply KeepsScope.ite_of
    | intro _ | exact KeepsScope.modifyP _ (fun _ => rfl) | split)

instance keeps_GetMember (structId : Nat) (name : String) :
    KeepsScope (GetMember structId name) := by
  unfold GetMember
  try dsimp only []
  repeat' (first
    | infer_instance | apply KeepsScope.block_of | apply KeepsScope.bind_of | apply KeepsScope.ite_of
    | intro _ | exact KeepsScope.modifyP _ (fun _ => rfl) | split)

instance keeps_MemberRefOpTypeChecking (binaryOp : BinaryOp) (errTok : Token) (rhsName : String) :
    KeepsScope (MemberRefOpTypeChecking binaryOp errTok rhsName) := by
  unfold MemberRefOpTypeChecking
  try dsimp only []
  repeat' (first
    | infer_instance | apply KeepsScope.block_of | apply KeepsScope.bind_of | apply KeepsScope.ite_of
    | intro _ | exact KeepsScope.modifyP _ (fun _ => rfl) | split)

instance keeps_MultiOpTypeChecking (binaryOp : BinaryOp) (errTok : Token) :
    KeepsScope (MultiOpTypeChecking binaryOp errTok) := by
  unfold MultiOpTypeChecking
  try dsimp only []
  repeat' (first
    | infer_instance | apply KeepsScope.block_of | apply KeepsScope.bind_of | apply KeepsScope.ite_of
    | intro _ | exact KeepsScope.modifyP _ (fun _ => rfl) | split)

instance keeps_AdditiveOpTypeChecking (binaryOp : BinaryOp) (errTok : Token) :
    KeepsScope (AdditiveOpTypeChecking binaryOp errTok) := by
  unfold AdditiveOpTypeChecking
  try dsimp only []
  repeat' (first
    | infer_instance | apply KeepsScope.block_of | apply KeepsScope.bind_of | apply KeepsScope.ite_of
    | intro _ | exact KeepsScope.modifyP _ (fun _ => rfl) | split)

instance keeps_ShiftOpTypeChecking (binaryOp : BinaryOp) (errTok : Token) :
    KeepsScope (ShiftOpTypeChecking binaryOp errTok) := by
  unfold ShiftOpTypeChecking
  try dsimp only []
  repeat' (first
    | infer_instance | apply KeepsScope.block_of | apply KeepsScope.bind_of | apply KeepsScope.ite_of
    | intro _ | exact KeepsScope.modifyP _ (fun _ => rfl) | split)

instance keeps_RelationalOpTypeChecking (binaryOp : BinaryOp) (errTok : Token) :
    KeepsScope (RelationalOpTypeChecking binaryOp errTok) := by
  unfold RelationalOpTypeChecking
  try dsimp only []
  repeat' (first
    | infer_instance | apply KeepsScope.block_of | apply KeepsScope.bind_of | apply KeepsScope.ite_of
    | intro _ | exact KeepsScope.modifyP _ (fun _ => rfl) | split)

instance keeps_EqualityOpTypeChecking (binaryOp : BinaryOp) (errTok : Token) :
    KeepsScope (EqualityOpTypeChecking binaryOp errTok) := by
  unfold EqualityOpTypeChecking
  try dsimp only []
  repeat' (first
    | infer_instance | apply KeepsScope.block_of | apply KeepsScope.bind_of | apply KeepsScope.ite_of
    | intro _ | exact KeepsScope.modifyP _ (fun _ => rfl) | split)

instance keeps_BitwiseOpTypeChecking (binaryOp : BinaryOp) (errTok : Token) :
    KeepsScope (BitwiseOpTypeChecking binaryOp errTok) := by
  unfold BitwiseOpTypeChecking
  try dsimp only []
  repeat' (first
    | infer_instance | apply KeepsScope.block_of | apply KeepsScope.bind_of | apply KeepsScope.ite_of
    | intro _ | exact KeepsScope.modifyP _ (fun _ => rfl) | split)

instance keeps_LogicalOpTypeChecking (binaryOp : BinaryOp) (errTok : Token) :
    KeepsScope (LogicalOpTypeChecking binaryOp errTok) := by
  unfold LogicalOpTypeChecking
  try dsimp only []
  repeat' (first
    | infer_instance | apply KeepsScope.block_of | apply KeepsScope.bind_of | apply KeepsScope.ite_of
    | intro _ | exact KeepsScope.modifyP _ (fun _ => rfl) | split)

instance keeps_AssignOpTypeChecking (binaryOp : BinaryOp) (errTok : Token) :
    KeepsScope (AssignOpTypeChecking binaryOp errTok) := by
  unfold AssignOpTypeChecking
  try dsimp only []
  repeat' (first
    | infer_instance | apply KeepsScope.block_of | apply KeepsScope.bind_of | apply KeepsScope.ite_of
    | intro _ | exact KeepsScope.modifyP _ (fun _ => rfl) | split)

instance keeps_TypeCheckingBinaryOp (binaryOp : BinaryOp) (errTok : Token) :
    KeepsScope (TypeCheckingBinaryOp binaryOp errTok) := by
  unfold TypeCheckingBinaryOp
  try dsimp only []
  repeat' (first
    | infer_instance | apply KeepsScope.block_of | apply KeepsScope.bind_of | apply KeepsScope.ite_of
    | intro _ | exact KeepsScope.modifyP _ (fun _ => rfl) | split)

instance keeps_IncDecOpTypeChecking (unaryOp : UnaryOp) (errTok : Token) :
    KeepsScope (IncDecOpTypeChecking unaryOp errTok) := by
  unfold IncDecOpTypeChecking
  try dsimp only []
  repeat' (first
    | infer_instance | apply KeepsScope.block_of | apply KeepsScope.bind_of | apply KeepsScope.ite_of
    | intro _ | exact KeepsScope.modifyP _ (fun _ => rfl) | split)

instance keeps_AddrOpTypeChecking (unaryOp : UnaryOp) (errTok : Token) :
    KeepsScope (AddrOpTypeChecking unaryOp errTok) := by
  unfold AddrOpTypeChecking
  try dsimp only []
  repeat' (first
    | infer_instance | apply KeepsScope.block_of | apply KeepsScope.bind_of | apply KeepsScope.ite_of
    | intro _ | exact KeepsScope.modifyP _ (fun _ => rfl) | split)

instance keeps_DerefOpTypeChecking (unaryOp : UnaryOp) (errTok : Token) :
    KeepsScope (DerefOpTypeChecking unaryOp errTok) := by
  unfold DerefOpTypeChecking
  try dsimp only []
  repeat' (first
    | infer_instance | apply KeepsScope.block_of | apply KeepsScope.bind_of | apply KeepsScope.ite_of
    | intro _ | exact KeepsScope.modifyP _ (fun _ => rfl) | split)

instance keeps_UnaryArithmOpTypeChecking (unaryOp : UnaryOp) (errTok : Token) :
    KeepsScope (UnaryArithmOpTypeChecking unaryOp errTok) := by
  unfold UnaryArithmOpTypeChecking
  try dsimp only []
  repeat' (first
    | infer_instance | apply KeepsScope.block_of | apply KeepsScope.bind_of | apply KeepsScope.ite_of
    | intro _ | exact KeepsScope.modifyP _ (fun _ => rfl) | split)

instance keeps_CastOpTypeChecking (unaryOp : UnaryOp) (errTok : Token) :
    KeepsScope (CastOpTypeChecking unaryOp errTok) := by
  unfold CastOpTypeChecking
  try dsimp only []
  repeat' (first
    | infer_instance | apply KeepsScope.block_of | apply KeepsScope.bind_of | apply KeepsScope.ite_of
    | intro _ | exact KeepsScope.modifyP _ (fun _ => rfl) | split)

instance keeps_TypeCheckingUnaryOp (unaryOp : UnaryOp) (errTok : Token) :
    KeepsScope (TypeCheckingUnaryOp unaryOp errTok) := by
  unfold TypeCheckingUnaryOp
  try dsimp only []
  repeat' (first
    | infer_instance | apply KeepsScope.block_of | apply KeepsScope.bind_of | apply KeepsScope.ite_of
    | intro _ | exact KeepsScope.modifyP _ (fun _ => rfl) | split)

instance keeps_TypeCheckingConditionalOp (conditionalOp : ConditionalOp) (errTok : Option Token) :
    KeepsScope (TypeCheckingConditionalOp conditionalOp errTok) := by
  unfold TypeCheckingConditionalOp
  try dsimp only []
  repeat' (first
    | infer_instance | apply KeepsScope.block_of | apply KeepsScope.bind_of | apply KeepsScope.ite_of
    | intro _ | exact KeepsScope.modifyP _ (fun _ => rfl) | split)

instance keeps_TypeCheckingFuncCall (funcCall : FuncCall) (errTok : Token) :
    KeepsScope (TypeCheckingFuncCall funcCall errTok) := by
  unfold TypeCheckingFuncCall
  try dsimp only []
  repeat' (first
    | infer_instance | apply KeepsScope.block_of | apply KeepsScope.bind_of | apply KeepsScope.ite_of
    | intro _ | exact KeepsScope.modifyP _ (fun _ => rfl) | split)

instance keeps_NewConditionalOp (tok : Token) (cond exprTrue exprFalse : Expr) :
    KeepsScope (NewConditionalOp tok cond exprTrue exprFalse) := by
  unfold NewConditionalOp
  try dsimp only []
  repeat' (first
    | infer_instance | apply KeepsScope.block_of | apply KeepsScope.bind_of | apply KeepsScope.ite_of
    | intro _ | exact KeepsScope.modifyP _ (fun _ => rfl) | split)

instance keeps_NewBinaryOp (tok : Token) (op : Tag) (lhs rhs : Expr) :
    KeepsScope (NewBinaryOp tok op lhs rhs) := by
  unfold NewBinaryOp
  try dsimp only []
  repeat' (first
    | infer_instance | apply KeepsScope.block_of | apply KeepsScope.bind_of | apply KeepsScope.ite_of
    | intro _ | exact KeepsScope.modifyP _ (fun _ => rfl) | split)

instance keeps_NewBinaryOpTok (tok : Token) (lhs rhs : Expr) :
    KeepsScope (NewBinaryOpTok tok lhs rhs) := by
  unfold NewBinaryOpTok
  try dsimp only []
  repeat' (first
    | infer_instance | apply KeepsScope.block_of | apply KeepsScope.bind_of | apply KeepsScope.ite_of
    | intro _ | exact KeepsScope.modifyP _ (fun _ => rfl) | split)

instance keeps_NewMemberRefOp (tok : Token) (lhs : Expr) (rhsName : String) :
    KeepsScope (NewMemberRefOp tok lhs rhsName) := by
  unfold NewMemberRefOp
  try dsimp only []
  repeat' (first
    | infer_instance | apply KeepsScope.block_of | apply KeepsScope.bind_of | apply KeepsScope.ite_of
    | intro _ | exact KeepsScope.modifyP _ (fun _ => rfl) | split)

instance keeps_NewUnaryOp (tok : Token) (op : Tag) (operand : Expr) (type : CType) :
    KeepsScope (NewUnaryOp tok op operand type) := by
  unfold NewUnaryOp
  try dsimp only []
  repeat' (first
    | infer_instance | apply KeepsScope.block_of | apply KeepsScope.bind_of | apply KeepsScope.ite_of
    | intro _ | exact KeepsScope.modifyP _ (fun _ => rfl) | split)

instance keeps_NewFuncCall (tok : Token) (designator : Expr) (args : List Expr) :
    KeepsScope (NewFuncCall tok designator args) := by
  unfold NewFuncCall
  try dsimp only []
  repeat' (first
    | infer_instance | apply KeepsScope.block_of | apply KeepsScope.bind_of | apply KeepsScope.ite_of
    | intro _ | exact KeepsScope.modifyP _ (fun _ => rfl) | split)

instance keeps_NewJumpStmt (label : Option Nat) :
    KeepsScope (NewJumpStmt label) := by
  unfold NewJumpStmt
  try dsimp only []
  repeat' (first
    | infer_instance | apply KeepsScope.block_of | apply KeepsScope.bind_of | apply KeepsScope.ite_of
    | intro _ | exact KeepsScope.modifyP _ (fun _ => rfl) | split)

instance keeps_NewLabelStmt  :
    KeepsScope NewLabelStmt := by
  unfold NewLabelStmt
  try dsimp only []
  repeat' (first
    | infer_instance | apply KeepsScope.block_of | apply KeepsScope.bind_of | apply KeepsScope.ite_of
    | intro _ | exact KeepsScope.modifyP _ (fun _ => rfl) | split)

instance keeps_SetLabel (jump : Nat) (label : Option Nat) :
    KeepsScope (SetLabel jump label) := by
  unfold SetLabel
  try dsimp only []
  repeat' (first
    | infer_instance | apply KeepsScope.block_of | apply KeepsScope.bind_of | apply KeepsScope.ite_of
    | intro _ | exact KeepsScope.modifyP _ (fun _ => rfl) | split)

instance keeps_IsTypeName (tok : Token) :
    KeepsScope (IsTypeName tok) := by
  unfold IsTypeName
  try dsimp only []
  repeat' (first
    | infer_instance | apply KeepsScope.block_of | apply KeepsScope.bind_of | apply KeepsScope.ite_of
    | intro _ | exact KeepsScope.modifyP _ (fun _ => rfl) | split)

instance keeps_IsType (tok : Token) :
    KeepsScope (IsType tok) := by
  unfold IsType
  try dsimp only []
  repeat' (first
    | infer_instance | apply KeepsScope.block_of | apply KeepsScope.bind_of | apply KeepsScope.ite_of
    | intro _ | exact KeepsScope.modifyP _ (fun _ => rfl) | split)

instance keeps_ParseConstant (tok : Token) :
    KeepsScope (ParseConstant tok) := by
  unfold ParseConstant
  try dsimp only []
  repeat' (first
    | infer_instance | apply KeepsScope.block_of | apply KeepsScope.bind_of | apply KeepsScope.ite_of
    | intro _ | exact KeepsScope.modifyP _ (fun _ => rfl) | split)

instance keeps_ParseString (tok : Token) :
    KeepsScope (ParseString tok) := by
  unfold ParseString
  try dsimp only []
  repeat' (first
    | infer_instance | apply KeepsScope.block_of | apply KeepsScope.bind_of | apply KeepsScope.ite_of
    | intro _ | exact KeepsScope.modifyP _ (fun _ => rfl) | split)

instance keeps_ParseGeneric  :
    KeepsScope ParseGeneric := by
  unfold ParseGeneric
  try dsimp only []
  repeat' (first
    | infer_instance | apply KeepsScope.block_of | apply KeepsScope.bind_of | apply KeepsScope.ite_of
    | intro _ | exact KeepsScope.modifyP _ (fun _ => rfl) | split)

instance keeps_ParsePrimaryExpr (r : Rec) [RecKeeps r] :
    KeepsScope (ParsePrimaryExpr r) := by
  unfold ParsePrimaryExpr
  try dsimp only []
  repeat' (first
    | infer_instance | apply KeepsScope.block_of | apply KeepsScope.bind_of | apply KeepsScope.ite_of
    | intro _ | exact KeepsScope.modifyP _ (fun _ => rfl) | split)

instance keeps_ParseSubScripting (r : Rec) (pointer : Expr) [RecKeeps r] :
    KeepsScope (ParseSubScripting r pointer) := by
  unfold ParseSubScripting
  try dsimp only []
  repeat' (first
    | infer_instance | apply KeepsScope.block_of | apply KeepsScope.bind_of | apply KeepsScope.ite_of
    | intro _ | exact KeepsScope.modifyP _ (fun _ => rfl) | split)

instance keeps_ParseMemberRef (tok : Token) (lhs : Expr) :
    KeepsScope (ParseMemberRef tok lhs) := by
  unfold ParseMemberRef
  try dsimp only []
  repeat' (first
    | infer_instance | apply KeepsScope.block_of | apply KeepsScope.bind_of | apply KeepsScope.ite_of
    | intro _ | exact KeepsScope.modifyP _ (fun _ => rfl) | split)

instance keeps_ParsePostfixIncDec (tok : Token) (operand : Expr) :
    KeepsScope (ParsePostfixIncDec tok operand) := by
  unfold ParsePostfixIncDec
  try dsimp only []
  repeat' (first
    | infer_instance | apply KeepsScope.block_of | apply KeepsScope.bind_of | apply KeepsScope.ite_of
    | intro _ | exact KeepsScope.modifyP _ (fun _ => rfl) | split)

instance keeps_ParseFuncCall_args (r : Rec) [RecKeeps r] (params : List CType) :
    ∀ args, KeepsScope (ParseFuncCall.args r params args) := by
  induction params with
  | nil => intro args; unfold ParseFuncCall.args; infer_instance
  | cons p rest ih =>
    intro args
    unfold ParseFuncCall.args
    try dsimp only []
    repeat' (first
    | infer_instance | apply KeepsScope.block_of | apply KeepsScope.bind_of | apply KeepsScope.ite_of
    | intro _ | exact KeepsScope.modifyP _ (fun _ => rfl) | split)

instance keeps_ParseFuncCall_varArgs (r : Rec) (args : List Expr) [RecKeeps r] :
    KeepsScope (ParseFuncCall.varArgs r args) := by
  unfold ParseFuncCall.varArgs
  try dsimp only []
  repeat' (first
    | infer_instance | apply KeepsScope.block_of | apply KeepsScope.bind_of | apply KeepsScope.ite_of
    | intro _ | exact KeepsScope.modifyP _ (fun _ => rfl) | split)

instance keeps_ParseFuncCall (r : Rec) (designator : Expr) [RecKeeps r] :
    KeepsScope (ParseFuncCall r designator) := by
  unfold ParseFuncCall
  try dsimp only []
  repeat' (first
    | infer_instance | apply KeepsScope.block_of | apply KeepsScope.bind_of | apply KeepsScope.ite_of
    | intro _ | exact KeepsScope.modifyP _ (fun _ => rfl) | split)

instance keeps_ParsePostfixExprTail (r : Rec) (lhs : Expr) [RecKeeps r] :
    KeepsScope (ParsePostfixExprTail r lhs) := by
  unfold ParsePostfixExprTail
  try dsimp only []
  repeat' (first
    | infer_instance | apply KeepsScope.block_of | apply KeepsScope.bind_of | apply KeepsScope.ite_of
    | intro _ | exact KeepsScope.modifyP _ (fun _ => rfl) | split)

instance keeps_ParsePostfixExpr (r : Rec) [RecKeeps r] :
    KeepsScope (ParsePostfixExpr r) := by
  unfold ParsePostfixExpr
  try dsimp only []
  repeat' (first
    | infer_instance | apply KeepsScope.block_of | apply KeepsScope.bind_of | apply KeepsScope.ite_of
    | intro _ | exact KeepsScope.modifyP _ (fun _ => rfl) | split)

instance keeps_startsTypeName (tok : Token) :
    KeepsScope (startsTypeName tok) := by
  unfold startsTypeName
  try dsimp only []
  repeat' (first
    | infer_instance | apply KeepsScope.block_of | apply KeepsScope.bind_of | apply KeepsScope.ite_of
    | intro _ | exact KeepsScope.modifyP _ (fun _ => rfl) | split)

instance keeps_ParseSizeof (r : Rec) [RecKeeps r] :
    KeepsScope (ParseSizeof r) := by
  unfold ParseSizeof
  try dsimp only []
  repeat' (first
    | infer_instance | apply KeepsScope.block_of | apply KeepsScope.bind_of | apply KeepsScope.ite_of
    | intro _ | exact KeepsScope.modifyP _ (fun _ => rfl) | split)

instance keeps_ParseAlignof (r : Rec) [RecKeeps r] :
    KeepsScope (ParseAlignof r) := by
  unfold ParseAlignof
  try dsimp only []
  repeat' (first
    | infer_instance | apply KeepsScope.block_of | apply KeepsScope.bind_of | apply KeepsScope.ite_of
    | intro _ | exact KeepsScope.modifyP _ (fun _ => rfl) | split)

instance keeps_ParsePrefixIncDec (r : Rec) (tok : Token) [RecKeeps r] :
    KeepsScope (ParsePrefixIncDec r tok) := by
  unfold ParsePrefixIncDec
  try dsimp only []
  repeat' (first
    | infer_instance | apply KeepsScope.block_of | apply KeepsScope.bind_of | apply KeepsScope.ite_of
    | intro _ | exact KeepsScope.modifyP _ (fun _ => rfl) | split)

instance keeps_ParseUnaryOp (r : Rec) (tok : Token) (op : Tag) [RecKeeps r] :
    KeepsScope (ParseUnaryOp r tok op) := by
  unfold ParseUnaryOp
  try dsimp only []
  repeat' (first
    | infer_instance | apply KeepsScope.block_of | apply KeepsScope.bind_of | apply KeepsScope.ite_of
    | intro _ | exact KeepsScope.modifyP _ (fun _ => rfl) | split)

instance keeps_ParseUnaryExpr (r : Rec) [RecKeeps r] :
    KeepsScope (ParseUnaryExpr r) := by
  unfold ParseUnaryExpr
  try dsimp only []
  repeat' (first
    | infer_instance | apply KeepsScope.block_of | apply KeepsScope.bind_of | apply KeepsScope.ite_of
    | intro _ | exact KeepsScope.modifyP _ (fun _ => rfl) | split)

instance keeps_ParseCastExpr (r : Rec) [RecKeeps r] :
    KeepsScope (ParseCastExpr r) := by
  unfold ParseCastExpr
  try dsimp only []
  repeat' (first
    | infer_instance | apply KeepsScope.block_of | apply KeepsScope.bind_of | apply KeepsScope.ite_of
    | intro _ | exact KeepsScope.modifyP _ (fun _ => rfl) | split)

instance keeps_ParseMultiplicativeExpr_loop (r : Rec) (lhs : Expr) (tok : Token) [RecKeeps r] :
    KeepsScope (ParseMultiplicativeExpr.loop r lhs tok) := by
  unfold ParseMultiplicativeExpr.loop
  try dsimp only []
  repeat' (first
    | infer_instance | apply KeepsScope.block_of | apply KeepsScope.bind_of | apply KeepsScope.ite_of
    | intro _ | exact KeepsScope.modifyP _ (fun _ => rfl) | split)

instance keeps_ParseMultiplicativeExpr (r : Rec) [RecKeeps r] :
    KeepsScope (ParseMultiplicativeExpr r) := by
  unfold ParseMultiplicativeExpr
  try dsimp only []
  repeat' (first
    | infer_instance | apply KeepsScope.block_of | apply KeepsScope.bind_of | apply KeepsScope.ite_of
    | intro _ | exact KeepsScope.modifyP _ (fun _ => rfl) | split)

instance keeps_ParseAdditiveExpr_loop (r : Rec) (lhs : Expr) (tok : Token) [RecKeeps r] :
    KeepsScope (ParseAdditiveExpr.loop r lhs tok) := by
  unfold ParseAdditiveExpr.loop
  try dsimp only []
  repeat' (first
    | infer_instance | apply KeepsScope.block_of | apply KeepsScope.bind_of | apply KeepsScope.ite_of
    | intro _ | exact KeepsScope.modifyP _ (fun _ => rfl) | split)

instance keeps_ParseAdditiveExpr (r : Rec) [RecKeeps r] :
    KeepsScope (ParseAdditiveExpr r) := by
  unfold ParseAdditiveExpr
  try dsimp only []
  repeat' (first
    | infer_instance | apply KeepsScope.block_of | apply KeepsScope.bind_of | apply KeepsScope.ite_of
    | intro _ | exact KeepsScope.modifyP _ (fun _ => rfl) | split)

instance keeps_ParseShiftExpr_loop (r : Rec) (lhs : Expr) (tok : Token) [RecKeeps r] :
    KeepsScope (ParseShiftExpr.loop r lhs tok) := by
  unfold ParseShiftExpr.loop
  try dsimp only []
  repeat' (first
    | infer_instance | apply KeepsScope.block_of | apply KeepsScope.bind_of | apply KeepsScope.ite_of
    | intro _ | exact KeepsScope.modifyP _ (fun _ => rfl) | split)

instance keeps_ParseShiftExpr (r : Rec) [RecKeeps r] :
    KeepsScope (ParseShiftExpr r) := by
  unfold ParseShiftExpr
  try dsimp only []
  repeat' (first
    | infer_instance | apply KeepsScope.block_of | apply KeepsScope.bind_of | apply KeepsScope.ite_of
    | intro _ | exact KeepsScope.modifyP _ (fun _ => rfl) | split)

instance keeps_ParseRelationalExpr_loop (r : Rec) (lhs : Expr) (tok : Token) [RecKeeps r] :
    KeepsScope (ParseRelationalExpr.loop r lhs tok) := by
  unfold ParseRelationalExpr.loop
  try dsimp only []
  repeat' (first
    | infer_instance | apply KeepsScope.block_of | apply KeepsScope.bind_of | apply KeepsScope.ite_of
    | intro _ | exact KeepsScope.modifyP _ (fun _ => rfl) | split)

instance keeps_ParseRelationalExpr (r : Rec) [RecKeeps r] :
    KeepsScope (ParseRelationalExpr r) := by
  unfold ParseRelationalExpr
  try dsimp only []
  repeat' (first
    | infer_instance | apply KeepsScope.block_of | apply KeepsScope.bind_of | apply KeepsScope.ite_of
    | intro _ | exact KeepsScope.modifyP _ (fun _ => rfl) | split)

instance keeps_ParseEqualityExpr_loop (r : Rec) (lhs : Expr) (tok : Token) [RecKeeps r] :
    KeepsScope (ParseEqualityExpr.loop r lhs tok) := by
  unfold ParseEqualityExpr.loop
  try dsimp only []
  repeat' (first
    | infer_instance | apply KeepsScope.block_of | apply KeepsScope.bind_of | apply KeepsScope.ite_of
    | intro _ | exact KeepsScope.modifyP _ (fun _ => rfl) | split)

instance keeps_ParseEqualityExpr (r : Rec) [RecKeeps r] :
    KeepsScope (ParseEqualityExpr r) := by
  unfold ParseEqualityExpr
  try dsimp only []
  repeat' (first
    | infer_instance | apply KeepsScope.block_of | apply KeepsScope.bind_of | apply KeepsScope.ite_of
    | intro _ | exact KeepsScope.modifyP _ (fun _ => rfl) | split)

instance keeps_ParseBitiwiseAndExpr_loop (r : Rec) (lhs : Expr) (tok : Token) [RecKeeps r] :
    KeepsScope (ParseBitiwiseAndExpr.loop r lhs tok) := by
  unfold ParseBitiwiseAndExpr.loop
  try dsimp only []
  repeat' (first
    | infer_instance | apply KeepsScope.block_of | apply KeepsScope.bind_of | apply KeepsScope.ite_of
    | intro _ | exact KeepsScope.modifyP _ (fun _ => rfl) | split)

instance keeps_ParseBitiwiseAndExpr (r : Rec) [RecKeeps r] :
    KeepsScope (ParseBitiwiseAndExpr r) := by
  unfold ParseBitiwiseAndExpr
  try dsimp only []
  repeat' (first
    | infer_instance | apply KeepsScope.block_of | apply KeepsScope.bind_of | apply KeepsScope.ite_of
    | intro _ | exact KeepsScope.modifyP _ (fun _ => rfl) | split)

instance keeps_ParseBitwiseXorExpr_loop (r : Rec) (lhs : Expr) (tok : Token) [RecKeeps r] :
    KeepsScope (ParseBitwiseXorExpr.loop r lhs tok) := by
  unfold ParseBitwiseXorExpr.loop
  try dsimp only []
  repeat' (first
    | infer_instance | apply KeepsScope.block_of | apply KeepsScope.bind_of | apply KeepsScope.ite_of
    | intro _ | exact KeepsScope.modifyP _ (fun _ => rfl) | split)

instance keeps_ParseBitwiseXorExpr (r : Rec) [RecKeeps r] :
    KeepsScope (ParseBitwiseXorExpr r) := by
  unfold ParseBitwiseXorExpr
  try dsimp only []
  repeat' (first
    | infer_instance | apply KeepsScope.block_of | apply KeepsScope.bind_of | apply KeepsScope.ite_of
    | intro _ | exact KeepsScope.modifyP _ (fun _ => rfl) | split)

instance keeps_ParseBitwiseOrExpr_loop (r : Rec) (lhs : Expr) (tok : Token) [RecKeeps r] :
    KeepsScope (ParseBitwiseOrExpr.loop r lhs tok) := by
  unfold ParseBitwiseOrExpr.loop
  try dsimp only []
  repeat' (first
    | infer_instance | apply KeepsScope.block_of | apply KeepsScope.bind_of | apply KeepsScope.ite_of
    | intro _ | exact KeepsScope.modifyP _ (fun _ => rfl) | split)

instance keeps_ParseBitwiseOrExpr (r : Rec) [RecKeeps r] :
    KeepsScope (ParseBitwiseOrExpr r) := by
  unfold ParseBitwiseOrExpr
  try dsimp only []
  repeat' (first
    | infer_instance | apply KeepsScope.block_of | apply KeepsScope.bind_of | apply KeepsScope.ite_of
    | intro _ | exact KeepsScope.modifyP _ (fun _ => rfl) | split)

instance keeps_ParseLogicalAndExpr_loop (r : Rec) (lhs : Expr) (tok : Token) [RecKeeps r] :
    KeepsScope (ParseLogicalAndExpr.loop r lhs tok) := by
  unfold ParseLogicalAndExpr.loop
  try dsimp only []
  repeat' (first
    | infer_instance | apply KeepsScope.block_of | apply KeepsScope.bind_of | apply KeepsScope.ite_of
    | intro _ | exact KeepsScope.modifyP _ (fun _ => rfl) | split)

instance keeps_ParseLogicalAndExpr (r : Rec) [RecKeeps r] :
    KeepsScope (ParseLogicalAndExpr r) := by
  unfold ParseLogicalAndExpr
  try dsimp only []
  repeat' (first
    | infer_instance | apply KeepsScope.block_of | apply KeepsScope.bind_of | apply KeepsScope.ite_of
    | intro _ | exact KeepsScope.modifyP _ (fun _ => rfl) | split)

instance keeps_ParseLogicalOrExpr_loop (r : Rec) (lhs : Expr) (tok : Token) [RecKeeps r] :
    KeepsScope (ParseLogicalOrExpr.loop r lhs tok) := by
  unfold ParseLogicalOrExpr.loop
  try dsimp only []
  repeat' (first
    | infer_instance | apply KeepsScope.block_of | apply KeepsScope.bind_of | apply KeepsScope.ite_of
    | intro _ | exact KeepsScope.modifyP _ (fun _ => rfl) | split)

instance keeps_ParseLogicalOrExpr (r : Rec) [RecKeeps r] :
    KeepsScope (ParseLogicalOrExpr r) := by
  unfold ParseLogicalOrExpr
  try dsimp only []
  repeat' (first
    | infer_instance | apply KeepsScope.block_of | apply KeepsScope.bind_of | apply KeepsScope.ite_of
    | intro _ | exact KeepsScope.modifyP _ (fun _ => rfl) | split)

instance keeps_ParseConditionalExpr (r : Rec) [RecKeeps r] :
    KeepsScope (ParseConditionalExpr r) := by
  unfold ParseConditionalExpr
  try dsimp only []
  repeat' (first
    | infer_instance | apply KeepsScope.block_of | apply KeepsScope.bind_of | apply KeepsScope.ite_of
    | intro _ | exact KeepsScope.modifyP _ (fun _ => rfl) | split)

instance keeps_ParseAssignExpr (r : Rec) [RecKeeps r] :
    KeepsScope (ParseAssignExpr r) := by
  unfold ParseAssignExpr
  try dsimp only []
  repeat' (first
    | infer_instance | apply KeepsScope.block_of | apply KeepsScope.bind_of | apply KeepsScope.ite_of
    | intro _ | exact KeepsScope.modifyP _ (fun _ => rfl) | split)

instance keeps_ParseCommaExpr_loop (r : Rec) (lhs : Expr) (tok : Token) [RecKeeps r] :
    KeepsScope (ParseCommaExpr.loop r lhs tok) := by
  unfold ParseCommaExpr.loop
  try dsimp only []
  repeat' (first
    | infer_instance | apply KeepsScope.block_of | apply KeepsScope.bind_of | apply KeepsScope.ite_of
    | intro _ | exact KeepsScope.modifyP _ (fun _ => rfl) | split)

instance keeps_ParseCommaExpr (r : Rec) [RecKeeps r] :
    KeepsScope (ParseCommaExpr r) := by
  unfold ParseCommaExpr
  try dsimp only []
  repeat' (first
    | infer_instance | apply KeepsScope.block_of | apply KeepsScope.bind_of | apply KeepsScope.ite_of
    | intro _ | exact KeepsScope.modifyP _ (fun _ => rfl) | split)

instance keeps_ParseExpr (r : Rec) [RecKeeps r] :
    KeepsScope (ParseExpr r) := by
  unfold ParseExpr
  try dsimp only []
  repeat' (first
    | infer_instance | apply KeepsScope.block_of | apply KeepsScope.bind_of | apply KeepsScope.ite_of
    | intro _ | exact KeepsScope.modifyP _ (fun _ => rfl) | split)

instance keeps_EvalInteger (e : Expr) (errTok : Option Token) :
    KeepsScope (EvalInteger e errTok) := by
  unfold EvalInteger
  try dsimp only []
  repeat' (first
    | infer_instance | apply KeepsScope.block_of | apply KeepsScope.bind_of | apply KeepsScope.ite_of
    | intro _ | exact KeepsScope.modifyP _ (fun _ => rfl) | split)

instance keeps_FindTagInCurScope (name : String) :
    KeepsScope (FindTagInCurScope name) := by
  unfold FindTagInCurScope
  try dsimp only []
  repeat' (first
    | infer_instance | apply KeepsScope.block_of | apply KeepsScope.bind_of | apply KeepsScope.ite_of
    | intro _ | exact KeepsScope.modifyP _ (fun _ => rfl) | split)

instance keeps_NewStructUnionType (isStruct : Bool) :
    KeepsScope (NewStructUnionType isStruct) := by
  unfold NewStructUnionType
  try dsimp only []
  repeat' (first
    | infer_instance | apply KeepsScope.block_of | apply KeepsScope.bind_of | apply KeepsScope.ite_of
    | intro _ | exact KeepsScope.modifyP _ (fun _ => rfl) | split)

instance keeps_SetComplete (t : CType) (flag : Bool) :
    KeepsScope (SetComplete t flag) := by
  unfold SetComplete
  try dsimp only []
  repeat' (first
    | infer_instance | apply KeepsScope.block_of | apply KeepsScope.bind_of | apply KeepsScope.ite_of
    | intro _ | exact KeepsScope.modifyP _ (fun _ => rfl) | split)

instance keeps_ParseQual_loop (r : Rec) (qualSpec : Nat) [RecKeeps r] :
    KeepsScope (ParseQual.loop r qualSpec) := by
  unfold ParseQual.loop
  try dsimp only []
  repeat' (first
    | infer_instance | apply KeepsScope.block_of | apply KeepsScope.bind_of | apply KeepsScope.ite_of
    | intro _ | exact KeepsScope.modifyP _ (fun _ => rfl) | split)

instance keeps_ParseQual (r : Rec) [RecKeeps r] :
    KeepsScope (ParseQual r) := by
  unfold ParseQual
  try dsimp only []
  repeat' (first
    | infer_instance | apply KeepsScope.block_of | apply KeepsScope.bind_of | apply KeepsScope.ite_of
    | intro _ | exact KeepsScope.modifyP _ (fun _ => rfl) | split)

instance keeps_ParsePointer_loop (r : Rec) (retType typePointedTo : CType) [RecKeeps r] :
    KeepsScope (ParsePointer.loop r retType typePointedTo) := by
  unfold ParsePointer.loop
  try dsimp only []
  repeat' (first
    | infer_instance | apply KeepsScope.block_of | apply KeepsScope.bind_of | apply KeepsScope.ite_of
    | intro _ | exact KeepsScope.modifyP _ (fun _ => rfl) | split)

instance keeps_ParsePointer (r : Rec) (typePointedTo : CType) [RecKeeps r] :
    KeepsScope (ParsePointer r typePointedTo) := by
  unfold ParsePointer
  try dsimp only []
  repeat' (first
    | infer_instance | apply KeepsScope.block_of | apply KeepsScope.bind_of | apply KeepsScope.ite_of
    | intro _ | exact KeepsScope.modifyP _ (fun _ => rfl) | split)

instance keeps_ModifyBase (type base newBase : CType) :
    KeepsScope (ModifyBase type base newBase) := by
  unfold ModifyBase
  try dsimp only []
  repeat' (first
    | infer_instance | apply KeepsScope.block_of | apply KeepsScope.bind_of | apply KeepsScope.ite_of
    | intro _ | exact KeepsScope.modifyP _ (fun _ => rfl) | split)

instance keeps_ParseAlignas (r : Rec) [RecKeeps r] :
    KeepsScope (ParseAlignas r) := by
  unfold ParseAlignas
  try dsimp only []
  repeat' (first
    | infer_instance | apply KeepsScope.block_of | apply KeepsScope.bind_of | apply KeepsScope.ite_of
    | intro _ | exact KeepsScope.modifyP _ (fun _ => rfl) | split)

instance keeps_ParseEnumerator_loop (r : Rec) (type : CType) (val : Int) [RecKeeps r] :
    KeepsScope (ParseEnumerator.loop r type val) := by
  unfold ParseEnumerator.loop
  try dsimp only []
  repeat' (first
    | infer_instance | apply KeepsScope.block_of | apply KeepsScope.bind_of | apply KeepsScope.ite_of
    | intro _ | exact KeepsScope.modifyP _ (fun _ => rfl) | split)

instance keeps_ParseEnumerator (r : Rec) (type : CType) [RecKeeps r] :
    KeepsScope (ParseEnumerator r type) := by
  unfold ParseEnumerator
  try dsimp only []
  repeat' (first
    | infer_instance | apply KeepsScope.block_of | apply KeepsScope.bind_of | apply KeepsScope.ite_of
    | intro _ | exact KeepsScope.modifyP _ (fun _ => rfl) | split)

instance keeps_ParseEnumSpec_enumDecl (r : Rec) (tagName : String) [RecKeeps r] :
    KeepsScope (ParseEnumSpec.enumDecl r tagName) := by
  unfold ParseEnumSpec.enumDecl
  try dsimp only []
  repeat' (first
    | infer_instance | apply KeepsScope.block_of | apply KeepsScope.bind_of | apply KeepsScope.ite_of
    | intro _ | exact KeepsScope.modifyP _ (fun _ => rfl) | split)

instance keeps_ParseEnumSpec (r : Rec) [RecKeeps r] :
    KeepsScope (ParseEnumSpec r) := by
  unfold ParseEnumSpec
  try dsimp only []
  repeat' (first
    | infer_instance | apply KeepsScope.block_of | apply KeepsScope.bind_of | apply KeepsScope.ite_of
    | intro _ | exact KeepsScope.modifyP _ (fun _ => rfl) | split)

instance keeps_ParseSpecQual (r : Rec) [RecKeeps r] :
    KeepsScope (ParseSpecQual r) := by
  unfold ParseSpecQual
  try dsimp only []
  repeat' (first
    | infer_instance | apply KeepsScope.block_of | apply KeepsScope.bind_of | apply KeepsScope.ite_of
    | intro _ | exact KeepsScope.modifyP _ (fun _ => rfl) | split)

instance keeps_ParseStructDecl_loop (r : Rec) (type : CType) [RecKeeps r] :
    KeepsScope (ParseStructDecl.loop r type) := by
  unfold ParseStructDecl.loop
  try dsimp only []
  repeat' (first
    | infer_instance | apply KeepsScope.block_of | apply KeepsScope.bind_of | apply KeepsScope.ite_of
    | intro _ | exact KeepsScope.modifyP _ (fun _ => rfl) | split)

instance keeps_ParseStructDecl (r : Rec) (type : CType) [RecKeeps r] :
    KeepsScope (ParseStructDecl r type) := by
  unfold ParseStructDecl
  try dsimp only []
  repeat' (first
    | infer_instance | apply KeepsScope.block_of | apply KeepsScope.bind_of | apply KeepsScope.ite_of
    | intro _ | exact KeepsScope.modifyP _ (fun _ => rfl) | split)

instance keeps_ParseStructUnionSpec_structDecl (r : Rec) (isStruct : Bool) (tagName : String) [RecKeeps r] :
    KeepsScope (ParseStructUnionSpec.structDecl r isStruct tagName) := by
  unfold ParseStructUnionSpec.structDecl
  try dsimp only []
  repeat' (first
    | infer_instance | apply KeepsScope.block_of | apply KeepsScope.bind_of | apply KeepsScope.ite_of
    | intro _ | exact KeepsScope.modifyP _ (fun _ => rfl) | split)

instance keeps_ParseStructUnionSpec (r : Rec) (isStruct : Bool) [RecKeeps r] :
    KeepsScope (ParseStructUnionSpec r isStruct) := by
  unfold ParseStructUnionSpec
  try dsimp only []
  repeat' (first
    | infer_instance | apply KeepsScope.block_of | apply KeepsScope.bind_of | apply KeepsScope.ite_of
    | intro _ | exact KeepsScope.modifyP _ (fun _ => rfl) | split)

instance keeps_ParseDeclSpec_error (tok : Token) :
    KeepsScope (ParseDeclSpec.error tok) := by
  unfold ParseDeclSpec.error
  try dsimp only []
  repeat' (first
    | infer_instance | apply KeepsScope.block_of | apply KeepsScope.bind_of | apply KeepsScope.ite_of
    | intro _ | exact KeepsScope.modifyP _ (fun _ => rfl) | split)

instance keeps_ParseDeclSpec_endOfLoop (outNull : Bool) (tok : Token) (v : DeclSpecVars) :
    KeepsScope (ParseDeclSpec.endOfLoop outNull tok v) := by
  unfold ParseDeclSpec.endOfLoop
  try dsimp only []
  repeat' (first
    | infer_instance | apply KeepsScope.block_of | apply KeepsScope.bind_of | apply KeepsScope.ite_of
    | intro _ | exact KeepsScope.modifyP _ (fun _ => rfl) | split)

instance keeps_ParseDeclSpec_loop (r : Rec) (outNull : Bool) (v : DeclSpecVars) [RecKeeps r] :
    KeepsScope (ParseDeclSpec.loop r outNull v) := by
  unfold ParseDeclSpec.loop
  try dsimp only []
  repeat' (first
    | infer_instance | apply KeepsScope.block_of | apply KeepsScope.bind_of | apply KeepsScope.ite_of
    | intro _ | exact KeepsScope.modifyP _ (fun _ => rfl) | split)

instance keeps_ParseDeclSpec (r : Rec) (outNull : Bool) [RecKeeps r] :
    KeepsScope (ParseDeclSpec r outNull) := by
  unfold ParseDeclSpec
  try dsimp only []
  repeat' (first
    | infer_instance | apply KeepsScope.block_of | apply KeepsScope.bind_of | apply KeepsScope.ite_of
    | intro _ | exact KeepsScope.modifyP _ (fun _ => rfl) | split)

instance keeps_ParseArrayLength (r : Rec) [RecKeeps r] :
    KeepsScope (ParseArrayLength r) := by
  unfold ParseArrayLength
  try dsimp only []
  repeat' (first
    | infer_instance | apply KeepsScope.block_of | apply KeepsScope.bind_of | apply KeepsScope.ite_of
    | intro _ | exact KeepsScope.modifyP _ (fun _ => rfl) | split)

instance keeps_ParseParamDecl (r : Rec) [RecKeeps r] :
    KeepsScope (ParseParamDecl r) := by
  unfold ParseParamDecl
  try dsimp only []
  repeat' (first
    | infer_instance | apply KeepsScope.block_of | apply KeepsScope.bind_of | apply KeepsScope.ite_of
    | intro _ | exact KeepsScope.modifyP _ (fun _ => rfl) | split)

instance keeps_ParseParamList_loop (r : Rec) (params : List CType) [RecKeeps r] :
    KeepsScope (ParseParamList.loop r params) := by
  unfold ParseParamList.loop
  try dsimp only []
  repeat' (first
    | infer_instance | apply KeepsScope.block_of | apply KeepsScope.bind_of | apply KeepsScope.ite_of
    | intro _ | exact KeepsScope.modifyP _ (fun _ => rfl) | split)

instance keeps_ParseParamList (r : Rec) [RecKeeps r] :
    KeepsScope (ParseParamList r) := by
  unfold ParseParamList
  try dsimp only []
  repeat' (first
    | infer_instance | apply KeepsScope.block_of | apply KeepsScope.bind_of | apply KeepsScope.ite_of
    | intro _ | exact KeepsScope.modifyP _ (fun _ => rfl) | split)

instance keeps_ParseArrayFuncDeclarator (r : Rec) (base : CType) [RecKeeps r] :
    KeepsScope (ParseArrayFuncDeclarator r base) := by
  unfold ParseArrayFuncDeclarator
  try dsimp only []
  repeat' (first
    | infer_instance | apply KeepsScope.block_of | apply KeepsScope.bind_of | apply KeepsScope.ite_of
    | intro _ | exact KeepsScope.modifyP _ (fun _ => rfl) | split)

instance keeps_ParseDeclarator (r : Rec) (base : CType) [RecKeeps r] :
    KeepsScope (ParseDeclarator r base) := by
  unfold ParseDeclarator
  try dsimp only []
  repeat' (first
    | infer_instance | apply KeepsScope.block_of | apply KeepsScope.bind_of | apply KeepsScope.ite_of
    | intro _ | exact KeepsScope.modifyP _ (fun _ => rfl) | split)

instance keeps_ParseAbstractDeclarator (r : Rec) (type : CType) [RecKeeps r] :
    KeepsScope (ParseAbstractDeclarator r type) := by
  unfold ParseAbstractDeclarator
  try dsimp only []
  repeat' (first
    | infer_instance | apply KeepsScope.block_of | apply KeepsScope.bind_of | apply KeepsScope.ite_of
    | intro _ | exact KeepsScope.modifyP _ (fun _ => rfl) | split)

instance keeps_ParseTypeName (r : Rec) [RecKeeps r] :
    KeepsScope (ParseTypeName r) := by
  unfold ParseTypeName
  try dsimp only []
  repeat' (first
    | infer_instance | apply KeepsScope.block_of | apply KeepsScope.bind_of | apply KeepsScope.ite_of
    | intro _ | exact KeepsScope.modifyP _ (fun _ => rfl) | split)

instance keeps_ParseDirectDeclarator (r : Rec) (type : CType) (storageSpec funcSpec : Nat) [RecKeeps r] :
    KeepsScope (ParseDirectDeclarator r type storageSpec funcSpec) := by
  unfold ParseDirectDeclarator
  try dsimp only []
  repeat' (first
    | infer_instance | apply KeepsScope.block_of | apply KeepsScope.bind_of | apply KeepsScope.ite_of
    | intro _ | exact KeepsScope.modifyP _ (fun _ => rfl) | split)

instance keeps_ParseStructInitializer (obj : Identifier) :
    KeepsScope (ParseStructInitializer obj) := by
  unfold ParseStructInitializer
  try dsimp only []
  repeat' (first
    | infer_instance | apply KeepsScope.block_of | apply KeepsScope.bind_of | apply KeepsScope.ite_of
    | intro _ | exact KeepsScope.modifyP _ (fun _ => rfl) | split)

instance keeps_arrayElement (arr : Identifier) (idx : Nat) :
    KeepsScope (arrayElement arr idx) := by
  unfold arrayElement
  try dsimp only []
  repeat' (first
    | infer_instance | apply KeepsScope.block_of | apply KeepsScope.bind_of | apply KeepsScope.ite_of
    | intro _ | exact KeepsScope.modifyP _ (fun _ => rfl) | split)

instance keeps_ParseArrayInitializer_loop (r : Rec) (arr : Identifier) (v : ArrayInitVars) [RecKeeps r] :
    KeepsScope (ParseArrayInitializer.loop r arr v) := by
  unfold ParseArrayInitializer.loop
  try dsimp only []
  repeat' (first
    | infer_instance | apply KeepsScope.block_of | apply KeepsScope.bind_of | apply KeepsScope.ite_of
    | intro _ | exact KeepsScope.modifyP _ (fun _ => rfl) | split)

instance keeps_ParseArrayInitializer (r : Rec) (arr : Identifier) [RecKeeps r] :
    KeepsScope (ParseArrayInitializer r arr) := by
  unfold ParseArrayInitializer
  try dsimp only []
  repeat' (first
    | infer_instance | apply KeepsScope.block_of | apply KeepsScope.bind_of | apply KeepsScope.ite_of
    | intro _ | exact KeepsScope.modifyP _ (fun _ => rfl) | split)

instance keeps_ParseInitializer (r : Rec) (obj : Option Identifier) [RecKeeps r] :
    KeepsScope (ParseInitializer r obj) := by
  unfold ParseInitializer
  try dsimp only []
  repeat' (first
    | infer_instance | apply KeepsScope.block_of | apply KeepsScope.bind_of | apply KeepsScope.ite_of
    | intro _ | exact KeepsScope.modifyP _ (fun _ => rfl) | split)

instance keeps_ParseInitDeclarator (r : Rec) (type : CType) (storageSpec funcSpec : Nat) [RecKeeps r] :
    KeepsScope (ParseInitDeclarator r type storageSpec funcSpec) := by
  unfold ParseInitDeclarator
  try dsimp only []
  repeat' (first
    | infer_instance | apply KeepsScope.block_of | apply KeepsScope.bind_of | apply KeepsScope.ite_of
    | intro _ | exact KeepsScope.modifyP _ (fun _ => rfl) | split)

instance keeps_ParseDecl_loop (r : Rec) (type : CType) (storageSpec funcSpec : Nat) (stmts : List Stmt) [RecKeeps r] :
    KeepsScope (ParseDecl.loop r type storageSpec funcSpec stmts) := by
  unfold ParseDecl.loop
  try dsimp only []
  repeat' (first
    | infer_instance | apply KeepsScope.block_of | apply KeepsScope.bind_of | apply KeepsScope.ite_of
    | intro _ | exact KeepsScope.modifyP _ (fun _ => rfl) | split)

instance keeps_ParseDecl (r : Rec) [RecKeeps r] :
    KeepsScope (ParseDecl r) := by
  unfold ParseDecl
  try dsimp only []
  repeat' (first
    | infer_instance | apply KeepsScope.block_of | apply KeepsScope.bind_of | apply KeepsScope.ite_of
    | intro _ | exact KeepsScope.modifyP _ (fun _ => rfl) | split)

instance keeps_AddLabel (name : String) (label : Nat) :
    KeepsScope (AddLabel name label) := by
  unfold AddLabel
  try dsimp only []
  repeat' (first
    | infer_instance | apply KeepsScope.block_of | apply KeepsScope.bind_of | apply KeepsScope.ite_of
    | intro _ | exact KeepsScope.modifyP _ (fun _ => rfl) | split)

instance keeps_ParseCompoundStmt_loop (r : Rec) (stmts : List Stmt) [RecKeeps r] :
    KeepsScope (ParseCompoundStmt.loop r stmts) := by
  unfold ParseCompoundStmt.loop
  try dsimp only []
  repeat' (first
    | infer_instance | apply KeepsScope.block_of | apply KeepsScope.bind_of | apply KeepsScope.ite_of
    | intro _ | exact KeepsScope.modifyP _ (fun _ => rfl) | split)

instance keeps_ParseCompoundStmt (r : Rec) [RecKeeps r] :
    KeepsScope (ParseCompoundStmt r) := by
  unfold ParseCompoundStmt
  try dsimp only []
  repeat' (first
    | infer_instance | apply KeepsScope.block_of | apply KeepsScope.bind_of | apply KeepsScope.ite_of
    | intro _ | exact KeepsScope.modifyP _ (fun _ => rfl) | split)

instance keeps_ParseIfStmt (r : Rec) [RecKeeps r] :
    KeepsScope (ParseIfStmt r) := by
  unfold ParseIfStmt
  try dsimp only []
  repeat' (first
    | infer_instance | apply KeepsScope.block_of | apply KeepsScope.bind_of | apply KeepsScope.ite_of
    | intro _ | exact KeepsScope.modifyP _ (fun _ => rfl) | split)

instance keeps_EXIT_LOOP_BODY (backup : Option Nat × Option Nat) :
    KeepsScope (EXIT_LOOP_BODY backup) := by
  unfold EXIT_LOOP_BODY
  try dsimp only []
  repeat' (first
    | infer_instance | apply KeepsScope.block_of | apply KeepsScope.bind_of | apply KeepsScope.ite_of
    | intro _ | exact KeepsScope.modifyP _ (fun _ => rfl) | split)

instance keeps_ParseForStmt_body (r : Rec) [RecKeeps r] :
    KeepsScope (ParseForStmt.body r) := by
  unfold ParseForStmt.body
  try dsimp only []
  repeat' (first
    | infer_instance | apply KeepsScope.block_of | apply KeepsScope.bind_of | apply KeepsScope.ite_of
    | intro _ | exact KeepsScope.modifyP _ (fun _ => rfl) | split)

instance keeps_ParseForStmt (r : Rec) [RecKeeps r] :
    KeepsScope (ParseForStmt r) := by
  unfold ParseForStmt
  try dsimp only []
  repeat' (first
    | infer_instance | apply KeepsScope.block_of | apply KeepsScope.bind_of | apply KeepsScope.ite_of
    | intro _ | exact KeepsScope.modifyP _ (fun _ => rfl) | split)

instance keeps_ParseWhileStmt (r : Rec) [RecKeeps r] :
    KeepsScope (ParseWhileStmt r) := by
  unfold ParseWhileStmt
  try dsimp only []
  repeat' (first
    | infer_instance | apply KeepsScope.block_of | apply KeepsScope.bind_of | apply KeepsScope.ite_of
    | intro _ | exact KeepsScope.modifyP _ (fun _ => rfl) | split)

instance keeps_ParseDoStmt (r : Rec) [RecKeeps r] :
    KeepsScope (ParseDoStmt r) := by
  unfold ParseDoStmt
  try dsimp only []
  repeat' (first
    | infer_instance | apply KeepsScope.block_of | apply KeepsScope.bind_of | apply KeepsScope.ite_of
    | intro _ | exact KeepsScope.modifyP _ (fun _ => rfl) | split)

instance keeps_EXIT_SWITCH_BODY (b : SwitchBackup) :
    KeepsScope (EXIT_SWITCH_BODY b) := by
  unfold EXIT_SWITCH_BODY
  try dsimp only []
  repeat' (first
    | infer_instance | apply KeepsScope.block_of | apply KeepsScope.bind_of | apply KeepsScope.ite_of
    | intro _ | exact KeepsScope.modifyP _ (fun _ => rfl) | split)

instance keeps_ParseSwitchStmt_tests (tok : Token) (t : Expr) (l : List (Int × Nat)) :
    KeepsScope (ParseSwitchStmt.tests tok t l) := by
  induction l with
  | nil => unfold ParseSwitchStmt.tests; infer_instance
  | cons p rest ih =>
    unfold ParseSwitchStmt.tests
    try dsimp only []
    repeat' (first
    | infer_instance | apply KeepsScope.block_of | apply KeepsScope.bind_of | apply KeepsScope.ite_of
    | intro _ | exact KeepsScope.modifyP _ (fun _ => rfl) | split)

instance keeps_ParseSwitchStmt (r : Rec) [RecKeeps r] :
    KeepsScope (ParseSwitchStmt r) := by
  unfold ParseSwitchStmt
  try dsimp only []
  repeat' (first
    | infer_instance | apply KeepsScope.block_of | apply KeepsScope.bind_of | apply KeepsScope.ite_of
    | intro _ | exact KeepsScope.modifyP _ (fun _ => rfl) | split)

instance keeps_ParseCaseStmt (r : Rec) [RecKeeps r] :
    KeepsScope (ParseCaseStmt r) := by
  unfold ParseCaseStmt
  try dsimp only []
  repeat' (first
    | infer_instance | apply KeepsScope.block_of | apply KeepsScope.bind_of | apply KeepsScope.ite_of
    | intro _ | exact KeepsScope.modifyP _ (fun _ => rfl) | split)

instance keeps_ParseDefaultStmt (r : Rec) [RecKeeps r] :
    KeepsScope (ParseDefaultStmt r) := by
  unfold ParseDefaultStmt
  try dsimp only []
  repeat' (first
    | infer_instance | apply KeepsScope.block_of | apply KeepsScope.bind_of | apply KeepsScope.ite_of
    | intro _ | exact KeepsScope.modifyP _ (fun _ => rfl) | split)

instance keeps_ParseContinueStmt  :
    KeepsScope ParseContinueStmt := by
  unfold ParseContinueStmt
  try dsimp only []
  repeat' (first
    | infer_instance | apply KeepsScope.block_of | apply KeepsScope.bind_of | apply KeepsScope.ite_of
    | intro _ | exact KeepsScope.modifyP _ (fun _ => rfl) | split)

instance keeps_ParseBreakStmt  :
    KeepsScope ParseBreakStmt := by
  unfold ParseBreakStmt
  try dsimp only []
  repeat' (first
    | infer_instance | apply KeepsScope.block_of | apply KeepsScope.bind_of | apply KeepsScope.ite_of
    | intro _ | exact KeepsScope.modifyP _ (fun _ => rfl) | split)

instance keeps_ParseReturnStmt (r : Rec) [RecKeeps r] :
    KeepsScope (ParseReturnStmt r) := by
  unfold ParseReturnStmt
  try dsimp only []
  repeat' (first
    | infer_instance | apply KeepsScope.block_of | apply KeepsScope.bind_of | apply KeepsScope.ite_of
    | intro _ | exact KeepsScope.modifyP _ (fun _ => rfl) | split)

instance keeps_ParseGotoStmt  :
    KeepsScope ParseGotoStmt := by
  unfold ParseGotoStmt
  try dsimp only []
  repeat' (first
    | infer_instance | apply KeepsScope.block_of | apply KeepsScope.bind_of | apply KeepsScope.ite_of
    | intro _ | exact KeepsScope.modifyP _ (fun _ => rfl) | split)

instance keeps_ParseLabelStmt (r : Rec) (label : Token) [RecKeeps r] :
    KeepsScope (ParseLabelStmt r label) := by
  unfold ParseLabelStmt
  try dsimp only []
  repeat' (first
    | infer_instance | apply KeepsScope.block_of | apply KeepsScope.bind_of | apply KeepsScope.ite_of
    | intro _ | exact KeepsScope.modifyP _ (fun _ => rfl) | split)

instance keeps_ParseStmt (r : Rec) [RecKeeps r] :
    KeepsScope (ParseStmt r) := by
  unfold ParseStmt
  try dsimp only []
  repeat' (first
    | infer_instance | apply KeepsScope.block_of | apply KeepsScope.bind_of | apply KeepsScope.ite_of
    | intro _ | exact KeepsScope.modifyP _ (fun _ => rfl) | split)

instance keeps_EnterFunc  :
    KeepsScope EnterFunc := by
  unfold EnterFunc
  try dsimp only []
  repeat' (first
    | infer_instance | apply KeepsScope.block_of | apply KeepsScope.bind_of | apply KeepsScope.ite_of
    | intro _ | exact KeepsScope.modifyP _ (fun _ => rfl) | split)

instance keeps_ExitFunc_resolve (l : List (Token × Nat)) : KeepsScope (ExitFunc.resolve l) := by
  induction l with
  | nil => unfold ExitFunc.resolve; infer_instance
  | cons p rest ih =>
    unfold ExitFunc.resolve
    try dsimp only []
    repeat' (first
    | infer_instance | apply KeepsScope.block_of | apply KeepsScope.bind_of | apply KeepsScope.ite_of
    | intro _ | exact KeepsScope.modifyP _ (fun _ => rfl) | split)

instance keeps_ExitFunc  :
    KeepsScope ExitFunc := by
  unfold ExitFunc
  try dsimp only []
  repeat' (first
    | infer_instance | apply KeepsScope.block_of | apply KeepsScope.bind_of | apply KeepsScope.ite_of
    | intro _ | exact KeepsScope.modifyP _ (fun _ => rfl) | split)

instance keeps_IsFuncDef (r : Rec) [RecKeeps r] :
    KeepsScope (IsFuncDef r) := by
  unfold IsFuncDef
  try dsimp only []
  repeat' (first
    | infer_instance | apply KeepsScope.block_of | apply KeepsScope.bind_of | apply KeepsScope.ite_of
    | intro _ | exact KeepsScope.modifyP _ (fun _ => rfl) | split)

instance keeps_ParseFuncDef (r : Rec) [RecKeeps r] :
    KeepsScope (ParseFuncDef r) := by
  unfold ParseFuncDef
  try dsimp only []
  repeat' (first
    | infer_instance | apply KeepsScope.block_of | apply KeepsScope.bind_of | apply KeepsScope.ite_of
    | intro _ | exact KeepsScope.modifyP _ (fun _ => rfl) | split)

instance keeps_unitAdd (stmt : Stmt) :
    KeepsScope (unitAdd stmt) := by
  unfold unitAdd
  try dsimp only []
  repeat' (first
    | infer_instance | apply KeepsScope.block_of | apply KeepsScope.bind_of | apply KeepsScope.ite_of
    | intro _ | exact KeepsScope.modifyP _ (fun _ => rfl) | split)

instance keeps_ParseTranslationUnit_loop (r : Rec) [RecKeeps r] :
    KeepsScope (ParseTranslationUnit.loop r) := by
  unfold ParseTranslationUnit.loop
  try dsimp only []
  repeat' (first
    | infer_instance | apply KeepsScope.block_of | apply KeepsScope.bind_of | apply KeepsScope.ite_of
    | intro _ | exact KeepsScope.modifyP _ (fun _ => rfl) | split)

instance keeps_ParseTranslationUnit (r : Rec) [RecKeeps r] :
    KeepsScope (ParseTranslationUnit r) := by
  unfold ParseTranslationUnit
  try dsimp only []
  repeat' (first
    | infer_instance | apply KeepsScope.block_of | apply KeepsScope.bind_of | apply KeepsScope.ite_of
    | intro _ | exact KeepsScope.modifyP _ (fun _ => rfl) | split)
theorem RecKeeps_bottomRec : RecKeeps bottomRec := by
  constructor <;> intros <;> exact KeepsScope.fail _

theorem RecKeeps_stepRec (r : Rec) [RecKeeps r] : RecKeeps (stepRec r) := by
  constructor <;> intros <;> dsimp only [stepRec] <;> infer_instance

instance parser_keeps : ∀ fuel, RecKeeps (parser fuel)
  | 0 => RecKeeps_bottomRec
  | fuel + 1 => @RecKeeps_stepRec (parser fuel) (parser_keeps fuel)

theorem KeepsScope.of_returns {α : Type} (m : PM α) [h : KeepsScope m] (s : Parser)
    (hr : (m s).failure? = none) : (m s).state.scopeIds = s.scopeIds := by
  cases hm : m s with
  | ok a s1 => exact h.keeps s a s1 hm
  | fail e s1 => rw [hm] at hr; cases hr

/-- C9: whenever `ParseCompoundStmt`, `ParseForStmt`, `ParseStmt`, `ParseDecl`,
`ParseArrayFuncDeclarator` or `ParseFuncDef` returns, from any state and at
any recursion depth, the current scope and the chain of its ancestors (hence
the depth of the scope stack) are the ones of the call: every `EnterBlock`
on a returning path has been matched by one `ExitBlock`. -/
theorem block_scopes_balanced (fuel : Nat) (s : Parser) (base : CType) :
    ((ParseCompoundStmt (parser fuel) s).failure? = none →
      (ParseCompoundStmt (parser fuel) s).state.scopeIds = s.scopeIds) ∧
    ((ParseForStmt (parser fuel) s).failure? = none →
      (ParseForStmt (parser fuel) s).state.scopeIds = s.scopeIds) ∧
    ((ParseStmt (parser fuel) s).failure? = none →
      (ParseStmt (parser fuel) s).state.scopeIds = s.scopeIds) ∧
    ((ParseDecl (parser fuel) s).failure? = none →
      (ParseDecl (parser fuel) s).state.scopeIds = s.scopeIds) ∧
    ((ParseArrayFuncDeclarator (parser fuel) base s).failure? = none →
      (ParseArrayFuncDeclarator (parser fuel) base s).state.scopeIds = s.scopeIds) ∧
    ((ParseFuncDef (parser fuel) s).failure? = none →
      (ParseFuncDef (parser fuel) s).state.scopeIds = s.scopeIds) :=
  ⟨KeepsScope.of_returns _ s, KeepsScope.of_returns _ s, KeepsScope.of_returns _ s,
   KeepsScope.of_returns _ s, KeepsScope.of_returns _ s, KeepsScope.of_returns _ s⟩

/-- The six functions return on the inputs `int x; }`, `(int i; i; ) ;`,
`{ int x; { } }`, `int x;`, `(int a) ;` and `int f(int a) { int x; }`, with
the scope chain of the call. -/
theorem block_scopes_balanced_witness :
    ((ParseCompoundStmt (parser 40) (stateAt toksCompoundRest)).failure? = none ∧
      (ParseCompoundStmt (parser 40) (stateAt toksCompoundRest)).state.scopeIds = [0]) ∧
    ((ParseForStmt (parser 40) (stateAt toksForRest)).failure? = none ∧
      (ParseForStmt (parser 40) (stateAt toksForRest)).state.scopeIds = [0]) ∧
    ((ParseStmt (parser 40) (stateAt toksNestedBlocks)).failure? = none ∧
      (ParseStmt (parser 40) (stateAt toksNestedBlocks)).state.scopeIds = [0]) ∧
    ((ParseDecl (parser 40) (stateAt toksIntX)).failure? = none ∧
      (ParseDecl (parser 40) (stateAt toksIntX)).state.scopeIds = [0]) ∧
    ((ParseArrayFuncDeclarator (parser 40) tInt (stateAt toksParamSuffix)).failure? = none ∧
      (ParseArrayFuncDeclarator (parser 40) tInt (stateAt toksParamSuffix)).state.scopeIds
        = [0]) ∧
    ((ParseFuncDef (parser 40) (stateAt toksFuncWithBody)).failure? = none ∧
      (ParseFuncDef (parser 40) (stateAt toksFuncWithBody)).state.scopeIds = [0]) :=
  ⟨⟨by decide!, (block_scopes_balanced 40 (stateAt toksCompoundRest) tInt).1 (by decide!)⟩,
   ⟨by decide!, (block_scopes_balanced 40 (stateAt toksForRest) tInt).2.1 (by decide!)⟩,
   ⟨by decide!, (block_scopes_balanced 40 (stateAt toksNestedBlocks) tInt).2.2.1 (by decide!)⟩,
   ⟨by decide!, (block_scopes_balanced 40 (stateAt toksIntX) tInt).2.2.2.1 (by decide!)⟩,
   ⟨by decide!,
    (block_scopes_balanced 40 (stateAt toksParamSuffix) tInt).2.2.2.2.1 (by decide!)⟩,
   ⟨by decide!, (block_scopes_balanced 40 (stateAt toksFuncWithBody) tInt).2.2.2.2.2 (by decide!)⟩⟩

/-! ## The translation unit `struct S; ...` -/

/-- One iteration of the loop of `ParseTranslationUnit` that finds a
declaration: the declaration is added to the unit and the loop goes on. -/
theorem ParseTranslationUnit_loop_decl (r : Rec) (s sA sB : Parser) (v : Stmt)
    (h0 : (tokAt s.toks s.pos).IsEOF = false) (h1 : IsFuncDef r s = .ok false sA)
    (h2 : ParseDecl r sA = .ok v sB) :
    ParseTranslationUnit.loop r s = r.loopTranslationUnit { sB with unit := sB.unit ++ [v] } := by
  unfold ParseTranslationUnit.loop
  have hp : Peek s = .ok (tokAt s.toks s.pos) s := rfl
  simp only [run_bind, hp, andThen_ok, h0, Bool.not_false, if_true, h1, Bool.false_eq_true,
    if_false, h2]
  rfl

set_option maxRecDepth 100000 in
theorem IsFuncDef_atFirstSemicolon (r : Rec) (s : Parser) :
    IsFuncDef r (atFirstSemicolon s) = .ok false (atFirstSemicolon (afterIsFuncDef s)) := by
  rfl

set_option maxRecDepth 100000 in
theorem ParseDecl_atFirstSemicolon (r : Rec) (s : Parser) :
    ParseDecl r (atFirstSemicolon s)
      = .ok (.compoundStmt []) (atFirstSemicolon (afterParseDecl s)) := by
  rfl

/-- One iteration of the loop of `ParseTranslationUnit` at the first `;`
consumes nothing and goes on to the next iteration. -/
theorem ParseTranslationUnit_loop_atFirstSemicolon (r : Rec) (s : Parser) :
    ParseTranslationUnit.loop r (atFirstSemicolon s)
      = r.loopTranslationUnit (atFirstSemicolon (afterSemicolonIteration s)) :=
  ParseTranslationUnit_loop_decl r (atFirstSemicolon s) _ _ _ rfl
    (IsFuncDef_atFirstSemicolon r s) (ParseDecl_atFirstSemicolon r (afterIsFuncDef s))

set_option maxRecDepth 100000 in
theorem IsFuncDef_structS (r : Rec) :
    IsFuncDef (stepRec r) (stateAt toksStructMember) = .ok false stateStructSDeclared := by
  rfl

set_option maxRecDepth 100000 in
theorem ParseDecl_structS (r : Rec) :
    ParseDecl (stepRec r) stateStructSDeclared
      = .ok (.compoundStmt []) (atFirstSemicolon stateStructSDeclared) := by
  rfl

/-- The first iteration, over `struct S`, ends before the first `;`. -/
theorem ParseTranslationUnit_loop_structS (r : Rec) :
    ParseTranslationUnit.loop (stepRec r) (stateAt toksStructMember)
      = ParseTranslationUnit.loop r
          (atFirstSemicolon { stateStructSDeclared with unit := [.compoundStmt []] }) :=
  ParseTranslationUnit_loop_decl (stepRec r) (stateAt toksStructMember) _ _ _ rfl
    (IsFuncDef_structS r) (ParseDecl_structS r)

/-- At the first `;` the loop of `ParseTranslationUnit` runs until the fuel
is used up, at every depth, without moving the cursor. -/
theorem stuck_atFirstSemicolon : ∀ (fuel : Nat) (s : Parser),
    (ParseTranslationUnit.loop (parser fuel) (atFirstSemicolon s)).failure? = some .outOfFuel ∧
    (ParseTranslationUnit.loop (parser fuel) (atFirstSemicolon s)).state.pos = 2
  | 0, s => by
    rw [ParseTranslationUnit_loop_atFirstSemicolon]
    exact ⟨rfl, rfl⟩
  | fuel + 1, s => by
    rw [ParseTranslationUnit_loop_atFirstSemicolon]
    exact stuck_atFirstSemicolon fuel (afterSemicolonIteration s)

/-- `NewMemberRefOp` ends in an assertion failure, whatever it is given. -/
theorem NewMemberRefOp_fails (tok : Token) (lhs : Expr) (rhsName : String) (s : Parser) :
    (NewMemberRefOp tok lhs rhsName s).failure? = some .assertFail := by
  unfold NewMemberRefOp
  by_cases h1 : tok.tag = .chr '.'
  · simp only [h1, run_bind, assert, TypeCheckingBinaryOp]
    rfl
  · by_cases h2 : tok.tag = .kw .PTR_OP
    · simp only [h2, run_bind, assert, TypeCheckingBinaryOp]
      rfl
    · have h : (tok.tag == Tag.chr '.' || tok.tag == Tag.kw Kw.PTR_OP) = false := by
        simp [h1, h2]
      simp only [h, run_bind, assert]
      rfl

set_option maxRecDepth 100000 in
/-- C10: on the input `struct S; struct S* p; struct S { int a; }; p->a;`
the parse does not terminate: at every recursion depth the run is cut off for
lack of fuel with the cursor at the first `;`, which no iteration of the loop
of `ParseTranslationUnit` consumes.  And `NewMemberRefOp` never returns a
node: for every token, operand, member name and state it ends in the
`assert(0)` of `TypeChecking(BinaryOp*)`, which has no case for `.` and
`->`. -/
theorem struct_member_access_never_built :
    (∀ fuel, (ParseTranslationUnit (parser fuel) (stateAt toksStructMember)).failure?
        = some .outOfFuel ∧
      (ParseTranslationUnit (parser fuel) (stateAt toksStructMember)).state.pos = 2) ∧
    (∀ tok lhs rhsName s, (NewMemberRefOp tok lhs rhsName s).failure? = some .assertFail) := by
  refine ⟨fun fuel => ?_, NewMemberRefOp_fails⟩
  cases fuel with
  | zero => exact ⟨rfl, rfl⟩
  | succ fuel =>
    show (ParseTranslationUnit.loop (stepRec (parser fuel)) (stateAt toksStructMember)).failure?
        = some .outOfFuel ∧
      (ParseTranslationUnit.loop (stepRec (parser fuel)) (stateAt toksStructMember)).state.pos = 2
    rw [ParseTranslationUnit_loop_structS]
    exact stuck_atFirstSemicolon fuel _

/-! ## Assignment -/

/-- C11: the assignment `p = f`, with `p` an object of type pointer to `int`
and `f` an object of type `float`, is built without any diagnostic:
`NewBinaryOp` returns the node, of the type of `p`, and leaves the state
(hence the list of diagnostics) as it was, for every token and state; and
the parse of `void g(void) { int *p; float f; p = f; }` ends with no
diagnostic and with that node in the function body. -/
theorem NewBinaryOp_assign_unchecked :
    (∀ tok s, NewBinaryOp tok (.chr '=') (.identifier objP) (.identifier objF) s
      = .ok (.binaryOp (.chr '=') (.identifier objP) (.identifier objF) (.pointer tInt 0)) s) ∧
    (ParseTranslationUnit (parser 60) (stateAt toksAssignPF)).failure? = none ∧
    (ParseTranslationUnit (parser 60) (stateAt toksAssignPF)).state.errors = [] ∧
    (ParseTranslationUnit (parser 60) (stateAt toksAssignPF)).state.unit =
      [.funcDef (.func .void 0 false [.void])
        (.compoundStmt [.compoundStmt [], .compoundStmt [],
          .expr (.binaryOp (.chr '=') (.identifier objP) (.identifier objF)
            (.pointer tInt 0))])] :=
  ⟨fun _ _ => rfl, by decide!, by decide!, by decide!⟩

/-! ## A declaration after `static` -/

/-- C14: at file scope, when the current scope already holds an entry for
the name with internal linkage (as after `static int f(void);`) and the
declared type, equal to the type of that entry, is neither void nor
incomplete, `ProcessDeclarator` with no storage class returns the earlier
identifier and leaves the whole state as it was: no diagnostic, no new
entry, and the linkage of the entry stays internal. -/
theorem ProcessDeclarator_after_static (s : Parser) (tok : Token) (type : CType) (funcSpec : Nat)
    (sc : Scope) (rest : List Scope) (prior : Identifier)
    (hsc : s.curScope = sc :: rest) (hkind : sc.kind = .S_FILE)
    (hcur : sc.FindInCurScope tok.str = some prior)
    (hlink : prior.linkage = .L_INTERNAL) (heq : prior.ty = type)
    (hvoid : type.isVoid = false) (hcomp : completeIn s.cells s.structs type = true) :
    ProcessDeclarator (some tok) type 0 funcSpec s = .ok prior s ∧
      prior.linkage = .L_INTERNAL := by
  have hty : type ≠ .null := by
    intro h; rw [h] at hcomp; cases hcomp
  have hpty : prior.ty ≠ .null := by rw [heq]; exact hty
  have hd : declCheckDiags s.cells s.structs sc.kind tok type 0 = [] := by
    cases hf : type.isFunc <;>
      simp [declCheckDiags, hvoid, hcomp, hkind, hf]
  have h1 : declChecks tok type 0 s = .ok () s := by
    rw [declChecks_run tok type 0 s sc rest hsc hty, hd, List.append_nil]
  have hr : redeclareDiags tok type (declLinkage sc.kind 0 type.isFunc) prior = [] := by
    have hb : CType.beq type prior.ty = true := by rw [heq]; exact CType_beq_refl type
    simp [redeclareDiags, hb, hkind, hlink, declLinkage, hasBit]
  refine ⟨?_, hlink⟩
  have hst : hasBit 0 S_TYPEDEF = false := rfl
  simp only [ProcessDeclarator, hst, Bool.false_eq_true, if_false, run_bind, h1, andThen_ok,
    ScopeKind_run s sc rest hsc, FindInCurScope_run tok.str s sc rest hsc, hcur,
    redeclare_run tok type _ prior s hty hpty, hr, List.append_nil]

/-- Witness of C14: `int f(void)` at file scope after `static int f(void);`;
and the parse of `static int f(void); int f(void) { return 0; }` reports
nothing and leaves `f` with internal linkage. -/
theorem ProcessDeclarator_after_static_witness :
    (ProcessDeclarator (some tokF) tIntOfVoid 0 0 stateStaticF = .ok staticF stateStaticF ∧
      staticF.linkage = .L_INTERNAL) ∧
    (ParseTranslationUnit (parser 60) (stateAt toksStaticThenDef)).failure? = none ∧
    (ParseTranslationUnit (parser 60) (stateAt toksStaticThenDef)).state.errors = [] ∧
    ((ParseTranslationUnit (parser 60) (stateAt toksStaticThenDef)).state.curScope.map
      (fun sc => sc.ordinary.map (fun p => (p.1, p.2.linkage)))) = [[("f", .L_INTERNAL)]] :=
  ⟨ProcessDeclarator_after_static stateStaticF tokF tIntOfVoid 0
      { id := 0, kind := .S_FILE, ordinary := [("f", staticF)], tags := [] } [] staticF
      rfl rfl rfl rfl rfl rfl rfl,
   by decide!, by decide!, by decide!⟩

/-! ## `default` labels -/

/-- C13: `ENTER_SWITCH_BODY` leaves `_defaultLabel` as it is, so inside a
switch nested in the body of a switch that already has a default label
`ParseDefaultStmt` finds `_defaultLabel` set: the parse of
`switch (x) { default: ; switch (x) { default: ; } }` reports 'multiple
default labels in one switch' at the first `default:` of the inner switch
(token 23).  A second `default:` in one switch is reported once (token
27). -/
theorem ParseDefaultStmt_nested_switch_diagnosed :
    (∀ breakDest s, (ENTER_SWITCH_BODY breakDest s).state.defaultLabel = s.defaultLabel) ∧
    (ParseTranslationUnit (parser 80) (stateAt toksNestedDefault)).failure? = none ∧
    (ParseTranslationUnit (parser 80) (stateAt toksNestedDefault)).state.errors
      = [multipleDefaults 23] ∧
    (ParseTranslationUnit (parser 80) (stateAt toksTwoDefaults)).failure? = none ∧
    (ParseTranslationUnit (parser 80) (stateAt toksTwoDefaults)).state.errors
      = [multipleDefaults 27] :=
  ⟨fun _ _ => rfl, by decide!, by decide!, by decide!, by decide!⟩

/-! ## `ParseDeclSpec` on concrete specifier sequences -/

/-- C16: `ParseDeclSpec` accepts `signed char` and `long double`, with the
arithmetic types of these bit masks and no diagnostic, and rejects their
permutations `char signed` and `double long` at the second token with the
diagnostic of the label `error` and a null type: `COMP_CHAR` and
`COMP_DOUBLE` allow the earlier `signed` and `long`, `COMP_SIGNED` and
`COMP_LONG` do not allow the earlier `char` and `double`. -/
theorem ParseDeclSpec_order_dependent :
    (declSpecOf false (specThenX [K .SIGNED "signed", K .CHAR "char"])
        = some (.arithm (T_SIGNED ||| T_CHAR) none, 0, 0) ∧
      declSpecDiags false (specThenX [K .SIGNED "signed", K .CHAR "char"]) = []) ∧
    (declSpecOf false (specThenX [K .CHAR "char", K .SIGNED "signed"]) = some (.null, 0, 0) ∧
      declSpecDiags false (specThenX [K .CHAR "char", K .SIGNED "signed"]) = [specError 1]) ∧
    (declSpecOf false (specThenX [K .LONG "long", K .DOUBLE "double"])
        = some (.arithm (T_LONG ||| T_DOUBLE) none, 0, 0) ∧
      declSpecDiags false (specThenX [K .LONG "long", K .DOUBLE "double"]) = []) ∧
    (declSpecOf false (specThenX [K .DOUBLE "double", K .LONG "long"]) = some (.null, 0, 0) ∧
      declSpecDiags false (specThenX [K .DOUBLE "double", K .LONG "long"]) = [specError 1]) ∧
    (andNot T_SIGNED COMP_CHAR = 0 ∧ andNot T_CHAR COMP_SIGNED ≠ 0 ∧
      andNot T_LONG COMP_DOUBLE = 0 ∧ andNot T_DOUBLE COMP_LONG ≠ 0) :=
  ⟨⟨by decide!, by decide!⟩, ⟨by decide!, by decide!⟩, ⟨by decide!, by decide!⟩,
   ⟨by decide!, by decide!⟩, by decide!⟩

/-- C20: with null out-parameters (`ParseSpecQual`) a storage-class specifier,
a function specifier or an alignment specifier alone, and also a storage
class together with a function specifier, is accepted without the 'type
specifier/qualifier only' diagnostic; it is reported only when all three
kinds are present (`static inline _Alignas(8) int`, at token 7). -/
theorem ParseSpecQual_accepts_storage :
    specQualDiags (specThenX [K .STATIC "static", K .INT "int"]) = [] ∧
    specQualDiags (specThenX [K .INLINE "inline", K .INT "int"]) = [] ∧
    specQualDiags (specThenX (toksAlignas8 ++ [K .INT "int"])) = [] ∧
    specQualDiags (specThenX [K .STATIC "static", K .INLINE "inline", K .INT "int"]) = [] ∧
    specQualDiags (specThenX ([K .STATIC "static", K .INLINE "inline"] ++ toksAlignas8
      ++ [K .INT "int"])) = [specQualOnly 7] ∧
    (ParseSpecQual (parser 20) (stateAt (specThenX [K .STATIC "static", K .INT "int"]))).value?
      = some tInt :=
  ⟨by decide!, by decide!, by decide!, by decide!, by decide!, by decide!⟩

/-! ## The parts of an iteration of `ParseDeclSpec` do not use the next iteration -/

theorem ParsePrimaryExpr_indep (r : Rec) (k : Bool → DeclSpecVars → PM DeclSpec) :
    ParsePrimaryExpr { r with loopDeclSpec := k }  = ParsePrimaryExpr r  := by
  rfl

theorem ParseSubScripting_indep (r : Rec) (k : Bool → DeclSpecVars → PM DeclSpec) (pointer : Expr) :
    ParseSubScripting { r with loopDeclSpec := k } pointer = ParseSubScripting r pointer := by
  rfl

theorem ParseFuncCall_args_indep (r : Rec) (k : Bool → DeclSpecVars → PM DeclSpec)
    (params : List CType) : ∀ args,
    ParseFuncCall.args { r with loopDeclSpec := k } params args
      = ParseFuncCall.args r params args := by
  induction params with
  | nil => intro args; rfl
  | cons p rest ih =>
    intro args
    unfold ParseFuncCall.args
    simp only [ih]

theorem ParseFuncCall_varArgs_indep (r : Rec) (k : Bool → DeclSpecVars → PM DeclSpec) (args : List Expr) :
    ParseFuncCall.varArgs { r with loopDeclSpec := k } args = ParseFuncCall.varArgs r args := by
  rfl

theorem ParseFuncCall_indep (r : Rec) (k : Bool → DeclSpecVars → PM DeclSpec) (designator : Expr) :
    ParseFuncCall { r with loopDeclSpec := k } designator = ParseFuncCall r designator := by
  first
    | (unfold ParseFuncCall; simp only [ParseFuncCall_args_indep, ParseFuncCall_varArgs_indep])
    | rfl

theorem ParsePostfixExprTail_indep (r : Rec) (k : Bool → DeclSpecVars → PM DeclSpec) (lhs : Expr) :
    ParsePostfixExprTail { r with loopDeclSpec := k } lhs = ParsePostfixExprTail r lhs := by
  first
    | (unfold ParsePostfixExprTail; simp only [ParseFuncCall_indep, ParseSubScripting_indep])
    | rfl

theorem ParsePostfixExpr_indep (r : Rec) (k : Bool → DeclSpecVars → PM DeclSpec) :
    ParsePostfixExpr { r with loopDeclSpec := k }  = ParsePostfixExpr r  := by
  first
    | (unfold ParsePostfixExpr; simp only [ParsePostfixExprTail_indep, ParsePrimaryExpr_indep])
    | rfl

theorem ParseSizeof_indep (r : Rec) (k : Bool → DeclSpecVars → PM DeclSpec) :
    ParseSizeof { r with loopDeclSpec := k }  = ParseSizeof r  := by
  rfl

theorem ParseAlignof_indep (r : Rec) (k : Bool → DeclSpecVars → PM DeclSpec) :
    ParseAlignof { r with loopDeclSpec := k }  = ParseAlignof r  := by
  rfl

theorem ParsePrefixIncDec_indep (r : Rec) (k : Bool → DeclSpecVars → PM DeclSpec) (tok : Token) :
    ParsePrefixIncDec { r with loopDeclSpec := k } tok = ParsePrefixIncDec r tok := by
  rfl

theorem ParseUnaryOp_indep (r : Rec) (k : Bool → DeclSpecVars → PM DeclSpec) (tok : Token) (op : Tag) :
    ParseUnaryOp { r with loopDeclSpec := k } tok op = ParseUnaryOp r tok op := by
  rfl

theorem ParseUnaryExpr_indep (r : Rec) (k : Bool → DeclSpecVars → PM DeclSpec) :
    ParseUnaryExpr { r with loopDeclSpec := k }  = ParseUnaryExpr r  := by
  first
    | (unfold ParseUnaryExpr; simp only [ParseAlignof_indep, ParsePostfixExpr_indep, ParsePrefixIncDec_indep, ParseSizeof_indep, ParseUnaryOp_indep])
    | rfl

theorem ParseCastExpr_indep (r : Rec) (k : Bool → DeclSpecVars → PM DeclSpec) :
    ParseCastExpr { r with loopDeclSpec := k }  = ParseCastExpr r  := by
  first
    | (unfold ParseCastExpr; simp only [ParseUnaryExpr_indep])
    | rfl

theorem ParseMultiplicativeExpr_loop_indep (r : Rec) (k : Bool → DeclSpecVars → PM DeclSpec) (lhs : Expr) (tok : Token) :
    ParseMultiplicativeExpr.loop { r with loopDeclSpec := k } lhs tok = ParseMultiplicativeExpr.loop r lhs tok := by
  first
    | (unfold ParseMultiplicativeExpr.loop; simp only [ParseCastExpr_indep])
    | rfl

theorem ParseMultiplicativeExpr_indep (r : Rec) (k : Bool → DeclSpecVars → PM DeclSpec) :
    ParseMultiplicativeExpr { r with loopDeclSpec := k }  = ParseMultiplicativeExpr r  := by
  first
    | (unfold ParseMultiplicativeExpr; simp only [ParseCastExpr_indep, ParseMultiplicativeExpr_loop_indep])
    | rfl

theorem ParseAdditiveExpr_loop_indep (r : Rec) (k : Bool → DeclSpecVars → PM DeclSpec) (lhs : Expr) (tok : Token) :
    ParseAdditiveExpr.loop { r with loopDeclSpec := k } lhs tok = ParseAdditiveExpr.loop r lhs tok := by
  first
    | (unfold ParseAdditiveExpr.loop; simp only [ParseMultiplicativeExpr_indep])
    | rfl

theorem ParseAdditiveExpr_indep (r : Rec) (k : Bool → DeclSpecVars → PM DeclSpec) :
    ParseAdditiveExpr { r with loopDeclSpec := k }  = ParseAdditiveExpr r  := by
  first
    | (unfold ParseAdditiveExpr; simp only [ParseAdditiveExpr_loop_indep, ParseMultiplicativeExpr_indep])
    | rfl

theorem ParseShiftExpr_loop_indep (r : Rec) (k : Bool → DeclSpecVars → PM DeclSpec) (lhs : Expr) (tok : Token) :
    ParseShiftExpr.loop { r with loopDeclSpec := k } lhs tok = ParseShiftExpr.loop r lhs tok := by
  first
    | (unfold ParseShiftExpr.loop; simp only [ParseAdditiveExpr_indep])
    | rfl

theorem ParseShiftExpr_indep (r : Rec) (k : Bool → DeclSpecVars → PM DeclSpec) :
    ParseShiftExpr { r with loopDeclSpec := k }  = ParseShiftExpr r  := by
  first
    | (unfold ParseShiftExpr; simp only [ParseAdditiveExpr_indep, ParseShiftExpr_loop_indep])
    | rfl

theorem ParseRelationalExpr_loop_indep (r : Rec) (k : Bool → DeclSpecVars → PM DeclSpec) (lhs : Expr) (tok : Token) :
    ParseRelationalExpr.loop { r with loopDeclSpec := k } lhs tok = ParseRelationalExpr.loop r lhs tok := by
  first
    | (unfold ParseRelationalExpr.loop; simp only [ParseShiftExpr_indep])
    | rfl

theorem ParseRelationalExpr_indep (r : Rec) (k : Bool → DeclSpecVars → PM DeclSpec) :
    ParseRelationalExpr { r with loopDeclSpec := k }  = ParseRelationalExpr r  := by
  first
    | (unfold ParseRelationalExpr; simp only [ParseRelationalExpr_loop_indep, ParseShiftExpr_indep])
    | rfl

theorem ParseEqualityExpr_loop_indep (r : Rec) (k : Bool → DeclSpecVars → PM DeclSpec) (lhs : Expr) (tok : Token) :
    ParseEqualityExpr.loop { r with loopDeclSpec := k } lhs tok = ParseEqualityExpr.loop r lhs tok := by
  first
    | (unfold ParseEqualityExpr.loop; simp only [ParseRelationalExpr_indep])
    | rfl

theorem ParseEqualityExpr_indep (r : Rec) (k : Bool → DeclSpecVars → PM DeclSpec) :
    ParseEqualityExpr { r with loopDeclSpec := k }  = ParseEqualityExpr r  := by
  first
    | (unfold ParseEqualityExpr; simp only [ParseEqualityExpr_loop_indep, ParseRelationalExpr_indep])
    | rfl

theorem ParseBitiwiseAndExpr_loop_indep (r : Rec) (k : Bool → DeclSpecVars → PM DeclSpec) (lhs : Expr) (tok : Token) :
    ParseBitiwiseAndExpr.loop { r with loopDeclSpec := k } lhs tok = ParseBitiwiseAndExpr.loop r lhs tok := by
  first
    | (unfold ParseBitiwiseAndExpr.loop; simp only [ParseEqualityExpr_indep])
    | rfl

theorem ParseBitiwiseAndExpr_indep (r : Rec) (k : Bool → DeclSpecVars → PM DeclSpec) :
    ParseBitiwiseAndExpr { r with loopDeclSpec := k }  = ParseBitiwiseAndExpr r  := by
  first
    | (unfold ParseBitiwiseAndExpr; simp only [ParseBitiwiseAndExpr_loop_indep, ParseEqualityExpr_indep])
    | rfl

theorem ParseBitwiseXorExpr_loop_indep (r : Rec) (k : Bool → DeclSpecVars → PM DeclSpec) (lhs : Expr) (tok : Token) :
    ParseBitwiseXorExpr.loop { r with loopDeclSpec := k } lhs tok = ParseBitwiseXorExpr.loop r lhs tok := by
  first
    | (unfold ParseBitwiseXorExpr.loop; simp only [ParseBitiwiseAndExpr_indep])
    | rfl

theorem ParseBitwiseXorExpr_indep (r : Rec) (k : Bool → DeclSpecVars → PM DeclSpec) :
    ParseBitwiseXorExpr { r with loopDeclSpec := k }  = ParseBitwiseXorExpr r  := by
  first
    | (unfold ParseBitwiseXorExpr; simp only [ParseBitiwiseAndExpr_indep, ParseBitwiseXorExpr_loop_indep])
    | rfl

theorem ParseBitwiseOrExpr_loop_indep (r : Rec) (k : Bool → DeclSpecVars → PM DeclSpec) (lhs : Expr) (tok : Token) :
    ParseBitwiseOrExpr.loop { r with loopDeclSpec := k } lhs tok = ParseBitwiseOrExpr.loop r lhs tok := by
  first
    | (unfold ParseBitwiseOrExpr.loop; simp only [ParseBitwiseXorExpr_indep])
    | rfl

theorem ParseBitwiseOrExpr_indep (r : Rec) (k : Bool → DeclSpecVars → PM DeclSpec) :
    ParseBitwiseOrExpr { r with loopDeclSpec := k }  = ParseBitwiseOrExpr r  := by
  first
    | (unfold ParseBitwiseOrExpr; simp only [ParseBitwiseOrExpr_loop_indep, ParseBitwiseXorExpr_indep])
    | rfl

theorem ParseLogicalAndExpr_loop_indep (r : Rec) (k : Bool → DeclSpecVars → PM DeclSpec) (lhs : Expr) (tok : Token) :
    ParseLogicalAndExpr.loop { r with loopDeclSpec := k } lhs tok = ParseLogicalAndExpr.loop r lhs tok := by
  first
    | (unfold ParseLogicalAndExpr.loop; simp only [ParseBitwiseOrExpr_indep])
    | rfl

theorem ParseLogicalAndExpr_indep (r : Rec) (k : Bool → DeclSpecVars → PM DeclSpec) :
    ParseLogicalAndExpr { r with loopDeclSpec := k }  = ParseLogicalAndExpr r  := by
  first
    | (unfold ParseLogicalAndExpr; simp only [ParseBitwiseOrExpr_indep, ParseLogicalAndExpr_loop_indep])
    | rfl

theorem ParseLogicalOrExpr_loop_indep (r : Rec) (k : Bool → DeclSpecVars → PM DeclSpec) (lhs : Expr) (tok : Token) :
    ParseLogicalOrExpr.loop { r with loopDeclSpec := k } lhs tok = ParseLogicalOrExpr.loop r lhs tok := by
  first
    | (unfold ParseLogicalOrExpr.loop; simp only [ParseLogicalAndExpr_indep])
    | rfl

theorem ParseLogicalOrExpr_indep (r : Rec) (k : Bool → DeclSpecVars → PM DeclSpec) :
    ParseLogicalOrExpr { r with loopDeclSpec := k }  = ParseLogicalOrExpr r  := by
  first
    | (unfold ParseLogicalOrExpr; simp only [ParseLogicalAndExpr_indep, ParseLogicalOrExpr_loop_indep])
    | rfl

theorem ParseConditionalExpr_indep (r : Rec) (k : Bool → DeclSpecVars → PM DeclSpec) :
    ParseConditionalExpr { r with loopDeclSpec := k }  = ParseConditionalExpr r  := by
  first
    | (unfold ParseConditionalExpr; simp only [ParseLogicalOrExpr_indep])
    | rfl

theorem ParseAssignExpr_indep (r : Rec) (k : Bool → DeclSpecVars → PM DeclSpec) :
    ParseAssignExpr { r with loopDeclSpec := k }  = ParseAssignExpr r  := by
  first
    | (unfold ParseAssignExpr; simp only [ParseConditionalExpr_indep])
    | rfl

theorem ParseCommaExpr_loop_indep (r : Rec) (k : Bool → DeclSpecVars → PM DeclSpec) (lhs : Expr) (tok : Token) :
    ParseCommaExpr.loop { r with loopDeclSpec := k } lhs tok = ParseCommaExpr.loop r lhs tok := by
  first
    | (unfold ParseCommaExpr.loop; simp only [ParseAssignExpr_indep])
    | rfl

theorem ParseCommaExpr_indep (r : Rec) (k : Bool → DeclSpecVars → PM DeclSpec) :
    ParseCommaExpr { r with loopDeclSpec := k }  = ParseCommaExpr r  := by
  first
    | (unfold ParseCommaExpr; simp only [ParseAssignExpr_indep, ParseCommaExpr_loop_indep])
    | rfl

theorem ParseExpr_indep (r : Rec) (k : Bool → DeclSpecVars → PM DeclSpec) :
    ParseExpr { r with loopDeclSpec := k }  = ParseExpr r  := by
  first
    | (unfold ParseExpr; simp only [ParseCommaExpr_indep])
    | rfl

theorem ParseAlignas_indep (r : Rec) (k : Bool → DeclSpecVars → PM DeclSpec) :
    ParseAlignas { r with loopDeclSpec := k }  = ParseAlignas r  := by
  first
    | (unfold ParseAlignas; simp only [ParseExpr_indep])
    | rfl

theorem ParseEnumerator_loop_indep (r : Rec) (k : Bool → DeclSpecVars → PM DeclSpec) (type : CType) (val : Int) :
    ParseEnumerator.loop { r with loopDeclSpec := k } type val = ParseEnumerator.loop r type val := by
  first
    | (unfold ParseEnumerator.loop; simp only [ParseExpr_indep])
    | rfl

theorem ParseEnumerator_indep (r : Rec) (k : Bool → DeclSpecVars → PM DeclSpec) (type : CType) :
    ParseEnumerator { r with loopDeclSpec := k } type = ParseEnumerator r type := by
  first
    | (unfold ParseEnumerator; simp only [ParseEnumerator_loop_indep])
    | rfl

theorem ParseEnumSpec_enumDecl_indep (r : Rec) (k : Bool → DeclSpecVars → PM DeclSpec) (tagName : String) :
    ParseEnumSpec.enumDecl { r with loopDeclSpec := k } tagName = ParseEnumSpec.enumDecl r tagName := by
  first
    | (unfold ParseEnumSpec.enumDecl; simp only [ParseEnumerator_indep])
    | rfl

theorem ParseEnumSpec_indep (r : Rec) (k : Bool → DeclSpecVars → PM DeclSpec) :
    ParseEnumSpec { r with loopDeclSpec := k }  = ParseEnumSpec r  := by
  first
    | (unfold ParseEnumSpec; simp only [ParseEnumSpec_enumDecl_indep, ParseEnumerator_indep])
    | rfl

theorem ParseSpecQual_indep (r : Rec) (k : Bool → DeclSpecVars → PM DeclSpec) :
    ParseSpecQual { r with loopDeclSpec := k }  = ParseSpecQual r  := by
  rfl

theorem ParseStructDecl_loop_indep (r : Rec) (k : Bool → DeclSpecVars → PM DeclSpec) (type : CType) :
    ParseStructDecl.loop { r with loopDeclSpec := k } type = ParseStructDecl.loop r type := by
  first
    | (unfold ParseStructDecl.loop; simp only [ParseSpecQual_indep])
    | rfl

theorem ParseStructDecl_indep (r : Rec) (k : Bool → DeclSpecVars → PM DeclSpec) (type : CType) :
    ParseStructDecl { r with loopDeclSpec := k } type = ParseStructDecl r type := by
  first
    | (unfold ParseStructDecl; simp only [ParseStructDecl_loop_indep])
    | rfl

theorem ParseStructUnionSpec_structDecl_indep (r : Rec) (k : Bool → DeclSpecVars → PM DeclSpec) (isStruct : Bool) (tagName : String) :
    ParseStructUnionSpec.structDecl { r with loopDeclSpec := k } isStruct tagName = ParseStructUnionSpec.structDecl r isStruct tagName := by
  first
    | (unfold ParseStructUnionSpec.structDecl; simp only [ParseStructDecl_indep])
    | rfl

theorem ParseStructUnionSpec_indep (r : Rec) (k : Bool → DeclSpecVars → PM DeclSpec) (isStruct : Bool) :
    ParseStructUnionSpec { r with loopDeclSpec := k } isStruct = ParseStructUnionSpec r isStruct := by
  first
    | (unfold ParseStructUnionSpec; simp only [ParseStructDecl_indep, ParseStructUnionSpec_structDecl_indep])
    | rfl

/-! ## The loop of `ParseDeclSpec` -/

theorem ParseDeclSpec_eq_loop (r : Rec) (outNull : Bool) :
    ParseDeclSpec r outNull = ParseDeclSpec.loop r outNull declSpecInit := rfl

theorem typeSpecStates_signed : ∀ t ∈ typeSpecStates,
    ¬ ((andNot t COMP_SIGNED != 0) = true) → (t ||| T_SIGNED) ∈ typeSpecStates := by decide
theorem typeSpecStates_unsigned : ∀ t ∈ typeSpecStates,
    ¬ ((andNot t COMP_UNSIGNED != 0) = true) → (t ||| T_UNSIGNED) ∈ typeSpecStates := by decide
theorem typeSpecStates_void : ∀ t ∈ typeSpecStates,
    ¬ ((t != 0) = true) → (t ||| T_VOID) ∈ typeSpecStates := by decide
theorem typeSpecStates_char : ∀ t ∈ typeSpecStates,
    ¬ ((andNot t COMP_CHAR != 0) = true) → (t ||| T_CHAR) ∈ typeSpecStates := by decide
theorem typeSpecStates_short : ∀ t ∈ typeSpecStates,
    ¬ ((andNot t COMP_SHORT != 0) = true) → (t ||| T_SHORT) ∈ typeSpecStates := by decide
theorem typeSpecStates_int : ∀ t ∈ typeSpecStates,
    ¬ ((andNot t COMP_INT != 0) = true) → (t ||| T_INT) ∈ typeSpecStates := by decide
theorem typeSpecStates_long : ∀ t ∈ typeSpecStates,
    ¬ ((andNot t COMP_LONG != 0) = true) → TypeLL t ∈ typeSpecStates := by decide
theorem typeSpecStates_float : ∀ t ∈ typeSpecStates,
    ¬ ((andNot t T_COMPLEX != 0) = true) → (t ||| T_FLOAT) ∈ typeSpecStates := by decide
theorem typeSpecStates_double : ∀ t ∈ typeSpecStates,
    ¬ ((andNot t COMP_DOUBLE != 0) = true) → (t ||| T_DOUBLE) ∈ typeSpecStates := by decide
theorem typeSpecStates_bool : ∀ t ∈ typeSpecStates,
    ¬ ((t != 0) = true) → (t ||| T_BOOL) ∈ typeSpecStates := by decide
theorem typeSpecStates_complex : ∀ t ∈ typeSpecStates,
    ¬ ((andNot t COMP_COMPLEX != 0) = true) → (t ||| T_COMPLEX) ∈ typeSpecStates := by decide
theorem typeSpecStates_structUnion : ∀ t ∈ typeSpecStates,
    ¬ ((t != 0) = true) → (t ||| T_STRUCT_UNION) ∈ typeSpecStates := by decide
theorem typeSpecStates_enum : ∀ t ∈ typeSpecStates,
    ¬ ((t != 0) = true) → (t ||| T_ENUM) ∈ typeSpecStates := by decide
theorem typeSpecStates_typedefName : ∀ t ∈ typeSpecStates,
    (t == 0) = true → (t ||| T_TYPEDEF_NAME) ∈ typeSpecStates := by decide
theorem Next_run (s : Parser) : Next s = .ok (tokAt s.toks s.pos) { s with pos := s.pos + 1 } := rfl

theorem ParseDeclSpec.Outcome.ite {outNull : Bool} {v : DeclSpecVars} {tok : Token} {s1 : Parser}
    {c : Prop} [Decidable c] {A B : (Bool → DeclSpecVars → PM DeclSpec) → PM DeclSpec}
    (hA : c → ParseDeclSpec.Outcome outNull v tok s1 (fun k => A k s1))
    (hB : ¬ c → ParseDeclSpec.Outcome outNull v tok s1 (fun k => B k s1)) :
    ParseDeclSpec.Outcome outNull v tok s1 (fun k => (if c then A k else B k) s1) := by
  by_cases h : c
  · simp only [if_pos h]; exact hA h
  · simp only [if_neg h]; exact hB h

theorem ParseDeclSpec.Outcome.cont {outNull : Bool} {v : DeclSpecVars} {tok : Token} {s1 : Parser}
    {v' : DeclSpecVars} (h : v.Keeps v') :
    ParseDeclSpec.Outcome outNull v tok s1 (fun k => k outNull v' s1) :=
  Or.inr (Or.inr (Or.inr ⟨.ok v' s1, fun _ => rfl,
    fun _ _ heq => by cases heq; exact h⟩))

theorem ParseDeclSpec.Outcome.sub' {outNull : Bool} {v : DeclSpecVars} {tok : Token}
    {s1 : Parser} {α : Type} {m : PM α} {upd : α → DeclSpecVars} (h : ∀ a, v.Keeps (upd a)) :
    ParseDeclSpec.Outcome outNull v tok s1
      (fun k => (m s1).andThen (fun a => k outNull (upd a))) :=
  Or.inr (Or.inr (Or.inr ⟨(m s1).andThen (fun a sA => .ok (upd a) sA),
    fun k => by cases m s1 <;> rfl,
    fun v' sA heq => by
      cases hm : m s1 with
      | ok a s2 => rw [hm, andThen_ok] at heq; cases heq; exact h a
      | fail e s2 => rw [hm, andThen_fail] at heq; cases heq⟩))

theorem ParseDeclSpec.Outcome.sub {outNull : Bool} {v : DeclSpecVars} {tok : Token} {s1 : Parser}
    {α : Type} {m : PM α} {upd : α → DeclSpecVars} (h : ∀ a, v.Keeps (upd a)) :
    ParseDeclSpec.Outcome outNull v tok s1 (fun k => (m >>= fun a => k outNull (upd a)) s1) :=
  ParseDeclSpec.Outcome.sub' h

theorem DeclSpecVars.Keeps.same {v v' : DeclSpecVars} (hm : v'.typeSpec = v.typeSpec)
    (ht : v'.type = v.type) : v.Keeps v' :=
  ⟨fun h => by rw [hm]; exact h, fun _ => ht⟩

theorem DeclSpecVars.Keeps.mask {v v' : DeclSpecVars}
    (hm : v.typeSpec ∈ typeSpecStates → v'.typeSpec ∈ typeSpecStates) (ht : v'.type = v.type) :
    v.Keeps v' :=
  ⟨hm, fun _ => ht⟩

theorem DeclSpecVars.Keeps.fresh {v v' : DeclSpecVars} (h0 : ¬ ((v.typeSpec != 0) = true))
    (hm : v.typeSpec ∈ typeSpecStates → v'.typeSpec ∈ typeSpecStates) : v.Keeps v' :=
  ⟨hm, fun hne => (h0 (bne_iff_ne.2 hne)).elim⟩

theorem IsTypeName_run (tok : Token) (s : Parser) : ∃ bv, IsTypeName tok s = .ok bv s := by
  unfold IsTypeName
  by_cases h : tok.IsTypeSpecQual = true
  · rw [if_pos h]; exact ⟨true, rfl⟩
  · rw [if_neg h]
    unfold isTypedefName
    by_cases hi : tok.IsIdentifier = true
    · rw [if_pos hi]
      cases findChain s.curScope tok.str with
      | none => exact ⟨false, rfl⟩
      | some i => exact ⟨_, rfl⟩
    · rw [if_neg hi]; exact ⟨false, rfl⟩

/-- Every iteration of the loop of `ParseDeclSpec` ends in one of the ways
of `ParseDeclSpec.Outcome`. -/
theorem ParseDeclSpec.loop_outcome (r : Rec) (outNull : Bool) (v : DeclSpecVars) (s : Parser) :
    ParseDeclSpec.Outcome outNull v (tokAt s.toks s.pos) { s with pos := s.pos + 1 }
      (fun k => ParseDeclSpec.loop { r with loopDeclSpec := k } outNull v s) := by
  unfold ParseDeclSpec.loop
  simp only [run_bind, Next_run, andThen_ok, ParseAlignas_indep, ParseStructUnionSpec_indep,
    ParseEnumSpec_indep]
  repeat' (first
    | apply ParseDeclSpec.Outcome.ite
    | intro h
    | exact Or.inl (fun _ => rfl)
    | exact Or.inr (Or.inr (Or.inl (fun _ => rfl)))
    | exact ParseDeclSpec.Outcome.cont (DeclSpecVars.Keeps.same rfl rfl)
    | exact ParseDeclSpec.Outcome.cont (DeclSpecVars.Keeps.mask
        (fun hm => typeSpecStates_signed _ hm h) rfl)
    | exact ParseDeclSpec.Outcome.cont (DeclSpecVars.Keeps.mask
        (fun hm => typeSpecStates_unsigned _ hm h) rfl)
    | exact ParseDeclSpec.Outcome.cont (DeclSpecVars.Keeps.mask
        (fun hm => typeSpecStates_void _ hm h) rfl)
    | exact ParseDeclSpec.Outcome.cont (DeclSpecVars.Keeps.mask
        (fun hm => typeSpecStates_char _ hm h) rfl)
    | exact ParseDeclSpec.Outcome.cont (DeclSpecVars.Keeps.mask
        (fun hm => typeSpecStates_short _ hm h) rfl)
    | exact ParseDeclSpec.Outcome.cont (DeclSpecVars.Keeps.mask
        (fun hm => typeSpecStates_int _ hm h) rfl)
    | exact ParseDeclSpec.Outcome.cont (DeclSpecVars.Keeps.mask
        (fun hm => typeSpecStates_long _ hm h) rfl)
    | exact ParseDeclSpec.Outcome.cont (DeclSpecVars.Keeps.mask
        (fun hm => typeSpecStates_float _ hm h) rfl)
    | exact ParseDeclSpec.Outcome.cont (DeclSpecVars.Keeps.mask
        (fun hm => typeSpecStates_double _ hm h) rfl)
    | exact ParseDeclSpec.Outcome.cont (DeclSpecVars.Keeps.mask
        (fun hm => typeSpecStates_bool _ hm h) rfl)
    | exact ParseDeclSpec.Outcome.cont (DeclSpecVars.Keeps.mask
        (fun hm => typeSpecStates_complex _ hm h) rfl)
    | exact ParseDeclSpec.Outcome.sub (fun _ => DeclSpecVars.Keeps.same rfl rfl)
    | exact ParseDeclSpec.Outcome.sub (fun _ => DeclSpecVars.Keeps.fresh h
        (fun hm => typeSpecStates_structUnion _ hm h))
    | exact ParseDeclSpec.Outcome.sub (fun _ => DeclSpecVars.Keeps.fresh h
        (fun hm => typeSpecStates_enum _ hm h)))
  by_cases h0 : (v.typeSpec == 0) = true
  · simp only [if_pos h0, run_bind]
    obtain ⟨bv, hbv⟩ := IsTypeName_run (tokAt s.toks s.pos) { s with pos := s.pos + 1 }
    simp only [hbv, andThen_ok]
    cases bv
    · exact Or.inr (Or.inl (fun _ => rfl))
    · simp only [if_true]
      exact ParseDeclSpec.Outcome.sub' (fun _ => DeclSpecVars.Keeps.fresh
        (fun hne => (bne_iff_ne.1 hne) (beq_iff_eq.1 h0))
        (fun hm => typeSpecStates_typedefName _ hm h0))
  · simp only [if_neg h0, run_bind]
    exact Or.inr (Or.inl (fun _ => rfl))
theorem ParseDeclSpec.error_run (tok : Token) (s : Parser) :
    ParseDeclSpec.error tok s = .ok { type := .null, storageSpec := 0, funcSpec := 0 }
      { s with errors := s.errors ++ [specError tok.coord] } := rfl

theorem ParseDeclSpec.endOfLoop_run (outNull : Bool) (tok : Token) (v : DeclSpecVars)
    (s : Parser) :
    ParseDeclSpec.endOfLoop outNull tok v s =
      .ok { type := declSpecEndType v,
            storageSpec := if outNull then 0 else v.storageSpec,
            funcSpec := if outNull then 0 else v.funcSpec }
        { s with pos := s.pos - 1, errors := s.errors ++ declSpecEndDiags outNull tok v } := by
  cases outNull <;> cases h0 : (v.typeSpec == 0) <;>
    simp only [ParseDeclSpec.endOfLoop, declSpecEndType, declSpecEndDiags, run_bind, PutBack,
      modifyP, andThen_ok, ErrorIf_run, h0, run_pure, Bool.false_eq_true, if_false, if_true,
      List.append_nil, Bool.false_and, Bool.true_and, List.nil_append, List.append_assoc]
  all_goals first | rfl | skip
/-- An iteration that goes on keeps the invariant. -/
theorem ParseDeclSpec.iterates_keeps {r : Rec} {outNull : Bool} {v v' : DeclSpecVars}
    {s s' : Parser} (h : ParseDeclSpec.iterates r outNull v s v' s') : v.Keeps v' := by
  have hk := h (fun _ v2 s2 =>
    .ok { type := v2.type, storageSpec := v2.typeSpec, funcSpec := v.funcSpec + 1 } s2)
  rcases ParseDeclSpec.loop_outcome r outNull v s with ho | ho | ho | ⟨step, ho, hstep⟩
  · have hk2 := (ho _).symm.trans hk
    rw [ParseDeclSpec.error_run] at hk2
    have h2 := congrArg (fun x => x.value?.map (·.funcSpec)) hk2
    simp only [Res.value?, Option.map_some', Option.some.injEq] at h2
    omega
  · have hk2 := (ho _).symm.trans hk
    rw [ParseDeclSpec.endOfLoop_run] at hk2
    have h2 := congrArg (fun x => x.value?.map (·.funcSpec)) hk2
    simp only [Res.value?, Option.map_some', Option.some.injEq] at h2
    cases outNull
    · simp only [Bool.false_eq_true, if_false] at h2; omega
    · simp only [if_true] at h2; omega
  · have hk2 := (ho _).symm.trans hk
    cases hk2
  · have hk2 := (ho _).symm.trans hk
    cases hs : step with
    | fail e sA => rw [hs, andThen_fail] at hk2; cases hk2
    | ok v2 sA =>
      rw [hs, andThen_ok] at hk2
      have h2 := congrArg (fun x => x.value?.map (·.storageSpec)) hk2
      have h3 := congrArg (fun x => x.value?.map (·.type)) hk2
      simp only [Res.value?, Option.map_some', Option.some.injEq] at h2 h3
      have hkeep := hstep v2 sA hs
      exact ⟨fun hm => h2 ▸ hkeep.1 hm, fun hne => h3 ▸ hkeep.2 hne⟩

/-- The mask of reached variables is one of `typeSpecStates`. -/
theorem ParseDeclSpec.Reached.states {v : DeclSpecVars} (h : ParseDeclSpec.Reached v) :
    v.typeSpec ∈ typeSpecStates := by
  induction h with
  | init => decide
  | step r outNull v s v' s' _ hit ih => exact (ParseDeclSpec.iterates_keeps hit).1 ih

/-- Every iteration of the loop of `ParseDeclSpec` ends at the label `error`,
at `end_of_loop`, in a failure, or in the next iteration, with variables
that the relation `iterates` gives. -/
theorem ParseDeclSpec.loop_cases (r : Rec) (outNull : Bool) (v : DeclSpecVars) (s : Parser) :
    ParseDeclSpec.loop r outNull v s
        = ParseDeclSpec.error (tokAt s.toks s.pos) { s with pos := s.pos + 1 } ∨
    ParseDeclSpec.loop r outNull v s
        = ParseDeclSpec.endOfLoop outNull (tokAt s.toks s.pos) v { s with pos := s.pos + 1 } ∨
    (∃ e sA, ParseDeclSpec.loop r outNull v s = .fail e sA) ∨
    (∃ v' sA, ParseDeclSpec.iterates r outNull v s v' sA ∧
      ParseDeclSpec.loop r outNull v s = r.loopDeclSpec outNull v' sA) := by
  rcases ParseDeclSpec.loop_outcome r outNull v s with ho | ho | ho | ⟨step, ho, _⟩
  · exact Or.inl (ho r.loopDeclSpec)
  · exact Or.inr (Or.inl (ho r.loopDeclSpec))
  · exact Or.inr (Or.inr (Or.inl ⟨_, _, ho r.loopDeclSpec⟩))
  · cases hs : step with
    | fail e sA =>
      refine Or.inr (Or.inr (Or.inl ⟨e, sA, ?_⟩))
      have h1 : ParseDeclSpec.loop r outNull v s = _ := ho r.loopDeclSpec
      rw [hs, andThen_fail] at h1
      exact h1
    | ok v2 sA =>
      refine Or.inr (Or.inr (Or.inr ⟨v2, sA, fun k => ?_, ?_⟩))
      · have h1 : ParseDeclSpec.loop { r with loopDeclSpec := k } outNull v s = _ := ho k
        rw [hs, andThen_ok] at h1
        exact h1
      · have h1 : ParseDeclSpec.loop r outNull v s = _ := ho r.loopDeclSpec
        rw [hs, andThen_ok] at h1
        exact h1

/-- A run of the loop of `ParseDeclSpec` from reached variables, if it
returns, returns from the label `error` or from `end_of_loop` with reached
variables. -/
theorem ParseDeclSpec.loop_returns : ∀ (fuel : Nat) (outNull : Bool) (v : DeclSpecVars)
    (s : Parser) (spec : DeclSpec) (s' : Parser), ParseDeclSpec.Reached v →
    ParseDeclSpec.loop (parser fuel) outNull v s = .ok spec s' →
    (∃ tok sA, ParseDeclSpec.error tok sA = .ok spec s') ∨
    (∃ vf tok sA, ParseDeclSpec.Reached vf ∧
      ParseDeclSpec.endOfLoop outNull tok vf sA = .ok spec s')
  | fuel, outNull, v, s, spec, s', hv, hrun => by
    rcases ParseDeclSpec.loop_cases (parser fuel) outNull v s with h | h | ⟨e, sA, h⟩ |
      ⟨v2, sA, hit, h⟩
    · exact Or.inl ⟨_, _, h ▸ hrun⟩
    · exact Or.inr ⟨v, _, _, hv, h ▸ hrun⟩
    · rw [h] at hrun; cases hrun
    · rw [h] at hrun
      cases fuel with
      | zero => cases hrun
      | succ n =>
        exact ParseDeclSpec.loop_returns n outNull v2 sA spec s'
          (ParseDeclSpec.Reached.step _ _ _ _ _ _ hv hit) hrun

/-! ## The type-specifier masks of `ParseDeclSpec` -/

theorem reached_varsSignedChar : ParseDeclSpec.Reached varsSignedChar :=
  .step bottomRec false varsSigned (stateAtPos toksSignedChar 1) _ (stateAtPos toksSignedChar 2)
    (.step bottomRec false declSpecInit (stateAtPos toksSignedChar 0) _
      (stateAtPos toksSignedChar 1) .init (fun _ => rfl))
    (fun _ => rfl)

/-- Counterexample to C17 as stated: `signed char` is accepted, without a
diagnostic, and the mask at `end_of_loop` holds the bit of `char` next to the
bit of `signed`. -/
theorem ParseDeclSpec_signed_char_accepted :
    ParseDeclSpec.Reached varsSignedChar ∧
    hasBit varsSignedChar.typeSpec T_SIGNED = true ∧
    andNot varsSignedChar.typeSpec (T_SIGNED ||| T_SHORT ||| T_INT ||| T_LONG ||| T_LONG_LONG)
      = T_CHAR ∧
    ParseDeclSpec (parser 10) false (stateAt toksSignedChar)
      = ParseDeclSpec.endOfLoop false (tokAt (stateAt toksSignedChar).toks 2) varsSignedChar
          (stateAtPos toksSignedChar 3) ∧
    declSpecOf false toksSignedChar = some (.arithm (T_SIGNED ||| T_CHAR) none, 0, 0) ∧
    declSpecDiags false toksSignedChar = [] :=
  ⟨reached_varsSignedChar, by decide, by decide, rfl, by decide!, by decide!⟩

/-- C17 (amended): at the start of every iteration of the loop of
`ParseDeclSpec`, hence at `end_of_loop`, a mask that holds the bit of
`signed` holds besides it only bits of `char`, `short`, `int`, `long` and
`long long`, and a mask that holds the bit of `double` holds besides it only
the bits of `long` and `_Complex`. -/
theorem ParseDeclSpec_signed_double_masks (v : DeclSpecVars) (hv : ParseDeclSpec.Reached v) :
    (hasBit v.typeSpec T_SIGNED = true →
      andNot v.typeSpec (T_SIGNED ||| T_CHAR ||| T_SHORT ||| T_INT ||| T_LONG ||| T_LONG_LONG)
        = 0) ∧
    (hasBit v.typeSpec T_DOUBLE = true →
      andNot v.typeSpec (T_DOUBLE ||| T_LONG ||| T_COMPLEX) = 0) := by
  have h : ∀ t ∈ typeSpecStates,
      (hasBit t T_SIGNED = true →
        andNot t (T_SIGNED ||| T_CHAR ||| T_SHORT ||| T_INT ||| T_LONG ||| T_LONG_LONG) = 0) ∧
      (hasBit t T_DOUBLE = true → andNot t (T_DOUBLE ||| T_LONG ||| T_COMPLEX) = 0) := by
    decide
  exact h _ hv.states

/-- Witness of C17 (amended): the variables after `signed char`. -/
theorem ParseDeclSpec_signed_double_masks_witness :
    ParseDeclSpec.Reached varsSignedChar ∧
    (hasBit varsSignedChar.typeSpec T_SIGNED = true →
      andNot varsSignedChar.typeSpec
        (T_SIGNED ||| T_CHAR ||| T_SHORT ||| T_INT ||| T_LONG ||| T_LONG_LONG) = 0) ∧
    (hasBit varsSignedChar.typeSpec T_DOUBLE = true →
      andNot varsSignedChar.typeSpec (T_DOUBLE ||| T_LONG ||| T_COMPLEX) = 0) :=
  ⟨reached_varsSignedChar, ParseDeclSpec_signed_double_masks varsSignedChar reached_varsSignedChar⟩

/-! ## `long` and `long long` -/

/-- The iteration of the loop of `ParseDeclSpec` at the token `long`. -/
theorem ParseDeclSpec.loop_long (r : Rec) (outNull : Bool) (v : DeclSpecVars) (s : Parser)
    (hlong : (tokAt s.toks s.pos).tag = .kw .LONG) :
    ParseDeclSpec.loop r outNull v s =
      if (andNot v.typeSpec COMP_LONG != 0) = true then
        ParseDeclSpec.error (tokAt s.toks s.pos) { s with pos := s.pos + 1 }
      else
        r.loopDeclSpec outNull { v with typeSpec := TypeLL v.typeSpec }
          { s with pos := s.pos + 1 } := by
  unfold ParseDeclSpec.loop
  simp only [run_bind, Next_run, andThen_ok, hlong, beq_iff_eq, reduceCtorEq, Tag.kw.injEq,
    if_false, if_true]
  by_cases h : (andNot v.typeSpec COMP_LONG != 0) = true
  · rw [if_pos h, if_pos h]
  · rw [if_neg h, if_neg h]

/-- C18: the variables at the start of an iteration of the loop of
`ParseDeclSpec` never hold the bits of `long` and of `long long` together;
an iteration at the token `long` ends at the label `error` when the mask
holds a bit `COMP_LONG` does not allow, and goes on with the mask
`TypeLL(typeSpec)` otherwise; that mask holds the bit of `long` and not the
one of `long long` when the mask held neither (first `long`), and the bit of
`long long` and not the one of `long` when it held the bit of `long` (second
`long`); and when the mask holds the bit of `long long` (third `long`) the
iteration ends at the label `error`, with its diagnostic and a null type. -/
theorem ParseDeclSpec_long_toggle (v : DeclSpecVars) (hv : ParseDeclSpec.Reached v) :
    ¬ (hasBit v.typeSpec T_LONG = true ∧ hasBit v.typeSpec T_LONG_LONG = true) ∧
    (∀ r outNull s, (tokAt s.toks s.pos).tag = .kw .LONG →
      ParseDeclSpec.loop r outNull v s =
        if (andNot v.typeSpec COMP_LONG != 0) = true then
          ParseDeclSpec.error (tokAt s.toks s.pos) { s with pos := s.pos + 1 }
        else
          r.loopDeclSpec outNull { v with typeSpec := TypeLL v.typeSpec }
            { s with pos := s.pos + 1 }) ∧
    (hasBit v.typeSpec T_LONG = false → hasBit v.typeSpec T_LONG_LONG = false →
      hasBit (TypeLL v.typeSpec) T_LONG = true ∧
        hasBit (TypeLL v.typeSpec) T_LONG_LONG = false) ∧
    (hasBit v.typeSpec T_LONG = true →
      hasBit (TypeLL v.typeSpec) T_LONG = false ∧
        hasBit (TypeLL v.typeSpec) T_LONG_LONG = true) ∧
    (hasBit v.typeSpec T_LONG_LONG = true →
      ∀ r outNull s, (tokAt s.toks s.pos).tag = .kw .LONG →
        ParseDeclSpec.loop r outNull v s =
          .ok { type := .null, storageSpec := 0, funcSpec := 0 }
            { s with pos := s.pos + 1,
                     errors := s.errors ++ [specError (tokAt s.toks s.pos).coord] }) := by
  have h : ∀ t ∈ typeSpecStates,
      ¬ (hasBit t T_LONG = true ∧ hasBit t T_LONG_LONG = true) ∧
      (hasBit t T_LONG = false → hasBit t T_LONG_LONG = false →
        hasBit (TypeLL t) T_LONG = true ∧ hasBit (TypeLL t) T_LONG_LONG = false) ∧
      (hasBit t T_LONG = true →
        hasBit (TypeLL t) T_LONG = false ∧ hasBit (TypeLL t) T_LONG_LONG = true) ∧
      (hasBit t T_LONG_LONG = true → (andNot t COMP_LONG != 0) = true) := by
    decide
  obtain ⟨h1, h2, h3, h4⟩ := h _ hv.states
  refine ⟨h1, fun r outNull s hl => ParseDeclSpec.loop_long r outNull v s hl, h2, h3,
    fun hll r outNull s hl => ?_⟩
  rw [ParseDeclSpec.loop_long r outNull v s hl, if_pos (h4 hll)]
  rfl

/-- Witness of C18: the variables before the first token; and the runs on
`long long long x;` from its third, second and first token: the third
`long` is rejected at token 2. -/
theorem ParseDeclSpec_long_toggle_witness :
    ParseDeclSpec.Reached declSpecInit ∧
    ¬ (hasBit declSpecInit.typeSpec T_LONG = true ∧
        hasBit declSpecInit.typeSpec T_LONG_LONG = true) ∧
    TypeLL declSpecInit.typeSpec = T_LONG ∧ TypeLL T_LONG = T_LONG_LONG ∧
    declSpecOf false (specThenX [K .LONG "long"]) = some (.arithm T_LONG none, 0, 0) ∧
    declSpecOf false (specThenX [K .LONG "long", K .LONG "long"])
      = some (.arithm T_LONG_LONG none, 0, 0) ∧
    declSpecOf false toksLongLongLong = some (.null, 0, 0) ∧
    declSpecDiags false toksLongLongLong = [specError 2] :=
  ⟨.init, (ParseDeclSpec_long_toggle declSpecInit .init).1, by decide, by decide, by decide!,
    by decide!, by decide!, by decide!⟩

/-! ## The type `ParseDeclSpec` returns -/

/-- The iteration of the loop of `ParseDeclSpec` at `struct` or `union`. -/
theorem ParseDeclSpec.loop_structUnion (r : Rec) (outNull : Bool) (v : DeclSpecVars)
    (s : Parser)
    (htag : (tokAt s.toks s.pos).tag = .kw .STRUCT ∨ (tokAt s.toks s.pos).tag = .kw .UNION) :
    ParseDeclSpec.loop r outNull v s =
      if (v.typeSpec != 0) = true then
        ParseDeclSpec.error (tokAt s.toks s.pos) { s with pos := s.pos + 1 }
      else
        (ParseStructUnionSpec r ((tokAt s.toks s.pos).tag == .kw .STRUCT)
            { s with pos := s.pos + 1 }).andThen
          (fun type sA => r.loopDeclSpec outNull
            { v with type := type, typeSpec := v.typeSpec ||| T_STRUCT_UNION } sA) := by
  unfold ParseDeclSpec.loop
  rcases htag with h | h <;>
  · simp only [run_bind, Next_run, andThen_ok, h, beq_iff_eq, reduceCtorEq, Tag.kw.injEq,
      if_false, if_true, Bool.or_true, Bool.true_or, Bool.or_false, beq_self_eq_true,
      Bool.false_or, decide_False, decide_True]
    by_cases h0 : (v.typeSpec != 0) = true
    · rw [if_pos h0, if_pos h0]
    · rw [if_neg h0, if_neg h0]; rfl

/-- The iteration of the loop of `ParseDeclSpec` at `enum`. -/
theorem ParseDeclSpec.loop_enum (r : Rec) (outNull : Bool) (v : DeclSpecVars) (s : Parser)
    (htag : (tokAt s.toks s.pos).tag = .kw .ENUM) :
    ParseDeclSpec.loop r outNull v s =
      if (v.typeSpec != 0) = true then
        ParseDeclSpec.error (tokAt s.toks s.pos) { s with pos := s.pos + 1 }
      else
        (ParseEnumSpec r { s with pos := s.pos + 1 }).andThen
          (fun type sA => r.loopDeclSpec outNull
            { v with type := type, typeSpec := v.typeSpec ||| T_ENUM } sA) := by
  unfold ParseDeclSpec.loop
  simp only [run_bind, Next_run, andThen_ok, htag, beq_iff_eq, reduceCtorEq, Tag.kw.injEq,
    if_false, if_true, Bool.or_self, Bool.false_eq_true]
  by_cases h0 : (v.typeSpec != 0) = true
  · simp only [if_pos h0]; rfl
  · simp only [if_neg h0]; rfl

/-- The iteration of the loop of `ParseDeclSpec` at an identifier, when no
type specifier came before it. -/
theorem ParseDeclSpec.loop_identifier (r : Rec) (outNull : Bool) (v : DeclSpecVars)
    (s : Parser) (htag : (tokAt s.toks s.pos).tag = .kw .IDENTIFIER) (h0 : v.typeSpec = 0) :
    ParseDeclSpec.loop r outNull v s =
      (IsTypeName (tokAt s.toks s.pos) { s with pos := s.pos + 1 }).andThen
        (fun isTypeName sA =>
          if isTypeName = true then
            (Find (tokAt s.toks s.pos).str sA).andThen (fun ident sB =>
              r.loopDeclSpec outNull
                { v with type := (match ident with
                                  | some ident => ident.ToType
                                  | none => v.type),
                         typeSpec := v.typeSpec ||| T_TYPEDEF_NAME } sB)
          else ParseDeclSpec.endOfLoop outNull (tokAt s.toks s.pos) v sA) := by
  unfold ParseDeclSpec.loop
  simp only [run_bind, Next_run, andThen_ok, htag, beq_iff_eq, reduceCtorEq, Tag.kw.injEq,
    if_false, if_true, Bool.or_self, Bool.false_eq_true, h0]
  rw [if_neg (by decide)]
  simp only [run_bind]
  congr 1
  funext b sA
  cases b <;> rfl

/-- C19: for the variables at the start of an iteration of the loop of
`ParseDeclSpec`: a mask that holds the bit of `void`, of a struct or union,
of an enum or of a typedef name is that bit alone; when `end_of_loop` adds
no diagnostic, the returned type is `void` for the mask `T_VOID`, the
recorded type `type` for the masks `T_STRUCT_UNION`, `T_ENUM` and
`T_TYPEDEF_NAME`, and the arithmetic type of the mask otherwise; an
iteration that goes on from a mask that is not 0 leaves the recorded type as
it is; and the iterations at `struct`, `union`, `enum` and at a typedef name
end at the label `error` when the mask is not 0 and otherwise record the
type that `ParseStructUnionSpec`, `ParseEnumSpec` or the identifier
gives. -/
theorem ParseDeclSpec_end_type (v : DeclSpecVars) (hv : ParseDeclSpec.Reached v) :
    (∀ b, b = T_VOID ∨ b = T_STRUCT_UNION ∨ b = T_ENUM ∨ b = T_TYPEDEF_NAME →
      hasBit v.typeSpec b = true → v.typeSpec = b) ∧
    (∀ outNull tok s,
      (ParseDeclSpec.endOfLoop outNull tok v s).state.errors = s.errors →
      (ParseDeclSpec.endOfLoop outNull tok v s).value?.map (·.type)
        = some (declSpecQuietType v)) ∧
    (∀ r outNull s v' s', ParseDeclSpec.iterates r outNull v s v' s' → v.typeSpec ≠ 0 →
      v'.type = v.type) ∧
    (∀ r outNull s,
      (tokAt s.toks s.pos).tag = .kw .STRUCT ∨ (tokAt s.toks s.pos).tag = .kw .UNION →
      ParseDeclSpec.loop r outNull v s =
        if (v.typeSpec != 0) = true then
          ParseDeclSpec.error (tokAt s.toks s.pos) { s with pos := s.pos + 1 }
        else
          (ParseStructUnionSpec r ((tokAt s.toks s.pos).tag == .kw .STRUCT)
              { s with pos := s.pos + 1 }).andThen
            (fun type sA => r.loopDeclSpec outNull
              { v with type := type, typeSpec := v.typeSpec ||| T_STRUCT_UNION } sA)) ∧
    (∀ r outNull s, (tokAt s.toks s.pos).tag = .kw .ENUM →
      ParseDeclSpec.loop r outNull v s =
        if (v.typeSpec != 0) = true then
          ParseDeclSpec.error (tokAt s.toks s.pos) { s with pos := s.pos + 1 }
        else
          (ParseEnumSpec r { s with pos := s.pos + 1 }).andThen
            (fun type sA => r.loopDeclSpec outNull
              { v with type := type, typeSpec := v.typeSpec ||| T_ENUM } sA)) ∧
    (∀ r outNull s, (tokAt s.toks s.pos).tag = .kw .IDENTIFIER → v.typeSpec = 0 →
      ParseDeclSpec.loop r outNull v s =
        (IsTypeName (tokAt s.toks s.pos) { s with pos := s.pos + 1 }).andThen
          (fun isTypeName sA =>
            if isTypeName = true then
              (Find (tokAt s.toks s.pos).str sA).andThen (fun ident sB =>
                r.loopDeclSpec outNull
                  { v with type := (match ident with
                                    | some ident => ident.ToType
                                    | none => v.type),
                           typeSpec := v.typeSpec ||| T_TYPEDEF_NAME } sB)
            else ParseDeclSpec.endOfLoop outNull (tokAt s.toks s.pos) v sA)) := by
  have hsole : ∀ t ∈ typeSpecStates,
      (∀ b, b = T_VOID ∨ b = T_STRUCT_UNION ∨ b = T_ENUM ∨ b = T_TYPEDEF_NAME →
        hasBit t b = true → t = b) ∧ t ≠ T_ATOMIC := by
    intro t ht
    refine ⟨?_, ?_⟩
    · rintro b (rfl | rfl | rfl | rfl) <;> revert t <;> decide
    · revert t; decide
  refine ⟨(hsole _ hv.states).1, fun outNull tok s herr => ?_,
    fun r outNull s v' s' hit hne => (ParseDeclSpec.iterates_keeps hit).2 hne,
    fun r outNull s h => ParseDeclSpec.loop_structUnion r outNull v s h,
    fun r outNull s h => ParseDeclSpec.loop_enum r outNull v s h,
    fun r outNull s h h0 => ParseDeclSpec.loop_identifier r outNull v s h h0⟩
  rw [ParseDeclSpec.endOfLoop_run] at herr ⊢
  simp only [Res.state, Res.value?, Option.map_some'] at herr ⊢
  have hd : declSpecEndDiags outNull tok v = [] := List.append_right_eq_self.1 herr
  have hne : (v.typeSpec == 0) = false := by
    cases h0 : (v.typeSpec == 0)
    · rfl
    · simp [declSpecEndDiags, h0] at hd
  have hat : (v.typeSpec == T_ATOMIC) = false := beq_false_of_ne (hsole _ hv.states).2
  congr 1
  unfold declSpecEndType declSpecQuietType
  simp only [hne, hat, Bool.false_eq_true, if_false, Bool.false_or, beq_iff_eq,
    Bool.or_eq_true]
  by_cases h1 : v.typeSpec = T_VOID
  · rw [if_pos h1, if_pos h1]
  · rw [if_neg h1, if_neg h1]
    by_cases h2 : v.typeSpec = T_STRUCT_UNION ∨ v.typeSpec = T_ENUM ∨ v.typeSpec = T_TYPEDEF_NAME
    · rw [if_pos h2, if_pos (by rcases h2 with h | h | h <;> simp [h])]
    · rw [if_neg h2, if_neg (by
        intro h; apply h2
        rcases h with (h | h) | h
        · exact Or.inl h
        · exact Or.inr (Or.inl h)
        · exact Or.inr (Or.inr h))]

theorem reached_varsVoid : ParseDeclSpec.Reached varsVoid :=
  .step bottomRec false declSpecInit (stateAtPos toksVoidX 0) _ (stateAtPos toksVoidX 1) .init
    (fun _ => rfl)

/-- Witness of C19: the variables after `void`, and the runs on `void x;`,
on `unsigned int x;`, on `enum E x;` and on `void int x;`. -/
theorem ParseDeclSpec_end_type_witness :
    ParseDeclSpec.Reached varsVoid ∧
    (ParseDeclSpec.endOfLoop false (tokAt (stateAt toksVoidX).toks 1) varsVoid
        (stateAtPos toksVoidX 2)).value?.map (·.type) = some .void ∧
    declSpecOf false toksVoidX = some (.void, 0, 0) ∧
    declSpecDiags false toksVoidX = [] ∧
    declSpecOf false (specThenX [K .UNSIGNED "unsigned", K .INT "int"])
      = some (.arithm (T_UNSIGNED ||| T_INT) none, 0, 0) ∧
    declSpecDiags false (specThenX [K .VOID "void", K .INT "int"]) = [specError 1] :=
  ⟨reached_varsVoid,
    ((ParseDeclSpec_end_type varsVoid reached_varsVoid).2.1 false _ (stateAtPos toksVoidX 2)
      rfl).trans rfl,
    by decide!, by decide!, by decide!, by decide!⟩

/-! ## The lowering of `for` -/

theorem Res.andThen_assoc {α β γ : Type} (x : Res α) (f : α → Parser → Res β)
    (g : β → Parser → Res γ) :
    (x.andThen f).andThen g = x.andThen (fun a s => (f a s).andThen g) := by
  cases x <;> rfl

/-- A run that returned the value `a` is `.ok a` with its state. -/
theorem Res.eq_ok_of_value {α : Type} (x : Res α) (a : α) (h : x.value? = some a) :
    x = .ok a x.state := by
  cases x with
  | ok b s => cases h; rfl
  | fail e s => cases h

theorem PM.bind_assoc {α β γ : Type} (m : PM α) (f : α → PM β) (g : β → PM γ) :
    (m >>= f) >>= g = m >>= fun a => f a >>= g := by
  funext s
  show ((m s).andThen f).andThen g = (m s).andThen (fun a s1 => (f a s1).andThen g)
  exact Res.andThen_assoc _ _ _

/-- The statements between `EnterBlock()` and `ExitBlock()` of `ParseForStmt`
are the header followed by the lowering. -/
theorem ParseForStmt.body_eq (r : Rec) (s : Parser) :
    ParseForStmt.body r s =
      (ParseForStmt.header r s).andThen
        (fun h sH => ParseForStmt.lower r h.1 h.2.1 h.2.2 sH) := by
  have h : ParseForStmt.body r =
      ParseForStmt.header r >>= fun h => ParseForStmt.lower r h.1 h.2.1 h.2.2 := by
    unfold ParseForStmt.body ParseForStmt.header ParseForStmt.lower
    simp only [PM.bind_assoc]
    rfl
  rw [h, run_bind]

/-- The lowering of `ParseForStmt` for a condition that is not null. -/
theorem ParseForStmt.lower_run (r : Rec) (init : Stmt) (c step : Expr) (s : Parser)
    (hc : c ≠ .null) :
    ParseForStmt.lower r [init] c step s =
      (r.ParseStmt (forBodyState s)).andThen (fun S sS =>
        .ok [init, .labelStmt s.nextId, .ifStmt c .null (.jumpStmt (s.nextId + 3)), S,
             .labelStmt (s.nextId + 1), step.toStmt, .jumpStmt sS.nextId,
             .labelStmt (s.nextId + 2)]
          { sS with breakDest := s.breakDest, continueDest := s.continueDest,
                    nextId := sS.nextId + 1,
                    jumps := (sS.nextId, some s.nextId) :: sS.jumps }) := by
  cases c <;> first
    | exact absurd rfl hc
    | rfl

/-- `ParseStmt` at `break ;`. -/
theorem ParseStmt_break (r : Rec) (s : Parser)
    (hbreak : (tokAt s.toks s.pos).tag = .kw .BREAK)
    (hsemi : (tokAt s.toks (s.pos + 1)).tag = .chr ';') :
    ParseStmt r s =
      .ok (.jumpStmt s.nextId)
        { s with pos := s.pos + 2, nextId := s.nextId + 1,
                 jumps := (s.nextId, s.breakDest) :: s.jumps,
                 errors := s.errors ++
                   if s.breakDest.isNone then
                     [{ coord := (tokAt s.toks (s.pos + 1)).coord,
                        fmt := "'break' is allowed only in switch/loop", args := [] }]
                   else [] } := by
  have heof : (tokAt s.toks s.pos).IsEOF = false := by
    simp only [Token.IsEOF, hbreak, beq_eq_false_iff_ne, ne_eq, reduceCtorEq, Tag.kw.injEq,
      not_false_eq_true]
  unfold ParseStmt
  simp only [run_bind, Next_run, andThen_ok, ErrorIf_run, heof, hbreak, beq_iff_eq, reduceCtorEq,
    Tag.kw.injEq, if_false, if_true, Bool.false_eq_true, List.append_nil]
  unfold ParseBreakStmt Expect1 Expect
  simp only [run_bind, Next_run, andThen_ok, ErrorIf_run, Peek, hsemi, bne_self_eq_false,
    Bool.false_eq_true, if_false, run_pure, getP, NewJumpStmt, freshId, modifyP]

/-- C15: `ParseForStmt`, when the header gives the init statement `init`,
the condition `c` (not null) and the step `step`, and the body parsed in the
state `forBodyState sH` is `S`, returns the compound statement
`[init, L_cond, if (c) {} else goto L_end, S, L_step, step, goto L_cond,
L_end]`, where the labels are the three handles `sH.nextId`,
`sH.nextId + 1`, `sH.nextId + 2` allocated after the header, the jump of the
`if` has the target `L_end` and the last jump the target `L_cond`; the body
is parsed with `L_end` as the destination of `break`, and `break;` parsed
with that destination is a new `JumpStmt` whose target is `L_end`. -/
theorem ParseForStmt_lowering (r : Rec) (s sH sS : Parser) (init : Stmt) (c step : Expr)
    (S : Stmt)
    (hhead : ParseForStmt.header r (EnterBlock s).state = .ok ([init], c, step) sH)
    (hc : c ≠ .null)
    (hS : r.ParseStmt (forBodyState sH) = .ok S sS)
    (hscope : sS.curScope ≠ []) :
    ParseForStmt r s =
      .ok (.compoundStmt
            [init, .labelStmt sH.nextId, .ifStmt c .null (.jumpStmt (sH.nextId + 3)), S,
             .labelStmt (sH.nextId + 1), step.toStmt, .jumpStmt sS.nextId,
             .labelStmt (sH.nextId + 2)])
        { sS with breakDest := sH.breakDest, continueDest := sH.continueDest,
                  nextId := sS.nextId + 1,
                  jumps := (sS.nextId, some sH.nextId) :: sS.jumps,
                  curScope := sS.curScope.tail } ∧
    [sH.nextId, sH.nextId + 1, sH.nextId + 2].Nodup ∧
    (forBodyState sH).jumps.lookup (sH.nextId + 3) = some (some (sH.nextId + 2)) ∧
    (forBodyState sH).breakDest = some (sH.nextId + 2) ∧
    (∀ r2 sB, sB.breakDest = (forBodyState sH).breakDest →
      (tokAt sB.toks sB.pos).tag = .kw .BREAK → (tokAt sB.toks (sB.pos + 1)).tag = .chr ';' →
      ParseStmt r2 sB =
        .ok (.jumpStmt sB.nextId)
          { sB with pos := sB.pos + 2, nextId := sB.nextId + 1,
                    jumps := (sB.nextId, some (sH.nextId + 2)) :: sB.jumps }) := by
  refine ⟨?_, ?_, ?_, rfl, ?_⟩
  · have hE : EnterBlock s = .ok () (EnterBlock s).state := rfl
    unfold ParseForStmt
    rw [run_bind, hE, andThen_ok, run_bind, ParseForStmt.body_eq, hhead, andThen_ok]
    simp only [ParseForStmt.lower_run r init c step sH hc, hS, andThen_ok, run_bind]
    cases hcs : sS.curScope with
    | nil => exact absurd hcs hscope
    | cons sc rest =>
      simp only [ExitBlock, hcs, andThen_ok, run_pure, NewCompoundStmt, List.tail_cons]
  · simp
  · simp [forBodyState, List.lookup]
  · intro r2 sB hb hbreak hsemi
    rw [ParseStmt_break r2 sB hbreak hsemi, hb]
    simp only [forBodyState, Option.isNone_some, Bool.false_eq_true, if_false, List.append_nil]

/-- Witness of C15: `for (int i = 0; i < 10; ++i) if (i == 5) break;`, from
the state after the keyword `for`.  The labels are 4, 5 and 6; the jump 7 of
the test and the jump 8 of `break` have the target 6, the jump 9 the
target 4. -/
theorem ParseForStmt_lowering_witness :
    ParseForStmt.header (parser 40) (EnterBlock forStart).state
      = .ok ([forInit], forCond, forStep) forHeaderState ∧
    forCond ≠ .null ∧
    (parser 40).ParseStmt (forBodyState forHeaderState) = .ok forBody forAfterBody ∧
    forAfterBody.curScope ≠ [] ∧
    ParseForStmt (parser 40) forStart =
      .ok (.compoundStmt
            [forInit, .labelStmt forHeaderState.nextId,
             .ifStmt forCond .null (.jumpStmt (forHeaderState.nextId + 3)), forBody,
             .labelStmt (forHeaderState.nextId + 1), forStep.toStmt,
             .jumpStmt forAfterBody.nextId, .labelStmt (forHeaderState.nextId + 2)])
        { forAfterBody with
            breakDest := forHeaderState.breakDest, continueDest := forHeaderState.continueDest,
            nextId := forAfterBody.nextId + 1,
            jumps := (forAfterBody.nextId, some forHeaderState.nextId) :: forAfterBody.jumps,
            curScope := forAfterBody.curScope.tail } ∧
    (ParseForStmt (parser 40) forStart).value? =
      some (.compoundStmt [forInit, .labelStmt 4, .ifStmt forCond .null (.jumpStmt 7), forBody,
        .labelStmt 5, .expr forStep, .jumpStmt 9, .labelStmt 6]) ∧
    (ParseForStmt (parser 40) forStart).state.jumps = [(9, some 4), (8, some 6), (7, some 6)] ∧
    (ParseForStmt (parser 40) forStart).state.errors = [] :=
  have h1 : ParseForStmt.header (parser 40) (EnterBlock forStart).state
      = .ok ([forInit], forCond, forStep) forHeaderState :=
    Res.eq_ok_of_value _ _ (by decide!)
  have h2 : forCond ≠ .null := fun h => Expr.noConfusion h
  have h3 : (parser 40).ParseStmt (forBodyState forHeaderState) = .ok forBody forAfterBody :=
    Res.eq_ok_of_value _ _ (by decide!)
  have h4 : forAfterBody.curScope ≠ [] := List.ne_nil_of_length_pos (by decide!)
  ⟨h1, h2, h3, h4,
    (ParseForStmt_lowering (parser 40) forStart forHeaderState forAfterBody forInit forCond
      forStep forBody h1 h2 h3 h4).1,
    by decide!, by decide!, by decide!⟩

/-! ## Expressions and declarations keep the state of the statement level -/

theorem stmtStateKept_refl (s : Parser) : s.StmtStateKept s :=
  ⟨rfl, Nat.le_refl _, rfl, rfl, rfl, rfl, rfl⟩

theorem stmtStateKept_trans {a b c : Parser} (h1 : a.StmtStateKept b)
    (h2 : b.StmtStateKept c) : a.StmtStateKept c :=
  ⟨h2.toks.trans h1.toks, Nat.le_trans h1.nextId h2.nextId,
    h2.caseLabels.trans h1.caseLabels, h2.defaultLabel.trans h1.defaultLabel,
    h2.breakDest.trans h1.breakDest, h2.continueDest.trans h1.continueDest,
    h2.jumps.trans h1.jumps⟩

instance stmtKept_pure {α : Type} (a : α) : KeepsStmtState (pure a : PM α) :=
  ⟨fun s b s' h => by cases h; exact ⟨rfl, Nat.le_refl _, rfl, rfl, rfl, rfl, rfl⟩⟩

instance stmtKept_pure2 {α : Type} (a : α) : KeepsStmtState (PM.pure a : PM α) :=
  ⟨fun s b s' h => by cases h; exact ⟨rfl, Nat.le_refl _, rfl, rfl, rfl, rfl, rfl⟩⟩

instance stmtKept_fail {α : Type} (f : Fail) : KeepsStmtState (PM.fail f : PM α) :=
  ⟨fun s b s' h => by cases h⟩

theorem stmtKept_bind_of {α β : Type} {m : PM α} {f : α → PM β} (hm : KeepsStmtState m)
    (hf : ∀ a, KeepsStmtState (f a)) : KeepsStmtState (m >>= f) :=
  ⟨fun s b s' h => by
    rw [run_bind] at h
    cases hms : m s with
    | ok a s1 =>
      rw [hms, andThen_ok] at h
      exact stmtStateKept_trans (hm.keeps s a s1 hms) ((hf a).keeps s1 b s' h)
    | fail e s1 =>
      rw [hms, andThen_fail] at h
      cases h⟩

instance stmtKept_bind {α β : Type} (m : PM α) (f : α → PM β) [hm : KeepsStmtState m]
    [hf : ∀ a, KeepsStmtState (f a)] : KeepsStmtState (m >>= f) :=
  stmtKept_bind_of hm hf

theorem stmtKept_ite_of {α : Type} {c : Prop} [Decidable c] {a b : PM α}
    (ha : KeepsStmtState a) (hb : KeepsStmtState b) : KeepsStmtState (if c then a else b) := by
  by_cases h : c
  · rw [if_pos h]; exact ha
  · rw [if_neg h]; exact hb

instance stmtKept_ite {α : Type} (c : Prop) [Decidable c] (a b : PM α) [ha : KeepsStmtState a]
    [hb : KeepsStmtState b] : KeepsStmtState (if c then a else b) :=
  stmtKept_ite_of ha hb

theorem stmtKept_modifyP (f : Parser → Parser) (h : ∀ s : Parser, s.StmtStateKept (f s)) :
    KeepsStmtState (modifyP f) :=
  ⟨fun s a s' hr => by cases hr; exact h s⟩

instance : KeepsStmtState getP := ⟨fun s a s' h => by cases h; exact ⟨rfl, Nat.le_refl _, rfl, rfl, rfl, rfl, rfl⟩⟩
instance : KeepsStmtState freshId :=
  ⟨fun s a s' h => by cases h; exact ⟨rfl, Nat.le_succ _, rfl, rfl, rfl, rfl, rfl⟩⟩
instance (c : Bool) : KeepsStmtState (assert c) := by
  unfold assert; infer_instance
instance (c : Nat) (f : String) (a : List String) : KeepsStmtState (Error c f a) :=
  stmtKept_modifyP _ (fun _ => ⟨rfl, Nat.le_refl _, rfl, rfl, rfl, rfl, rfl⟩)
instance (b : Bool) (c : Nat) (f : String) (a : List String) :
    KeepsStmtState (ErrorIf b c f a) := by
  unfold ErrorIf; infer_instance
instance : KeepsStmtState Peek := ⟨fun s a s' h => by cases h; exact ⟨rfl, Nat.le_refl _, rfl, rfl, rfl, rfl, rfl⟩⟩
instance : KeepsStmtState Next := ⟨fun s a s' h => by cases h; exact ⟨rfl, Nat.le_refl _, rfl, rfl, rfl, rfl, rfl⟩⟩
instance : KeepsStmtState PutBack := stmtKept_modifyP _ (fun _ => ⟨rfl, Nat.le_refl _, rfl, rfl, rfl, rfl, rfl⟩)
instance (t : Tag) : KeepsStmtState (Test t) :=
  ⟨fun s a s' h => by cases h; exact ⟨rfl, Nat.le_refl _, rfl, rfl, rfl, rfl, rfl⟩⟩
instance (t : Tag) : KeepsStmtState (Try t) :=
  ⟨fun s a s' h => by
    unfold Try at h
    by_cases hc : ((tokAt s.toks s.pos).tag == t) = true
    · rw [if_pos hc] at h; cases h; exact ⟨rfl, Nat.le_refl _, rfl, rfl, rfl, rfl, rfl⟩
    · rw [if_neg hc] at h; cases h; exact ⟨rfl, Nat.le_refl _, rfl, rfl, rfl, rfl, rfl⟩⟩
instance : KeepsStmtState Mark := stmtKept_modifyP _ (fun _ => ⟨rfl, Nat.le_refl _, rfl, rfl, rfl, rfl, rfl⟩)
instance : KeepsStmtState Release :=
  stmtKept_modifyP _ (fun s => by
    cases h : s.marks <;> exact ⟨rfl, Nat.le_refl _, rfl, rfl, rfl, rfl, rfl⟩)
instance (a b : Tag) : KeepsStmtState (Panic a b) :=
  stmtKept_modifyP _ (fun _ => ⟨rfl, Nat.le_refl _, rfl, rfl, rfl, rfl, rfl⟩)
instance (a b c : Tag) : KeepsStmtState (Expect a b c) := by
  unfold Expect; infer_instance
instance (a : Tag) : KeepsStmtState (Expect1 a) := by
  unfold Expect1; infer_instance

instance : KeepsStmtState curScope :=
  ⟨fun s a s' h => by
    unfold curScope at h
    cases hc : s.curScope with
    | nil => rw [hc] at h; cases h
    | cons sc rest => rw [hc] at h; cases h; exact ⟨rfl, Nat.le_refl _, rfl, rfl, rfl, rfl, rfl⟩⟩

instance (name : String) : KeepsStmtState (Find name) :=
  ⟨fun s a s' h => by
    unfold Find at h
    cases hc : s.curScope with
    | nil => rw [hc] at h; cases h
    | cons sc rest => rw [hc] at h; cases h; exact ⟨rfl, Nat.le_refl _, rfl, rfl, rfl, rfl, rfl⟩⟩

instance (name : String) : KeepsStmtState (FindTag name) :=
  ⟨fun s a s' h => by
    unfold FindTag at h
    cases hc : s.curScope with
    | nil => rw [hc] at h; cases h
    | cons sc rest => rw [hc] at h; cases h; exact ⟨rfl, Nat.le_refl _, rfl, rfl, rfl, rfl, rfl⟩⟩

instance (name : String) (i : Identifier) : KeepsStmtState (Insert name i) :=
  ⟨fun s a s' h => by
    unfold Insert at h
    cases hc : s.curScope with
    | nil => rw [hc] at h; cases h
    | cons sc rest => rw [hc] at h; cases h; exact ⟨rfl, Nat.le_refl _, rfl, rfl, rfl, rfl, rfl⟩⟩

instance (name : String) (i : Identifier) : KeepsStmtState (InsertTag name i) :=
  ⟨fun s a s' h => by
    unfold InsertTag at h
    cases hc : s.curScope with
    | nil => rw [hc] at h; cases h
    | cons sc rest => rw [hc] at h; cases h; exact ⟨rfl, Nat.le_refl _, rfl, rfl, rfl, rfl, rfl⟩⟩

instance (name : String) : KeepsStmtState (ExternalFind name) :=
  ⟨fun s a s' h => by cases h; exact ⟨rfl, Nat.le_refl _, rfl, rfl, rfl, rfl, rfl⟩⟩

instance (tok : Token) : KeepsStmtState (isTypedefName tok) :=
  ⟨fun s a s' h => by
    unfold isTypedefName at h
    by_cases hi : tok.IsIdentifier = true
    · rw [if_pos hi] at h
      cases hf : findChain s.curScope tok.str with
      | none => rw [hf] at h; cases h; exact ⟨rfl, Nat.le_refl _, rfl, rfl, rfl, rfl, rfl⟩
      | some i => rw [hf] at h; cases h; exact ⟨rfl, Nat.le_refl _, rfl, rfl, rfl, rfl, rfl⟩
    · rw [if_neg hi] at h; cases h; exact ⟨rfl, Nat.le_refl _, rfl, rfl, rfl, rfl, rfl⟩⟩

instance : KeepsStmtState setErrTok :=
  ⟨fun s a s' h => by cases h; exact ⟨rfl, Nat.le_refl _, rfl, rfl, rfl, rfl, rfl⟩⟩

instance : KeepsStmtState EnterBlock :=
  ⟨fun s a s' h => by cases h; exact ⟨rfl, Nat.le_succ _, rfl, rfl, rfl, rfl, rfl⟩⟩

instance : KeepsStmtState ExitBlock :=
  ⟨fun s a s' h => by
    unfold ExitBlock at h
    cases hc : s.curScope with
    | nil => rw [hc] at h; cases h
    | cons sc rest => rw [hc] at h; cases h; exact ⟨rfl, Nat.le_refl _, rfl, rfl, rfl, rfl, rfl⟩⟩

instance (r : Rec) [h : RecKeepsStmt r] : KeepsStmtState r.ParseExpr := h.ParseExpr
instance (r : Rec) [h : RecKeepsStmt r] : KeepsStmtState r.ParseAssignExpr := h.ParseAssignExpr
instance (r : Rec) [h : RecKeepsStmt r] : KeepsStmtState r.ParseConditionalExpr := h.ParseConditionalExpr
instance (r : Rec) [h : RecKeepsStmt r] : KeepsStmtState r.ParseCastExpr := h.ParseCastExpr
instance (r : Rec) [h : RecKeepsStmt r] : KeepsStmtState r.ParseUnaryExpr := h.ParseUnaryExpr
instance (r : Rec) [h : RecKeepsStmt r] : KeepsStmtState r.ParseTypeName := h.ParseTypeName
instance (r : Rec) [h : RecKeepsStmt r] (e : Expr) : KeepsStmtState (r.ParsePostfixExprTail e) :=
  h.ParsePostfixExprTail e
instance (r : Rec) [h : RecKeepsStmt r] (a : List Expr) : KeepsStmtState (r.loopFuncCallVarArgs a) :=
  h.loopFuncCallVarArgs a
instance (r : Rec) [h : RecKeepsStmt r] (e : Expr) (t : Token) : KeepsStmtState (r.loopMultiplicative e t) :=
  h.loopMultiplicative e t
instance (r : Rec) [h : RecKeepsStmt r] (e : Expr) (t : Token) : KeepsStmtState (r.loopAdditive e t) :=
  h.loopAdditive e t
instance (r : Rec) [h : RecKeepsStmt r] (e : Expr) (t : Token) : KeepsStmtState (r.loopShift e t) :=
  h.loopShift e t
instance (r : Rec) [h : RecKeepsStmt r] (e : Expr) (t : Token) : KeepsStmtState (r.loopRelational e t) :=
  h.loopRelational e t
instance (r : Rec) [h : RecKeepsStmt r] (e : Expr) (t : Token) : KeepsStmtState (r.loopEquality e t) :=
  h.loopEquality e t
instance (r : Rec) [h : RecKeepsStmt r] (e : Expr) (t : Token) : KeepsStmtState (r.loopBitwiseAnd e t) :=
  h.loopBitwiseAnd e t
instance (r : Rec) [h : RecKeepsStmt r] (e : Expr) (t : Token) : KeepsStmtState (r.loopBitwiseXor e t) :=
  h.loopBitwiseXor e t
instance (r : Rec) [h : RecKeepsStmt r] (e : Expr) (t : Token) : KeepsStmtState (r.loopBitwiseOr e t) :=
  h.loopBitwiseOr e t
instance (r : Rec) [h : RecKeepsStmt r] (e : Expr) (t : Token) : KeepsStmtState (r.loopLogicalAnd e t) :=
  h.loopLogicalAnd e t
instance (r : Rec) [h : RecKeepsStmt r] (e : Expr) (t : Token) : KeepsStmtState (r.loopLogicalOr e t) :=
  h.loopLogicalOr e t
instance (r : Rec) [h : RecKeepsStmt r] (e : Expr) (t : Token) : KeepsStmtState (r.loopComma e t) :=
  h.loopComma e t
instance (r : Rec) [h : RecKeepsStmt r] (b : Bool) : KeepsStmtState (r.ParseDeclSpec b) :=
  h.ParseDeclSpec b
instance (r : Rec) [h : RecKeepsStmt r] (b : Bool) (v : DeclSpecVars) :
    KeepsStmtState (r.loopDeclSpec b v) := h.loopDeclSpec b v
instance (r : Rec) [h : RecKeepsStmt r] (t : CType) (v : Int) : KeepsStmtState (r.loopEnumerator t v) :=
  h.loopEnumerator t v
instance (r : Rec) [h : RecKeepsStmt r] (t : CType) : KeepsStmtState (r.loopStructDecl t) :=
  h.loopStructDecl t
instance (r : Rec) [h : RecKeepsStmt r] (q : Nat) : KeepsStmtState (r.loopQual q) := h.loopQual q
instance (r : Rec) [h : RecKeepsStmt r] (a b : CType) : KeepsStmtState (r.loopPointer a b) :=
  h.loopPointer a b
instance (r : Rec) [h : RecKeepsStmt r] (p : List CType) : KeepsStmtState (r.loopParamList p) :=
  h.loopParamList p
instance (r : Rec) [h : RecKeepsStmt r] (t : CType) : KeepsStmtState (r.ParseDeclarator t) :=
  h.ParseDeclarator t
instance (r : Rec) [h : RecKeepsStmt r] (t : CType) : KeepsStmtState (r.ParseArrayFuncDeclarator t) :=
  h.ParseArrayFuncDeclarator t
instance (r : Rec) [h : RecKeepsStmt r] (o : Identifier) : KeepsStmtState (r.ParseInitializer o) :=
  h.ParseInitializer o
instance (r : Rec) [h : RecKeepsStmt r] (a : Identifier) (v : ArrayInitVars) :
    KeepsStmtState (r.loopArrayInitializer a v) := h.loopArrayInitializer a v
instance (r : Rec) [h : RecKeepsStmt r] (t : CType) (a b : Nat) (l : List Stmt) :
    KeepsStmtState (r.loopDecl t a b l) := h.loopDecl t a b l

instance stmtKept_ScopeKind  :
    KeepsStmtState ScopeKind := by
  unfold ScopeKind
  try dsimp only []
  repeat' (first
    | infer_instance | apply stmtKept_bind_of | apply stmtKept_ite_of
    | intro _ | exact stmtKept_modifyP _ (fun _ => ⟨rfl, Nat.le_refl _, rfl, rfl, rfl, rfl, rfl⟩) | split)

instance stmtKept_FindInCurScope (name : String) :
    KeepsStmtState (FindInCurScope name) := by
  unfold FindInCurScope
  try dsimp only []
  repeat' (first
    | infer_instance | apply stmtKept_bind_of | apply stmtKept_ite_of
    | intro _ | exact stmtKept_modifyP _ (fun _ => ⟨rfl, Nat.le_refl _, rfl, rfl, rfl, rfl, rfl⟩) | split)

instance stmtKept_ExternalInsert (name : String) (i : Identifier) :
    KeepsStmtState (ExternalInsert name i) := by
  unfold ExternalInsert
  try dsimp only []
  repeat' (first
    | infer_instance | apply stmtKept_bind_of | apply stmtKept_ite_of
    | intro _ | exact stmtKept_modifyP _ (fun _ => ⟨rfl, Nat.le_refl _, rfl, rfl, rfl, rfl, rfl⟩) | split)

instance stmtKept_derefType (t : CType) :
    KeepsStmtState (derefType t) := by
  unfold derefType
  try dsimp only []
  repeat' (first
    | infer_instance | apply stmtKept_bind_of | apply stmtKept_ite_of
    | intro _ | exact stmtKept_modifyP _ (fun _ => ⟨rfl, Nat.le_refl _, rfl, rfl, rfl, rfl, rfl⟩) | split)

instance stmtKept_ToVoidType (t : CType) :
    KeepsStmtState (ToVoidType t) := by
  unfold ToVoidType
  try dsimp only []
  repeat' (first
    | infer_instance | apply stmtKept_bind_of | apply stmtKept_ite_of
    | intro _ | exact stmtKept_modifyP _ (fun _ => ⟨rfl, Nat.le_refl _, rfl, rfl, rfl, rfl, rfl⟩) | split)

instance stmtKept_ToFuncType (t : CType) :
    KeepsStmtState (ToFuncType t) := by
  unfold ToFuncType
  try dsimp only []
  repeat' (first
    | infer_instance | apply stmtKept_bind_of | apply stmtKept_ite_of
    | intro _ | exact stmtKept_modifyP _ (fun _ => ⟨rfl, Nat.le_refl _, rfl, rfl, rfl, rfl, rfl⟩) | split)

instance stmtKept_ToArrayType (t : CType) :
    KeepsStmtState (ToArrayType t) := by
  unfold ToArrayType
  try dsimp only []
  repeat' (first
    | infer_instance | apply stmtKept_bind_of | apply stmtKept_ite_of
    | intro _ | exact stmtKept_modifyP _ (fun _ => ⟨rfl, Nat.le_refl _, rfl, rfl, rfl, rfl, rfl⟩) | split)

instance stmtKept_typeEq (a b : CType) :
    KeepsStmtState (typeEq a b) := by
  unfold typeEq
  try dsimp only []
  repeat' (first
    | infer_instance | apply stmtKept_bind_of | apply stmtKept_ite_of
    | intro _ | exact stmtKept_modifyP _ (fun _ => ⟨rfl, Nat.le_refl _, rfl, rfl, rfl, rfl, rfl⟩) | split)

instance stmtKept_Complete (t : CType) :
    KeepsStmtState (Complete t) := by
  unfold Complete
  try dsimp only []
  repeat' (first
    | infer_instance | apply stmtKept_bind_of | apply stmtKept_ite_of
    | intro _ | exact stmtKept_modifyP _ (fun _ => ⟨rfl, Nat.le_refl _, rfl, rfl, rfl, rfl, rfl⟩) | split)

instance stmtKept_NewIdentifier (type : CType) (scope : Nat) (linkage : Linkage) :
    KeepsStmtState (NewIdentifier type scope linkage) := by
  unfold NewIdentifier
  try dsimp only []
  repeat' (first
    | infer_instance | apply stmtKept_bind_of | apply stmtKept_ite_of
    | intro _ | exact stmtKept_modifyP _ (fun _ => ⟨rfl, Nat.le_refl _, rfl, rfl, rfl, rfl, rfl⟩) | split)

instance stmtKept_NewObject (type : CType) (scope : Nat) (storage : Nat) (linkage : Linkage) (offset : Int) :
    KeepsStmtState (NewObject type scope storage linkage offset) := by
  unfold NewObject
  try dsimp only []
  repeat' (first
    | infer_instance | apply stmtKept_bind_of | apply stmtKept_ite_of
    | intro _ | exact stmtKept_modifyP _ (fun _ => ⟨rfl, Nat.le_refl _, rfl, rfl, rfl, rfl, rfl⟩) | split)

instance stmtKept_declChecks (tok : Token) (type : CType) (storageSpec : Nat) :
    KeepsStmtState (declChecks tok type storageSpec) := by
  unfold declChecks
  try dsimp only []
  repeat' (first
    | infer_instance | apply stmtKept_bind_of | apply stmtKept_ite_of
    | intro _ | exact stmtKept_modifyP _ (fun _ => ⟨rfl, Nat.le_refl _, rfl, rfl, rfl, rfl, rfl⟩) | split)

instance stmtKept_redeclare (tok : Token) (type : CType) (linkage : Linkage) (ident : Identifier) :
    KeepsStmtState (redeclare tok type linkage ident) := by
  unfold redeclare
  try dsimp only []
  repeat' (first
    | infer_instance | apply stmtKept_bind_of | apply stmtKept_ite_of
    | intro _ | exact stmtKept_modifyP _ (fun _ => ⟨rfl, Nat.le_refl _, rfl, rfl, rfl, rfl, rfl⟩) | split)

instance stmtKept_crossCheck (tok : Token) (type : CType) (linkage : Linkage) :
    KeepsStmtState (crossCheck tok type linkage) := by
  unfold crossCheck
  try dsimp only []
  repeat' (first
    | infer_instance | apply stmtKept_bind_of | apply stmtKept_ite_of
    | intro _ | exact stmtKept_modifyP _ (fun _ => ⟨rfl, Nat.le_refl _, rfl, rfl, rfl, rfl, rfl⟩) | split)

instance stmtKept_declareTypedef (tok : Token) (type : CType) :
    KeepsStmtState (declareTypedef tok type) := by
  unfold declareTypedef
  try dsimp only []
  repeat' (first
    | infer_instance | apply stmtKept_bind_of | apply stmtKept_ite_of
    | intro _ | exact stmtKept_modifyP _ (fun _ => ⟨rfl, Nat.le_refl _, rfl, rfl, rfl, rfl, rfl⟩) | split)

instance stmtKept_ProcessDeclarator (tok : Option Token) (type : CType) (storageSpec funcSpec : Nat) :
    KeepsStmtState (ProcessDeclarator tok type storageSpec funcSpec) := by
  unfold ProcessDeclarator
  try dsimp only []
  repeat' (first
    | infer_instance | apply stmtKept_bind_of | apply stmtKept_ite_of
    | intro _ | exact stmtKept_modifyP _ (fun _ => ⟨rfl, Nat.le_refl _, rfl, rfl, rfl, rfl, rfl⟩) | split)

instance stmtKept_IsInteger (t : CType) :
    KeepsStmtState (IsInteger t) := by
  unfold IsInteger
  try dsimp only []
  repeat' (first
    | infer_instance | apply stmtKept_bind_of | apply stmtKept_ite_of
    | intro _ | exact stmtKept_modifyP _ (fun _ => ⟨rfl, Nat.le_refl _, rfl, rfl, rfl, rfl, rfl⟩) | split)

instance stmtKept_IsScalar (t : CType) :
    KeepsStmtState (IsScalar t) := by
  unfold IsScalar
  try dsimp only []
  repeat' (first
    | infer_instance | apply stmtKept_bind_of | apply stmtKept_ite_of
    | intro _ | exact stmtKept_modifyP _ (fun _ => ⟨rfl, Nat.le_refl _, rfl, rfl, rfl, rfl, rfl⟩) | split)

instance stmtKept_IsFloat (t : CType) :
    KeepsStmtState (IsFloat t) := by
  unfold IsFloat
  try dsimp only []
  repeat' (first
    | infer_instance | apply stmtKept_bind_of | apply stmtKept_ite_of
    | intro _ | exact stmtKept_modifyP _ (fun _ => ⟨rfl, Nat.le_refl _, rfl, rfl, rfl, rfl, rfl⟩) | split)

instance stmtKept_ToArithmType (t : CType) :
    KeepsStmtState (ToArithmType t) := by
  unfold ToArithmType
  try dsimp only []
  repeat' (first
    | infer_instance | apply stmtKept_bind_of | apply stmtKept_ite_of
    | intro _ | exact stmtKept_modifyP _ (fun _ => ⟨rfl, Nat.le_refl _, rfl, rfl, rfl, rfl, rfl⟩) | split)

instance stmtKept_ToPointerType (t : CType) :
    KeepsStmtState (ToPointerType t) := by
  unfold ToPointerType
  try dsimp only []
  repeat' (first
    | infer_instance | apply stmtKept_bind_of | apply stmtKept_ite_of
    | intro _ | exact stmtKept_modifyP _ (fun _ => ⟨rfl, Nat.le_refl _, rfl, rfl, rfl, rfl, rfl⟩) | split)

instance stmtKept_IsConst (t : CType) :
    KeepsStmtState (IsConst t) := by
  unfold IsConst
  try dsimp only []
  repeat' (first
    | infer_instance | apply stmtKept_bind_of | apply stmtKept_ite_of
    | intro _ | exact stmtKept_modifyP _ (fun _ => ⟨rfl, Nat.le_refl _, rfl, rfl, rfl, rfl, rfl⟩) | split)

instance stmtKept_derefExpr (e : Expr) :
    KeepsStmtState (derefExpr e) := by
  unfold derefExpr
  try dsimp only []
  repeat' (first
    | infer_instance | apply stmtKept_bind_of | apply stmtKept_ite_of
    | intro _ | exact stmtKept_modifyP _ (fun _ => ⟨rfl, Nat.le_refl _, rfl, rfl, rfl, rfl, rfl⟩) | split)

instance stmtKept_Ty (e : Expr) :
    KeepsStmtState (Ty e) := by
  unfold Ty
  try dsimp only []
  repeat' (first
    | infer_instance | apply stmtKept_bind_of | apply stmtKept_ite_of
    | intro _ | exact stmtKept_modifyP _ (fun _ => ⟨rfl, Nat.le_refl _, rfl, rfl, rfl, rfl, rfl⟩) | split)

instance stmtKept_IsLVal (e : Expr) :
    KeepsStmtState (IsLVal e) := by
  unfold IsLVal
  try dsimp only []
  repeat' (first
    | infer_instance | apply stmtKept_bind_of | apply stmtKept_ite_of
    | intro _ | exact stmtKept_modifyP _ (fun _ => ⟨rfl, Nat.le_refl _, rfl, rfl, rfl, rfl, rfl⟩) | split)

instance stmtKept_derefTok (t : Option Token) :
    KeepsStmtState (derefTok t) := by
  unfold derefTok
  try dsimp only []
  repeat' (first
    | infer_instance | apply stmtKept_bind_of | apply stmtKept_ite_of
    | intro _ | exact stmtKept_modifyP _ (fun _ => ⟨rfl, Nat.le_refl _, rfl, rfl, rfl, rfl, rfl⟩) | split)

instance stmtKept_SubScriptingOpTypeChecking (binaryOp : BinaryOp) (errTok : Token) :
    KeepsStmtState (SubScriptingOpTypeChecking binaryOp errTok) := by
  unfold SubScriptingOpTypeChecking
  try dsimp only []
  repeat' (first
    | infer_instance | apply stmtKept_bind_of | apply stmtKept_ite_of
    | intro _ | exact stmtKept_modifyP _ (fun _ => ⟨rfl, Nat.le_refl _, rfl, rfl, rfl, rfl, rfl⟩) | split)

instance stmtKept_GetMember (structId : Nat) (name : String) :
    KeepsStmtState (GetMember structId name) := by
  unfold GetMember
  try dsimp only []
  repeat' (first
    | infer_instance | apply stmtKept_bind_of | apply stmtKept_ite_of
    | intro _ | exact stmtKept_modifyP _ (fun _ => ⟨rfl, Nat.le_refl _, rfl, rfl, rfl, rfl, rfl⟩) | split)

instance stmtKept_MemberRefOpTypeChecking (binaryOp : BinaryOp) (errTok : Token) (rhsName : String) :
    KeepsStmtState (MemberRefOpTypeChecking binaryOp errTok rhsName) := by
  unfold MemberRefOpTypeChecking
  try dsimp only []
  repeat' (first
    | infer_instance | apply stmtKept_bind_of | apply stmtKept_ite_of
    | intro _ | exact stmtKept_modifyP _ (fun _ => ⟨rfl, Nat.le_refl _, rfl, rfl, rfl, rfl, rfl⟩) | split)

instance stmtKept_MultiOpTypeChecking (binaryOp : BinaryOp) (errTok : Token) :
    KeepsStmtState (MultiOpTypeChecking binaryOp errTok) := by
  unfold MultiOpTypeChecking
  try dsimp only []
  repeat' (first
    | infer_instance | apply stmtKept_bind_of | apply stmtKept_ite_of
    | intro _ | exact stmtKept_modifyP _ (fun _ => ⟨rfl, Nat.le_refl _, rfl, rfl, rfl, rfl, rfl⟩) | split)

instance stmtKept_AdditiveOpTypeChecking (binaryOp : BinaryOp) (errTok : Token) :
    KeepsStmtState (AdditiveOpTypeChecking binaryOp errTok) := by
  unfold AdditiveOpTypeChecking
  try dsimp only []
  repeat' (first
    | infer_instance | apply stmtKept_bind_of | apply stmtKept_ite_of
    | intro _ | exact stmtKept_modifyP _ (fun _ => ⟨rfl, Nat.le_refl _, rfl, rfl, rfl, rfl, rfl⟩) | split)

instance stmtKept_ShiftOpTypeChecking (binaryOp : BinaryOp) (errTok : Token) :
    KeepsStmtState (ShiftOpTypeChecking binaryOp errTok) := by
  unfold ShiftOpTypeChecking
  try dsimp only []
  repeat' (first
    | infer_instance | apply stmtKept_bind_of | apply stmtKept_ite_of
    | intro _ | exact stmtKept_modifyP _ (fun _ => ⟨rfl, Nat.le_refl _, rfl, rfl, rfl, rfl, rfl⟩) | split)

instance stmtKept_RelationalOpTypeChecking (binaryOp : BinaryOp) (errTok : Token) :
    KeepsStmtState (RelationalOpTypeChecking binaryOp errTok) := by
  unfold RelationalOpTypeChecking
  try dsimp only []
  repeat' (first
    | infer_instance | apply stmtKept_bind_of | apply stmtKept_ite_of
    | intro _ | exact stmtKept_modifyP _ (fun _ => ⟨rfl, Nat.le_refl _, rfl, rfl, rfl, rfl, rfl⟩) | split)

instance stmtKept_EqualityOpTypeChecking (binaryOp : BinaryOp) (errTok : Token) :
    KeepsStmtState (EqualityOpTypeChecking binaryOp errTok) := by
  unfold EqualityOpTypeChecking
  try dsimp only []
  repeat' (first
    | infer_instance | apply stmtKept_bind_of | apply stmtKept_ite_of
    | intro _ | exact stmtKept_modifyP _ (fun _ => ⟨rfl, Nat.le_refl _, rfl, rfl, rfl, rfl, rfl⟩) | split)

instance stmtKept_BitwiseOpTypeChecking (binaryOp : BinaryOp) (errTok : Token) :
    KeepsStmtState (BitwiseOpTypeChecking binaryOp errTok) := by
  unfold BitwiseOpTypeChecking
  try dsimp only []
  repeat' (first
    | infer_instance | apply stmtKept_bind_of | apply stmtKept_ite_of
    | intro _ | exact stmtKept_modifyP _ (fun _ => ⟨rfl, Nat.le_refl _, rfl, rfl, rfl, rfl, rfl⟩) | split)

instance stmtKept_LogicalOpTypeChecking (binaryOp : BinaryOp) (errTok : Token) :
    KeepsStmtState (LogicalOpTypeChecking binaryOp errTok) := by
  unfold LogicalOpTypeChecking
  try dsimp only []
  repeat' (first
    | infer_instance | apply stmtKept_bind_of | apply stmtKept_ite_of
    | intro _ | exact stmtKept_modifyP _ (fun _ => ⟨rfl, Nat.le_refl _, rfl, rfl, rfl, rfl, rfl⟩) | split)

instance stmtKept_AssignOpTypeChecking (binaryOp : BinaryOp) (errTok : Token) :
    KeepsStmtState (AssignOpTypeChecking binaryOp errTok) := by
  unfold AssignOpTypeChecking
  try dsimp only []
  repeat' (first
    | infer_instance | apply stmtKept_bind_of | apply stmtKept_ite_of
    | intro _ | exact stmtKept_modifyP _ (fun _ => ⟨rfl, Nat.le_refl _, rfl, rfl, rfl, rfl, rfl⟩) | split)

instance stmtKept_TypeCheckingBinaryOp (binaryOp : BinaryOp) (errTok : Token) :
    KeepsStmtState (TypeCheckingBinaryOp binaryOp errTok) := by
  unfold TypeCheckingBinaryOp
  try dsimp only []
  repeat' (first
    | infer_instance | apply stmtKept_bind_of | apply stmtKept_ite_of
    | intro _ | exact stmtKept_modifyP _ (fun _ => ⟨rfl, Nat.le_refl _, rfl, rfl, rfl, rfl, rfl⟩) | split)

instance stmtKept_IncDecOpTypeChecking (unaryOp : UnaryOp) (errTok : Token) :
    KeepsStmtState (IncDecOpTypeChecking unaryOp errTok) := by
  unfold IncDecOpTypeChecking
  try dsimp only []
  repeat' (first
    | infer_instance | apply stmtKept_bind_of | apply stmtKept_ite_of
    | intro _ | exact stmtKept_modifyP _ (fun _ => ⟨rfl, Nat.le_refl _, rfl, rfl, rfl, rfl, rfl⟩) | split)

instance stmtKept_AddrOpTypeChecking (unaryOp : UnaryOp) (errTok : Token) :
    KeepsStmtState (AddrOpTypeChecking unaryOp errTok) := by
  unfold AddrOpTypeChecking
  try dsimp only []
  repeat' (first
    | infer_instance | apply stmtKept_bind_of | apply stmtKept_ite_of
    | intro _ | exact stmtKept_modifyP _ (fun _ => ⟨rfl, Nat.le_refl _, rfl, rfl, rfl, rfl, rfl⟩) | split)

instance stmtKept_DerefOpTypeChecking (unaryOp : UnaryOp) (errTok : Token) :
    KeepsStmtState (DerefOpTypeChecking unaryOp errTok) := by
  unfold DerefOpTypeChecking
  try dsimp only []
  repeat' (first
    | infer_instance | apply stmtKept_bind_of | apply stmtKept_ite_of
    | intro _ | exact stmtKept_modifyP _ (fun _ => ⟨rfl, Nat.le_refl _, rfl, rfl, rfl, rfl, rfl⟩) | split)

instance stmtKept_UnaryArithmOpTypeChecking (unaryOp : UnaryOp) (errTok : Token) :
    KeepsStmtState (UnaryArithmOpTypeChecking unaryOp errTok) := by
  unfold UnaryArithmOpTypeChecking
  try dsimp only []
  repeat' (first
    | infer_instance | apply stmtKept_bind_of | apply stmtKept_ite_of
    | intro _ | exact stmtKept_modifyP _ (fun _ => ⟨rfl, Nat.le_refl _, rfl, rfl, rfl, rfl, rfl⟩) | split)

instance stmtKept_CastOpTypeChecking (unaryOp : UnaryOp) (errTok : Token) :
    KeepsStmtState (CastOpTypeChecking unaryOp errTok) := by
  unfold CastOpTypeChecking
  try dsimp only []
  repeat' (first
    | infer_instance | apply stmtKept_bind_of | apply stmtKept_ite_of
    | intro _ | exact stmtKept_modifyP _ (fun _ => ⟨rfl, Nat.le_refl _, rfl, rfl, rfl, rfl, rfl⟩) | split)

instance stmtKept_TypeCheckingUnaryOp (unaryOp : UnaryOp) (errTok : Token) :
    KeepsStmtState (TypeCheckingUnaryOp unaryOp errTok) := by
  unfold TypeCheckingUnaryOp
  try dsimp only []
  repeat' (first
    | infer_instance | apply stmtKept_bind_of | apply stmtKept_ite_of
    | intro _ | exact stmtKept_modifyP _ (fun _ => ⟨rfl, Nat.le_refl _, rfl, rfl, rfl, rfl, rfl⟩) | split)

instance stmtKept_TypeCheckingConditionalOp (conditionalOp : ConditionalOp) (errTok : Option Token) :
    KeepsStmtState (TypeCheckingConditionalOp conditionalOp errTok) := by
  unfold TypeCheckingConditionalOp
  try dsimp only []
  repeat' (first
    | infer_instance | apply stmtKept_bind_of | apply stmtKept_ite_of
    | intro _ | exact stmtKept_modifyP _ (fun _ => ⟨rfl, Nat.le_refl _, rfl, rfl, rfl, rfl, rfl⟩) | split)

instance stmtKept_TypeCheckingFuncCall (funcCall : FuncCall) (errTok : Token) :
    KeepsStmtState (TypeCheckingFuncCall funcCall errTok) := by
  unfold TypeCheckingFuncCall
  try dsimp only []
  repeat' (first
    | infer_instance | apply stmtKept_bind_of | apply stmtKept_ite_of
    | intro _ | exact stmtKept_modifyP _ (fun _ => ⟨rfl, Nat.le_refl _, rfl, rfl, rfl, rfl, rfl⟩) | split)

instance stmtKept_NewConditionalOp (tok : Token) (cond exprTrue exprFalse : Expr) :
    KeepsStmtState (NewConditionalOp tok cond exprTrue exprFalse) := by
  unfold NewConditionalOp
  try dsimp only []
  repeat' (first
    | infer_instance | apply stmtKept_bind_of | apply stmtKept_ite_of
    | intro _ | exact stmtKept_modifyP _ (fun _ => ⟨rfl, Nat.le_refl _, rfl, rfl, rfl, rfl, rfl⟩) | split)

instance stmtKept_NewBinaryOp (tok : Token) (op : Tag) (lhs rhs : Expr) :
    KeepsStmtState (NewBinaryOp tok op lhs rhs) := by
  unfold NewBinaryOp
  try dsimp only []
  repeat' (first
    | infer_instance | apply stmtKept_bind_of | apply stmtKept_ite_of
    | intro _ | exact stmtKept_modifyP _ (fun _ => ⟨rfl, Nat.le_refl _, rfl, rfl, rfl, rfl, rfl⟩) | split)

instance stmtKept_NewBinaryOpTok (tok : Token) (lhs rhs : Expr) :
    KeepsStmtState (NewBinaryOpTok tok lhs rhs) := by
  unfold NewBinaryOpTok
  try dsimp only []
  repeat' (first
    | infer_instance | apply stmtKept_bind_of | apply stmtKept_ite_of
    | intro _ | exact stmtKept_modifyP _ (fun _ => ⟨rfl, Nat.le_refl _, rfl, rfl, rfl, rfl, rfl⟩) | split)

instance stmtKept_NewMemberRefOp (tok : Token) (lhs : Expr) (rhsName : String) :
    KeepsStmtState (NewMemberRefOp tok lhs rhsName) := by
  unfold NewMemberRefOp
  try dsimp only []
  repeat' (first
    | infer_instance | apply stmtKept_bind_of | apply stmtKept_ite_of
    | intro _ | exact stmtKept_modifyP _ (fun _ => ⟨rfl, Nat.le_refl _, rfl, rfl, rfl, rfl, rfl⟩) | split)

instance stmtKept_NewUnaryOp (tok : Token) (op : Tag) (operand : Expr) (type : CType) :
    KeepsStmtState (NewUnaryOp tok op operand type) := by
  unfold NewUnaryOp
  try dsimp only []
  repeat' (first
    | infer_instance | apply stmtKept_bind_of | apply stmtKept_ite_of
    | intro _ | exact stmtKept_modifyP _ (fun _ => ⟨rfl, Nat.le_refl _, rfl, rfl, rfl, rfl, rfl⟩) | split)

instance stmtKept_NewFuncCall (tok : Token) (designator : Expr) (args : List Expr) :
    KeepsStmtState (NewFuncCall tok designator args) := by
  unfold NewFuncCall
  try dsimp only []
  repeat' (first
    | infer_instance | apply stmtKept_bind_of | apply stmtKept_ite_of
    | intro _ | exact stmtKept_modifyP _ (fun _ => ⟨rfl, Nat.le_refl _, rfl, rfl, rfl, rfl, rfl⟩) | split)

instance stmtKept_NewLabelStmt  :
    KeepsStmtState NewLabelStmt := by
  unfold NewLabelStmt
  try dsimp only []
  repeat' (first
    | infer_instance | apply stmtKept_bind_of | apply stmtKept_ite_of
    | intro _ | exact stmtKept_modifyP _ (fun _ => ⟨rfl, Nat.le_refl _, rfl, rfl, rfl, rfl, rfl⟩) | split)

instance stmtKept_IsTypeName (tok : Token) :
    KeepsStmtState (IsTypeName tok) := by
  unfold IsTypeName
  try dsimp only []
  repeat' (first
    | infer_instance | apply stmtKept_bind_of | apply stmtKept_ite_of
    | intro _ | exact stmtKept_modifyP _ (fun _ => ⟨rfl, Nat.le_refl _, rfl, rfl, rfl, rfl, rfl⟩) | split)

instance stmtKept_IsType (tok : Token) :
    KeepsStmtState (IsType tok) := by
  unfold IsType
  try dsimp only []
  repeat' (first
    | infer_instance | apply stmtKept_bind_of | apply stmtKept_ite_of
    | intro _ | exact stmtKept_modifyP _ (fun _ => ⟨rfl, Nat.le_refl _, rfl, rfl, rfl, rfl, rfl⟩) | split)

instance stmtKept_ParseConstant (tok : Token) :
    KeepsStmtState (ParseConstant tok) := by
  unfold ParseConstant
  try dsimp only []
  repeat' (first
    | infer_instance | apply stmtKept_bind_of | apply stmtKept_ite_of
    | intro _ | exact stmtKept_modifyP _ (fun _ => ⟨rfl, Nat.le_refl _, rfl, rfl, rfl, rfl, rfl⟩) | split)

instance stmtKept_ParseString (tok : Token) :
    KeepsStmtState (ParseString tok) := by
  unfold ParseString
  try dsimp only []
  repeat' (first
    | infer_instance | apply stmtKept_bind_of | apply stmtKept_ite_of
    | intro _ | exact stmtKept_modifyP _ (fun _ => ⟨rfl, Nat.le_refl _, rfl, rfl, rfl, rfl, rfl⟩) | split)

instance stmtKept_ParseGeneric  :
    KeepsStmtState ParseGeneric := by
  unfold ParseGeneric
  try dsimp only []
  repeat' (first
    | infer_instance | apply stmtKept_bind_of | apply stmtKept_ite_of
    | intro _ | exact stmtKept_modifyP _ (fun _ => ⟨rfl, Nat.le_refl _, rfl, rfl, rfl, rfl, rfl⟩) | split)

instance stmtKept_ParsePrimaryExpr (r : Rec) [RecKeepsStmt r] :
    KeepsStmtState (ParsePrimaryExpr r) := by
  unfold ParsePrimaryExpr
  try dsimp only []
  repeat' (first
    | infer_instance | apply stmtKept_bind_of | apply stmtKept_ite_of
    | intro _ | exact stmtKept_modifyP _ (fun _ => ⟨rfl, Nat.le_refl _, rfl, rfl, rfl, rfl, rfl⟩) | split)

instance stmtKept_ParseSubScripting (r : Rec) (pointer : Expr) [RecKeepsStmt r] :
    KeepsStmtState (ParseSubScripting r pointer) := by
  unfold ParseSubScripting
  try dsimp only []
  repeat' (first
    | infer_instance | apply stmtKept_bind_of | apply stmtKept_ite_of
    | intro _ | exact stmtKept_modifyP _ (fun _ => ⟨rfl, Nat.le_refl _, rfl, rfl, rfl, rfl, rfl⟩) | split)

instance stmtKept_ParseMemberRef (tok : Token) (lhs : Expr) :
    KeepsStmtState (ParseMemberRef tok lhs) := by
  unfold ParseMemberRef
  try dsimp only []
  repeat' (first
    | infer_instance | apply stmtKept_bind_of | apply stmtKept_ite_of
    | intro _ | exact stmtKept_modifyP _ (fun _ => ⟨rfl, Nat.le_refl _, rfl, rfl, rfl, rfl, rfl⟩) | split)

instance stmtKept_ParsePostfixIncDec (tok : Token) (operand : Expr) :
    KeepsStmtState (ParsePostfixIncDec tok operand) := by
  unfold ParsePostfixIncDec
  try dsimp only []
  repeat' (first
    | infer_instance | apply stmtKept_bind_of | apply stmtKept_ite_of
    | intro _ | exact stmtKept_modifyP _ (fun _ => ⟨rfl, Nat.le_refl _, rfl, rfl, rfl, rfl, rfl⟩) | split)

instance stmtKept_ParseFuncCall_args (r : Rec) [RecKeepsStmt r] (params : List CType) :
    ∀ args, KeepsStmtState (ParseFuncCall.args r params args) := by
  induction params with
  | nil => intro args; unfold ParseFuncCall.args; infer_instance
  | cons p rest ih =>
    intro args
    unfold ParseFuncCall.args
    try dsimp only []
    repeat' (first
    | infer_instance | apply stmtKept_bind_of | apply stmtKept_ite_of
    | intro _ | exact stmtKept_modifyP _ (fun _ => ⟨rfl, Nat.le_refl _, rfl, rfl, rfl, rfl, rfl⟩) | split)

instance stmtKept_ParseFuncCall_varArgs (r : Rec) (args : List Expr) [RecKeepsStmt r] :
    KeepsStmtState (ParseFuncCall.varArgs r args) := by
  unfold ParseFuncCall.varArgs
  try dsimp only []
  repeat' (first
    | infer_instance | apply stmtKept_bind_of | apply stmtKept_ite_of
    | intro _ | exact stmtKept_modifyP _ (fun _ => ⟨rfl, Nat.le_refl _, rfl, rfl, rfl, rfl, rfl⟩) | split)

instance stmtKept_ParseFuncCall (r : Rec) (designator : Expr) [RecKeepsStmt r] :
    KeepsStmtState (ParseFuncCall r designator) := by
  unfold ParseFuncCall
  try dsimp only []
  repeat' (first
    | infer_instance | apply stmtKept_bind_of | apply stmtKept_ite_of
    | intro _ | exact stmtKept_modifyP _ (fun _ => ⟨rfl, Nat.le_refl _, rfl, rfl, rfl, rfl, rfl⟩) | split)

instance stmtKept_ParsePostfixExprTail (r : Rec) (lhs : Expr) [RecKeepsStmt r] :
    KeepsStmtState (ParsePostfixExprTail r lhs) := by
  unfold ParsePostfixExprTail
  try dsimp only []
  repeat' (first
    | infer_instance | apply stmtKept_bind_of | apply stmtKept_ite_of
    | intro _ | exact stmtKept_modifyP _ (fun _ => ⟨rfl, Nat.le_refl _, rfl, rfl, rfl, rfl, rfl⟩) | split)

instance stmtKept_ParsePostfixExpr (r : Rec) [RecKeepsStmt r] :
    KeepsStmtState (ParsePostfixExpr r) := by
  unfold ParsePostfixExpr
  try dsimp only []
  repeat' (first
    | infer_instance | apply stmtKept_bind_of | apply stmtKept_ite_of
    | intro _ | exact stmtKept_modifyP _ (fun _ => ⟨rfl, Nat.le_refl _, rfl, rfl, rfl, rfl, rfl⟩) | split)

instance stmtKept_startsTypeName (tok : Token) :
    KeepsStmtState (startsTypeName tok) := by
  unfold startsTypeName
  try dsimp only []
  repeat' (first
    | infer_instance | apply stmtKept_bind_of | apply stmtKept_ite_of
    | intro _ | exact stmtKept_modifyP _ (fun _ => ⟨rfl, Nat.le_refl _, rfl, rfl, rfl, rfl, rfl⟩) | split)

instance stmtKept_ParseSizeof (r : Rec) [RecKeepsStmt r] :
    KeepsStmtState (ParseSizeof r) := by
  unfold ParseSizeof
  try dsimp only []
  repeat' (first
    | infer_instance | apply stmtKept_bind_of | apply stmtKept_ite_of
    | intro _ | exact stmtKept_modifyP _ (fun _ => ⟨rfl, Nat.le_refl _, rfl, rfl, rfl, rfl, rfl⟩) | split)

instance stmtKept_ParseAlignof (r : Rec) [RecKeepsStmt r] :
    KeepsStmtState (ParseAlignof r) := by
  unfold ParseAlignof
  try dsimp only []
  repeat' (first
    | infer_instance | apply stmtKept_bind_of | apply stmtKept_ite_of
    | intro _ | exact stmtKept_modifyP _ (fun _ => ⟨rfl, Nat.le_refl _, rfl, rfl, rfl, rfl, rfl⟩) | split)

instance stmtKept_ParsePrefixIncDec (r : Rec) (tok : Token) [RecKeepsStmt r] :
    KeepsStmtState (ParsePrefixIncDec r tok) := by
  unfold ParsePrefixIncDec
  try dsimp only []
  repeat' (first
    | infer_instance | apply stmtKept_bind_of | apply stmtKept_ite_of
    | intro _ | exact stmtKept_modifyP _ (fun _ => ⟨rfl, Nat.le_refl _, rfl, rfl, rfl, rfl, rfl⟩) | split)

instance stmtKept_ParseUnaryOp (r : Rec) (tok : Token) (op : Tag) [RecKeepsStmt r] :
    KeepsStmtState (ParseUnaryOp r tok op) := by
  unfold ParseUnaryOp
  try dsimp only []
  repeat' (first
    | infer_instance | apply stmtKept_bind_of | apply stmtKept_ite_of
    | intro _ | exact stmtKept_modifyP _ (fun _ => ⟨rfl, Nat.le_refl _, rfl, rfl, rfl, rfl, rfl⟩) | split)

instance stmtKept_ParseUnaryExpr (r : Rec) [RecKeepsStmt r] :
    KeepsStmtState (ParseUnaryExpr r) := by
  unfold ParseUnaryExpr
  try dsimp only []
  repeat' (first
    | infer_instance | apply stmtKept_bind_of | apply stmtKept_ite_of
    | intro _ | exact stmtKept_modifyP _ (fun _ => ⟨rfl, Nat.le_refl _, rfl, rfl, rfl, rfl, rfl⟩) | split)

instance stmtKept_ParseCastExpr (r : Rec) [RecKeepsStmt r] :
    KeepsStmtState (ParseCastExpr r) := by
  unfold ParseCastExpr
  try dsimp only []
  repeat' (first
    | infer_instance | apply stmtKept_bind_of | apply stmtKept_ite_of
    | intro _ | exact stmtKept_modifyP _ (fun _ => ⟨rfl, Nat.le_refl _, rfl, rfl, rfl, rfl, rfl⟩) | split)

instance stmtKept_ParseMultiplicativeExpr_loop (r : Rec) (lhs : Expr) (tok : Token) [RecKeepsStmt r] :
    KeepsStmtState (ParseMultiplicativeExpr.loop r lhs tok) := by
  unfold ParseMultiplicativeExpr.loop
  try dsimp only []
  repeat' (first
    | infer_instance | apply stmtKept_bind_of | apply stmtKept_ite_of
    | intro _ | exact stmtKept_modifyP _ (fun _ => ⟨rfl, Nat.le_refl _, rfl, rfl, rfl, rfl, rfl⟩) | split)

instance stmtKept_ParseMultiplicativeExpr (r : Rec) [RecKeepsStmt r] :
    KeepsStmtState (ParseMultiplicativeExpr r) := by
  unfold ParseMultiplicativeExpr
  try dsimp only []
  repeat' (first
    | infer_instance | apply stmtKept_bind_of | apply stmtKept_ite_of
    | intro _ | exact stmtKept_modifyP _ (fun _ => ⟨rfl, Nat.le_refl _, rfl, rfl, rfl, rfl, rfl⟩) | split)

instance stmtKept_ParseAdditiveExpr_loop (r : Rec) (lhs : Expr) (tok : Token) [RecKeepsStmt r] :
    KeepsStmtState (ParseAdditiveExpr.loop r lhs tok) := by
  unfold ParseAdditiveExpr.loop
  try dsimp only []
  repeat' (first
    | infer_instance | apply stmtKept_bind_of | apply stmtKept_ite_of
    | intro _ | exact stmtKept_modifyP _ (fun _ => ⟨rfl, Nat.le_refl _, rfl, rfl, rfl, rfl, rfl⟩) | split)

instance stmtKept_ParseAdditiveExpr (r : Rec) [RecKeepsStmt r] :
    KeepsStmtState (ParseAdditiveExpr r) := by
  unfold ParseAdditiveExpr
  try dsimp only []
  repeat' (first
    | infer_instance | apply stmtKept_bind_of | apply stmtKept_ite_of
    | intro _ | exact stmtKept_modifyP _ (fun _ => ⟨rfl, Nat.le_refl _, rfl, rfl, rfl, rfl, rfl⟩) | split)

instance stmtKept_ParseShiftExpr_loop (r : Rec) (lhs : Expr) (tok : Token) [RecKeepsStmt r] :
    KeepsStmtState (ParseShiftExpr.loop r lhs tok) := by
  unfold ParseShiftExpr.loop
  try dsimp only []
  repeat' (first
    | infer_instance | apply stmtKept_bind_of | apply stmtKept_ite_of
    | intro _ | exact stmtKept_modifyP _ (fun _ => ⟨rfl, Nat.le_refl _, rfl, rfl, rfl, rfl, rfl⟩) | split)

instance stmtKept_ParseShiftExpr (r : Rec) [RecKeepsStmt r] :
    KeepsStmtState (ParseShiftExpr r) := by
  unfold ParseShiftExpr
  try dsimp only []
  repeat' (first
    | infer_instance | apply stmtKept_bind_of | apply stmtKept_ite_of
    | intro _ | exact stmtKept_modifyP _ (fun _ => ⟨rfl, Nat.le_refl _, rfl, rfl, rfl, rfl, rfl⟩) | split)

instance stmtKept_ParseRelationalExpr_loop (r : Rec) (lhs : Expr) (tok : Token) [RecKeepsStmt r] :
    KeepsStmtState (ParseRelationalExpr.loop r lhs tok) := by
  unfold ParseRelationalExpr.loop
  try dsimp only []
  repeat' (first
    | infer_instance | apply stmtKept_bind_of | apply stmtKept_ite_of
    | intro _ | exact stmtKept_modifyP _ (fun _ => ⟨rfl, Nat.le_refl _, rfl, rfl, rfl, rfl, rfl⟩) | split)

instance stmtKept_ParseRelationalExpr (r : Rec) [RecKeepsStmt r] :
    KeepsStmtState (ParseRelationalExpr r) := by
  unfold ParseRelationalExpr
  try dsimp only []
  repeat' (first
    | infer_instance | apply stmtKept_bind_of | apply stmtKept_ite_of
    | intro _ | exact stmtKept_modifyP _ (fun _ => ⟨rfl, Nat.le_refl _, rfl, rfl, rfl, rfl, rfl⟩) | split)

instance stmtKept_ParseEqualityExpr_loop (r : Rec) (lhs : Expr) (tok : Token) [RecKeepsStmt r] :
    KeepsStmtState (ParseEqualityExpr.loop r lhs tok) := by
  unfold ParseEqualityExpr.loop
  try dsimp only []
  repeat' (first
    | infer_instance | apply stmtKept_bind_of | apply stmtKept_ite_of
    | intro _ | exact stmtKept_modifyP _ (fun _ => ⟨rfl, Nat.le_refl _, rfl, rfl, rfl, rfl, rfl⟩) | split)

instance stmtKept_ParseEqualityExpr (r : Rec) [RecKeepsStmt r] :
    KeepsStmtState (ParseEqualityExpr r) := by
  unfold ParseEqualityExpr
  try dsimp only []
  repeat' (first
    | infer_instance | apply stmtKept_bind_of | apply stmtKept_ite_of
    | intro _ | exact stmtKept_modifyP _ (fun _ => ⟨rfl, Nat.le_refl _, rfl, rfl, rfl, rfl, rfl⟩) | split)

instance stmtKept_ParseBitiwiseAndExpr_loop (r : Rec) (lhs : Expr) (tok : Token) [RecKeepsStmt r] :
    KeepsStmtState (ParseBitiwiseAndExpr.loop r lhs tok) := by
  unfold ParseBitiwiseAndExpr.loop
  try dsimp only []
  repeat' (first
    | infer_instance | apply stmtKept_bind_of | apply stmtKept_ite_of
    | intro _ | exact stmtKept_modifyP _ (fun _ => ⟨rfl, Nat.le_refl _, rfl, rfl, rfl, rfl, rfl⟩) | split)

instance stmtKept_ParseBitiwiseAndExpr (r : Rec) [RecKeepsStmt r] :
    KeepsStmtState (ParseBitiwiseAndExpr r) := by
  unfold ParseBitiwiseAndExpr
  try dsimp only []
  repeat' (first
    | infer_instance | apply stmtKept_bind_of | apply stmtKept_ite_of
    | intro _ | exact stmtKept_modifyP _ (fun _ => ⟨rfl, Nat.le_refl _, rfl, rfl, rfl, rfl, rfl⟩) | split)

instance stmtKept_ParseBitwiseXorExpr_loop (r : Rec) (lhs : Expr) (tok : Token) [RecKeepsStmt r] :
    KeepsStmtState (ParseBitwiseXorExpr.loop r lhs tok) := by
  unfold ParseBitwiseXorExpr.loop
  try dsimp only []
  repeat' (first
    | infer_instance | apply stmtKept_bind_of | apply stmtKept_ite_of
    | intro _ | exact stmtKept_modifyP _ (fun _ => ⟨rfl, Nat.le_refl _, rfl, rfl, rfl, rfl, rfl⟩) | split)

instance stmtKept_ParseBitwiseXorExpr (r : Rec) [RecKeepsStmt r] :
    KeepsStmtState (ParseBitwiseXorExpr r) := by
  unfold ParseBitwiseXorExpr
  try dsimp only []
  repeat' (first
    | infer_instance | apply stmtKept_bind_of | apply stmtKept_ite_of
    | intro _ | exact stmtKept_modifyP _ (fun _ => ⟨rfl, Nat.le_refl _, rfl, rfl, rfl, rfl, rfl⟩) | split)

instance stmtKept_ParseBitwiseOrExpr_loop (r : Rec) (lhs : Expr) (tok : Token) [RecKeepsStmt r] :
    KeepsStmtState (ParseBitwiseOrExpr.loop r lhs tok) := by
  unfold ParseBitwiseOrExpr.loop
  try dsimp only []
  repeat' (first
    | infer_instance | apply stmtKept_bind_of | apply stmtKept_ite_of
    | intro _ | exact stmtKept_modifyP _ (fun _ => ⟨rfl, Nat.le_refl _, rfl, rfl, rfl, rfl, rfl⟩) | split)

instance stmtKept_ParseBitwiseOrExpr (r : Rec) [RecKeepsStmt r] :
    KeepsStmtState (ParseBitwiseOrExpr r) := by
  unfold ParseBitwiseOrExpr
  try dsimp only []
  repeat' (first
    | infer_instance | apply stmtKept_bind_of | apply stmtKept_ite_of
    | intro _ | exact stmtKept_modifyP _ (fun _ => ⟨rfl, Nat.le_refl _, rfl, rfl, rfl, rfl, rfl⟩) | split)

instance stmtKept_ParseLogicalAndExpr_loop (r : Rec) (lhs : Expr) (tok : Token) [RecKeepsStmt r] :
    KeepsStmtState (ParseLogicalAndExpr.loop r lhs tok) := by
  unfold ParseLogicalAndExpr.loop
  try dsimp only []
  repeat' (first
    | infer_instance | apply stmtKept_bind_of | apply stmtKept_ite_of
    | intro _ | exact stmtKept_modifyP _ (fun _ => ⟨rfl, Nat.le_refl _, rfl, rfl, rfl, rfl, rfl⟩) | split)

instance stmtKept_ParseLogicalAndExpr (r : Rec) [RecKeepsStmt r] :
    KeepsStmtState (ParseLogicalAndExpr r) := by
  unfold ParseLogicalAndExpr
  try dsimp only []
  repeat' (first
    | infer_instance | apply stmtKept_bind_of | apply stmtKept_ite_of
    | intro _ | exact stmtKept_modifyP _ (fun _ => ⟨rfl, Nat.le_refl _, rfl, rfl, rfl, rfl, rfl⟩) | split)

instance stmtKept_ParseLogicalOrExpr_loop (r : Rec) (lhs : Expr) (tok : Token) [RecKeepsStmt r] :
    KeepsStmtState (ParseLogicalOrExpr.loop r lhs tok) := by
  unfold ParseLogicalOrExpr.loop
  try dsimp only []
  repeat' (first
    | infer_instance | apply stmtKept_bind_of | apply stmtKept_ite_of
    | intro _ | exact stmtKept_modifyP _ (fun _ => ⟨rfl, Nat.le_refl _, rfl, rfl, rfl, rfl, rfl⟩) | split)

instance stmtKept_ParseLogicalOrExpr (r : Rec) [RecKeepsStmt r] :
    KeepsStmtState (ParseLogicalOrExpr r) := by
  unfold ParseLogicalOrExpr
  try dsimp only []
  repeat' (first
    | infer_instance | apply stmtKept_bind_of | apply stmtKept_ite_of
    | intro _ | exact stmtKept_modifyP _ (fun _ => ⟨rfl, Nat.le_refl _, rfl, rfl, rfl, rfl, rfl⟩) | split)

instance stmtKept_ParseConditionalExpr (r : Rec) [RecKeepsStmt r] :
    KeepsStmtState (ParseConditionalExpr r) := by
  unfold ParseConditionalExpr
  try dsimp only []
  repeat' (first
    | infer_instance | apply stmtKept_bind_of | apply stmtKept_ite_of
    | intro _ | exact stmtKept_modifyP _ (fun _ => ⟨rfl, Nat.le_refl _, rfl, rfl, rfl, rfl, rfl⟩) | split)

instance stmtKept_ParseAssignExpr (r : Rec) [RecKeepsStmt r] :
    KeepsStmtState (ParseAssignExpr r) := by
  unfold ParseAssignExpr
  try dsimp only []
  repeat' (first
    | infer_instance | apply stmtKept_bind_of | apply stmtKept_ite_of
    | intro _ | exact stmtKept_modifyP _ (fun _ => ⟨rfl, Nat.le_refl _, rfl, rfl, rfl, rfl, rfl⟩) | split)

instance stmtKept_ParseCommaExpr_loop (r : Rec) (lhs : Expr) (tok : Token) [RecKeepsStmt r] :
    KeepsStmtState (ParseCommaExpr.loop r lhs tok) := by
  unfold ParseCommaExpr.loop
  try dsimp only []
  repeat' (first
    | infer_instance | apply stmtKept_bind_of | apply stmtKept_ite_of
    | intro _ | exact stmtKept_modifyP _ (fun _ => ⟨rfl, Nat.le_refl _, rfl, rfl, rfl, rfl, rfl⟩) | split)

instance stmtKept_ParseCommaExpr (r : Rec) [RecKeepsStmt r] :
    KeepsStmtState (ParseCommaExpr r) := by
  unfold ParseCommaExpr
  try dsimp only []
  repeat' (first
    | infer_instance | apply stmtKept_bind_of | apply stmtKept_ite_of
    | intro _ | exact stmtKept_modifyP _ (fun _ => ⟨rfl, Nat.le_refl _, rfl, rfl, rfl, rfl, rfl⟩) | split)

instance stmtKept_ParseExpr (r : Rec) [RecKeepsStmt r] :
    KeepsStmtState (ParseExpr r) := by
  unfold ParseExpr
  try dsimp only []
  repeat' (first
    | infer_instance | apply stmtKept_bind_of | apply stmtKept_ite_of
    | intro _ | exact stmtKept_modifyP _ (fun _ => ⟨rfl, Nat.le_refl _, rfl, rfl, rfl, rfl, rfl⟩) | split)

instance stmtKept_EvalInteger (e : Expr) (errTok : Option Token) :
    KeepsStmtState (EvalInteger e errTok) := by
  unfold EvalInteger
  try dsimp only []
  repeat' (first
    | infer_instance | apply stmtKept_bind_of | apply stmtKept_ite_of
    | intro _ | exact stmtKept_modifyP _ (fun _ => ⟨rfl, Nat.le_refl _, rfl, rfl, rfl, rfl, rfl⟩) | split)

instance stmtKept_FindTagInCurScope (name : String) :
    KeepsStmtState (FindTagInCurScope name) := by
  unfold FindTagInCurScope
  try dsimp only []
  repeat' (first
    | infer_instance | apply stmtKept_bind_of | apply stmtKept_ite_of
    | intro _ | exact stmtKept_modifyP _ (fun _ => ⟨rfl, Nat.le_refl _, rfl, rfl, rfl, rfl, rfl⟩) | split)

instance stmtKept_NewStructUnionType (isStruct : Bool) :
    KeepsStmtState (NewStructUnionType isStruct) := by
  unfold NewStructUnionType
  try dsimp only []
  repeat' (first
    | infer_instance | apply stmtKept_bind_of | apply stmtKept_ite_of
    | intro _ | exact stmtKept_modifyP _ (fun _ => ⟨rfl, Nat.le_refl _, rfl, rfl, rfl, rfl, rfl⟩) | split)

instance stmtKept_SetComplete (t : CType) (flag : Bool) :
    KeepsStmtState (SetComplete t flag) := by
  unfold SetComplete
  try dsimp only []
  repeat' (first
    | infer_instance | apply stmtKept_bind_of | apply stmtKept_ite_of
    | intro _ | exact stmtKept_modifyP _ (fun _ => ⟨rfl, Nat.le_refl _, rfl, rfl, rfl, rfl, rfl⟩) | split)

instance stmtKept_ParseQual_loop (r : Rec) (qualSpec : Nat) [RecKeepsStmt r] :
    KeepsStmtState (ParseQual.loop r qualSpec) := by
  unfold ParseQual.loop
  try dsimp only []
  repeat' (first
    | infer_instance | apply stmtKept_bind_of | apply stmtKept_ite_of
    | intro _ | exact stmtKept_modifyP _ (fun _ => ⟨rfl, Nat.le_refl _, rfl, rfl, rfl, rfl, rfl⟩) | split)

instance stmtKept_ParseQual (r : Rec) [RecKeepsStmt r] :
    KeepsStmtState (ParseQual r) := by
  unfold ParseQual
  try dsimp only []
  repeat' (first
    | infer_instance | apply stmtKept_bind_of | apply stmtKept_ite_of
    | intro _ | exact stmtKept_modifyP _ (fun _ => ⟨rfl, Nat.le_refl _, rfl, rfl, rfl, rfl, rfl⟩) | split)

instance stmtKept_ParsePointer_loop (r : Rec) (retType typePointedTo : CType) [RecKeepsStmt r] :
    KeepsStmtState (ParsePointer.loop r retType typePointedTo) := by
  unfold ParsePointer.loop
  try dsimp only []
  repeat' (first
    | infer_instance | apply stmtKept_bind_of | apply stmtKept_ite_of
    | intro _ | exact stmtKept_modifyP _ (fun _ => ⟨rfl, Nat.le_refl _, rfl, rfl, rfl, rfl, rfl⟩) | split)

instance stmtKept_ParsePointer (r : Rec) (typePointedTo : CType) [RecKeepsStmt r] :
    KeepsStmtState (ParsePointer r typePointedTo) := by
  unfold ParsePointer
  try dsimp only []
  repeat' (first
    | infer_instance | apply stmtKept_bind_of | apply stmtKept_ite_of
    | intro _ | exact stmtKept_modifyP _ (fun _ => ⟨rfl, Nat.le_refl _, rfl, rfl, rfl, rfl, rfl⟩) | split)

instance stmtKept_ModifyBase (type base newBase : CType) :
    KeepsStmtState (ModifyBase type base newBase) := by
  unfold ModifyBase
  try dsimp only []
  repeat' (first
    | infer_instance | apply stmtKept_bind_of | apply stmtKept_ite_of
    | intro _ | exact stmtKept_modifyP _ (fun _ => ⟨rfl, Nat.le_refl _, rfl, rfl, rfl, rfl, rfl⟩) | split)

instance stmtKept_ParseAlignas (r : Rec) [RecKeepsStmt r] :
    KeepsStmtState (ParseAlignas r) := by
  unfold ParseAlignas
  try dsimp only []
  repeat' (first
    | infer_instance | apply stmtKept_bind_of | apply stmtKept_ite_of
    | intro _ | exact stmtKept_modifyP _ (fun _ => ⟨rfl, Nat.le_refl _, rfl, rfl, rfl, rfl, rfl⟩) | split)

instance stmtKept_ParseEnumerator_loop (r : Rec) (type : CType) (val : Int) [RecKeepsStmt r] :
    KeepsStmtState (ParseEnumerator.loop r type val) := by
  unfold ParseEnumerator.loop
  try dsimp only []
  repeat' (first
    | infer_instance | apply stmtKept_bind_of | apply stmtKept_ite_of
    | intro _ | exact stmtKept_modifyP _ (fun _ => ⟨rfl, Nat.le_refl _, rfl, rfl, rfl, rfl, rfl⟩) | split)

instance stmtKept_ParseEnumerator (r : Rec) (type : CType) [RecKeepsStmt r] :
    KeepsStmtState (ParseEnumerator r type) := by
  unfold ParseEnumerator
  try dsimp only []
  repeat' (first
    | infer_instance | apply stmtKept_bind_of | apply stmtKept_ite_of
    | intro _ | exact stmtKept_modifyP _ (fun _ => ⟨rfl, Nat.le_refl _, rfl, rfl, rfl, rfl, rfl⟩) | split)

instance stmtKept_ParseEnumSpec_enumDecl (r : Rec) (tagName : String) [RecKeepsStmt r] :
    KeepsStmtState (ParseEnumSpec.enumDecl r tagName) := by
  unfold ParseEnumSpec.enumDecl
  try dsimp only []
  repeat' (first
    | infer_instance | apply stmtKept_bind_of | apply stmtKept_ite_of
    | intro _ | exact stmtKept_modifyP _ (fun _ => ⟨rfl, Nat.le_refl _, rfl, rfl, rfl, rfl, rfl⟩) | split)

instance stmtKept_ParseEnumSpec (r : Rec) [RecKeepsStmt r] :
    KeepsStmtState (ParseEnumSpec r) := by
  unfold ParseEnumSpec
  try dsimp only []
  repeat' (first
    | infer_instance | apply stmtKept_bind_of | apply stmtKept_ite_of
    | intro _ | exact stmtKept_modifyP _ (fun _ => ⟨rfl, Nat.le_refl _, rfl, rfl, rfl, rfl, rfl⟩) | split)

instance stmtKept_ParseSpecQual (r : Rec) [RecKeepsStmt r] :
    KeepsStmtState (ParseSpecQual r) := by
  unfold ParseSpecQual
  try dsimp only []
  repeat' (first
    | infer_instance | apply stmtKept_bind_of | apply stmtKept_ite_of
    | intro _ | exact stmtKept_modifyP _ (fun _ => ⟨rfl, Nat.le_refl _, rfl, rfl, rfl, rfl, rfl⟩) | split)

instance stmtKept_ParseStructDecl_loop (r : Rec) (type : CType) [RecKeepsStmt r] :
    KeepsStmtState (ParseStructDecl.loop r type) := by
  unfold ParseStructDecl.loop
  try dsimp only []
  repeat' (first
    | infer_instance | apply stmtKept_bind_of | apply stmtKept_ite_of
    | intro _ | exact stmtKept_modifyP _ (fun _ => ⟨rfl, Nat.le_refl _, rfl, rfl, rfl, rfl, rfl⟩) | split)

instance stmtKept_ParseStructDecl (r : Rec) (type : CType) [RecKeepsStmt r] :
    KeepsStmtState (ParseStructDecl r type) := by
  unfold ParseStructDecl
  try dsimp only []
  repeat' (first
    | infer_instance | apply stmtKept_bind_of | apply stmtKept_ite_of
    | intro _ | exact stmtKept_modifyP _ (fun _ => ⟨rfl, Nat.le_refl _, rfl, rfl, rfl, rfl, rfl⟩) | split)

instance stmtKept_ParseStructUnionSpec_structDecl (r : Rec) (isStruct : Bool) (tagName : String) [RecKeepsStmt r] :
    KeepsStmtState (ParseStructUnionSpec.structDecl r isStruct tagName) := by
  unfold ParseStructUnionSpec.structDecl
  try dsimp only []
  repeat' (first
    | infer_instance | apply stmtKept_bind_of | apply stmtKept_ite_of
    | intro _ | exact stmtKept_modifyP _ (fun _ => ⟨rfl, Nat.le_refl _, rfl, rfl, rfl, rfl, rfl⟩) | split)

instance stmtKept_ParseStructUnionSpec (r : Rec) (isStruct : Bool) [RecKeepsStmt r] :
    KeepsStmtState (ParseStructUnionSpec r isStruct) := by
  unfold ParseStructUnionSpec
  try dsimp only []
  repeat' (first
    | infer_instance | apply stmtKept_bind_of | apply stmtKept_ite_of
    | intro _ | exact stmtKept_modifyP _ (fun _ => ⟨rfl, Nat.le_refl _, rfl, rfl, rfl, rfl, rfl⟩) | split)

instance stmtKept_ParseDeclSpec_error (tok : Token) :
    KeepsStmtState (ParseDeclSpec.error tok) := by
  unfold ParseDeclSpec.error
  try dsimp only []
  repeat' (first
    | infer_instance | apply stmtKept_bind_of | apply stmtKept_ite_of
    | intro _ | exact stmtKept_modifyP _ (fun _ => ⟨rfl, Nat.le_refl _, rfl, rfl, rfl, rfl, rfl⟩) | split)

instance stmtKept_ParseDeclSpec_endOfLoop (outNull : Bool) (tok : Token) (v : DeclSpecVars) :
    KeepsStmtState (ParseDeclSpec.endOfLoop outNull tok v) := by
  unfold ParseDeclSpec.endOfLoop
  try dsimp only []
  repeat' (first
    | infer_instance | apply stmtKept_bind_of | apply stmtKept_ite_of
    | intro _ | exact stmtKept_modifyP _ (fun _ => ⟨rfl, Nat.le_refl _, rfl, rfl, rfl, rfl, rfl⟩) | split)

instance stmtKept_ParseDeclSpec_loop (r : Rec) (outNull : Bool) (v : DeclSpecVars) [RecKeepsStmt r] :
    KeepsStmtState (ParseDeclSpec.loop r outNull v) := by
  unfold ParseDeclSpec.loop
  try dsimp only []
  repeat' (first
    | infer_instance | apply stmtKept_bind_of | apply stmtKept_ite_of
    | intro _ | exact stmtKept_modifyP _ (fun _ => ⟨rfl, Nat.le_refl _, rfl, rfl, rfl, rfl, rfl⟩) | split)

instance stmtKept_ParseDeclSpec (r : Rec) (outNull : Bool) [RecKeepsStmt r] :
    KeepsStmtState (ParseDeclSpec r outNull) := by
  unfold ParseDeclSpec
  try dsimp only []
  repeat' (first
    | infer_instance | apply stmtKept_bind_of | apply stmtKept_ite_of
    | intro _ | exact stmtKept_modifyP _ (fun _ => ⟨rfl, Nat.le_refl _, rfl, rfl, rfl, rfl, rfl⟩) | split)

instance stmtKept_ParseArrayLength (r : Rec) [RecKeepsStmt r] :
    KeepsStmtState (ParseArrayLength r) := by
  unfold ParseArrayLength
  try dsimp only []
  repeat' (first
    | infer_instance | apply stmtKept_bind_of | apply stmtKept_ite_of
    | intro _ | exact stmtKept_modifyP _ (fun _ => ⟨rfl, Nat.le_refl _, rfl, rfl, rfl, rfl, rfl⟩) | split)

instance stmtKept_ParseParamDecl (r : Rec) [RecKeepsStmt r] :
    KeepsStmtState (ParseParamDecl r) := by
  unfold ParseParamDecl
  try dsimp only []
  repeat' (first
    | infer_instance | apply stmtKept_bind_of | apply stmtKept_ite_of
    | intro _ | exact stmtKept_modifyP _ (fun _ => ⟨rfl, Nat.le_refl _, rfl, rfl, rfl, rfl, rfl⟩) | split)

instance stmtKept_ParseParamList_loop (r : Rec) (params : List CType) [RecKeepsStmt r] :
    KeepsStmtState (ParseParamList.loop r params) := by
  unfold ParseParamList.loop
  try dsimp only []
  repeat' (first
    | infer_instance | apply stmtKept_bind_of | apply stmtKept_ite_of
    | intro _ | exact stmtKept_modifyP _ (fun _ => ⟨rfl, Nat.le_refl _, rfl, rfl, rfl, rfl, rfl⟩) | split)

instance stmtKept_ParseParamList (r : Rec) [RecKeepsStmt r] :
    KeepsStmtState (ParseParamList r) := by
  unfold ParseParamList
  try dsimp only []
  repeat' (first
    | infer_instance | apply stmtKept_bind_of | apply stmtKept_ite_of
    | intro _ | exact stmtKept_modifyP _ (fun _ => ⟨rfl, Nat.le_refl _, rfl, rfl, rfl, rfl, rfl⟩) | split)

instance stmtKept_ParseArrayFuncDeclarator (r : Rec) (base : CType) [RecKeepsStmt r] :
    KeepsStmtState (ParseArrayFuncDeclarator r base) := by
  unfold ParseArrayFuncDeclarator
  try dsimp only []
  repeat' (first
    | infer_instance | apply stmtKept_bind_of | apply stmtKept_ite_of
    | intro _ | exact stmtKept_modifyP _ (fun _ => ⟨rfl, Nat.le_refl _, rfl, rfl, rfl, rfl, rfl⟩) | split)

instance stmtKept_ParseDeclarator (r : Rec) (base : CType) [RecKeepsStmt r] :
    KeepsStmtState (ParseDeclarator r base) := by
  unfold ParseDeclarator
  try dsimp only []
  repeat' (first
    | infer_instance | apply stmtKept_bind_of | apply stmtKept_ite_of
    | intro _ | exact stmtKept_modifyP _ (fun _ => ⟨rfl, Nat.le_refl _, rfl, rfl, rfl, rfl, rfl⟩) | split)

instance stmtKept_ParseAbstractDeclarator (r : Rec) (type : CType) [RecKeepsStmt r] :
    KeepsStmtState (ParseAbstractDeclarator r type) := by
  unfold ParseAbstractDeclarator
  try dsimp only []
  repeat' (first
    | infer_instance | apply stmtKept_bind_of | apply stmtKept_ite_of
    | intro _ | exact stmtKept_modifyP _ (fun _ => ⟨rfl, Nat.le_refl _, rfl, rfl, rfl, rfl, rfl⟩) | split)

instance stmtKept_ParseTypeName (r : Rec) [RecKeepsStmt r] :
    KeepsStmtState (ParseTypeName r) := by
  unfold ParseTypeName
  try dsimp only []
  repeat' (first
    | infer_instance | apply stmtKept_bind_of | apply stmtKept_ite_of
    | intro _ | exact stmtKept_modifyP _ (fun _ => ⟨rfl, Nat.le_refl _, rfl, rfl, rfl, rfl, rfl⟩) | split)

instance stmtKept_ParseDirectDeclarator (r : Rec) (type : CType) (storageSpec funcSpec : Nat) [RecKeepsStmt r] :
    KeepsStmtState (ParseDirectDeclarator r type storageSpec funcSpec) := by
  unfold ParseDirectDeclarator
  try dsimp only []
  repeat' (first
    | infer_instance | apply stmtKept_bind_of | apply stmtKept_ite_of
    | intro _ | exact stmtKept_modifyP _ (fun _ => ⟨rfl, Nat.le_refl _, rfl, rfl, rfl, rfl, rfl⟩) | split)

instance stmtKept_ParseStructInitializer (obj : Identifier) :
    KeepsStmtState (ParseStructInitializer obj) := by
  unfold ParseStructInitializer
  try dsimp only []
  repeat' (first
    | infer_instance | apply stmtKept_bind_of | apply stmtKept_ite_of
    | intro _ | exact stmtKept_modifyP _ (fun _ => ⟨rfl, Nat.le_refl _, rfl, rfl, rfl, rfl, rfl⟩) | split)

instance stmtKept_arrayElement (arr : Identifier) (idx : Nat) :
    KeepsStmtState (arrayElement arr idx) := by
  unfold arrayElement
  try dsimp only []
  repeat' (first
    | infer_instance | apply stmtKept_bind_of | apply stmtKept_ite_of
    | intro _ | exact stmtKept_modifyP _ (fun _ => ⟨rfl, Nat.le_refl _, rfl, rfl, rfl, rfl, rfl⟩) | split)

instance stmtKept_ParseArrayInitializer_loop (r : Rec) (arr : Identifier) (v : ArrayInitVars) [RecKeepsStmt r] :
    KeepsStmtState (ParseArrayInitializer.loop r arr v) := by
  unfold ParseArrayInitializer.loop
  try dsimp only []
  repeat' (first
    | infer_instance | apply stmtKept_bind_of | apply stmtKept_ite_of
    | intro _ | exact stmtKept_modifyP _ (fun _ => ⟨rfl, Nat.le_refl _, rfl, rfl, rfl, rfl, rfl⟩) | split)

instance stmtKept_ParseArrayInitializer (r : Rec) (arr : Identifier) [RecKeepsStmt r] :
    KeepsStmtState (ParseArrayInitializer r arr) := by
  unfold ParseArrayInitializer
  try dsimp only []
  repeat' (first
    | infer_instance | apply stmtKept_bind_of | apply stmtKept_ite_of
    | intro _ | exact stmtKept_modifyP _ (fun _ => ⟨rfl, Nat.le_refl _, rfl, rfl, rfl, rfl, rfl⟩) | split)

instance stmtKept_ParseInitializer (r : Rec) (obj : Option Identifier) [RecKeepsStmt r] :
    KeepsStmtState (ParseInitializer r obj) := by
  unfold ParseInitializer
  try dsimp only []
  repeat' (first
    | infer_instance | apply stmtKept_bind_of | apply stmtKept_ite_of
    | intro _ | exact stmtKept_modifyP _ (fun _ => ⟨rfl, Nat.le_refl _, rfl, rfl, rfl, rfl, rfl⟩) | split)

instance stmtKept_ParseInitDeclarator (r : Rec) (type : CType) (storageSpec funcSpec : Nat) [RecKeepsStmt r] :
    KeepsStmtState (ParseInitDeclarator r type storageSpec funcSpec) := by
  unfold ParseInitDeclarator
  try dsimp only []
  repeat' (first
    | infer_instance | apply stmtKept_bind_of | apply stmtKept_ite_of
    | intro _ | exact stmtKept_modifyP _ (fun _ => ⟨rfl, Nat.le_refl _, rfl, rfl, rfl, rfl, rfl⟩) | split)

instance stmtKept_ParseDecl_loop (r : Rec) (type : CType) (storageSpec funcSpec : Nat) (stmts : List Stmt) [RecKeepsStmt r] :
    KeepsStmtState (ParseDecl.loop r type storageSpec funcSpec stmts) := by
  unfold ParseDecl.loop
  try dsimp only []
  repeat' (first
    | infer_instance | apply stmtKept_bind_of | apply stmtKept_ite_of
    | intro _ | exact stmtKept_modifyP _ (fun _ => ⟨rfl, Nat.le_refl _, rfl, rfl, rfl, rfl, rfl⟩) | split)

instance stmtKept_ParseDecl (r : Rec) [RecKeepsStmt r] :
    KeepsStmtState (ParseDecl r) := by
  unfold ParseDecl
  try dsimp only []
  repeat' (first
    | infer_instance | apply stmtKept_bind_of | apply stmtKept_ite_of
    | intro _ | exact stmtKept_modifyP _ (fun _ => ⟨rfl, Nat.le_refl _, rfl, rfl, rfl, rfl, rfl⟩) | split)

theorem RecKeepsStmt_bottomRec : RecKeepsStmt bottomRec := by
  constructor <;> intros <;> exact stmtKept_fail _

theorem RecKeepsStmt_stepRec (r : Rec) [RecKeepsStmt r] : RecKeepsStmt (stepRec r) := by
  constructor <;> intros <;> dsimp only [stepRec] <;> infer_instance

instance parser_keepsStmt : ∀ fuel, RecKeepsStmt (parser fuel)
  | 0 => RecKeepsStmt_bottomRec
  | fuel + 1 => @RecKeepsStmt_stepRec (parser fuel) (parser_keepsStmt fuel)

instance stmtKept_ParseCaseStmt_header (r : Rec) [RecKeepsStmt r] :
    KeepsStmtState (ParseCaseStmt.header r) := by
  unfold ParseCaseStmt.header
  try dsimp only []
  repeat' (first
    | infer_instance | apply stmtKept_bind_of | apply stmtKept_ite_of
    | intro _ | exact stmtKept_modifyP _ (fun _ => ⟨rfl, Nat.le_refl _, rfl, rfl, rfl, rfl, rfl⟩) | split)

/-! ## Consecutive case labels -/

/-- `ParseCaseStmt` after the header of the label: the new label, the entry
in `_caseLabels`, and the statement that follows. -/
theorem ParseCaseStmt_run (r : Rec) (s s1 : Parser) (val : Int) (cl : List (Int × Nat))
    (h1 : ParseCaseStmt.header r s = .ok val s1) (hcl : s1.caseLabels = some cl) :
    ParseCaseStmt r s =
      (r.ParseStmt { s1 with nextId := s1.nextId + 1,
                             caseLabels := some (cl ++ [(val, s1.nextId)]) }).andThen
        (fun stmt sS => .ok (.compoundStmt [.labelStmt s1.nextId, stmt]) sS) := by
  have h : ParseCaseStmt r = ParseCaseStmt.header r >>= fun val => (do
      let labelStmt ← NewLabelStmt
      pushCaseLabel val labelStmt
      let stmt ← r.ParseStmt
      pure (NewCompoundStmt [.labelStmt labelStmt, stmt])) := by
    unfold ParseCaseStmt ParseCaseStmt.header
    simp only [PM.bind_assoc]
  rw [h, run_bind, h1, andThen_ok]
  simp only [run_bind, NewLabelStmt, freshId, andThen_ok, pushCaseLabel, hcl, run_pure,
    NewCompoundStmt]
  rfl

/-- `ParseStmt` at the keyword `case`. -/
theorem ParseStmt_case (r : Rec) (s : Parser) (hcase : (tokAt s.toks s.pos).tag = .kw .CASE) :
    ParseStmt r s = ParseCaseStmt r { s with pos := s.pos + 1 } := by
  have heof : (tokAt s.toks s.pos).IsEOF = false := by
    simp only [Token.IsEOF, hcase, beq_eq_false_iff_ne, ne_eq, reduceCtorEq, Tag.kw.injEq,
      not_false_eq_true]
  unfold ParseStmt
  simp only [run_bind, Next_run, andThen_ok, ErrorIf_run, heof, hcase, beq_iff_eq, reduceCtorEq,
    Tag.kw.injEq, if_false, if_true, Bool.false_eq_true, List.append_nil]

/-- The loop of `ParseSwitchStmt` over the case labels makes, for every
recorded pair of a value and a label, one `if` whose jump has that label as
its target, and keeps the jumps made before. -/
theorem ParseSwitchStmt.tests_jumps (tok : Token) (t : Expr) :
    ∀ (cl : List (Int × Nat)) (s : Parser) (stmts : List Stmt) (s' : Parser),
      ParseSwitchStmt.tests tok t cl s = .ok stmts s' →
      ∃ js, s'.jumps = js ++ s.jumps ∧
        List.Forall₂ (fun stmt p => ∃ c j, stmt = Stmt.ifStmt c (.jumpStmt j) .null ∧
          (j, some (Prod.snd p)) ∈ js) stmts cl
  | [], s, stmts, s', h => by
    cases h
    exact ⟨[], rfl, List.Forall₂.nil⟩
  | (val, label) :: rest, s, stmts, s', h => by
    unfold ParseSwitchStmt.tests at h
    simp only [run_bind] at h
    cases hb : NewBinaryOp tok (.kw .EQ_OP) t
        (NewConstantInteger (NewArithmType T_INT) val) s with
    | fail e s1 => rw [hb, andThen_fail] at h; cases h
    | ok cond s1 =>
      have hk := (stmtKept_NewBinaryOp tok (.kw .EQ_OP) t
        (NewConstantInteger (NewArithmType T_INT) val)).keeps s cond s1 hb
      rw [hb, andThen_ok] at h
      simp only [NewJumpStmt, freshId, modifyP, run_bind, andThen_ok, run_pure] at h
      cases hr : ParseSwitchStmt.tests tok t rest
          { s1 with nextId := s1.nextId + 1, jumps := (s1.nextId, some label) :: s1.jumps } with
      | fail e s2 => rw [hr, andThen_fail] at h; cases h
      | ok more s2 =>
        rw [hr, andThen_ok] at h
        simp only [NewIfStmt] at h
        cases h
        obtain ⟨js, hjs, hall⟩ := ParseSwitchStmt.tests_jumps tok t rest _ _ _ hr
        refine ⟨js ++ [(s1.nextId, some label)], ?_, ?_⟩
        · rw [hjs, hk.jumps, List.append_assoc]; rfl
        · refine List.Forall₂.cons ⟨cond, s1.nextId, rfl, ?_⟩ ?_
          · exact List.mem_append_right _ (List.mem_singleton.2 rfl)
          · exact hall.imp (fun a b ⟨c, j, h1, h2⟩ => ⟨c, j, h1, List.mem_append_left _ h2⟩)

/-- Counterexample to C12 as stated: in the parse of
`void g(void) { int x; switch (x) { case 1: case 2: ; } }` the label of
`case 1` is the LabelStmt 11 and the label of `case 2` the LabelStmt 12; the
jump 13 generated for the value 1 has the target 11, the jump 14 generated
for the value 2 the target 12. -/
theorem ParseCaseStmt_targets_differ :
    (ParseTranslationUnit (parser 80) (stateAt toksTwoCases)).failure? = none ∧
    (ParseTranslationUnit (parser 80) (stateAt toksTwoCases)).state.errors = [] ∧
    (ParseTranslationUnit (parser 80) (stateAt toksTwoCases)).state.unit =
      [.funcDef (.func .void 0 false [.void])
        (.compoundStmt
          [.compoundStmt [],
           .compoundStmt
             [.expr (.binaryOp (.chr '=') (.tempVar tInt) (.identifier objX) tInt),
              .jumpStmt 9,
              .compoundStmt
                [.compoundStmt [.labelStmt 11, .compoundStmt [.labelStmt 12, .emptyStmt]]],
              .labelStmt 7,
              .ifStmt (.binaryOp (.kw .EQ_OP) (.tempVar tInt) (.constant tInt 1)
                (.arithm T_BOOL none)) (.jumpStmt 13) .null,
              .ifStmt (.binaryOp (.kw .EQ_OP) (.tempVar tInt) (.constant tInt 2)
                (.arithm T_BOOL none)) (.jumpStmt 14) .null,
              .jumpStmt 15,
              .labelStmt 8]])] ∧
    (ParseTranslationUnit (parser 80) (stateAt toksTwoCases)).state.jumps =
      [(15, none), (14, some 12), (13, some 11), (9, some 7)] ∧
    (ParseTranslationUnit (parser 80) (stateAt toksTwoCases)).state.jumps.lookup 13 ≠
      (ParseTranslationUnit (parser 80) (stateAt toksTwoCases)).state.jumps.lookup 14 :=
  ⟨by decide!, by decide!, by decide!, by decide!, by decide!⟩

/-- C12 (amended): in a switch body (`_caseLabels` is the list `cl`), when
the header of a case label gives the value `v1`, the next token is `case`,
the header of that second label gives the value `v2`, and the statement
after it is `S`: `ParseCaseStmt` returns
`[LabelStmt L1, [LabelStmt L2, S]]`, where `L1` and `L2` are two different
handles, each allocated for its label and not allocated before; `S` is
parsed with the list `cl ++ [(v1, L1)] ++ [(v2, L2)]` in `_caseLabels`; and
for every recorded pair of a value and a label the loop of `ParseSwitchStmt`
makes one `if` whose jump has that label as its target, so the jumps for
`v1` and for `v2` have the different targets `L1` and `L2`, which both lead
to `S`. -/
theorem ParseCaseStmt_consecutive_labels (fuel : Nat) (s s1 s2 sS : Parser) (v1 v2 : Int)
    (cl : List (Int × Nat)) (S : Stmt)
    (hcl : s.caseLabels = some cl)
    (h1 : ParseCaseStmt.header (parser (fuel + 1)) s = .ok v1 s1)
    (hcase : (tokAt s1.toks s1.pos).tag = .kw .CASE)
    (h2 : ParseCaseStmt.header (parser fuel)
        { s1 with pos := s1.pos + 1, nextId := s1.nextId + 1,
                  caseLabels := some (cl ++ [(v1, s1.nextId)]) } = .ok v2 s2)
    (hS : (parser fuel).ParseStmt
        { s2 with nextId := s2.nextId + 1,
                  caseLabels := some (cl ++ [(v1, s1.nextId)] ++ [(v2, s2.nextId)]) }
          = .ok S sS) :
    ParseCaseStmt (parser (fuel + 1)) s =
      .ok (.compoundStmt [.labelStmt s1.nextId, .compoundStmt [.labelStmt s2.nextId, S]]) sS ∧
    s.nextId ≤ s1.nextId ∧ s1.nextId < s2.nextId ∧
    (∀ tok t cl2 sT stmts sT', ParseSwitchStmt.tests tok t cl2 sT = .ok stmts sT' →
      ∃ js, sT'.jumps = js ++ sT.jumps ∧
        List.Forall₂ (fun stmt p => ∃ c j, stmt = Stmt.ifStmt c (.jumpStmt j) .null ∧
          (j, some (Prod.snd p)) ∈ js) stmts cl2) := by
  have hk1 := (inferInstance : KeepsStmtState (ParseCaseStmt.header (parser (fuel + 1)))).keeps
    s v1 s1 h1
  have hcl1 : s1.caseLabels = some cl := hk1.caseLabels.trans hcl
  have hk2 := (inferInstance : KeepsStmtState (ParseCaseStmt.header (parser fuel))).keeps
    _ v2 s2 h2
  have hcl2 : s2.caseLabels = some (cl ++ [(v1, s1.nextId)]) := hk2.caseLabels
  have hlt : s1.nextId < s2.nextId := Nat.lt_of_succ_le hk2.nextId
  have e2 := ParseCaseStmt_run (parser fuel) _ s2 v2 _ h2 hcl2
  rw [hS, andThen_ok] at e2
  have e1 : ParseStmt (parser fuel)
      { s1 with nextId := s1.nextId + 1, caseLabels := some (cl ++ [(v1, s1.nextId)]) }
        = .ok (.compoundStmt [.labelStmt s2.nextId, S]) sS :=
    (ParseStmt_case (parser fuel)
      { s1 with nextId := s1.nextId + 1, caseLabels := some (cl ++ [(v1, s1.nextId)]) }
      hcase).trans e2
  refine ⟨?_, hk1.nextId, hlt, fun tok t cl2 sT stmts sT' h =>
    ParseSwitchStmt.tests_jumps tok t cl2 sT stmts sT' h⟩
  rw [ParseCaseStmt_run (parser (fuel + 1)) s s1 v1 cl h1 hcl1]
  show (ParseStmt (parser fuel) _).andThen _ = _
  rw [e1]
  rfl

/-- Witness of C12 (amended): `case 1: case 2: ;` in the body of a switch
whose `_caseLabels` is empty.  The labels are the handles 2 and 3, and the
list is `[(1, 2), (2, 3)]` afterwards. -/
theorem ParseCaseStmt_consecutive_labels_witness :
    caseStart.caseLabels = some [] ∧
    ParseCaseStmt.header (parser 30) caseStart = .ok 1 caseAfterFirst ∧
    (tokAt caseAfterFirst.toks caseAfterFirst.pos).tag = .kw .CASE ∧
    ParseCaseStmt (parser 30) caseStart =
      .ok (.compoundStmt [.labelStmt caseAfterFirst.nextId,
        .compoundStmt [.labelStmt caseAfterSecond.nextId, .emptyStmt]]) caseEnd ∧
    caseAfterFirst.nextId < caseAfterSecond.nextId ∧
    (ParseCaseStmt (parser 30) caseStart).value? =
      some (.compoundStmt [.labelStmt 2, .compoundStmt [.labelStmt 3, .emptyStmt]]) ∧
    caseEnd.caseLabels = some [(1, 2), (2, 3)] :=
  have h1 : ParseCaseStmt.header (parser 30) caseStart = .ok 1 caseAfterFirst :=
    Res.eq_ok_of_value _ _ (by decide!)
  have hcase : (tokAt caseAfterFirst.toks caseAfterFirst.pos).tag = .kw .CASE := by decide!
  have h2 : ParseCaseStmt.header (parser 29)
      { caseAfterFirst with pos := caseAfterFirst.pos + 1, nextId := caseAfterFirst.nextId + 1,
                            caseLabels := some ([] ++ [(1, caseAfterFirst.nextId)]) }
        = .ok 2 caseAfterSecond :=
    Res.eq_ok_of_value _ _ (by decide!)
  have hS : (parser 29).ParseStmt
      { caseAfterSecond with
          nextId := caseAfterSecond.nextId + 1,
          caseLabels := some ([] ++ [(1, caseAfterFirst.nextId)]
            ++ [(2, caseAfterSecond.nextId)]) } = .ok .emptyStmt caseEnd :=
    Res.eq_ok_of_value _ _ (by decide!)
  have h := ParseCaseStmt_consecutive_labels 29 caseStart caseAfterFirst caseAfterSecond caseEnd
    1 2 [] .emptyStmt rfl h1 hcase h2 hS
  ⟨rfl, h1, hcase, h.1, h.2.2.1, by decide!, by decide!⟩

/-! ## The comma operator and the subscript operator -/

/-- The node factory on an operator that is not in its list. -/
theorem NewBinaryOp_comma (tok : Token) (lhs rhs : Expr) (s : Parser) :
    NewBinaryOp tok (.chr ',') lhs rhs s = .fail .assertFail s := rfl

theorem NewBinaryOp_bracket_close (tok : Token) (lhs rhs : Expr) (s : Parser) :
    NewBinaryOp tok (.chr ']') lhs rhs s = .fail .assertFail s := rfl

/-- C27: `NewBinaryOp` with the operator `','` fails its assertion, for all
operands and every state; `ParseCommaExpr` passes the comma token to it, so
`ParseCommaExpr` returns the first assignment-expression when no comma
follows it and otherwise, once the second operand is parsed, ends in the
failed assertion: it never returns a node with the operator `','`.  The
parse of `1 , 2 ;` ends in the failed assertion with no diagnostic. -/
theorem ParseCommaExpr_assert_fails :
    (∀ tok lhs rhs s, NewBinaryOp tok (.chr ',') lhs rhs s = .fail .assertFail s) ∧
    (∀ r s, ParseCommaExpr r s =
      (ParseAssignExpr r s).andThen (fun a s1 =>
        if (tokAt s1.toks s1.pos).tag = .chr ',' then
          (ParseAssignExpr r { s1 with pos := s1.pos + 1 }).andThen
            (fun _ s2 => .fail .assertFail s2)
        else .ok a s1)) ∧
    (ParseExpr (parser 30) (stateAt toksComma)).failure? = some .assertFail ∧
    (ParseExpr (parser 30) (stateAt toksComma)).state.errors = [] ∧
    (ParseExpr (parser 30) (stateAt toksComma)).state.pos = 3 := by
  refine ⟨fun _ _ _ _ => rfl, fun r s => ?_, by decide!, by decide!, by decide!⟩
  unfold ParseCommaExpr
  simp only [run_bind]
  congr 1
  funext a s1
  simp only [Peek, andThen_ok, ParseCommaExpr.loop, run_bind, Try]
  by_cases h : (tokAt s1.toks s1.pos).tag = .chr ','
  · simp only [h, beq_self_eq_true, if_true, andThen_ok]
    rw [run_bind]
    congr 1
    funext b s2
    rw [run_bind, NewBinaryOpTok, h, NewBinaryOp_comma, andThen_fail]
  · have hb : ((tokAt s1.toks s1.pos).tag == Tag.chr ',') = false := beq_false_of_ne h
    simp only [hb, h, Bool.false_eq_true, if_false, andThen_ok, run_pure]

/-- C28: `NewBinaryOp` with the operator `']'` fails its assertion, for all
operands and every state; `ParseSubScripting` passes the token it peeks
before `Expect(']')`, the closing bracket, so for every operand and index
expression followed by `]` it ends in the failed assertion and returns no
node.  The parse of `void g(void) { int *p; p[0]; }` ends in the failed
assertion with no diagnostic. -/
theorem ParseSubScripting_assert_fails :
    (∀ tok lhs rhs s, NewBinaryOp tok (.chr ']') lhs rhs s = .fail .assertFail s) ∧
    (∀ r pointer s, ParseSubScripting r pointer s =
      (r.ParseExpr s).andThen (fun e s1 =>
        if (tokAt s1.toks s1.pos).tag = .chr ']' then
          .fail .assertFail { s1 with pos := s1.pos + 1 }
        else
          (Expect1 (.chr ']') s1).andThen (fun _ s2 =>
            NewBinaryOpTok (tokAt s1.toks s1.pos) pointer e s2))) ∧
    (ParseTranslationUnit (parser 60) (stateAt toksSubscript)).failure? = some .assertFail ∧
    (ParseTranslationUnit (parser 60) (stateAt toksSubscript)).state.errors = [] ∧
    (ParseTranslationUnit (parser 60) (stateAt toksSubscript)).state.pos = 14 := by
  refine ⟨fun _ _ _ _ => rfl, fun r pointer s => ?_, by decide!, by decide!, by decide!⟩
  unfold ParseSubScripting
  simp only [run_bind]
  congr 1
  funext e s1
  by_cases h : (tokAt s1.toks s1.pos).tag = .chr ']'
  · rw [if_pos h]
    simp only [Peek, h, Expect1, Expect, run_bind, Next_run, andThen_ok, bne_self_eq_false,
      Bool.false_eq_true, if_false, run_pure, NewBinaryOpTok, NewBinaryOp_bracket_close]
  · rw [if_neg h]
    rfl

/-! ## The additive operators -/

theorem Ty_run {e : Expr} (h : e.ty ≠ .null) (s : Parser) : Ty e s = .ok e.ty s := by
  cases e with
  | null => exact absurd rfl h
  | _ => rfl

theorem derefType_pointer (d : CType) (q : Nat) (s : Parser) :
    derefType (.pointer d q) s = .ok () s := rfl

theorem derefType_arithm (t : Nat) (c : Option Nat) (s : Parser) :
    derefType (.arithm t c) s = .ok () s := rfl

/-- C29: for operands `p` and `q` whose types are pointers to the same type,
`AdditiveOpTypeChecking` on `p - q` reports 'invalid operands to binary -'
and gives the node the type of `p`, a pointer: the operator of a binary
minus is `'-'`, so the test `_op == Token::MINUS` fails and the right operand
is required to be an integer; with the operator `Token::MINUS` the
diagnostic is reported as well, by the test `!rhs->IsInteger()`.
`NewBinaryOp` returns that node with the diagnostic. -/
theorem AdditiveOpTypeChecking_pointer_difference (lhs rhs : Expr) (d : CType) (q1 q2 : Nat)
    (tok : Token) (s : Parser) (hl : lhs.ty = .pointer d q1) (hr : rhs.ty = .pointer d q2) :
    AdditiveOpTypeChecking { op := .chr '-', lhs := lhs, rhs := rhs, ty := .null } tok s =
      .ok { op := .chr '-', lhs := lhs, rhs := rhs, ty := .pointer d q1 }
        { s with errors := s.errors ++ [invalidMinus tok.coord] } ∧
    AdditiveOpTypeChecking { op := .kw .MINUS, lhs := lhs, rhs := rhs, ty := .null } tok s =
      .ok { op := .kw .MINUS, lhs := lhs, rhs := rhs, ty := .pointer d q1 }
        { s with errors := s.errors ++ [invalidMinus tok.coord] } ∧
    NewBinaryOp tok (.chr '-') lhs rhs s =
      .ok (.binaryOp (.chr '-') lhs rhs (.pointer d q1))
        { s with errors := s.errors ++ [invalidMinus tok.coord] } ∧
    (CType.pointer d q1).isInteger = false := by
  have hln : lhs.ty ≠ .null := by rw [hl]; exact fun h => CType.noConfusion h
  have hrn : rhs.ty ≠ .null := by rw [hr]; exact fun h => CType.noConfusion h
  have h1 : AdditiveOpTypeChecking { op := .chr '-', lhs := lhs, rhs := rhs, ty := .null } tok s =
      .ok { op := .chr '-', lhs := lhs, rhs := rhs, ty := .pointer d q1 }
        { s with errors := s.errors ++ [invalidMinus tok.coord] } := by
    simp only [AdditiveOpTypeChecking, run_bind, Ty_run hln, Ty_run hrn, andThen_ok, ToPointerType,
      derefType_pointer, run_pure, hl, hr, CType.isPointer, if_true,
      beq_iff_eq, reduceCtorEq, if_false, ErrorIf_run, CType.isInteger, Bool.not_false]
    rfl
  refine ⟨h1, ?_, ?_, rfl⟩
  · simp only [AdditiveOpTypeChecking, run_bind, Ty_run hln, Ty_run hrn, andThen_ok, ToPointerType,
      derefType_pointer, run_pure, hl, hr, CType.isPointer, if_true,
      beq_self_eq_true, ErrorIf_run, CType.isInteger, Bool.not_false, Bool.or_true]
    rfl
  · simp only [NewBinaryOp, run_bind, assert, TypeCheckingBinaryOp]
    simp only [beq_self_eq_true, Bool.or_true, Bool.true_or, if_true, run_pure2, andThen_ok,
      beq_iff_eq, reduceCtorEq, Bool.false_or, Bool.or_self, Bool.false_eq_true, if_false,
      Tag.chr.injEq, Char.reduceEq]
    rw [if_neg (by decide), run_bind, h1]
    rfl

/-- Witness of C29: the objects `p` and `q` of type pointer to `int`; and
the parse of `void g(void) { int *p; int *q; p - q; }`, which reports the
diagnostic at the `-`. -/
theorem AdditiveOpTypeChecking_pointer_difference_witness :
    (Expr.identifier objP).ty = .pointer tInt 0 ∧ (Expr.identifier objQ).ty = .pointer tInt 0 ∧
    NewBinaryOp (mkTok (.chr '-') "-" 15) (.chr '-') (.identifier objP) (.identifier objQ)
        (stateAt toksPointerDiff) =
      .ok (.binaryOp (.chr '-') (.identifier objP) (.identifier objQ) (.pointer tInt 0))
        { stateAt toksPointerDiff with
            errors := (stateAt toksPointerDiff).errors ++ [invalidMinus 15] } ∧
    (ParseTranslationUnit (parser 60) (stateAt toksPointerDiff)).failure? = none ∧
    (ParseTranslationUnit (parser 60) (stateAt toksPointerDiff)).state.errors
      = [invalidMinus 15] ∧
    (ParseTranslationUnit (parser 60) (stateAt toksPointerDiff)).state.unit =
      [.funcDef (.func .void 0 false [.void])
        (.compoundStmt [.compoundStmt [], .compoundStmt [],
          .expr (.binaryOp (.chr '-') (.identifier objP) (.identifier objQ)
            (.pointer tInt 0))])] :=
  ⟨rfl, rfl,
    (AdditiveOpTypeChecking_pointer_difference (.identifier objP) (.identifier objQ) tInt 0 0
      (mkTok (.chr '-') "-" 15) (stateAt toksPointerDiff) rfl rfl).2.2.1,
    by decide!, by decide!, by decide!⟩


/-- C30: for two operands of arithmetic types `AdditiveOpTypeChecking`
reports nothing and sets the type that the width tests of parser.cc
2337-2348 give (`additiveArithmType`), in which the wider operand wins before
any floating bit is looked at, and only `T_FLOAT`, not `T_DOUBLE`, is looked
at for equal widths.  So `long + double` has the type `long` and
`float + long long` the type `long long`, no floating type; with the widths
and the machine word of the absent `type.h` as parameters, the result of
`float + long long` is not floating whenever `long long` is wider than
`float`, and the result of `long + double` is not floating whenever `long`
and `double` have the same width. -/
theorem AdditiveOpTypeChecking_wider_wins (op : Tag) (lhs rhs : Expr) (l r : Nat)
    (cl cr : Option Nat) (tok : Token) (s : Parser)
    (hl : lhs.ty = .arithm l cl) (hr : rhs.ty = .arithm r cr) :
    AdditiveOpTypeChecking { op := op, lhs := lhs, rhs := rhs, ty := .null } tok s =
      .ok { op := op, lhs := lhs, rhs := rhs,
            ty := additiveArithmType (.arithm l cl) (.arithm r cr) l r } s ∧
    additiveArithmType = additiveArithmTypeW arithmWidth machineWord ∧
    (additiveArithmType tLong tDouble T_LONG T_DOUBLE = tLong ∧
      tLong.isFloat = false ∧ tDouble.isFloat = true) ∧
    (additiveArithmType tFloat tLongLong T_FLOAT T_LONG_LONG = tLongLong ∧
      tLongLong.isFloat = false ∧ tFloat.isFloat = true) ∧
    (∀ width mw, width T_FLOAT < width T_LONG_LONG →
      (additiveArithmTypeW width mw tFloat tLongLong T_FLOAT T_LONG_LONG).isFloat = false) ∧
    (∀ width mw, width T_LONG = width T_DOUBLE →
      (additiveArithmTypeW width mw tLong tDouble T_LONG T_DOUBLE).isFloat = false) := by
  have hln : lhs.ty ≠ .null := by rw [hl]; exact fun h => CType.noConfusion h
  have hrn : rhs.ty ≠ .null := by rw [hr]; exact fun h => CType.noConfusion h
  refine ⟨?_, rfl, ⟨by decide, by decide, by decide⟩, ⟨by decide, by decide, by decide⟩,
    fun width mw h => ?_, fun width mw h => ?_⟩
  · simp only [AdditiveOpTypeChecking, run_bind, Ty_run hln, Ty_run hrn, andThen_ok, ToPointerType,
      derefType_arithm, run_pure, hl, hr, CType.isPointer, Bool.false_eq_true, if_false,
      ErrorIf_run, CType.isArithm, Bool.not_true, Bool.or_self, List.append_nil]
  · unfold additiveArithmTypeW
    by_cases h1 : (decide (width T_FLOAT < mw) && decide (width T_LONG_LONG < mw)) = true
    · rw [if_pos h1]; decide
    · rw [if_neg h1, if_neg (by omega), if_pos h]; decide
  · unfold additiveArithmTypeW
    by_cases h1 : (decide (width T_LONG < mw) && decide (width T_DOUBLE < mw)) = true
    · rw [if_pos h1]; decide
    · rw [if_neg h1, if_neg (by omega), if_neg (by omega), if_neg (by decide)]; decide

/-- Witness of C30: the objects `a` of type `long` and `b` of type `double`;
and the parse of `void g(void) { long a; double b; a + b; }`, in which the
sum has the type `long` and nothing is reported. -/
theorem AdditiveOpTypeChecking_wider_wins_witness :
    (Expr.identifier objLongA).ty = .arithm T_LONG none ∧
    (Expr.identifier objDoubleB).ty = .arithm T_DOUBLE none ∧
    AdditiveOpTypeChecking
        { op := .chr '+', lhs := .identifier objLongA, rhs := .identifier objDoubleB,
          ty := .null } (mkTok (.chr '+') "+" 13) (stateAt toksLongPlusDouble) =
      .ok { op := .chr '+', lhs := .identifier objLongA, rhs := .identifier objDoubleB,
            ty := additiveArithmType (.arithm T_LONG none) (.arithm T_DOUBLE none)
              T_LONG T_DOUBLE } (stateAt toksLongPlusDouble) ∧
    (ParseTranslationUnit (parser 60) (stateAt toksLongPlusDouble)).failure? = none ∧
    (ParseTranslationUnit (parser 60) (stateAt toksLongPlusDouble)).state.errors = [] ∧
    (ParseTranslationUnit (parser 60) (stateAt toksLongPlusDouble)).state.unit =
      [.funcDef (.func .void 0 false [.void])
        (.compoundStmt [.compoundStmt [], .compoundStmt [],
          .expr (.binaryOp (.chr '+') (.identifier objLongA) (.identifier objDoubleB)
            tLong)])] :=
  ⟨rfl, rfl,
    (AdditiveOpTypeChecking_wider_wins (.chr '+') (.identifier objLongA)
      (.identifier objDoubleB) T_LONG T_DOUBLE none none (mkTok (.chr '+') "+" 13)
      (stateAt toksLongPlusDouble) rfl rfl).1,
    by decide!, by decide!, by decide!⟩

/-! ## Array lengths -/

/-- C24: `ParseArrayFuncDeclarator` at `[`, for a base type that is no
function, when `ParseArrayLength` returns the length `len` and `]` follows:
the only diagnostic it adds before it goes on with the following suffixes is
'can't declare an array of length 0', and it adds it exactly when `len` is
0; the array type has the length `len`.  So a negative length is accepted
without a diagnostic. -/
theorem ParseArrayFuncDeclarator_length_check (r : Rec) (base : CType) (s s2 : Parser)
    (len : Int) (hopen : (tokAt s.toks s.pos).tag = .chr '[')
    (hbase : base.isFunc = false) (hnull : base ≠ .null)
    (hlen : ParseArrayLength r { s with pos := s.pos + 1 } = .ok len s2)
    (hclose : (tokAt s2.toks s2.pos).tag = .chr ']') :
    ParseArrayFuncDeclarator r base s =
      (r.ParseArrayFuncDeclarator base
          { s2 with pos := s2.pos + 1,
                    errors := s2.errors ++
                      if (len == 0) = true then [lengthZero (tokAt s2.toks s2.pos).coord]
                      else [] }).andThen
        (fun b s4 => .ok (NewArrayType len b) s4) := by
  unfold ParseArrayFuncDeclarator
  simp only [run_bind, Try, hopen, beq_self_eq_true, if_true, andThen_ok, ToFuncType,
    derefType_ok hnull, run_pure, hbase, Peek, ErrorIf_run, Bool.false_eq_true, if_false,
    List.append_nil, hlen, Expect1, Expect, Next_run, hclose, bne_self_eq_false]
  rfl

/-- Witness of C24: the suffix `[ - 1 ]` of `int a [ - 1 ] ;`, whose length
is -1; and the diagnostics and declared types of `int a[0];`, `int a[-1];`,
`int a[];` and `int a[3];`: the length 0 is diagnosed, the length -1 is not,
and `[]` is diagnosed, since `ParseArrayLength` consumes the `]` that
`ParseArrayFuncDeclarator` then expects. -/
theorem ParseArrayFuncDeclarator_length_check_witness :
    (tokAt arrayStart.toks arrayStart.pos).tag = .chr '[' ∧
    ParseArrayLength (parser 40) { arrayStart with pos := arrayStart.pos + 1 }
      = .ok (-1) arrayAfterLength ∧
    (tokAt arrayAfterLength.toks arrayAfterLength.pos).tag = .chr ']' ∧
    ParseArrayFuncDeclarator (parser 40) tInt arrayStart =
      ((parser 40).ParseArrayFuncDeclarator tInt
          { arrayAfterLength with
              pos := arrayAfterLength.pos + 1,
              errors := arrayAfterLength.errors ++
                if ((-1 : Int) == 0) = true then
                  [lengthZero (tokAt arrayAfterLength.toks arrayAfterLength.pos).coord]
                else [] }).andThen
        (fun b s4 => .ok (NewArrayType (-1) b) s4) ∧
    (arrayDeclDiags [N "0"] = [lengthZero 4] ∧
      arrayDeclTypes [N "0"] = [[("a", .array 0 tInt)]]) ∧
    (arrayDeclDiags [P '-', N "1"] = [] ∧
      arrayDeclTypes [P '-', N "1"] = [[("a", .array (-1) tInt)]]) ∧
    (arrayDeclDiags [] =
        [{ coord := 4, fmt := "'%s' expected, but got '%s'", args := ["]", ";"] }] ∧
      arrayDeclTypes [] = [[("a", .array (-1) tInt)]]) ∧
    (arrayDeclDiags [N "3"] = [] ∧ arrayDeclTypes [N "3"] = [[("a", .array 3 tInt)]]) :=
  have h1 : (tokAt arrayStart.toks arrayStart.pos).tag = .chr '[' := by decide!
  have h2 : ParseArrayLength (parser 40) { arrayStart with pos := arrayStart.pos + 1 }
      = .ok (-1) arrayAfterLength := Res.eq_ok_of_value _ _ (by decide!)
  have h3 : (tokAt arrayAfterLength.toks arrayAfterLength.pos).tag = .chr ']' := by decide!
  ⟨h1, h2, h3,
    ParseArrayFuncDeclarator_length_check (parser 40) tInt arrayStart arrayAfterLength (-1) h1
      rfl (fun h => CType.noConfusion h) h2 h3,
    ⟨by decide!, by decide!⟩, ⟨by decide!, by decide!⟩, ⟨by decide!, by decide!⟩,
    ⟨by decide!, by decide!⟩⟩

/-! ## Void and incomplete types in `ProcessDeclarator` -/

instance errorsGrow_pure {α : Type} (a : α) : ErrorsGrow (pure a : PM α) :=
  ⟨fun s => List.prefix_refl _⟩

instance errorsGrow_pure2 {α : Type} (a : α) : ErrorsGrow (PM.pure a : PM α) :=
  ⟨fun s => List.prefix_refl _⟩

instance errorsGrow_fail {α : Type} (f : Fail) : ErrorsGrow (PM.fail f : PM α) :=
  ⟨fun s => List.prefix_refl _⟩

theorem errorsGrow_bind_of {α β : Type} {m : PM α} {f : α → PM β} (hm : ErrorsGrow m)
    (hf : ∀ a, ErrorsGrow (f a)) : ErrorsGrow (m >>= f) :=
  ⟨fun s => by
    have h1 := hm.grows s
    rw [run_bind]
    cases hms : m s with
    | ok a s1 =>
      rw [hms] at h1
      rw [andThen_ok]
      exact h1.trans ((hf a).grows s1)
    | fail e s1 =>
      rw [hms] at h1
      rw [andThen_fail]
      exact h1⟩

instance errorsGrow_bind {α β : Type} (m : PM α) (f : α → PM β) [hm : ErrorsGrow m]
    [hf : ∀ a, ErrorsGrow (f a)] : ErrorsGrow (m >>= f) :=
  errorsGrow_bind_of hm hf

theorem errorsGrow_ite_of {α : Type} {c : Prop} [Decidable c] {a b : PM α}
    (ha : ErrorsGrow a) (hb : ErrorsGrow b) : ErrorsGrow (if c then a else b) := by
  by_cases h : c
  · rw [if_pos h]; exact ha
  · rw [if_neg h]; exact hb

instance errorsGrow_ite {α : Type} (c : Prop) [Decidable c] (a b : PM α) [ha : ErrorsGrow a]
    [hb : ErrorsGrow b] : ErrorsGrow (if c then a else b) :=
  errorsGrow_ite_of ha hb

theorem errorsGrow_modifyP (f : Parser → Parser) (h : ∀ s : Parser, s.errors <+: (f s).errors) :
    ErrorsGrow (modifyP f) :=
  ⟨fun s => h s⟩

instance : ErrorsGrow getP := ⟨fun s => List.prefix_refl _⟩
instance : ErrorsGrow freshId := ⟨fun s => List.prefix_refl _⟩
instance (c : Nat) (f : String) (a : List String) : ErrorsGrow (Error c f a) :=
  errorsGrow_modifyP _ (fun s => List.prefix_append _ _)
instance (b : Bool) (c : Nat) (f : String) (a : List String) : ErrorsGrow (ErrorIf b c f a) := by
  unfold ErrorIf; infer_instance
instance (t : CType) : ErrorsGrow (derefType t) := by
  unfold derefType; split <;> infer_instance
instance : ErrorsGrow curScope :=
  ⟨fun s => by unfold curScope; split <;> exact List.prefix_refl _⟩
instance (name : String) : ErrorsGrow (Find name) :=
  ⟨fun s => by unfold Find; split <;> exact List.prefix_refl _⟩
instance (name : String) (i : Identifier) : ErrorsGrow (Insert name i) :=
  ⟨fun s => by unfold Insert; split <;> exact List.prefix_refl _⟩
instance (name : String) : ErrorsGrow (ExternalFind name) := ⟨fun s => List.prefix_refl _⟩
instance (name : String) (i : Identifier) : ErrorsGrow (ExternalInsert name i) :=
  errorsGrow_modifyP _ (fun s => List.prefix_refl _)

instance errorsGrow_ScopeKind : ErrorsGrow ScopeKind := by
  unfold ScopeKind; infer_instance

instance errorsGrow_FindInCurScope (name : String) : ErrorsGrow (FindInCurScope name) := by
  unfold FindInCurScope; infer_instance

instance errorsGrow_typeEq (a b : CType) : ErrorsGrow (typeEq a b) := by
  unfold typeEq; infer_instance

instance errorsGrow_NewIdentifier (type : CType) (scope : Nat) (linkage : Linkage) :
    ErrorsGrow (NewIdentifier type scope linkage) := by
  unfold NewIdentifier; infer_instance

instance errorsGrow_NewObject (type : CType) (scope : Nat) (storage : Nat) (linkage : Linkage)
    (offset : Int) : ErrorsGrow (NewObject type scope storage linkage offset) := by
  unfold NewObject; infer_instance

instance errorsGrow_redeclare (tok : Token) (type : CType) (linkage : Linkage)
    (ident : Identifier) : ErrorsGrow (redeclare tok type linkage ident) := by
  unfold redeclare
  try dsimp only []
  repeat' (first
    | infer_instance | apply errorsGrow_bind_of | apply errorsGrow_ite_of
    | intro _ | split)

instance errorsGrow_crossCheck (tok : Token) (type : CType) (linkage : Linkage) :
    ErrorsGrow (crossCheck tok type linkage) := by
  unfold crossCheck
  try dsimp only []
  repeat' (first
    | infer_instance | apply errorsGrow_bind_of | apply errorsGrow_ite_of
    | intro _ | split)

/-- The checks of `ProcessDeclarator` on a type that is void or incomplete:
such a type is no function type, so the scope is not looked at. -/
theorem declChecks_void_incomplete (tok : Token) (type : CType) (storageSpec : Nat)
    (s : Parser) (hty : type ≠ .null)
    (hbad : type.isVoid = true ∨ completeIn s.cells s.structs type = false) :
    declChecks tok type storageSpec s =
      .ok () { s with errors := s.errors ++
        ((if type.isVoid = true then [declaredVoid tok] else []) ++
         (if completeIn s.cells s.structs type = false then [sizeUnknown tok] else [])) } := by
  have hf : type.isFunc = false := by
    cases type <;> first | rfl | (rcases hbad with h | h <;> cases h)
  simp only [declChecks, ToVoidType, ToFuncType, Complete, run_bind, derefType_ok hty,
    andThen_ok, run_pure, ErrorIf_run, getP_run, hf, Bool.false_eq_true, if_false,
    List.append_assoc, declaredVoid, sizeUnknown, Bool.not_eq_true', Bool.not_eq_eq_eq_not,
    Bool.not_true]

/-- C22: `ProcessDeclarator`, for a declaration that is no typedef, of a type
that is void or incomplete in the state of the call, reports at least one
diagnostic: the list of diagnostics after the call, whether the call returns
or not, is the list before it followed by 'variable or field declared void'
or 'storage size isn't known' for the declared name and whatever the later
checks add. -/
theorem ProcessDeclarator_void_incomplete (s : Parser) (tok : Token) (type : CType)
    (storageSpec funcSpec : Nat) (htd : hasBit storageSpec S_TYPEDEF = false)
    (hty : type ≠ .null)
    (hbad : type.isVoid = true ∨ completeIn s.cells s.structs type = false) :
    ∃ d ds, (ProcessDeclarator (some tok) type storageSpec funcSpec s).state.errors
        = s.errors ++ d :: ds ∧
      (d = declaredVoid tok ∨ d = sizeUnknown tok) := by
  have hrest : ErrorsGrow (do
      let kind ← ScopeKind
      let linkage := declLinkage kind storageSpec type.isFunc
      let ident ← FindInCurScope tok.str
      match ident with
      | some ident => redeclare tok type linkage ident
      | none =>
        let (linkage, ident) ← crossCheck tok type linkage
        let sc ← curScope
        let ret ← (if type.isFunc then NewIdentifier type sc.id linkage
                   else NewObject type sc.id storageSpec linkage 0)
        Insert tok.str ret
        if linkage == .L_EXTERNAL && ident.isNone then
          ExternalInsert tok.str ret
        else pure ()
        pure ret : PM Identifier) := by
    try dsimp only []
    repeat' (first
      | infer_instance | apply errorsGrow_bind_of | apply errorsGrow_ite_of
      | intro _ | split)
  have hrun : ProcessDeclarator (some tok) type storageSpec funcSpec s =
      (declChecks tok type storageSpec s).andThen (fun _ s1 => (do
      let kind ← ScopeKind
      let linkage := declLinkage kind storageSpec type.isFunc
      let ident ← FindInCurScope tok.str
      match ident with
      | some ident => redeclare tok type linkage ident
      | none =>
        let (linkage, ident) ← crossCheck tok type linkage
        let sc ← curScope
        let ret ← (if type.isFunc then NewIdentifier type sc.id linkage
                   else NewObject type sc.id storageSpec linkage 0)
        Insert tok.str ret
        if linkage == .L_EXTERNAL && ident.isNone then
          ExternalInsert tok.str ret
        else pure ()
        pure ret : PM Identifier) s1) := by
    unfold ProcessDeclarator
    simp only [htd, Bool.false_eq_true, if_false]
    rfl
  rw [hrun, declChecks_void_incomplete tok type storageSpec s hty hbad, andThen_ok]
  obtain ⟨t, ht⟩ := hrest.grows { s with errors := s.errors ++
    ((if type.isVoid = true then [declaredVoid tok] else []) ++
     (if completeIn s.cells s.structs type = false then [sizeUnknown tok] else [])) }
  rw [← ht]
  rcases hbad with h | h
  · refine ⟨declaredVoid tok,
      (if completeIn s.cells s.structs type = false then [sizeUnknown tok] else []) ++ t,
      ?_, Or.inl rfl⟩
    show (s.errors ++ (_ ++ _)) ++ t = _
    simp only [h, if_true, List.append_assoc, List.singleton_append, List.cons_append,
      List.nil_append]
  · by_cases hv : type.isVoid = true
    · refine ⟨declaredVoid tok,
        (if completeIn s.cells s.structs type = false then [sizeUnknown tok] else []) ++ t,
        ?_, Or.inl rfl⟩
      show (s.errors ++ (_ ++ _)) ++ t = _
      simp only [hv, if_true, List.append_assoc, List.singleton_append, List.cons_append,
        List.nil_append]
    · refine ⟨sizeUnknown tok, t, ?_, Or.inr rfl⟩
      show (s.errors ++ (_ ++ _)) ++ t = _
      simp only [hv, h, if_true, if_false, Bool.false_eq_true, List.append_assoc,
        List.nil_append, List.singleton_append, List.cons_append]

/-- Witness of C22: `void v;` at file scope, directly and through
`ParseDecl`; and `struct S v;` with no definition of `struct S`. -/
theorem ProcessDeclarator_void_incomplete_witness :
    (∃ d ds, (ProcessDeclarator (some tokV) .void 0 0 (stateAt toksVoidV)).state.errors
        = (stateAt toksVoidV).errors ++ d :: ds ∧
      (d = declaredVoid tokV ∨ d = sizeUnknown tokV)) ∧
    (ProcessDeclarator (some tokV) .void 0 0 (stateAt toksVoidV)).state.errors
      = [declaredVoid tokV, sizeUnknown tokV] ∧
    (ParseDecl (parser 40) (stateAt toksVoidV)).state.errors
      = [declaredVoid tokV, sizeUnknown tokV] ∧
    (ParseDecl (parser 40) (stateAt toksStructV)).state.errors
      = [sizeUnknown (mkTok (.kw .IDENTIFIER) "v" 2)] :=
  ⟨ProcessDeclarator_void_incomplete (stateAt toksVoidV) tokV .void 0 0 (by decide)
      (fun h => CType.noConfusion h) (Or.inl rfl),
    by decide!, by decide!, by decide!⟩

/-! ## Typedef names -/

/-- The typedef branch of `ProcessDeclarator` for a name with no declaration
in the current scope. -/
theorem ProcessDeclarator_typedef_new (s : Parser) (sc : Scope) (rest : List Scope)
    (tok : Token) (type : CType) (storageSpec funcSpec : Nat)
    (hsc : s.curScope = sc :: rest) (htd : hasBit storageSpec S_TYPEDEF = true)
    (hnew : sc.FindInCurScope tok.str = none) :
    ProcessDeclarator (some tok) type storageSpec funcSpec s =
      .ok { id := s.nextId, ty := type, scope := sc.id, linkage := .L_NONE, isObject := false,
            storage := 0, offset := 0 }
        { s with nextId := s.nextId + 1,
                 curScope := sc.Insert tok.str
                   { id := s.nextId, ty := type, scope := sc.id, linkage := .L_NONE,
                     isObject := false, storage := 0, offset := 0 } :: rest } := by
  simp only [ProcessDeclarator, htd, if_true, declareTypedef, run_bind,
    FindInCurScope_run _ _ _ _ hsc, hnew, andThen_ok, run_pure, curScope_cons hsc, NewIdentifier,
    freshId, Insert, hsc]

/-- The lookup from nested scopes that do not declare the name finds the
entry of the enclosing scope. -/
theorem findChain_inner (inner : List Scope) (sc : Scope) (rest : List Scope) (name : String)
    (i : Identifier) (hinner : ∀ sc2 ∈ inner, sc2.FindInCurScope name = none)
    (hsc : sc.FindInCurScope name = some i) :
    findChain (inner ++ sc :: rest) name = some i := by
  induction inner with
  | nil => simp only [List.nil_append, findChain, hsc]
  | cons a l ih =>
    have ha := hinner a (List.mem_cons_self _ _)
    simp only [List.cons_append, findChain, ha]
    exact ih (fun sc2 h => hinner sc2 (List.mem_cons_of_mem _ h))

/-- The iteration of the loop of `ParseDeclSpec` at an identifier, when a
type specifier came before it, ends the loop. -/
theorem ParseDeclSpec.loop_identifier_end (r : Rec) (outNull : Bool) (v : DeclSpecVars)
    (s : Parser) (htag : (tokAt s.toks s.pos).tag = .kw .IDENTIFIER) (h0 : v.typeSpec ≠ 0) :
    ParseDeclSpec.loop r outNull v s =
      ParseDeclSpec.endOfLoop outNull (tokAt s.toks s.pos) v { s with pos := s.pos + 1 } := by
  have hb : (v.typeSpec == 0) = false := beq_false_of_ne h0
  unfold ParseDeclSpec.loop
  simp only [run_bind, Next_run, andThen_ok, htag, beq_iff_eq, reduceCtorEq, Tag.kw.injEq,
    if_false, if_true, Bool.or_self, Bool.false_eq_true, hb]
  rw [if_neg (by decide)]
  rfl

/-- C21: after `ProcessDeclarator` has recorded a typedef of the name `x` for
the type `T` in a scope that had no declaration of `x` (`ProcessDeclarator`
returns a new identifier of type `T` bound to `x` in that scope), in every
state whose scope chain is that scope, or scopes nested in it that do not
declare `x`, `ParseDeclSpec` on the token `x` followed by an identifier
returns exactly the type `T`, with no storage class or function specifier
and no diagnostic, and leaves the cursor at the following identifier. -/
theorem ParseDeclSpec_typedef_name (fuel : Nat) (outNull : Bool) (s : Parser) (sc : Scope)
    (rest : List Scope) (tok : Token) (T : CType) (storageSpec funcSpec : Nat)
    (inner : List Scope) (s2 : Parser)
    (hsc : s.curScope = sc :: rest) (htd : hasBit storageSpec S_TYPEDEF = true)
    (hnew : sc.FindInCurScope tok.str = none)
    (hs2 : s2.curScope = inner ++
      (ProcessDeclarator (some tok) T storageSpec funcSpec s).state.curScope)
    (hinner : ∀ sc2 ∈ inner, sc2.FindInCurScope tok.str = none)
    (htag : (tokAt s2.toks s2.pos).tag = .kw .IDENTIFIER)
    (hstr : (tokAt s2.toks s2.pos).str = tok.str)
    (hnext : (tokAt s2.toks (s2.pos + 1)).tag = .kw .IDENTIFIER) :
    (ProcessDeclarator (some tok) T storageSpec funcSpec s).value?.map (·.ty) = some T ∧
    ParseDeclSpec (parser (fuel + 1)) outNull s2 =
      .ok { type := T, storageSpec := 0, funcSpec := 0 } { s2 with pos := s2.pos + 1 } := by
  rw [ProcessDeclarator_typedef_new s sc rest tok T storageSpec funcSpec hsc htd hnew] at hs2 ⊢
  refine ⟨rfl, ?_⟩
  have hfind : findChain s2.curScope tok.str =
      some { id := s.nextId, ty := T, scope := sc.id, linkage := .L_NONE, isObject := false,
             storage := 0, offset := 0 } := by
    rw [hs2]
    exact findChain_inner inner _ rest tok.str _ hinner
      (by simp only [Scope.FindInCurScope, Scope.Insert, List.lookup_cons, beq_self_eq_true])
  obtain ⟨sc2, rest2, hsc2⟩ : ∃ sc2 rest2, s2.curScope = sc2 :: rest2 := by
    cases hc : s2.curScope with
    | nil => rw [hc] at hfind; cases hfind
    | cons a l => exact ⟨a, l, rfl⟩
  have hident : (tokAt s2.toks s2.pos).IsIdentifier = true := by
    simp only [Token.IsIdentifier, htag, beq_self_eq_true]
  have hspec : (tokAt s2.toks s2.pos).IsTypeSpecQual = false := by
    simp only [Token.IsTypeSpecQual, htag]
  have hist : IsTypeName (tokAt s2.toks s2.pos) { s2 with pos := s2.pos + 1 }
      = .ok true { s2 with pos := s2.pos + 1 } := by
    simp only [IsTypeName, hspec, Bool.false_eq_true, if_false, isTypedefName, hident, if_true,
      hstr, hfind]
    rfl
  have hfindrun : Find (tokAt s2.toks s2.pos).str { s2 with pos := s2.pos + 1 } =
      .ok (findChain s2.curScope tok.str) { s2 with pos := s2.pos + 1 } := by
    rw [hstr, Find_run tok.str { s2 with pos := s2.pos + 1 } sc2 rest2 hsc2, hsc2]
  rw [ParseDeclSpec_eq_loop, ParseDeclSpec.loop_identifier _ _ _ _ htag rfl, hist, andThen_ok,
    if_pos rfl, hfindrun, andThen_ok, hfind]
  have hstep : (parser (fuel + 1)).loopDeclSpec = ParseDeclSpec.loop (parser fuel) := rfl
  rw [hstep]
  have hne : (0 ||| T_TYPEDEF_NAME : Nat) ≠ 0 := by decide
  rw [ParseDeclSpec.loop_identifier_end _ _ _ _ hnext hne, ParseDeclSpec.endOfLoop_run]
  have hd : ∀ b tk ty, declSpecEndDiags b tk
      { type := ty, align := declSpecInit.align, storageSpec := declSpecInit.storageSpec,
        funcSpec := declSpecInit.funcSpec, qualSpec := declSpecInit.qualSpec,
        typeSpec := declSpecInit.typeSpec ||| T_TYPEDEF_NAME } = [] := by
    intro b tk ty
    cases b <;> rfl
  have ht : ∀ ty, declSpecEndType
      { type := ty, align := declSpecInit.align, storageSpec := declSpecInit.storageSpec,
        funcSpec := declSpecInit.funcSpec, qualSpec := declSpecInit.qualSpec,
        typeSpec := declSpecInit.typeSpec ||| T_TYPEDEF_NAME } = ty := by
    intro ty
    unfold declSpecEndType
    dsimp only []
    rw [if_neg (by decide), if_neg (by decide), if_pos (by decide)]
  simp only [hd, ht, List.append_nil, Nat.add_sub_cancel]
  cases outNull <;> rfl

/-- Witness of C21: `typedef int *x; x y;`.  After the typedef, `x` is bound
to pointer to `int`; `ParseDeclSpec` on `x y` returns pointer to `int`; and
in the parse of the program the object `y` has the type pointer to `int`. -/
theorem ParseDeclSpec_typedef_name_witness :
    (ProcessDeclarator (some tokTypedefX) (.pointer tInt 0) S_TYPEDEF 0
      (stateAt toksTypedef)).value?.map (·.ty) = some (.pointer tInt 0) ∧
    ParseDeclSpec (parser 1) false stateTypedefX =
      .ok { type := .pointer tInt 0, storageSpec := 0, funcSpec := 0 }
        { stateTypedefX with pos := stateTypedefX.pos + 1 } ∧
    (ParseTranslationUnit (parser 60) (stateAt toksTypedef)).failure? = none ∧
    (ParseTranslationUnit (parser 60) (stateAt toksTypedef)).state.errors = [] ∧
    scopeEntries (ParseTranslationUnit (parser 60) (stateAt toksTypedef)).state
      = [[("y", .pointer tInt 0, true), ("x", .pointer tInt 0, false)]] :=
  have h := ParseDeclSpec_typedef_name 0 false (stateAt toksTypedef)
    { id := 0, kind := .S_FILE, ordinary := [], tags := [] } [] tokTypedefX (.pointer tInt 0)
    S_TYPEDEF 0 [] stateTypedefX rfl (by decide) rfl rfl (fun _ h => nomatch h) (by decide!)
    (by decide!) (by decide!)
  ⟨h.1, h.2, by decide!, by decide!, by decide!⟩

/-! ## The nodes of the binary operators -/

theorem keepsOperands_pure (b : BinaryOp) (ty : CType) :
    KeepsOperands b (pure { b with ty := ty }) :=
  fun s ret s' h => by cases h; exact ⟨rfl, rfl, rfl⟩

theorem keepsOperands_fail (b : BinaryOp) (f : Fail) : KeepsOperands b (PM.fail f) :=
  fun s ret s' h => by cases h

theorem keepsOperands_bind {α : Type} (b : BinaryOp) (m : PM α) (f : α → PM BinaryOp)
    (hf : ∀ a, KeepsOperands b (f a)) : KeepsOperands b (m >>= f) :=
  fun s ret s' h => by
    rw [run_bind] at h
    cases hm : m s with
    | ok a s1 => rw [hm, andThen_ok] at h; exact hf a s1 ret s' h
    | fail e s1 => rw [hm, andThen_fail] at h; cases h

theorem keepsOperands_ite (b : BinaryOp) {c : Prop} [Decidable c] {x y : PM BinaryOp}
    (hx : KeepsOperands b x) (hy : KeepsOperands b y) : KeepsOperands b (if c then x else y) := by
  by_cases h : c
  · rw [if_pos h]; exact hx
  · rw [if_neg h]; exact hy

/-- `TypeChecking(BinaryOp*)` leaves the operator and the operands of the
node as they are. -/
theorem TypeCheckingBinaryOp_keeps (b : BinaryOp) (tok : Token) :
    KeepsOperands b (TypeCheckingBinaryOp b tok) := by
  unfold TypeCheckingBinaryOp SubScriptingOpTypeChecking MultiOpTypeChecking
    AdditiveOpTypeChecking ShiftOpTypeChecking RelationalOpTypeChecking EqualityOpTypeChecking
    BitwiseOpTypeChecking LogicalOpTypeChecking AssignOpTypeChecking
  try dsimp only []
  repeat' (first
    | exact keepsOperands_pure _ _
    | exact keepsOperands_fail _ _
    | apply keepsOperands_ite
    | (apply keepsOperands_bind; intro _)
    | split)

/-- A node that `NewBinaryOp` returns is the binary node of the operator and
the operands it was given. -/
theorem NewBinaryOp_shape {tok : Token} {op : Tag} {lhs rhs n : Expr} {s s' : Parser}
    (h : NewBinaryOp tok op lhs rhs s = .ok n s') : ∃ ty, n = .binaryOp op lhs rhs ty := by
  unfold NewBinaryOp at h
  rw [run_bind] at h
  cases ha : assert (op == .chr '=' || op == .chr '[' || op == .chr '*' || op == .chr '/'
    || op == .chr '%' || op == .chr '+' || op == .chr '-' || op == .chr '&'
    || op == .chr '^' || op == .chr '|' || op == .chr '<' || op == .chr '>'
    || op == .kw .LEFT_OP || op == .kw .RIGHT_OP || op == .kw .LE_OP || op == .kw .GE_OP
    || op == .kw .EQ_OP || op == .kw .NE_OP || op == .kw .AND_OP || op == .kw .OR_OP) s with
  | fail e s1 => rw [ha, andThen_fail] at h; cases h
  | ok u s1 =>
    rw [ha, andThen_ok, run_bind] at h
    cases ht : TypeCheckingBinaryOp { op := op, lhs := lhs, rhs := rhs, ty := .null } tok s1 with
    | fail e s2 => rw [ht, andThen_fail] at h; cases h
    | ok ret s2 =>
      rw [ht, andThen_ok] at h
      obtain ⟨h1, h2, h3⟩ := TypeCheckingBinaryOp_keeps _ tok s1 ret s2 ht
      cases h
      exact ⟨ret.ty, by simp only [BinaryOp.toExpr, h1, h2, h3]⟩

/-! ## C26: compound assignments -/

/-- Only the ten compound assignment tokens have an operator in
`compoundAssignOp`. -/
theorem compoundAssignOp_tokens (tag op : Tag) (h : compoundAssignOp tag = some op) :
    tag ∈ [Kw.MUL_ASSIGN, .DIV_ASSIGN, .MOD_ASSIGN, .ADD_ASSIGN, .SUB_ASSIGN,
            .LEFT_ASSIGN, .RIGHT_ASSIGN, .AND_ASSIGN, .XOR_ASSIGN, .OR_ASSIGN].map Tag.kw := by
  cases tag with
  | chr c => exact absurd h (by simp [compoundAssignOp])
  | kw k =>
    have hsome : (compoundAssignOp (.kw k)).isSome = true := by rw [h]; rfl
    clear h
    revert hsome
    cases k <;> decide

/-- C26: for each of the ten compound assignment tokens, whose operators
are the table of the first conjunct, `ParseAssignExpr` on `lhs OP= rhs`,
where `lhs` is the conditional expression parsed first and `rhs` the
assignment expression parsed after the token, returns the node of `=` whose
left operand is `lhs` and whose right operand is the node of `OP` over the
same `lhs` and `rhs`, provided both nodes pass their type checks. -/
theorem ParseAssignExpr_compound (r : Rec) (s s1 s2 s3 s4 : Parser) (lhs rhs n a : Expr)
    (op : Tag)
    (hl : ParseConditionalExpr r s = .ok lhs s1)
    (hop : compoundAssignOp (tokAt s1.toks s1.pos).tag = some op)
    (hr : r.ParseAssignExpr { s1 with pos := s1.pos + 1 } = .ok rhs s2)
    (hn : NewBinaryOp (tokAt s1.toks s1.pos) op lhs rhs s2 = .ok n s3)
    (ha : NewBinaryOp (tokAt s1.toks s1.pos) (.chr '=') lhs n s3 = .ok a s4) :
    ([Kw.MUL_ASSIGN, .DIV_ASSIGN, .MOD_ASSIGN, .ADD_ASSIGN, .SUB_ASSIGN, .LEFT_ASSIGN,
        .RIGHT_ASSIGN, .AND_ASSIGN, .XOR_ASSIGN, .OR_ASSIGN].map
          (fun k => compoundAssignOp (.kw k))
        = [some (.chr '*'), some (.chr '/'), some (.chr '%'), some (.chr '+'),
            some (.chr '-'), some (.kw .LEFT_OP), some (.kw .RIGHT_OP), some (.chr '&'),
            some (.chr '^'), some (.chr '|')])
      ∧ (tokAt s1.toks s1.pos).tag ∈
          [Kw.MUL_ASSIGN, .DIV_ASSIGN, .MOD_ASSIGN, .ADD_ASSIGN, .SUB_ASSIGN,
            .LEFT_ASSIGN, .RIGHT_ASSIGN, .AND_ASSIGN, .XOR_ASSIGN, .OR_ASSIGN].map Tag.kw
      ∧ ParseAssignExpr r s = .ok a s4
      ∧ ∃ t1 t2, a = .binaryOp (.chr '=') lhs (.binaryOp op lhs rhs t1) t2 := by
  refine ⟨by decide, compoundAssignOp_tokens _ _ hop, ?_, ?_⟩
  · unfold ParseAssignExpr
    simp only [run_bind, hl, andThen_ok, Next_run, hop, hr, hn, ha]
  · obtain ⟨t1, h1⟩ := NewBinaryOp_shape hn
    obtain ⟨t2, h2⟩ := NewBinaryOp_shape ha
    exact ⟨t1, t2, by rw [h2, h1]⟩

/-- The statement `x *= 2` after `int x;` meets the premises and is the node
`x = x * 2`; so are the other nine compound assignments of `x` and `2`. -/
theorem ParseAssignExpr_compound_witness :
    ParseConditionalExpr (parser 40) (stateCompound tokMulAssign)
        = .ok (.identifier objFileX) compoundAfterLhs
      ∧ compoundAssignOp (tokAt compoundAfterLhs.toks compoundAfterLhs.pos).tag
        = some (.chr '*')
      ∧ (parser 40).ParseAssignExpr { compoundAfterLhs with pos := compoundAfterLhs.pos + 1 }
        = .ok constTwo compoundAfterRhs
      ∧ (∃ s4, ParseAssignExpr (parser 40) (stateCompound tokMulAssign)
          = .ok (compoundNode (.chr '*') tInt tInt) s4)
      ∧ compoundTokens.map compoundResult
        = [Tag.chr '*', .chr '/', .chr '%', .chr '+', .chr '-', .kw .LEFT_OP, .kw .RIGHT_OP,
            .chr '&', .chr '^', .chr '|'].map (fun op => some (compoundNode op tInt tInt)) :=
  have hl : ParseConditionalExpr (parser 40) (stateCompound tokMulAssign)
      = .ok (.identifier objFileX) compoundAfterLhs := Res.eq_ok_of_value _ _ (by decide!)
  have hop : compoundAssignOp (tokAt compoundAfterLhs.toks compoundAfterLhs.pos).tag
      = some (.chr '*') := by decide!
  have hr : (parser 40).ParseAssignExpr
      { compoundAfterLhs with pos := compoundAfterLhs.pos + 1 }
      = .ok constTwo compoundAfterRhs := Res.eq_ok_of_value _ _ (by decide!)
  have hn := Res.eq_ok_of_value
    (NewBinaryOp (tokAt compoundAfterLhs.toks compoundAfterLhs.pos) (.chr '*')
      (.identifier objFileX) constTwo compoundAfterRhs)
    (.binaryOp (.chr '*') (.identifier objFileX) constTwo tInt) (by decide!)
  have ha := Res.eq_ok_of_value
    (NewBinaryOp (tokAt compoundAfterLhs.toks compoundAfterLhs.pos) (.chr '=')
      (.identifier objFileX) (.binaryOp (.chr '*') (.identifier objFileX) constTwo tInt)
      (NewBinaryOp (tokAt compoundAfterLhs.toks compoundAfterLhs.pos) (.chr '*')
        (.identifier objFileX) constTwo compoundAfterRhs).state)
    (compoundNode (.chr '*') tInt tInt) (by decide!)
  ⟨hl, hop, hr,
    ⟨_, (ParseAssignExpr_compound (parser 40) _ _ _ _ _ _ _ _ _ _ hl hop hr hn ha).2.2.1⟩,
    by decide!⟩

/-! ## The levels of the expression cascade -/

theorem BinLevel.parse_eq (L : BinLevel) (r : Rec) (s : Parser) :
    L.parse r s = (L.operand r s).andThen (fun e s1 => L.rest r e s1) := by
  cases L <;> rfl

theorem BinLevel.again_parser (L : BinLevel) (fuel : Nat) :
    L.again (parser (fuel + 1)) = L.rest (parser fuel) := by
  cases L <;> rfl

theorem BinLevel.test_iff (L : BinLevel) (tag : Tag) :
    L.test tag = true ↔ tag ∈ L.operators := by
  cases L <;>
    (simp only [BinLevel.test, BinLevel.operators, Bool.or_eq_true, beq_iff_eq, List.mem_cons,
      List.mem_singleton, List.not_mem_nil, or_false, or_assoc]; try tauto)

/-- One iteration of the loop of a level. -/
theorem BinLevel.rest_step (L : BinLevel) (r : Rec) (lhs e2 n : Expr) (s s2 s3 : Parser)
    (hop : L.test (tokAt s.toks s.pos).tag = true)
    (h2 : L.operand r { s with pos := s.pos + 1 } = .ok e2 s2)
    (hn : NewBinaryOpTok (tokAt s.toks s.pos) lhs e2 s2 = .ok n s3) :
    L.rest r lhs s = L.again r n s3 := by
  cases L <;> simp only [BinLevel.test, BinLevel.operand] at hop h2
  case multiplicative =>
    simp only [BinLevel.rest, BinLevel.again, ParseMultiplicativeExpr.loop, run_bind, Next_run,
      andThen_ok, hop, if_true, h2, hn]
  case additive =>
    simp only [BinLevel.rest, BinLevel.again, ParseAdditiveExpr.loop, run_bind, Next_run,
      andThen_ok, hop, if_true, h2, hn]
  case shift =>
    simp only [BinLevel.rest, BinLevel.again, ParseShiftExpr.loop, run_bind, Next_run,
      andThen_ok, hop, if_true, h2, hn]
  case relational =>
    simp only [BinLevel.rest, BinLevel.again, ParseRelationalExpr.loop, run_bind, Next_run,
      andThen_ok, hop, if_true, h2, hn]
  case equality =>
    simp only [BinLevel.rest, BinLevel.again, ParseEqualityExpr.loop, run_bind, Next_run,
      andThen_ok, hop, if_true, h2, hn]
  case bitwiseAnd =>
    simp only [BinLevel.rest, BinLevel.again, ParseBitiwiseAndExpr.loop, run_bind, Peek, Try,
      andThen_ok, hop, if_true, h2, hn]
  case bitwiseXor =>
    simp only [BinLevel.rest, BinLevel.again, ParseBitwiseXorExpr.loop, run_bind, Peek, Try,
      andThen_ok, hop, if_true, h2, hn]
  case bitwiseOr =>
    simp only [BinLevel.rest, BinLevel.again, ParseBitwiseOrExpr.loop, run_bind, Peek, Try,
      andThen_ok, hop, if_true, h2, hn]
  case logicalAnd =>
    simp only [BinLevel.rest, BinLevel.again, ParseLogicalAndExpr.loop, run_bind, Peek, Try,
      andThen_ok, hop, if_true, h2, hn]
  case logicalOr =>
    simp only [BinLevel.rest, BinLevel.again, ParseLogicalOrExpr.loop, run_bind, Peek, Try,
      andThen_ok, hop, if_true, h2, hn]

/-- The loop of a level ends at a token that is not one of its operators. -/
theorem BinLevel.rest_end (L : BinLevel) (r : Rec) (lhs : Expr) (s : Parser)
    (hend : L.test (tokAt s.toks s.pos).tag = false) :
    L.rest r lhs s = .ok lhs s := by
  cases L <;> simp only [BinLevel.test] at hend
  case multiplicative =>
    simp only [BinLevel.rest, ParseMultiplicativeExpr.loop, run_bind, Next_run,
      andThen_ok, hend, PutBack, modifyP, run_pure, Bool.false_eq_true, if_false]
    rfl
  case additive =>
    simp only [BinLevel.rest, ParseAdditiveExpr.loop, run_bind, Next_run,
      andThen_ok, hend, PutBack, modifyP, run_pure, Bool.false_eq_true, if_false]
    rfl
  case shift =>
    simp only [BinLevel.rest, ParseShiftExpr.loop, run_bind, Next_run,
      andThen_ok, hend, PutBack, modifyP, run_pure, Bool.false_eq_true, if_false]
    rfl
  case relational =>
    simp only [BinLevel.rest, ParseRelationalExpr.loop, run_bind, Next_run,
      andThen_ok, hend, PutBack, modifyP, run_pure, Bool.false_eq_true, if_false]
    rfl
  case equality =>
    simp only [BinLevel.rest, ParseEqualityExpr.loop, run_bind, Next_run,
      andThen_ok, hend, PutBack, modifyP, run_pure, Bool.false_eq_true, if_false]
    rfl
  case bitwiseAnd =>
    simp only [BinLevel.rest, ParseBitiwiseAndExpr.loop, run_bind, Peek, Try,
      andThen_ok, hend, run_pure, Bool.false_eq_true, if_false]
  case bitwiseXor =>
    simp only [BinLevel.rest, ParseBitwiseXorExpr.loop, run_bind, Peek, Try,
      andThen_ok, hend, run_pure, Bool.false_eq_true, if_false]
  case bitwiseOr =>
    simp only [BinLevel.rest, ParseBitwiseOrExpr.loop, run_bind, Peek, Try,
      andThen_ok, hend, run_pure, Bool.false_eq_true, if_false]
  case logicalAnd =>
    simp only [BinLevel.rest, ParseLogicalAndExpr.loop, run_bind, Peek, Try,
      andThen_ok, hend, run_pure, Bool.false_eq_true, if_false]
  case logicalOr =>
    simp only [BinLevel.rest, ParseLogicalOrExpr.loop, run_bind, Peek, Try,
      andThen_ok, hend, run_pure, Bool.false_eq_true, if_false]

theorem BinLevel.test_false (L : BinLevel) (tag : Tag) (h : tag ∉ L.operators) :
    L.test tag = false :=
  Bool.eq_false_iff.mpr (fun ht => h ((BinLevel.test_iff L tag).mp ht))

/-- A plain assignment: the right operand is parsed by the recursive call. -/
theorem ParseAssignExpr_assign (r : Rec) (s s1 s2 s3 : Parser) (lhs rhs n : Expr)
    (hl : ParseConditionalExpr r s = .ok lhs s1)
    (htag : (tokAt s1.toks s1.pos).tag = .chr '=')
    (hr : r.ParseAssignExpr { s1 with pos := s1.pos + 1 } = .ok rhs s2)
    (hn : NewBinaryOp (tokAt s1.toks s1.pos) (.chr '=') lhs rhs s2 = .ok n s3) :
    ParseAssignExpr r s = .ok n s3 := by
  have hc : compoundAssignOp (tokAt s1.toks s1.pos).tag = none := by rw [htag]; rfl
  have hb : ((tokAt s1.toks s1.pos).tag == Tag.chr '=') = true := by rw [htag]; rfl
  unfold ParseAssignExpr
  simp only [run_bind, hl, andThen_ok, Next_run, hc, hb, if_true, hr, hn]

theorem Expect1_match (tag : Tag) (s : Parser) (h : (tokAt s.toks s.pos).tag = tag) :
    Expect1 tag s = .ok () { s with pos := s.pos + 1 } := by
  have hb : ((tokAt s.toks s.pos).tag != tag) = false := by rw [h]; simp
  simp only [Expect1, Expect, run_bind, Next_run, andThen_ok, hb, Bool.false_eq_true, if_false,
    run_pure]

/-- A conditional expression: the third operand is parsed by the recursive
call. -/
theorem ParseConditionalExpr_cond (r : Rec) (s s1 s2 s3 s4 : Parser)
    (cond exprTrue exprFalse n : Expr)
    (hc : ParseLogicalOrExpr r s = .ok cond s1)
    (hq : (tokAt s1.toks s1.pos).tag = .chr '?')
    (ht : r.ParseExpr { s1 with pos := s1.pos + 1 } = .ok exprTrue s2)
    (hcolon : (tokAt s2.toks s2.pos).tag = .chr ':')
    (hf : r.ParseConditionalExpr { s2 with pos := s2.pos + 1 } = .ok exprFalse s3)
    (hn : NewConditionalOp (tokAt s1.toks s1.pos) cond exprTrue exprFalse s3 = .ok n s4) :
    ParseConditionalExpr r s = .ok n s4 := by
  have hb : ((tokAt s1.toks s1.pos).tag == Tag.chr '?') = true := by rw [hq]; rfl
  unfold ParseConditionalExpr
  simp only [run_bind, hc, andThen_ok, Peek, Try, hb, if_true, ht, Expect1_match _ _ hcolon,
    hf, hn]

theorem returns_pure {α : Type} (P : α → Prop) (a : α) (h : P a) :
    ∀ s b s', (pure a : PM α) s = .ok b s' → P b := by
  intro s b s' h'
  cases h'
  exact h

theorem returns_bind {α β : Type} (P : β → Prop) (m : PM α) (f : α → PM β)
    (hf : ∀ a, ∀ s b s', f a s = .ok b s' → P b) :
    ∀ s b s', (m >>= f) s = .ok b s' → P b := by
  intro s b s' h
  rw [run_bind] at h
  cases hm : m s with
  | ok a s1 => rw [hm, andThen_ok] at h; exact hf a s1 b s' h
  | fail e s1 => rw [hm, andThen_fail] at h; cases h

/-- `TypeChecking(ConditionalOp*)` returns the node it was given. -/
theorem TypeCheckingConditionalOp_value (c : ConditionalOp) (errTok : Option Token) :
    ∀ s ret s', TypeCheckingConditionalOp c errTok s = .ok ret s' → ret = c := by
  unfold TypeCheckingConditionalOp
  apply returns_bind; intro ty
  apply returns_bind; intro scalar
  split
  · apply returns_bind; intro tok
    apply returns_bind; intro _
    exact returns_pure _ _ rfl
  · apply returns_bind; intro _
    exact returns_pure _ _ rfl

theorem NewConditionalOp_shape {tok : Token} {cond exprTrue exprFalse n : Expr}
    {s s' : Parser} (h : NewConditionalOp tok cond exprTrue exprFalse s = .ok n s') :
    ∃ ty, n = .conditionalOp cond exprTrue exprFalse ty := by
  unfold NewConditionalOp at h
  simp only [run_bind, getP, andThen_ok] at h
  cases ht : TypeCheckingConditionalOp
      { cond := cond, exprTrue := exprTrue, exprFalse := exprFalse, ty := .null } s.errTok s with
  | fail e s2 => rw [ht, andThen_fail] at h; cases h
  | ok ret s2 =>
    rw [ht, andThen_ok] at h
    have hv := TypeCheckingConditionalOp_value _ _ s ret s2 ht
    cases h
    exact ⟨.null, by rw [hv]; rfl⟩


/-! ## C25: the grouping of the expression cascade -/

/-- C25: the expression cascade groups as the reference grammar does.  The
condition of the loop of each binary level holds exactly at the operators
of that level, and the operands of a level are parsed by the function of the
next tighter level.  At every binary level a chain `e1 op e2 op' e3` of
operators of the level, followed by a token that is no operator of the
level, is returned as the node of `op'` over the node of `op` over `e1` and
`e2`, and `e3`.  In `a op b op' c` with `op'` of the next tighter level the
node of `op'` over `b` and `c` is the right operand of `op`.  The right
operand of an assignment is the assignment to its right, and the third
operand of a conditional expression is the conditional expression to its
right. -/
theorem cascade_grouping :
    (∀ (L : BinLevel) (tag : Tag), L.test tag = true ↔ tag ∈ L.operators)
    ∧ (∀ (L T : BinLevel), L.tighter = some T → L.operand = T.parse)
    ∧ (∀ (L : BinLevel) (fuel : Nat) (s s1 s2 s3 s4 s5 : Parser) (e1 e2 e3 n1 n2 : Expr),
        L.operand (parser (fuel + 2)) s = .ok e1 s1 →
        (tokAt s1.toks s1.pos).tag ∈ L.operators →
        L.operand (parser (fuel + 2)) { s1 with pos := s1.pos + 1 } = .ok e2 s2 →
        NewBinaryOpTok (tokAt s1.toks s1.pos) e1 e2 s2 = .ok n1 s3 →
        (tokAt s3.toks s3.pos).tag ∈ L.operators →
        L.operand (parser (fuel + 1)) { s3 with pos := s3.pos + 1 } = .ok e3 s4 →
        NewBinaryOpTok (tokAt s3.toks s3.pos) n1 e3 s4 = .ok n2 s5 →
        (tokAt s5.toks s5.pos).tag ∉ L.operators →
        L.parse (parser (fuel + 2)) s = .ok n2 s5 ∧
        ∃ t1 t2, n2 = .binaryOp (tokAt s3.toks s3.pos).tag
          (.binaryOp (tokAt s1.toks s1.pos).tag e1 e2 t1) e3 t2)
    ∧ (∀ (L T : BinLevel) (fuel : Nat) (s s1 s2 s3 s4 s5 : Parser) (a b c n1 n2 : Expr),
        L.tighter = some T →
        L.operand (parser (fuel + 1)) s = .ok a s1 →
        (tokAt s1.toks s1.pos).tag ∈ L.operators →
        T.operand (parser (fuel + 1)) { s1 with pos := s1.pos + 1 } = .ok b s2 →
        (tokAt s2.toks s2.pos).tag ∈ T.operators →
        T.operand (parser (fuel + 1)) { s2 with pos := s2.pos + 1 } = .ok c s3 →
        NewBinaryOpTok (tokAt s2.toks s2.pos) b c s3 = .ok n1 s4 →
        (tokAt s4.toks s4.pos).tag ∉ T.operators →
        NewBinaryOpTok (tokAt s1.toks s1.pos) a n1 s4 = .ok n2 s5 →
        (tokAt s5.toks s5.pos).tag ∉ L.operators →
        L.parse (parser (fuel + 1)) s = .ok n2 s5 ∧
        ∃ t1 t2, n2 = .binaryOp (tokAt s1.toks s1.pos).tag a
          (.binaryOp (tokAt s2.toks s2.pos).tag b c t1) t2)
    ∧ (∀ (fuel : Nat) (s s1 s2 s3 s4 s5 : Parser) (a b c n1 n2 : Expr),
        ParseConditionalExpr (parser (fuel + 1)) s = .ok a s1 →
        (tokAt s1.toks s1.pos).tag = .chr '=' →
        ParseConditionalExpr (parser fuel) { s1 with pos := s1.pos + 1 } = .ok b s2 →
        (tokAt s2.toks s2.pos).tag = .chr '=' →
        (parser fuel).ParseAssignExpr { s2 with pos := s2.pos + 1 } = .ok c s3 →
        NewBinaryOp (tokAt s2.toks s2.pos) (.chr '=') b c s3 = .ok n1 s4 →
        NewBinaryOp (tokAt s1.toks s1.pos) (.chr '=') a n1 s4 = .ok n2 s5 →
        ParseAssignExpr (parser (fuel + 1)) s = .ok n2 s5 ∧
        ∃ t1 t2, n2 = .binaryOp (.chr '=') a (.binaryOp (.chr '=') b c t1) t2)
    ∧ (∀ (fuel : Nat) (s s1 s2 s3 s4 s5 s6 s7 : Parser) (a b c d e n1 n2 : Expr),
        ParseLogicalOrExpr (parser (fuel + 1)) s = .ok a s1 →
        (tokAt s1.toks s1.pos).tag = .chr '?' →
        (parser (fuel + 1)).ParseExpr { s1 with pos := s1.pos + 1 } = .ok b s2 →
        (tokAt s2.toks s2.pos).tag = .chr ':' →
        ParseLogicalOrExpr (parser fuel) { s2 with pos := s2.pos + 1 } = .ok c s3 →
        (tokAt s3.toks s3.pos).tag = .chr '?' →
        (parser fuel).ParseExpr { s3 with pos := s3.pos + 1 } = .ok d s4 →
        (tokAt s4.toks s4.pos).tag = .chr ':' →
        (parser fuel).ParseConditionalExpr { s4 with pos := s4.pos + 1 } = .ok e s5 →
        NewConditionalOp (tokAt s3.toks s3.pos) c d e s5 = .ok n1 s6 →
        NewConditionalOp (tokAt s1.toks s1.pos) a b n1 s6 = .ok n2 s7 →
        ParseConditionalExpr (parser (fuel + 1)) s = .ok n2 s7 ∧
        ∃ t1 t2, n2 = .conditionalOp a b (.conditionalOp c d e t1) t2) := by
  refine ⟨BinLevel.test_iff, ?_, ?_, ?_, ?_, ?_⟩
  · intro L T h
    cases L <;> cases h <;> rfl
  · intro L fuel s s1 s2 s3 s4 s5 e1 e2 e3 n1 n2 h1 hop1 h2 hn1 hop2 h3 hn2 hend
    refine ⟨?_, ?_⟩
    · rw [BinLevel.parse_eq, h1, andThen_ok,
        BinLevel.rest_step L _ e1 e2 n1 s1 s2 s3 ((BinLevel.test_iff _ _).mpr hop1) h2 hn1,
        BinLevel.again_parser,
        BinLevel.rest_step L _ n1 e3 n2 s3 s4 s5 ((BinLevel.test_iff _ _).mpr hop2) h3 hn2,
        BinLevel.again_parser,
        BinLevel.rest_end L _ n2 s5 (BinLevel.test_false _ _ hend)]
    · obtain ⟨t1, ht1⟩ := NewBinaryOp_shape hn1
      obtain ⟨t2, ht2⟩ := NewBinaryOp_shape hn2
      exact ⟨t1, t2, by rw [ht2, ht1]⟩
  · intro L T fuel s s1 s2 s3 s4 s5 a b c n1 n2 hT h1 hop1 h2 hop2 h3 hn1 hend1 hn2 hend2
    have hpar : L.operand = T.parse := by cases L <;> cases hT <;> rfl
    have hb : L.operand (parser (fuel + 1)) { s1 with pos := s1.pos + 1 } = .ok n1 s4 := by
      rw [hpar, BinLevel.parse_eq, h2, andThen_ok,
        BinLevel.rest_step T _ b c n1 s2 s3 s4 ((BinLevel.test_iff _ _).mpr hop2) h3 hn1,
        BinLevel.again_parser,
        BinLevel.rest_end T _ n1 s4 (BinLevel.test_false _ _ hend1)]
    refine ⟨?_, ?_⟩
    · rw [BinLevel.parse_eq, h1, andThen_ok,
        BinLevel.rest_step L _ a n1 n2 s1 s4 s5 ((BinLevel.test_iff _ _).mpr hop1) hb hn2,
        BinLevel.again_parser,
        BinLevel.rest_end L _ n2 s5 (BinLevel.test_false _ _ hend2)]
    · obtain ⟨t1, ht1⟩ := NewBinaryOp_shape hn1
      obtain ⟨t2, ht2⟩ := NewBinaryOp_shape hn2
      exact ⟨t1, t2, by rw [ht2, ht1]⟩
  · intro fuel s s1 s2 s3 s4 s5 a b c n1 n2 h1 htag1 h2 htag2 h3 hn1 hn2
    have hinner : (parser (fuel + 1)).ParseAssignExpr { s1 with pos := s1.pos + 1 }
        = .ok n1 s4 :=
      ParseAssignExpr_assign (parser fuel) _ s2 s3 s4 b c n1 h2 htag2 h3 hn1
    refine ⟨ParseAssignExpr_assign _ s s1 s4 s5 a n1 n2 h1 htag1 hinner hn2, ?_⟩
    obtain ⟨t1, ht1⟩ := NewBinaryOp_shape hn1
    obtain ⟨t2, ht2⟩ := NewBinaryOp_shape hn2
    exact ⟨t1, t2, by rw [ht2, ht1]⟩
  · intro fuel s s1 s2 s3 s4 s5 s6 s7 a b c d e n1 n2 h1 hq1 h2 hc1 h3 hq2 h4 hc2 h5 hn1 hn2
    have hinner : (parser (fuel + 1)).ParseConditionalExpr { s2 with pos := s2.pos + 1 }
        = .ok n1 s6 :=
      ParseConditionalExpr_cond (parser fuel) _ s3 s4 s5 s6 c d e n1 h3 hq2 h4 hc2 h5 hn1
    refine ⟨ParseConditionalExpr_cond _ s s1 s2 s6 s7 a b n1 n2 h1 hq1 h2 hc1 hinner hn2, ?_⟩
    obtain ⟨t1, ht1⟩ := NewConditionalOp_shape hn1
    obtain ⟨t2, ht2⟩ := NewConditionalOp_shape hn2
    exact ⟨t1, t2, by rw [ht2, ht1]⟩

/-- The chains `1 - 2 + 3`, `1 + 2 * 3`, `a = b = c` and
`1 ? 2 : 3 ? 4 : 5` meet the premises of the four groupings, and are
returned as `(1 - 2) + 3`, `1 + (2 * 3)`, `a = (b = c)` and
`1 ? 2 : (3 ? 4 : 5)`. -/
theorem cascade_grouping_witness :
    (tokAt chainS1.toks chainS1.pos).tag = .chr '-'
      ∧ (tokAt chainS3.toks chainS3.pos).tag = .chr '+'
      ∧ ParseAdditiveExpr (parser 40) (stateAt toksChain)
        = .ok (.binaryOp (.chr '+')
            (.binaryOp (.chr '-') (constInt 1) (constInt 2) (.arithm (T_SIGNED ||| T_INT) none))
            (constInt 3) (.arithm (T_SIGNED ||| T_INT) none)) chainS5
      ∧ (tokAt tighterS1.toks tighterS1.pos).tag = .chr '+'
      ∧ (tokAt tighterS2.toks tighterS2.pos).tag = .chr '*'
      ∧ ParseAdditiveExpr (parser 40) (stateAt toksTighter)
        = .ok (.binaryOp (.chr '+') (constInt 1)
            (.binaryOp (.chr '*') (constInt 2) (constInt 3) (.arithm (T_SIGNED ||| T_INT) none))
            (.arithm (T_SIGNED ||| T_INT) none)) tighterS5
      ∧ ParseAssignExpr (parser 40) assignChainStart
        = .ok (.binaryOp (.chr '=') (.identifier (objFile 2))
            (.binaryOp (.chr '=') (.identifier (objFile 3)) (.identifier (objFile 4)) tInt)
            tInt) assignS5
      ∧ ParseConditionalExpr (parser 40) (stateAt toksCondChain)
        = .ok (.conditionalOp (constInt 1) (constInt 2)
            (.conditionalOp (constInt 3) (constInt 4) (constInt 5) .null) .null) condS7
      ∧ chainS5.pos = 5 ∧ tighterS5.pos = 5 ∧ assignS5.pos = 12 ∧ condS7.pos = 9
      ∧ chainS5.errors = [] ∧ tighterS5.errors = [] ∧ assignS5.errors = []
      ∧ condS7.errors = [] :=
  have c1 : ParseMultiplicativeExpr (parser 40) (stateAt toksChain) = .ok (constInt 1) chainS1 :=
    Res.eq_ok_of_value _ _ (by decide!)
  have c2 : ParseMultiplicativeExpr (parser 40) chainS1.advance = .ok (constInt 2) chainS2 :=
    Res.eq_ok_of_value _ _ (by decide!)
  have c3 : NewBinaryOpTok (tokAt chainS1.toks chainS1.pos) (constInt 1) (constInt 2) chainS2
      = .ok (.binaryOp (.chr '-') (constInt 1) (constInt 2) (.arithm (T_SIGNED ||| T_INT) none))
          chainS3 :=
    Res.eq_ok_of_value _ _ (by decide!)
  have c4 : ParseMultiplicativeExpr (parser 39) chainS3.advance = .ok (constInt 3) chainS4 :=
    Res.eq_ok_of_value _ _ (by decide!)
  have c5 : NewBinaryOpTok (tokAt chainS3.toks chainS3.pos)
      (.binaryOp (.chr '-') (constInt 1) (constInt 2) (.arithm (T_SIGNED ||| T_INT) none))
      (constInt 3) chainS4
      = .ok (.binaryOp (.chr '+')
            (.binaryOp (.chr '-') (constInt 1) (constInt 2) (.arithm (T_SIGNED ||| T_INT) none))
            (constInt 3) (.arithm (T_SIGNED ||| T_INT) none)) chainS5 :=
    Res.eq_ok_of_value _ _ (by decide!)
  have t1 : ParseMultiplicativeExpr (parser 40) (stateAt toksTighter)
      = .ok (constInt 1) tighterS1 := Res.eq_ok_of_value _ _ (by decide!)
  have t2 : ParseCastExpr (parser 40) tighterS1.advance = .ok (constInt 2) tighterS2 :=
    Res.eq_ok_of_value _ _ (by decide!)
  have t3 : ParseCastExpr (parser 40) tighterS2.advance = .ok (constInt 3) tighterS3 :=
    Res.eq_ok_of_value _ _ (by decide!)
  have t4 : NewBinaryOpTok (tokAt tighterS2.toks tighterS2.pos) (constInt 2) (constInt 3)
      tighterS3
      = .ok (.binaryOp (.chr '*') (constInt 2) (constInt 3) (.arithm (T_SIGNED ||| T_INT) none))
          tighterS4 := Res.eq_ok_of_value _ _ (by decide!)
  have t5 : NewBinaryOpTok (tokAt tighterS1.toks tighterS1.pos) (constInt 1)
      (.binaryOp (.chr '*') (constInt 2) (constInt 3) (.arithm (T_SIGNED ||| T_INT) none))
      tighterS4
      = .ok (.binaryOp (.chr '+') (constInt 1)
            (.binaryOp (.chr '*') (constInt 2) (constInt 3) (.arithm (T_SIGNED ||| T_INT) none))
            (.arithm (T_SIGNED ||| T_INT) none)) tighterS5 :=
    Res.eq_ok_of_value _ _ (by decide!)
  have a1 : ParseConditionalExpr (parser 40) assignChainStart
      = .ok (.identifier (objFile 2)) assignS1 := Res.eq_ok_of_value _ _ (by decide!)
  have a2 : ParseConditionalExpr (parser 39) assignS1.advance
      = .ok (.identifier (objFile 3)) assignS2 := Res.eq_ok_of_value _ _ (by decide!)
  have a3 : (parser 39).ParseAssignExpr assignS2.advance
      = .ok (.identifier (objFile 4)) assignS3 := Res.eq_ok_of_value _ _ (by decide!)
  have a4 : NewBinaryOp (tokAt assignS2.toks assignS2.pos) (.chr '=') (.identifier (objFile 3))
      (.identifier (objFile 4)) assignS3
      = .ok (.binaryOp (.chr '=') (.identifier (objFile 3)) (.identifier (objFile 4)) tInt)
          assignS4 := Res.eq_ok_of_value _ _ (by decide!)
  have a5 : NewBinaryOp (tokAt assignS1.toks assignS1.pos) (.chr '=') (.identifier (objFile 2))
      (.binaryOp (.chr '=') (.identifier (objFile 3)) (.identifier (objFile 4)) tInt) assignS4
      = .ok (.binaryOp (.chr '=') (.identifier (objFile 2))
            (.binaryOp (.chr '=') (.identifier (objFile 3)) (.identifier (objFile 4)) tInt)
            tInt) assignS5 := Res.eq_ok_of_value _ _ (by decide!)
  have q1 : ParseLogicalOrExpr (parser 40) (stateAt toksCondChain) = .ok (constInt 1) condS1 :=
    Res.eq_ok_of_value _ _ (by decide!)
  have q2 : (parser 40).ParseExpr condS1.advance = .ok (constInt 2) condS2 :=
    Res.eq_ok_of_value _ _ (by decide!)
  have q3 : ParseLogicalOrExpr (parser 39) condS2.advance = .ok (constInt 3) condS3 :=
    Res.eq_ok_of_value _ _ (by decide!)
  have q4 : (parser 39).ParseExpr condS3.advance = .ok (constInt 4) condS4 :=
    Res.eq_ok_of_value _ _ (by decide!)
  have q5 : (parser 39).ParseConditionalExpr condS4.advance = .ok (constInt 5) condS5 :=
    Res.eq_ok_of_value _ _ (by decide!)
  have q6 : NewConditionalOp (tokAt condS3.toks condS3.pos) (constInt 3) (constInt 4)
      (constInt 5) condS5
      = .ok (.conditionalOp (constInt 3) (constInt 4) (constInt 5) .null) condS6 :=
    Res.eq_ok_of_value _ _ (by decide!)
  have q7 : NewConditionalOp (tokAt condS1.toks condS1.pos) (constInt 1) (constInt 2)
      (.conditionalOp (constInt 3) (constInt 4) (constInt 5) .null) condS6
      = .ok (.conditionalOp (constInt 1) (constInt 2)
            (.conditionalOp (constInt 3) (constInt 4) (constInt 5) .null) .null) condS7 :=
    Res.eq_ok_of_value _ _ (by decide!)
  ⟨by decide!, by decide!,
    (cascade_grouping.2.2.1 .additive 38 _ _ _ _ _ _ _ _ _ _ _ c1 (by decide!) c2 c3
      (by decide!) c4 c5 (by decide!)).1,
    by decide!, by decide!,
    (cascade_grouping.2.2.2.1 .additive .multiplicative 39 _ _ _ _ _ _ _ _ _ _ _ rfl t1
      (by decide!) t2 (by decide!) t3 t4 (by decide!) t5 (by decide!)).1,
    (cascade_grouping.2.2.2.2.1 39 _ _ _ _ _ _ _ _ _ _ _ a1 (by decide!) a2 (by decide!) a3
      a4 a5).1,
    (cascade_grouping.2.2.2.2.2 39 _ _ _ _ _ _ _ _ _ _ _ _ _ _ _ q1 (by decide!) q2 (by decide!)
      q3 (by decide!) q4 (by decide!) q5 q6 q7).1,
    by decide!, by decide!, by decide!, by decide!, by decide!, by decide!, by decide!,
    by decide!⟩

/-! ## Declarators build chains over their base -/

theorem returns_bind_of {α β : Type} (Q : α → Prop) (P : β → Prop) (m : PM α) (f : α → PM β)
    (hm : ∀ s a s', m s = .ok a s' → Q a)
    (hf : ∀ a, Q a → ∀ s b s', f a s = .ok b s' → P b) :
    ∀ s b s', (m >>= f) s = .ok b s' → P b := by
  intro s b s' h
  rw [run_bind] at h
  cases hm1 : m s with
  | ok a s1 => rw [hm1, andThen_ok] at h; exact hf a (hm s a s1 hm1) s1 b s' h
  | fail e s1 => rw [hm1, andThen_fail] at h; cases h

theorem returns_ite {α : Type} (P : α → Prop) {c : Prop} [Decidable c] {x y : PM α}
    (hx : ∀ s b s', x s = .ok b s' → P b) (hy : ∀ s b s', y s = .ok b s' → P b) :
    ∀ s b s', (if c then x else y) s = .ok b s' → P b := by
  by_cases h : c
  · rw [if_pos h]; exact hx
  · rw [if_neg h]; exact hy

theorem applyChain_append (C D : List Deriv) (b : CType) :
    applyChain (C ++ D) b = applyChain C (applyChain D b) := by
  induction C with
  | nil => rfl
  | cons c cs ih =>
    show c.apply (applyChain (cs ++ D) b) = c.apply (applyChain cs (applyChain D b))
    rw [ih]

theorem depth_applyChain (C : List Deriv) (b : CType) :
    (applyChain C b).depth = b.depth + C.length := by
  induction C with
  | nil => rfl
  | cons c cs ih =>
    cases c <;>
      (show (applyChain cs b).depth + 1 = b.depth + (cs.length + 1); rw [ih]; rfl)

/-- `ModifyBase` on a chain over `base` replaces `base` under the chain. -/
theorem modifyBase_chain (C : List Deriv) (base newBase : CType) :
    modifyBase (applyChain C base) base newBase = some (applyChain C newBase) := by
  induction C with
  | nil =>
    show modifyBase base base newBase = some newBase
    unfold modifyBase
    rw [if_pos (CType_beq_refl base)]
  | cons c cs ih =>
    have hne : CType.beq (applyChain (c :: cs) base) base = false := by
      cases hb : CType.beq (applyChain (c :: cs) base) base with
      | false => rfl
      | true =>
        have hd := congrArg CType.depth (CType_eq_of_beq _ _ hb)
        rw [depth_applyChain] at hd
        simp only [List.length_cons] at hd
        omega
    cases c with
    | pointer q =>
      show modifyBase (.pointer (applyChain cs base) q) base newBase = _
      unfold modifyBase
      rw [if_neg (by rw [show CType.pointer (applyChain cs base) q
        = applyChain (.pointer q :: cs) base from rfl, hne]; exact Bool.false_ne_true)]
      show (modifyBase (applyChain cs base) base newBase).map _ = _
      rw [ih]
      rfl
    | array l =>
      show modifyBase (.array l (applyChain cs base)) base newBase = _
      unfold modifyBase
      rw [if_neg (by rw [show CType.array l (applyChain cs base)
        = applyChain (.array l :: cs) base from rfl, hne]; exact Bool.false_ne_true)]
      show (modifyBase (applyChain cs base) base newBase).map _ = _
      rw [ih]
      rfl
    | func f v ps =>
      show modifyBase (.func (applyChain cs base) f v ps) base newBase = _
      unfold modifyBase
      rw [if_neg (by rw [show CType.func (applyChain cs base) f v ps
        = applyChain (.func f v ps :: cs) base from rfl, hne]; exact Bool.false_ne_true)]
      show (modifyBase (applyChain cs base) base newBase).map _ = _
      rw [ih]
      rfl

/-- The loop of `ParsePointer` returns a chain over the type it starts
from. -/
theorem ParsePointer_loop_chain (r : Rec)
    (hr : ∀ t s T s', r.loopPointer t t s = .ok T s' → ∃ C, T = applyChain C t)
    (t : CType) : ∀ s T s', ParsePointer.loop r t t s = .ok T s' → ∃ C, T = applyChain C t := by
  unfold ParsePointer.loop
  apply returns_bind; intro b
  apply returns_ite
  · apply returns_bind; intro qual
    intro s T s' h
    obtain ⟨C, hC⟩ := hr _ s T s' h
    exact ⟨C ++ [.pointer qual], by rw [applyChain_append]; exact hC⟩
  · exact returns_pure _ _ ⟨[], rfl⟩

/-- `ParseArrayFuncDeclarator` returns a chain over its base. -/
theorem ParseArrayFuncDeclarator_chain (r : Rec)
    (hr : ∀ t s T s', r.ParseArrayFuncDeclarator t s = .ok T s' → ∃ C, T = applyChain C t)
    (t : CType) :
    ∀ s T s', ParseArrayFuncDeclarator r t s = .ok T s' → ∃ C, T = applyChain C t := by
  unfold ParseArrayFuncDeclarator
  apply returns_bind; intro b
  apply returns_ite
  · apply returns_bind; intro isFunc
    apply returns_bind; intro tok
    apply returns_bind; intro _
    apply returns_bind; intro len
    apply returns_bind; intro tok2
    apply returns_bind; intro _
    apply returns_bind; intro _
    apply returns_bind_of (fun a => ∃ C, a = applyChain C t)
          (fun a => ∃ C, a = applyChain C t) _ _ (hr t)
    rintro a ⟨C, hC⟩
    exact returns_pure _ _ ⟨.array len :: C, by rw [hC]; rfl⟩
  · apply returns_bind; intro b2
    apply returns_ite
    · apply returns_bind; intro isFunc
      apply returns_bind; intro tok
      apply returns_bind; intro _
      apply returns_bind; intro tok2
      apply returns_bind; intro _
      apply returns_bind; intro _
      apply returns_bind; intro ps
      apply returns_bind; intro _
      apply returns_bind; intro _
      apply returns_bind_of (fun a => ∃ C, a = applyChain C t)
          (fun a => ∃ C, a = applyChain C t) _ _ (hr t)
      rintro a ⟨C, hC⟩
      exact returns_pure _ _ ⟨.func 0 ps.1 ps.2 :: C, by rw [hC]; rfl⟩
    · exact returns_pure _ _ ⟨[], rfl⟩

theorem ModifyBase_chain (C : List Deriv) (base newBase : CType) (s : Parser) :
    ModifyBase (applyChain C base) base newBase s = .ok (applyChain C newBase) s := by
  unfold ModifyBase
  rw [modifyBase_chain]
  rfl

/-- `ParseDeclarator` returns a chain over its base. -/
theorem ParseDeclarator_chain (r : Rec)
    (hp : ∀ t s T s', r.loopPointer t t s = .ok T s' → ∃ C, T = applyChain C t)
    (ha : ∀ t s T s', r.ParseArrayFuncDeclarator t s = .ok T s' → ∃ C, T = applyChain C t)
    (hd : ∀ t s p s', r.ParseDeclarator t s = .ok p s' → ∃ C, p.second = applyChain C t)
    (t : CType) :
    ∀ s p s', ParseDeclarator r t s = .ok p s' → ∃ C, p.second = applyChain C t := by
  have hpp : ∀ s T s', ParsePointer r t s = .ok T s' → ∃ C, T = applyChain C t :=
    ParsePointer_loop_chain r hp t
  unfold ParseDeclarator
  apply returns_bind_of (fun a => ∃ C, a = applyChain C t)
    (fun p : TokenTypePair => ∃ C, p.second = applyChain C t) _ _ hpp
  rintro pt ⟨C1, h1⟩
  apply returns_bind; intro b
  apply returns_ite
  · apply returns_bind_of (fun p : TokenTypePair => ∃ C, p.second = applyChain C pt)
      (fun p : TokenTypePair => ∃ C, p.second = applyChain C t) _ _ (hd pt)
    rintro pair ⟨C2, h2⟩
    apply returns_bind; intro _
    apply returns_bind_of (fun a => ∃ C, a = applyChain C pt)
      (fun p : TokenTypePair => ∃ C, p.second = applyChain C t) _ _ (ParseArrayFuncDeclarator_chain r ha pt)
    rintro nb ⟨C3, h3⟩
    intro s p s' h
    rw [run_bind, h2, ModifyBase_chain, andThen_ok] at h
    cases h
    exact ⟨C2 ++ (C3 ++ C1), by
      show applyChain C2 nb = _
      rw [applyChain_append, applyChain_append, h3, h1]⟩
  · apply returns_bind; intro tok
    apply returns_ite
    · apply returns_bind; intro tok2
      apply returns_bind_of (fun a => ∃ C, a = applyChain C pt)
        (fun p : TokenTypePair => ∃ C, p.second = applyChain C t) _ _ (ParseArrayFuncDeclarator_chain r ha pt)
      rintro a ⟨C3, h3⟩
      exact returns_pure _ _ ⟨C3 ++ C1, by
        show a = _
        rw [applyChain_append, h3, h1]⟩
    · apply returns_bind; intro _
      exact returns_pure _ _ ⟨C1, h1⟩

/-- With any fuel, the declarator functions return chains over their
base. -/
theorem parser_chain (fuel : Nat) :
    (∀ t s T s', (parser fuel).loopPointer t t s = .ok T s' → ∃ C, T = applyChain C t)
      ∧ (∀ t s T s', (parser fuel).ParseArrayFuncDeclarator t s = .ok T s' →
          ∃ C, T = applyChain C t)
      ∧ (∀ t s p s', (parser fuel).ParseDeclarator t s = .ok p s' →
          ∃ C, p.second = applyChain C t) := by
  induction fuel with
  | zero =>
    refine ⟨?_, ?_, ?_⟩ <;> intro t s T s' h <;> cases h
  | succ n ih =>
    obtain ⟨hp, ha, hd⟩ := ih
    exact ⟨ParsePointer_loop_chain _ hp, ParseArrayFuncDeclarator_chain _ ha,
      ParseDeclarator_chain _ hp ha hd⟩

/-! ## C23: parenthesised declarators -/

/-- C23: on a parenthesised declarator `( D ) S` with base `B`, where the
inner declarator `D` returns the token `tok` and the type `T` and the suffix
`S` builds `SB` over `B`, the type `T` is a chain `C` of pointers, arrays and
functions over `B`, the type `SB` is a chain over `B`, and `ParseDeclarator`
returns `tok` with the chain `C` over `SB`. -/
theorem ParseDeclarator_parenthesised (fuel : Nat) (B : CType) (s sD sS : Parser)
    (tok : Option Token) (T SB : CType)
    (hopen : (tokAt s.toks s.pos).tag = .chr '(')
    (hD : ParseDeclarator (parser fuel) B { s with pos := s.pos + 1 }
      = .ok { first := tok, second := T } sD)
    (hclose : (tokAt sD.toks sD.pos).tag = .chr ')')
    (hS : ParseArrayFuncDeclarator (parser (fuel + 1)) B { sD with pos := sD.pos + 1 }
      = .ok SB sS) :
    ∃ C S, T = applyChain C B ∧ SB = applyChain S B ∧
      ParseDeclarator (parser (fuel + 1)) B s
        = .ok { first := tok, second := applyChain C (applyChain S B) } sS := by
  obtain ⟨C, hC⟩ := ParseDeclarator_chain _ (parser_chain fuel).1 (parser_chain fuel).2.1
    (parser_chain fuel).2.2 B _ _ _ hD
  obtain ⟨S, hSB⟩ := ParseArrayFuncDeclarator_chain _ (parser_chain (fuel + 1)).2.1 B _ _ _ hS
  have hC : T = applyChain C B := hC
  refine ⟨C, S, hC, hSB, ?_⟩
  have hstar : ((tokAt s.toks s.pos).tag == Tag.chr '*') = false := by rw [hopen]; rfl
  have hpar : ((tokAt s.toks s.pos).tag == Tag.chr '(') = true := by rw [hopen]; rfl
  have hD2 : (parser (fuel + 1)).ParseDeclarator B { s with pos := s.pos + 1 }
      = .ok { first := tok, second := T } sD := hD
  unfold ParseDeclarator ParsePointer ParsePointer.loop
  simp only [run_bind, Try, hstar, hpar, Bool.false_eq_true, if_false, if_true, andThen_ok,
    run_pure, hD2, Expect1_match _ _ hclose, hS]
  rw [hC, ModifyBase_chain, andThen_ok, hSB]
  rfl

/-- A run that returned the pair of `first` and `second` is `.ok` of that
pair with its state. -/
theorem Res.eq_ok_of_pair (x : Res TokenTypePair) (first : Option Token) (second : CType)
    (h : x.value?.map (fun p => (p.first, p.second)) = some (first, second)) :
    x = .ok { first := first, second := second } x.state := by
  cases x with
  | ok p s => cases p; cases h; rfl
  | fail e s => cases h

/-- The declarators of `int (*p)[3];` and `int (x);` meet the premises: `p`
is a pointer to an array of 3 `int`, `x` is an `int`. -/
theorem ParseDeclarator_parenthesised_witness :
    (tokAt ptrToArrayStart.toks ptrToArrayStart.pos).tag = .chr '('
      ∧ ParseDeclarator (parser 39) tInt
          { ptrToArrayStart with pos := ptrToArrayStart.pos + 1 }
        = .ok { first := some (mkTok (.kw .IDENTIFIER) "p" 3), second := .pointer tInt 0 }
            ptrToArrayInner
      ∧ (tokAt ptrToArrayInner.toks ptrToArrayInner.pos).tag = .chr ')'
      ∧ ParseArrayFuncDeclarator (parser 40) tInt
          { ptrToArrayInner with pos := ptrToArrayInner.pos + 1 }
        = .ok (.array 3 tInt) ptrToArrayEnd
      ∧ (∃ C S, CType.pointer tInt 0 = applyChain C tInt ∧ CType.array 3 tInt = applyChain S tInt ∧
          ParseDeclarator (parser 40) tInt ptrToArrayStart
            = .ok { first := some (mkTok (.kw .IDENTIFIER) "p" 3),
                    second := applyChain C (applyChain S tInt) } ptrToArrayEnd)
      ∧ (∃ C S, tInt = applyChain C tInt ∧ tInt = applyChain S tInt ∧
          ParseDeclarator (parser 40) tInt parenXStart
            = .ok { first := some (mkTok (.kw .IDENTIFIER) "x" 2),
                    second := applyChain C (applyChain S tInt) } parenXEnd)
      ∧ (ParseDeclarator (parser 40) tInt ptrToArrayStart).value?.map
          (fun p => (p.first, p.second))
        = some (some (mkTok (.kw .IDENTIFIER) "p" 3), .pointer (.array 3 tInt) 0)
      ∧ (ParseDeclarator (parser 40) tInt parenXStart).value?.map
          (fun p => (p.first, p.second))
        = some (some (mkTok (.kw .IDENTIFIER) "x" 2), tInt)
      ∧ scopeEntries (ParseTranslationUnit (parser 60) (stateAt toksPtrToArray)).state
        = [[("p", .pointer (.array 3 tInt) 0, true)]]
      ∧ scopeEntries (ParseTranslationUnit (parser 60) (stateAt toksParenX)).state
        = [[("x", tInt, true)]]
      ∧ (ParseTranslationUnit (parser 60) (stateAt toksPtrToArray)).state.errors = []
      ∧ (ParseTranslationUnit (parser 60) (stateAt toksParenX)).state.errors = [] :=
  have h1 : (tokAt ptrToArrayStart.toks ptrToArrayStart.pos).tag = .chr '(' := by decide!
  have h2 : ParseDeclarator (parser 39) tInt
      { ptrToArrayStart with pos := ptrToArrayStart.pos + 1 }
      = .ok { first := some (mkTok (.kw .IDENTIFIER) "p" 3), second := .pointer tInt 0 }
          ptrToArrayInner :=
    Res.eq_ok_of_pair _ _ _ (by decide!)
  have h3 : (tokAt ptrToArrayInner.toks ptrToArrayInner.pos).tag = .chr ')' := by decide!
  have h4 : ParseArrayFuncDeclarator (parser 40) tInt
      { ptrToArrayInner with pos := ptrToArrayInner.pos + 1 }
      = .ok (.array 3 tInt) ptrToArrayEnd := Res.eq_ok_of_value _ _ (by decide!)
  have x2 : ParseDeclarator (parser 39) tInt { parenXStart with pos := parenXStart.pos + 1 }
      = .ok { first := some (mkTok (.kw .IDENTIFIER) "x" 2), second := tInt } parenXInner :=
    Res.eq_ok_of_pair _ _ _ (by decide!)
  have x4 : ParseArrayFuncDeclarator (parser 40) tInt
      { parenXInner with pos := parenXInner.pos + 1 } = .ok tInt parenXEnd :=
    Res.eq_ok_of_value _ _ (by decide!)
  ⟨h1, h2, h3, h4,
    ParseDeclarator_parenthesised 39 tInt ptrToArrayStart ptrToArrayInner ptrToArrayEnd _ _ _
      h1 h2 h3 h4,
    ParseDeclarator_parenthesised 39 tInt parenXStart parenXInner parenXEnd _ _ _
      (by decide!) x2 (by decide!) x4,
    by decide!, by decide!, by decide!, by decide!, by decide!, by decide!⟩

/-! ## C31: the bitwise operators -/

/-- C31: `BitwiseOpTypeChecking` on operands with types sets the type of the
node to `int` and reports 'operands of '&' should be integer' exactly when
the left or the right operand IS of integer type: the test of parser.cc
2375-2376 is `lhs->IsInteger() || rhs->IsInteger()`, without negation.  So
two integer operands are diagnosed and two operands that are not integers
are accepted without a diagnostic. -/
theorem BitwiseOpTypeChecking_inverted (b : BinaryOp) (tok : Token) (s : Parser)
    (hl : b.lhs.ty ≠ .null) (hr : b.rhs.ty ≠ .null) :
    BitwiseOpTypeChecking b tok s =
      .ok { b with ty := NewArithmType T_INT }
        { s with errors := s.errors ++
            if (b.lhs.ty.isInteger || b.rhs.ty.isInteger) = true then
              [integerOperands tok.coord]
            else [] } := by
  unfold BitwiseOpTypeChecking
  cases hli : b.lhs.ty.isInteger
  · simp only [run_bind, Ty_run hl, Ty_run hr, andThen_ok, IsInteger, derefType_ok hl,
      derefType_ok hr, run_pure, hli, Bool.false_eq_true, if_false, ErrorIf_run, Bool.false_or]
    rfl
  · simp only [run_bind, Ty_run hl, andThen_ok, IsInteger, derefType_ok hl,
      run_pure, hli, if_true, ErrorIf_run, Bool.true_or]
    rfl

/-- The operands `a` and `b` of type `int` are diagnosed; so are `a & b`,
`a ^ b` and `a | b` in a program, while the same expressions over two
`double` objects get no diagnostic; the type of the node is `int` each
time. -/
theorem BitwiseOpTypeChecking_inverted_witness :
    (Expr.identifier objIntA).ty ≠ .null ∧ (Expr.identifier objIntB).ty ≠ .null
      ∧ BitwiseOpTypeChecking
          { op := .chr '&', lhs := .identifier objIntA, rhs := .identifier objIntB, ty := .null }
          (mkTok (.chr '&') "&" 13) (stateAt (toksBitwiseInts (P '&')))
        = .ok { op := .chr '&', lhs := .identifier objIntA, rhs := .identifier objIntB,
                ty := tInt }
            { stateAt (toksBitwiseInts (P '&')) with
                errors := (stateAt (toksBitwiseInts (P '&'))).errors ++ [integerOperands 13] }
      ∧ [P '&', P '^', P '|'].map (fun op => diagsOf (toksBitwiseInts op))
        = [[integerOperands 13], [integerOperands 13], [integerOperands 13]]
      ∧ [P '&', P '^', P '|'].map (fun op => diagsOf (toksBitwiseMixed op))
        = [[integerOperands 13], [integerOperands 13], [integerOperands 13]]
      ∧ [P '&', P '^', P '|'].map (fun op => diagsOf (toksBitwiseDoubles op)) = [[], [], []]
      ∧ (ParseTranslationUnit (parser 60) (stateAt (toksBitwiseDoubles (P '&')))).state.unit
        = [.funcDef (.func .void 0 false [.void])
            (.compoundStmt [.compoundStmt [], .compoundStmt [],
              .expr (.binaryOp (.chr '&') (.identifier { objIntA with ty := tDouble })
                (.identifier { objIntB with ty := tDouble }) tInt)])] :=
  ⟨fun h => CType.noConfusion h, fun h => CType.noConfusion h,
    BitwiseOpTypeChecking_inverted
      { op := .chr '&', lhs := .identifier objIntA, rhs := .identifier objIntB, ty := .null }
      (mkTok (.chr '&') "&" 13) (stateAt (toksBitwiseInts (P '&')))
      (fun h => CType.noConfusion h) (fun h => CType.noConfusion h),
    by decide!, by decide!, by decide!, by decide!⟩

/-! ## C32: `const` among the declaration specifiers -/

theorem ite_both {α : Type} (c : Prop) [Decidable c] {a a2 b b2 : α} (h1 : a = a2)
    (h2 : b = b2) : (if c then a else b) = (if c then a2 else b2) := by
  rw [h1, h2]

theorem bind_congr_right {α β : Type} (m : PM α) {f g : α → PM β} (h : ∀ a, f a = g a) :
    (m >>= f) = (m >>= g) := by
  rw [show f = g from funext h]

/-- An iteration of the loop of `ParseDeclSpec` does not depend on the value
of `qualSpec`, if the next iteration does not. -/
theorem ParseDeclSpec.loop_qual_step (r : Rec) (outNull : Bool)
    (hr : ∀ t a st f q q2 ty, r.loopDeclSpec outNull
        { type := t, align := a, storageSpec := st, funcSpec := f, qualSpec := q, typeSpec := ty }
      = r.loopDeclSpec outNull
        { type := t, align := a, storageSpec := st, funcSpec := f, qualSpec := q2, typeSpec := ty })
    (t : CType) (a : Int) (st f q q2 ty : Nat) :
    ParseDeclSpec.loop r outNull
        { type := t, align := a, storageSpec := st, funcSpec := f, qualSpec := q, typeSpec := ty }
      = ParseDeclSpec.loop r outNull
        { type := t, align := a, storageSpec := st, funcSpec := f, qualSpec := q2,
          typeSpec := ty } := by
  unfold ParseDeclSpec.loop
  dsimp only []
  apply bind_congr_right
  intro tok
  repeat' (first
    | rfl
    | exact hr _ _ _ _ _ _ _
    | apply ite_both
    | (apply bind_congr_right; intro _))

/-- With any fuel, the loop of `ParseDeclSpec` does not depend on the value
of `qualSpec`. -/
theorem parser_loopDeclSpec_qual (outNull : Bool) : ∀ (fuel : Nat) (t : CType) (a : Int)
    (st f q q2 ty : Nat),
    (parser fuel).loopDeclSpec outNull
        { type := t, align := a, storageSpec := st, funcSpec := f, qualSpec := q, typeSpec := ty }
      = (parser fuel).loopDeclSpec outNull
        { type := t, align := a, storageSpec := st, funcSpec := f, qualSpec := q2, typeSpec := ty }
  | 0, _, _, _, _, _, _, _ => rfl
  | fuel + 1, t, a, st, f, q, q2, ty =>
    ParseDeclSpec.loop_qual_step (parser fuel) outNull (parser_loopDeclSpec_qual outNull fuel)
      t a st f q q2 ty

/-- The iteration of the loop of `ParseDeclSpec` at `const`. -/
theorem ParseDeclSpec.loop_const (r : Rec) (outNull : Bool) (v : DeclSpecVars) (s : Parser)
    (hconst : (tokAt s.toks s.pos).tag = .kw .CONST) :
    ParseDeclSpec.loop r outNull v s =
      r.loopDeclSpec outNull { v with qualSpec := v.qualSpec ||| Q_CONST }
        { s with pos := s.pos + 1 } := by
  unfold ParseDeclSpec.loop
  simp only [run_bind, Next_run, andThen_ok, hconst, beq_iff_eq, reduceCtorEq, Tag.kw.injEq,
    if_false, if_true]

/-- C32: a `const` among the declaration specifiers has no effect on what
`ParseDeclSpec` returns.  At the token `const` the loop only sets a bit of
its local `qualSpec` and goes on, and neither the rest of the loop nor the
part after `end_of_loop`, which builds the type, reads `qualSpec`: with one
more unit of fuel for the iteration, the run at `const` is the run after it,
with the same type, specifiers, diagnostics and failures.  So the type of
`const int x` is the type of `int x`, and `x = 1` is not diagnosed. -/
theorem ParseDeclSpec_const_dropped (fuel : Nat) (outNull : Bool) (v : DeclSpecVars)
    (s : Parser) (hconst : (tokAt s.toks s.pos).tag = .kw .CONST) :
    ParseDeclSpec.loop (parser (fuel + 1)) outNull v s
        = ParseDeclSpec.loop (parser fuel) outNull v { s with pos := s.pos + 1 }
      ∧ ParseDeclSpec (parser (fuel + 1)) outNull s
        = ParseDeclSpec (parser fuel) outNull { s with pos := s.pos + 1 }
      ∧ (∀ tok q s2, ParseDeclSpec.endOfLoop outNull tok { v with qualSpec := q } s2
          = ParseDeclSpec.endOfLoop outNull tok v s2)
      ∧ diagsOf toksConstAssign = []
      ∧ (ParseTranslationUnit (parser 60) (stateAt toksConstAssign)).state.unit
        = [.funcDef (.func .void 0 false [.void])
            (.compoundStmt [.compoundStmt [],
              .expr (.binaryOp (.chr '=') (.identifier { objIntA with ty := tInt })
                (.constant (.arithm (T_SIGNED ||| T_INT) none) 1) tInt)])]
      ∧ tInt.isConst = false
      ∧ diagsOf toksConstPointerAssign
        = [{ coord := 12, fmt := "can't modifiy 'const' qualified expression", args := [] }] := by
  have hloop : ∀ w : DeclSpecVars, ParseDeclSpec.loop (parser (fuel + 1)) outNull w s
      = ParseDeclSpec.loop (parser fuel) outNull w { s with pos := s.pos + 1 } := by
    intro w
    rw [ParseDeclSpec.loop_const _ _ _ _ hconst]
    cases w with
    | mk t a st f q ty =>
      exact congrFun (ParseDeclSpec.loop_qual_step (parser fuel) outNull
        (parser_loopDeclSpec_qual outNull fuel) t a st f (q ||| Q_CONST) q ty) _
  exact ⟨hloop v, hloop _, fun _ _ _ => rfl, by decide!, by decide!, rfl, by decide!⟩

/-- The declaration specifiers `const int` of `const int x ;`: the run at
`const` is the run at `int`, and the type returned is `int`. -/
theorem ParseDeclSpec_const_dropped_witness :
    (tokAt (stateAt toksConstIntX).toks (stateAt toksConstIntX).pos).tag = .kw .CONST
      ∧ ParseDeclSpec (parser 40) false (stateAt toksConstIntX)
        = ParseDeclSpec (parser 39) false (stateAtPos toksConstIntX 1)
      ∧ (ParseDeclSpec (parser 40) false (stateAt toksConstIntX)).value?.map
          (fun d => (d.type, d.storageSpec, d.funcSpec)) = some (tInt, 0, 0)
      ∧ (ParseDeclSpec (parser 40) false (stateAt toksConstIntX)).state.pos = 2
      ∧ (ParseDeclSpec (parser 40) false (stateAt toksConstIntX)).state.errors = [] :=
  ⟨by decide!,
    (ParseDeclSpec_const_dropped 39 false
      { type := .null, align := -1, storageSpec := 0, funcSpec := 0, qualSpec := 0,
        typeSpec := 0 }
      (stateAt toksConstIntX) (by decide!)).2.1,
    by decide!, by decide!, by decide!⟩

/-! ## C33: the arguments of a call -/

/-- C33: the first loop of `ParseFuncCall` parses an argument expression
before it looks at the parameters or at `)`: for a callee whose function
type has at least one entry in its parameter list, as the type of a function
declared with `(void)` has (the entry `void`), a call without arguments ends
in a null dereference, since `ParseAssignExpr` returns null at `)` and the
type of the argument is read.  So `f()` for `void f(void)` is not accepted:
'Expect expression' is reported and no call node is returned.  A call with
exactly the declared arguments (one or two `int`) is accepted without a
diagnostic, with the arguments in order; one more argument is diagnosed
unless the function is variadic. -/
theorem ParseFuncCall_needs_argument (r : Rec) (designator : Expr) (ret : CType) (fs : Nat)
    (e : Bool) (p : CType) (rest : List CType) (s s1 : Parser)
    (hty : designator.ty = .func ret fs e (p :: rest))
    (harg : r.ParseAssignExpr s = .ok .null s1) :
    ParseFuncCall r designator s = .fail .nullDeref s1
      ∧ diagsOf toksCallNoArgs = [{ coord := 14, fmt := "Expect expression", args := [] }]
      ∧ (ParseTranslationUnit (parser 60) (stateAt toksCallNoArgs)).failure? = some .nullDeref
      ∧ callsOf toksCallNoArgs = []
      ∧ (diagsOf (toksCall [K .INT "int"] [I "a"]) = []
          ∧ returns (toksCall [K .INT "int"] [I "a"]) = true
          ∧ callsOf (toksCall [K .INT "int"] [I "a"]) = [(1, [9])])
      ∧ (diagsOf (toksCall [K .INT "int", P ',', K .INT "int"] [I "a", P ',', I "a"]) = []
          ∧ returns (toksCall [K .INT "int", P ',', K .INT "int"] [I "a", P ',', I "a"]) = true
          ∧ callsOf (toksCall [K .INT "int", P ',', K .INT "int"] [I "a", P ',', I "a"])
            = [(2, [9, 9])])
      ∧ diagsOf (toksCall [K .INT "int"] [I "a", P ',', I "a"])
        = [{ coord := 18, fmt := "'%s' expected, but got '%s'", args := [")", ","] }]
      ∧ (diagsOf (toksCall [K .INT "int", P ',', K .ELLIPSIS "..."] [I "a", P ',', I "a"]) = []
          ∧ returns (toksCall [K .INT "int", P ',', K .ELLIPSIS "..."] [I "a", P ',', I "a"])
            = true
          ∧ callsOf (toksCall [K .INT "int", P ',', K .ELLIPSIS "..."] [I "a", P ',', I "a"])
            = [(2, [9, 9])]) := by
  have hne : designator.ty ≠ .null := by rw [hty]; exact fun h => CType.noConfusion h
  refine ⟨?_, by decide!, by decide!, by decide!, ⟨by decide!, by decide!, by decide!⟩,
    ⟨by decide!, by decide!, by decide!⟩, by decide!, ⟨by decide!, by decide!, by decide!⟩⟩
  have hd : ∀ s2, derefType (CType.func ret fs e (p :: rest)) s2 = .ok () s2 := fun _ => rfl
  unfold ParseFuncCall
  simp only [run_bind, Ty_run hne, andThen_ok, ToFuncType, hty, hd, run_pure,
    CType.isFunc, assert, if_true, run_pure2, Peek, ParseFuncCall.args, harg]
  cases p <;> rfl

/-- The call `f()` in `void f(void); void g(void) { f(); }`: the callee has
the parameter list `[void]`, and `ParseAssignExpr` returns null at the
`)`. -/
theorem ParseFuncCall_needs_argument_witness :
    (Expr.identifier objCalleeVoid).ty = .func .void 0 false [.void]
      ∧ (parser 39).ParseAssignExpr callNoArgsStart = .ok .null callNoArgsAfter
      ∧ ParseFuncCall (parser 39) (.identifier objCalleeVoid) callNoArgsStart
        = .fail .nullDeref callNoArgsAfter
      ∧ callNoArgsAfter.errors = [{ coord := 14, fmt := "Expect expression", args := [] }] :=
  have h : (parser 39).ParseAssignExpr callNoArgsStart = .ok .null callNoArgsAfter :=
    Res.eq_ok_of_value _ _ (by decide!)
  ⟨rfl, h,
    (ParseFuncCall_needs_argument (parser 39) (.identifier objCalleeVoid) .void 0 false .void []
      callNoArgsStart callNoArgsAfter rfl h).1,
    by decide!⟩

/-! ## Statements keep the destinations of `break` and `continue` -/

theorem ofDests_breakDest : OfDests Parser.breakDest := fun _ _ h _ => h

theorem ofDests_continueDest : OfDests Parser.continueDest := fun _ _ _ h => h

theorem keepsField_of_stmtKept (f : Parser → Option Nat) (hf : OfDests f) {α : Type} (m : PM α)
    [h : KeepsStmtState m] : KeepsField f m :=
  ⟨fun s a s' hm => hf _ _ (h.keeps s a s' hm).breakDest (h.keeps s a s' hm).continueDest⟩

theorem keepsField_bind {α β : Type} {f : Parser → Option Nat} {m : PM α} {g : α → PM β}
    (hm : KeepsField f m) (hg : ∀ a, KeepsField f (g a)) : KeepsField f (m >>= g) := by
  constructor
  intro s b s' h
  rw [run_bind] at h
  cases h1 : m s with
  | ok a s1 =>
    rw [h1, andThen_ok] at h
    rw [(hg a).keeps s1 b s' h, hm.keeps s a s1 h1]
  | fail e s1 => rw [h1, andThen_fail] at h; cases h

theorem keepsField_ite {α : Type} {f : Parser → Option Nat} {c : Prop} [Decidable c]
    {x y : PM α} (hx : KeepsField f x) (hy : KeepsField f y) :
    KeepsField f (if c then x else y) := by
  by_cases h : c
  · rw [if_pos h]; exact hx
  · rw [if_neg h]; exact hy

theorem keepsField_modifyP (f : Parser → Option Nat) (g : Parser → Parser)
    (h : ∀ s, f (g s) = f s) : KeepsField f (modifyP g) := by
  constructor
  intro s a s' hm
  cases hm
  exact h s

theorem keepsField_NewJumpStmt (f : Parser → Option Nat) (hf : OfDests f) (l : Option Nat) :
    KeepsField f (NewJumpStmt l) := by
  constructor
  intro s a s' hm
  cases hm
  exact hf _ _ rfl rfl

theorem keepsField_FindLabel (f : Parser → Option Nat) (name : String) :
    KeepsField f (FindLabel name) := by
  constructor
  intro s a s' hm
  cases hm
  rfl

theorem keepsField_AddLabel (f : Parser → Option Nat) (hf : OfDests f) (name : String)
    (l : Nat) : KeepsField f (AddLabel name l) :=
  keepsField_modifyP f _ (fun _ => hf _ _ rfl rfl)

theorem keepsField_pushCaseLabel (f : Parser → Option Nat) (hf : OfDests f) (v : Int)
    (l : Nat) : KeepsField f (pushCaseLabel v l) := by
  constructor
  intro s a s' hm
  unfold pushCaseLabel at hm
  split at hm
  · cases hm
  · cases hm
    exact hf _ _ rfl rfl

/-- What lies between `ENTER_LOOP_BODY` and `EXIT_LOOP_BODY` may change the
destinations: the macro restores them. -/
theorem keepsField_loop_bracket (f : Parser → Option Nat) (hf : OfDests f) {α β : Type}
    (b c : Nat) (m : PM α) (k : α → Unit → PM β) (hk : ∀ x u, KeepsField f (k x u)) :
    KeepsField f (ENTER_LOOP_BODY b c >>= fun backup =>
      m >>= fun x => EXIT_LOOP_BODY backup >>= k x) := by
  constructor
  intro s y s' h
  rw [run_bind] at h
  have hE : ENTER_LOOP_BODY b c s = .ok (s.breakDest, s.continueDest)
      { s with breakDest := some b, continueDest := some c } := rfl
  rw [hE, andThen_ok, run_bind] at h
  cases h1 : m { s with breakDest := some b, continueDest := some c } with
  | fail e s1 => rw [h1, andThen_fail] at h; cases h
  | ok x s1 =>
    rw [h1, andThen_ok, run_bind] at h
    have hX : EXIT_LOOP_BODY (s.breakDest, s.continueDest) s1
        = .ok () { s1 with breakDest := s.breakDest, continueDest := s.continueDest } := rfl
    rw [hX, andThen_ok] at h
    rw [(hk x ()).keeps _ y s' h]
    exact hf _ _ rfl rfl

theorem keepsField_ParseCompoundStmt_loop (f : Parser → Option Nat) (hf : OfDests f) (r : Rec) [RecKeepsStmt r]
    (hS : KeepsField f r.ParseStmt) (hL : ∀ l, KeepsField f (r.loopCompoundStmt l))
    (stmts : List Stmt) : KeepsField f (ParseCompoundStmt.loop r stmts) := by
  unfold ParseCompoundStmt.loop
  try dsimp only []
  repeat' (first
    | exact keepsField_of_stmtKept f hf _
    | exact hS
    | exact hL _
    | exact keepsField_NewJumpStmt f hf _
    | exact keepsField_FindLabel f _
    | exact keepsField_AddLabel f hf _ _
    | exact keepsField_pushCaseLabel f hf _ _
    | exact keepsField_modifyP f _ (fun _ => hf _ _ rfl rfl)
    | apply keepsField_loop_bracket f hf
    | apply keepsField_bind
    | apply keepsField_ite
    | intro _
    | split)

theorem keepsField_ParseCompoundStmt (f : Parser → Option Nat) (hf : OfDests f) (r : Rec) [RecKeepsStmt r]
    (hS : KeepsField f r.ParseStmt) (hL : ∀ l, KeepsField f (r.loopCompoundStmt l))
    : KeepsField f (ParseCompoundStmt r) := by
  have h0 := keepsField_ParseCompoundStmt_loop f hf r hS hL
  unfold ParseCompoundStmt
  try dsimp only []
  repeat' (first
    | exact keepsField_of_stmtKept f hf _
    | exact hS
    | exact h0
    | exact h0 _
    | exact hL _
    | exact keepsField_NewJumpStmt f hf _
    | exact keepsField_FindLabel f _
    | exact keepsField_AddLabel f hf _ _
    | exact keepsField_pushCaseLabel f hf _ _
    | exact keepsField_modifyP f _ (fun _ => hf _ _ rfl rfl)
    | apply keepsField_loop_bracket f hf
    | apply keepsField_bind
    | apply keepsField_ite
    | intro _
    | split)

theorem keepsField_ParseIfStmt (f : Parser → Option Nat) (hf : OfDests f) (r : Rec) [RecKeepsStmt r]
    (hS : KeepsField f r.ParseStmt) (hL : ∀ l, KeepsField f (r.loopCompoundStmt l))
    : KeepsField f (ParseIfStmt r) := by
  unfold ParseIfStmt
  try dsimp only []
  repeat' (first
    | exact keepsField_of_stmtKept f hf _
    | exact hS
    | exact hL _
    | exact keepsField_NewJumpStmt f hf _
    | exact keepsField_FindLabel f _
    | exact keepsField_AddLabel f hf _ _
    | exact keepsField_pushCaseLabel f hf _ _
    | exact keepsField_modifyP f _ (fun _ => hf _ _ rfl rfl)
    | apply keepsField_loop_bracket f hf
    | apply keepsField_bind
    | apply keepsField_ite
    | intro _
    | split)

theorem keepsField_ParseForStmt_body (f : Parser → Option Nat) (hf : OfDests f) (r : Rec) [RecKeepsStmt r]
    (hS : KeepsField f r.ParseStmt) (hL : ∀ l, KeepsField f (r.loopCompoundStmt l))
    : KeepsField f (ParseForStmt.body r) := by
  unfold ParseForStmt.body
  try dsimp only []
  repeat' (first
    | exact keepsField_of_stmtKept f hf _
    | exact hS
    | exact hL _
    | exact keepsField_NewJumpStmt f hf _
    | exact keepsField_FindLabel f _
    | exact keepsField_AddLabel f hf _ _
    | exact keepsField_pushCaseLabel f hf _ _
    | exact keepsField_modifyP f _ (fun _ => hf _ _ rfl rfl)
    | apply keepsField_loop_bracket f hf
    | apply keepsField_bind
    | apply keepsField_ite
    | intro _
    | split)

theorem keepsField_ParseForStmt (f : Parser → Option Nat) (hf : OfDests f) (r : Rec) [RecKeepsStmt r]
    (hS : KeepsField f r.ParseStmt) (hL : ∀ l, KeepsField f (r.loopCompoundStmt l))
    : KeepsField f (ParseForStmt r) := by
  have h0 := keepsField_ParseForStmt_body f hf r hS hL
  unfold ParseForStmt
  try dsimp only []
  repeat' (first
    | exact keepsField_of_stmtKept f hf _
    | exact hS
    | exact h0
    | exact h0 _
    | exact hL _
    | exact keepsField_NewJumpStmt f hf _
    | exact keepsField_FindLabel f _
    | exact keepsField_AddLabel f hf _ _
    | exact keepsField_pushCaseLabel f hf _ _
    | exact keepsField_modifyP f _ (fun _ => hf _ _ rfl rfl)
    | apply keepsField_loop_bracket f hf
    | apply keepsField_bind
    | apply keepsField_ite
    | intro _
    | split)

theorem keepsField_ParseWhileStmt (f : Parser → Option Nat) (hf : OfDests f) (r : Rec) [RecKeepsStmt r]
    (hS : KeepsField f r.ParseStmt) (hL : ∀ l, KeepsField f (r.loopCompoundStmt l))
    : KeepsField f (ParseWhileStmt r) := by
  unfold ParseWhileStmt
  try dsimp only []
  repeat' (first
    | exact keepsField_of_stmtKept f hf _
    | exact hS
    | exact hL _
    | exact keepsField_NewJumpStmt f hf _
    | exact keepsField_FindLabel f _
    | exact keepsField_AddLabel f hf _ _
    | exact keepsField_pushCaseLabel f hf _ _
    | exact keepsField_modifyP f _ (fun _ => hf _ _ rfl rfl)
    | apply keepsField_loop_bracket f hf
    | apply keepsField_bind
    | apply keepsField_ite
    | intro _
    | split)

theorem keepsField_ParseDoStmt (f : Parser → Option Nat) (hf : OfDests f) (r : Rec) [RecKeepsStmt r]
    (hS : KeepsField f r.ParseStmt) (hL : ∀ l, KeepsField f (r.loopCompoundStmt l))
    : KeepsField f (ParseDoStmt r) := by
  unfold ParseDoStmt
  try dsimp only []
  repeat' (first
    | exact keepsField_of_stmtKept f hf _
    | exact hS
    | exact hL _
    | exact keepsField_NewJumpStmt f hf _
    | exact keepsField_FindLabel f _
    | exact keepsField_AddLabel f hf _ _
    | exact keepsField_pushCaseLabel f hf _ _
    | exact keepsField_modifyP f _ (fun _ => hf _ _ rfl rfl)
    | apply keepsField_loop_bracket f hf
    | apply keepsField_bind
    | apply keepsField_ite
    | intro _
    | split)

theorem keepsField_ParseCaseStmt (f : Parser → Option Nat) (hf : OfDests f) (r : Rec) [RecKeepsStmt r]
    (hS : KeepsField f r.ParseStmt) (hL : ∀ l, KeepsField f (r.loopCompoundStmt l))
    : KeepsField f (ParseCaseStmt r) := by
  unfold ParseCaseStmt
  try dsimp only []
  repeat' (first
    | exact keepsField_of_stmtKept f hf _
    | exact hS
    | exact hL _
    | exact keepsField_NewJumpStmt f hf _
    | exact keepsField_FindLabel f _
    | exact keepsField_AddLabel f hf _ _
    | exact keepsField_pushCaseLabel f hf _ _
    | exact keepsField_modifyP f _ (fun _ => hf _ _ rfl rfl)
    | apply keepsField_loop_bracket f hf
    | apply keepsField_bind
    | apply keepsField_ite
    | intro _
    | split)

theorem keepsField_ParseDefaultStmt (f : Parser → Option Nat) (hf : OfDests f) (r : Rec) [RecKeepsStmt r]
    (hS : KeepsField f r.ParseStmt) (hL : ∀ l, KeepsField f (r.loopCompoundStmt l))
    : KeepsField f (ParseDefaultStmt r) := by
  unfold ParseDefaultStmt
  try dsimp only []
  repeat' (first
    | exact keepsField_of_stmtKept f hf _
    | exact hS
    | exact hL _
    | exact keepsField_NewJumpStmt f hf _
    | exact keepsField_FindLabel f _
    | exact keepsField_AddLabel f hf _ _
    | exact keepsField_pushCaseLabel f hf _ _
    | exact keepsField_modifyP f _ (fun _ => hf _ _ rfl rfl)
    | apply keepsField_loop_bracket f hf
    | apply keepsField_bind
    | apply keepsField_ite
    | intro _
    | split)

theorem keepsField_ParseContinueStmt (f : Parser → Option Nat) (hf : OfDests f) (r : Rec) [RecKeepsStmt r]
    (hS : KeepsField f r.ParseStmt) (hL : ∀ l, KeepsField f (r.loopCompoundStmt l))
    : KeepsField f (ParseContinueStmt) := by
  unfold ParseContinueStmt
  try dsimp only []
  repeat' (first
    | exact keepsField_of_stmtKept f hf _
    | exact hS
    | exact hL _
    | exact keepsField_NewJumpStmt f hf _
    | exact keepsField_FindLabel f _
    | exact keepsField_AddLabel f hf _ _
    | exact keepsField_pushCaseLabel f hf _ _
    | exact keepsField_modifyP f _ (fun _ => hf _ _ rfl rfl)
    | apply keepsField_loop_bracket f hf
    | apply keepsField_bind
    | apply keepsField_ite
    | intro _
    | split)

theorem keepsField_ParseBreakStmt (f : Parser → Option Nat) (hf : OfDests f) (r : Rec) [RecKeepsStmt r]
    (hS : KeepsField f r.ParseStmt) (hL : ∀ l, KeepsField f (r.loopCompoundStmt l))
    : KeepsField f (ParseBreakStmt) := by
  unfold ParseBreakStmt
  try dsimp only []
  repeat' (first
    | exact keepsField_of_stmtKept f hf _
    | exact hS
    | exact hL _
    | exact keepsField_NewJumpStmt f hf _
    | exact keepsField_FindLabel f _
    | exact keepsField_AddLabel f hf _ _
    | exact keepsField_pushCaseLabel f hf _ _
    | exact keepsField_modifyP f _ (fun _ => hf _ _ rfl rfl)
    | apply keepsField_loop_bracket f hf
    | apply keepsField_bind
    | apply keepsField_ite
    | intro _
    | split)

theorem keepsField_ParseReturnStmt (f : Parser → Option Nat) (hf : OfDests f) (r : Rec) [RecKeepsStmt r]
    (hS : KeepsField f r.ParseStmt) (hL : ∀ l, KeepsField f (r.loopCompoundStmt l))
    : KeepsField f (ParseReturnStmt r) := by
  unfold ParseReturnStmt
  try dsimp only []
  repeat' (first
    | exact keepsField_of_stmtKept f hf _
    | exact hS
    | exact hL _
    | exact keepsField_NewJumpStmt f hf _
    | exact keepsField_FindLabel f _
    | exact keepsField_AddLabel f hf _ _
    | exact keepsField_pushCaseLabel f hf _ _
    | exact keepsField_modifyP f _ (fun _ => hf _ _ rfl rfl)
    | apply keepsField_loop_bracket f hf
    | apply keepsField_bind
    | apply keepsField_ite
    | intro _
    | split)

theorem keepsField_ParseGotoStmt (f : Parser → Option Nat) (hf : OfDests f) (r : Rec) [RecKeepsStmt r]
    (hS : KeepsField f r.ParseStmt) (hL : ∀ l, KeepsField f (r.loopCompoundStmt l))
    : KeepsField f (ParseGotoStmt) := by
  unfold ParseGotoStmt
  try dsimp only []
  repeat' (first
    | exact keepsField_of_stmtKept f hf _
    | exact hS
    | exact hL _
    | exact keepsField_NewJumpStmt f hf _
    | exact keepsField_FindLabel f _
    | exact keepsField_AddLabel f hf _ _
    | exact keepsField_pushCaseLabel f hf _ _
    | exact keepsField_modifyP f _ (fun _ => hf _ _ rfl rfl)
    | apply keepsField_loop_bracket f hf
    | apply keepsField_bind
    | apply keepsField_ite
    | intro _
    | split)

theorem keepsField_ParseLabelStmt (f : Parser → Option Nat) (hf : OfDests f) (r : Rec) [RecKeepsStmt r]
    (hS : KeepsField f r.ParseStmt) (hL : ∀ l, KeepsField f (r.loopCompoundStmt l))
    (label : Token) : KeepsField f (ParseLabelStmt r label) := by
  unfold ParseLabelStmt
  try dsimp only []
  repeat' (first
    | exact keepsField_of_stmtKept f hf _
    | exact hS
    | exact hL _
    | exact keepsField_NewJumpStmt f hf _
    | exact keepsField_FindLabel f _
    | exact keepsField_AddLabel f hf _ _
    | exact keepsField_pushCaseLabel f hf _ _
    | exact keepsField_modifyP f _ (fun _ => hf _ _ rfl rfl)
    | apply keepsField_loop_bracket f hf
    | apply keepsField_bind
    | apply keepsField_ite
    | intro _
    | split)

theorem keepsField_tests (f : Parser → Option Nat) (hf : OfDests f) (tok : Token) (t : Expr) :
    ∀ l, KeepsField f (ParseSwitchStmt.tests tok t l)
  | [] => keepsField_of_stmtKept f hf (pure [])
  | (val, label) :: rest => by
    have ih := keepsField_tests f hf tok t rest
    unfold ParseSwitchStmt.tests
    try dsimp only []
    repeat' (first
      | exact keepsField_of_stmtKept f hf _
      | exact ih
      | exact keepsField_NewJumpStmt f hf _
      | apply keepsField_bind
      | intro _)

theorem keepsCont_ENTER_SWITCH_BODY (b : Nat) :
    KeepsField Parser.continueDest (ENTER_SWITCH_BODY b) :=
  ⟨fun s a s' h => by cases h; rfl⟩

theorem keepsCont_EXIT_SWITCH_BODY (b : SwitchBackup) :
    KeepsField Parser.continueDest (EXIT_SWITCH_BODY b) :=
  keepsField_modifyP _ _ (fun _ => rfl)

/-- `ParseSwitchStmt` keeps `_continueDest` if its body does. -/
theorem keepsCont_ParseSwitchStmt (r : Rec) [RecKeepsStmt r]
    (hS : KeepsField Parser.continueDest r.ParseStmt) :
    KeepsField Parser.continueDest (ParseSwitchStmt r) := by
  unfold ParseSwitchStmt
  try dsimp only []
  repeat' (first
    | exact keepsField_of_stmtKept _ ofDests_continueDest _
    | exact hS
    | exact keepsField_NewJumpStmt _ ofDests_continueDest _
    | exact keepsField_tests _ ofDests_continueDest _ _ _
    | exact keepsCont_ENTER_SWITCH_BODY _
    | exact keepsCont_EXIT_SWITCH_BODY _
    | apply keepsField_bind
    | intro _)

theorem endsWith_bind {α β : Type} {f : Parser → Option Nat} {x : Option Nat} (m : PM α)
    {g : α → PM β} (hg : ∀ a, EndsWith f x (g a)) : EndsWith f x (m >>= g) := by
  constructor
  intro s b s' h
  rw [run_bind] at h
  cases h1 : m s with
  | ok a s1 => rw [h1, andThen_ok] at h; exact (hg a).ends s1 b s' h
  | fail e s1 => rw [h1, andThen_fail] at h; cases h

theorem endsWith_EXIT_SWITCH_BODY {β : Type} (b : SwitchBackup) (y : β) :
    EndsWith Parser.breakDest b.breakDestBackup (EXIT_SWITCH_BODY b >>= fun _ => pure y) :=
  ⟨fun s a s' h => by cases h; rfl⟩

/-- After `ENTER_SWITCH_BODY`, what ends with the backup of `_breakDest`
keeps `_breakDest`. -/
theorem keepsBreak_ENTER_SWITCH_BODY {β : Type} (b : Nat) (F : SwitchBackup → PM β)
    (hF : ∀ backup, EndsWith Parser.breakDest backup.breakDestBackup (F backup)) :
    KeepsField Parser.breakDest (ENTER_SWITCH_BODY b >>= F) := by
  constructor
  intro s y s' h
  rw [run_bind] at h
  have hE : ENTER_SWITCH_BODY b s
      = .ok { caseLabelsBackup := s.caseLabels, defaultLabelBackup := s.defaultLabel,
              breakDestBackup := s.breakDest }
          { s with breakDest := some b, caseLabels := some [] } := rfl
  rw [hE, andThen_ok] at h
  exact (hF _).ends _ y s' h

/-- `ParseSwitchStmt` keeps `_breakDest`, whatever its body does. -/
theorem keepsBreak_ParseSwitchStmt (r : Rec) [RecKeepsStmt r] :
    KeepsField Parser.breakDest (ParseSwitchStmt r) := by
  unfold ParseSwitchStmt
  try dsimp only []
  repeat' (first
    | exact keepsField_of_stmtKept _ ofDests_breakDest _
    | exact keepsField_NewJumpStmt _ ofDests_breakDest _
    | (apply keepsBreak_ENTER_SWITCH_BODY; intro backup;
       repeat' (first
        | exact endsWith_EXIT_SWITCH_BODY _ _
        | (apply endsWith_bind; intro _)))
    | apply keepsField_bind
    | intro _)

/-- `ParseStmt` keeps a destination if `ParseSwitchStmt` and the statements
it contains do. -/
theorem keepsField_ParseStmt (f : Parser → Option Nat) (hf : OfDests f) (r : Rec)
    [RecKeepsStmt r] (hS : KeepsField f r.ParseStmt)
    (hL : ∀ l, KeepsField f (r.loopCompoundStmt l))
    (hsw : KeepsField f (ParseSwitchStmt r)) : KeepsField f (ParseStmt r) := by
  have h1 := keepsField_ParseCompoundStmt f hf r hS hL
  have h2 := keepsField_ParseIfStmt f hf r hS hL
  have h3 := keepsField_ParseWhileStmt f hf r hS hL
  have h4 := keepsField_ParseDoStmt f hf r hS hL
  have h5 := keepsField_ParseForStmt f hf r hS hL
  have h6 := keepsField_ParseGotoStmt f hf r hS hL
  have h7 := keepsField_ParseContinueStmt f hf r hS hL
  have h8 := keepsField_ParseBreakStmt f hf r hS hL
  have h9 := keepsField_ParseReturnStmt f hf r hS hL
  have h10 := keepsField_ParseCaseStmt f hf r hS hL
  have h11 := keepsField_ParseDefaultStmt f hf r hS hL
  have h12 := keepsField_ParseLabelStmt f hf r hS hL
  unfold ParseStmt
  try dsimp only []
  repeat' (first
    | exact keepsField_of_stmtKept f hf _
    | exact hsw | exact h1 | exact h2 | exact h3 | exact h4 | exact h5 | exact h6 | exact h7
    | exact h8 | exact h9 | exact h10 | exact h11 | exact h12 _
    | apply keepsField_bind
    | apply keepsField_ite
    | intro _)

theorem keepsField_fail (f : Parser → Option Nat) {α : Type} (e : Fail) :
    KeepsField f (PM.fail e : PM α) :=
  ⟨fun s a s' h => by cases h⟩

/-- With any fuel, `ParseStmt` and the loop of `ParseCompoundStmt` keep
`_breakDest` and `_continueDest` whenever they return. -/
theorem parser_keepsDests : ∀ fuel : Nat,
    KeepsField Parser.breakDest (parser fuel).ParseStmt
      ∧ KeepsField Parser.continueDest (parser fuel).ParseStmt
      ∧ (∀ l, KeepsField Parser.breakDest ((parser fuel).loopCompoundStmt l))
      ∧ (∀ l, KeepsField Parser.continueDest ((parser fuel).loopCompoundStmt l))
  | 0 => ⟨keepsField_fail _ _, keepsField_fail _ _, fun _ => keepsField_fail _ _,
      fun _ => keepsField_fail _ _⟩
  | fuel + 1 => by
    obtain ⟨hb, hc, hlb, hlc⟩ := parser_keepsDests fuel
    exact ⟨keepsField_ParseStmt _ ofDests_breakDest (parser fuel) hb hlb
        (keepsBreak_ParseSwitchStmt (parser fuel)),
      keepsField_ParseStmt _ ofDests_continueDest (parser fuel) hc hlc
        (keepsCont_ParseSwitchStmt (parser fuel) hc),
      fun l => keepsField_ParseCompoundStmt_loop _ ofDests_breakDest (parser fuel) hb hlb l,
      fun l => keepsField_ParseCompoundStmt_loop _ ofDests_continueDest (parser fuel) hc hlc l⟩

/-- `Expect` always returns; it moves the cursor and may add a diagnostic,
and nothing else. -/
theorem Expect1_returns (tag : Tag) (s : Parser) :
    ∃ sE, Expect1 tag s = .ok () sE ∧ sE.nextId = s.nextId ∧ sE.jumps = s.jumps
      ∧ sE.breakDest = s.breakDest ∧ sE.continueDest = s.continueDest
      ∧ sE.errors = s.errors ++
          if (tokAt s.toks s.pos).tag = tag then []
          else [{ coord := (tokAt s.toks s.pos).coord, fmt := "'%s' expected, but got '%s'",
                  args := [Token.Lexeme tag, (tokAt s.toks s.pos).str] }] := by
  by_cases h : (tokAt s.toks s.pos).tag = tag
  · exact ⟨_, Expect1_match tag s h, rfl, rfl, rfl, rfl, by rw [if_pos h, List.append_nil]⟩
  · have hb : ((tokAt s.toks s.pos).tag != tag) = true := by simpa using h
    refine ⟨(Expect1 tag s).state, ?_, ?_⟩
    · unfold Expect1 Expect
      simp only [run_bind, Next_run, andThen_ok, hb, if_true, PutBack, modifyP, Error, Panic]
      rfl
    · unfold Expect1 Expect
      simp only [run_bind, Next_run, andThen_ok, hb, if_true, PutBack, modifyP, Error, Panic,
        Res.state, if_neg h]
      exact ⟨trivial, trivial, trivial, trivial, trivial⟩

/-! ## C35: the loop of `ParseTranslationUnit` at a `;` -/

theorem ParseDeclSpec_atSemicolon (r : Rec) (s : Parser)
    (h : (tokAt s.toks s.pos).tag = .chr ';') :
    ParseDeclSpec r false s =
      .ok { type := .null, storageSpec := 0, funcSpec := 0 }
        { s with errors := s.errors ++ [expectTypeSpec (tokAt s.toks s.pos).coord] } := by
  have hq : (tokAt s.toks s.pos).IsTypeSpecQual = false := by
    simp only [Token.IsTypeSpecQual, h]
  have hi : (tokAt s.toks s.pos).IsIdentifier = false := by
    simp only [Token.IsIdentifier, h, beq_iff_eq, reduceCtorEq]
    rfl
  unfold ParseDeclSpec ParseDeclSpec.loop
  simp only [run_bind, Next_run, andThen_ok, h, beq_iff_eq, reduceCtorEq, Tag.kw.injEq,
    if_false, if_true, Bool.or_self, Bool.false_eq_true, beq_self_eq_true, IsTypeName, hq,
    isTypedefName, hi, ParseDeclSpec.endOfLoop, PutBack, modifyP, ErrorIf_run, run_pure]
  rw [if_neg (by decide)]
  simp only [run_bind, isTypedefName, hi, Bool.false_eq_true, if_false, andThen_ok, modifyP,
    ErrorIf_run, run_pure, if_true]
  rfl

theorem ParseDeclarator_atSemicolon (r : Rec) (s : Parser)
    (h : (tokAt s.toks s.pos).tag = .chr ';') :
    ParseDeclarator r .null s =
      .ok { first := none, second := .null }
        { s with errTok := some (tokAt s.toks s.pos) } := by
  have hi : (tokAt s.toks s.pos).IsIdentifier = false := by
    simp only [Token.IsIdentifier, h, beq_iff_eq, reduceCtorEq]
    rfl
  unfold ParseDeclarator ParsePointer ParsePointer.loop
  simp only [run_bind, Try, h, beq_iff_eq, reduceCtorEq, Tag.chr.injEq, Char.reduceEq, if_false,
    andThen_ok, run_pure, Bool.false_eq_true, Peek, hi, setErrTok]

/-- At a `;`, `IsFuncDef` answers no and leaves a diagnostic and `_errTok`
behind. -/
theorem IsFuncDef_atSemicolon_any (r : Rec) (s : Parser)
    (h : (tokAt s.toks s.pos).tag = .chr ';') :
    IsFuncDef r s =
      .ok false
        { s with errors := s.errors ++ [expectTypeSpec (tokAt s.toks s.pos).coord],
                 errTok := some (tokAt s.toks s.pos) } := by
  have h1 : ParseDeclSpec r false { s with marks := s.pos :: s.marks } = _ :=
    ParseDeclSpec_atSemicolon r { s with marks := s.pos :: s.marks } h
  have h2 : ParseDeclarator r .null
      { s with marks := s.pos :: s.marks,
               errors := s.errors ++ [expectTypeSpec (tokAt s.toks s.pos).coord] } = _ :=
    ParseDeclarator_atSemicolon r _ h
  unfold IsFuncDef
  simp only [run_bind, Test, h, beq_iff_eq, reduceCtorEq, Tag.chr.injEq, Char.reduceEq, if_false,
    andThen_ok, Bool.false_eq_true, Mark, modifyP, h1, h2, run_pure, beq_self_eq_true, if_true,
    Release, Bool.not_true]

/-- At a `;`, `ParseDecl` consumes nothing. -/
theorem ParseDecl_atSemicolon_any (r : Rec) (s : Parser)
    (h : (tokAt s.toks s.pos).tag = .chr ';') :
    ParseDecl r s =
      .ok (.compoundStmt [])
        { s with errors := s.errors ++ [expectTypeSpec (tokAt s.toks s.pos).coord] } := by
  unfold ParseDecl
  simp only [run_bind, Try, Test, h, beq_iff_eq, reduceCtorEq, Tag.chr.injEq, Char.reduceEq,
    if_false, andThen_ok, Bool.false_eq_true, ParseDeclSpec_atSemicolon r s h, run_pure,
    NewCompoundStmt]

/-- One iteration of the loop of `ParseTranslationUnit` at a `;` consumes
nothing and goes on to the next iteration. -/
theorem ParseTranslationUnit_loop_atSemicolon (r : Rec) (s : Parser)
    (h : (tokAt s.toks s.pos).tag = .chr ';') :
    ParseTranslationUnit.loop r s = r.loopTranslationUnit (afterSemicolon s) := by
  have h0 : (tokAt s.toks s.pos).IsEOF = false := by
    simp only [Token.IsEOF, h, beq_iff_eq, reduceCtorEq]
    rfl
  rw [ParseTranslationUnit_loop_decl r s _ _ _ h0 (IsFuncDef_atSemicolon_any r s h)
    (ParseDecl_atSemicolon_any r _ h)]
  simp only [afterSemicolon, List.append_assoc, List.singleton_append]

/-- At a `;` the loop of `ParseTranslationUnit` never returns: with any fuel
the run is cut off with the cursor where it was. -/
theorem stuck_atSemicolon : ∀ (fuel : Nat) (s : Parser),
    (tokAt s.toks s.pos).tag = .chr ';' →
    (ParseTranslationUnit.loop (parser fuel) s).failure? = some .outOfFuel ∧
    (ParseTranslationUnit.loop (parser fuel) s).state.pos = s.pos ∧
    (ParseTranslationUnit.loop (parser fuel) s).state.toks = s.toks
  | 0, s, h => by
    rw [ParseTranslationUnit_loop_atSemicolon _ _ h]
    exact ⟨rfl, rfl, rfl⟩
  | fuel + 1, s, h => by
    rw [ParseTranslationUnit_loop_atSemicolon _ _ h]
    exact stuck_atSemicolon fuel (afterSemicolon s) h


set_option maxRecDepth 100000 in
theorem IsFuncDef_intSemicolon (r : Rec) :
    IsFuncDef (stepRec r) (stateAt toksIntSemicolon) = .ok false intSemicolonLooked := by
  rfl

set_option maxRecDepth 100000 in
theorem ParseDecl_intSemicolon (r : Rec) :
    ParseDecl (stepRec r) intSemicolonLooked = .ok (.compoundStmt []) intSemicolonDeclared := by
  rfl

set_option maxRecDepth 100000 in
theorem IsFuncDef_structSemicolon (r : Rec) :
    IsFuncDef (stepRec r) (stateAt toksStructSemicolon) = .ok false structSemicolonLooked := by
  rfl

set_option maxRecDepth 100000 in
theorem ParseDecl_structSemicolon (r : Rec) :
    ParseDecl (stepRec r) structSemicolonLooked
      = .ok (.compoundStmt []) structSemicolonDeclared := by
  rfl

/-- On `int ;` the parse never returns. -/
theorem stuck_intSemicolon : ∀ fuel : Nat,
    (ParseTranslationUnit (parser fuel) (stateAt toksIntSemicolon)).failure?
      = some .outOfFuel
  | 0 => by decide!
  | fuel + 1 => by
    have h := stuck_atSemicolon fuel
      { intSemicolonDeclared with unit := intSemicolonDeclared.unit ++ [.compoundStmt []] }
      (by decide!)
    have h1 : ParseTranslationUnit (parser (fuel + 1)) (stateAt toksIntSemicolon)
        = ParseTranslationUnit.loop (parser fuel)
            { intSemicolonDeclared with
                unit := intSemicolonDeclared.unit ++ [.compoundStmt []] } :=
      ParseTranslationUnit_loop_decl (stepRec (parser fuel)) (stateAt toksIntSemicolon) _ _ _
        (by decide!) (IsFuncDef_intSemicolon _) (ParseDecl_intSemicolon _)
    rw [h1]
    exact h.1

/-- On `struct S ;` the parse never returns. -/
theorem stuck_structSemicolon : ∀ fuel : Nat,
    (ParseTranslationUnit (parser fuel) (stateAt toksStructSemicolon)).failure?
      = some .outOfFuel
  | 0 => by decide!
  | fuel + 1 => by
    have h := stuck_atSemicolon fuel
      { structSemicolonDeclared with
          unit := structSemicolonDeclared.unit ++ [.compoundStmt []] }
      (by decide!)
    have h1 : ParseTranslationUnit (parser (fuel + 1)) (stateAt toksStructSemicolon)
        = ParseTranslationUnit.loop (parser fuel)
            { structSemicolonDeclared with
                unit := structSemicolonDeclared.unit ++ [.compoundStmt []] } :=
      ParseTranslationUnit_loop_decl (stepRec (parser fuel)) (stateAt toksStructSemicolon) _ _ _
        (by decide!) (IsFuncDef_structSemicolon _) (ParseDecl_structSemicolon _)
    rw [h1]
    exact h.1

/-- C35: `ParseTranslationUnit` does not terminate on every token stream.
When the next token at the top level is a `;`, an iteration of its loop
(`IsFuncDef`, then `ParseDecl`) consumes no token: `ParseDecl` calls
`Expect(';')` only after a declarator.  So from any state at a `;` the loop
never returns, with any amount of fuel, and the cursor stays where it is;
the parses of `;`, of `int ;` and of `struct S ;` never return. -/
theorem ParseTranslationUnit_stuck_at_semicolon (fuel : Nat) (s : Parser)
    (h : (tokAt s.toks s.pos).tag = .chr ';') :
    (∀ r, ParseTranslationUnit.loop r s = r.loopTranslationUnit (afterSemicolon s))
      ∧ (afterSemicolon s).pos = s.pos ∧ (afterSemicolon s).toks = s.toks
      ∧ (ParseTranslationUnit.loop (parser fuel) s).failure? = some .outOfFuel
      ∧ (ParseTranslationUnit.loop (parser fuel) s).state.pos = s.pos
      ∧ (∀ n, (ParseTranslationUnit (parser n) (stateAt toksSemicolon)).failure?
          = some .outOfFuel)
      ∧ (∀ n, (ParseTranslationUnit (parser n) (stateAt toksIntSemicolon)).failure?
          = some .outOfFuel)
      ∧ (∀ n, (ParseTranslationUnit (parser n) (stateAt toksStructSemicolon)).failure?
          = some .outOfFuel) :=
  ⟨fun r => ParseTranslationUnit_loop_atSemicolon r s h, rfl, rfl,
    (stuck_atSemicolon fuel s h).1, (stuck_atSemicolon fuel s h).2.1,
    fun n => (stuck_atSemicolon n (stateAt toksSemicolon) (by decide!)).1,
    stuck_intSemicolon, stuck_structSemicolon⟩

/-- The translation unit `;`: with 100 units of fuel the run is cut off with
the cursor at the `;`. -/
theorem ParseTranslationUnit_stuck_at_semicolon_witness :
    (tokAt (stateAt toksSemicolon).toks (stateAt toksSemicolon).pos).tag = .chr ';'
      ∧ (ParseTranslationUnit.loop (parser 100) (stateAt toksSemicolon)).failure?
        = some .outOfFuel
      ∧ (ParseTranslationUnit.loop (parser 100) (stateAt toksSemicolon)).state.pos = 0
      ∧ (ParseTranslationUnit (parser 5) (stateAt toksSemicolon)).state.errors.length = 12 :=
  ⟨by decide!,
    (ParseTranslationUnit_stuck_at_semicolon 100 (stateAt toksSemicolon) (by decide!)).2.2.2.1,
    (ParseTranslationUnit_stuck_at_semicolon 100 (stateAt toksSemicolon) (by decide!)).2.2.2.2.1,
    by decide!⟩

/-! ## C36: the look-ahead of `IsFuncDef` -/

set_option maxRecDepth 100000 in
theorem IsFuncDef_structDef (r : Rec) :
    IsFuncDef (stepRec r) (stateAt toksStructDefX) = .ok false structDefLooked := by
  rfl

/-- C36: `IsFuncDef` changes more than the token cursor.  It runs
`ParseDeclSpec` and `ParseDeclarator` with all their effects and then only
rewinds the cursor: on `struct S { } x ;` it returns (at every recursion
depth but the first) with the cursor back at 0 and with the tag `S` entered in
the tag table of the file scope, which was empty, and with two more handles
allocated.  The parse of the declaration that follows then finds the tag
`S` defined in the scope and reports 'redefinition of struct tag 'S'',
although `ParseDecl` on the same input without the look-ahead reports
nothing and declares `x`.  At a `;` the look-ahead leaves a diagnostic and
`_errTok` behind. -/
theorem IsFuncDef_declares_tag :
    (∀ r, IsFuncDef (stepRec r) (stateAt toksStructDefX) = .ok false structDefLooked)
      ∧ structDefLooked.pos = (stateAt toksStructDefX).pos
      ∧ structDefLooked.marks = (stateAt toksStructDefX).marks
      ∧ tableNames (stateAt toksStructDefX) = [([], [])]
      ∧ tableNames structDefLooked = [(["S"], [])]
      ∧ (stateAt toksStructDefX).nextId = 2 ∧ structDefLooked.nextId = 4
      ∧ ((ParseDecl (parser 40) (stateAt toksStructDefX)).failure? = none
          ∧ (ParseDecl (parser 40) (stateAt toksStructDefX)).state.errors = []
          ∧ tableNames (ParseDecl (parser 40) (stateAt toksStructDefX)).state
            = [(["S"], ["x"])])
      ∧ (ParseDecl (parser 40) structDefLooked).state.errors.take 1
        = [redefinitionOfTag (mkTok (.kw .IDENTIFIER) "S" 1)]
      ∧ (diagsOf toksStructDefX).take 1 = [redefinitionOfTag (mkTok (.kw .IDENTIFIER) "S" 1)]
      ∧ (∀ (r : Rec) (s : Parser), (tokAt s.toks s.pos).tag = .chr ';' →
          IsFuncDef r s =
            .ok false
              { s with errors := s.errors ++ [expectTypeSpec (tokAt s.toks s.pos).coord],
                       errTok := some (tokAt s.toks s.pos) }) :=
  ⟨IsFuncDef_structDef, by decide!, by decide!, by decide!, by decide!, by decide!, by decide!,
    ⟨by decide!, by decide!, by decide!⟩, by decide!, by decide!, IsFuncDef_atSemicolon_any⟩

/-! ## C37: the destination of `continue` -/

/-- The body of `do` is parsed with the begin label as destination of
`continue`. -/
theorem ParseDoStmt_body (r : Rec) (s : Parser) :
    ParseDoStmt r s =
      (r.ParseStmt (doBodyState s)).andThen (fun body sB =>
        ParseDoStmt.rest r s.nextId (s.nextId + 1) (s.nextId + 2)
          (s.breakDest, s.continueDest) body sB) := by
  rfl

/-- `ParseStmt` at `continue ;`. -/
theorem ParseStmt_continue (r : Rec) (s : Parser)
    (hcont : (tokAt s.toks s.pos).tag = .kw .CONTINUE)
    (hsemi : (tokAt s.toks (s.pos + 1)).tag = .chr ';') :
    ParseStmt r s =
      .ok (.jumpStmt s.nextId)
        { s with pos := s.pos + 2, nextId := s.nextId + 1,
                 jumps := (s.nextId, s.continueDest) :: s.jumps,
                 errors := s.errors ++
                   if s.continueDest.isNone then
                     [continueOutside (tokAt s.toks (s.pos + 1)).coord]
                   else [] } := by
  have heof : (tokAt s.toks s.pos).IsEOF = false := by
    simp only [Token.IsEOF, hcont, beq_eq_false_iff_ne, ne_eq, reduceCtorEq, Tag.kw.injEq,
      not_false_eq_true]
  unfold ParseStmt
  simp only [run_bind, Next_run, andThen_ok, ErrorIf_run, heof, hcont, beq_iff_eq, reduceCtorEq,
    Tag.kw.injEq, if_false, if_true, Bool.false_eq_true, List.append_nil]
  unfold ParseContinueStmt Expect1 Expect
  simp only [run_bind, Next_run, andThen_ok, ErrorIf_run, Peek, hsemi, bne_self_eq_false,
    Bool.false_eq_true, if_false, run_pure, getP, NewJumpStmt, freshId, modifyP]
  rfl

/-- The lowering of `ParseForStmt` for a condition that is not null and any
list of init statements. -/
theorem ParseForStmt.lower_body (r : Rec) (stmts : List Stmt) (c step : Expr) (s : Parser)
    (hc : c ≠ .null) :
    ParseForStmt.lower r stmts c step s =
      (r.ParseStmt (forBodyState s)).andThen (fun S sS =>
        .ok (stmts ++ [.labelStmt s.nextId] ++ [.ifStmt c .null (.jumpStmt (s.nextId + 3))]
              ++ [S, .labelStmt (s.nextId + 1), step.toStmt, .jumpStmt sS.nextId,
                  .labelStmt (s.nextId + 2)])
          { sS with breakDest := s.breakDest, continueDest := s.continueDest,
                    nextId := sS.nextId + 1,
                    jumps := (sS.nextId, some s.nextId) :: sS.jumps }) := by
  cases c <;> first
    | exact absurd rfl hc
    | rfl

/-- C37: `continue` in the body of a `for` statement jumps to the label of
the condition, not to the label of the step: after the header with a
condition `c`, the lowered statements are `L_cond` (handle `s.nextId`), the
test, the body, `L_step` (handle `s.nextId + 1`), the step, the jump back
and `L_end`, and the body is parsed in the state `forBodyState s`, whose
destination of `continue` is `L_cond`; `continue;` parsed with that
destination is a jump to `L_cond`, so the step expression is skipped.  In
the body of a `do` statement, parsed in `doBodyState s`, the destination of
`continue` is the begin label (handle `s.nextId`), not the label of the
condition (handle `s.nextId + 1`). -/
theorem continue_destination (r : Rec) (stmts : List Stmt) (c step : Expr) (s : Parser)
    (hc : c ≠ .null) :
    ParseForStmt.lower r stmts c step s =
        (r.ParseStmt (forBodyState s)).andThen (fun S sS =>
          .ok (stmts ++ [.labelStmt s.nextId] ++ [.ifStmt c .null (.jumpStmt (s.nextId + 3))]
                ++ [S, .labelStmt (s.nextId + 1), step.toStmt, .jumpStmt sS.nextId,
                    .labelStmt (s.nextId + 2)])
            { sS with breakDest := s.breakDest, continueDest := s.continueDest,
                      nextId := sS.nextId + 1,
                      jumps := (sS.nextId, some s.nextId) :: sS.jumps })
      ∧ (forBodyState s).continueDest = some s.nextId
      ∧ (forBodyState s).continueDest ≠ some (s.nextId + 1)
      ∧ (∀ r2 sB, sB.continueDest = (forBodyState s).continueDest →
          (tokAt sB.toks sB.pos).tag = .kw .CONTINUE →
          (tokAt sB.toks (sB.pos + 1)).tag = .chr ';' →
          ParseStmt r2 sB =
            .ok (.jumpStmt sB.nextId)
              { sB with pos := sB.pos + 2, nextId := sB.nextId + 1,
                        jumps := (sB.nextId, some s.nextId) :: sB.jumps })
      ∧ (∀ s0, ParseForStmt.body r s0 =
          (ParseForStmt.header r s0).andThen
            (fun h sH => ParseForStmt.lower r h.1 h.2.1 h.2.2 sH))
      ∧ (∀ s0, ParseDoStmt r s0 =
          (r.ParseStmt (doBodyState s0)).andThen (fun body sB =>
            ParseDoStmt.rest r s0.nextId (s0.nextId + 1) (s0.nextId + 2)
              (s0.breakDest, s0.continueDest) body sB))
      ∧ (∀ s0, (doBodyState s0).continueDest = some s0.nextId
          ∧ (doBodyState s0).continueDest ≠ some (s0.nextId + 1))
      ∧ (∀ (r2 : Rec) (b : Nat) (cond : Nat) (e : Nat) (backup : Option Nat × Option Nat)
            (body : Stmt) (sB sE : Parser) (S : Stmt),
          ParseDoStmt.rest r2 b cond e backup body sB = .ok S sE →
          ∃ ifStmt, S = .compoundStmt [.labelStmt b, body, .labelStmt cond, ifStmt,
            .labelStmt e]) := by
  refine ⟨ParseForStmt.lower_body r stmts c step s hc, rfl, ?_, ?_,
    ParseForStmt.body_eq r, ParseDoStmt_body r, fun s0 => ⟨rfl, ?_⟩, ?_⟩
  · intro h
    have h2 : s.nextId = s.nextId + 1 := Option.some.inj h
    omega
  · intro r2 sB hB hcont hsemi
    have hd : sB.continueDest = some s.nextId := hB
    rw [ParseStmt_continue r2 sB hcont hsemi]
    simp only [hd, Option.isNone_some, Bool.false_eq_true, if_false, List.append_nil]
  · intro h
    have h2 : s0.nextId = s0.nextId + 1 := Option.some.inj h
    omega
  · intro r2 b cond e backup body sB sE S
    have key : ∀ s1 S1 s2, ParseDoStmt.rest r2 b cond e backup body s1 = .ok S1 s2 →
        ∃ ifStmt, S1 = .compoundStmt [.labelStmt b, body, .labelStmt cond, ifStmt,
          .labelStmt e] := by
      unfold ParseDoStmt.rest
      repeat (apply returns_bind; intro _)
      exact returns_pure _ _ ⟨_, rfl⟩
    exact key sB S sE

/-- The statement `for ( ; 1 ; 2 ) continue ;`: the jump of `continue`
(handle 7) goes to the label 3 of the condition, the label of the step is 4;
and `do continue ; while ( 1 ) ;`: the jump of `continue` (handle 5) goes to
the begin label 2, the label of the condition is 3. -/
theorem continue_destination_witness :
    constInt 1 ≠ .null
      ∧ ParseStmt (parser 39) (forBodyState (stateAtPos toksForContinue 7)) =
        .ok (.jumpStmt (forBodyState (stateAtPos toksForContinue 7)).nextId)
          { forBodyState (stateAtPos toksForContinue 7) with
              pos := (forBodyState (stateAtPos toksForContinue 7)).pos + 2,
              nextId := (forBodyState (stateAtPos toksForContinue 7)).nextId + 1,
              jumps := ((forBodyState (stateAtPos toksForContinue 7)).nextId,
                  some (stateAtPos toksForContinue 7).nextId)
                :: (forBodyState (stateAtPos toksForContinue 7)).jumps }
      ∧ (ParseStmt (parser 40) (stateAt toksForContinue)).value?
        = some (.compoundStmt
            [.labelStmt 3, .ifStmt (constInt 1) .null (.jumpStmt 6), .jumpStmt 7, .labelStmt 4,
             .expr (constInt 2), .jumpStmt 8, .labelStmt 5])
      ∧ (ParseStmt (parser 40) (stateAt toksForContinue)).state.jumps
        = [(8, some 3), (7, some 3), (6, some 5)]
      ∧ (ParseStmt (parser 40) (stateAt toksForContinue)).state.errors = []
      ∧ (ParseStmt (parser 40) (stateAt toksDoContinue)).value?
        = some (.compoundStmt
            [.labelStmt 2, .jumpStmt 5, .labelStmt 3,
             .ifStmt (constInt 1) (.jumpStmt 6) (.jumpStmt 7), .labelStmt 4])
      ∧ (ParseStmt (parser 40) (stateAt toksDoContinue)).state.jumps
        = [(7, some 4), (6, some 2), (5, some 2)]
      ∧ (ParseStmt (parser 40) (stateAt toksDoContinue)).state.errors = [] :=
  have hc : constInt 1 ≠ .null := fun h => Expr.noConfusion h
  ⟨hc,
    (continue_destination (parser 39) [] (constInt 1) (constInt 2)
      (stateAtPos toksForContinue 7) hc).2.2.2.1 (parser 39)
      (forBodyState (stateAtPos toksForContinue 7)) rfl (by decide!) (by decide!),
    by decide!, by decide!, by decide!, by decide!, by decide!, by decide!⟩

/-! ## C38: type names -/

/-- C38: `ParseTypeName` loses the first `*` of a type name.  After the
specifiers it tests for the start of an abstract declarator with
`Try('*') || Try('(')`, which consumes the token, and only then calls
`ParseAbstractDeclarator`, whose `ParsePointer` sees the stars that are
left.  So after the specifiers of a type `T`, a `*` followed by `)` gives
`T` itself: the type names `int`, `int*`, `int**` and `int***` give `int`,
`int`, pointer to `int` and pointer to pointer to `int`; `sizeof(int*)` is
the width 4 of `int`, not the width 8 of a pointer, and `(int*)0` is a cast
to `int`. -/
theorem ParseTypeName_drops_star (r : Rec) (s s1 : Parser) (spec : DeclSpec)
    (hspec : r.ParseDeclSpec true s = .ok spec s1)
    (hstar : (tokAt s1.toks s1.pos).tag = .chr '*') :
    ParseTypeName r s = ParseAbstractDeclarator r spec.type { s1 with pos := s1.pos + 1 }
      ∧ ((tokAt s1.toks (s1.pos + 1)).tag = .chr ')' →
          ParseTypeName r s =
            .ok spec.type
              { s1 with pos := s1.pos + 1, errTok := some (tokAt s1.toks (s1.pos + 1)) })
      ∧ [0, 1, 2, 3].map (fun n =>
            (ParseTypeName (parser 40) (stateAt (toksTypeName n))).value?)
        = [some tInt, some (pointerTo 0 tInt), some (pointerTo 1 tInt),
           some (pointerTo 2 tInt)]
      ∧ [0, 1, 2, 3].map (fun n =>
            (ParseTypeName (parser 40) (stateAt (toksTypeName n))).state.errors)
        = [[], [], [], []]
      ∧ (ParseExpr (parser 40) (stateAt toksSizeofPointer)).value?
        = some (.constant (.arithm (T_UNSIGNED ||| T_LONG) none) 4)
      ∧ (tInt.width = 4 ∧ (CType.pointer tInt 0).width = 8)
      ∧ (ParseExpr (parser 40) (stateAt toksCastPointer)).value?
        = some (.unaryOp (.kw .CAST) (constInt 0) tInt) := by
  have h1 : ParseTypeName r s
      = ParseAbstractDeclarator r spec.type { s1 with pos := s1.pos + 1 } := by
    unfold ParseTypeName ParseSpecQual
    simp only [run_bind, hspec, andThen_ok, run_pure, Try, hstar, beq_self_eq_true, if_true]
  refine ⟨h1, ?_, by decide!, by decide!, by decide!, ⟨by decide!, by decide!⟩, by decide!⟩
  intro hclose
  have hi : (tokAt s1.toks (s1.pos + 1)).IsIdentifier = false := by
    simp only [Token.IsIdentifier, hclose, beq_iff_eq, reduceCtorEq]
    rfl
  rw [h1]
  unfold ParseAbstractDeclarator ParseDeclarator ParsePointer ParsePointer.loop
  simp only [run_bind, Try, hclose, beq_iff_eq, reduceCtorEq, Tag.chr.injEq, Char.reduceEq,
    if_false, andThen_ok, run_pure, Bool.false_eq_true, Peek, hi, setErrTok]

/-- A run that returned a specifier result with the given three fields is
`.ok` of that result with its state. -/
theorem Res.eq_ok_of_spec (x : Res DeclSpec) (type : CType) (storageSpec funcSpec : Nat)
    (h : x.value?.map (fun d => (d.type, d.storageSpec, d.funcSpec))
      = some (type, storageSpec, funcSpec)) :
    x = .ok { type := type, storageSpec := storageSpec, funcSpec := funcSpec } x.state := by
  cases x with
  | ok d s => cases d; cases h; rfl
  | fail e s => cases h

/-- The type name `int * )`: after the specifier `int` the next token is
the `*` and the one after it the `)`; `ParseTypeName` returns `int`. -/
theorem ParseTypeName_drops_star_witness :
    (parser 40).ParseDeclSpec true (stateAt (toksTypeName 1))
        = .ok { type := tInt, storageSpec := 0, funcSpec := 0 } typeNameAfterSpec
      ∧ (tokAt typeNameAfterSpec.toks typeNameAfterSpec.pos).tag = .chr '*'
      ∧ (tokAt typeNameAfterSpec.toks (typeNameAfterSpec.pos + 1)).tag = .chr ')'
      ∧ ParseTypeName (parser 40) (stateAt (toksTypeName 1)) =
        .ok tInt
          { typeNameAfterSpec with
              pos := typeNameAfterSpec.pos + 1,
              errTok := some (tokAt typeNameAfterSpec.toks (typeNameAfterSpec.pos + 1)) } :=
  have h : (parser 40).ParseDeclSpec true (stateAt (toksTypeName 1))
      = .ok { type := tInt, storageSpec := 0, funcSpec := 0 } typeNameAfterSpec :=
    Res.eq_ok_of_spec _ _ _ _ (by decide!)
  ⟨h, by decide!, by decide!,
    (ParseTypeName_drops_star (parser 40) _ _ _ h (by decide!)).2.1 (by decide!)⟩

/-! ## C39: array initializers -/

/-- Fewer elements of a list are above `d + 1` than above `d` when `d` is in
the list. -/
theorem filter_succ_lt (l : List Nat) (d : Nat) (h : d ∈ l) :
    (l.filter (fun x => decide (d + 1 ≤ x))).length
      < (l.filter (fun x => decide (d ≤ x))).length := by
  induction l with
  | nil => cases h
  | cons x l ih =>
    have hmono : (l.filter (fun x => decide (d + 1 ≤ x))).length
        ≤ (l.filter (fun x => decide (d ≤ x))).length := by
      apply List.Sublist.length_le
      apply List.monotone_filter_right
      intro a ha
      simp only [decide_eq_true_eq] at ha ⊢
      omega
    by_cases hx : x = d
    · subst hx
      simp only [List.filter_cons, Nat.add_one_le_iff, lt_self_iff_false, decide_False,
        Bool.false_eq_true, if_false, le_refl, decide_True, if_true, List.length_cons]
      simp only [Nat.add_one_le_iff] at hmono
      omega
    · have hmem : d ∈ l := by
        cases h with
        | head => exact absurd rfl hx
        | tail _ h => exact h
      have ih := ih hmem
      by_cases hle : d + 1 ≤ x
      · have hle2 : d ≤ x := by omega
        simp only [List.filter_cons, hle, hle2, decide_True, if_true, List.length_cons]
        omega
      · have hle2 : ¬ d ≤ x := by omega
        simp only [List.filter_cons, hle, hle2, decide_False, Bool.false_eq_true, if_false]
        exact ih

/-- The index `nextDefaultIdx` returns is not in the set when the fuel
exceeds the number of members from `d` on. -/
theorem nextDefaultIdx_not_mem (l : List Nat) (fuel d : Nat)
    (h : (l.filter (fun x => decide (d ≤ x))).length < fuel) :
    nextDefaultIdx l fuel d ∉ l := by
  induction fuel generalizing d with
  | zero => omega
  | succ fuel ih =>
    unfold nextDefaultIdx
    by_cases hd : d ∈ l
    · have hc : l.contains d = true := by simpa using hd
      rw [if_pos hc]
      apply ih
      have := filter_succ_lt l d hd
      omega
    · have hc : ¬ l.contains d = true := by simpa using hd
      rw [if_neg hc]
      exact hd

/-- An index that is not in the set is the one `nextDefaultIdx` returns. -/
theorem nextDefaultIdx_of_not_mem (l : List Nat) (fuel d : Nat) (h : d ∉ l) :
    nextDefaultIdx l fuel d = d := by
  cases fuel with
  | zero => rfl
  | succ fuel =>
    unfold nextDefaultIdx
    have hc : ¬ l.contains d = true := by simpa using h
    rw [if_neg hc]

/-- C39: an initializer without a designator does not advance the default
index of `ParseArrayInitializer`.  On a token that is neither `}` nor `[`
the loop consumes that token, computes the first index `d` from
`defaultIdx` on that no designator has named, makes the element at the
offset of the array plus `GetElementOffset(d)`, and parses the initializer
from the token after the consumed one; the next iteration starts with
`defaultIdx = d` and the same `idxSet`, so the next initializer without a
designator gets the index `d` again.  The index `d` is none that a
designator named before.  For an array of `int` at the offset 16: in
`{ 1, 2, 3 }` the first initializer is looked for at the `,`; in
`{ 0 1, 0 2, 0 3 }` the three constants all go to the offset 16;
`{ [0] = 1, [1] = 2 }` targets the offsets 16 and 20; in
`{ [1] = 1, 0 2, 0 3 }` both initializers without a designator go to the
offset 16. -/
theorem ParseArrayInitializer_default_index_kept (r : Rec) (arr : Identifier)
    (v : ArrayInitVars) (s s2 : Parser) (stmt : Stmt)
    (hclose : (tokAt s.toks s.pos).tag ≠ .chr '}')
    (hopen : (tokAt s.toks s.pos).tag ≠ .chr '[')
    (hinit : r.ParseInitializer
        (elementAt arr (nextDefaultIdx v.idxSet (v.idxSet.length + 1) v.defaultIdx) s.nextId)
        { s with pos := s.pos + 1, nextId := s.nextId + 1 } = .ok stmt s2)
    (hcomma : (tokAt s2.toks s2.pos).tag = .chr ',') :
    ParseArrayInitializer.loop r arr v s
        = r.loopArrayInitializer arr
            { v with defaultIdx := nextDefaultIdx v.idxSet (v.idxSet.length + 1) v.defaultIdx,
                     stmts := v.stmts ++ [stmt] }
            { s2 with pos := s2.pos + 1 }
      ∧ nextDefaultIdx v.idxSet (v.idxSet.length + 1)
          (nextDefaultIdx v.idxSet (v.idxSet.length + 1) v.defaultIdx)
        = nextDefaultIdx v.idxSet (v.idxSet.length + 1) v.defaultIdx
      ∧ nextDefaultIdx v.idxSet (v.idxSet.length + 1) v.defaultIdx ∉ v.idxSet
      ∧ ((arrayInit toksInitPlain).value? = none
          ∧ (arrayInit toksInitPlain).state.errors.take 2
            = [{ coord := 1, fmt := "Expect expression", args := [] },
               { coord := 2, fmt := "expect ',' or '\x7d'", args := [] }])
      ∧ ((arrayInit toksInitPairs).value?.map initOffsets = some [(1, 16), (2, 16), (3, 16)]
          ∧ (arrayInit toksInitPairs).state.errors = [])
      ∧ (arrayInit toksInitDesignated).value?.map initOffsets = some [(1, 16), (2, 20)]
      ∧ (arrayInit toksInitMixed).value?.map initOffsets = some [(1, 20), (2, 16), (3, 16)]
      ∧ (diagsOf toksArrayInitDecl).take 1
        = [{ coord := 8, fmt := "Expect expression", args := [] }] := by
  have hnot : nextDefaultIdx v.idxSet (v.idxSet.length + 1) v.defaultIdx ∉ v.idxSet :=
    nextDefaultIdx_not_mem _ _ _ (Nat.lt_succ_of_le (List.length_filter_le _ _))
  refine ⟨?_, nextDefaultIdx_of_not_mem _ _ _ hnot, hnot, ⟨by decide!, by decide!⟩,
    ⟨by decide!, by decide!⟩, by decide!, by decide!, by decide!⟩
  have h1 : ((tokAt s.toks s.pos).tag == Tag.chr '}') = false := by
    simpa using hclose
  have h2 : ((tokAt s.toks s.pos).tag == Tag.chr '[') = false := by
    simpa using hopen
  have hele : ∀ idx, arrayElement arr idx { s with pos := s.pos + 1 }
      = .ok (elementAt arr idx s.nextId) { s with pos := s.pos + 1, nextId := s.nextId + 1 } :=
    fun _ => rfl
  unfold ParseArrayInitializer.loop
  simp only [run_bind, Next_run, andThen_ok, h1, h2, Bool.false_eq_true, if_false, hele, hinit,
    run_pure, Try, hcomma, beq_self_eq_true, if_true, Bool.not_true]

/-- The brace list `{ 0 1, 0 2, 0 3 }` for an array of `int` at the offset
16: the loop starts on the first `0`, the initializer `1` is followed by a
comma, and the next iteration starts with the default index 0 again. -/
theorem ParseArrayInitializer_default_index_kept_witness :
    (tokAt initPairsStart.toks initPairsStart.pos).tag ≠ .chr '}'
      ∧ (tokAt initPairsStart.toks initPairsStart.pos).tag ≠ .chr '['
      ∧ (tokAt initPairsAfter.toks initPairsAfter.pos).tag = .chr ','
      ∧ ParseArrayInitializer.loop (parser 39) arrInt3
          { defaultIdx := 0, idxSet := [], stmts := [] } initPairsStart
        = (parser 39).loopArrayInitializer arrInt3
            { defaultIdx := 0, idxSet := [], stmts := [initPairsStmt] }
            { initPairsAfter with pos := initPairsAfter.pos + 1 } :=
  ⟨by decide!, by decide!, by decide!,
    (ParseArrayInitializer_default_index_kept (parser 39) arrInt3
      { defaultIdx := 0, idxSet := [], stmts := [] } initPairsStart initPairsAfter
      initPairsStmt (by decide!) (by decide!)
      (Res.eq_ok_of_value _ _ (by decide!)) (by decide!)).1⟩

/-! ## C40: parameters in the body of a function definition -/

/-- `ExitBlock` on a chain that is not empty drops the current scope. -/
theorem ExitBlock_run (s : Parser) (h : s.curScope.isEmpty = false) :
    ExitBlock s = .ok () { s with curScope := s.curScope.tail } := by
  unfold ExitBlock
  match hc : s.curScope with
  | [] => rw [hc] at h; cases h
  | x :: rest => rfl

/-- C40: the parameters of a function are not in scope in its body.
`ParseArrayFuncDeclarator` parses the parameter list between `EnterBlock()`
and `ExitBlock()`: `ParseParamDecl` inserts the named parameters into the
block scope that `EnterBlock()` made, and `ExitBlock()` takes that scope
from the chain before the `)` is read, so the rest of the declarator, and
after it the body that `ParseFuncDef` parses, runs on the chain without
it.  In `int f(int x) { x; }` the `x` of the body is diagnosed as an
undefined symbol; in `int x; int f(int x) { x; }` it is the object of the
file scope; a variable declared in the body is found. -/
theorem ParseFuncDef_parameters_dropped (r : Rec) (base t : CType) (s s1 s3 : Parser)
    (p : Bool × List CType)
    (hopen : (tokAt s.toks s.pos).tag = .chr '(')
    (hfunc : base.isFunc = false) (harray : base.isArray = false) (hbase : base ≠ .null)
    (hparams : ParseParamList r
        { s with pos := s.pos + 1, nextId := s.nextId + 1,
                 curScope := { id := s.nextId, kind := .S_BLOCK, ordinary := [], tags := [] }
                   :: s.curScope } = .ok p s1)
    (hchain : s1.curScope.isEmpty = false)
    (hclose : (tokAt s1.toks s1.pos).tag = .chr ')')
    (hsuffix : r.ParseArrayFuncDeclarator base
        { s1 with curScope := s1.curScope.tail, pos := s1.pos + 1 } = .ok t s3) :
    ParseArrayFuncDeclarator r base s = .ok (NewFuncType t 0 p.1 p.2) s3
      ∧ diagsOf toksParamUse = [{ coord := 7, fmt := "undefined symbol '%s'", args := ["x"] }]
      ∧ bodyIdents toksParamUse = []
      ∧ (diagsOf toksParamShadow = [] ∧ bodyIdents toksParamShadow = [(2, 0)])
      ∧ (diagsOf toksLocalUse = [] ∧ bodyIdents toksLocalUse = [(8, 7)]) := by
  refine ⟨?_, by decide!, by decide!, ⟨by decide!, by decide!⟩, ⟨by decide!, by decide!⟩⟩
  have hb : (Tag.chr '(' == Tag.chr '[') = false := by decide
  have henter : EnterBlock { s with pos := s.pos + 1 }
      = .ok () { s with pos := s.pos + 1, nextId := s.nextId + 1,
                        curScope := { id := s.nextId, kind := .S_BLOCK, ordinary := [],
                                      tags := [] } :: s.curScope } := rfl
  have hexit := ExitBlock_run s1 hchain
  have hexp : Expect1 (.chr ')') { s1 with curScope := s1.curScope.tail }
      = .ok () { s1 with curScope := s1.curScope.tail, pos := s1.pos + 1 } :=
    Expect1_match _ _ hclose
  unfold ParseArrayFuncDeclarator
  simp only [run_bind, Try, hb, hopen, Bool.false_eq_true, if_false, beq_self_eq_true, if_true,
    andThen_ok, run_pure, ToFuncType, derefType_ok hbase, hfunc, harray, ErrorIf_run,
    Bool.not_false, Bool.and_false, List.append_nil, Peek, henter, hparams, hexit, hexp, hsuffix]

/-- The declarator suffix `( int x )` of `int f(int x) { x; }`: the block of
the parameter list holds `x` when the list has been parsed, and the chain
after the suffix is the file scope alone. -/
theorem ParseFuncDef_parameters_dropped_witness :
    (tableNames paramUseParsed = [([], ["x"]), ([], [])]
      ∧ tableNames paramUseEnd = [([], [])])
      ∧ ParseArrayFuncDeclarator (parser 40) tInt (stateAtPos toksParamUse 2)
        = .ok (NewFuncType tInt 0 false [tInt]) paramUseEnd :=
  ⟨⟨by decide!, by decide!⟩,
    (ParseFuncDef_parameters_dropped (parser 40) tInt tInt (stateAtPos toksParamUse 2)
      paramUseParsed paramUseEnd (false, [tInt]) (by decide!) (by decide!) (by decide!)
      (by decide) (Res.eq_ok_of_value _ _ (by decide!)) (by decide!) (by decide!)
      (Res.eq_ok_of_value _ _ (by decide!))).1⟩

/-! ## Every member function keeps the queue of unresolved jumps in order -/

theorem queueKept_grow {s s' : Parser} (h1 : s.nextId ≤ s'.nextId)
    (h2 : s'.unresolvedJumps = s.unresolvedJumps) : s.QueueKept s' :=
  ⟨h1, fun h => ⟨by rw [h2]; exact h.1, fun p hp => by
    rw [h2] at hp
    exact Nat.lt_of_lt_of_le (h.2 p hp) h1⟩⟩

theorem queueKept_same {s s' : Parser} (h1 : s'.nextId = s.nextId)
    (h2 : s'.unresolvedJumps = s.unresolvedJumps) : s.QueueKept s' :=
  queueKept_grow (Nat.le_of_eq h1.symm) h2

theorem queueKept_trans {a b c : Parser} (h1 : a.QueueKept b) (h2 : b.QueueKept c) :
    a.QueueKept c :=
  ⟨Nat.le_trans h1.nextId h2.nextId, fun h => h2.fresh (h1.fresh h)⟩

instance queueKept_pure {α : Type} (a : α) : KeepsQueue (pure a : PM α) :=
  ⟨fun s b s' h => by cases h; exact (queueKept_same rfl rfl)⟩

instance queueKept_pure2 {α : Type} (a : α) : KeepsQueue (PM.pure a : PM α) :=
  ⟨fun s b s' h => by cases h; exact (queueKept_same rfl rfl)⟩

instance queueKept_fail {α : Type} (f : Fail) : KeepsQueue (PM.fail f : PM α) :=
  ⟨fun s b s' h => by cases h⟩

theorem queueKept_bind_of {α β : Type} {m : PM α} {f : α → PM β} (hm : KeepsQueue m)
    (hf : ∀ a, KeepsQueue (f a)) : KeepsQueue (m >>= f) :=
  ⟨fun s b s' h => by
    rw [run_bind] at h
    cases hms : m s with
    | ok a s1 =>
      rw [hms, andThen_ok] at h
      exact queueKept_trans (hm.keeps s a s1 hms) ((hf a).keeps s1 b s' h)
    | fail e s1 =>
      rw [hms, andThen_fail] at h
      cases h⟩

instance queueKept_bind {α β : Type} (m : PM α) (f : α → PM β) [hm : KeepsQueue m]
    [hf : ∀ a, KeepsQueue (f a)] : KeepsQueue (m >>= f) :=
  queueKept_bind_of hm hf

theorem queueKept_ite_of {α : Type} {c : Prop} [Decidable c] {a b : PM α}
    (ha : KeepsQueue a) (hb : KeepsQueue b) : KeepsQueue (if c then a else b) := by
  by_cases h : c
  · rw [if_pos h]; exact ha
  · rw [if_neg h]; exact hb

instance queueKept_ite {α : Type} (c : Prop) [Decidable c] (a b : PM α) [ha : KeepsQueue a]
    [hb : KeepsQueue b] : KeepsQueue (if c then a else b) :=
  queueKept_ite_of ha hb

theorem queueKept_modifyP (f : Parser → Parser) (h : ∀ s : Parser, s.QueueKept (f s)) :
    KeepsQueue (modifyP f) :=
  ⟨fun s a s' hr => by cases hr; exact h s⟩

instance : KeepsQueue getP := ⟨fun s a s' h => by cases h; exact (queueKept_same rfl rfl)⟩
instance : KeepsQueue freshId :=
  ⟨fun s a s' h => by cases h; exact (queueKept_grow (Nat.le_succ _) rfl)⟩
instance (c : Bool) : KeepsQueue (assert c) := by
  unfold assert; infer_instance
instance (c : Nat) (f : String) (a : List String) : KeepsQueue (Error c f a) :=
  queueKept_modifyP _ (fun _ => (queueKept_same rfl rfl))
instance (b : Bool) (c : Nat) (f : String) (a : List String) :
    KeepsQueue (ErrorIf b c f a) := by
  unfold ErrorIf; infer_instance
instance : KeepsQueue Peek := ⟨fun s a s' h => by cases h; exact (queueKept_same rfl rfl)⟩
instance : KeepsQueue Next := ⟨fun s a s' h => by cases h; exact (queueKept_same rfl rfl)⟩
instance : KeepsQueue PutBack := queueKept_modifyP _ (fun _ => (queueKept_same rfl rfl))
instance (t : Tag) : KeepsQueue (Test t) :=
  ⟨fun s a s' h => by cases h; exact (queueKept_same rfl rfl)⟩
instance (t : Tag) : KeepsQueue (Try t) :=
  ⟨fun s a s' h => by
    unfold Try at h
    by_cases hc : ((tokAt s.toks s.pos).tag == t) = true
    · rw [if_pos hc] at h; cases h; exact (queueKept_same rfl rfl)
    · rw [if_neg hc] at h; cases h; exact (queueKept_same rfl rfl)⟩
instance : KeepsQueue Mark := queueKept_modifyP _ (fun _ => (queueKept_same rfl rfl))
instance : KeepsQueue Release :=
  queueKept_modifyP _ (fun s => by
    cases h : s.marks <;> exact (queueKept_same rfl rfl))
instance (a b : Tag) : KeepsQueue (Panic a b) :=
  queueKept_modifyP _ (fun _ => (queueKept_same rfl rfl))
instance (a b c : Tag) : KeepsQueue (Expect a b c) := by
  unfold Expect; infer_instance
instance (a : Tag) : KeepsQueue (Expect1 a) := by
  unfold Expect1; infer_instance

instance : KeepsQueue curScope :=
  ⟨fun s a s' h => by
    unfold curScope at h
    cases hc : s.curScope with
    | nil => rw [hc] at h; cases h
    | cons sc rest => rw [hc] at h; cases h; exact (queueKept_same rfl rfl)⟩

instance (name : String) : KeepsQueue (Find name) :=
  ⟨fun s a s' h => by
    unfold Find at h
    cases hc : s.curScope with
    | nil => rw [hc] at h; cases h
    | cons sc rest => rw [hc] at h; cases h; exact (queueKept_same rfl rfl)⟩

instance (name : String) : KeepsQueue (FindTag name) :=
  ⟨fun s a s' h => by
    unfold FindTag at h
    cases hc : s.curScope with
    | nil => rw [hc] at h; cases h
    | cons sc rest => rw [hc] at h; cases h; exact (queueKept_same rfl rfl)⟩

instance (name : String) (i : Identifier) : KeepsQueue (Insert name i) :=
  ⟨fun s a s' h => by
    unfold Insert at h
    cases hc : s.curScope with
    | nil => rw [hc] at h; cases h
    | cons sc rest => rw [hc] at h; cases h; exact (queueKept_same rfl rfl)⟩

instance (name : String) (i : Identifier) : KeepsQueue (InsertTag name i) :=
  ⟨fun s a s' h => by
    unfold InsertTag at h
    cases hc : s.curScope with
    | nil => rw [hc] at h; cases h
    | cons sc rest => rw [hc] at h; cases h; exact (queueKept_same rfl rfl)⟩

instance (name : String) : KeepsQueue (ExternalFind name) :=
  ⟨fun s a s' h => by cases h; exact (queueKept_same rfl rfl)⟩

instance (tok : Token) : KeepsQueue (isTypedefName tok) :=
  ⟨fun s a s' h => by
    unfold isTypedefName at h
    by_cases hi : tok.IsIdentifier = true
    · rw [if_pos hi] at h
      cases hf : findChain s.curScope tok.str with
      | none => rw [hf] at h; cases h; exact (queueKept_same rfl rfl)
      | some i => rw [hf] at h; cases h; exact (queueKept_same rfl rfl)
    · rw [if_neg hi] at h; cases h; exact (queueKept_same rfl rfl)⟩

instance : KeepsQueue setErrTok :=
  ⟨fun s a s' h => by cases h; exact (queueKept_same rfl rfl)⟩

instance : KeepsQueue EnterBlock :=
  ⟨fun s a s' h => by cases h; exact (queueKept_grow (Nat.le_succ _) rfl)⟩

instance : KeepsQueue ExitBlock :=
  ⟨fun s a s' h => by
    unfold ExitBlock at h
    cases hc : s.curScope with
    | nil => rw [hc] at h; cases h
    | cons sc rest => rw [hc] at h; cases h; exact (queueKept_same rfl rfl)⟩

instance (r : Rec) [h : RecKeepsQueue r] : KeepsQueue r.ParseExpr := h.ParseExpr
instance (r : Rec) [h : RecKeepsQueue r] : KeepsQueue r.ParseAssignExpr := h.ParseAssignExpr
instance (r : Rec) [h : RecKeepsQueue r] : KeepsQueue r.ParseConditionalExpr := h.ParseConditionalExpr
instance (r : Rec) [h : RecKeepsQueue r] : KeepsQueue r.ParseCastExpr := h.ParseCastExpr
instance (r : Rec) [h : RecKeepsQueue r] : KeepsQueue r.ParseUnaryExpr := h.ParseUnaryExpr
instance (r : Rec) [h : RecKeepsQueue r] : KeepsQueue r.ParseTypeName := h.ParseTypeName
instance (r : Rec) [h : RecKeepsQueue r] (e : Expr) : KeepsQueue (r.ParsePostfixExprTail e) :=
  h.ParsePostfixExprTail e
instance (r : Rec) [h : RecKeepsQueue r] (a : List Expr) : KeepsQueue (r.loopFuncCallVarArgs a) :=
  h.loopFuncCallVarArgs a
instance (r : Rec) [h : RecKeepsQueue r] (e : Expr) (t : Token) : KeepsQueue (r.loopMultiplicative e t) :=
  h.loopMultiplicative e t
instance (r : Rec) [h : RecKeepsQueue r] (e : Expr) (t : Token) : KeepsQueue (r.loopAdditive e t) :=
  h.loopAdditive e t
instance (r : Rec) [h : RecKeepsQueue r] (e : Expr) (t : Token) : KeepsQueue (r.loopShift e t) :=
  h.loopShift e t
instance (r : Rec) [h : RecKeepsQueue r] (e : Expr) (t : Token) : KeepsQueue (r.loopRelational e t) :=
  h.loopRelational e t
instance (r : Rec) [h : RecKeepsQueue r] (e : Expr) (t : Token) : KeepsQueue (r.loopEquality e t) :=
  h.loopEquality e t
instance (r : Rec) [h : RecKeepsQueue r] (e : Expr) (t : Token) : KeepsQueue (r.loopBitwiseAnd e t) :=
  h.loopBitwiseAnd e t
instance (r : Rec) [h : RecKeepsQueue r] (e : Expr) (t : Token) : KeepsQueue (r.loopBitwiseXor e t) :=
  h.loopBitwiseXor e t
instance (r : Rec) [h : RecKeepsQueue r] (e : Expr) (t : Token) : KeepsQueue (r.loopBitwiseOr e t) :=
  h.loopBitwiseOr e t
instance (r : Rec) [h : RecKeepsQueue r] (e : Expr) (t : Token) : KeepsQueue (r.loopLogicalAnd e t) :=
  h.loopLogicalAnd e t
instance (r : Rec) [h : RecKeepsQueue r] (e : Expr) (t : Token) : KeepsQueue (r.loopLogicalOr e t) :=
  h.loopLogicalOr e t
instance (r : Rec) [h : RecKeepsQueue r] (e : Expr) (t : Token) : KeepsQueue (r.loopComma e t) :=
  h.loopComma e t
instance (r : Rec) [h : RecKeepsQueue r] (b : Bool) : KeepsQueue (r.ParseDeclSpec b) :=
  h.ParseDeclSpec b
instance (r : Rec) [h : RecKeepsQueue r] (b : Bool) (v : DeclSpecVars) :
    KeepsQueue (r.loopDeclSpec b v) := h.loopDeclSpec b v
instance (r : Rec) [h : RecKeepsQueue r] (t : CType) (v : Int) : KeepsQueue (r.loopEnumerator t v) :=
  h.loopEnumerator t v
instance (r : Rec) [h : RecKeepsQueue r] (t : CType) : KeepsQueue (r.loopStructDecl t) :=
  h.loopStructDecl t
instance (r : Rec) [h : RecKeepsQueue r] (q : Nat) : KeepsQueue (r.loopQual q) := h.loopQual q
instance (r : Rec) [h : RecKeepsQueue r] (a b : CType) : KeepsQueue (r.loopPointer a b) :=
  h.loopPointer a b
instance (r : Rec) [h : RecKeepsQueue r] (p : List CType) : KeepsQueue (r.loopParamList p) :=
  h.loopParamList p
instance (r : Rec) [h : RecKeepsQueue r] (t : CType) : KeepsQueue (r.ParseDeclarator t) :=
  h.ParseDeclarator t
instance (r : Rec) [h : RecKeepsQueue r] (t : CType) : KeepsQueue (r.ParseArrayFuncDeclarator t) :=
  h.ParseArrayFuncDeclarator t
instance (r : Rec) [h : RecKeepsQueue r] (o : Identifier) : KeepsQueue (r.ParseInitializer o) :=
  h.ParseInitializer o
instance (r : Rec) [h : RecKeepsQueue r] (a : Identifier) (v : ArrayInitVars) :
    KeepsQueue (r.loopArrayInitializer a v) := h.loopArrayInitializer a v
instance (r : Rec) [h : RecKeepsQueue r] (t : CType) (a b : Nat) (l : List Stmt) :
    KeepsQueue (r.loopDecl t a b l) := h.loopDecl t a b l

instance queueKept_ScopeKind  :
    KeepsQueue ScopeKind := by
  unfold ScopeKind
  try dsimp only []
  repeat' (first
    | infer_instance | apply queueKept_bind_of | apply queueKept_ite_of
    | intro _ | exact queueKept_modifyP _ (fun _ => (queueKept_same rfl rfl)) | split)

instance queueKept_FindInCurScope (name : String) :
    KeepsQueue (FindInCurScope name) := by
  unfold FindInCurScope
  try dsimp only []
  repeat' (first
    | infer_instance | apply queueKept_bind_of | apply queueKept_ite_of
    | intro _ | exact queueKept_modifyP _ (fun _ => (queueKept_same rfl rfl)) | split)

instance queueKept_ExternalInsert (name : String) (i : Identifier) :
    KeepsQueue (ExternalInsert name i) := by
  unfold ExternalInsert
  try dsimp only []
  repeat' (first
    | infer_instance | apply queueKept_bind_of | apply queueKept_ite_of
    | intro _ | exact queueKept_modifyP _ (fun _ => (queueKept_same rfl rfl)) | split)

instance queueKept_derefType (t : CType) :
    KeepsQueue (derefType t) := by
  unfold derefType
  try dsimp only []
  repeat' (first
    | infer_instance | apply queueKept_bind_of | apply queueKept_ite_of
    | intro _ | exact queueKept_modifyP _ (fun _ => (queueKept_same rfl rfl)) | split)

instance queueKept_ToVoidType (t : CType) :
    KeepsQueue (ToVoidType t) := by
  unfold ToVoidType
  try dsimp only []
  repeat' (first
    | infer_instance | apply queueKept_bind_of | apply queueKept_ite_of
    | intro _ | exact queueKept_modifyP _ (fun _ => (queueKept_same rfl rfl)) | split)

instance queueKept_ToFuncType (t : CType) :
    KeepsQueue (ToFuncType t) := by
  unfold ToFuncType
  try dsimp only []
  repeat' (first
    | infer_instance | apply queueKept_bind_of | apply queueKept_ite_of
    | intro _ | exact queueKept_modifyP _ (fun _ => (queueKept_same rfl rfl)) | split)

instance queueKept_ToArrayType (t : CType) :
    KeepsQueue (ToArrayType t) := by
  unfold ToArrayType
  try dsimp only []
  repeat' (first
    | infer_instance | apply queueKept_bind_of | apply queueKept_ite_of
    | intro _ | exact queueKept_modifyP _ (fun _ => (queueKept_same rfl rfl)) | split)

instance queueKept_typeEq (a b : CType) :
    KeepsQueue (typeEq a b) := by
  unfold typeEq
  try dsimp only []
  repeat' (first
    | infer_instance | apply queueKept_bind_of | apply queueKept_ite_of
    | intro _ | exact queueKept_modifyP _ (fun _ => (queueKept_same rfl rfl)) | split)

instance queueKept_Complete (t : CType) :
    KeepsQueue (Complete t) := by
  unfold Complete
  try dsimp only []
  repeat' (first
    | infer_instance | apply queueKept_bind_of | apply queueKept_ite_of
    | intro _ | exact queueKept_modifyP _ (fun _ => (queueKept_same rfl rfl)) | split)

instance queueKept_NewIdentifier (type : CType) (scope : Nat) (linkage : Linkage) :
    KeepsQueue (NewIdentifier type scope linkage) := by
  unfold NewIdentifier
  try dsimp only []
  repeat' (first
    | infer_instance | apply queueKept_bind_of | apply queueKept_ite_of
    | intro _ | exact queueKept_modifyP _ (fun _ => (queueKept_same rfl rfl)) | split)

instance queueKept_NewObject (type : CType) (scope : Nat) (storage : Nat) (linkage : Linkage) (offset : Int) :
    KeepsQueue (NewObject type scope storage linkage offset) := by
  unfold NewObject
  try dsimp only []
  repeat' (first
    | infer_instance | apply queueKept_bind_of | apply queueKept_ite_of
    | intro _ | exact queueKept_modifyP _ (fun _ => (queueKept_same rfl rfl)) | split)

instance queueKept_declChecks (tok : Token) (type : CType) (storageSpec : Nat) :
    KeepsQueue (declChecks tok type storageSpec) := by
  unfold declChecks
  try dsimp only []
  repeat' (first
    | infer_instance | apply queueKept_bind_of | apply queueKept_ite_of
    | intro _ | exact queueKept_modifyP _ (fun _ => (queueKept_same rfl rfl)) | split)

instance queueKept_redeclare (tok : Token) (type : CType) (linkage : Linkage) (ident : Identifier) :
    KeepsQueue (redeclare tok type linkage ident) := by
  unfold redeclare
  try dsimp only []
  repeat' (first
    | infer_instance | apply queueKept_bind_of | apply queueKept_ite_of
    | intro _ | exact queueKept_modifyP _ (fun _ => (queueKept_same rfl rfl)) | split)

instance queueKept_crossCheck (tok : Token) (type : CType) (linkage : Linkage) :
    KeepsQueue (crossCheck tok type linkage) := by
  unfold crossCheck
  try dsimp only []
  repeat' (first
    | infer_instance | apply queueKept_bind_of | apply queueKept_ite_of
    | intro _ | exact queueKept_modifyP _ (fun _ => (queueKept_same rfl rfl)) | split)

instance queueKept_declareTypedef (tok : Token) (type : CType) :
    KeepsQueue (declareTypedef tok type) := by
  unfold declareTypedef
  try dsimp only []
  repeat' (first
    | infer_instance | apply queueKept_bind_of | apply queueKept_ite_of
    | intro _ | exact queueKept_modifyP _ (fun _ => (queueKept_same rfl rfl)) | split)

instance queueKept_ProcessDeclarator (tok : Option Token) (type : CType) (storageSpec funcSpec : Nat) :
    KeepsQueue (ProcessDeclarator tok type storageSpec funcSpec) := by
  unfold ProcessDeclarator
  try dsimp only []
  repeat' (first
    | infer_instance | apply queueKept_bind_of | apply queueKept_ite_of
    | intro _ | exact queueKept_modifyP _ (fun _ => (queueKept_same rfl rfl)) | split)

instance queueKept_IsInteger (t : CType) :
    KeepsQueue (IsInteger t) := by
  unfold IsInteger
  try dsimp only []
  repeat' (first
    | infer_instance | apply queueKept_bind_of | apply queueKept_ite_of
    | intro _ | exact queueKept_modifyP _ (fun _ => (queueKept_same rfl rfl)) | split)

instance queueKept_IsScalar (t : CType) :
    KeepsQueue (IsScalar t) := by
  unfold IsScalar
  try dsimp only []
  repeat' (first
    | infer_instance | apply queueKept_bind_of | apply queueKept_ite_of
    | intro _ | exact queueKept_modifyP _ (fun _ => (queueKept_same rfl rfl)) | split)

instance queueKept_IsFloat (t : CType) :
    KeepsQueue (IsFloat t) := by
  unfold IsFloat
  try dsimp only []
  repeat' (first
    | infer_instance | apply queueKept_bind_of | apply queueKept_ite_of
    | intro _ | exact queueKept_modifyP _ (fun _ => (queueKept_same rfl rfl)) | split)

instance queueKept_ToArithmType (t : CType) :
    KeepsQueue (ToArithmType t) := by
  unfold ToArithmType
  try dsimp only []
  repeat' (first
    | infer_instance | apply queueKept_bind_of | apply queueKept_ite_of
    | intro _ | exact queueKept_modifyP _ (fun _ => (queueKept_same rfl rfl)) | split)

instance queueKept_ToPointerType (t : CType) :
    KeepsQueue (ToPointerType t) := by
  unfold ToPointerType
  try dsimp only []
  repeat' (first
    | infer_instance | apply queueKept_bind_of | apply queueKept_ite_of
    | intro _ | exact queueKept_modifyP _ (fun _ => (queueKept_same rfl rfl)) | split)

instance queueKept_IsConst (t : CType) :
    KeepsQueue (IsConst t) := by
  unfold IsConst
  try dsimp only []
  repeat' (first
    | infer_instance | apply queueKept_bind_of | apply queueKept_ite_of
    | intro _ | exact queueKept_modifyP _ (fun _ => (queueKept_same rfl rfl)) | split)

instance queueKept_derefExpr (e : Expr) :
    KeepsQueue (derefExpr e) := by
  unfold derefExpr
  try dsimp only []
  repeat' (first
    | infer_instance | apply queueKept_bind_of | apply queueKept_ite_of
    | intro _ | exact queueKept_modifyP _ (fun _ => (queueKept_same rfl rfl)) | split)

instance queueKept_Ty (e : Expr) :
    KeepsQueue (Ty e) := by
  unfold Ty
  try dsimp only []
  repeat' (first
    | infer_instance | apply queueKept_bind_of | apply queueKept_ite_of
    | intro _ | exact queueKept_modifyP _ (fun _ => (queueKept_same rfl rfl)) | split)

instance queueKept_IsLVal (e : Expr) :
    KeepsQueue (IsLVal e) := by
  unfold IsLVal
  try dsimp only []
  repeat' (first
    | infer_instance | apply queueKept_bind_of | apply queueKept_ite_of
    | intro _ | exact queueKept_modifyP _ (fun _ => (queueKept_same rfl rfl)) | split)

instance queueKept_derefTok (t : Option Token) :
    KeepsQueue (derefTok t) := by
  unfold derefTok
  try dsimp only []
  repeat' (first
    | infer_instance | apply queueKept_bind_of | apply queueKept_ite_of
    | intro _ | exact queueKept_modifyP _ (fun _ => (queueKept_same rfl rfl)) | split)

instance queueKept_SubScriptingOpTypeChecking (binaryOp : BinaryOp) (errTok : Token) :
    KeepsQueue (SubScriptingOpTypeChecking binaryOp errTok) := by
  unfold SubScriptingOpTypeChecking
  try dsimp only []
  repeat' (first
    | infer_instance | apply queueKept_bind_of | apply queueKept_ite_of
    | intro _ | exact queueKept_modifyP _ (fun _ => (queueKept_same rfl rfl)) | split)

instance queueKept_GetMember (structId : Nat) (name : String) :
    KeepsQueue (GetMember structId name) := by
  unfold GetMember
  try dsimp only []
  repeat' (first
    | infer_instance | apply queueKept_bind_of | apply queueKept_ite_of
    | intro _ | exact queueKept_modifyP _ (fun _ => (queueKept_same rfl rfl)) | split)

instance queueKept_MemberRefOpTypeChecking (binaryOp : BinaryOp) (errTok : Token) (rhsName : String) :
    KeepsQueue (MemberRefOpTypeChecking binaryOp errTok rhsName) := by
  unfold MemberRefOpTypeChecking
  try dsimp only []
  repeat' (first
    | infer_instance | apply queueKept_bind_of | apply queueKept_ite_of
    | intro _ | exact queueKept_modifyP _ (fun _ => (queueKept_same rfl rfl)) | split)

instance queueKept_MultiOpTypeChecking (binaryOp : BinaryOp) (errTok : Token) :
    KeepsQueue (MultiOpTypeChecking binaryOp errTok) := by
  unfold MultiOpTypeChecking
  try dsimp only []
  repeat' (first
    | infer_instance | apply queueKept_bind_of | apply queueKept_ite_of
    | intro _ | exact queueKept_modifyP _ (fun _ => (queueKept_same rfl rfl)) | split)

instance queueKept_AdditiveOpTypeChecking (binaryOp : BinaryOp) (errTok : Token) :
    KeepsQueue (AdditiveOpTypeChecking binaryOp errTok) := by
  unfold AdditiveOpTypeChecking
  try dsimp only []
  repeat' (first
    | infer_instance | apply queueKept_bind_of | apply queueKept_ite_of
    | intro _ | exact queueKept_modifyP _ (fun _ => (queueKept_same rfl rfl)) | split)

instance queueKept_ShiftOpTypeChecking (binaryOp : BinaryOp) (errTok : Token) :
    KeepsQueue (ShiftOpTypeChecking binaryOp errTok) := by
  unfold ShiftOpTypeChecking
  try dsimp only []
  repeat' (first
    | infer_instance | apply queueKept_bind_of | apply queueKept_ite_of
    | intro _ | exact queueKept_modifyP _ (fun _ => (queueKept_same rfl rfl)) | split)

instance queueKept_RelationalOpTypeChecking (binaryOp : BinaryOp) (errTok : Token) :
    KeepsQueue (RelationalOpTypeChecking binaryOp errTok) := by
  unfold RelationalOpTypeChecking
  try dsimp only []
  repeat' (first
    | infer_instance | apply queueKept_bind_of | apply queueKept_ite_of
    | intro _ | exact queueKept_modifyP _ (fun _ => (queueKept_same rfl rfl)) | split)

instance queueKept_EqualityOpTypeChecking (binaryOp : BinaryOp) (errTok : Token) :
    KeepsQueue (EqualityOpTypeChecking binaryOp errTok) := by
  unfold EqualityOpTypeChecking
  try dsimp only []
  repeat' (first
    | infer_instance | apply queueKept_bind_of | apply queueKept_ite_of
    | intro _ | exact queueKept_modifyP _ (fun _ => (queueKept_same rfl rfl)) | split)

instance queueKept_BitwiseOpTypeChecking (binaryOp : BinaryOp) (errTok : Token) :
    KeepsQueue (BitwiseOpTypeChecking binaryOp errTok) := by
  unfold BitwiseOpTypeChecking
  try dsimp only []
  repeat' (first
    | infer_instance | apply queueKept_bind_of | apply queueKept_ite_of
    | intro _ | exact queueKept_modifyP _ (fun _ => (queueKept_same rfl rfl)) | split)

instance queueKept_LogicalOpTypeChecking (binaryOp : BinaryOp) (errTok : Token) :
    KeepsQueue (LogicalOpTypeChecking binaryOp errTok) := by
  unfold LogicalOpTypeChecking
  try dsimp only []
  repeat' (first
    | infer_instance | apply queueKept_bind_of | apply queueKept_ite_of
    | intro _ | exact queueKept_modifyP _ (fun _ => (queueKept_same rfl rfl)) | split)

instance queueKept_AssignOpTypeChecking (binaryOp : BinaryOp) (errTok : Token) :
    KeepsQueue (AssignOpTypeChecking binaryOp errTok) := by
  unfold AssignOpTypeChecking
  try dsimp only []
  repeat' (first
    | infer_instance | apply queueKept_bind_of | apply queueKept_ite_of
    | intro _ | exact queueKept_modifyP _ (fun _ => (queueKept_same rfl rfl)) | split)

instance queueKept_TypeCheckingBinaryOp (binaryOp : BinaryOp) (errTok : Token) :
    KeepsQueue (TypeCheckingBinaryOp binaryOp errTok) := by
  unfold TypeCheckingBinaryOp
  try dsimp only []
  repeat' (first
    | infer_instance | apply queueKept_bind_of | apply queueKept_ite_of
    | intro _ | exact queueKept_modifyP _ (fun _ => (queueKept_same rfl rfl)) | split)

instance queueKept_IncDecOpTypeChecking (unaryOp : UnaryOp) (errTok : Token) :
    KeepsQueue (IncDecOpTypeChecking unaryOp errTok) := by
  unfold IncDecOpTypeChecking
  try dsimp only []
  repeat' (first
    | infer_instance | apply queueKept_bind_of | apply queueKept_ite_of
    | intro _ | exact queueKept_modifyP _ (fun _ => (queueKept_same rfl rfl)) | split)

instance queueKept_AddrOpTypeChecking (unaryOp : UnaryOp) (errTok : Token) :
    KeepsQueue (AddrOpTypeChecking unaryOp errTok) := by
  unfold AddrOpTypeChecking
  try dsimp only []
  repeat' (first
    | infer_instance | apply queueKept_bind_of | apply queueKept_ite_of
    | intro _ | exact queueKept_modifyP _ (fun _ => (queueKept_same rfl rfl)) | split)

instance queueKept_DerefOpTypeChecking (unaryOp : UnaryOp) (errTok : Token) :
    KeepsQueue (DerefOpTypeChecking unaryOp errTok) := by
  unfold DerefOpTypeChecking
  try dsimp only []
  repeat' (first
    | infer_instance | apply queueKept_bind_of | apply queueKept_ite_of
    | intro _ | exact queueKept_modifyP _ (fun _ => (queueKept_same rfl rfl)) | split)

instance queueKept_UnaryArithmOpTypeChecking (unaryOp : UnaryOp) (errTok : Token) :
    KeepsQueue (UnaryArithmOpTypeChecking unaryOp errTok) := by
  unfold UnaryArithmOpTypeChecking
  try dsimp only []
  repeat' (first
    | infer_instance | apply queueKept_bind_of | apply queueKept_ite_of
    | intro _ | exact queueKept_modifyP _ (fun _ => (queueKept_same rfl rfl)) | split)

instance queueKept_CastOpTypeChecking (unaryOp : UnaryOp) (errTok : Token) :
    KeepsQueue (CastOpTypeChecking unaryOp errTok) := by
  unfold CastOpTypeChecking
  try dsimp only []
  repeat' (first
    | infer_instance | apply queueKept_bind_of | apply queueKept_ite_of
    | intro _ | exact queueKept_modifyP _ (fun _ => (queueKept_same rfl rfl)) | split)

instance queueKept_TypeCheckingUnaryOp (unaryOp : UnaryOp) (errTok : Token) :
    KeepsQueue (TypeCheckingUnaryOp unaryOp errTok) := by
  unfold TypeCheckingUnaryOp
  try dsimp only []
  repeat' (first
    | infer_instance | apply queueKept_bind_of | apply queueKept_ite_of
    | intro _ | exact queueKept_modifyP _ (fun _ => (queueKept_same rfl rfl)) | split)

instance queueKept_TypeCheckingConditionalOp (conditionalOp : ConditionalOp) (errTok : Option Token) :
    KeepsQueue (TypeCheckingConditionalOp conditionalOp errTok) := by
  unfold TypeCheckingConditionalOp
  try dsimp only []
  repeat' (first
    | infer_instance | apply queueKept_bind_of | apply queueKept_ite_of
    | intro _ | exact queueKept_modifyP _ (fun _ => (queueKept_same rfl rfl)) | split)

instance queueKept_TypeCheckingFuncCall (funcCall : FuncCall) (errTok : Token) :
    KeepsQueue (TypeCheckingFuncCall funcCall errTok) := by
  unfold TypeCheckingFuncCall
  try dsimp only []
  repeat' (first
    | infer_instance | apply queueKept_bind_of | apply queueKept_ite_of
    | intro _ | exact queueKept_modifyP _ (fun _ => (queueKept_same rfl rfl)) | split)

instance queueKept_NewConditionalOp (tok : Token) (cond exprTrue exprFalse : Expr) :
    KeepsQueue (NewConditionalOp tok cond exprTrue exprFalse) := by
  unfold NewConditionalOp
  try dsimp only []
  repeat' (first
    | infer_instance | apply queueKept_bind_of | apply queueKept_ite_of
    | intro _ | exact queueKept_modifyP _ (fun _ => (queueKept_same rfl rfl)) | split)

instance queueKept_NewBinaryOp (tok : Token) (op : Tag) (lhs rhs : Expr) :
    KeepsQueue (NewBinaryOp tok op lhs rhs) := by
  unfold NewBinaryOp
  try dsimp only []
  repeat' (first
    | infer_instance | apply queueKept_bind_of | apply queueKept_ite_of
    | intro _ | exact queueKept_modifyP _ (fun _ => (queueKept_same rfl rfl)) | split)

instance queueKept_NewBinaryOpTok (tok : Token) (lhs rhs : Expr) :
    KeepsQueue (NewBinaryOpTok tok lhs rhs) := by
  unfold NewBinaryOpTok
  try dsimp only []
  repeat' (first
    | infer_instance | apply queueKept_bind_of | apply queueKept_ite_of
    | intro _ | exact queueKept_modifyP _ (fun _ => (queueKept_same rfl rfl)) | split)

instance queueKept_NewMemberRefOp (tok : Token) (lhs : Expr) (rhsName : String) :
    KeepsQueue (NewMemberRefOp tok lhs rhsName) := by
  unfold NewMemberRefOp
  try dsimp only []
  repeat' (first
    | infer_instance | apply queueKept_bind_of | apply queueKept_ite_of
    | intro _ | exact queueKept_modifyP _ (fun _ => (queueKept_same rfl rfl)) | split)

instance queueKept_NewUnaryOp (tok : Token) (op : Tag) (operand : Expr) (type : CType) :
    KeepsQueue (NewUnaryOp tok op operand type) := by
  unfold NewUnaryOp
  try dsimp only []
  repeat' (first
    | infer_instance | apply queueKept_bind_of | apply queueKept_ite_of
    | intro _ | exact queueKept_modifyP _ (fun _ => (queueKept_same rfl rfl)) | split)

instance queueKept_NewFuncCall (tok : Token) (designator : Expr) (args : List Expr) :
    KeepsQueue (NewFuncCall tok designator args) := by
  unfold NewFuncCall
  try dsimp only []
  repeat' (first
    | infer_instance | apply queueKept_bind_of | apply queueKept_ite_of
    | intro _ | exact queueKept_modifyP _ (fun _ => (queueKept_same rfl rfl)) | split)

instance queueKept_NewLabelStmt  :
    KeepsQueue NewLabelStmt := by
  unfold NewLabelStmt
  try dsimp only []
  repeat' (first
    | infer_instance | apply queueKept_bind_of | apply queueKept_ite_of
    | intro _ | exact queueKept_modifyP _ (fun _ => (queueKept_same rfl rfl)) | split)

instance queueKept_IsTypeName (tok : Token) :
    KeepsQueue (IsTypeName tok) := by
  unfold IsTypeName
  try dsimp only []
  repeat' (first
    | infer_instance | apply queueKept_bind_of | apply queueKept_ite_of
    | intro _ | exact queueKept_modifyP _ (fun _ => (queueKept_same rfl rfl)) | split)

instance queueKept_IsType (tok : Token) :
    KeepsQueue (IsType tok) := by
  unfold IsType
  try dsimp only []
  repeat' (first
    | infer_instance | apply queueKept_bind_of | apply queueKept_ite_of
    | intro _ | exact queueKept_modifyP _ (fun _ => (queueKept_same rfl rfl)) | split)

instance queueKept_ParseConstant (tok : Token) :
    KeepsQueue (ParseConstant tok) := by
  unfold ParseConstant
  try dsimp only []
  repeat' (first
    | infer_instance | apply queueKept_bind_of | apply queueKept_ite_of
    | intro _ | exact queueKept_modifyP _ (fun _ => (queueKept_same rfl rfl)) | split)

instance queueKept_ParseString (tok : Token) :
    KeepsQueue (ParseString tok) := by
  unfold ParseString
  try dsimp only []
  repeat' (first
    | infer_instance | apply queueKept_bind_of | apply queueKept_ite_of
    | intro _ | exact queueKept_modifyP _ (fun _ => (queueKept_same rfl rfl)) | split)

instance queueKept_ParseGeneric  :
    KeepsQueue ParseGeneric := by
  unfold ParseGeneric
  try dsimp only []
  repeat' (first
    | infer_instance | apply queueKept_bind_of | apply queueKept_ite_of
    | intro _ | exact queueKept_modifyP _ (fun _ => (queueKept_same rfl rfl)) | split)

instance queueKept_ParsePrimaryExpr (r : Rec) [RecKeepsQueue r] :
    KeepsQueue (ParsePrimaryExpr r) := by
  unfold ParsePrimaryExpr
  try dsimp only []
  repeat' (first
    | infer_instance | apply queueKept_bind_of | apply queueKept_ite_of
    | intro _ | exact queueKept_modifyP _ (fun _ => (queueKept_same rfl rfl)) | split)

instance queueKept_ParseSubScripting (r : Rec) (pointer : Expr) [RecKeepsQueue r] :
    KeepsQueue (ParseSubScripting r pointer) := by
  unfold ParseSubScripting
  try dsimp only []
  repeat' (first
    | infer_instance | apply queueKept_bind_of | apply queueKept_ite_of
    | intro _ | exact queueKept_modifyP _ (fun _ => (queueKept_same rfl rfl)) | split)

instance queueKept_ParseMemberRef (tok : Token) (lhs : Expr) :
    KeepsQueue (ParseMemberRef tok lhs) := by
  unfold ParseMemberRef
  try dsimp only []
  repeat' (first
    | infer_instance | apply queueKept_bind_of | apply queueKept_ite_of
    | intro _ | exact queueKept_modifyP _ (fun _ => (queueKept_same rfl rfl)) | split)

instance queueKept_ParsePostfixIncDec (tok : Token) (operand : Expr) :
    KeepsQueue (ParsePostfixIncDec tok operand) := by
  unfold ParsePostfixIncDec
  try dsimp only []
  repeat' (first
    | infer_instance | apply queueKept_bind_of | apply queueKept_ite_of
    | intro _ | exact queueKept_modifyP _ (fun _ => (queueKept_same rfl rfl)) | split)

instance queueKept_ParseFuncCall_args (r : Rec) [RecKeepsQueue r] (params : List CType) :
    ∀ args, KeepsQueue (ParseFuncCall.args r params args) := by
  induction params with
  | nil => intro args; unfold ParseFuncCall.args; infer_instance
  | cons p rest ih =>
    intro args
    unfold ParseFuncCall.args
    try dsimp only []
    repeat' (first
    | infer_instance | apply queueKept_bind_of | apply queueKept_ite_of
    | intro _ | exact queueKept_modifyP _ (fun _ => (queueKept_same rfl rfl)) | split)

instance queueKept_ParseFuncCall_varArgs (r : Rec) (args : List Expr) [RecKeepsQueue r] :
    KeepsQueue (ParseFuncCall.varArgs r args) := by
  unfold ParseFuncCall.varArgs
  try dsimp only []
  repeat' (first
    | infer_instance | apply queueKept_bind_of | apply queueKept_ite_of
    | intro _ | exact queueKept_modifyP _ (fun _ => (queueKept_same rfl rfl)) | split)

instance queueKept_ParseFuncCall (r : Rec) (designator : Expr) [RecKeepsQueue r] :
    KeepsQueue (ParseFuncCall r designator) := by
  unfold ParseFuncCall
  try dsimp only []
  repeat' (first
    | infer_instance | apply queueKept_bind_of | apply queueKept_ite_of
    | intro _ | exact queueKept_modifyP _ (fun _ => (queueKept_same rfl rfl)) | split)

instance queueKept_ParsePostfixExprTail (r : Rec) (lhs : Expr) [RecKeepsQueue r] :
    KeepsQueue (ParsePostfixExprTail r lhs) := by
  unfold ParsePostfixExprTail
  try dsimp only []
  repeat' (first
    | infer_instance | apply queueKept_bind_of | apply queueKept_ite_of
    | intro _ | exact queueKept_modifyP _ (fun _ => (queueKept_same rfl rfl)) | split)

instance queueKept_ParsePostfixExpr (r : Rec) [RecKeepsQueue r] :
    KeepsQueue (ParsePostfixExpr r) := by
  unfold ParsePostfixExpr
  try dsimp only []
  repeat' (first
    | infer_instance | apply queueKept_bind_of | apply queueKept_ite_of
    | intro _ | exact queueKept_modifyP _ (fun _ => (queueKept_same rfl rfl)) | split)

instance queueKept_startsTypeName (tok : Token) :
    KeepsQueue (startsTypeName tok) := by
  unfold startsTypeName
  try dsimp only []
  repeat' (first
    | infer_instance | apply queueKept_bind_of | apply queueKept_ite_of
    | intro _ | exact queueKept_modifyP _ (fun _ => (queueKept_same rfl rfl)) | split)

instance queueKept_ParseSizeof (r : Rec) [RecKeepsQueue r] :
    KeepsQueue (ParseSizeof r) := by
  unfold ParseSizeof
  try dsimp only []
  repeat' (first
    | infer_instance | apply queueKept_bind_of | apply queueKept_ite_of
    | intro _ | exact queueKept_modifyP _ (fun _ => (queueKept_same rfl rfl)) | split)

instance queueKept_ParseAlignof (r : Rec) [RecKeepsQueue r] :
    KeepsQueue (ParseAlignof r) := by
  unfold ParseAlignof
  try dsimp only []
  repeat' (first
    | infer_instance | apply queueKept_bind_of | apply queueKept_ite_of
    | intro _ | exact queueKept_modifyP _ (fun _ => (queueKept_same rfl rfl)) | split)

instance queueKept_ParsePrefixIncDec (r : Rec) (tok : Token) [RecKeepsQueue r] :
    KeepsQueue (ParsePrefixIncDec r tok) := by
  unfold ParsePrefixIncDec
  try dsimp only []
  repeat' (first
    | infer_instance | apply queueKept_bind_of | apply queueKept_ite_of
    | intro _ | exact queueKept_modifyP _ (fun _ => (queueKept_same rfl rfl)) | split)

instance queueKept_ParseUnaryOp (r : Rec) (tok : Token) (op : Tag) [RecKeepsQueue r] :
    KeepsQueue (ParseUnaryOp r tok op) := by
  unfold ParseUnaryOp
  try dsimp only []
  repeat' (first
    | infer_instance | apply queueKept_bind_of | apply queueKept_ite_of
    | intro _ | exact queueKept_modifyP _ (fun _ => (queueKept_same rfl rfl)) | split)

instance queueKept_ParseUnaryExpr (r : Rec) [RecKeepsQueue r] :
    KeepsQueue (ParseUnaryExpr r) := by
  unfold ParseUnaryExpr
  try dsimp only []
  repeat' (first
    | infer_instance | apply queueKept_bind_of | apply queueKept_ite_of
    | intro _ | exact queueKept_modifyP _ (fun _ => (queueKept_same rfl rfl)) | split)

instance queueKept_ParseCastExpr (r : Rec) [RecKeepsQueue r] :
    KeepsQueue (ParseCastExpr r) := by
  unfold ParseCastExpr
  try dsimp only []
  repeat' (first
    | infer_instance | apply queueKept_bind_of | apply queueKept_ite_of
    | intro _ | exact queueKept_modifyP _ (fun _ => (queueKept_same rfl rfl)) | split)

instance queueKept_ParseMultiplicativeExpr_loop (r : Rec) (lhs : Expr) (tok : Token) [RecKeepsQueue r] :
    KeepsQueue (ParseMultiplicativeExpr.loop r lhs tok) := by
  unfold ParseMultiplicativeExpr.loop
  try dsimp only []
  repeat' (first
    | infer_instance | apply queueKept_bind_of | apply queueKept_ite_of
    | intro _ | exact queueKept_modifyP _ (fun _ => (queueKept_same rfl rfl)) | split)

instance queueKept_ParseMultiplicativeExpr (r : Rec) [RecKeepsQueue r] :
    KeepsQueue (ParseMultiplicativeExpr r) := by
  unfold ParseMultiplicativeExpr
  try dsimp only []
  repeat' (first
    | infer_instance | apply queueKept_bind_of | apply queueKept_ite_of
    | intro _ | exact queueKept_modifyP _ (fun _ => (queueKept_same rfl rfl)) | split)

instance queueKept_ParseAdditiveExpr_loop (r : Rec) (lhs : Expr) (tok : Token) [RecKeepsQueue r] :
    KeepsQueue (ParseAdditiveExpr.loop r lhs tok) := by
  unfold ParseAdditiveExpr.loop
  try dsimp only []
  repeat' (first
    | infer_instance | apply queueKept_bind_of | apply queueKept_ite_of
    | intro _ | exact queueKept_modifyP _ (fun _ => (queueKept_same rfl rfl)) | split)

instance queueKept_ParseAdditiveExpr (r : Rec) [RecKeepsQueue r] :
    KeepsQueue (ParseAdditiveExpr r) := by
  unfold ParseAdditiveExpr
  try dsimp only []
  repeat' (first
    | infer_instance | apply queueKept_bind_of | apply queueKept_ite_of
    | intro _ | exact queueKept_modifyP _ (fun _ => (queueKept_same rfl rfl)) | split)

instance queueKept_ParseShiftExpr_loop (r : Rec) (lhs : Expr) (tok : Token) [RecKeepsQueue r] :
    KeepsQueue (ParseShiftExpr.loop r lhs tok) := by
  unfold ParseShiftExpr.loop
  try dsimp only []
  repeat' (first
    | infer_instance | apply queueKept_bind_of | apply queueKept_ite_of
    | intro _ | exact queueKept_modifyP _ (fun _ => (queueKept_same rfl rfl)) | split)

instance queueKept_ParseShiftExpr (r : Rec) [RecKeepsQueue r] :
    KeepsQueue (ParseShiftExpr r) := by
  unfold ParseShiftExpr
  try dsimp only []
  repeat' (first
    | infer_instance | apply queueKept_bind_of | apply queueKept_ite_of
    | intro _ | exact queueKept_modifyP _ (fun _ => (queueKept_same rfl rfl)) | split)

instance queueKept_ParseRelationalExpr_loop (r : Rec) (lhs : Expr) (tok : Token) [RecKeepsQueue r] :
    KeepsQueue (ParseRelationalExpr.loop r lhs tok) := by
  unfold ParseRelationalExpr.loop
  try dsimp only []
  repeat' (first
    | infer_instance | apply queueKept_bind_of | apply queueKept_ite_of
    | intro _ | exact queueKept_modifyP _ (fun _ => (queueKept_same rfl rfl)) | split)

instance queueKept_ParseRelationalExpr (r : Rec) [RecKeepsQueue r] :
    KeepsQueue (ParseRelationalExpr r) := by
  unfold ParseRelationalExpr
  try dsimp only []
  repeat' (first
    | infer_instance | apply queueKept_bind_of | apply queueKept_ite_of
    | intro _ | exact queueKept_modifyP _ (fun _ => (queueKept_same rfl rfl)) | split)

instance queueKept_ParseEqualityExpr_loop (r : Rec) (lhs : Expr) (tok : Token) [RecKeepsQueue r] :
    KeepsQueue (ParseEqualityExpr.loop r lhs tok) := by
  unfold ParseEqualityExpr.loop
  try dsimp only []
  repeat' (first
    | infer_instance | apply queueKept_bind_of | apply queueKept_ite_of
    | intro _ | exact queueKept_modifyP _ (fun _ => (queueKept_same rfl rfl)) | split)

instance queueKept_ParseEqualityExpr (r : Rec) [RecKeepsQueue r] :
    KeepsQueue (ParseEqualityExpr r) := by
  unfold ParseEqualityExpr
  try dsimp only []
  repeat' (first
    | infer_instance | apply queueKept_bind_of | apply queueKept_ite_of
    | intro _ | exact queueKept_modifyP _ (fun _ => (queueKept_same rfl rfl)) | split)

instance queueKept_ParseBitiwiseAndExpr_loop (r : Rec) (lhs : Expr) (tok : Token) [RecKeepsQueue r] :
    KeepsQueue (ParseBitiwiseAndExpr.loop r lhs tok) := by
  unfold ParseBitiwiseAndExpr.loop
  try dsimp only []
  repeat' (first
    | infer_instance | apply queueKept_bind_of | apply queueKept_ite_of
    | intro _ | exact queueKept_modifyP _ (fun _ => (queueKept_same rfl rfl)) | split)

instance queueKept_ParseBitiwiseAndExpr (r : Rec) [RecKeepsQueue r] :
    KeepsQueue (ParseBitiwiseAndExpr r) := by
  unfold ParseBitiwiseAndExpr
  try dsimp only []
  repeat' (first
    | infer_instance | apply queueKept_bind_of | apply queueKept_ite_of
    | intro _ | exact queueKept_modifyP _ (fun _ => (queueKept_same rfl rfl)) | split)

instance queueKept_ParseBitwiseXorExpr_loop (r : Rec) (lhs : Expr) (tok : Token) [RecKeepsQueue r] :
    KeepsQueue (ParseBitwiseXorExpr.loop r lhs tok) := by
  unfold ParseBitwiseXorExpr.loop
  try dsimp only []
  repeat' (first
    | infer_instance | apply queueKept_bind_of | apply queueKept_ite_of
    | intro _ | exact queueKept_modifyP _ (fun _ => (queueKept_same rfl rfl)) | split)

instance queueKept_ParseBitwiseXorExpr (r : Rec) [RecKeepsQueue r] :
    KeepsQueue (ParseBitwiseXorExpr r) := by
  unfold ParseBitwiseXorExpr
  try dsimp only []
  repeat' (first
    | infer_instance | apply queueKept_bind_of | apply queueKept_ite_of
    | intro _ | exact queueKept_modifyP _ (fun _ => (queueKept_same rfl rfl)) | split)

instance queueKept_ParseBitwiseOrExpr_loop (r : Rec) (lhs : Expr) (tok : Token) [RecKeepsQueue r] :
    KeepsQueue (ParseBitwiseOrExpr.loop r lhs tok) := by
  unfold ParseBitwiseOrExpr.loop
  try dsimp only []
  repeat' (first
    | infer_instance | apply queueKept_bind_of | apply queueKept_ite_of
    | intro _ | exact queueKept_modifyP _ (fun _ => (queueKept_same rfl rfl)) | split)

instance queueKept_ParseBitwiseOrExpr (r : Rec) [RecKeepsQueue r] :
    KeepsQueue (ParseBitwiseOrExpr r) := by
  unfold ParseBitwiseOrExpr
  try dsimp only []
  repeat' (first
    | infer_instance | apply queueKept_bind_of | apply queueKept_ite_of
    | intro _ | exact queueKept_modifyP _ (fun _ => (queueKept_same rfl rfl)) | split)

instance queueKept_ParseLogicalAndExpr_loop (r : Rec) (lhs : Expr) (tok : Token) [RecKeepsQueue r] :
    KeepsQueue (ParseLogicalAndExpr.loop r lhs tok) := by
  unfold ParseLogicalAndExpr.loop
  try dsimp only []
  repeat' (first
    | infer_instance | apply queueKept_bind_of | apply queueKept_ite_of
    | intro _ | exact queueKept_modifyP _ (fun _ => (queueKept_same rfl rfl)) | split)

instance queueKept_ParseLogicalAndExpr (r : Rec) [RecKeepsQueue r] :
    KeepsQueue (ParseLogicalAndExpr r) := by
  unfold ParseLogicalAndExpr
  try dsimp only []
  repeat' (first
    | infer_instance | apply queueKept_bind_of | apply queueKept_ite_of
    | intro _ | exact queueKept_modifyP _ (fun _ => (queueKept_same rfl rfl)) | split)

instance queueKept_ParseLogicalOrExpr_loop (r : Rec) (lhs : Expr) (tok : Token) [RecKeepsQueue r] :
    KeepsQueue (ParseLogicalOrExpr.loop r lhs tok) := by
  unfold ParseLogicalOrExpr.loop
  try dsimp only []
  repeat' (first
    | infer_instance | apply queueKept_bind_of | apply queueKept_ite_of
    | intro _ | exact queueKept_modifyP _ (fun _ => (queueKept_same rfl rfl)) | split)

instance queueKept_ParseLogicalOrExpr (r : Rec) [RecKeepsQueue r] :
    KeepsQueue (ParseLogicalOrExpr r) := by
  unfold ParseLogicalOrExpr
  try dsimp only []
  repeat' (first
    | infer_instance | apply queueKept_bind_of | apply queueKept_ite_of
    | intro _ | exact queueKept_modifyP _ (fun _ => (queueKept_same rfl rfl)) | split)

instance queueKept_ParseConditionalExpr (r : Rec) [RecKeepsQueue r] :
    KeepsQueue (ParseConditionalExpr r) := by
  unfold ParseConditionalExpr
  try dsimp only []
  repeat' (first
    | infer_instance | apply queueKept_bind_of | apply queueKept_ite_of
    | intro _ | exact queueKept_modifyP _ (fun _ => (queueKept_same rfl rfl)) | split)

instance queueKept_ParseAssignExpr (r : Rec) [RecKeepsQueue r] :
    KeepsQueue (ParseAssignExpr r) := by
  unfold ParseAssignExpr
  try dsimp only []
  repeat' (first
    | infer_instance | apply queueKept_bind_of | apply queueKept_ite_of
    | intro _ | exact queueKept_modifyP _ (fun _ => (queueKept_same rfl rfl)) | split)

instance queueKept_ParseCommaExpr_loop (r : Rec) (lhs : Expr) (tok : Token) [RecKeepsQueue r] :
    KeepsQueue (ParseCommaExpr.loop r lhs tok) := by
  unfold ParseCommaExpr.loop
  try dsimp only []
  repeat' (first
    | infer_instance | apply queueKept_bind_of | apply queueKept_ite_of
    | intro _ | exact queueKept_modifyP _ (fun _ => (queueKept_same rfl rfl)) | split)

instance queueKept_ParseCommaExpr (r : Rec) [RecKeepsQueue r] :
    KeepsQueue (ParseCommaExpr r) := by
  unfold ParseCommaExpr
  try dsimp only []
  repeat' (first
    | infer_instance | apply queueKept_bind_of | apply queueKept_ite_of
    | intro _ | exact queueKept_modifyP _ (fun _ => (queueKept_same rfl rfl)) | split)

instance queueKept_ParseExpr (r : Rec) [RecKeepsQueue r] :
    KeepsQueue (ParseExpr r) := by
  unfold ParseExpr
  try dsimp only []
  repeat' (first
    | infer_instance | apply queueKept_bind_of | apply queueKept_ite_of
    | intro _ | exact queueKept_modifyP _ (fun _ => (queueKept_same rfl rfl)) | split)

instance queueKept_EvalInteger (e : Expr) (errTok : Option Token) :
    KeepsQueue (EvalInteger e errTok) := by
  unfold EvalInteger
  try dsimp only []
  repeat' (first
    | infer_instance | apply queueKept_bind_of | apply queueKept_ite_of
    | intro _ | exact queueKept_modifyP _ (fun _ => (queueKept_same rfl rfl)) | split)

instance queueKept_FindTagInCurScope (name : String) :
    KeepsQueue (FindTagInCurScope name) := by
  unfold FindTagInCurScope
  try dsimp only []
  repeat' (first
    | infer_instance | apply queueKept_bind_of | apply queueKept_ite_of
    | intro _ | exact queueKept_modifyP _ (fun _ => (queueKept_same rfl rfl)) | split)

instance queueKept_NewStructUnionType (isStruct : Bool) :
    KeepsQueue (NewStructUnionType isStruct) := by
  unfold NewStructUnionType
  try dsimp only []
  repeat' (first
    | infer_instance | apply queueKept_bind_of | apply queueKept_ite_of
    | intro _ | exact queueKept_modifyP _ (fun _ => (queueKept_same rfl rfl)) | split)

instance queueKept_SetComplete (t : CType) (flag : Bool) :
    KeepsQueue (SetComplete t flag) := by
  unfold SetComplete
  try dsimp only []
  repeat' (first
    | infer_instance | apply queueKept_bind_of | apply queueKept_ite_of
    | intro _ | exact queueKept_modifyP _ (fun _ => (queueKept_same rfl rfl)) | split)

instance queueKept_ParseQual_loop (r : Rec) (qualSpec : Nat) [RecKeepsQueue r] :
    KeepsQueue (ParseQual.loop r qualSpec) := by
  unfold ParseQual.loop
  try dsimp only []
  repeat' (first
    | infer_instance | apply queueKept_bind_of | apply queueKept_ite_of
    | intro _ | exact queueKept_modifyP _ (fun _ => (queueKept_same rfl rfl)) | split)

instance queueKept_ParseQual (r : Rec) [RecKeepsQueue r] :
    KeepsQueue (ParseQual r) := by
  unfold ParseQual
  try dsimp only []
  repeat' (first
    | infer_instance | apply queueKept_bind_of | apply queueKept_ite_of
    | intro _ | exact queueKept_modifyP _ (fun _ => (queueKept_same rfl rfl)) | split)

instance queueKept_ParsePointer_loop (r : Rec) (retType typePointedTo : CType) [RecKeepsQueue r] :
    KeepsQueue (ParsePointer.loop r retType typePointedTo) := by
  unfold ParsePointer.loop
  try dsimp only []
  repeat' (first
    | infer_instance | apply queueKept_bind_of | apply queueKept_ite_of
    | intro _ | exact queueKept_modifyP _ (fun _ => (queueKept_same rfl rfl)) | split)

instance queueKept_ParsePointer (r : Rec) (typePointedTo : CType) [RecKeepsQueue r] :
    KeepsQueue (ParsePointer r typePointedTo) := by
  unfold ParsePointer
  try dsimp only []
  repeat' (first
    | infer_instance | apply queueKept_bind_of | apply queueKept_ite_of
    | intro _ | exact queueKept_modifyP _ (fun _ => (queueKept_same rfl rfl)) | split)

instance queueKept_ModifyBase (type base newBase : CType) :
    KeepsQueue (ModifyBase type base newBase) := by
  unfold ModifyBase
  try dsimp only []
  repeat' (first
    | infer_instance | apply queueKept_bind_of | apply queueKept_ite_of
    | intro _ | exact queueKept_modifyP _ (fun _ => (queueKept_same rfl rfl)) | split)

instance queueKept_ParseAlignas (r : Rec) [RecKeepsQueue r] :
    KeepsQueue (ParseAlignas r) := by
  unfold ParseAlignas
  try dsimp only []
  repeat' (first
    | infer_instance | apply queueKept_bind_of | apply queueKept_ite_of
    | intro _ | exact queueKept_modifyP _ (fun _ => (queueKept_same rfl rfl)) | split)

instance queueKept_ParseEnumerator_loop (r : Rec) (type : CType) (val : Int) [RecKeepsQueue r] :
    KeepsQueue (ParseEnumerator.loop r type val) := by
  unfold ParseEnumerator.loop
  try dsimp only []
  repeat' (first
    | infer_instance | apply queueKept_bind_of | apply queueKept_ite_of
    | intro _ | exact queueKept_modifyP _ (fun _ => (queueKept_same rfl rfl)) | split)

instance queueKept_ParseEnumerator (r : Rec) (type : CType) [RecKeepsQueue r] :
    KeepsQueue (ParseEnumerator r type) := by
  unfold ParseEnumerator
  try dsimp only []
  repeat' (first
    | infer_instance | apply queueKept_bind_of | apply queueKept_ite_of
    | intro _ | exact queueKept_modifyP _ (fun _ => (queueKept_same rfl rfl)) | split)

instance queueKept_ParseEnumSpec_enumDecl (r : Rec) (tagName : String) [RecKeepsQueue r] :
    KeepsQueue (ParseEnumSpec.enumDecl r tagName) := by
  unfold ParseEnumSpec.enumDecl
  try dsimp only []
  repeat' (first
    | infer_instance | apply queueKept_bind_of | apply queueKept_ite_of
    | intro _ | exact queueKept_modifyP _ (fun _ => (queueKept_same rfl rfl)) | split)

instance queueKept_ParseEnumSpec (r : Rec) [RecKeepsQueue r] :
    KeepsQueue (ParseEnumSpec r) := by
  unfold ParseEnumSpec
  try dsimp only []
  repeat' (first
    | infer_instance | apply queueKept_bind_of | apply queueKept_ite_of
    | intro _ | exact queueKept_modifyP _ (fun _ => (queueKept_same rfl rfl)) | split)

instance queueKept_ParseSpecQual (r : Rec) [RecKeepsQueue r] :
    KeepsQueue (ParseSpecQual r) := by
  unfold ParseSpecQual
  try dsimp only []
  repeat' (first
    | infer_instance | apply queueKept_bind_of | apply queueKept_ite_of
    | intro _ | exact queueKept_modifyP _ (fun _ => (queueKept_same rfl rfl)) | split)

instance queueKept_ParseStructDecl_loop (r : Rec) (type : CType) [RecKeepsQueue r] :
    KeepsQueue (ParseStructDecl.loop r type) := by
  unfold ParseStructDecl.loop
  try dsimp only []
  repeat' (first
    | infer_instance | apply queueKept_bind_of | apply queueKept_ite_of
    | intro _ | exact queueKept_modifyP _ (fun _ => (queueKept_same rfl rfl)) | split)

instance queueKept_ParseStructDecl (r : Rec) (type : CType) [RecKeepsQueue r] :
    KeepsQueue (ParseStructDecl r type) := by
  unfold ParseStructDecl
  try dsimp only []
  repeat' (first
    | infer_instance | apply queueKept_bind_of | apply queueKept_ite_of
    | intro _ | exact queueKept_modifyP _ (fun _ => (queueKept_same rfl rfl)) | split)

instance queueKept_ParseStructUnionSpec_structDecl (r : Rec) (isStruct : Bool) (tagName : String) [RecKeepsQueue r] :
    KeepsQueue (ParseStructUnionSpec.structDecl r isStruct tagName) := by
  unfold ParseStructUnionSpec.structDecl
  try dsimp only []
  repeat' (first
    | infer_instance | apply queueKept_bind_of | apply queueKept_ite_of
    | intro _ | exact queueKept_modifyP _ (fun _ => (queueKept_same rfl rfl)) | split)

instance queueKept_ParseStructUnionSpec (r : Rec) (isStruct : Bool) [RecKeepsQueue r] :
    KeepsQueue (ParseStructUnionSpec r isStruct) := by
  unfold ParseStructUnionSpec
  try dsimp only []
  repeat' (first
    | infer_instance | apply queueKept_bind_of | apply queueKept_ite_of
    | intro _ | exact queueKept_modifyP _ (fun _ => (queueKept_same rfl rfl)) | split)

instance queueKept_ParseDeclSpec_error (tok : Token) :
    KeepsQueue (ParseDeclSpec.error tok) := by
  unfold ParseDeclSpec.error
  try dsimp only []
  repeat' (first
    | infer_instance | apply queueKept_bind_of | apply queueKept_ite_of
    | intro _ | exact queueKept_modifyP _ (fun _ => (queueKept_same rfl rfl)) | split)

instance queueKept_ParseDeclSpec_endOfLoop (outNull : Bool) (tok : Token) (v : DeclSpecVars) :
    KeepsQueue (ParseDeclSpec.endOfLoop outNull tok v) := by
  unfold ParseDeclSpec.endOfLoop
  try dsimp only []
  repeat' (first
    | infer_instance | apply queueKept_bind_of | apply queueKept_ite_of
    | intro _ | exact queueKept_modifyP _ (fun _ => (queueKept_same rfl rfl)) | split)

instance queueKept_ParseDeclSpec_loop (r : Rec) (outNull : Bool) (v : DeclSpecVars) [RecKeepsQueue r] :
    KeepsQueue (ParseDeclSpec.loop r outNull v) := by
  unfold ParseDeclSpec.loop
  try dsimp only []
  repeat' (first
    | infer_instance | apply queueKept_bind_of | apply queueKept_ite_of
    | intro _ | exact queueKept_modifyP _ (fun _ => (queueKept_same rfl rfl)) | split)

instance queueKept_ParseDeclSpec (r : Rec) (outNull : Bool) [RecKeepsQueue r] :
    KeepsQueue (ParseDeclSpec r outNull) := by
  unfold ParseDeclSpec
  try dsimp only []
  repeat' (first
    | infer_instance | apply queueKept_bind_of | apply queueKept_ite_of
    | intro _ | exact queueKept_modifyP _ (fun _ => (queueKept_same rfl rfl)) | split)

instance queueKept_ParseArrayLength (r : Rec) [RecKeepsQueue r] :
    KeepsQueue (ParseArrayLength r) := by
  unfold ParseArrayLength
  try dsimp only []
  repeat' (first
    | infer_instance | apply queueKept_bind_of | apply queueKept_ite_of
    | intro _ | exact queueKept_modifyP _ (fun _ => (queueKept_same rfl rfl)) | split)

instance queueKept_ParseParamDecl (r : Rec) [RecKeepsQueue r] :
    KeepsQueue (ParseParamDecl r) := by
  unfold ParseParamDecl
  try dsimp only []
  repeat' (first
    | infer_instance | apply queueKept_bind_of | apply queueKept_ite_of
    | intro _ | exact queueKept_modifyP _ (fun _ => (queueKept_same rfl rfl)) | split)

instance queueKept_ParseParamList_loop (r : Rec) (params : List CType) [RecKeepsQueue r] :
    KeepsQueue (ParseParamList.loop r params) := by
  unfold ParseParamList.loop
  try dsimp only []
  repeat' (first
    | infer_instance | apply queueKept_bind_of | apply queueKept_ite_of
    | intro _ | exact queueKept_modifyP _ (fun _ => (queueKept_same rfl rfl)) | split)

instance queueKept_ParseParamList (r : Rec) [RecKeepsQueue r] :
    KeepsQueue (ParseParamList r) := by
  unfold ParseParamList
  try dsimp only []
  repeat' (first
    | infer_instance | apply queueKept_bind_of | apply queueKept_ite_of
    | intro _ | exact queueKept_modifyP _ (fun _ => (queueKept_same rfl rfl)) | split)

instance queueKept_ParseArrayFuncDeclarator (r : Rec) (base : CType) [RecKeepsQueue r] :
    KeepsQueue (ParseArrayFuncDeclarator r base) := by
  unfold ParseArrayFuncDeclarator
  try dsimp only []
  repeat' (first
    | infer_instance | apply queueKept_bind_of | apply queueKept_ite_of
    | intro _ | exact queueKept_modifyP _ (fun _ => (queueKept_same rfl rfl)) | split)

instance queueKept_ParseDeclarator (r : Rec) (base : CType) [RecKeepsQueue r] :
    KeepsQueue (ParseDeclarator r base) := by
  unfold ParseDeclarator
  try dsimp only []
  repeat' (first
    | infer_instance | apply queueKept_bind_of | apply queueKept_ite_of
    | intro _ | exact queueKept_modifyP _ (fun _ => (queueKept_same rfl rfl)) | split)

instance queueKept_ParseAbstractDeclarator (r : Rec) (type : CType) [RecKeepsQueue r] :
    KeepsQueue (ParseAbstractDeclarator r type) := by
  unfold ParseAbstractDeclarator
  try dsimp only []
  repeat' (first
    | infer_instance | apply queueKept_bind_of | apply queueKept_ite_of
    | intro _ | exact queueKept_modifyP _ (fun _ => (queueKept_same rfl rfl)) | split)

instance queueKept_ParseTypeName (r : Rec) [RecKeepsQueue r] :
    KeepsQueue (ParseTypeName r) := by
  unfold ParseTypeName
  try dsimp only []
  repeat' (first
    | infer_instance | apply queueKept_bind_of | apply queueKept_ite_of
    | intro _ | exact queueKept_modifyP _ (fun _ => (queueKept_same rfl rfl)) | split)

instance queueKept_ParseDirectDeclarator (r : Rec) (type : CType) (storageSpec funcSpec : Nat) [RecKeepsQueue r] :
    KeepsQueue (ParseDirectDeclarator r type storageSpec funcSpec) := by
  unfold ParseDirectDeclarator
  try dsimp only []
  repeat' (first
    | infer_instance | apply queueKept_bind_of | apply queueKept_ite_of
    | intro _ | exact queueKept_modifyP _ (fun _ => (queueKept_same rfl rfl)) | split)

instance queueKept_ParseStructInitializer (obj : Identifier) :
    KeepsQueue (ParseStructInitializer obj) := by
  unfold ParseStructInitializer
  try dsimp only []
  repeat' (first
    | infer_instance | apply queueKept_bind_of | apply queueKept_ite_of
    | intro _ | exact queueKept_modifyP _ (fun _ => (queueKept_same rfl rfl)) | split)

instance queueKept_arrayElement (arr : Identifier) (idx : Nat) :
    KeepsQueue (arrayElement arr idx) := by
  unfold arrayElement
  try dsimp only []
  repeat' (first
    | infer_instance | apply queueKept_bind_of | apply queueKept_ite_of
    | intro _ | exact queueKept_modifyP _ (fun _ => (queueKept_same rfl rfl)) | split)

instance queueKept_ParseArrayInitializer_loop (r : Rec) (arr : Identifier) (v : ArrayInitVars) [RecKeepsQueue r] :
    KeepsQueue (ParseArrayInitializer.loop r arr v) := by
  unfold ParseArrayInitializer.loop
  try dsimp only []
  repeat' (first
    | infer_instance | apply queueKept_bind_of | apply queueKept_ite_of
    | intro _ | exact queueKept_modifyP _ (fun _ => (queueKept_same rfl rfl)) | split)

instance queueKept_ParseArrayInitializer (r : Rec) (arr : Identifier) [RecKeepsQueue r] :
    KeepsQueue (ParseArrayInitializer r arr) := by
  unfold ParseArrayInitializer
  try dsimp only []
  repeat' (first
    | infer_instance | apply queueKept_bind_of | apply queueKept_ite_of
    | intro _ | exact queueKept_modifyP _ (fun _ => (queueKept_same rfl rfl)) | split)

instance queueKept_ParseInitializer (r : Rec) (obj : Option Identifier) [RecKeepsQueue r] :
    KeepsQueue (ParseInitializer r obj) := by
  unfold ParseInitializer
  try dsimp only []
  repeat' (first
    | infer_instance | apply queueKept_bind_of | apply queueKept_ite_of
    | intro _ | exact queueKept_modifyP _ (fun _ => (queueKept_same rfl rfl)) | split)

instance queueKept_ParseInitDeclarator (r : Rec) (type : CType) (storageSpec funcSpec : Nat) [RecKeepsQueue r] :
    KeepsQueue (ParseInitDeclarator r type storageSpec funcSpec) := by
  unfold ParseInitDeclarator
  try dsimp only []
  repeat' (first
    | infer_instance | apply queueKept_bind_of | apply queueKept_ite_of
    | intro _ | exact queueKept_modifyP _ (fun _ => (queueKept_same rfl rfl)) | split)

instance queueKept_ParseDecl_loop (r : Rec) (type : CType) (storageSpec funcSpec : Nat) (stmts : List Stmt) [RecKeepsQueue r] :
    KeepsQueue (ParseDecl.loop r type storageSpec funcSpec stmts) := by
  unfold ParseDecl.loop
  try dsimp only []
  repeat' (first
    | infer_instance | apply queueKept_bind_of | apply queueKept_ite_of
    | intro _ | exact queueKept_modifyP _ (fun _ => (queueKept_same rfl rfl)) | split)

instance queueKept_ParseDecl (r : Rec) [RecKeepsQueue r] :
    KeepsQueue (ParseDecl r) := by
  unfold ParseDecl
  try dsimp only []
  repeat' (first
    | infer_instance | apply queueKept_bind_of | apply queueKept_ite_of
    | intro _ | exact queueKept_modifyP _ (fun _ => (queueKept_same rfl rfl)) | split)


instance (name : String) : KeepsQueue (FindLabel name) :=
  ⟨fun s a s' h => by cases h; exact (queueKept_same rfl rfl)⟩

instance (b c : Nat) : KeepsQueue (ENTER_LOOP_BODY b c) :=
  ⟨fun s a s' h => by cases h; exact (queueKept_same rfl rfl)⟩

instance (b : Nat) : KeepsQueue (ENTER_SWITCH_BODY b) :=
  ⟨fun s a s' h => by cases h; exact (queueKept_same rfl rfl)⟩

instance (v : Int) (l : Nat) : KeepsQueue (pushCaseLabel v l) :=
  ⟨fun s a s' h => by
    unfold pushCaseLabel at h
    cases hc : s.caseLabels with
    | none => rw [hc] at h; cases h
    | some l => rw [hc] at h; cases h; exact (queueKept_same rfl rfl)⟩

instance (r : Rec) [h : RecKeepsQueue r] : KeepsQueue r.ParseStmt := h.ParseStmt
instance (r : Rec) [h : RecKeepsQueue r] (l : List Stmt) : KeepsQueue (r.loopCompoundStmt l) :=
  h.loopCompoundStmt l
instance (r : Rec) [h : RecKeepsQueue r] : KeepsQueue r.loopTranslationUnit :=
  h.loopTranslationUnit

instance queueKept_NewJumpStmt (label : Option Nat) :
    KeepsQueue (NewJumpStmt label) := by
  unfold NewJumpStmt
  try dsimp only []
  repeat' (first
    | infer_instance | apply queueKept_bind_of | apply queueKept_ite_of
    | intro _ | exact queueKept_modifyP _ (fun _ => (queueKept_same rfl rfl)) | split)

instance queueKept_SetLabel (jump : Nat) (label : Option Nat) :
    KeepsQueue (SetLabel jump label) := by
  unfold SetLabel
  try dsimp only []
  repeat' (first
    | infer_instance | apply queueKept_bind_of | apply queueKept_ite_of
    | intro _ | exact queueKept_modifyP _ (fun _ => (queueKept_same rfl rfl)) | split)

instance queueKept_AddLabel (name : String) (label : Nat) :
    KeepsQueue (AddLabel name label) := by
  unfold AddLabel
  try dsimp only []
  repeat' (first
    | infer_instance | apply queueKept_bind_of | apply queueKept_ite_of
    | intro _ | exact queueKept_modifyP _ (fun _ => (queueKept_same rfl rfl)) | split)

instance queueKept_ParseCompoundStmt_loop (r : Rec) (stmts : List Stmt) [RecKeepsQueue r] :
    KeepsQueue (ParseCompoundStmt.loop r stmts) := by
  unfold ParseCompoundStmt.loop
  try dsimp only []
  repeat' (first
    | infer_instance | apply queueKept_bind_of | apply queueKept_ite_of
    | intro _ | exact queueKept_modifyP _ (fun _ => (queueKept_same rfl rfl)) | split)

instance queueKept_ParseCompoundStmt (r : Rec) [RecKeepsQueue r] :
    KeepsQueue (ParseCompoundStmt r) := by
  unfold ParseCompoundStmt
  try dsimp only []
  repeat' (first
    | infer_instance | apply queueKept_bind_of | apply queueKept_ite_of
    | intro _ | exact queueKept_modifyP _ (fun _ => (queueKept_same rfl rfl)) | split)

instance queueKept_ParseIfStmt (r : Rec) [RecKeepsQueue r] :
    KeepsQueue (ParseIfStmt r) := by
  unfold ParseIfStmt
  try dsimp only []
  repeat' (first
    | infer_instance | apply queueKept_bind_of | apply queueKept_ite_of
    | intro _ | exact queueKept_modifyP _ (fun _ => (queueKept_same rfl rfl)) | split)

instance queueKept_EXIT_LOOP_BODY (backup : Option Nat × Option Nat) :
    KeepsQueue (EXIT_LOOP_BODY backup) := by
  unfold EXIT_LOOP_BODY
  try dsimp only []
  repeat' (first
    | infer_instance | apply queueKept_bind_of | apply queueKept_ite_of
    | intro _ | exact queueKept_modifyP _ (fun _ => (queueKept_same rfl rfl)) | split)

instance queueKept_ParseForStmt_body (r : Rec) [RecKeepsQueue r] :
    KeepsQueue (ParseForStmt.body r) := by
  unfold ParseForStmt.body
  try dsimp only []
  repeat' (first
    | infer_instance | apply queueKept_bind_of | apply queueKept_ite_of
    | intro _ | exact queueKept_modifyP _ (fun _ => (queueKept_same rfl rfl)) | split)

instance queueKept_ParseForStmt (r : Rec) [RecKeepsQueue r] :
    KeepsQueue (ParseForStmt r) := by
  unfold ParseForStmt
  try dsimp only []
  repeat' (first
    | infer_instance | apply queueKept_bind_of | apply queueKept_ite_of
    | intro _ | exact queueKept_modifyP _ (fun _ => (queueKept_same rfl rfl)) | split)

instance queueKept_ParseWhileStmt (r : Rec) [RecKeepsQueue r] :
    KeepsQueue (ParseWhileStmt r) := by
  unfold ParseWhileStmt
  try dsimp only []
  repeat' (first
    | infer_instance | apply queueKept_bind_of | apply queueKept_ite_of
    | intro _ | exact queueKept_modifyP _ (fun _ => (queueKept_same rfl rfl)) | split)

instance queueKept_ParseDoStmt (r : Rec) [RecKeepsQueue r] :
    KeepsQueue (ParseDoStmt r) := by
  unfold ParseDoStmt
  try dsimp only []
  repeat' (first
    | infer_instance | apply queueKept_bind_of | apply queueKept_ite_of
    | intro _ | exact queueKept_modifyP _ (fun _ => (queueKept_same rfl rfl)) | split)

instance queueKept_EXIT_SWITCH_BODY (b : SwitchBackup) :
    KeepsQueue (EXIT_SWITCH_BODY b) := by
  unfold EXIT_SWITCH_BODY
  try dsimp only []
  repeat' (first
    | infer_instance | apply queueKept_bind_of | apply queueKept_ite_of
    | intro _ | exact queueKept_modifyP _ (fun _ => (queueKept_same rfl rfl)) | split)

instance queueKept_ParseSwitchStmt_tests (tok : Token) (t : Expr) (l : List (Int × Nat)) :
    KeepsQueue (ParseSwitchStmt.tests tok t l) := by
  induction l with
  | nil => unfold ParseSwitchStmt.tests; infer_instance
  | cons p rest ih =>
    unfold ParseSwitchStmt.tests
    try dsimp only []
    repeat' (first
    | infer_instance | apply queueKept_bind_of | apply queueKept_ite_of
    | intro _ | exact queueKept_modifyP _ (fun _ => (queueKept_same rfl rfl)) | split)

instance queueKept_ParseSwitchStmt (r : Rec) [RecKeepsQueue r] :
    KeepsQueue (ParseSwitchStmt r) := by
  unfold ParseSwitchStmt
  try dsimp only []
  repeat' (first
    | infer_instance | apply queueKept_bind_of | apply queueKept_ite_of
    | intro _ | exact queueKept_modifyP _ (fun _ => (queueKept_same rfl rfl)) | split)

instance queueKept_ParseCaseStmt (r : Rec) [RecKeepsQueue r] :
    KeepsQueue (ParseCaseStmt r) := by
  unfold ParseCaseStmt
  try dsimp only []
  repeat' (first
    | infer_instance | apply queueKept_bind_of | apply queueKept_ite_of
    | intro _ | exact queueKept_modifyP _ (fun _ => (queueKept_same rfl rfl)) | split)

instance queueKept_ParseDefaultStmt (r : Rec) [RecKeepsQueue r] :
    KeepsQueue (ParseDefaultStmt r) := by
  unfold ParseDefaultStmt
  try dsimp only []
  repeat' (first
    | infer_instance | apply queueKept_bind_of | apply queueKept_ite_of
    | intro _ | exact queueKept_modifyP _ (fun _ => (queueKept_same rfl rfl)) | split)

instance queueKept_ParseContinueStmt  :
    KeepsQueue ParseContinueStmt := by
  unfold ParseContinueStmt
  try dsimp only []
  repeat' (first
    | infer_instance | apply queueKept_bind_of | apply queueKept_ite_of
    | intro _ | exact queueKept_modifyP _ (fun _ => (queueKept_same rfl rfl)) | split)

instance queueKept_ParseBreakStmt  :
    KeepsQueue ParseBreakStmt := by
  unfold ParseBreakStmt
  try dsimp only []
  repeat' (first
    | infer_instance | apply queueKept_bind_of | apply queueKept_ite_of
    | intro _ | exact queueKept_modifyP _ (fun _ => (queueKept_same rfl rfl)) | split)

instance queueKept_ParseReturnStmt (r : Rec) [RecKeepsQueue r] :
    KeepsQueue (ParseReturnStmt r) := by
  unfold ParseReturnStmt
  try dsimp only []
  repeat' (first
    | infer_instance | apply queueKept_bind_of | apply queueKept_ite_of
    | intro _ | exact queueKept_modifyP _ (fun _ => (queueKept_same rfl rfl)) | split)

instance queueKept_ParseLabelStmt (r : Rec) (label : Token) [RecKeepsQueue r] :
    KeepsQueue (ParseLabelStmt r label) := by
  unfold ParseLabelStmt
  try dsimp only []
  repeat' (first
    | infer_instance | apply queueKept_bind_of | apply queueKept_ite_of
    | intro _ | exact queueKept_modifyP _ (fun _ => (queueKept_same rfl rfl)) | split)

/-- The jump that `ParseGotoStmt` queues is a new object, so the queue stays
in order. -/
theorem queueKept_queueJump (label : Token) :
    KeepsQueue (NewJumpStmt none >>= fun unresolvedJump =>
      (modifyP fun s =>
        { s with unresolvedJumps := s.unresolvedJumps ++ [(label, unresolvedJump)] }) >>=
      fun _ => (pure (Stmt.jumpStmt unresolvedJump) : PM Stmt)) :=
  ⟨fun s a s' h => by
    cases h
    refine ⟨Nat.le_succ _, fun hf => ⟨?_, ?_⟩⟩
    · show ((s.unresolvedJumps ++ [(label, s.nextId)]).map (fun p => p.2)).Nodup
      rw [List.map_append, List.nodup_append]
      refine ⟨hf.1, List.nodup_singleton _, ?_⟩
      intro j hj hj2
      rw [List.map_singleton, List.mem_singleton] at hj2
      obtain ⟨p, hp, rfl⟩ := List.mem_map.1 hj
      exact absurd hj2 (Nat.ne_of_lt (hf.2 p hp))
    · intro p hp
      show p.2 < s.nextId + 1
      rcases List.mem_append.1 hp with h1 | h1
      · exact Nat.lt_succ_of_lt (hf.2 p h1)
      · rw [List.mem_singleton] at h1
        rw [h1]
        exact Nat.lt_succ_self _⟩

instance queueKept_ParseGotoStmt : KeepsQueue ParseGotoStmt := by
  unfold ParseGotoStmt
  try dsimp only []
  repeat' (first
    | infer_instance | exact queueKept_queueJump _ | apply queueKept_bind_of
    | apply queueKept_ite_of | intro _ | split)

instance queueKept_ParseStmt (r : Rec) [RecKeepsQueue r] :
    KeepsQueue (ParseStmt r) := by
  unfold ParseStmt
  try dsimp only []
  repeat' (first
    | infer_instance | apply queueKept_bind_of | apply queueKept_ite_of
    | intro _ | exact queueKept_modifyP _ (fun _ => (queueKept_same rfl rfl)) | split)

instance queueKept_EnterFunc  :
    KeepsQueue EnterFunc := by
  unfold EnterFunc
  try dsimp only []
  repeat' (first
    | infer_instance | apply queueKept_bind_of | apply queueKept_ite_of
    | intro _ | exact queueKept_modifyP _ (fun _ => (queueKept_same rfl rfl)) | split)

instance queueKept_ExitFunc_resolve (l : List (Token × Nat)) : KeepsQueue (ExitFunc.resolve l) := by
  induction l with
  | nil => unfold ExitFunc.resolve; infer_instance
  | cons p rest ih =>
    unfold ExitFunc.resolve
    try dsimp only []
    repeat' (first
    | infer_instance | apply queueKept_bind_of | apply queueKept_ite_of
    | intro _ | exact queueKept_modifyP _ (fun _ => (queueKept_same rfl rfl)) | split)

instance queueKept_ExitFunc : KeepsQueue ExitFunc := by
  unfold ExitFunc
  try dsimp only []
  repeat' (first
    | infer_instance | apply queueKept_bind_of | apply queueKept_ite_of
    | intro _ | exact queueKept_modifyP _ (fun _ => (queueKept_same rfl rfl))
    | exact queueKept_modifyP _ (fun _ =>
        ⟨Nat.le_refl _, fun _ => ⟨List.nodup_nil, fun p hp => by cases hp⟩⟩)
    | split)

instance queueKept_IsFuncDef (r : Rec) [RecKeepsQueue r] :
    KeepsQueue (IsFuncDef r) := by
  unfold IsFuncDef
  try dsimp only []
  repeat' (first
    | infer_instance | apply queueKept_bind_of | apply queueKept_ite_of
    | intro _ | exact queueKept_modifyP _ (fun _ => (queueKept_same rfl rfl)) | split)

instance queueKept_ParseFuncDef (r : Rec) [RecKeepsQueue r] :
    KeepsQueue (ParseFuncDef r) := by
  unfold ParseFuncDef
  try dsimp only []
  repeat' (first
    | infer_instance | apply queueKept_bind_of | apply queueKept_ite_of
    | intro _ | exact queueKept_modifyP _ (fun _ => (queueKept_same rfl rfl)) | split)

instance queueKept_unitAdd (stmt : Stmt) :
    KeepsQueue (unitAdd stmt) := by
  unfold unitAdd
  try dsimp only []
  repeat' (first
    | infer_instance | apply queueKept_bind_of | apply queueKept_ite_of
    | intro _ | exact queueKept_modifyP _ (fun _ => (queueKept_same rfl rfl)) | split)

instance queueKept_ParseTranslationUnit_loop (r : Rec) [RecKeepsQueue r] :
    KeepsQueue (ParseTranslationUnit.loop r) := by
  unfold ParseTranslationUnit.loop
  try dsimp only []
  repeat' (first
    | infer_instance | apply queueKept_bind_of | apply queueKept_ite_of
    | intro _ | exact queueKept_modifyP _ (fun _ => (queueKept_same rfl rfl)) | split)

instance queueKept_ParseTranslationUnit (r : Rec) [RecKeepsQueue r] :
    KeepsQueue (ParseTranslationUnit r) := by
  unfold ParseTranslationUnit
  try dsimp only []
  repeat' (first
    | infer_instance | apply queueKept_bind_of | apply queueKept_ite_of
    | intro _ | exact queueKept_modifyP _ (fun _ => (queueKept_same rfl rfl)) | split)

theorem RecKeepsQueue_bottomRec : RecKeepsQueue bottomRec := by
  constructor <;> intros <;> exact queueKept_fail _

theorem RecKeepsQueue_stepRec (r : Rec) [RecKeepsQueue r] : RecKeepsQueue (stepRec r) := by
  constructor <;> intros <;> dsimp only [stepRec] <;> infer_instance

instance parser_keepsQueue : ∀ fuel, RecKeepsQueue (parser fuel)
  | 0 => RecKeepsQueue_bottomRec
  | fuel + 1 => @RecKeepsQueue_stepRec (parser fuel) (parser_keepsQueue fuel)

/-! ## The bodies of the loops and of `switch` are parsed with their labels -/

/-- The body of `while` is parsed in `whileBodyState` of the state after the
condition. -/
theorem ParseWhileStmt_body (r : Rec) (s : Parser) :
    ParseWhileStmt r s =
      (ParseWhileStmt.header r s).andThen (fun c sH =>
        (r.ParseStmt (whileBodyState sH)).andThen (fun body sB =>
          ParseWhileStmt.rest sH.nextId (sH.nextId + 1) (sH.nextId + 2) c
            (sH.breakDest, sH.continueDest) body sB)) := by
  have h : ParseWhileStmt r =
      ParseWhileStmt.header r >>= fun c => (fun sH =>
        (r.ParseStmt (whileBodyState sH)).andThen (fun body sB =>
          ParseWhileStmt.rest sH.nextId (sH.nextId + 1) (sH.nextId + 2) c
            (sH.breakDest, sH.continueDest) body sB) : PM Stmt) := by
    unfold ParseWhileStmt ParseWhileStmt.header
    simp only [PM.bind_assoc]
    rfl
  rw [h, run_bind]

/-- The body of `switch` is parsed in `switchBodyState` of the state after
the header, with the end label of the switch. -/
theorem ParseSwitchStmt_body (r : Rec) (s : Parser) :
    ParseSwitchStmt r s =
      (ParseSwitchStmt.header r s).andThen (fun h sH =>
        (r.ParseStmt (switchBodyState h.endLabel sH)).andThen (fun body sB =>
          ParseSwitchStmt.rest h
            { caseLabelsBackup := sH.caseLabels, defaultLabelBackup := sH.defaultLabel,
              breakDestBackup := sH.breakDest } body sB)) := by
  have h : ParseSwitchStmt r =
      ParseSwitchStmt.header r >>= fun h => (fun sH =>
        (r.ParseStmt (switchBodyState h.endLabel sH)).andThen (fun body sB =>
          ParseSwitchStmt.rest h
            { caseLabelsBackup := sH.caseLabels, defaultLabelBackup := sH.defaultLabel,
              breakDestBackup := sH.breakDest } body sB) : PM Stmt) := by
    unfold ParseSwitchStmt ParseSwitchStmt.header
    simp only [PM.bind_assoc]
    rfl
  rw [h, run_bind]

/-- The lowering of `ParseForStmt` without a condition. -/
theorem ParseForStmt.lower_noCond (r : Rec) (stmts : List Stmt) (step : Expr) (s : Parser) :
    ParseForStmt.lower r stmts .null step s =
      (r.ParseStmt (forBodyStateNoCond s)).andThen (fun S sS =>
        .ok (stmts ++ [.labelStmt s.nextId]
              ++ [S, .labelStmt (s.nextId + 1), step.toStmt, .jumpStmt sS.nextId,
                  .labelStmt (s.nextId + 2)])
          { sS with breakDest := s.breakDest, continueDest := s.continueDest,
                    nextId := sS.nextId + 1,
                    jumps := (sS.nextId, some s.nextId) :: sS.jumps }) := by
  rfl

/-- `ParseStmt` at the keyword `break` is `ParseBreakStmt` after it. -/
theorem ParseStmt_at_break (r : Rec) (s : Parser)
    (h : (tokAt s.toks s.pos).tag = .kw .BREAK) :
    ParseStmt r s = ParseBreakStmt { s with pos := s.pos + 1 } := by
  have heof : (tokAt s.toks s.pos).IsEOF = false := by
    simp only [Token.IsEOF, h, beq_eq_false_iff_ne, ne_eq, reduceCtorEq, Tag.kw.injEq,
      not_false_eq_true]
  unfold ParseStmt
  simp only [run_bind, Next_run, andThen_ok, ErrorIf_run, heof, h, beq_iff_eq, reduceCtorEq,
    Tag.kw.injEq, if_false, if_true, Bool.false_eq_true, List.append_nil]

/-- `ParseStmt` at the keyword `continue` is `ParseContinueStmt` after it. -/
theorem ParseStmt_at_continue (r : Rec) (s : Parser)
    (h : (tokAt s.toks s.pos).tag = .kw .CONTINUE) :
    ParseStmt r s = ParseContinueStmt { s with pos := s.pos + 1 } := by
  have heof : (tokAt s.toks s.pos).IsEOF = false := by
    simp only [Token.IsEOF, h, beq_eq_false_iff_ne, ne_eq, reduceCtorEq, Tag.kw.injEq,
      not_false_eq_true]
  unfold ParseStmt
  simp only [run_bind, Next_run, andThen_ok, ErrorIf_run, heof, h, beq_iff_eq, reduceCtorEq,
    Tag.kw.injEq, if_false, if_true, Bool.false_eq_true, List.append_nil]

/-! ## C34: `break` and `continue` -/

/-- C34 (amended): `ParseBreakStmt` returns a new jump whose target is
`_breakDest` and reports 'break is allowed only in switch/loop' exactly when
`_breakDest` is null; `ParseContinueStmt` does the same with
`_continueDest`.  Next to that diagnostic there is only the one of
`Expect(';')`, reported exactly when the next token is not `;`.
`ENTER_LOOP_BODY` sets both destinations for the body and `EXIT_LOOP_BODY`
restores the former ones, `ENTER_SWITCH_BODY` and `EXIT_SWITCH_BODY` do so
for `_breakDest`; and whenever `ParseWhileStmt`, `ParseDoStmt`,
`ParseForStmt`, `ParseSwitchStmt` or `ParseStmt` returns, at any recursion
depth and from any state, `_breakDest` and `_continueDest` are the ones of
the call.  Each of the four functions parses its body in a state in which
the destinations are its own labels: `while` in `whileBodyState` (end label
and condition label), `do` in `doBodyState`, `for` in `forBodyState` or
`forBodyStateNoCond`, `switch` in `switchBodyState` (its end label, and the
destination of `continue` of the call); and `ParseStmt` at the keyword
`break` or `continue` is `ParseBreakStmt` or `ParseContinueStmt` in the
state after the keyword.  So the destinations in force in a body are those
of the innermost enclosing loop or switch. -/
theorem break_continue_destinations (s : Parser) :
    ParseBreakStmt s =
        .ok (.jumpStmt s.nextId)
          { (Expect1 (.chr ';') s).state with
              nextId := s.nextId + 1,
              jumps := (s.nextId, s.breakDest) :: s.jumps,
              errors := (Expect1 (.chr ';') s).state.errors ++
                if s.breakDest.isNone = true then [breakOutside (tokAt s.toks s.pos).coord]
                else [] }
      ∧ ParseContinueStmt s =
        .ok (.jumpStmt s.nextId)
          { (Expect1 (.chr ';') s).state with
              nextId := s.nextId + 1,
              jumps := (s.nextId, s.continueDest) :: s.jumps,
              errors := (Expect1 (.chr ';') s).state.errors ++
                if s.continueDest.isNone = true then
                  [continueOutside (tokAt s.toks s.pos).coord]
                else [] }
      ∧ (Expect1 (.chr ';') s).state.errors = s.errors ++
          (if (tokAt s.toks s.pos).tag = .chr ';' then []
           else [{ coord := (tokAt s.toks s.pos).coord, fmt := "'%s' expected, but got '%s'",
                   args := [";", (tokAt s.toks s.pos).str] }])
      ∧ ((tokAt s.toks s.pos).tag = .chr ';' →
          (Expect1 (.chr ';') s).state = { s with pos := s.pos + 1 })
      ∧ (∀ (b c : Nat) (s0 : Parser), ENTER_LOOP_BODY b c s0 =
          .ok (s0.breakDest, s0.continueDest)
            { s0 with breakDest := some b, continueDest := some c })
      ∧ (∀ (backup : Option Nat × Option Nat) (s0 : Parser), EXIT_LOOP_BODY backup s0 =
          .ok () { s0 with breakDest := backup.1, continueDest := backup.2 })
      ∧ (∀ (b : Nat) (s0 : Parser),
          (ENTER_SWITCH_BODY b s0).state.breakDest = some b
            ∧ (ENTER_SWITCH_BODY b s0).state.continueDest = s0.continueDest
            ∧ (ENTER_SWITCH_BODY b s0).value?.map (fun k => k.breakDestBackup)
              = some s0.breakDest)
      ∧ (∀ (fuel : Nat) (s0 s1 : Parser) (S : Stmt),
          (ParseWhileStmt (parser fuel) s0 = .ok S s1 ∨ ParseDoStmt (parser fuel) s0 = .ok S s1
            ∨ ParseForStmt (parser fuel) s0 = .ok S s1
            ∨ ParseSwitchStmt (parser fuel) s0 = .ok S s1
            ∨ ParseStmt (parser fuel) s0 = .ok S s1) →
          s1.breakDest = s0.breakDest ∧ s1.continueDest = s0.continueDest)
      ∧ (∀ (r : Rec) (s0 : Parser), ParseWhileStmt r s0 =
          (ParseWhileStmt.header r s0).andThen (fun c sH =>
            (r.ParseStmt (whileBodyState sH)).andThen (fun body sB =>
              ParseWhileStmt.rest sH.nextId (sH.nextId + 1) (sH.nextId + 2) c
                (sH.breakDest, sH.continueDest) body sB)))
      ∧ (∀ s0, (whileBodyState s0).breakDest = some (s0.nextId + 1)
          ∧ (whileBodyState s0).continueDest = some s0.nextId)
      ∧ (∀ (r : Rec) (s0 : Parser), ParseDoStmt r s0 =
          (r.ParseStmt (doBodyState s0)).andThen (fun body sB =>
            ParseDoStmt.rest r s0.nextId (s0.nextId + 1) (s0.nextId + 2)
              (s0.breakDest, s0.continueDest) body sB))
      ∧ (∀ s0, (doBodyState s0).breakDest = some (s0.nextId + 2)
          ∧ (doBodyState s0).continueDest = some s0.nextId)
      ∧ (∀ (r : Rec) (s0 : Parser), ParseForStmt.body r s0 =
          (ParseForStmt.header r s0).andThen
            (fun h sH => ParseForStmt.lower r h.1 h.2.1 h.2.2 sH))
      ∧ (∀ (r : Rec) (stmts : List Stmt) (c step : Expr) (sH : Parser), c ≠ .null →
          ParseForStmt.lower r stmts c step sH =
            (r.ParseStmt (forBodyState sH)).andThen (fun S sS =>
              .ok (stmts ++ [.labelStmt sH.nextId]
                    ++ [.ifStmt c .null (.jumpStmt (sH.nextId + 3))]
                    ++ [S, .labelStmt (sH.nextId + 1), step.toStmt, .jumpStmt sS.nextId,
                        .labelStmt (sH.nextId + 2)])
                { sS with breakDest := sH.breakDest, continueDest := sH.continueDest,
                          nextId := sS.nextId + 1,
                          jumps := (sS.nextId, some sH.nextId) :: sS.jumps }))
      ∧ (∀ (r : Rec) (stmts : List Stmt) (step : Expr) (sH : Parser),
          ParseForStmt.lower r stmts .null step sH =
            (r.ParseStmt (forBodyStateNoCond sH)).andThen (fun S sS =>
              .ok (stmts ++ [.labelStmt sH.nextId]
                    ++ [S, .labelStmt (sH.nextId + 1), step.toStmt, .jumpStmt sS.nextId,
                        .labelStmt (sH.nextId + 2)])
                { sS with breakDest := sH.breakDest, continueDest := sH.continueDest,
                          nextId := sS.nextId + 1,
                          jumps := (sS.nextId, some sH.nextId) :: sS.jumps }))
      ∧ (∀ s0, (forBodyState s0).breakDest = some (s0.nextId + 2)
          ∧ (forBodyState s0).continueDest = some s0.nextId
          ∧ (forBodyStateNoCond s0).breakDest = some (s0.nextId + 2)
          ∧ (forBodyStateNoCond s0).continueDest = some s0.nextId)
      ∧ (∀ (r : Rec) (s0 : Parser), ParseSwitchStmt r s0 =
          (ParseSwitchStmt.header r s0).andThen (fun h sH =>
            (r.ParseStmt (switchBodyState h.endLabel sH)).andThen (fun body sB =>
              ParseSwitchStmt.rest h
                { caseLabelsBackup := sH.caseLabels, defaultLabelBackup := sH.defaultLabel,
                  breakDestBackup := sH.breakDest } body sB)))
      ∧ (∀ (e : Nat) (s0 : Parser), (switchBodyState e s0).breakDest = some e
          ∧ (switchBodyState e s0).continueDest = s0.continueDest)
      ∧ (∀ (r : Rec) (s0 : Parser), (tokAt s0.toks s0.pos).tag = .kw .BREAK →
          ParseStmt r s0 = ParseBreakStmt { s0 with pos := s0.pos + 1 })
      ∧ (∀ (r : Rec) (s0 : Parser), (tokAt s0.toks s0.pos).tag = .kw .CONTINUE →
          ParseStmt r s0 = ParseContinueStmt { s0 with pos := s0.pos + 1 }) := by
  obtain ⟨sE, hE, hn, hj, hb, hc, he⟩ := Expect1_returns (.chr ';') s
  have hst : (Expect1 (.chr ';') s).state = sE := by rw [hE]; rfl
  rw [hst]
  refine ⟨?_, ?_, he, ?_, fun _ _ _ => rfl, fun _ _ => rfl, fun _ _ => ⟨rfl, rfl, rfl⟩, ?_,
    ParseWhileStmt_body, fun _ => ⟨rfl, rfl⟩, ParseDoStmt_body, fun _ => ⟨rfl, rfl⟩,
    ParseForStmt.body_eq, fun r stmts c step sH hc => ParseForStmt.lower_body r stmts c step sH hc,
    ParseForStmt.lower_noCond, fun _ => ⟨rfl, rfl, rfl, rfl⟩, ParseSwitchStmt_body,
    fun _ _ => ⟨rfl, rfl⟩, ParseStmt_at_break, ParseStmt_at_continue⟩
  · unfold ParseBreakStmt
    simp only [run_bind, Peek, andThen_ok, hE, getP, ErrorIf_run, NewJumpStmt, freshId, modifyP,
      run_pure, hn, hj, hb]
    rfl
  · unfold ParseContinueStmt
    simp only [run_bind, Peek, andThen_ok, hE, getP, ErrorIf_run, NewJumpStmt, freshId, modifyP,
      run_pure, hn, hj, hc]
    rfl
  · intro h
    rw [← hst, Expect1_match _ s h]
    rfl
  · intro fuel s0 s1 S h
    clear hE hn hj hb hc he hst sE
    obtain ⟨hb, hc, hlb, hlc⟩ := parser_keepsDests fuel
    rcases h with h | h | h | h | h
    · exact ⟨(keepsField_ParseWhileStmt _ ofDests_breakDest _ hb hlb).keeps _ _ _ h,
        (keepsField_ParseWhileStmt _ ofDests_continueDest _ hc hlc).keeps _ _ _ h⟩
    · exact ⟨(keepsField_ParseDoStmt _ ofDests_breakDest _ hb hlb).keeps _ _ _ h,
        (keepsField_ParseDoStmt _ ofDests_continueDest _ hc hlc).keeps _ _ _ h⟩
    · exact ⟨(keepsField_ParseForStmt _ ofDests_breakDest _ hb hlb).keeps _ _ _ h,
        (keepsField_ParseForStmt _ ofDests_continueDest _ hc hlc).keeps _ _ _ h⟩
    · exact ⟨(keepsBreak_ParseSwitchStmt _).keeps _ _ _ h,
        (keepsCont_ParseSwitchStmt _ hc).keeps _ _ _ h⟩
    · exact ⟨(keepsField_ParseStmt _ ofDests_breakDest _ hb hlb
          (keepsBreak_ParseSwitchStmt _)).keeps _ _ _ h,
        (keepsField_ParseStmt _ ofDests_continueDest _ hc hlc
          (keepsCont_ParseSwitchStmt _ hc)).keeps _ _ _ h⟩

/-- Outside any loop `break;` is diagnosed and its jump has no target.  In
`while (1) { while (2) break; continue; }` the jump of `break` (handle 9)
goes to the end label 7 of the inner loop and the jump of `continue` (handle
11) to the condition label 2 of the outer loop; in `while (1) switch (2)
{ case 3: continue; default: break; }` the jump of `continue` (handle 10)
goes to the label 2 of the loop and the jump of `break` (handle 12) to the
end label 6 of the switch; no diagnostic, and both destinations are null
again at the end. -/
theorem break_continue_destinations_witness :
    (tokAt breakOutsideStart.toks breakOutsideStart.pos).tag = .chr ';'
      ∧ (Expect1 (.chr ';') breakOutsideStart).state
        = { breakOutsideStart with pos := breakOutsideStart.pos + 1 }
      ∧ (ParseBreakStmt breakOutsideStart).value? = some (.jumpStmt breakOutsideStart.nextId)
      ∧ (ParseBreakStmt breakOutsideStart).state.errors = [breakOutside 2]
      ∧ (ParseStmt (parser 40) (stateAt toksBreakOutside)).state.errors
        = [breakOutside 2, continueOutside 4]
      ∧ (ParseStmt (parser 40) (stateAt toksBreakOutside)).state.jumps = [(4, none), (3, none)]
      ∧ (ParseStmt (parser 40) (stateAt toksNestedLoops)).failure? = none
      ∧ (ParseStmt (parser 40) (stateAt toksNestedLoops)).state.jumps
        = [(12, some 2), (11, some 2), (10, some 6), (9, some 7), (8, some 7), (4, some 3)]
      ∧ (ParseStmt (parser 40) (stateAt toksNestedLoops)).state.errors = []
      ∧ (ParseStmt (parser 40) (stateAt toksNestedLoops)).state.breakDest = none
      ∧ (ParseStmt (parser 40) (stateAt toksNestedLoops)).state.continueDest = none
      ∧ (ParseStmt (parser 40) (stateAt toksLoopSwitch)).failure? = none
      ∧ (ParseStmt (parser 40) (stateAt toksLoopSwitch)).state.jumps
        = [(15, some 2), (14, some 11), (13, some 9), (12, some 6), (10, some 2), (7, some 5),
           (4, some 3)]
      ∧ (ParseStmt (parser 40) (stateAt toksLoopSwitch)).state.errors = []
      ∧ (ParseStmt (parser 40) (stateAt toksLoopSwitch)).state.breakDest = none
      ∧ (ParseStmt (parser 40) (stateAt toksLoopSwitch)).state.continueDest = none :=
  have h1 : (tokAt breakOutsideStart.toks breakOutsideStart.pos).tag = .chr ';' := by decide!
  have hN : ParseStmt (parser 40) (stateAt toksNestedLoops)
      = .ok ((ParseStmt (parser 40) (stateAt toksNestedLoops)).value?.getD .null)
          (ParseStmt (parser 40) (stateAt toksNestedLoops)).state :=
    Res.eq_ok_of_value _ _ (by decide!)
  have hW : ParseStmt (parser 40) (stateAt toksLoopSwitch)
      = .ok ((ParseStmt (parser 40) (stateAt toksLoopSwitch)).value?.getD .null)
          (ParseStmt (parser 40) (stateAt toksLoopSwitch)).state :=
    Res.eq_ok_of_value _ _ (by decide!)
  ⟨h1, (break_continue_destinations breakOutsideStart).2.2.2.1 h1, by decide!, by decide!,
    by decide!, by decide!,
    by decide!, by decide!, by decide!,
    ((break_continue_destinations breakOutsideStart).2.2.2.2.2.2.2.1 40 _ _ _
      (Or.inr (Or.inr (Or.inr (Or.inr hN))))).1,
    ((break_continue_destinations breakOutsideStart).2.2.2.2.2.2.2.1 40 _ _ _
      (Or.inr (Or.inr (Or.inr (Or.inr hN))))).2,
    by decide!, by decide!, by decide!,
    ((break_continue_destinations breakOutsideStart).2.2.2.2.2.2.2.1 40 _ _ _
      (Or.inr (Or.inr (Or.inr (Or.inr hW))))).1,
    ((break_continue_destinations breakOutsideStart).2.2.2.2.2.2.2.1 40 _ _ _
      (Or.inr (Or.inr (Or.inr (Or.inr hW))))).2⟩

/-- C34, counterexample: `ParseBreakStmt` and `ParseContinueStmt` report a
diagnostic although a loop is being parsed.  In `while ( 1 ) break x ;` the
body is parsed with `_breakDest` set to the end label 3 of the loop, and
`ParseBreakStmt`, called at the `x`, reports "';' expected, but got 'x'";
the jump it returns targets the label 3.  `ParseContinueStmt` does the same
in `while ( 1 ) continue x ;`, with `_continueDest` set to the label 2. -/
theorem break_continue_diagnosed_in_loop :
    ((whileJumpState toksBreakNoSemicolon).breakDest = some 3
        ∧ (whileJumpState toksBreakNoSemicolon).errors = []
        ∧ (ParseBreakStmt (whileJumpState toksBreakNoSemicolon)).state.errors
          = [semicolonExpected (mkTok (.kw .IDENTIFIER) "x" 5)]
        ∧ (ParseBreakStmt (whileJumpState toksBreakNoSemicolon)).value? = some (.jumpStmt 5)
        ∧ (ParseBreakStmt (whileJumpState toksBreakNoSemicolon)).state.jumpTarget 5 = some 3
        ∧ (ParseStmt (parser 40) (stateAt toksBreakNoSemicolon)).failure? = none
        ∧ (ParseStmt (parser 40) (stateAt toksBreakNoSemicolon)).state.errors
          = [semicolonExpected (mkTok (.kw .IDENTIFIER) "x" 5)])
      ∧ ((whileJumpState toksContinueNoSemicolon).continueDest = some 2
        ∧ (whileJumpState toksContinueNoSemicolon).errors = []
        ∧ (ParseContinueStmt (whileJumpState toksContinueNoSemicolon)).state.errors
          = [semicolonExpected (mkTok (.kw .IDENTIFIER) "x" 5)]
        ∧ (ParseContinueStmt (whileJumpState toksContinueNoSemicolon)).value?
          = some (.jumpStmt 5)
        ∧ (ParseContinueStmt (whileJumpState toksContinueNoSemicolon)).state.jumpTarget 5
          = some 2
        ∧ (ParseStmt (parser 40) (stateAt toksContinueNoSemicolon)).failure? = none
        ∧ (ParseStmt (parser 40) (stateAt toksContinueNoSemicolon)).state.errors
          = [semicolonExpected (mkTok (.kw .IDENTIFIER) "x" 5)]) :=
  ⟨⟨by decide!, by decide!, by decide!, by decide!, by decide!, by decide!, by decide!⟩,
    ⟨by decide!, by decide!, by decide!, by decide!, by decide!, by decide!, by decide!⟩⟩

/-! ## C7: `ExitFunc` and the queue of unresolved jumps -/

instance queueKept_ParseFuncDef_header (r : Rec) [RecKeepsQueue r] :
    KeepsQueue (ParseFuncDef.header r) := by
  unfold ParseFuncDef.header
  try dsimp only []
  repeat' (first
    | infer_instance | apply queueKept_bind_of | apply queueKept_ite_of
    | intro _ | exact queueKept_modifyP _ (fun _ => (queueKept_same rfl rfl)) | split)

/-- `ParseFuncDef` is the header, the body, `ExitFunc` and the end. -/
theorem ParseFuncDef_parts (r : Rec) (s : Parser) :
    ParseFuncDef r s =
      (ParseFuncDef.header r s).andThen (fun type sH =>
        (ParseCompoundStmt r sH).andThen (fun stmt sB =>
          (ExitFunc sB).andThen (fun _ sE => ParseFuncDef.finish type stmt sE))) := by
  have h : ParseFuncDef r =
      ParseFuncDef.header r >>= fun type => ParseCompoundStmt r >>= fun stmt =>
        ExitFunc >>= fun _ => ParseFuncDef.finish type stmt := by
    unfold ParseFuncDef ParseFuncDef.header ParseFuncDef.finish
    simp only [PM.bind_assoc]
    rfl
  rw [h]
  rfl

/-- A run that returned through `andThen` returned in both parts. -/
theorem andThen_ok_inv {α β : Type} {x : Res α} {f : α → Parser → Res β} {b : β}
    {s' : Parser} (h : x.andThen f = .ok b s') :
    ∃ a s1, x = .ok a s1 ∧ f a s1 = .ok b s' := by
  cases x with
  | ok a s1 => exact ⟨a, s1, rfl, h⟩
  | fail e s1 => cases h

/-- The end of `ParseFuncDef` leaves the state as it is. -/
theorem ParseFuncDef.finish_state (type : CType) (stmt S : Stmt) (sE s1 : Parser)
    (h : ParseFuncDef.finish type stmt sE = .ok S s1) : s1 = sE := by
  cases type <;> first
    | exact (Res.ok.inj h).2.symm
    | exact Res.noConfusion h

/-- `ParseLabelStmt` binds the name of the label to a new `LabelStmt`, the
first statement of what it returns. -/
theorem ParseLabelStmt_run (r : Rec) (label : Token) (s s1 : Parser) (stmt : Stmt)
    (h : r.ParseStmt s = .ok stmt s1) :
    ParseLabelStmt r label s =
      .ok (.compoundStmt [.labelStmt s1.nextId, stmt])
        { s1 with nextId := s1.nextId + 1,
                  curLabels := (label.str, s1.nextId) :: s1.curLabels,
                  errors := s1.errors ++
                    if (s1.curLabels.lookup label.str).isSome = true then
                      [redefinitionOfLabel label]
                    else [] } := by
  unfold ParseLabelStmt
  simp only [run_bind, h, andThen_ok, FindLabel, ErrorIf_run, NewLabelStmt, freshId, AddLabel,
    modifyP, run_pure]
  rfl

/-- What `ExitFunc` does in a state whose queued jumps are distinct. -/
theorem ExitFunc_run_fresh (s : Parser) (hfresh : s.QueueFresh) :
    ∃ s', ExitFunc s = .ok () s' ∧ s'.unresolvedJumps = [] ∧ s'.curLabels = [] ∧
      (∀ label jump, (label, jump) ∈ s.unresolvedJumps →
        s'.jumpTarget jump = s.curLabels.lookup label.str) ∧
      s'.errors = s.errors ++ undefinedLabelDiags s.curLabels s.unresolvedJumps := by
  have hrun : ExitFunc s = .ok ()
      { s with errors := s.errors ++ undefinedLabelDiags s.curLabels s.unresolvedJumps,
               jumps := resolvedJumps s.curLabels s.unresolvedJumps s.jumps,
               unresolvedJumps := [], curLabels := [] } := by
    simp only [ExitFunc, run_bind, getP_run, andThen_ok, ExitFunc_resolve_run, modifyP]
  refine ⟨_, hrun, rfl, rfl, ?_, rfl⟩
  intro label jump hmem
  simp only [Parser.jumpTarget]
  rw [lookup_resolvedJumps_of_mem s.curLabels s.unresolvedJumps hfresh.1 label jump hmem]
  rfl

/-- What `ParseGotoStmt` does. -/
theorem ParseGotoStmt_run (s0 : Parser) :
    ∃ s1 errs, ParseGotoStmt s0 = .ok (.jumpStmt s0.nextId) s1 ∧
      s1.errors = s0.errors ++ errs ∧
      (∀ d ∈ errs, d.fmt = "'%s' expected, but got '%s'") ∧
      s1.jumpTarget s0.nextId = s0.curLabels.lookup (tokAt s0.toks s0.pos).str ∧
      s1.curLabels = s0.curLabels ∧
      s1.unresolvedJumps =
        (match s0.curLabels.lookup (tokAt s0.toks s0.pos).str with
         | some _ => s0.unresolvedJumps
         | none => s0.unresolvedJumps ++ [(tokAt s0.toks s0.pos, s0.nextId)]) := by
  obtain ⟨e1, p1, h1, he1⟩ := Expect_run (.kw .IDENTIFIER) (.chr ',') (.chr ';') s0
  obtain ⟨e2, p2, h2, he2⟩ := Expect_run (.chr ';') (.chr ',') (.chr ';')
    { s0 with errors := s0.errors ++ e1, pos := p1 }
  have herrs : ∀ d ∈ e1 ++ e2, d.fmt = "'%s' expected, but got '%s'" := by
    intro d hd
    rcases List.mem_append.1 hd with h | h
    · exact he1 d h
    · exact he2 d h
  cases hl : s0.curLabels.lookup (tokAt s0.toks s0.pos).str with
  | some l =>
    have hrun : ParseGotoStmt s0 = .ok (.jumpStmt s0.nextId)
        { s0 with errors := s0.errors ++ e1 ++ e2, pos := p2, nextId := s0.nextId + 1,
                  jumps := (s0.nextId, some l) :: s0.jumps } := by
      simp only [ParseGotoStmt, run_bind, Peek, andThen_ok, Expect1, h1, h2, FindLabel, hl,
        NewJumpStmt, freshId, modifyP, run_pure]
    refine ⟨_, e1 ++ e2, hrun, ?_, herrs, ?_, rfl, rfl⟩
    · simp only [List.append_assoc]
    · simp only [Parser.jumpTarget, List.lookup_cons, beq_self_eq_true, Option.join]
      rfl
  | none =>
    have hrun : ParseGotoStmt s0 = .ok (.jumpStmt s0.nextId)
        { s0 with errors := s0.errors ++ e1 ++ e2, pos := p2, nextId := s0.nextId + 1,
                  jumps := (s0.nextId, none) :: s0.jumps,
                  unresolvedJumps := s0.unresolvedJumps ++ [(tokAt s0.toks s0.pos, s0.nextId)] } := by
      simp only [ParseGotoStmt, run_bind, Peek, andThen_ok, Expect1, h1, h2, FindLabel, hl,
        NewJumpStmt, freshId, modifyP, run_pure]
    refine ⟨_, e1 ++ e2, hrun, ?_, herrs, ?_, rfl, rfl⟩
    · simp only [List.append_assoc]
    · simp only [Parser.jumpTarget, List.lookup_cons, beq_self_eq_true, Option.join]
      rfl

/-- The queue of the initial state is empty. -/
theorem queueFresh_init (toks : List Token) : (Parser.init toks).QueueFresh :=
  ⟨List.nodup_nil, fun p hp => by cases hp⟩
end Wgtcc
